import Mathlib

/-! # STIX 2.1 projection of store instances (`stix-converter.ts`)

A shallow embedding of `opencti-graphql/src/database/stix-converter.ts`.

* JavaScript values are modelled by `JValue`; an object is the list of its
  entries in insertion order (`Obj`), an entry whose value is `undefined`
  is a present key, exactly as in an object literal `{ id: undefined }`.
* A store instance is an `Obj`: the mapping from attribute name (or relation
  slot key) to value.
* A `throw` is the `Except.error` branch.  `Err.typeError` stands for the
  `TypeError` the JavaScript runtime raises when a value is used outside its
  declared TypeScript type (`.map` on a non array, a property read on
  `null`, `uuid.version` on something that is not a UUID, ...).
* Constants and predicates imported from `../schema/*` and
  `../types/stix-extensions` are fields of `Schema`.
-/

namespace StixConverter

/-! ## JavaScript values -/

/-- JSON-like JavaScript values.  Numbers are carried as integers: the
converter never computes with them, it only passes them through. -/
inductive JValue where
  | undefined
  | null
  | bool (b : Bool)
  | num (n : Int)
  | str (s : String)
  | arr (xs : List JValue)
  | obj (kvs : List (String × JValue))
  deriving Repr, Inhabited

/-- An object: its entries in insertion order. -/
abbrev Obj := List (String × JValue)

/-- Errors raised by the converter. -/
inductive Err where
  | unsupported (message : String)
  | functional (message : String)
  | typeError
  deriving Repr, DecidableEq

/-- Property read `o[k]`: `undefined` when the key is absent. -/
def getProp : Obj → String → JValue
  | [], _ => .undefined
  | (k', v) :: rest, k => if k' = k then v else getProp rest k

/-- Own-key test `k in o`. -/
def hasProp : Obj → String → Bool
  | [], _ => false
  | (k', _) :: rest, k => if k' = k then true else hasProp rest k

/-- Property write `o[k] = v`: an existing key keeps its position. -/
def setProp : Obj → String → JValue → Obj
  | [], k, v => [(k, v)]
  | (k', v') :: rest, k, v => if k' = k then (k', v) :: rest else (k', v') :: setProp rest k v

/-- Object literal with a spread: `{ ...base, k1: v1, k2: v2, ... }`. -/
def assign (base : Obj) (fields : Obj) : Obj :=
  fields.foldl (fun o kv => setProp o kv.1 kv.2) base

/-- Object literal `{ k1: v1, k2: v2, ... }` (a repeated key keeps the last value). -/
def mkObj (fields : Obj) : Obj := assign [] fields

/-- Number of own entries of a value, `Object.entries(v).length`, for a value
that is neither `null` nor `undefined`. -/
def entriesLength : JValue → Nat
  | .obj kvs => kvs.length
  | .arr xs => xs.length
  | .str s => (s.data.map Char.utf16Size).foldl (fun a n => a + n.toNat) 0
  | _ => 0

/-- Nullish coalescing `v ?? d`. -/
def nullish (v d : JValue) : JValue :=
  match v with
  | .undefined => d
  | .null => d
  | _ => v

/-- JavaScript truthiness. -/
def truthy : JValue → Bool
  | .undefined => false
  | .null => false
  | .bool b => b
  | .num n => n != 0
  | .str s => s != ""
  | _ => true

/-- Property read `v.k` on an arbitrary value: a `TypeError` on `null` and
`undefined`, `undefined` on a primitive or an array (none of the keys the
converter reads is a prototype property). -/
def prop (v : JValue) (k : String) : Except Err JValue :=
  match v with
  | .undefined => throw .typeError
  | .null => throw .typeError
  | .obj kvs => pure (getProp kvs k)
  | _ => pure .undefined

/-- Optional chaining `v?.k`. -/
def optProp (v : JValue) (k : String) : JValue :=
  match v with
  | .obj kvs => getProp kvs k
  | _ => .undefined

/-- Element read `v[0]` followed by `?.k`, as in `(slot ?? [])[0]?.standard_id`. -/
def firstOptProp (v : JValue) (k : String) : JValue :=
  match v with
  | .arr (x :: _) => optProp x k
  | .obj kvs => optProp (getProp kvs "0") k
  | _ => .undefined

/-- Sequencing of a fallible function over a list, left to right. -/
def traverse (f : JValue → Except Err JValue) : List JValue → Except Err (List JValue)
  | [] => pure []
  | x :: xs => do
    let y ← f x
    let ys ← traverse f xs
    pure (y :: ys)

/-- Sequencing of a fallible predicate over a list, keeping the elements it accepts. -/
def filterM (p : JValue → Except Err Bool) : List JValue → Except Err (List JValue)
  | [] => pure []
  | x :: xs => do
    let b ← p x
    let ys ← filterM p xs
    pure (if b then x :: ys else ys)

/-- Call `v.map(f)`: a `TypeError` when `v` has no `map` method. -/
def mapArray (f : JValue → Except Err JValue) (v : JValue) : Except Err JValue :=
  match v with
  | .arr xs => do
    let ys ← traverse f xs
    pure (.arr ys)
  | _ => throw .typeError

/-- Call `v.filter(p)`: a `TypeError` when `v` has no `filter` method. -/
def filterArray (p : JValue → Except Err Bool) (v : JValue) : Except Err JValue :=
  match v with
  | .arr xs => do
    let ys ← filterM p xs
    pure (.arr ys)
  | _ => throw .typeError

mutual
/-- String conversion of a value inside a template literal. -/
def toJsString : JValue → String
  | .undefined => "undefined"
  | .null => "null"
  | .bool b => if b then "true" else "false"
  | .num n => toString n
  | .str s => s
  | .arr xs => joinJs xs
  | .obj _ => "[object Object]"
/-- String conversion of an array: `Array.prototype.join(",")`. -/
def joinJs : List JValue → String
  | [] => ""
  | [x] =>
    match x with
    | .undefined => ""
    | .null => ""
    | y => toJsString y
  | x :: y :: rest =>
    (match x with
      | .undefined => ""
      | .null => ""
      | z => toJsString z) ++ "," ++ joinJs (y :: rest)
end

/-- Segments of `s.split('--')`, on the characters of `s`; `acc` holds the
current segment, reversed. -/
def splitDashes : List Char → List Char → List (List Char)
  | acc, [] => [acc.reverse]
  | acc, '-' :: '-' :: rest => acc.reverse :: splitDashes [] rest
  | acc, c :: rest => splitDashes (c :: acc) rest

/-- `String.prototype.toLowerCase` on a string of ASCII characters: `A`-`Z`
become `a`-`z` and every other character is kept. The source primitive also
lower-cases the cased letters outside ASCII, which this definition keeps as
they are: a statement about the value of the result is made for the strings
that satisfy `asciiOnly`. -/
def toLowerCase (s : String) : String := String.mk (s.data.map Char.toLower)

/-- Whether every character of `s` is an ASCII character (code point below
128), as in every type identifier of the schema. -/
def asciiOnly (s : String) : Bool := s.data.all fun c => c.val < 128

/-- Spread of a value inside an object literal, `{ ...v }`, for a value that is
an object or `undefined`. -/
def spread : JValue → Obj
  | .obj kvs => kvs
  | _ => []

/-- The `extensions` mapping of an object built by the converter. -/
def extensionsOf (o : Obj) : Obj := spread (getProp o "extensions")

/-! ## Schema: what the converter imports -/

/-- The predicates and constants the converter imports from `../schema/*`,
`../types/stix-extensions`, `./utils` and the `uuid` package. -/
structure Schema where
  isStixObject : String → Bool
  isStixRelationship : String → Bool
  isStixCyberObservableRelationship : String → Bool
  isStixMetaObject : String → Bool
  isStixDomainObject : String → Bool
  isStixDomainObjectIdentity : String → Bool
  isStixDomainObjectLocation : String → Bool
  isStixCoreRelationship : String → Bool
  isStixSightingRelationship : String → Bool
  isStixCyberObservable : String → Bool
  isStixMetaRelationship : String → Bool
  /-- The function `isInferredIndex` of `./utils`. -/
  isInferredIndex : String → Bool
  /-- The function `version` of the `uuid` package: `none` when it throws. -/
  uuidVersion : String → Option Nat
  STIX_EXT_OCTI : String
  STIX_EXT_OCTI_SCO : String
  STIX_EXT_MITRE : String
  ENTITY_TYPE_EXTERNAL_REFERENCE : String
  ENTITY_TYPE_KILL_CHAIN_PHASE : String
  ENTITY_TYPE_LABEL : String
  ENTITY_TYPE_MARKING_DEFINITION : String
  ENTITY_TYPE_ATTACK_PATTERN : String
  ENTITY_TYPE_CAMPAIGN : String
  ENTITY_TYPE_CONTAINER_NOTE : String
  ENTITY_TYPE_CONTAINER_OBSERVED_DATA : String
  ENTITY_TYPE_CONTAINER_OPINION : String
  ENTITY_TYPE_CONTAINER_REPORT : String
  ENTITY_TYPE_COURSE_OF_ACTION : String
  ENTITY_TYPE_INCIDENT : String
  ENTITY_TYPE_INDICATOR : String
  ENTITY_TYPE_INFRASTRUCTURE : String
  ENTITY_TYPE_INTRUSION_SET : String
  ENTITY_TYPE_MALWARE : String
  ENTITY_TYPE_THREAT_ACTOR : String
  ENTITY_TYPE_TOOL : String
  ENTITY_TYPE_VULNERABILITY : String
  ENTITY_AUTONOMOUS_SYSTEM : String
  ENTITY_CRYPTOGRAPHIC_KEY : String
  ENTITY_CRYPTOGRAPHIC_WALLET : String
  ENTITY_DIRECTORY : String
  ENTITY_DOMAIN_NAME : String
  ENTITY_EMAIL_ADDR : String
  ENTITY_EMAIL_MESSAGE : String
  ENTITY_EMAIL_MIME_PART_TYPE : String
  ENTITY_HASHED_OBSERVABLE_ARTIFACT : String
  ENTITY_HASHED_OBSERVABLE_STIX_FILE : String
  ENTITY_HASHED_OBSERVABLE_X509_CERTIFICATE : String
  ENTITY_HOSTNAME : String
  ENTITY_IPV4_ADDR : String
  ENTITY_IPV6_ADDR : String
  ENTITY_MAC_ADDR : String
  ENTITY_MUTEX : String
  ENTITY_NETWORK_TRAFFIC : String
  ENTITY_PROCESS : String
  ENTITY_SOFTWARE : String
  ENTITY_TEXT : String
  ENTITY_URL : String
  ENTITY_USER_ACCOUNT : String
  ENTITY_WINDOWS_REGISTRY_KEY : String
  ENTITY_WINDOWS_REGISTRY_VALUE_TYPE : String
  INPUT_BCC : String
  INPUT_BELONGS_TO : String
  INPUT_BODY_MULTIPART : String
  INPUT_BODY_RAW : String
  INPUT_CC : String
  INPUT_CHILD : String
  INPUT_CONTAINS : String
  INPUT_CONTENT : String
  INPUT_CREATOR_USER : String
  INPUT_DST : String
  INPUT_DST_PAYLOAD : String
  INPUT_ENCAPSULATED_BY : String
  INPUT_ENCAPSULATES : String
  INPUT_FROM : String
  INPUT_IMAGE : String
  INPUT_LINKED : String
  INPUT_OPENED_CONNECTION : String
  INPUT_OPERATING_SYSTEM : String
  INPUT_PARENT : String
  INPUT_PARENT_DIRECTORY : String
  INPUT_RAW_EMAIL : String
  INPUT_RESOLVES_TO : String
  INPUT_SAMPLE : String
  INPUT_SENDER : String
  INPUT_SRC : String
  INPUT_SRC_PAYLOAD : String
  INPUT_TO : String
  INPUT_VALUES : String
  INPUT_CREATED_BY : String
  INPUT_EXTERNAL_REFS : String
  INPUT_KILLCHAIN : String
  INPUT_LABELS : String
  INPUT_MARKINGS : String
  INPUT_OBJECTS : String

/-- The three extension namespaces are pairwise distinct keys. -/
def Schema.ExtKeysDistinct (S : Schema) : Prop :=
  S.STIX_EXT_OCTI ≠ S.STIX_EXT_OCTI_SCO ∧ S.STIX_EXT_OCTI ≠ S.STIX_EXT_MITRE ∧
    S.STIX_EXT_OCTI_SCO ≠ S.STIX_EXT_MITRE

/-! ## The converter -/

/-- Modelled from the spec: `isEmptyField` of `./utils` (not among the sources):
a value is empty when it is an empty string, an empty sequence, an empty
mapping, `null` or `undefined`. -/
def isEmptyField : JValue → Bool
  | .undefined => true
  | .null => true
  | .str s => s == ""
  | .arr [] => true
  | .obj [] => true
  | _ => false

/-- The call `uuidVersion(uuid)` of `isTrustedStixId`, where `uuid` is the
second segment of `stixId.split('--')`: `none` when the call throws (no
second segment, not a UUID, or `stixId` is not a string). -/
def uuidVersionOf (S : Schema) (stixId : JValue) : Option Nat :=
  match stixId with
  | .str s =>
    match splitDashes [] s.data with
    | _ :: uuid :: _ => S.uuidVersion (String.mk uuid)
    | _ => none
  | _ => none

/-- The UUID segment of a stix id has a version other than 1. -/
def isTrustedStixId (S : Schema) (stixId : JValue) : Except Err Bool :=
  match uuidVersionOf S stixId with
  | some v => pure (v != 1)
  | none => throw .typeError

/-- The STIX type string of an internal type. -/
def convertTypeToStixType (S : Schema) (type : String) : String :=
  if S.isStixDomainObjectIdentity type then "identity"
  else if S.isStixDomainObjectLocation type then "location"
  else if type = S.ENTITY_HASHED_OBSERVABLE_STIX_FILE then "file"
  else if S.isStixCoreRelationship type then "relationship"
  else if S.isStixSightingRelationship type then "sighting"
  else toLowerCase type

/-- Projector guard: the instance type is the expected one. -/
def assertType (type : String) (instanceType : String) : Except Err Unit :=
  if instanceType ≠ type then
    throw (.unsupported (instanceType ++ " not compatible with " ++ type))
  else pure ()

/-- Final check of the dispatcher: `!R.isEmpty(data)`. -/
def isValidStix (data : Obj) : Bool := !data.isEmpty

/-- The inner loop of `cleanObject` on the value under the `extensions` key:
every sub-block with exactly one entry is deleted from the mapping.  Reading
the entries of a `null` sub-block, deleting a character of a string or
punching a hole in an array is a `TypeError`. -/
def pruneExtensions : JValue → Except Err JValue
  | .obj exts =>
    if exts.any (fun e => match e.2 with
      | .undefined => true
      | .null => true
      | _ => false) then throw .typeError
    else pure (.obj (exts.filter (fun e => entriesLength e.2 != 1)))
  | .arr xs =>
    if xs.any (fun x => match x with
      | .undefined => true
      | .null => true
      | y => entriesLength y == 1) then throw .typeError
    else pure (.arr xs)
  | .str _ => throw .typeError
  | v => pure v

/-- Normalisation: a copy of `data` without the keys whose value is empty;
under a kept `extensions` key the sub-blocks are pruned. -/
def cleanObject : Obj → Except Err Obj
  | [] => pure []
  | (key, v) :: rest =>
    if isEmptyField v then cleanObject rest
    else if key = "extensions" then do
      let v' ← pruneExtensions v
      let rest' ← cleanObject rest
      pure ((key, v') :: rest')
    else do
      let rest' ← cleanObject rest
      pure ((key, v) :: rest')

/-- The expression `instance._index ? isInferredIndex(instance._index) : undefined`. -/
def inferredFlag (S : Schema) (index : JValue) : Except Err JValue :=
  if truthy index then
    match index with
    | .str s => pure (.bool (S.isInferredIndex s))
    | _ => throw .typeError
  else pure .undefined

/-- The attribute `instance.entity_type`, declared a string: any other value
is outside the declared type and is reported as a `typeError`. -/
def entityType (inst : Obj) : Except Err String :=
  match getProp inst "entity_type" with
  | .str t => pure t
  | _ => throw .typeError

/-- The `id`s of a slot: `(instance[slot] ?? []).map((m) => m.standard_id)`. -/
def standardIds (inst : Obj) (slot : String) : Except Err JValue :=
  mapArray (fun m => prop m "standard_id") (nullish (getProp inst slot) (.arr []))

/-- The label values: `(instance[INPUT_LABELS] ?? []).map((m) => m.value)`. -/
def labelValues (S : Schema) (inst : Obj) : Except Err JValue :=
  mapArray (fun m => prop m "value") (nullish (getProp inst S.INPUT_LABELS) (.arr []))

/-- The platform extension block. -/
def buildOCTIExtensions (S : Schema) (inst : Obj) : Except Err Obj := do
  let files ← mapArray (fun file => do
      let name ← prop file "name"
      let id ← prop file "id"
      let version ← prop file "version"
      let mime_type ← prop file "mime_type"
      pure (.obj [("name", name), ("uri", .str ("/storage/get/" ++ toJsString id)),
        ("version", version), ("mime_type", mime_type)]))
    (nullish (getProp inst "x_opencti_files") (.arr []))
  let stix_ids ← filterArray (isTrustedStixId S)
    (nullish (getProp inst "x_opencti_stix_ids") (.arr []))
  let is_inferred ← inferredFlag S (getProp inst "_index")
  cleanObject [
    ("extension_type", .str "property-extension"),
    ("id", getProp inst "internal_id"),
    ("type", getProp inst "entity_type"),
    ("created_at", getProp inst "created_at"),
    ("updated_at", getProp inst "updated_at"),
    ("aliases", nullish (getProp inst "x_opencti_aliases") (.arr [])),
    ("files", files),
    ("stix_ids", stix_ids),
    ("is_inferred", is_inferred),
    ("workflow_id", getProp inst "x_opencti_workflow_id")]

/-- The MITRE extension block. -/
def buildMITREExtensions (inst : Obj) : Except Err Obj :=
  cleanObject [
    ("extension_type", .str "property-extension"),
    ("id", getProp inst "x_mitre_id"),
    ("detection", getProp inst "x_mitre_detection"),
    ("permissions_required", getProp inst "x_mitre_permissions_required"),
    ("platforms", getProp inst "x_mitre_platforms")]

/-- The envelope common to every STIX object. -/
def buildStixObject (S : Schema) (inst : Obj) : Except Err Obj := do
  let type ← entityType inst
  let octi ← buildOCTIExtensions S inst
  pure [
    ("id", getProp inst "standard_id"),
    ("spec_version", .str "2.1"),
    ("type", .str (convertTypeToStixType S type)),
    ("extensions", .obj (mkObj [(S.STIX_EXT_OCTI, .obj octi)]))]

/-- Kill chain phases of the kill-chain slot. -/
def buildKillChainPhases (S : Schema) (inst : Obj) : Except Err JValue :=
  mapArray (fun k => do
      let kill_chain_name ← prop k "kill_chain_name"
      let phase_name ← prop k "phase_name"
      let data ← cleanObject [("kill_chain_name", kill_chain_name), ("phase_name", phase_name)]
      pure (.obj data))
    (nullish (getProp inst S.INPUT_KILLCHAIN) (.arr []))

/-- External references of the external-references slot. -/
def buildExternalReferences (S : Schema) (inst : Obj) : Except Err JValue :=
  mapArray (fun e => do
      let source_name ← prop e "source_name"
      let description ← prop e "description"
      let url ← prop e "url"
      let hashes ← prop e "hashes"
      let external_id ← prop e "external_id"
      let data ← cleanObject [("source_name", source_name), ("description", description),
        ("url", url), ("hashes", hashes), ("external_id", external_id)]
      pure (.obj data))
    (nullish (getProp inst S.INPUT_EXTERNAL_REFS) (.arr []))

/-- Registry values of the values slot. -/
def buildWindowsRegistryValueType (S : Schema) (inst : Obj) : Except Err JValue :=
  mapArray (fun k => do
      let name ← prop k "name"
      let data ← prop k "data"
      let data_type ← prop k "data_type"
      let o ← cleanObject [("name", name), ("data", data), ("data_type", data_type)]
      pure (.obj o))
    (nullish (getProp inst S.INPUT_VALUES) (.arr []))

/-- Multipart bodies of the body-multipart slot. -/
def buildEmailBodyMultipart (S : Schema) (inst : Obj) : Except Err JValue :=
  mapArray (fun k => do
      let content_type ← prop k "content_type"
      let content_disposition ← prop k "content_disposition"
      let body ← prop k "body"
      let data ← cleanObject [("content_type", content_type),
        ("content_disposition", content_disposition), ("body", body),
        ("body_raw_ref", optProp (getProp inst S.INPUT_BODY_RAW) "standard_id")]
      pure (.obj data))
    (nullish (getProp inst S.INPUT_BODY_MULTIPART) (.arr []))

/-- The fields common to domain objects. -/
def buildStixDomain (S : Schema) (inst : Obj) : Except Err Obj := do
  let base ← buildStixObject S inst
  let labels ← labelValues S inst
  let object_marking_refs ← standardIds inst S.INPUT_MARKINGS
  let external_references ← buildExternalReferences S inst
  pure (assign base [
    ("created", getProp inst "created"),
    ("modified", getProp inst "modified"),
    ("revoked", getProp inst "revoked"),
    ("confidence", getProp inst "confidence"),
    ("lang", getProp inst "lang"),
    ("labels", labels),
    ("object_marking_refs", object_marking_refs),
    ("created_by_ref", optProp (getProp inst S.INPUT_CREATED_BY) "standard_id"),
    ("external_references", external_references)])

/-- The fields common to relationships: those of domain objects. -/
def buildStixRelationship (S : Schema) (inst : Obj) : Except Err Obj :=
  buildStixDomain S inst

/-- The fields common to marking definitions. -/
def buildStixMarkings (S : Schema) (inst : Obj) : Except Err Obj := do
  let base ← buildStixObject S inst
  let external_references ← buildExternalReferences S inst
  let object_marking_refs ← standardIds inst S.INPUT_MARKINGS
  pure (assign base [
    ("created_by_ref", optProp (getProp inst S.INPUT_CREATED_BY) "standard_id"),
    ("created", getProp inst "created"),
    ("modified", getProp inst "updated_at"),
    ("external_references", external_references),
    ("object_marking_refs", object_marking_refs)])

/-- The fields common to cyber observables. -/
def buildStixCyberObservable (S : Schema) (inst : Obj) : Except Err Obj := do
  let stixObject ← buildStixObject S inst
  let object_marking_refs ← standardIds inst S.INPUT_MARKINGS
  let labels ← labelValues S inst
  let linked_to_refs ← standardIds inst S.INPUT_LINKED
  let external_references ← buildExternalReferences S inst
  let sco ← cleanObject [
    ("extension_type", .str "property-extension"),
    ("labels", labels),
    ("description", getProp inst "x_opencti_description"),
    ("score", getProp inst "x_opencti_score"),
    ("created_by_ref", optProp (getProp inst S.INPUT_CREATED_BY) "standard_id"),
    ("linked_to_refs", linked_to_refs),
    ("external_references", external_references)]
  pure (assign stixObject [
    ("defanged", getProp inst "defanged"),
    ("object_marking_refs", object_marking_refs),
    ("extensions", .obj (mkObj [
      (S.STIX_EXT_OCTI, getProp (extensionsOf stixObject) S.STIX_EXT_OCTI),
      (S.STIX_EXT_OCTI_SCO, .obj sco)]))])

/-! ### Domain objects -/

/-- Projector of the identity kinds. -/
def convertIdentityToStix (S : Schema) (inst : Obj) (type : String) : Except Err Obj := do
  if !S.isStixDomainObjectIdentity type then
    throw (.unsupported (toJsString (getProp inst "entity_type") ++ " not compatible with identity"))
  let identity ← buildStixDomain S inst
  let octi ← cleanObject (assign (spread (getProp (extensionsOf identity) S.STIX_EXT_OCTI)) [
    ("firstname", getProp inst "x_opencti_firstname"),
    ("lastname", getProp inst "x_opencti_lastname"),
    ("organization_type", getProp inst "x_opencti_organization_type"),
    ("reliability", getProp inst "x_opencti_reliability")])
  pure (assign identity [
    ("name", getProp inst "name"),
    ("description", getProp inst "description"),
    ("contact_information", getProp inst "contact_information"),
    ("identity_class", getProp inst "identity_class"),
    ("roles", getProp inst "roles"),
    ("sectors", getProp inst "sectors"),
    ("extensions", .obj (mkObj [(S.STIX_EXT_OCTI, .obj octi)]))])

/-- Projector of the location kinds. -/
def convertLocationToStix (S : Schema) (inst : Obj) (type : String) : Except Err Obj := do
  if !S.isStixDomainObjectLocation type then
    throw (.unsupported (toJsString (getProp inst "entity_type") ++ " not compatible with location"))
  let domain ← buildStixDomain S inst
  pure (assign domain [
    ("name", getProp inst "name"),
    ("description", getProp inst "description"),
    ("latitude", getProp inst "latitude"),
    ("longitude", getProp inst "longitude"),
    ("precision", getProp inst "precision"),
    ("region", getProp inst "region"),
    ("country", getProp inst "country"),
    ("administrative_area", getProp inst "administrative_area"),
    ("city", getProp inst "city"),
    ("street_address", getProp inst "street_address"),
    ("postal_code", getProp inst "postal_code")])

/-- Projector of incidents. -/
def convertIncidentToStix (S : Schema) (inst : Obj) (type : String) : Except Err Obj := do
  assertType S.ENTITY_TYPE_INCIDENT type
  let incident ← buildStixDomain S inst
  pure (assign incident [
    ("name", getProp inst "name"),
    ("description", getProp inst "description"),
    ("first_seen", getProp inst "first_seen"),
    ("last_seen", getProp inst "last_seen"),
    ("aliases", getProp inst "aliases"),
    ("objective", getProp inst "objective"),
    ("extensions", .obj (mkObj [(S.STIX_EXT_OCTI,
      .obj (assign (spread (getProp (extensionsOf incident) S.STIX_EXT_OCTI)) [
        ("extension_type", .str "new-sdo")]))]))])

/-- Projector of campaigns. -/
def convertCampaignToStix (S : Schema) (inst : Obj) (type : String) : Except Err Obj := do
  assertType S.ENTITY_TYPE_CAMPAIGN type
  let domain ← buildStixDomain S inst
  pure (assign domain [
    ("name", getProp inst "name"),
    ("description", getProp inst "description"),
    ("aliases", getProp inst "aliases"),
    ("first_seen", getProp inst "first_seen"),
    ("last_seen", getProp inst "last_seen"),
    ("objective", getProp inst "objective")])

/-- Projector of tools. -/
def convertToolToStix (S : Schema) (inst : Obj) (type : String) : Except Err Obj := do
  assertType S.ENTITY_TYPE_TOOL type
  let domain ← buildStixDomain S inst
  let kill_chain_phases ← buildKillChainPhases S inst
  pure (assign domain [
    ("name", getProp inst "name"),
    ("description", getProp inst "description"),
    ("tool_types", getProp inst "tool_types"),
    ("aliases", getProp inst "aliases"),
    ("kill_chain_phases", kill_chain_phases),
    ("tool_version", getProp inst "tool_version")])

/-- Projector of vulnerabilities. -/
def convertVulnerabilityToStix (S : Schema) (inst : Obj) (type : String) : Except Err Obj := do
  assertType S.ENTITY_TYPE_VULNERABILITY type
  let vulnerability ← buildStixDomain S inst
  let octi ← cleanObject (assign (spread (getProp (extensionsOf vulnerability) S.STIX_EXT_OCTI)) [
    ("attack_vector", getProp inst "x_opencti_attack_vector"),
    ("availability_impact", getProp inst "x_opencti_availability_impact"),
    ("base_score", getProp inst "x_opencti_base_score"),
    ("base_severity", getProp inst "x_opencti_base_severity"),
    ("confidentiality_impact", getProp inst "x_opencti_confidentiality_impact"),
    ("integrity_impact", getProp inst "x_opencti_integrity_impact")])
  pure (assign vulnerability [
    ("name", getProp inst "name"),
    ("description", getProp inst "description"),
    ("extensions", .obj (mkObj [(S.STIX_EXT_OCTI, .obj octi)]))])

/-- Projector of threat actors. -/
def convertThreatActorToStix (S : Schema) (inst : Obj) (type : String) : Except Err Obj := do
  assertType S.ENTITY_TYPE_THREAT_ACTOR type
  let domain ← buildStixDomain S inst
  pure (assign domain [
    ("name", getProp inst "name"),
    ("description", getProp inst "description"),
    ("threat_actor_types", getProp inst "threat_actor_types"),
    ("aliases", getProp inst "aliases"),
    ("first_seen", getProp inst "first_seen"),
    ("last_seen", getProp inst "last_seen"),
    ("roles", getProp inst "roles"),
    ("goals", getProp inst "goals"),
    ("sophistication", getProp inst "sophistication"),
    ("resource_level", getProp inst "resource_level"),
    ("primary_motivation", getProp inst "primary_motivation"),
    ("secondary_motivations", getProp inst "secondary_motivations"),
    ("personal_motivations", getProp inst "personal_motivations")])

/-- Projector of infrastructures. -/
def convertInfrastructureToStix (S : Schema) (inst : Obj) (type : String) : Except Err Obj := do
  assertType S.ENTITY_TYPE_INFRASTRUCTURE type
  let domain ← buildStixDomain S inst
  let kill_chain_phases ← buildKillChainPhases S inst
  pure (assign domain [
    ("name", getProp inst "name"),
    ("description", getProp inst "description"),
    ("infrastructure_types", getProp inst "infrastructure_types"),
    ("aliases", getProp inst "aliases"),
    ("kill_chain_phases", kill_chain_phases),
    ("first_seen", getProp inst "first_seen"),
    ("last_seen", getProp inst "last_seen")])

/-- Projector of intrusion sets. -/
def convertIntrusionSetToStix (S : Schema) (inst : Obj) (type : String) : Except Err Obj := do
  assertType S.ENTITY_TYPE_INTRUSION_SET type
  let domain ← buildStixDomain S inst
  pure (assign domain [
    ("name", getProp inst "name"),
    ("description", getProp inst "description"),
    ("aliases", getProp inst "aliases"),
    ("first_seen", getProp inst "first_seen"),
    ("last_seen", getProp inst "last_seen"),
    ("goals", getProp inst "goals"),
    ("resource_level", getProp inst "resource_level"),
    ("primary_motivation", getProp inst "primary_motivation"),
    ("secondary_motivations", getProp inst "secondary_motivations")])

/-- Projector of indicators. -/
def convertIndicatorToStix (S : Schema) (inst : Obj) (type : String) : Except Err Obj := do
  assertType S.ENTITY_TYPE_INDICATOR type
  let indicator ← buildStixDomain S inst
  let kill_chain_phases ← buildKillChainPhases S inst
  let octi ← cleanObject (assign (spread (getProp (extensionsOf indicator) S.STIX_EXT_OCTI)) [
    ("detection", getProp inst "x_opencti_detection"),
    ("score", getProp inst "x_opencti_score"),
    ("main_observable_type", getProp inst "x_opencti_main_observable_type")])
  let mitre ← buildMITREExtensions inst
  pure (assign indicator [
    ("name", getProp inst "name"),
    ("description", getProp inst "description"),
    ("indicator_types", getProp inst "indicator_types"),
    ("pattern", getProp inst "pattern"),
    ("pattern_type", getProp inst "pattern_type"),
    ("pattern_version", getProp inst "pattern_version"),
    ("valid_from", getProp inst "valid_from"),
    ("valid_until", getProp inst "valid_until"),
    ("kill_chain_phases", kill_chain_phases),
    ("extensions", .obj (mkObj [(S.STIX_EXT_OCTI, .obj octi), (S.STIX_EXT_MITRE, .obj mitre)]))])

/-- Projector of courses of action. -/
def convertCourseOfActionToStix (S : Schema) (inst : Obj) (type : String) : Except Err Obj := do
  assertType S.ENTITY_TYPE_COURSE_OF_ACTION type
  let domain ← buildStixDomain S inst
  let octi ← buildOCTIExtensions S inst
  let mitre ← buildMITREExtensions inst
  pure (assign domain [
    ("name", getProp inst "name"),
    ("description", getProp inst "description"),
    ("extensions", .obj (mkObj [(S.STIX_EXT_OCTI, .obj octi), (S.STIX_EXT_MITRE, .obj mitre)]))])

/-- Projector of malwares. -/
def convertMalwareToStix (S : Schema) (inst : Obj) (type : String) : Except Err Obj := do
  assertType S.ENTITY_TYPE_MALWARE type
  let domain ← buildStixDomain S inst
  let kill_chain_phases ← buildKillChainPhases S inst
  let operating_system_refs ← standardIds inst S.INPUT_OPERATING_SYSTEM
  let sample_refs ← standardIds inst S.INPUT_SAMPLE
  pure (assign domain [
    ("name", getProp inst "name"),
    ("description", getProp inst "description"),
    ("malware_types", getProp inst "malware_types"),
    ("is_family", getProp inst "is_family"),
    ("aliases", getProp inst "aliases"),
    ("kill_chain_phases", kill_chain_phases),
    ("first_seen", getProp inst "first_seen"),
    ("last_seen", getProp inst "last_seen"),
    ("architecture_execution_envs", getProp inst "architecture_execution_envs"),
    ("implementation_languages", getProp inst "implementation_languages"),
    ("capabilities", getProp inst "capabilities"),
    ("operating_system_refs", operating_system_refs),
    ("sample_refs", sample_refs)])

/-- Projector of attack patterns. -/
def convertAttackPatternToStix (S : Schema) (inst : Obj) (type : String) : Except Err Obj := do
  assertType S.ENTITY_TYPE_ATTACK_PATTERN type
  let stixDomainObject ← buildStixDomain S inst
  let kill_chain_phases ← buildKillChainPhases S inst
  let octi ← buildOCTIExtensions S inst
  let mitre ← buildMITREExtensions inst
  pure (assign stixDomainObject [
    ("name", getProp inst "name"),
    ("description", getProp inst "description"),
    ("aliases", getProp inst "aliases"),
    ("kill_chain_phases", kill_chain_phases),
    ("extensions", .obj (mkObj [(S.STIX_EXT_OCTI, .obj octi), (S.STIX_EXT_MITRE, .obj mitre)]))])

/-- Projector of reports. -/
def convertReportToStix (S : Schema) (inst : Obj) (type : String) : Except Err Obj := do
  assertType S.ENTITY_TYPE_CONTAINER_REPORT type
  let domain ← buildStixDomain S inst
  let object_refs ← standardIds inst S.INPUT_OBJECTS
  pure (assign domain [
    ("name", getProp inst "name"),
    ("description", getProp inst "description"),
    ("report_types", getProp inst "report_types"),
    ("published", getProp inst "published"),
    ("object_refs", object_refs)])

/-- Projector of notes. -/
def convertNoteToStix (S : Schema) (inst : Obj) (type : String) : Except Err Obj := do
  assertType S.ENTITY_TYPE_CONTAINER_NOTE type
  let domain ← buildStixDomain S inst
  let object_refs ← standardIds inst S.INPUT_OBJECTS
  pure (assign domain [
    ("abstract", getProp inst "attribute_abstract"),
    ("content", getProp inst "content"),
    ("authors", getProp inst "authors"),
    ("object_refs", object_refs)])

/-- Projector of observed data. -/
def convertObservedDateToStix (S : Schema) (inst : Obj) (type : String) : Except Err Obj := do
  assertType S.ENTITY_TYPE_CONTAINER_OBSERVED_DATA type
  let domain ← buildStixDomain S inst
  let object_refs ← standardIds inst "objects"
  pure (assign domain [
    ("first_observed", getProp inst "first_observed"),
    ("last_observed", getProp inst "last_observed"),
    ("number_observed", getProp inst "number_observed"),
    ("object_refs", object_refs)])

/-- Projector of opinions. -/
def convertOpinionToStix (S : Schema) (inst : Obj) (type : String) : Except Err Obj := do
  assertType S.ENTITY_TYPE_CONTAINER_OPINION type
  let domain ← buildStixDomain S inst
  let object_refs ← standardIds inst "objects"
  pure (assign domain [
    ("explanation", getProp inst "explanation"),
    ("authors", getProp inst "authors"),
    ("opinion", getProp inst "opinion"),
    ("object_refs", object_refs)])

/-! ### Cyber observables -/

/-- Projector of artifacts. -/
def convertArtifactToStix (S : Schema) (inst : Obj) (type : String) : Except Err Obj := do
  assertType S.ENTITY_HASHED_OBSERVABLE_ARTIFACT type
  let stixCyberObject ← buildStixCyberObservable S inst
  let sco ← cleanObject (assign (spread (getProp (extensionsOf stixCyberObject) S.STIX_EXT_OCTI_SCO)) [
    ("additional_names", getProp inst "x_opencti_additional_names")])
  pure (assign stixCyberObject [
    ("mime_type", getProp inst "mime_type"),
    ("payload_bin", getProp inst "payload_bin"),
    ("url", getProp inst "url"),
    ("hashes", nullish (getProp inst "hashes") (.obj [])),
    ("encryption_algorithm", getProp inst "encryption_algorithm"),
    ("decryption_key", getProp inst "decryption_key"),
    ("extensions", .obj (assign (extensionsOf stixCyberObject) [
      (S.STIX_EXT_OCTI_SCO, .obj sco)]))])

/-- Projector of autonomous systems. -/
def convertAutonomousSystemToStix (S : Schema) (inst : Obj) (type : String) : Except Err Obj := do
  assertType S.ENTITY_AUTONOMOUS_SYSTEM type
  let cyber ← buildStixCyberObservable S inst
  pure (assign cyber [
    ("number", getProp inst "number"),
    ("name", getProp inst "name"),
    ("rir", getProp inst "rir")])

/-- Projector of cryptocurrency wallets. -/
def convertCryptocurrencyWalletToStix (S : Schema) (inst : Obj) (type : String) : Except Err Obj := do
  assertType S.ENTITY_CRYPTOGRAPHIC_WALLET type
  let stixCyberObject ← buildStixCyberObservable S inst
  let labels ← labelValues S inst
  let external_references ← buildExternalReferences S inst
  pure (assign stixCyberObject [
    ("value", getProp inst "value"),
    ("labels", labels),
    ("description", getProp inst "x_opencti_description"),
    ("score", getProp inst "x_opencti_score"),
    ("created_by_ref", optProp (getProp inst S.INPUT_CREATED_BY) "standard_id"),
    ("external_references", external_references),
    ("extensions", .obj (assign (extensionsOf stixCyberObject) [
      (S.STIX_EXT_OCTI_SCO, .obj [("extension_type", .str "new-sco")])]))])

/-- Projector of cryptographic keys. -/
def convertCryptographicKeyToStix (S : Schema) (inst : Obj) (type : String) : Except Err Obj := do
  assertType S.ENTITY_CRYPTOGRAPHIC_KEY type
  let stixCyberObject ← buildStixCyberObservable S inst
  let labels ← labelValues S inst
  let external_references ← buildExternalReferences S inst
  pure (assign stixCyberObject [
    ("value", getProp inst "value"),
    ("labels", labels),
    ("description", getProp inst "x_opencti_description"),
    ("score", getProp inst "x_opencti_score"),
    ("created_by_ref", optProp (getProp inst S.INPUT_CREATED_BY) "standard_id"),
    ("external_references", external_references),
    ("extensions", .obj (assign (extensionsOf stixCyberObject) [
      (S.STIX_EXT_OCTI_SCO, .obj [("extension_type", .str "new-sco")])]))])

/-- Projector of directories. -/
def convertDirectoryToStix (S : Schema) (inst : Obj) (type : String) : Except Err Obj := do
  assertType S.ENTITY_DIRECTORY type
  let cyber ← buildStixCyberObservable S inst
  let contains_refs ← standardIds inst S.INPUT_CONTAINS
  pure (assign cyber [
    ("path", getProp inst "path"),
    ("path_enc", getProp inst "path_enc"),
    ("ctime", getProp inst "ctime"),
    ("mtime", getProp inst "mtime"),
    ("atime", getProp inst "atime"),
    ("contains_refs", contains_refs)])

/-- Projector of domain names. -/
def convertDomainNameToStix (S : Schema) (inst : Obj) (type : String) : Except Err Obj := do
  assertType S.ENTITY_DOMAIN_NAME type
  let cyber ← buildStixCyberObservable S inst
  let resolves_to_refs ← standardIds inst S.INPUT_RESOLVES_TO
  pure (assign cyber [
    ("value", getProp inst "value"),
    ("resolves_to_refs", resolves_to_refs)])

/-- Projector of email addresses. -/
def convertEmailAddressToStix (S : Schema) (inst : Obj) (type : String) : Except Err Obj := do
  assertType S.ENTITY_EMAIL_ADDR type
  let cyber ← buildStixCyberObservable S inst
  pure (assign cyber [
    ("value", getProp inst "value"),
    ("display_name", getProp inst "display_name"),
    ("belongs_to_ref", firstOptProp (nullish (getProp inst S.INPUT_BELONGS_TO) (.arr [])) "standard_id")])

/-- Projector of email messages. -/
def convertEmailMessageToStix (S : Schema) (inst : Obj) (type : String) : Except Err Obj := do
  assertType S.ENTITY_EMAIL_MESSAGE type
  let cyber ← buildStixCyberObservable S inst
  let to_refs ← standardIds inst S.INPUT_TO
  let cc_refs ← standardIds inst S.INPUT_CC
  let bcc_refs ← standardIds inst S.INPUT_BCC
  let body_multipart ← buildEmailBodyMultipart S inst
  pure (assign cyber [
    ("is_multipart", getProp inst "is_multipart"),
    ("date", getProp inst "attribute_date"),
    ("content_type", getProp inst "content_type"),
    ("from_ref", optProp (getProp inst S.INPUT_FROM) "standard_id"),
    ("sender_ref", optProp (getProp inst S.INPUT_SENDER) "standard_id"),
    ("to_refs", to_refs),
    ("cc_refs", cc_refs),
    ("bcc_refs", bcc_refs),
    ("message_id", getProp inst "message_id"),
    ("subject", getProp inst "subject"),
    ("received_lines", getProp inst "received_lines"),
    ("additional_header_fields", .obj []),
    ("body", getProp inst "body"),
    ("body_multipart", body_multipart),
    ("raw_email_ref", optProp (getProp inst S.INPUT_RAW_EMAIL) "standard_id")])

/-- Projector of files. -/
def convertFileToStix (S : Schema) (inst : Obj) (type : String) : Except Err Obj := do
  assertType S.ENTITY_HASHED_OBSERVABLE_STIX_FILE type
  let stixCyberObject ← buildStixCyberObservable S inst
  let contains_refs ← standardIds inst S.INPUT_CONTAINS
  let sco ← cleanObject (assign (spread (getProp (extensionsOf stixCyberObject) S.STIX_EXT_OCTI_SCO)) [
    ("additional_names", nullish (getProp inst "x_opencti_additional_names") (.arr []))])
  pure (assign stixCyberObject [
    ("hashes", nullish (getProp inst "hashes") (.obj [])),
    ("size", getProp inst "size"),
    ("name", getProp inst "name"),
    ("name_enc", getProp inst "name_enc"),
    ("magic_number_hex", getProp inst "magic_number_hex"),
    ("mime_type", getProp inst "mime_type"),
    ("ctime", getProp inst "ctime"),
    ("mtime", getProp inst "mtime"),
    ("atime", getProp inst "atime"),
    ("parent_directory_ref", optProp (getProp inst S.INPUT_PARENT_DIRECTORY) "standard_id"),
    ("contains_refs", contains_refs),
    ("content_ref", optProp (getProp inst S.INPUT_CONTENT) "standard_id"),
    ("extensions", .obj (assign (extensionsOf stixCyberObject) [
      (S.STIX_EXT_OCTI_SCO, .obj sco)]))])

/-- Projector of hostnames. -/
def convertHostnameToStix (S : Schema) (inst : Obj) (type : String) : Except Err Obj := do
  assertType S.ENTITY_HOSTNAME type
  let stixCyberObject ← buildStixCyberObservable S inst
  let labels ← labelValues S inst
  let external_references ← buildExternalReferences S inst
  pure (assign stixCyberObject [
    ("value", getProp inst "value"),
    ("labels", labels),
    ("description", getProp inst "x_opencti_description"),
    ("score", getProp inst "x_opencti_score"),
    ("created_by_ref", optProp (getProp inst S.INPUT_CREATED_BY) "standard_id"),
    ("external_references", external_references),
    ("extensions", .obj (assign (extensionsOf stixCyberObject) [
      (S.STIX_EXT_OCTI_SCO, .obj [("extension_type", .str "new-sco")])]))])

/-- Projector of IPv4 addresses. -/
def convertIPv4AddressToStix (S : Schema) (inst : Obj) (type : String) : Except Err Obj := do
  assertType S.ENTITY_IPV4_ADDR type
  let cyber ← buildStixCyberObservable S inst
  let resolves_to_refs ← standardIds inst S.INPUT_RESOLVES_TO
  let belongs_to_refs ← standardIds inst S.INPUT_BELONGS_TO
  pure (assign cyber [
    ("value", getProp inst "value"),
    ("resolves_to_refs", resolves_to_refs),
    ("belongs_to_refs", belongs_to_refs)])

/-- Projector of IPv6 addresses. -/
def convertIPv6AddressToStix (S : Schema) (inst : Obj) (type : String) : Except Err Obj := do
  assertType S.ENTITY_IPV6_ADDR type
  let cyber ← buildStixCyberObservable S inst
  let resolves_to_refs ← standardIds inst S.INPUT_RESOLVES_TO
  let belongs_to_refs ← standardIds inst S.INPUT_BELONGS_TO
  pure (assign cyber [
    ("value", getProp inst "value"),
    ("resolves_to_refs", resolves_to_refs),
    ("belongs_to_refs", belongs_to_refs)])

/-- Projector of MAC addresses. -/
def convertMacAddressToStix (S : Schema) (inst : Obj) (type : String) : Except Err Obj := do
  assertType S.ENTITY_MAC_ADDR type
  let cyber ← buildStixCyberObservable S inst
  pure (assign cyber [
    ("value", getProp inst "value")])

/-- Projector of mutexes. -/
def convertMutexToStix (S : Schema) (inst : Obj) (type : String) : Except Err Obj := do
  assertType S.ENTITY_MUTEX type
  let cyber ← buildStixCyberObservable S inst
  pure (assign cyber [
    ("name", getProp inst "name")])

/-- Projector of network traffic. -/
def convertNetworkTrafficToStix (S : Schema) (inst : Obj) (type : String) : Except Err Obj := do
  assertType S.ENTITY_NETWORK_TRAFFIC type
  let cyber ← buildStixCyberObservable S inst
  let encapsulates_refs ← standardIds inst S.INPUT_ENCAPSULATES
  pure (assign cyber [
    ("start", getProp inst "start"),
    ("end", getProp inst "end"),
    ("is_active", getProp inst "is_active"),
    ("src_ref", optProp (getProp inst S.INPUT_SRC) "standard_id"),
    ("dst_ref", optProp (getProp inst S.INPUT_DST) "standard_id"),
    ("src_port", getProp inst "src_port"),
    ("dst_port", getProp inst "dst_port"),
    ("protocols", getProp inst "protocols"),
    ("src_byte_count", getProp inst "src_byte_count"),
    ("dst_byte_count", getProp inst "dst_byte_count"),
    ("src_packets", getProp inst "src_packets"),
    ("dst_packets", getProp inst "dst_packets"),
    ("ipfix", getProp inst "ipfix"),
    ("src_payload_ref", optProp (getProp inst S.INPUT_SRC_PAYLOAD) "standard_id"),
    ("dst_payload_ref", optProp (getProp inst S.INPUT_DST_PAYLOAD) "standard_id"),
    ("encapsulates_refs", encapsulates_refs),
    ("encapsulated_by_ref", optProp (getProp inst S.INPUT_ENCAPSULATED_BY) "standard_id")])

/-- Projector of processes. -/
def convertProcessToStix (S : Schema) (inst : Obj) (type : String) : Except Err Obj := do
  assertType S.ENTITY_PROCESS type
  let cyber ← buildStixCyberObservable S inst
  let opened_connection_refs ← standardIds inst S.INPUT_OPENED_CONNECTION
  let child_refs ← standardIds inst S.INPUT_CHILD
  pure (assign cyber [
    ("is_hidden", getProp inst "is_hidden"),
    ("pid", getProp inst "pid"),
    ("created_time", getProp inst "created_time"),
    ("cwd", getProp inst "cwd"),
    ("command_line", getProp inst "command_line"),
    ("environment_variables", getProp inst "environment_variables"),
    ("opened_connection_refs", opened_connection_refs),
    ("creator_user_ref", optProp (getProp inst S.INPUT_CREATOR_USER) "standard_id"),
    ("image_ref", optProp (getProp inst S.INPUT_IMAGE) "standard_id"),
    ("parent_ref", optProp (getProp inst S.INPUT_PARENT) "standard_id"),
    ("child_refs", child_refs)])

/-- Projector of software. -/
def convertSoftwareToStix (S : Schema) (inst : Obj) (type : String) : Except Err Obj := do
  assertType S.ENTITY_SOFTWARE type
  let cyber ← buildStixCyberObservable S inst
  pure (assign cyber [
    ("name", getProp inst "name"),
    ("cpe", getProp inst "cpe"),
    ("swid", getProp inst "swid"),
    ("languages", getProp inst "languages"),
    ("vendor", getProp inst "vendor"),
    ("version", getProp inst "version")])

/-- Projector of texts. -/
def convertTextToStix (S : Schema) (inst : Obj) (type : String) : Except Err Obj := do
  assertType S.ENTITY_TEXT type
  let stixCyberObject ← buildStixCyberObservable S inst
  let labels ← labelValues S inst
  let external_references ← buildExternalReferences S inst
  pure (assign stixCyberObject [
    ("value", getProp inst "value"),
    ("labels", labels),
    ("description", getProp inst "x_opencti_description"),
    ("score", getProp inst "x_opencti_score"),
    ("created_by_ref", optProp (getProp inst S.INPUT_CREATED_BY) "standard_id"),
    ("external_references", external_references),
    ("extensions", .obj (assign (extensionsOf stixCyberObject) [
      (S.STIX_EXT_OCTI_SCO, .obj [("extension_type", .str "new-sco")])]))])

/-- Projector of URLs. -/
def convertURLToStix (S : Schema) (inst : Obj) (type : String) : Except Err Obj := do
  assertType S.ENTITY_URL type
  let cyber ← buildStixCyberObservable S inst
  pure (assign cyber [
    ("value", getProp inst "value")])

/-- Projector of user accounts. -/
def convertUserAccountToStix (S : Schema) (inst : Obj) (type : String) : Except Err Obj := do
  assertType S.ENTITY_USER_ACCOUNT type
  let cyber ← buildStixCyberObservable S inst
  pure (assign cyber [
    ("user_id", getProp inst "user_id"),
    ("credential", getProp inst "credential"),
    ("account_login", getProp inst "account_login"),
    ("account_type", getProp inst "account_type"),
    ("display_name", getProp inst "display_name"),
    ("is_service_account", getProp inst "is_service_account"),
    ("is_privileged", getProp inst "is_privileged"),
    ("can_escalate_privs", getProp inst "can_escalate_privs"),
    ("is_disabled", getProp inst "is_disabled"),
    ("account_created", getProp inst "account_created"),
    ("account_expires", getProp inst "account_expires"),
    ("credential_last_changed", getProp inst "credential_last_changed"),
    ("account_first_login", getProp inst "account_first_login"),
    ("account_last_login", getProp inst "account_last_login")])

/-- Projector of Windows registry keys. -/
def convertWindowsRegistryKeyToStix (S : Schema) (inst : Obj) (type : String) : Except Err Obj := do
  assertType S.ENTITY_WINDOWS_REGISTRY_KEY type
  let cyber ← buildStixCyberObservable S inst
  let values ← buildWindowsRegistryValueType S inst
  pure (assign cyber [
    ("key", getProp inst "attribute_key"),
    ("values", values),
    ("modified_time", getProp inst "modified_time"),
    ("creator_user_ref", optProp (getProp inst S.INPUT_CREATOR_USER) "standard_id"),
    ("number_of_subkeys", getProp inst "number_of_subkeys")])

/-- Projector of X.509 certificates. -/
def convertX509CertificateToStix (S : Schema) (inst : Obj) (type : String) : Except Err Obj := do
  assertType S.ENTITY_HASHED_OBSERVABLE_X509_CERTIFICATE type
  let cyber ← buildStixCyberObservable S inst
  let x509_v3_extensions ← cleanObject [
    ("basic_constraints", getProp inst "basic_constraints"),
    ("name_constraints", getProp inst "name_constraints"),
    ("policy_constraints", getProp inst "policy_constraints"),
    ("key_usage", getProp inst "key_usage"),
    ("extended_key_usage", getProp inst "extended_key_usage"),
    ("subject_key_identifier", getProp inst "subject_key_identifier"),
    ("authority_key_identifier", getProp inst "authority_key_identifier"),
    ("subject_alternative_name", getProp inst "subject_alternative_name"),
    ("issuer_alternative_name", getProp inst "issuer_alternative_name"),
    ("subject_directory_attributes", getProp inst "subject_directory_attributes"),
    ("crl_distribution_points", getProp inst "crl_distribution_points"),
    ("inhibit_any_policy", getProp inst "inhibit_any_policy"),
    ("private_key_usage_period_not_before", getProp inst "private_key_usage_period_not_before"),
    ("private_key_usage_period_not_after", getProp inst "private_key_usage_period_not_after"),
    ("certificate_policies", getProp inst "certificate_policies"),
    ("policy_mappings", getProp inst "policy_mappings")]
  pure (assign cyber [
    ("is_self_signed", getProp inst "is_self_signed"),
    ("hashes", nullish (getProp inst "hashes") (.obj [])),
    ("version", getProp inst "version"),
    ("serial_number", getProp inst "serial_number"),
    ("signature_algorithm", getProp inst "signature_algorithm"),
    ("issuer", getProp inst "issuer"),
    ("validity_not_before", getProp inst "validity_not_before"),
    ("validity_not_after", getProp inst "validity_not_after"),
    ("subject", getProp inst "subject"),
    ("subject_public_key_algorithm", getProp inst "subject_public_key_algorithm"),
    ("subject_public_key_modulus", getProp inst "subject_public_key_modulus"),
    ("subject_public_key_exponent", getProp inst "subject_public_key_exponent"),
    ("x509_v3_extensions", .obj x509_v3_extensions)])

/-! ### Relationships -/

/-- Guard of the relationship projectors: both endpoints are resolved. -/
def checkInstanceCompletion (inst : Obj) : Except Err Unit :=
  if (match getProp inst "from" with
      | .undefined => true
      | _ => false) || isEmptyField (getProp inst "from") then
    throw (.unsupported ("Cannot convert relation without a resolved from: " ++
      toJsString (getProp inst "fromId")))
  else if (match getProp inst "to" with
      | .undefined => true
      | _ => false) || isEmptyField (getProp inst "to") then
    throw (.unsupported ("Cannot convert relation without a resolved to: " ++
      toJsString (getProp inst "toId")))
  else pure ()

/-- Projector of core, cyber-observable and meta relationships. -/
def convertRelationToStix (S : Schema) (inst : Obj) : Except Err Obj := do
  checkInstanceCompletion inst
  let stixRelationship ← buildStixRelationship S inst
  let external_references ← buildExternalReferences S inst
  let kill_chain_phases ← buildKillChainPhases S inst
  let octi ← cleanObject (assign (spread (getProp (extensionsOf stixRelationship) S.STIX_EXT_OCTI)) [
    ("source_ref", optProp (getProp inst "from") "internal_id"),
    ("source_type", optProp (getProp inst "from") "entity_type"),
    ("target_ref", optProp (getProp inst "to") "internal_id"),
    ("target_type", optProp (getProp inst "to") "entity_type"),
    ("kill_chain_phases", kill_chain_phases)])
  pure (assign stixRelationship [
    ("relationship_type", getProp inst "relationship_type"),
    ("description", getProp inst "description"),
    ("source_ref", optProp (getProp inst "from") "standard_id"),
    ("target_ref", optProp (getProp inst "to") "standard_id"),
    ("start_time", getProp inst "start_time"),
    ("stop_time", getProp inst "stop_time"),
    ("external_references", external_references),
    ("extensions", .obj (mkObj [(S.STIX_EXT_OCTI, .obj octi)]))])

/-- The expression `x ? [x] : []`. -/
def singletonIfTruthy (x : JValue) : JValue :=
  if truthy x then .arr [x] else .arr []

/-- Projector of sightings. -/
def convertSightingToStix (S : Schema) (inst : Obj) : Except Err Obj := do
  checkInstanceCompletion inst
  let stixRelationship ← buildStixRelationship S inst
  let octi ← cleanObject (assign (spread (getProp (extensionsOf stixRelationship) S.STIX_EXT_OCTI)) [
    ("sighting_of_ref", optProp (getProp inst "from") "internal_id"),
    ("sighting_of_type", optProp (getProp inst "from") "entity_type"),
    ("where_sighted_refs", singletonIfTruthy (optProp (getProp inst "to") "internal_id")),
    ("where_sighted_types", singletonIfTruthy (optProp (getProp inst "to") "entity_type")),
    ("negative", getProp inst "x_opencti_negative")])
  pure (assign stixRelationship [
    ("description", getProp inst "description"),
    ("first_seen", getProp inst "first_seen"),
    ("last_seen", getProp inst "last_seen"),
    ("count", getProp inst "attribute_count"),
    ("sighting_of_ref", optProp (getProp inst "from") "standard_id"),
    ("where_sighted_refs", singletonIfTruthy (optProp (getProp inst "to") "standard_id")),
    ("summary", getProp inst "summary"),
    ("observed_data_refs", .arr []),
    ("extensions", .obj (mkObj [(S.STIX_EXT_OCTI, .obj octi)]))])

/-! ### Meta objects -/

/-- Projector of marking definitions. -/
def convertMarkingToStix (S : Schema) (inst : Obj) : Except Err Obj := do
  let marking ← buildStixMarkings S inst
  let octi ← cleanObject (assign (spread (getProp (extensionsOf marking) S.STIX_EXT_OCTI)) [
    ("order", getProp inst "x_opencti_order"),
    ("color", getProp inst "x_opencti_color")])
  pure (assign marking [
    ("name", getProp inst "definition"),
    ("definition_type", getProp inst "definition_type"),
    ("extensions", .obj (mkObj [(S.STIX_EXT_OCTI, .obj octi)]))])

/-- Projector of labels. -/
def convertLabelToStix (S : Schema) (inst : Obj) : Except Err Obj := do
  let label ← buildStixObject S inst
  let octi ← cleanObject (assign (spread (getProp (extensionsOf label) S.STIX_EXT_OCTI)) [
    ("extension_type", .str "new-sdo")])
  pure (assign label [
    ("value", getProp inst "value"),
    ("color", getProp inst "color"),
    ("extensions", .obj (mkObj [(S.STIX_EXT_OCTI, .obj octi)]))])

/-- Projector of kill chain phases. -/
def convertKillChainPhaseToStix (S : Schema) (inst : Obj) : Except Err Obj := do
  let killChain ← buildStixObject S inst
  let octi ← cleanObject (assign (spread (getProp (extensionsOf killChain) S.STIX_EXT_OCTI)) [
    ("extension_type", .str "new-sdo")])
  pure (assign killChain [
    ("kill_chain_name", getProp inst "kill_chain_name"),
    ("phase_name", getProp inst "phase_name"),
    ("order", getProp inst "x_opencti_order"),
    ("extensions", .obj (mkObj [(S.STIX_EXT_OCTI, .obj octi)]))])

/-- Projector of external references. -/
def convertExternalReferenceToStix (S : Schema) (inst : Obj) : Except Err Obj := do
  let reference ← buildStixObject S inst
  let octi ← cleanObject (assign (spread (getProp (extensionsOf reference) S.STIX_EXT_OCTI)) [
    ("extension_type", .str "new-sdo")])
  pure (assign reference [
    ("source_name", getProp inst "source_name"),
    ("description", getProp inst "description"),
    ("url", getProp inst "url"),
    ("hashes", nullish (getProp inst "hashes") (.obj [])),
    ("external_id", getProp inst "external_id"),
    ("extensions", .obj (mkObj [(S.STIX_EXT_OCTI, .obj octi)]))])

/-- Projector of Windows registry values. -/
def convertWindowsRegistryValueToStix (S : Schema) (inst : Obj) : Except Err Obj := do
  let stixCyberObject ← buildStixCyberObservable S inst
  let labels ← labelValues S inst
  let external_references ← buildExternalReferences S inst
  pure (assign stixCyberObject [
    ("name", getProp inst "name"),
    ("data", getProp inst "data"),
    ("data_type", getProp inst "data_type"),
    ("labels", labels),
    ("description", getProp inst "x_opencti_description"),
    ("score", getProp inst "x_opencti_score"),
    ("created_by_ref", optProp (getProp inst S.INPUT_CREATED_BY) "standard_id"),
    ("external_references", external_references),
    ("extensions", .obj (mkObj [
      (S.STIX_EXT_OCTI, getProp (extensionsOf stixCyberObject) S.STIX_EXT_OCTI),
      (S.STIX_EXT_OCTI_SCO, .obj [("extension_type", .str "new-sco")])]))])

/-- Projector of email MIME parts. -/
def convertEmailMimePartToStix (S : Schema) (inst : Obj) : Except Err Obj := do
  let stixCyberObject ← buildStixCyberObservable S inst
  let labels ← labelValues S inst
  let external_references ← buildExternalReferences S inst
  pure (assign stixCyberObject [
    ("content_type", getProp inst "content_type"),
    ("content_disposition", getProp inst "content_disposition"),
    ("body", getProp inst "body"),
    ("body_raw_ref", optProp (getProp inst S.INPUT_BODY_RAW) "standard_id"),
    ("labels", labels),
    ("description", getProp inst "x_opencti_description"),
    ("score", getProp inst "x_opencti_score"),
    ("created_by_ref", optProp (getProp inst S.INPUT_CREATED_BY) "standard_id"),
    ("external_references", external_references),
    ("extensions", .obj (mkObj [
      (S.STIX_EXT_OCTI, getProp (extensionsOf stixCyberObject) S.STIX_EXT_OCTI),
      (S.STIX_EXT_OCTI_SCO, .obj [("extension_type", .str "new-sco")])]))])

/-! ### Dispatcher -/

/-- Relationships and sightings. -/
def convertRelationshipKind (S : Schema) (inst : Obj) (type : String) : Except Err Obj :=
  if S.isStixCoreRelationship type then convertRelationToStix S inst
  else if S.isStixCyberObservableRelationship type then convertRelationToStix S inst
  else if S.isStixSightingRelationship type then convertSightingToStix S inst
  else if S.isStixMetaRelationship type then convertRelationToStix S inst
  else throw (.unsupported ("No relation converter available for " ++ type))

/-- Domain objects. -/
def convertDomainKind (S : Schema) (inst : Obj) (type : String) : Except Err Obj :=
  if S.isStixDomainObjectIdentity type then convertIdentityToStix S inst type
  else if S.isStixDomainObjectLocation type then convertLocationToStix S inst type
  else if S.ENTITY_TYPE_CONTAINER_REPORT = type then convertReportToStix S inst type
  else if S.ENTITY_TYPE_MALWARE = type then convertMalwareToStix S inst type
  else if S.ENTITY_TYPE_INFRASTRUCTURE = type then convertInfrastructureToStix S inst type
  else if S.ENTITY_TYPE_ATTACK_PATTERN = type then convertAttackPatternToStix S inst type
  else if S.ENTITY_TYPE_CAMPAIGN = type then convertCampaignToStix S inst type
  else if S.ENTITY_TYPE_THREAT_ACTOR = type then convertThreatActorToStix S inst type
  else if S.ENTITY_TYPE_CONTAINER_NOTE = type then convertNoteToStix S inst type
  else if S.ENTITY_TYPE_CONTAINER_OPINION = type then convertOpinionToStix S inst type
  else if S.ENTITY_TYPE_CONTAINER_OBSERVED_DATA = type then convertObservedDateToStix S inst type
  else if S.ENTITY_TYPE_COURSE_OF_ACTION = type then convertCourseOfActionToStix S inst type
  else if S.ENTITY_TYPE_INCIDENT = type then convertIncidentToStix S inst type
  else if S.ENTITY_TYPE_INDICATOR = type then convertIndicatorToStix S inst type
  else if S.ENTITY_TYPE_INTRUSION_SET = type then convertIntrusionSetToStix S inst type
  else if S.ENTITY_TYPE_TOOL = type then convertToolToStix S inst type
  else if S.ENTITY_TYPE_VULNERABILITY = type then convertVulnerabilityToStix S inst type
  else throw (.unsupported ("No entity converter available for " ++ type))

/-- Meta objects. -/
def convertMetaKind (S : Schema) (inst : Obj) (type : String) : Except Err Obj :=
  if S.ENTITY_TYPE_MARKING_DEFINITION = type then convertMarkingToStix S inst
  else if S.ENTITY_TYPE_LABEL = type then convertLabelToStix S inst
  else if S.ENTITY_TYPE_KILL_CHAIN_PHASE = type then convertKillChainPhaseToStix S inst
  else if S.ENTITY_TYPE_EXTERNAL_REFERENCE = type then convertExternalReferenceToStix S inst
  else throw (.unsupported ("No meta converter available for " ++ type))

/-- Cyber observables. -/
def convertObservableKind (S : Schema) (inst : Obj) (type : String) : Except Err Obj :=
  if S.ENTITY_WINDOWS_REGISTRY_VALUE_TYPE = type then convertWindowsRegistryValueToStix S inst
  else if S.ENTITY_EMAIL_MIME_PART_TYPE = type then convertEmailMimePartToStix S inst
  else if S.ENTITY_HASHED_OBSERVABLE_ARTIFACT = type then convertArtifactToStix S inst type
  else if S.ENTITY_AUTONOMOUS_SYSTEM = type then convertAutonomousSystemToStix S inst type
  else if S.ENTITY_CRYPTOGRAPHIC_WALLET = type then convertCryptocurrencyWalletToStix S inst type
  else if S.ENTITY_CRYPTOGRAPHIC_KEY = type then convertCryptographicKeyToStix S inst type
  else if S.ENTITY_DIRECTORY = type then convertDirectoryToStix S inst type
  else if S.ENTITY_DOMAIN_NAME = type then convertDomainNameToStix S inst type
  else if S.ENTITY_EMAIL_ADDR = type then convertEmailAddressToStix S inst type
  else if S.ENTITY_EMAIL_MESSAGE = type then convertEmailMessageToStix S inst type
  else if S.ENTITY_HASHED_OBSERVABLE_STIX_FILE = type then convertFileToStix S inst type
  else if S.ENTITY_HOSTNAME = type then convertHostnameToStix S inst type
  else if S.ENTITY_IPV4_ADDR = type then convertIPv4AddressToStix S inst type
  else if S.ENTITY_IPV6_ADDR = type then convertIPv6AddressToStix S inst type
  else if S.ENTITY_MAC_ADDR = type then convertMacAddressToStix S inst type
  else if S.ENTITY_MUTEX = type then convertMutexToStix S inst type
  else if S.ENTITY_NETWORK_TRAFFIC = type then convertNetworkTrafficToStix S inst type
  else if S.ENTITY_PROCESS = type then convertProcessToStix S inst type
  else if S.ENTITY_SOFTWARE = type then convertSoftwareToStix S inst type
  else if S.ENTITY_TEXT = type then convertTextToStix S inst type
  else if S.ENTITY_URL = type then convertURLToStix S inst type
  else if S.ENTITY_USER_ACCOUNT = type then convertUserAccountToStix S inst type
  else if S.ENTITY_WINDOWS_REGISTRY_KEY = type then convertWindowsRegistryKeyToStix S inst type
  else if S.ENTITY_HASHED_OBSERVABLE_X509_CERTIFICATE = type then convertX509CertificateToStix S inst type
  else throw (.unsupported ("No meta cyber observable available for " ++ type))

/-- Dispatcher: classify the type, then route to the projector of its kind
(the four blocks of the source function are `convertRelationshipKind`,
`convertDomainKind`, `convertMetaKind` and `convertObservableKind`). -/
def convertToStix (S : Schema) (inst : Obj) : Except Err Obj := do
  let type ← entityType inst
  if !S.isStixObject type && !S.isStixRelationship type then
    throw (.unsupported ("Type " ++ type ++ " cannot be converted to Stix"))
  else if S.isStixRelationship type then convertRelationshipKind S inst type
  else if S.isStixDomainObject type then convertDomainKind S inst type
  else if S.isStixMetaObject type then convertMetaKind S inst type
  else if S.isStixCyberObservable type then convertObservableKind S inst type
  else throw (.unsupported ("No converter available for " ++ type))

/-- Entry point: convert a fully loaded store instance. -/
def convertStoreToStix (S : Schema) (inst : Obj) : Except Err Obj :=
  if isEmptyField (getProp inst "_index") || isEmptyField (getProp inst "entity_type") then
    throw (.unsupported "convertInstanceToStix must be used with opencti fully loaded instance")
  else do
    let converted ← convertToStix S inst
    let stix ← cleanObject converted
    if !isValidStix stix then throw (.functional "Invalid stix data conversion")
    else pure stix

/-! ## A concrete schema and concrete instances -/

/-- Value of a hexadecimal digit. -/
def hexValue (c : Char) : Option Nat :=
  if '0' ≤ c ∧ c ≤ '9' then some (c.toNat - 48)
  else if 'a' ≤ c ∧ c ≤ 'f' then some (c.toNat - 87)
  else if 'A' ≤ c ∧ c ≤ 'F' then some (c.toNat - 55)
  else none

/-- A version reader for canonical 36-character UUIDs: the value of the
version digit, `none` when the text is not laid out as a UUID. -/
def sampleUuidVersion (u : String) : Option Nat :=
  if u.data.length = 36 ∧ (List.range 36).all (fun i =>
      if i = 8 ∨ i = 13 ∨ i = 18 ∨ i = 23 then u.data.get? i == some '-'
      else ((u.data.get? i).bind hexValue).isSome) then
    (u.data.get? 14).bind hexValue
  else none

/-- Identity kinds of the sample schema. -/
def sampleIdentities : List String := ["Individual", "Organization", "Sector", "System"]
/-- Location kinds of the sample schema. -/
def sampleLocations : List String := ["City", "Country", "Region", "Position"]
/-- Other domain object types of the sample schema. -/
def sampleDomains : List String := ["Attack-Pattern", "Campaign", "Note", "Observed-Data", "Opinion", "Report", "Course-Of-Action", "Incident", "Indicator", "Infrastructure", "Intrusion-Set", "Malware", "Threat-Actor", "Tool", "Vulnerability"]
/-- Meta object types of the sample schema. -/
def sampleMetas : List String := ["Marking-Definition", "Label", "External-Reference", "Kill-Chain-Phase"]
/-- Cyber observable types of the sample schema. -/
def sampleObservables : List String := ["Autonomous-System", "X-OpenCTI-Cryptographic-Key", "X-OpenCTI-Cryptocurrency-Wallet", "Directory", "Domain-Name", "Email-Addr", "Email-Message", "Email-Mime-Part-Type", "Artifact", "StixFile", "X509-Certificate", "X-OpenCTI-Hostname", "IPv4-Addr", "IPv6-Addr", "Mac-Addr", "Mutex", "Network-Traffic", "Process", "Software", "X-OpenCTI-Text", "Url", "User-Account", "Windows-Registry-Key", "Windows-Registry-Value-Type"]
/-- Core relationship types of the sample schema. -/
def sampleCoreRelations : List String := ["stix-core-relationship", "related-to", "uses", "targets", "indicates", "attributed-to", "located-at", "mitigates", "part-of"]
/-- Cyber-observable relationship types of the sample schema. -/
def sampleObservableRelations : List String := ["obs_resolves-to", "obs_belongs-to", "obs_content", "obs_contains"]
/-- Meta relationship types of the sample schema. -/
def sampleMetaRelations : List String := ["created-by", "object-marking", "object-label", "object", "external-reference", "kill-chain-phase"]
/-- The sighting relationship type of the sample schema. -/
def sampleSighting : String := "stix-sighting-relationship"

/-- A concrete schema in the naming style of the platform, used to evaluate
the converter on concrete instances. -/
def opencti : Schema where
  isStixObject := fun t => sampleIdentities.contains t || sampleLocations.contains t ||
    sampleDomains.contains t || sampleMetas.contains t || sampleObservables.contains t
  isStixRelationship := fun t => sampleCoreRelations.contains t ||
    sampleObservableRelations.contains t || sampleMetaRelations.contains t || t == sampleSighting
  isStixCyberObservableRelationship := fun t => sampleObservableRelations.contains t
  isStixMetaObject := fun t => sampleMetas.contains t
  isStixDomainObject := fun t => sampleIdentities.contains t || sampleLocations.contains t ||
    sampleDomains.contains t
  isStixDomainObjectIdentity := fun t => sampleIdentities.contains t
  isStixDomainObjectLocation := fun t => sampleLocations.contains t
  isStixCoreRelationship := fun t => sampleCoreRelations.contains t
  isStixSightingRelationship := fun t => t == sampleSighting
  isStixCyberObservable := fun t => sampleObservables.contains t
  isStixMetaRelationship := fun t => sampleMetaRelations.contains t
  isInferredIndex := fun index => "opencti_inferred".data.isPrefixOf index.data
  uuidVersion := sampleUuidVersion
  STIX_EXT_OCTI := "extension-definition--ea279b3e-5c71-4632-ac08-831c66a786ba"
  STIX_EXT_OCTI_SCO := "extension-definition--f93e2c80-4231-4f9a-af8b-95c9bd566a82"
  STIX_EXT_MITRE := "extension-definition--322b8f77-262a-4cb8-a915-1e441e00329b"
  ENTITY_TYPE_EXTERNAL_REFERENCE := "External-Reference"
  ENTITY_TYPE_KILL_CHAIN_PHASE := "Kill-Chain-Phase"
  ENTITY_TYPE_LABEL := "Label"
  ENTITY_TYPE_MARKING_DEFINITION := "Marking-Definition"
  ENTITY_TYPE_ATTACK_PATTERN := "Attack-Pattern"
  ENTITY_TYPE_CAMPAIGN := "Campaign"
  ENTITY_TYPE_CONTAINER_NOTE := "Note"
  ENTITY_TYPE_CONTAINER_OBSERVED_DATA := "Observed-Data"
  ENTITY_TYPE_CONTAINER_OPINION := "Opinion"
  ENTITY_TYPE_CONTAINER_REPORT := "Report"
  ENTITY_TYPE_COURSE_OF_ACTION := "Course-Of-Action"
  ENTITY_TYPE_INCIDENT := "Incident"
  ENTITY_TYPE_INDICATOR := "Indicator"
  ENTITY_TYPE_INFRASTRUCTURE := "Infrastructure"
  ENTITY_TYPE_INTRUSION_SET := "Intrusion-Set"
  ENTITY_TYPE_MALWARE := "Malware"
  ENTITY_TYPE_THREAT_ACTOR := "Threat-Actor"
  ENTITY_TYPE_TOOL := "Tool"
  ENTITY_TYPE_VULNERABILITY := "Vulnerability"
  ENTITY_AUTONOMOUS_SYSTEM := "Autonomous-System"
  ENTITY_CRYPTOGRAPHIC_KEY := "X-OpenCTI-Cryptographic-Key"
  ENTITY_CRYPTOGRAPHIC_WALLET := "X-OpenCTI-Cryptocurrency-Wallet"
  ENTITY_DIRECTORY := "Directory"
  ENTITY_DOMAIN_NAME := "Domain-Name"
  ENTITY_EMAIL_ADDR := "Email-Addr"
  ENTITY_EMAIL_MESSAGE := "Email-Message"
  ENTITY_EMAIL_MIME_PART_TYPE := "Email-Mime-Part-Type"
  ENTITY_HASHED_OBSERVABLE_ARTIFACT := "Artifact"
  ENTITY_HASHED_OBSERVABLE_STIX_FILE := "StixFile"
  ENTITY_HASHED_OBSERVABLE_X509_CERTIFICATE := "X509-Certificate"
  ENTITY_HOSTNAME := "X-OpenCTI-Hostname"
  ENTITY_IPV4_ADDR := "IPv4-Addr"
  ENTITY_IPV6_ADDR := "IPv6-Addr"
  ENTITY_MAC_ADDR := "Mac-Addr"
  ENTITY_MUTEX := "Mutex"
  ENTITY_NETWORK_TRAFFIC := "Network-Traffic"
  ENTITY_PROCESS := "Process"
  ENTITY_SOFTWARE := "Software"
  ENTITY_TEXT := "X-OpenCTI-Text"
  ENTITY_URL := "Url"
  ENTITY_USER_ACCOUNT := "User-Account"
  ENTITY_WINDOWS_REGISTRY_KEY := "Windows-Registry-Key"
  ENTITY_WINDOWS_REGISTRY_VALUE_TYPE := "Windows-Registry-Value-Type"
  INPUT_BCC := "bcc"
  INPUT_BELONGS_TO := "belongsTo"
  INPUT_BODY_MULTIPART := "bodyMultipart"
  INPUT_BODY_RAW := "bodyRaw"
  INPUT_CC := "cc"
  INPUT_CHILD := "child"
  INPUT_CONTAINS := "contains"
  INPUT_CONTENT := "obsContent"
  INPUT_CREATOR_USER := "creatorUser"
  INPUT_DST := "dst"
  INPUT_DST_PAYLOAD := "dstPayload"
  INPUT_ENCAPSULATED_BY := "encapsulatedBy"
  INPUT_ENCAPSULATES := "encapsulates"
  INPUT_FROM := "from"
  INPUT_IMAGE := "image"
  INPUT_LINKED := "xOpenctiLinkedTo"
  INPUT_OPENED_CONNECTION := "openedConnections"
  INPUT_OPERATING_SYSTEM := "operatingSystems"
  INPUT_PARENT := "parent"
  INPUT_PARENT_DIRECTORY := "parentDirectory"
  INPUT_RAW_EMAIL := "rawEmail"
  INPUT_RESOLVES_TO := "resolvesTo"
  INPUT_SAMPLE := "samples"
  INPUT_SENDER := "sender"
  INPUT_SRC := "src"
  INPUT_SRC_PAYLOAD := "srcPayload"
  INPUT_TO := "to"
  INPUT_VALUES := "values"
  INPUT_CREATED_BY := "createdBy"
  INPUT_EXTERNAL_REFS := "externalReferences"
  INPUT_KILLCHAIN := "killChainPhases"
  INPUT_LABELS := "objectLabel"
  INPUT_MARKINGS := "objectMarking"
  INPUT_OBJECTS := "objects"

/-- A malware instance with two stix ids (the first one with a version 1
UUID) and one attached file. -/
def sampleMalware : Obj := [
  ("_index", .str "opencti_stix_domain_objects"),
  ("internal_id", .str "4a1f"),
  ("standard_id", .str "malware--2f7c1c6b-8a56-5c0e-9d2c-1c3d0a6e8f11"),
  ("entity_type", .str "Malware"),
  ("name", .str "Emotet"),
  ("x_opencti_stix_ids", .arr [
    .str "malware--c8b3e2a0-5f1d-11ec-bf63-0242ac130002",
    .str "malware--6f2d9c1e-3b7a-4e58-9a10-5d2c7e8b1f33"]),
  ("x_opencti_files", .arr [.obj [
    ("id", .str "import/Malware/4a1f/report.pdf"),
    ("name", .str "report.pdf"),
    ("version", .str "1"),
    ("mime_type", .str "application/pdf")]])]

/-- A process observable whose environment holds a variable set to the empty
string. -/
def sampleProcess : Obj := [
  ("_index", .str "opencti_stix_cyber_observables"),
  ("internal_id", .str "5e0d"),
  ("standard_id", .str "process--0a6e8f11-8a56-5c0e-9d2c-2f7c1c6b1c3d"),
  ("entity_type", .str "Process"),
  ("pid", .num 4242),
  ("command_line", .str "/usr/bin/agent --daemon"),
  ("environment_variables", .obj [("PATH", .str "/usr/bin"), ("DEBUG", .str "")])]

/-- A malware instance whose standard id is the empty string. -/
def sampleNoStandardId : Obj := [
  ("_index", .str "opencti_stix_domain_objects"),
  ("internal_id", .str "4a20"),
  ("standard_id", .str ""),
  ("entity_type", .str "Malware"),
  ("name", .str "Emotet")]

/-- A file observable without a `hashes` attribute. -/
def sampleFile : Obj := [
  ("_index", .str "opencti_stix_cyber_observables"),
  ("internal_id", .str "77aa"),
  ("standard_id", .str "file--1c3d0a6e-8a56-5c0e-9d2c-2f7c1c6b8f11"),
  ("entity_type", .str "StixFile"),
  ("name", .str "a.exe")]

/-- A meta relationship (object marking) between a malware and a marking
definition, both resolved. -/
def sampleObjectMarking : Obj := [
  ("_index", .str "opencti_stix_meta_relationships"),
  ("internal_id", .str "9c01"),
  ("standard_id", .str "relationship--5b1e0c9a-7d43-4c7e-8a3b-0f6d2e9c4a17"),
  ("entity_type", .str "object-marking"),
  ("relationship_type", .str "object-marking"),
  ("fromId", .str "4a1f"),
  ("toId", .str "31bc"),
  ("from", .obj [
    ("internal_id", .str "4a1f"),
    ("standard_id", .str "malware--2f7c1c6b-8a56-5c0e-9d2c-1c3d0a6e8f11"),
    ("entity_type", .str "Malware")]),
  ("to", .obj [
    ("internal_id", .str "31bc"),
    ("standard_id", .str "marking-definition--613f2e26-407d-48c7-9eca-b8e91df99dc9"),
    ("entity_type", .str "Marking-Definition")])]

/-- An object whose only extension sub-block holds nothing but its discriminator. -/
def sampleBareExtension : Obj := [
  ("extensions", .obj [
    ("extension-definition--322b8f77-262a-4cb8-a915-1e441e00329b",
      .obj [("extension_type", .str "property-extension")])])]

/-- An object whose platform extension block holds nothing but its
discriminator, next to a cyber-observable block with two entries. -/
def sampleBarePlatform : Obj := [
  ("id", .str "url--7c1c6b2f-8a56-5c0e-9d2c-1c3d0a6e8f11"),
  ("extensions", .obj [
    ("extension-definition--ea279b3e-5c71-4632-ac08-831c66a786ba",
      .obj [("extension_type", .str "property-extension")]),
    ("extension-definition--f93e2c80-4231-4f9a-af8b-95c9bd566a82",
      .obj [("extension_type", .str "property-extension"), ("score", .num 50)])])]

/-- An object with an empty description and two extension sub-blocks, one of
them reduced to its discriminator. -/
def sampleTwoBlocks : Obj := [
  ("id", .str "url--7c1c6b2f-8a56-5c0e-9d2c-1c3d0a6e8f11"),
  ("description", .str ""),
  ("extensions", .obj [
    ("extension-definition--ea279b3e-5c71-4632-ac08-831c66a786ba",
      .obj [("extension_type", .str "property-extension"), ("type", .str "Url")]),
    ("extension-definition--f93e2c80-4231-4f9a-af8b-95c9bd566a82",
      .obj [("extension_type", .str "property-extension")])])]

/-! ## Predicates used to state and prove the properties -/

mutual
/-- No field at any depth of the value holds an empty value. -/
def noEmptyField : JValue → Bool
  | .obj kvs => noEmptyFieldObj kvs
  | .arr xs => noEmptyFieldList xs
  | _ => true
/-- No field at any depth of the entries holds an empty value. -/
def noEmptyFieldObj : List (String × JValue) → Bool
  | [] => true
  | (_, v) :: rest => !isEmptyField v && noEmptyField v && noEmptyFieldObj rest
/-- No field at any depth of the elements holds an empty value. -/
def noEmptyFieldList : List JValue → Bool
  | [] => true
  | x :: xs => noEmptyField x && noEmptyFieldList xs
end

/-- The ids whose UUID version is not 1, in their original order. -/
def trustedIds (S : Schema) (ids : List JValue) : List JValue :=
  ids.filter (fun id => decide (uuidVersionOf S id ≠ some 1))

/-- The keys of an object, in insertion order. -/
def keys (o : Obj) : List String := o.map Prod.fst

/-- No key occurs twice: the list is the entry list of a JavaScript object. -/
def NoDupKeys (o : Obj) : Prop := (keys o).Nodup

instance (o : Obj) : Decidable (NoDupKeys o) :=
  inferInstanceAs (Decidable (keys o).Nodup)

/-- No entry of the object holds an empty value. -/
def AllNonEmpty (o : Obj) : Prop := ∀ kv ∈ o, isEmptyField kv.2 = false

instance (o : Obj) : Decidable (AllNonEmpty o) :=
  inferInstanceAs (Decidable (∀ kv ∈ o, isEmptyField kv.2 = false))

/-- Last value written for a key by a list of fields. -/
def lookupLast : Obj → String → Option JValue
  | [], _ => none
  | (k', v) :: rest, k =>
    match lookupLast rest k with
    | some w => some w
    | none => if k' = k then some v else none

/-- The entries a normalisation pass keeps when there is no `extensions` key. -/
def nonEmptyEntries (o : Obj) : Obj := o.filter (fun kv => !isEmptyField kv.2)

/-- The keys of the platform extension block other than its discriminator. -/
def octiKeys : List String :=
  ["id", "type", "created_at", "updated_at", "aliases", "files", "stix_ids", "is_inferred",
    "workflow_id"]

/-- A platform extension block of an instance: a normalised object that agrees
with `buildOCTIExtensions` on the platform keys. -/
structure OctiBlock (S : Schema) (inst : Obj) (blk : Obj) : Prop where
  nodup : NoDupKeys blk
  nonEmpty : AllNonEmpty blk
  noExt : hasProp blk "extensions" = false
  base : ∃ octi, buildOCTIExtensions S inst = .ok octi ∧
    ∀ k ∈ octiKeys, getProp blk k = getProp octi k
  extType : getProp blk "extension_type" = .str "property-extension" ∨
    getProp blk "extension_type" = .str "new-sdo"

/-- A normalised sub-block: no empty value and no nested `extensions` key. -/
def CleanBlock (b : Obj) : Prop := AllNonEmpty b ∧ hasProp b "extensions" = false

/-- An `extensions` mapping built by a projector. -/
structure ExtsOK (S : Schema) (inst : Obj) (exts : Obj) : Prop where
  nodup : NoDupKeys exts
  octi : ∃ blk, getProp exts S.STIX_EXT_OCTI = .obj blk ∧ OctiBlock S inst blk
  blocks : ∀ e ∈ exts, ∃ b, e.2 = .obj b ∧ CleanBlock b

/-- What every projector guarantees about the envelope of the object it builds. -/
structure Envelope (S : Schema) (inst : Obj) (o : Obj) : Prop where
  nodup : NoDupKeys o
  id : getProp o "id" = getProp inst "standard_id"
  spec_version : getProp o "spec_version" = .str "2.1"
  type : ∃ t, getProp inst "entity_type" = .str t ∧
    getProp o "type" = .str (convertTypeToStixType S t)

/-- What every projector guarantees about the object it builds. -/
structure Projected (S : Schema) (inst : Obj) (o : Obj) : Prop where
  env : Envelope S inst o
  exts : ∃ exts, getProp o "extensions" = .obj exts ∧ ExtsOK S inst exts

/-- The normal form of `sampleTwoBlocks`. -/
def sampleTwoBlocksClean : Obj := [
  ("id", .str "url--7c1c6b2f-8a56-5c0e-9d2c-1c3d0a6e8f11"),
  ("extensions", .obj [
    ("extension-definition--ea279b3e-5c71-4632-ac08-831c66a786ba",
      .obj [("extension_type", .str "property-extension"), ("type", .str "Url")])])]

/-! ## Definitions for the error paths, the dispatcher tables and schema well-formedness -/

/-- A core relationship whose `from` endpoint is not resolved. -/
def sampleRelationNoFrom : Obj := [
  ("_index", .str "opencti_stix_core_relationships"),
  ("internal_id", .str "9d10"),
  ("standard_id", .str "relationship--0c9a5b1e-7d43-4c7e-8a3b-0f6d2e9c4a17"),
  ("entity_type", .str "uses"),
  ("relationship_type", .str "uses"),
  ("fromId", .str "4a1f"),
  ("toId", .str "62c7"),
  ("to", .obj [
    ("internal_id", .str "62c7"),
    ("standard_id", .str "tool--3b7a6f2d-9c1e-4e58-9a10-5d2c7e8b1f33"),
    ("entity_type", .str "Tool")])]

/-- A sighting whose `from` endpoint is resolved and whose `to` endpoint is `null`. -/
def sampleSightingNoTo : Obj := [
  ("_index", .str "opencti_stix_sighting_relationships"),
  ("internal_id", .str "9d11"),
  ("standard_id", .str "sighting--7d430c9a-5b1e-4c7e-8a3b-0f6d2e9c4a17"),
  ("entity_type", .str "stix-sighting-relationship"),
  ("fromId", .str "4a1f"),
  ("toId", .str "62c8"),
  ("from", .obj [
    ("internal_id", .str "4a1f"),
    ("standard_id", .str "malware--2f7c1c6b-8a56-5c0e-9d2c-1c3d0a6e8f11"),
    ("entity_type", .str "Malware")]),
  ("to", .null)]

/-- An instance whose type belongs to no taxonomy of the sample schema. -/
def sampleUnknownType : Obj := [
  ("_index", .str "opencti_internal_objects"),
  ("internal_id", .str "0b55"),
  ("standard_id", .str "workspace--5c0e2f7c-8a56-4c6b-9d2c-1c3d0a6e8f11"),
  ("entity_type", .str "Workspace"),
  ("name", .str "Dashboard")]

/-- A malware instance loaded without its storage index. -/
def sampleNoIndex : Obj := [
  ("internal_id", .str "4a1f"),
  ("standard_id", .str "malware--2f7c1c6b-8a56-5c0e-9d2c-1c3d0a6e8f11"),
  ("entity_type", .str "Malware"),
  ("name", .str "Emotet")]

/-- The domain object types the dispatcher has a projector for (besides the
identity and location kinds), in the order of its tests. -/
def domainProjectorTypes (S : Schema) : List String := [
  S.ENTITY_TYPE_CONTAINER_REPORT, S.ENTITY_TYPE_MALWARE, S.ENTITY_TYPE_INFRASTRUCTURE,
  S.ENTITY_TYPE_ATTACK_PATTERN, S.ENTITY_TYPE_CAMPAIGN, S.ENTITY_TYPE_THREAT_ACTOR,
  S.ENTITY_TYPE_CONTAINER_NOTE, S.ENTITY_TYPE_CONTAINER_OPINION,
  S.ENTITY_TYPE_CONTAINER_OBSERVED_DATA, S.ENTITY_TYPE_COURSE_OF_ACTION,
  S.ENTITY_TYPE_INCIDENT, S.ENTITY_TYPE_INDICATOR, S.ENTITY_TYPE_INTRUSION_SET,
  S.ENTITY_TYPE_TOOL, S.ENTITY_TYPE_VULNERABILITY]

/-- The meta object types the dispatcher has a projector for, in the order of its tests. -/
def metaProjectorTypes (S : Schema) : List String := [
  S.ENTITY_TYPE_MARKING_DEFINITION, S.ENTITY_TYPE_LABEL, S.ENTITY_TYPE_KILL_CHAIN_PHASE,
  S.ENTITY_TYPE_EXTERNAL_REFERENCE]

/-- The cyber observable types the dispatcher has a projector for, in the
order of its tests. -/
def observableProjectorTypes (S : Schema) : List String := [
  S.ENTITY_WINDOWS_REGISTRY_VALUE_TYPE, S.ENTITY_EMAIL_MIME_PART_TYPE,
  S.ENTITY_HASHED_OBSERVABLE_ARTIFACT, S.ENTITY_AUTONOMOUS_SYSTEM,
  S.ENTITY_CRYPTOGRAPHIC_WALLET, S.ENTITY_CRYPTOGRAPHIC_KEY, S.ENTITY_DIRECTORY,
  S.ENTITY_DOMAIN_NAME, S.ENTITY_EMAIL_ADDR, S.ENTITY_EMAIL_MESSAGE,
  S.ENTITY_HASHED_OBSERVABLE_STIX_FILE, S.ENTITY_HOSTNAME, S.ENTITY_IPV4_ADDR,
  S.ENTITY_IPV6_ADDR, S.ENTITY_MAC_ADDR, S.ENTITY_MUTEX, S.ENTITY_NETWORK_TRAFFIC,
  S.ENTITY_PROCESS, S.ENTITY_SOFTWARE, S.ENTITY_TEXT, S.ENTITY_URL, S.ENTITY_USER_ACCOUNT,
  S.ENTITY_WINDOWS_REGISTRY_KEY, S.ENTITY_HASHED_OBSERVABLE_X509_CERTIFICATE]

/-- The category in which the dispatcher classifies the type holds a concrete
projector for it. -/
def hasProjector (S : Schema) (t : String) : Bool :=
  if S.isStixRelationship t then
    S.isStixCoreRelationship t || S.isStixCyberObservableRelationship t ||
      S.isStixSightingRelationship t || S.isStixMetaRelationship t
  else if S.isStixDomainObject t then
    S.isStixDomainObjectIdentity t || S.isStixDomainObjectLocation t ||
      (domainProjectorTypes S).contains t
  else if S.isStixMetaObject t then (metaProjectorTypes S).contains t
  else if S.isStixCyberObservable t then (observableProjectorTypes S).contains t
  else false

/-- The message of the error the dispatcher raises for a type that its
category has no projector for. -/
def noProjectorMessage (S : Schema) (t : String) : String :=
  if S.isStixRelationship t then "No relation converter available for " ++ t
  else if S.isStixDomainObject t then "No entity converter available for " ++ t
  else if S.isStixMetaObject t then "No meta converter available for " ++ t
  else "No meta cyber observable available for " ++ t

/-- The sample schema with one more type in each category, none of which has
a projector: the abstract relationship type, and a domain object type, a meta
object type and a cyber observable type the converter does not know. -/
def openctiWide : Schema :=
  { opencti with
    isStixObject := fun t => opencti.isStixObject t || t == "Narrative" ||
      t == "Language" || t == "X-OpenCTI-User-Agent"
    isStixRelationship := fun t => opencti.isStixRelationship t || t == "stix-relationship"
    isStixDomainObject := fun t => opencti.isStixDomainObject t || t == "Narrative"
    isStixMetaObject := fun t => opencti.isStixMetaObject t || t == "Language"
    isStixCyberObservable := fun t => opencti.isStixCyberObservable t ||
      t == "X-OpenCTI-User-Agent" }

/-- An instance of the given type, fully loaded. -/
def sampleOfType (t : String) : Obj := [
  ("_index", .str "opencti_stix_objects"),
  ("internal_id", .str "c0de"),
  ("standard_id", .str "x--5c0e2f7c-8a56-4c6b-9d2c-1c3d0a6e8f11"),
  ("entity_type", .str t),
  ("name", .str "sample")]

/-- The computation does not raise a functional error. -/
def NotFunctional {α : Type} (m : Except Err α) : Prop :=
  ∀ msg, m ≠ .error (.functional msg)

/-- The schema assigns every type that has a projector to the category of that
projector, and the type constants of a category are pairwise distinct. -/
structure Schema.WellFormed (S : Schema) : Prop where
  extKeys : S.ExtKeysDistinct
  domainNodup : (domainProjectorTypes S).Nodup
  metaNodup : (metaProjectorTypes S).Nodup
  observableNodup : (observableProjectorTypes S).Nodup
  domain : ∀ t ∈ domainProjectorTypes S,
    S.isStixObject t = true ∧ S.isStixRelationship t = false ∧
    S.isStixDomainObject t = true ∧ S.isStixDomainObjectIdentity t = false ∧
    S.isStixDomainObjectLocation t = false
  metaTypes : ∀ t ∈ metaProjectorTypes S,
    S.isStixObject t = true ∧ S.isStixRelationship t = false ∧
    S.isStixDomainObject t = false ∧ S.isStixMetaObject t = true
  observable : ∀ t ∈ observableProjectorTypes S,
    S.isStixObject t = true ∧ S.isStixRelationship t = false ∧
    S.isStixDomainObject t = false ∧ S.isStixMetaObject t = false ∧
    S.isStixCyberObservable t = true

/-! ## Definitions for the per-type properties -/

/-- The types whose projector attaches the MITRE extension block. -/
def mitreTypes (S : Schema) : List String :=
  [S.ENTITY_TYPE_ATTACK_PATTERN, S.ENTITY_TYPE_COURSE_OF_ACTION, S.ENTITY_TYPE_INDICATOR]

/-- The MITRE attributes of an instance under the keys of the MITRE block. -/
def mitreAttributes (inst : Obj) : Obj := [
  ("id", getProp inst "x_mitre_id"),
  ("detection", getProp inst "x_mitre_detection"),
  ("permissions_required", getProp inst "x_mitre_permissions_required"),
  ("platforms", getProp inst "x_mitre_platforms")]

/-- The types whose projector sets `kill_chain_phases`. -/
def killChainTypes (S : Schema) : List String :=
  [S.ENTITY_TYPE_TOOL, S.ENTITY_TYPE_INFRASTRUCTURE, S.ENTITY_TYPE_INDICATOR,
    S.ENTITY_TYPE_MALWARE, S.ENTITY_TYPE_ATTACK_PATTERN]

/-- The entry built for one attached kill-chain phase: the non-empty ones among
its `kill_chain_name` and `phase_name`. -/
def killChainEntry (k : JValue) : JValue :=
  .obj (nonEmptyEntries [
    ("kill_chain_name", optProp k "kill_chain_name"),
    ("phase_name", optProp k "phase_name")])

/-- The observable types whose projector keeps the cyber-observable extension
block built by `buildStixCyberObservable`. -/
def scoExtensionTypes (S : Schema) : List String :=
  [S.ENTITY_HASHED_OBSERVABLE_ARTIFACT, S.ENTITY_AUTONOMOUS_SYSTEM, S.ENTITY_DIRECTORY,
    S.ENTITY_DOMAIN_NAME, S.ENTITY_EMAIL_ADDR, S.ENTITY_EMAIL_MESSAGE,
    S.ENTITY_HASHED_OBSERVABLE_STIX_FILE, S.ENTITY_IPV4_ADDR, S.ENTITY_IPV6_ADDR,
    S.ENTITY_MAC_ADDR, S.ENTITY_MUTEX, S.ENTITY_NETWORK_TRAFFIC, S.ENTITY_PROCESS,
    S.ENTITY_SOFTWARE, S.ENTITY_URL, S.ENTITY_USER_ACCOUNT, S.ENTITY_WINDOWS_REGISTRY_KEY,
    S.ENTITY_HASHED_OBSERVABLE_X509_CERTIFICATE]

/-- The attributes `buildStixCyberObservable` puts in the cyber-observable
extension block, under the keys of that block; the three mapped lists are
passed as computed. -/
def scoAttributes (S : Schema) (inst : Obj) (labels linked refs : JValue) : Obj := [
  ("labels", labels),
  ("description", getProp inst "x_opencti_description"),
  ("score", getProp inst "x_opencti_score"),
  ("created_by_ref", optProp (getProp inst S.INPUT_CREATED_BY) "standard_id"),
  ("linked_to_refs", linked),
  ("external_references", refs)]

/-- A cyber-observable extension block of an instance: it is marked
"property-extension" and holds every non-empty attribute of `scoAttributes`. -/
structure ScoBlock (S : Schema) (inst : Obj) (blk : Obj) : Prop where
  nodup : NoDupKeys blk
  extType : getProp blk "extension_type" = .str "property-extension"
  carried : ∃ labels linked refs, labelValues S inst = .ok labels ∧
    standardIds inst S.INPUT_LINKED = .ok linked ∧
    buildExternalReferences S inst = .ok refs ∧
    ∀ kv ∈ scoAttributes S inst labels linked refs, isEmptyField kv.2 = false →
      getProp blk kv.1 = kv.2

/-- A marking definition whose `modified` attribute differs from its
`updated_at`. -/
def sampleMarking : Obj := [
  ("_index", .str "opencti_stix_meta_objects"),
  ("internal_id", .str "31bc"),
  ("standard_id", .str "marking-definition--613f2e26-407d-48c7-9eca-b8e91df99dc9"),
  ("entity_type", .str "Marking-Definition"),
  ("definition_type", .str "TLP"),
  ("definition", .str "TLP:AMBER"),
  ("created", .str "2020-02-25T09:02:29.040Z"),
  ("modified", .str "2020-02-25T09:02:29.040Z"),
  ("updated_at", .str "2022-03-01T10:00:00.000Z")]

/-- An indicator with a STIX pattern and a score of 50, without kill-chain
phases, workflow status or MITRE attributes. -/
def sampleIndicator : Obj := [
  ("_index", .str "opencti_stix_domain_objects"),
  ("internal_id", .str "7b3e"),
  ("standard_id", .str "indicator--8a56c0e2-2f7c-5c6b-9d2c-1c3d0a6e8f11"),
  ("entity_type", .str "Indicator"),
  ("name", .str "Beacon address"),
  ("pattern", .str "[ipv4-addr:value = \x27198.51.100.7\x27]"),
  ("pattern_type", .str "stix"),
  ("x_opencti_score", .num 50)]

/-- An attack pattern with a MITRE identifier and platforms. -/
def sampleAttackPattern : Obj := [
  ("_index", .str "opencti_stix_domain_objects"),
  ("internal_id", .str "2d41"),
  ("standard_id", .str "attack-pattern--0a6e8f11-2f7c-5c6b-9d2c-1c3d8a56c0e2"),
  ("entity_type", .str "Attack-Pattern"),
  ("name", .str "Command and Scripting Interpreter"),
  ("x_mitre_id", .str "T1059"),
  ("x_mitre_detection", .str ""),
  ("x_mitre_platforms", .arr [.str "Linux", .str "Windows"])]

/-- A tool attached to two kill-chain phases. -/
def sampleTool : Obj := [
  ("_index", .str "opencti_stix_domain_objects"),
  ("internal_id", .str "6c90"),
  ("standard_id", .str "tool--1c3d8a56-2f7c-5c6b-9d2c-0a6e8f11c0e2"),
  ("entity_type", .str "Tool"),
  ("name", .str "Mimikatz"),
  ("killChainPhases", .arr [
    .obj [("internal_id", .str "k1"), ("kill_chain_name", .str "mitre-attack"),
      ("phase_name", .str "credential-access"), ("x_opencti_order", .num 6)],
    .obj [("internal_id", .str "k2"), ("kill_chain_name", .str "lockheed-martin"),
      ("phase_name", .str "exploitation"), ("x_opencti_order", .num 4)]])]

/-- A tool attached to a kill-chain phase whose `phase_name` is the empty
string. -/
def sampleToolEmptyPhase : Obj := [
  ("_index", .str "opencti_stix_domain_objects"),
  ("internal_id", .str "6c91"),
  ("standard_id", .str "tool--2f7c8a56-1c3d-5c6b-9d2c-0a6e8f11c0e2"),
  ("entity_type", .str "Tool"),
  ("name", .str "Scanner"),
  ("killChainPhases", .arr [
    .obj [("internal_id", .str "k3"), ("kill_chain_name", .str "mitre-attack"),
      ("phase_name", .str "")]])]

/-- A hostname observable with a description and a score. -/
def sampleHostname : Obj := [
  ("_index", .str "opencti_stix_cyber_observables"),
  ("internal_id", .str "88f0"),
  ("standard_id", .str "hostname--5c6b8a56-1c3d-5f7c-9d2c-0a6e8f11c0e2"),
  ("entity_type", .str "X-OpenCTI-Hostname"),
  ("value", .str "gateway.example"),
  ("x_opencti_description", .str "Edge gateway"),
  ("x_opencti_score", .num 70)]

/-- A domain-name observable with a description and a score. -/
def sampleDomainName : Obj := [
  ("_index", .str "opencti_stix_cyber_observables"),
  ("internal_id", .str "88f1"),
  ("standard_id", .str "domain-name--8a565c6b-1c3d-5f7c-9d2c-0a6e8f11c0e2"),
  ("entity_type", .str "Domain-Name"),
  ("value", .str "gateway.example"),
  ("x_opencti_description", .str "Edge gateway"),
  ("x_opencti_score", .num 70)]

/-! ## Definitions for the relationship and common-field properties -/

/-- The object `o` carries the value `v` under the key `k`: the field holds `v`
when `v` is non-empty and is absent when `v` is empty. -/
def Carries (o : Obj) (k : String) (v : JValue) : Prop :=
  (isEmptyField v = false → getProp o k = v) ∧ (isEmptyField v = true → hasProp o k = false)

/-- The object `o` carries the one-element list `[v]` under the key `k`: the
field holds `[v]` when `v` is truthy and is absent otherwise. -/
def CarriesOne (o : Obj) (k : String) (v : JValue) : Prop :=
  (truthy v = true → getProp o k = .arr [v]) ∧ (truthy v = false → hasProp o k = false)

/-- The relationship types the dispatcher hands to `convertRelationToStix`:
core and cyber-observable relationships, and meta relationships that are not
sightings. -/
def routedToRelation (S : Schema) (t : String) : Bool :=
  S.isStixCoreRelationship t || S.isStixCyberObservableRelationship t ||
    (!S.isStixSightingRelationship t && S.isStixMetaRelationship t)

/-- The relationship types the dispatcher hands to `convertSightingToStix`. -/
def routedToSighting (S : Schema) (t : String) : Bool :=
  !S.isStixCoreRelationship t && !S.isStixCyberObservableRelationship t &&
    S.isStixSightingRelationship t

/-- A core relationship with both endpoints resolved. -/
def sampleRelation : Obj := [
  ("_index", .str "opencti_stix_core_relationships"),
  ("internal_id", .str "9d12"),
  ("standard_id", .str "relationship--5b1e0c9a-7d43-4c7e-8a3b-2e9c4a170f6d"),
  ("entity_type", .str "uses"),
  ("relationship_type", .str "uses"),
  ("fromId", .str "4a1f"),
  ("toId", .str "62c7"),
  ("from", .obj [
    ("internal_id", .str "4a1f"),
    ("standard_id", .str "malware--2f7c1c6b-8a56-5c0e-9d2c-1c3d0a6e8f11"),
    ("entity_type", .str "Malware")]),
  ("to", .obj [
    ("internal_id", .str "62c7"),
    ("standard_id", .str "tool--3b7a6f2d-9c1e-4e58-9a10-5d2c7e8b1f33"),
    ("entity_type", .str "Tool")])]

/-- A core relationship whose resolved `from` endpoint has the empty string as
standard id. -/
def sampleRelationEmptyId : Obj := [
  ("_index", .str "opencti_stix_core_relationships"),
  ("internal_id", .str "9d13"),
  ("standard_id", .str "relationship--7d435b1e-0c9a-4c7e-8a3b-2e9c4a170f6d"),
  ("entity_type", .str "uses"),
  ("relationship_type", .str "uses"),
  ("fromId", .str "4a1f"),
  ("toId", .str "62c7"),
  ("from", .obj [
    ("internal_id", .str "4a1f"),
    ("standard_id", .str ""),
    ("entity_type", .str "Malware")]),
  ("to", .obj [
    ("internal_id", .str "62c7"),
    ("standard_id", .str "tool--3b7a6f2d-9c1e-4e58-9a10-5d2c7e8b1f33"),
    ("entity_type", .str "Tool")])]

/-- A sighting with both endpoints resolved. -/
def sampleSightingFull : Obj := [
  ("_index", .str "opencti_stix_sighting_relationships"),
  ("internal_id", .str "9d14"),
  ("standard_id", .str "sighting--0c9a7d43-5b1e-4c7e-8a3b-0f6d2e9c4a17"),
  ("entity_type", .str "stix-sighting-relationship"),
  ("fromId", .str "7b3e"),
  ("toId", .str "51aa"),
  ("from", .obj [
    ("internal_id", .str "7b3e"),
    ("standard_id", .str "indicator--8a56c0e2-2f7c-5c6b-9d2c-1c3d0a6e8f11"),
    ("entity_type", .str "Indicator")]),
  ("to", .obj [
    ("internal_id", .str "51aa"),
    ("standard_id", .str "identity--c0e28a56-2f7c-5c6b-9d2c-1c3d0a6e8f11"),
    ("entity_type", .str "Organization")])]

/-- A sighting whose resolved `to` endpoint has the empty string as standard
id. -/
def sampleSightingEmptyId : Obj := [
  ("_index", .str "opencti_stix_sighting_relationships"),
  ("internal_id", .str "9d15"),
  ("standard_id", .str "sighting--5b1e7d43-0c9a-4c7e-8a3b-0f6d2e9c4a17"),
  ("entity_type", .str "stix-sighting-relationship"),
  ("fromId", .str "7b3e"),
  ("toId", .str "51aa"),
  ("from", .obj [
    ("internal_id", .str "7b3e"),
    ("standard_id", .str "indicator--8a56c0e2-2f7c-5c6b-9d2c-1c3d0a6e8f11"),
    ("entity_type", .str "Indicator")]),
  ("to", .obj [
    ("internal_id", .str "51aa"),
    ("standard_id", .str ""),
    ("entity_type", .str "Organization")])]

/-- The keys of the fields `buildStixDomain` adds to the envelope, the external
references apart. -/
def domainCommonKeys : List String :=
  ["created", "modified", "revoked", "confidence", "lang", "labels", "object_marking_refs",
    "created_by_ref"]

/-- The values `buildStixDomain` computes for the keys of `domainCommonKeys`,
given the attached labels `ls` and the attached markings `ms`. -/
def domainCommonAttributes (S : Schema) (inst : Obj) (ls ms : List JValue) : Obj := [
  ("created", getProp inst "created"),
  ("modified", getProp inst "modified"),
  ("revoked", getProp inst "revoked"),
  ("confidence", getProp inst "confidence"),
  ("lang", getProp inst "lang"),
  ("labels", .arr (ls.map fun m => optProp m "value")),
  ("object_marking_refs", .arr (ms.map fun m => optProp m "standard_id")),
  ("created_by_ref", optProp (getProp inst S.INPUT_CREATED_BY) "standard_id")]

/-- The descriptor `buildOCTIExtensions` builds for one file of
`x_opencti_files`. -/
def fileDescriptor (file : JValue) : JValue :=
  .obj [("name", optProp file "name"),
    ("uri", .str ("/storage/get/" ++ toJsString (optProp file "id"))),
    ("version", optProp file "version"),
    ("mime_type", optProp file "mime_type")]

/-- A domain object with `revoked` false and `confidence` 0, two labels, one
marking and a resolved author. -/
def sampleCampaign : Obj := [
  ("_index", .str "opencti_stix_domain_objects"),
  ("internal_id", .str "3f02"),
  ("standard_id", .str "campaign--6b8a565c-1c3d-5f7c-9d2c-0a6e8f11c0e2"),
  ("entity_type", .str "Campaign"),
  ("name", .str "Winter phishing"),
  ("created", .str "2021-11-02T08:00:00.000Z"),
  ("modified", .str "2021-12-24T17:30:00.000Z"),
  ("revoked", .bool false),
  ("confidence", .num 0),
  ("lang", .str "en"),
  ("objectLabel", .arr [
    .obj [("internal_id", .str "l1"), ("value", .str "phishing")],
    .obj [("internal_id", .str "l2"), ("value", .str "finance")]]),
  ("objectMarking", .arr [
    .obj [("internal_id", .str "31bc"),
      ("standard_id", .str "marking-definition--613f2e26-407d-48c7-9eca-b8e91df99dc9")]]),
  ("createdBy", .obj [("internal_id", .str "51aa"),
    ("standard_id", .str "identity--c0e28a56-2f7c-5c6b-9d2c-1c3d0a6e8f11")])]

/-- A mutex observable with `defanged` false. -/
def sampleMutex : Obj := [
  ("_index", .str "opencti_stix_cyber_observables"),
  ("internal_id", .str "88f2"),
  ("standard_id", .str "mutex--565c6b8a-1c3d-5f7c-9d2c-0a6e8f11c0e2"),
  ("entity_type", .str "Mutex"),
  ("name", .str "InstallerLock"),
  ("defanged", .bool false)]

/-- A report that refers to two resolved objects. -/
def sampleReport : Obj := [
  ("_index", .str "opencti_stix_domain_objects"),
  ("internal_id", .str "5d77"),
  ("standard_id", .str "report--1c3d6b8a-565c-5f7c-9d2c-0a6e8f11c0e2"),
  ("entity_type", .str "Report"),
  ("name", .str "Quarterly threat landscape"),
  ("published", .str "2022-01-15T00:00:00.000Z"),
  ("objects", .arr [
    .obj [("internal_id", .str "4a1f"),
      ("standard_id", .str "malware--2f7c1c6b-8a56-5c0e-9d2c-1c3d0a6e8f11")],
    .obj [("internal_id", .str "62c7"),
      ("standard_id", .str "tool--3b7a6f2d-9c1e-4e58-9a10-5d2c7e8b1f33")]])]

/-- An email message with a subject and a raw header attribute. -/
def sampleEmailMessage : Obj := [
  ("_index", .str "opencti_stix_cyber_observables"),
  ("internal_id", .str "88f3"),
  ("standard_id", .str "email-message--6b8a1c3d-565c-5f7c-9d2c-0a6e8f11c0e2"),
  ("entity_type", .str "Email-Message"),
  ("subject", .str "Invoice overdue"),
  ("is_multipart", .bool false),
  ("additional_header_fields", .obj [("X-Mailer", .str "mutt")])]

/-- A fully loaded instance stored in an inferred index, with two files. -/
def sampleInferredMalware : Obj := [
  ("_index", .str "opencti_inferred_entities"),
  ("internal_id", .str "4a21"),
  ("standard_id", .str "malware--8f112f7c-8a56-5c0e-9d2c-1c3d0a6e1c6b"),
  ("entity_type", .str "Malware"),
  ("name", .str "Dridex"),
  ("x_opencti_files", .arr [
    .obj [("id", .str "import/Malware/4a21/a.pdf"), ("name", .str "a.pdf"),
      ("version", .str "2021-05-05T10:00:00.000Z"), ("mime_type", .str "application/pdf")],
    .obj [("id", .str "import/Malware/4a21/b.txt"), ("name", .str "b.txt"),
      ("version", .str ""), ("mime_type", .str "text/plain")]])]

/-- Every sub-block of an `extensions` mapping other than the platform block is
an object without repeated key that holds an `extension_type`. -/
def BlocksTyped (S : Schema) (exts : Obj) : Prop :=
  ∀ e ∈ exts, e.1 = S.STIX_EXT_OCTI ∨
    (NoDupKeys (spread e.2) ∧ hasProp (spread e.2) "extension_type" = true)

/-! ## Ownership of objects: which objects the converter writes to

The definitions above are functions on values: they say what the converter
returns.  `cleanObject` also deletes keys in place, so the definitions below run
the same code on values that remember who owns an object: a value of
the instance (`old`), or an array or object created by the converter
(`newArr`, `newObj`).  Every in-place deletion on an object of the instance is recorded in
a journal. -/

/-- A value during a run of the converter.  `old v` is a primitive or a value
that existed before the call (read from the instance, directly or through the
entities it references); `newArr` and `newObj` are the arrays and objects the
converter creates (literals, spreads, results of `map` and `filter`). -/
inductive TValue where
  | old (v : JValue)
  | newArr (xs : List TValue)
  | newObj (kvs : List (String × TValue))
  deriving Repr, Inhabited

/-- The entries of an object created by the converter. -/
abbrev TObj := List (String × TValue)

/-- One in-place deletion on an object of the instance: the object and the key. -/
abbrev Journal := List (JValue × String)

/-- A computation of the converter: from the journal so far to a result or an
error, and the journal after it (kept when an error is raised). -/
def Run (α : Type) : Type := Journal → Except Err α × Journal

/-- Sequencing: an error stops the computation and keeps the journal. -/
def Run.bind {α β : Type} (x : Run α) (f : α → Run β) : Run β := fun j =>
  match x j with
  | (.ok a, j') => f a j'
  | (.error e, j') => (.error e, j')

instance : Monad Run where
  pure a := fun j => (.ok a, j)
  bind := Run.bind

/-- A `throw`. -/
def Run.fail {α : Type} (e : Err) : Run α := fun j => (.error e, j)

/-- A computation that writes to no object. -/
def Run.lift {α : Type} (x : Except Err α) : Run α := fun j => (x, j)

/-- The statement `delete target[key]` on an object of the instance. -/
def Run.record (target : JValue) (key : String) : Run Unit := fun j =>
  (.ok (), j ++ [(target, key)])

/-- Property read `o[k]` on an object created by the converter. -/
def getPropT : TObj → String → TValue
  | [], _ => .old .undefined
  | (k', v) :: rest, k => if k' = k then v else getPropT rest k

/-- Own-key test `k in o` on an object created by the converter. -/
def hasPropT : TObj → String → Bool
  | [], _ => false
  | (k', _) :: rest, k => if k' = k then true else hasPropT rest k

/-- Property write inside an object literal: an existing key keeps its position. -/
def setPropT : TObj → String → TValue → TObj
  | [], k, v => [(k, v)]
  | (k', v') :: rest, k, v => if k' = k then (k', v) :: rest else (k', v') :: setPropT rest k v

/-- Object literal with a spread, `{ ...base, k1: v1, ... }`: a new object. -/
def assignT (base : TObj) (fields : TObj) : TObj :=
  fields.foldl (fun o kv => setPropT o kv.1 kv.2) base

/-- Object literal `{ k1: v1, ... }`: a new object. -/
def mkObjT (fields : TObj) : TObj := assignT [] fields

/-- Spread of a value inside an object literal: the entries are copied, the
values of an object of the instance stay values of the instance. -/
def spreadT : TValue → TObj
  | .newObj kvs => kvs
  | .old (.obj kvs) => kvs.map fun kv => (kv.1, .old kv.2)
  | _ => []

/-- The `extensions` mapping of an object built by the converter. -/
def extensionsOfT (o : TObj) : TObj := spreadT (getPropT o "extensions")

/-- Emptiness test of `isEmptyField`. -/
def isEmptyFieldT : TValue → Bool
  | .old v => isEmptyField v
  | .newArr [] => true
  | .newObj [] => true
  | _ => false

/-- Number of entries, `Object.entries(v).length`. -/
def entriesLengthT : TValue → Nat
  | .old v => entriesLength v
  | .newArr xs => xs.length
  | .newObj kvs => kvs.length

/-- Nullish coalescing `v ?? d`, where `d` is a fresh literal. -/
def nullishT (v : JValue) (d : TValue) : TValue :=
  match v with
  | .undefined => d
  | .null => d
  | _ => .old v

/-- The expression `x ? [x] : []`: a new array. -/
def singletonIfTruthyT (x : JValue) : TValue :=
  if truthy x then .newArr [.old x] else .newArr []

/-- The new array returned by `map` or `filter`, whose elements are values of
the instance. -/
def freshArray : JValue → TValue
  | .arr xs => .newArr (xs.map .old)
  | v => .old v

/-- Sequencing of a function over the elements of an array of the instance. -/
def traverseT (f : JValue → Run TValue) : List JValue → Run (List TValue)
  | [] => pure []
  | x :: xs => do
    let y ← f x
    let ys ← traverseT f xs
    pure (y :: ys)

/-- Call `v.map(f)` on a value of the instance: a new array. -/
def mapArrayT (f : JValue → Run TValue) (v : JValue) : Run TValue :=
  match v with
  | .arr xs => do
    let ys ← traverseT f xs
    pure (.newArr ys)
  | _ => Run.fail .typeError

/-- The deletions the inner loop of `cleanObject` performs when `obj.extensions`
is an object of the instance: each sub-block with exactly one entry is deleted
in place, which is a write to the instance.  The loop stops at a sub-block that
is `null` or `undefined` (reading its entries throws). -/
def recordDeletions (target : JValue) : List (String × JValue) → Run Unit
  | [] => pure ()
  | (k, v) :: rest =>
    match v with
    | .undefined => pure ()
    | .null => pure ()
    | _ => do
      if entriesLength v == 1 then Run.record target k
      recordDeletions target rest

/-- The deletions the inner loop of `cleanObject` performs when `obj.extensions`
is an array of the instance: deleting the element at index `i` is a write to
the instance. -/
def recordDeletionsArr (target : JValue) : Nat → List JValue → Run Unit
  | _, [] => pure ()
  | i, v :: rest =>
    match v with
    | .undefined => pure ()
    | .null => pure ()
    | _ => do
      if entriesLength v == 1 then Run.record target (toString i)
      recordDeletionsArr target (i + 1) rest

/-- The deletions the inner loop of `cleanObject` performs on a value of
the instance found under the `extensions` key: a string or a number has no
deletable entry. -/
def recordDeletionsOn (v : JValue) : Run Unit :=
  match v with
  | .obj exts => recordDeletions v exts
  | .arr xs => recordDeletionsArr v 0 xs
  | _ => pure ()

/-- The inner loop of `cleanObject` on the value under the `extensions` key.
The deletions go to the object `obj.extensions` itself, which the shallow copy
`{ ...data }` shares with `data`.  When that object was created by the
converter nothing is recorded.  When it is a value of the instance every
deletion is recorded, and the outcome of the loop is the one `pruneExtensions`
computes. -/
def pruneExtensionsT : TValue → Run TValue
  | .newObj exts =>
    if exts.any (fun e => match e.2 with
      | .old .undefined => true
      | .old .null => true
      | _ => false) then Run.fail .typeError
    else pure (.newObj (exts.filter (fun e => entriesLengthT e.2 != 1)))
  | .newArr xs =>
    if xs.any (fun x => match x with
      | .old .undefined => true
      | .old .null => true
      | y => entriesLengthT y == 1) then Run.fail .typeError
    else pure (.newArr xs)
  | .old v => do
    recordDeletionsOn v
    let v' ← Run.lift (pruneExtensions v)
    pure (.old v')

/-- Normalisation: `obj` is a new object, a shallow copy of `data`; the keys
with an empty value are deleted from the copy, and under a kept `extensions`
key the sub-blocks are pruned in place. -/
def cleanObjectT : TObj → Run TObj
  | [] => pure []
  | (key, v) :: rest =>
    if isEmptyFieldT v then cleanObjectT rest
    else if key = "extensions" then do
      let v' ← pruneExtensionsT v
      let rest' ← cleanObjectT rest
      pure ((key, v') :: rest')
    else do
      let rest' ← cleanObjectT rest
      pure ((key, v) :: rest')

/-- Final check of the dispatcher: `!R.isEmpty(data)`. -/
def isValidStixT (data : TObj) : Bool := !data.isEmpty

mutual
/-- The value without the ownership marks. -/
def TValue.erase : TValue → JValue
  | .old v => v
  | .newArr xs => .arr (eraseList xs)
  | .newObj kvs => .obj (eraseObj kvs)
/-- The elements of an array without the ownership marks. -/
def eraseList : List TValue → List JValue
  | [] => []
  | x :: xs => x.erase :: eraseList xs
/-- The entries of an object without the ownership marks. -/
def eraseObj : TObj → Obj
  | [] => []
  | (k, v) :: rest => (k, v.erase) :: eraseObj rest
end

/-! ### The converter with ownership marks -/

/-- Run of `standardIds`: the new array of the standard ids of a slot. -/
def standardIdsT (inst : Obj) (slot : String) : Run TValue :=
  mapArrayT (fun m => do
      let id ← Run.lift (prop m "standard_id")
      pure (.old id))
    (nullish (getProp inst slot) (.arr []))

/-- Run of `labelValues`: the new array of the label values. -/
def labelValuesT (S : Schema) (inst : Obj) : Run TValue :=
  mapArrayT (fun m => do
      let value ← Run.lift (prop m "value")
      pure (.old value))
    (nullish (getProp inst S.INPUT_LABELS) (.arr []))

/-- Run of `buildOCTIExtensions` with ownership marks. -/
def buildOCTIExtensionsT (S : Schema) (inst : Obj) : Run TObj := do
  let files ← mapArrayT (fun file => do
      let name ← Run.lift (prop file "name")
      let id ← Run.lift (prop file "id")
      let version ← Run.lift (prop file "version")
      let mime_type ← Run.lift (prop file "mime_type")
      pure (.newObj [("name", .old name), ("uri", .old (.str ("/storage/get/" ++ toJsString id))),
        ("version", .old version), ("mime_type", .old mime_type)]))
    (nullish (getProp inst "x_opencti_files") (.arr []))
  let stix_ids ← Run.lift (filterArray (isTrustedStixId S)
    (nullish (getProp inst "x_opencti_stix_ids") (.arr [])))
  let is_inferred ← Run.lift (inferredFlag S (getProp inst "_index"))
  cleanObjectT [
    ("extension_type", .old (.str "property-extension")),
    ("id", .old (getProp inst "internal_id")),
    ("type", .old (getProp inst "entity_type")),
    ("created_at", .old (getProp inst "created_at")),
    ("updated_at", .old (getProp inst "updated_at")),
    ("aliases", nullishT (getProp inst "x_opencti_aliases") (.newArr [])),
    ("files", files),
    ("stix_ids", freshArray stix_ids),
    ("is_inferred", .old is_inferred),
    ("workflow_id", .old (getProp inst "x_opencti_workflow_id"))]

/-- Run of `buildMITREExtensions` with ownership marks. -/
def buildMITREExtensionsT (inst : Obj) : Run TObj :=
  cleanObjectT [
    ("extension_type", .old (.str "property-extension")),
    ("id", .old (getProp inst "x_mitre_id")),
    ("detection", .old (getProp inst "x_mitre_detection")),
    ("permissions_required", .old (getProp inst "x_mitre_permissions_required")),
    ("platforms", .old (getProp inst "x_mitre_platforms"))]

/-- Run of `buildStixObject` with ownership marks. -/
def buildStixObjectT (S : Schema) (inst : Obj) : Run TObj := do
  let type ← Run.lift (entityType inst)
  let octi ← buildOCTIExtensionsT S inst
  pure [
    ("id", .old (getProp inst "standard_id")),
    ("spec_version", .old (.str "2.1")),
    ("type", .old (.str (convertTypeToStixType S type))),
    ("extensions", .newObj (mkObjT [(S.STIX_EXT_OCTI, .newObj octi)]))]

/-- Run of `buildKillChainPhases` with ownership marks. -/
def buildKillChainPhasesT (S : Schema) (inst : Obj) : Run TValue :=
  mapArrayT (fun k => do
      let kill_chain_name ← Run.lift (prop k "kill_chain_name")
      let phase_name ← Run.lift (prop k "phase_name")
      let data ← cleanObjectT [("kill_chain_name", .old kill_chain_name), ("phase_name", .old phase_name)]
      pure (.newObj data))
    (nullish (getProp inst S.INPUT_KILLCHAIN) (.arr []))

/-- Run of `buildExternalReferences` with ownership marks. -/
def buildExternalReferencesT (S : Schema) (inst : Obj) : Run TValue :=
  mapArrayT (fun e => do
      let source_name ← Run.lift (prop e "source_name")
      let description ← Run.lift (prop e "description")
      let url ← Run.lift (prop e "url")
      let hashes ← Run.lift (prop e "hashes")
      let external_id ← Run.lift (prop e "external_id")
      let data ← cleanObjectT [("source_name", .old source_name), ("description", .old description),
        ("url", .old url), ("hashes", .old hashes), ("external_id", .old external_id)]
      pure (.newObj data))
    (nullish (getProp inst S.INPUT_EXTERNAL_REFS) (.arr []))

/-- Run of `buildWindowsRegistryValueType` with ownership marks. -/
def buildWindowsRegistryValueTypeT (S : Schema) (inst : Obj) : Run TValue :=
  mapArrayT (fun k => do
      let name ← Run.lift (prop k "name")
      let data ← Run.lift (prop k "data")
      let data_type ← Run.lift (prop k "data_type")
      let o ← cleanObjectT [("name", .old name), ("data", .old data), ("data_type", .old data_type)]
      pure (.newObj o))
    (nullish (getProp inst S.INPUT_VALUES) (.arr []))

/-- Run of `buildEmailBodyMultipart` with ownership marks. -/
def buildEmailBodyMultipartT (S : Schema) (inst : Obj) : Run TValue :=
  mapArrayT (fun k => do
      let content_type ← Run.lift (prop k "content_type")
      let content_disposition ← Run.lift (prop k "content_disposition")
      let body ← Run.lift (prop k "body")
      let data ← cleanObjectT [("content_type", .old content_type),
        ("content_disposition", .old content_disposition), ("body", .old body),
        ("body_raw_ref", .old (optProp (getProp inst S.INPUT_BODY_RAW) "standard_id"))]
      pure (.newObj data))
    (nullish (getProp inst S.INPUT_BODY_MULTIPART) (.arr []))

/-- Run of `buildStixDomain` with ownership marks. -/
def buildStixDomainT (S : Schema) (inst : Obj) : Run TObj := do
  let base ← buildStixObjectT S inst
  let labels ← labelValuesT S inst
  let object_marking_refs ← standardIdsT inst S.INPUT_MARKINGS
  let external_references ← buildExternalReferencesT S inst
  pure (assignT base [
    ("created", .old (getProp inst "created")),
    ("modified", .old (getProp inst "modified")),
    ("revoked", .old (getProp inst "revoked")),
    ("confidence", .old (getProp inst "confidence")),
    ("lang", .old (getProp inst "lang")),
    ("labels", labels),
    ("object_marking_refs", object_marking_refs),
    ("created_by_ref", .old (optProp (getProp inst S.INPUT_CREATED_BY) "standard_id")),
    ("external_references", external_references)])

/-- Run of `buildStixRelationship` with ownership marks. -/
def buildStixRelationshipT (S : Schema) (inst : Obj) : Run TObj :=
  buildStixDomainT S inst

/-- Run of `buildStixMarkings` with ownership marks. -/
def buildStixMarkingsT (S : Schema) (inst : Obj) : Run TObj := do
  let base ← buildStixObjectT S inst
  let external_references ← buildExternalReferencesT S inst
  let object_marking_refs ← standardIdsT inst S.INPUT_MARKINGS
  pure (assignT base [
    ("created_by_ref", .old (optProp (getProp inst S.INPUT_CREATED_BY) "standard_id")),
    ("created", .old (getProp inst "created")),
    ("modified", .old (getProp inst "updated_at")),
    ("external_references", external_references),
    ("object_marking_refs", object_marking_refs)])

/-- Run of `buildStixCyberObservable` with ownership marks. -/
def buildStixCyberObservableT (S : Schema) (inst : Obj) : Run TObj := do
  let stixObject ← buildStixObjectT S inst
  let object_marking_refs ← standardIdsT inst S.INPUT_MARKINGS
  let labels ← labelValuesT S inst
  let linked_to_refs ← standardIdsT inst S.INPUT_LINKED
  let external_references ← buildExternalReferencesT S inst
  let sco ← cleanObjectT [
    ("extension_type", .old (.str "property-extension")),
    ("labels", labels),
    ("description", .old (getProp inst "x_opencti_description")),
    ("score", .old (getProp inst "x_opencti_score")),
    ("created_by_ref", .old (optProp (getProp inst S.INPUT_CREATED_BY) "standard_id")),
    ("linked_to_refs", linked_to_refs),
    ("external_references", external_references)]
  pure (assignT stixObject [
    ("defanged", .old (getProp inst "defanged")),
    ("object_marking_refs", object_marking_refs),
    ("extensions", .newObj (mkObjT [
      (S.STIX_EXT_OCTI, getPropT (extensionsOfT stixObject) S.STIX_EXT_OCTI),
      (S.STIX_EXT_OCTI_SCO, .newObj sco)]))])

/-- Run of `convertIdentityToStix` with ownership marks. -/
def convertIdentityToStixT (S : Schema) (inst : Obj) (type : String) : Run TObj := do
  if !S.isStixDomainObjectIdentity type then
    Run.fail (.unsupported (toJsString (getProp inst "entity_type") ++ " not compatible with identity"))
  let identity ← buildStixDomainT S inst
  let octi ← cleanObjectT (assignT (spreadT (getPropT (extensionsOfT identity) S.STIX_EXT_OCTI)) [
    ("firstname", .old (getProp inst "x_opencti_firstname")),
    ("lastname", .old (getProp inst "x_opencti_lastname")),
    ("organization_type", .old (getProp inst "x_opencti_organization_type")),
    ("reliability", .old (getProp inst "x_opencti_reliability"))])
  pure (assignT identity [
    ("name", .old (getProp inst "name")),
    ("description", .old (getProp inst "description")),
    ("contact_information", .old (getProp inst "contact_information")),
    ("identity_class", .old (getProp inst "identity_class")),
    ("roles", .old (getProp inst "roles")),
    ("sectors", .old (getProp inst "sectors")),
    ("extensions", .newObj (mkObjT [(S.STIX_EXT_OCTI, .newObj octi)]))])

/-- Run of `convertLocationToStix` with ownership marks. -/
def convertLocationToStixT (S : Schema) (inst : Obj) (type : String) : Run TObj := do
  if !S.isStixDomainObjectLocation type then
    Run.fail (.unsupported (toJsString (getProp inst "entity_type") ++ " not compatible with location"))
  let domain ← buildStixDomainT S inst
  pure (assignT domain [
    ("name", .old (getProp inst "name")),
    ("description", .old (getProp inst "description")),
    ("latitude", .old (getProp inst "latitude")),
    ("longitude", .old (getProp inst "longitude")),
    ("precision", .old (getProp inst "precision")),
    ("region", .old (getProp inst "region")),
    ("country", .old (getProp inst "country")),
    ("administrative_area", .old (getProp inst "administrative_area")),
    ("city", .old (getProp inst "city")),
    ("street_address", .old (getProp inst "street_address")),
    ("postal_code", .old (getProp inst "postal_code"))])

/-- Run of `convertIncidentToStix` with ownership marks. -/
def convertIncidentToStixT (S : Schema) (inst : Obj) (type : String) : Run TObj := do
  Run.lift (assertType S.ENTITY_TYPE_INCIDENT type)
  let incident ← buildStixDomainT S inst
  pure (assignT incident [
    ("name", .old (getProp inst "name")),
    ("description", .old (getProp inst "description")),
    ("first_seen", .old (getProp inst "first_seen")),
    ("last_seen", .old (getProp inst "last_seen")),
    ("aliases", .old (getProp inst "aliases")),
    ("objective", .old (getProp inst "objective")),
    ("extensions", .newObj (mkObjT [(S.STIX_EXT_OCTI, .newObj (assignT (spreadT (getPropT (extensionsOfT incident) S.STIX_EXT_OCTI)) [
        ("extension_type", .old (.str "new-sdo"))]))]))])

/-- Run of `convertCampaignToStix` with ownership marks. -/
def convertCampaignToStixT (S : Schema) (inst : Obj) (type : String) : Run TObj := do
  Run.lift (assertType S.ENTITY_TYPE_CAMPAIGN type)
  let domain ← buildStixDomainT S inst
  pure (assignT domain [
    ("name", .old (getProp inst "name")),
    ("description", .old (getProp inst "description")),
    ("aliases", .old (getProp inst "aliases")),
    ("first_seen", .old (getProp inst "first_seen")),
    ("last_seen", .old (getProp inst "last_seen")),
    ("objective", .old (getProp inst "objective"))])

/-- Run of `convertToolToStix` with ownership marks. -/
def convertToolToStixT (S : Schema) (inst : Obj) (type : String) : Run TObj := do
  Run.lift (assertType S.ENTITY_TYPE_TOOL type)
  let domain ← buildStixDomainT S inst
  let kill_chain_phases ← buildKillChainPhasesT S inst
  pure (assignT domain [
    ("name", .old (getProp inst "name")),
    ("description", .old (getProp inst "description")),
    ("tool_types", .old (getProp inst "tool_types")),
    ("aliases", .old (getProp inst "aliases")),
    ("kill_chain_phases", kill_chain_phases),
    ("tool_version", .old (getProp inst "tool_version"))])

/-- Run of `convertVulnerabilityToStix` with ownership marks. -/
def convertVulnerabilityToStixT (S : Schema) (inst : Obj) (type : String) : Run TObj := do
  Run.lift (assertType S.ENTITY_TYPE_VULNERABILITY type)
  let vulnerability ← buildStixDomainT S inst
  let octi ← cleanObjectT (assignT (spreadT (getPropT (extensionsOfT vulnerability) S.STIX_EXT_OCTI)) [
    ("attack_vector", .old (getProp inst "x_opencti_attack_vector")),
    ("availability_impact", .old (getProp inst "x_opencti_availability_impact")),
    ("base_score", .old (getProp inst "x_opencti_base_score")),
    ("base_severity", .old (getProp inst "x_opencti_base_severity")),
    ("confidentiality_impact", .old (getProp inst "x_opencti_confidentiality_impact")),
    ("integrity_impact", .old (getProp inst "x_opencti_integrity_impact"))])
  pure (assignT vulnerability [
    ("name", .old (getProp inst "name")),
    ("description", .old (getProp inst "description")),
    ("extensions", .newObj (mkObjT [(S.STIX_EXT_OCTI, .newObj octi)]))])

/-- Run of `convertThreatActorToStix` with ownership marks. -/
def convertThreatActorToStixT (S : Schema) (inst : Obj) (type : String) : Run TObj := do
  Run.lift (assertType S.ENTITY_TYPE_THREAT_ACTOR type)
  let domain ← buildStixDomainT S inst
  pure (assignT domain [
    ("name", .old (getProp inst "name")),
    ("description", .old (getProp inst "description")),
    ("threat_actor_types", .old (getProp inst "threat_actor_types")),
    ("aliases", .old (getProp inst "aliases")),
    ("first_seen", .old (getProp inst "first_seen")),
    ("last_seen", .old (getProp inst "last_seen")),
    ("roles", .old (getProp inst "roles")),
    ("goals", .old (getProp inst "goals")),
    ("sophistication", .old (getProp inst "sophistication")),
    ("resource_level", .old (getProp inst "resource_level")),
    ("primary_motivation", .old (getProp inst "primary_motivation")),
    ("secondary_motivations", .old (getProp inst "secondary_motivations")),
    ("personal_motivations", .old (getProp inst "personal_motivations"))])

/-- Run of `convertInfrastructureToStix` with ownership marks. -/
def convertInfrastructureToStixT (S : Schema) (inst : Obj) (type : String) : Run TObj := do
  Run.lift (assertType S.ENTITY_TYPE_INFRASTRUCTURE type)
  let domain ← buildStixDomainT S inst
  let kill_chain_phases ← buildKillChainPhasesT S inst
  pure (assignT domain [
    ("name", .old (getProp inst "name")),
    ("description", .old (getProp inst "description")),
    ("infrastructure_types", .old (getProp inst "infrastructure_types")),
    ("aliases", .old (getProp inst "aliases")),
    ("kill_chain_phases", kill_chain_phases),
    ("first_seen", .old (getProp inst "first_seen")),
    ("last_seen", .old (getProp inst "last_seen"))])

/-- Run of `convertIntrusionSetToStix` with ownership marks. -/
def convertIntrusionSetToStixT (S : Schema) (inst : Obj) (type : String) : Run TObj := do
  Run.lift (assertType S.ENTITY_TYPE_INTRUSION_SET type)
  let domain ← buildStixDomainT S inst
  pure (assignT domain [
    ("name", .old (getProp inst "name")),
    ("description", .old (getProp inst "description")),
    ("aliases", .old (getProp inst "aliases")),
    ("first_seen", .old (getProp inst "first_seen")),
    ("last_seen", .old (getProp inst "last_seen")),
    ("goals", .old (getProp inst "goals")),
    ("resource_level", .old (getProp inst "resource_level")),
    ("primary_motivation", .old (getProp inst "primary_motivation")),
    ("secondary_motivations", .old (getProp inst "secondary_motivations"))])

/-- Run of `convertIndicatorToStix` with ownership marks. -/
def convertIndicatorToStixT (S : Schema) (inst : Obj) (type : String) : Run TObj := do
  Run.lift (assertType S.ENTITY_TYPE_INDICATOR type)
  let indicator ← buildStixDomainT S inst
  let kill_chain_phases ← buildKillChainPhasesT S inst
  let octi ← cleanObjectT (assignT (spreadT (getPropT (extensionsOfT indicator) S.STIX_EXT_OCTI)) [
    ("detection", .old (getProp inst "x_opencti_detection")),
    ("score", .old (getProp inst "x_opencti_score")),
    ("main_observable_type", .old (getProp inst "x_opencti_main_observable_type"))])
  let mitre ← buildMITREExtensionsT inst
  pure (assignT indicator [
    ("name", .old (getProp inst "name")),
    ("description", .old (getProp inst "description")),
    ("indicator_types", .old (getProp inst "indicator_types")),
    ("pattern", .old (getProp inst "pattern")),
    ("pattern_type", .old (getProp inst "pattern_type")),
    ("pattern_version", .old (getProp inst "pattern_version")),
    ("valid_from", .old (getProp inst "valid_from")),
    ("valid_until", .old (getProp inst "valid_until")),
    ("kill_chain_phases", kill_chain_phases),
    ("extensions", .newObj (mkObjT [(S.STIX_EXT_OCTI, .newObj octi), (S.STIX_EXT_MITRE, .newObj mitre)]))])

/-- Run of `convertCourseOfActionToStix` with ownership marks. -/
def convertCourseOfActionToStixT (S : Schema) (inst : Obj) (type : String) : Run TObj := do
  Run.lift (assertType S.ENTITY_TYPE_COURSE_OF_ACTION type)
  let domain ← buildStixDomainT S inst
  let octi ← buildOCTIExtensionsT S inst
  let mitre ← buildMITREExtensionsT inst
  pure (assignT domain [
    ("name", .old (getProp inst "name")),
    ("description", .old (getProp inst "description")),
    ("extensions", .newObj (mkObjT [(S.STIX_EXT_OCTI, .newObj octi), (S.STIX_EXT_MITRE, .newObj mitre)]))])

/-- Run of `convertMalwareToStix` with ownership marks. -/
def convertMalwareToStixT (S : Schema) (inst : Obj) (type : String) : Run TObj := do
  Run.lift (assertType S.ENTITY_TYPE_MALWARE type)
  let domain ← buildStixDomainT S inst
  let kill_chain_phases ← buildKillChainPhasesT S inst
  let operating_system_refs ← standardIdsT inst S.INPUT_OPERATING_SYSTEM
  let sample_refs ← standardIdsT inst S.INPUT_SAMPLE
  pure (assignT domain [
    ("name", .old (getProp inst "name")),
    ("description", .old (getProp inst "description")),
    ("malware_types", .old (getProp inst "malware_types")),
    ("is_family", .old (getProp inst "is_family")),
    ("aliases", .old (getProp inst "aliases")),
    ("kill_chain_phases", kill_chain_phases),
    ("first_seen", .old (getProp inst "first_seen")),
    ("last_seen", .old (getProp inst "last_seen")),
    ("architecture_execution_envs", .old (getProp inst "architecture_execution_envs")),
    ("implementation_languages", .old (getProp inst "implementation_languages")),
    ("capabilities", .old (getProp inst "capabilities")),
    ("operating_system_refs", operating_system_refs),
    ("sample_refs", sample_refs)])

/-- Run of `convertAttackPatternToStix` with ownership marks. -/
def convertAttackPatternToStixT (S : Schema) (inst : Obj) (type : String) : Run TObj := do
  Run.lift (assertType S.ENTITY_TYPE_ATTACK_PATTERN type)
  let stixDomainObject ← buildStixDomainT S inst
  let kill_chain_phases ← buildKillChainPhasesT S inst
  let octi ← buildOCTIExtensionsT S inst
  let mitre ← buildMITREExtensionsT inst
  pure (assignT stixDomainObject [
    ("name", .old (getProp inst "name")),
    ("description", .old (getProp inst "description")),
    ("aliases", .old (getProp inst "aliases")),
    ("kill_chain_phases", kill_chain_phases),
    ("extensions", .newObj (mkObjT [(S.STIX_EXT_OCTI, .newObj octi), (S.STIX_EXT_MITRE, .newObj mitre)]))])

/-- Run of `convertReportToStix` with ownership marks. -/
def convertReportToStixT (S : Schema) (inst : Obj) (type : String) : Run TObj := do
  Run.lift (assertType S.ENTITY_TYPE_CONTAINER_REPORT type)
  let domain ← buildStixDomainT S inst
  let object_refs ← standardIdsT inst S.INPUT_OBJECTS
  pure (assignT domain [
    ("name", .old (getProp inst "name")),
    ("description", .old (getProp inst "description")),
    ("report_types", .old (getProp inst "report_types")),
    ("published", .old (getProp inst "published")),
    ("object_refs", object_refs)])

/-- Run of `convertNoteToStix` with ownership marks. -/
def convertNoteToStixT (S : Schema) (inst : Obj) (type : String) : Run TObj := do
  Run.lift (assertType S.ENTITY_TYPE_CONTAINER_NOTE type)
  let domain ← buildStixDomainT S inst
  let object_refs ← standardIdsT inst S.INPUT_OBJECTS
  pure (assignT domain [
    ("abstract", .old (getProp inst "attribute_abstract")),
    ("content", .old (getProp inst "content")),
    ("authors", .old (getProp inst "authors")),
    ("object_refs", object_refs)])

/-- Run of `convertObservedDateToStix` with ownership marks. -/
def convertObservedDateToStixT (S : Schema) (inst : Obj) (type : String) : Run TObj := do
  Run.lift (assertType S.ENTITY_TYPE_CONTAINER_OBSERVED_DATA type)
  let domain ← buildStixDomainT S inst
  let object_refs ← standardIdsT inst "objects"
  pure (assignT domain [
    ("first_observed", .old (getProp inst "first_observed")),
    ("last_observed", .old (getProp inst "last_observed")),
    ("number_observed", .old (getProp inst "number_observed")),
    ("object_refs", object_refs)])

/-- Run of `convertOpinionToStix` with ownership marks. -/
def convertOpinionToStixT (S : Schema) (inst : Obj) (type : String) : Run TObj := do
  Run.lift (assertType S.ENTITY_TYPE_CONTAINER_OPINION type)
  let domain ← buildStixDomainT S inst
  let object_refs ← standardIdsT inst "objects"
  pure (assignT domain [
    ("explanation", .old (getProp inst "explanation")),
    ("authors", .old (getProp inst "authors")),
    ("opinion", .old (getProp inst "opinion")),
    ("object_refs", object_refs)])

/-- Run of `convertArtifactToStix` with ownership marks. -/
def convertArtifactToStixT (S : Schema) (inst : Obj) (type : String) : Run TObj := do
  Run.lift (assertType S.ENTITY_HASHED_OBSERVABLE_ARTIFACT type)
  let stixCyberObject ← buildStixCyberObservableT S inst
  let sco ← cleanObjectT (assignT (spreadT (getPropT (extensionsOfT stixCyberObject) S.STIX_EXT_OCTI_SCO)) [
    ("additional_names", .old (getProp inst "x_opencti_additional_names"))])
  pure (assignT stixCyberObject [
    ("mime_type", .old (getProp inst "mime_type")),
    ("payload_bin", .old (getProp inst "payload_bin")),
    ("url", .old (getProp inst "url")),
    ("hashes", nullishT (getProp inst "hashes") (.newObj [])),
    ("encryption_algorithm", .old (getProp inst "encryption_algorithm")),
    ("decryption_key", .old (getProp inst "decryption_key")),
    ("extensions", .newObj (assignT (extensionsOfT stixCyberObject) [
      (S.STIX_EXT_OCTI_SCO, .newObj sco)]))])

/-- Run of `convertAutonomousSystemToStix` with ownership marks. -/
def convertAutonomousSystemToStixT (S : Schema) (inst : Obj) (type : String) : Run TObj := do
  Run.lift (assertType S.ENTITY_AUTONOMOUS_SYSTEM type)
  let cyber ← buildStixCyberObservableT S inst
  pure (assignT cyber [
    ("number", .old (getProp inst "number")),
    ("name", .old (getProp inst "name")),
    ("rir", .old (getProp inst "rir"))])

/-- Run of `convertCryptocurrencyWalletToStix` with ownership marks. -/
def convertCryptocurrencyWalletToStixT (S : Schema) (inst : Obj) (type : String) : Run TObj := do
  Run.lift (assertType S.ENTITY_CRYPTOGRAPHIC_WALLET type)
  let stixCyberObject ← buildStixCyberObservableT S inst
  let labels ← labelValuesT S inst
  let external_references ← buildExternalReferencesT S inst
  pure (assignT stixCyberObject [
    ("value", .old (getProp inst "value")),
    ("labels", labels),
    ("description", .old (getProp inst "x_opencti_description")),
    ("score", .old (getProp inst "x_opencti_score")),
    ("created_by_ref", .old (optProp (getProp inst S.INPUT_CREATED_BY) "standard_id")),
    ("external_references", external_references),
    ("extensions", .newObj (assignT (extensionsOfT stixCyberObject) [
      (S.STIX_EXT_OCTI_SCO, .newObj [("extension_type", .old (.str "new-sco"))])]))])

/-- Run of `convertCryptographicKeyToStix` with ownership marks. -/
def convertCryptographicKeyToStixT (S : Schema) (inst : Obj) (type : String) : Run TObj := do
  Run.lift (assertType S.ENTITY_CRYPTOGRAPHIC_KEY type)
  let stixCyberObject ← buildStixCyberObservableT S inst
  let labels ← labelValuesT S inst
  let external_references ← buildExternalReferencesT S inst
  pure (assignT stixCyberObject [
    ("value", .old (getProp inst "value")),
    ("labels", labels),
    ("description", .old (getProp inst "x_opencti_description")),
    ("score", .old (getProp inst "x_opencti_score")),
    ("created_by_ref", .old (optProp (getProp inst S.INPUT_CREATED_BY) "standard_id")),
    ("external_references", external_references),
    ("extensions", .newObj (assignT (extensionsOfT stixCyberObject) [
      (S.STIX_EXT_OCTI_SCO, .newObj [("extension_type", .old (.str "new-sco"))])]))])

/-- Run of `convertDirectoryToStix` with ownership marks. -/
def convertDirectoryToStixT (S : Schema) (inst : Obj) (type : String) : Run TObj := do
  Run.lift (assertType S.ENTITY_DIRECTORY type)
  let cyber ← buildStixCyberObservableT S inst
  let contains_refs ← standardIdsT inst S.INPUT_CONTAINS
  pure (assignT cyber [
    ("path", .old (getProp inst "path")),
    ("path_enc", .old (getProp inst "path_enc")),
    ("ctime", .old (getProp inst "ctime")),
    ("mtime", .old (getProp inst "mtime")),
    ("atime", .old (getProp inst "atime")),
    ("contains_refs", contains_refs)])

/-- Run of `convertDomainNameToStix` with ownership marks. -/
def convertDomainNameToStixT (S : Schema) (inst : Obj) (type : String) : Run TObj := do
  Run.lift (assertType S.ENTITY_DOMAIN_NAME type)
  let cyber ← buildStixCyberObservableT S inst
  let resolves_to_refs ← standardIdsT inst S.INPUT_RESOLVES_TO
  pure (assignT cyber [
    ("value", .old (getProp inst "value")),
    ("resolves_to_refs", resolves_to_refs)])

/-- Run of `convertEmailAddressToStix` with ownership marks. -/
def convertEmailAddressToStixT (S : Schema) (inst : Obj) (type : String) : Run TObj := do
  Run.lift (assertType S.ENTITY_EMAIL_ADDR type)
  let cyber ← buildStixCyberObservableT S inst
  pure (assignT cyber [
    ("value", .old (getProp inst "value")),
    ("display_name", .old (getProp inst "display_name")),
    ("belongs_to_ref", .old (firstOptProp (nullish (getProp inst S.INPUT_BELONGS_TO) (.arr [])) "standard_id"))])

/-- Run of `convertEmailMessageToStix` with ownership marks. -/
def convertEmailMessageToStixT (S : Schema) (inst : Obj) (type : String) : Run TObj := do
  Run.lift (assertType S.ENTITY_EMAIL_MESSAGE type)
  let cyber ← buildStixCyberObservableT S inst
  let to_refs ← standardIdsT inst S.INPUT_TO
  let cc_refs ← standardIdsT inst S.INPUT_CC
  let bcc_refs ← standardIdsT inst S.INPUT_BCC
  let body_multipart ← buildEmailBodyMultipartT S inst
  pure (assignT cyber [
    ("is_multipart", .old (getProp inst "is_multipart")),
    ("date", .old (getProp inst "attribute_date")),
    ("content_type", .old (getProp inst "content_type")),
    ("from_ref", .old (optProp (getProp inst S.INPUT_FROM) "standard_id")),
    ("sender_ref", .old (optProp (getProp inst S.INPUT_SENDER) "standard_id")),
    ("to_refs", to_refs),
    ("cc_refs", cc_refs),
    ("bcc_refs", bcc_refs),
    ("message_id", .old (getProp inst "message_id")),
    ("subject", .old (getProp inst "subject")),
    ("received_lines", .old (getProp inst "received_lines")),
    ("additional_header_fields", .newObj []),
    ("body", .old (getProp inst "body")),
    ("body_multipart", body_multipart),
    ("raw_email_ref", .old (optProp (getProp inst S.INPUT_RAW_EMAIL) "standard_id"))])

/-- Run of `convertFileToStix` with ownership marks. -/
def convertFileToStixT (S : Schema) (inst : Obj) (type : String) : Run TObj := do
  Run.lift (assertType S.ENTITY_HASHED_OBSERVABLE_STIX_FILE type)
  let stixCyberObject ← buildStixCyberObservableT S inst
  let contains_refs ← standardIdsT inst S.INPUT_CONTAINS
  let sco ← cleanObjectT (assignT (spreadT (getPropT (extensionsOfT stixCyberObject) S.STIX_EXT_OCTI_SCO)) [
    ("additional_names", nullishT (getProp inst "x_opencti_additional_names") (.newArr []))])
  pure (assignT stixCyberObject [
    ("hashes", nullishT (getProp inst "hashes") (.newObj [])),
    ("size", .old (getProp inst "size")),
    ("name", .old (getProp inst "name")),
    ("name_enc", .old (getProp inst "name_enc")),
    ("magic_number_hex", .old (getProp inst "magic_number_hex")),
    ("mime_type", .old (getProp inst "mime_type")),
    ("ctime", .old (getProp inst "ctime")),
    ("mtime", .old (getProp inst "mtime")),
    ("atime", .old (getProp inst "atime")),
    ("parent_directory_ref", .old (optProp (getProp inst S.INPUT_PARENT_DIRECTORY) "standard_id")),
    ("contains_refs", contains_refs),
    ("content_ref", .old (optProp (getProp inst S.INPUT_CONTENT) "standard_id")),
    ("extensions", .newObj (assignT (extensionsOfT stixCyberObject) [
      (S.STIX_EXT_OCTI_SCO, .newObj sco)]))])

/-- Run of `convertHostnameToStix` with ownership marks. -/
def convertHostnameToStixT (S : Schema) (inst : Obj) (type : String) : Run TObj := do
  Run.lift (assertType S.ENTITY_HOSTNAME type)
  let stixCyberObject ← buildStixCyberObservableT S inst
  let labels ← labelValuesT S inst
  let external_references ← buildExternalReferencesT S inst
  pure (assignT stixCyberObject [
    ("value", .old (getProp inst "value")),
    ("labels", labels),
    ("description", .old (getProp inst "x_opencti_description")),
    ("score", .old (getProp inst "x_opencti_score")),
    ("created_by_ref", .old (optProp (getProp inst S.INPUT_CREATED_BY) "standard_id")),
    ("external_references", external_references),
    ("extensions", .newObj (assignT (extensionsOfT stixCyberObject) [
      (S.STIX_EXT_OCTI_SCO, .newObj [("extension_type", .old (.str "new-sco"))])]))])

/-- Run of `convertIPv4AddressToStix` with ownership marks. -/
def convertIPv4AddressToStixT (S : Schema) (inst : Obj) (type : String) : Run TObj := do
  Run.lift (assertType S.ENTITY_IPV4_ADDR type)
  let cyber ← buildStixCyberObservableT S inst
  let resolves_to_refs ← standardIdsT inst S.INPUT_RESOLVES_TO
  let belongs_to_refs ← standardIdsT inst S.INPUT_BELONGS_TO
  pure (assignT cyber [
    ("value", .old (getProp inst "value")),
    ("resolves_to_refs", resolves_to_refs),
    ("belongs_to_refs", belongs_to_refs)])

/-- Run of `convertIPv6AddressToStix` with ownership marks. -/
def convertIPv6AddressToStixT (S : Schema) (inst : Obj) (type : String) : Run TObj := do
  Run.lift (assertType S.ENTITY_IPV6_ADDR type)
  let cyber ← buildStixCyberObservableT S inst
  let resolves_to_refs ← standardIdsT inst S.INPUT_RESOLVES_TO
  let belongs_to_refs ← standardIdsT inst S.INPUT_BELONGS_TO
  pure (assignT cyber [
    ("value", .old (getProp inst "value")),
    ("resolves_to_refs", resolves_to_refs),
    ("belongs_to_refs", belongs_to_refs)])

/-- Run of `convertMacAddressToStix` with ownership marks. -/
def convertMacAddressToStixT (S : Schema) (inst : Obj) (type : String) : Run TObj := do
  Run.lift (assertType S.ENTITY_MAC_ADDR type)
  let cyber ← buildStixCyberObservableT S inst
  pure (assignT cyber [
    ("value", .old (getProp inst "value"))])

/-- Run of `convertMutexToStix` with ownership marks. -/
def convertMutexToStixT (S : Schema) (inst : Obj) (type : String) : Run TObj := do
  Run.lift (assertType S.ENTITY_MUTEX type)
  let cyber ← buildStixCyberObservableT S inst
  pure (assignT cyber [
    ("name", .old (getProp inst "name"))])

/-- Run of `convertNetworkTrafficToStix` with ownership marks. -/
def convertNetworkTrafficToStixT (S : Schema) (inst : Obj) (type : String) : Run TObj := do
  Run.lift (assertType S.ENTITY_NETWORK_TRAFFIC type)
  let cyber ← buildStixCyberObservableT S inst
  let encapsulates_refs ← standardIdsT inst S.INPUT_ENCAPSULATES
  pure (assignT cyber [
    ("start", .old (getProp inst "start")),
    ("end", .old (getProp inst "end")),
    ("is_active", .old (getProp inst "is_active")),
    ("src_ref", .old (optProp (getProp inst S.INPUT_SRC) "standard_id")),
    ("dst_ref", .old (optProp (getProp inst S.INPUT_DST) "standard_id")),
    ("src_port", .old (getProp inst "src_port")),
    ("dst_port", .old (getProp inst "dst_port")),
    ("protocols", .old (getProp inst "protocols")),
    ("src_byte_count", .old (getProp inst "src_byte_count")),
    ("dst_byte_count", .old (getProp inst "dst_byte_count")),
    ("src_packets", .old (getProp inst "src_packets")),
    ("dst_packets", .old (getProp inst "dst_packets")),
    ("ipfix", .old (getProp inst "ipfix")),
    ("src_payload_ref", .old (optProp (getProp inst S.INPUT_SRC_PAYLOAD) "standard_id")),
    ("dst_payload_ref", .old (optProp (getProp inst S.INPUT_DST_PAYLOAD) "standard_id")),
    ("encapsulates_refs", encapsulates_refs),
    ("encapsulated_by_ref", .old (optProp (getProp inst S.INPUT_ENCAPSULATED_BY) "standard_id"))])

/-- Run of `convertProcessToStix` with ownership marks. -/
def convertProcessToStixT (S : Schema) (inst : Obj) (type : String) : Run TObj := do
  Run.lift (assertType S.ENTITY_PROCESS type)
  let cyber ← buildStixCyberObservableT S inst
  let opened_connection_refs ← standardIdsT inst S.INPUT_OPENED_CONNECTION
  let child_refs ← standardIdsT inst S.INPUT_CHILD
  pure (assignT cyber [
    ("is_hidden", .old (getProp inst "is_hidden")),
    ("pid", .old (getProp inst "pid")),
    ("created_time", .old (getProp inst "created_time")),
    ("cwd", .old (getProp inst "cwd")),
    ("command_line", .old (getProp inst "command_line")),
    ("environment_variables", .old (getProp inst "environment_variables")),
    ("opened_connection_refs", opened_connection_refs),
    ("creator_user_ref", .old (optProp (getProp inst S.INPUT_CREATOR_USER) "standard_id")),
    ("image_ref", .old (optProp (getProp inst S.INPUT_IMAGE) "standard_id")),
    ("parent_ref", .old (optProp (getProp inst S.INPUT_PARENT) "standard_id")),
    ("child_refs", child_refs)])

/-- Run of `convertSoftwareToStix` with ownership marks. -/
def convertSoftwareToStixT (S : Schema) (inst : Obj) (type : String) : Run TObj := do
  Run.lift (assertType S.ENTITY_SOFTWARE type)
  let cyber ← buildStixCyberObservableT S inst
  pure (assignT cyber [
    ("name", .old (getProp inst "name")),
    ("cpe", .old (getProp inst "cpe")),
    ("swid", .old (getProp inst "swid")),
    ("languages", .old (getProp inst "languages")),
    ("vendor", .old (getProp inst "vendor")),
    ("version", .old (getProp inst "version"))])

/-- Run of `convertTextToStix` with ownership marks. -/
def convertTextToStixT (S : Schema) (inst : Obj) (type : String) : Run TObj := do
  Run.lift (assertType S.ENTITY_TEXT type)
  let stixCyberObject ← buildStixCyberObservableT S inst
  let labels ← labelValuesT S inst
  let external_references ← buildExternalReferencesT S inst
  pure (assignT stixCyberObject [
    ("value", .old (getProp inst "value")),
    ("labels", labels),
    ("description", .old (getProp inst "x_opencti_description")),
    ("score", .old (getProp inst "x_opencti_score")),
    ("created_by_ref", .old (optProp (getProp inst S.INPUT_CREATED_BY) "standard_id")),
    ("external_references", external_references),
    ("extensions", .newObj (assignT (extensionsOfT stixCyberObject) [
      (S.STIX_EXT_OCTI_SCO, .newObj [("extension_type", .old (.str "new-sco"))])]))])

/-- Run of `convertURLToStix` with ownership marks. -/
def convertURLToStixT (S : Schema) (inst : Obj) (type : String) : Run TObj := do
  Run.lift (assertType S.ENTITY_URL type)
  let cyber ← buildStixCyberObservableT S inst
  pure (assignT cyber [
    ("value", .old (getProp inst "value"))])

/-- Run of `convertUserAccountToStix` with ownership marks. -/
def convertUserAccountToStixT (S : Schema) (inst : Obj) (type : String) : Run TObj := do
  Run.lift (assertType S.ENTITY_USER_ACCOUNT type)
  let cyber ← buildStixCyberObservableT S inst
  pure (assignT cyber [
    ("user_id", .old (getProp inst "user_id")),
    ("credential", .old (getProp inst "credential")),
    ("account_login", .old (getProp inst "account_login")),
    ("account_type", .old (getProp inst "account_type")),
    ("display_name", .old (getProp inst "display_name")),
    ("is_service_account", .old (getProp inst "is_service_account")),
    ("is_privileged", .old (getProp inst "is_privileged")),
    ("can_escalate_privs", .old (getProp inst "can_escalate_privs")),
    ("is_disabled", .old (getProp inst "is_disabled")),
    ("account_created", .old (getProp inst "account_created")),
    ("account_expires", .old (getProp inst "account_expires")),
    ("credential_last_changed", .old (getProp inst "credential_last_changed")),
    ("account_first_login", .old (getProp inst "account_first_login")),
    ("account_last_login", .old (getProp inst "account_last_login"))])

/-- Run of `convertWindowsRegistryKeyToStix` with ownership marks. -/
def convertWindowsRegistryKeyToStixT (S : Schema) (inst : Obj) (type : String) : Run TObj := do
  Run.lift (assertType S.ENTITY_WINDOWS_REGISTRY_KEY type)
  let cyber ← buildStixCyberObservableT S inst
  let values ← buildWindowsRegistryValueTypeT S inst
  pure (assignT cyber [
    ("key", .old (getProp inst "attribute_key")),
    ("values", values),
    ("modified_time", .old (getProp inst "modified_time")),
    ("creator_user_ref", .old (optProp (getProp inst S.INPUT_CREATOR_USER) "standard_id")),
    ("number_of_subkeys", .old (getProp inst "number_of_subkeys"))])

/-- Run of `convertX509CertificateToStix` with ownership marks. -/
def convertX509CertificateToStixT (S : Schema) (inst : Obj) (type : String) : Run TObj := do
  Run.lift (assertType S.ENTITY_HASHED_OBSERVABLE_X509_CERTIFICATE type)
  let cyber ← buildStixCyberObservableT S inst
  let x509_v3_extensions ← cleanObjectT [
    ("basic_constraints", .old (getProp inst "basic_constraints")),
    ("name_constraints", .old (getProp inst "name_constraints")),
    ("policy_constraints", .old (getProp inst "policy_constraints")),
    ("key_usage", .old (getProp inst "key_usage")),
    ("extended_key_usage", .old (getProp inst "extended_key_usage")),
    ("subject_key_identifier", .old (getProp inst "subject_key_identifier")),
    ("authority_key_identifier", .old (getProp inst "authority_key_identifier")),
    ("subject_alternative_name", .old (getProp inst "subject_alternative_name")),
    ("issuer_alternative_name", .old (getProp inst "issuer_alternative_name")),
    ("subject_directory_attributes", .old (getProp inst "subject_directory_attributes")),
    ("crl_distribution_points", .old (getProp inst "crl_distribution_points")),
    ("inhibit_any_policy", .old (getProp inst "inhibit_any_policy")),
    ("private_key_usage_period_not_before", .old (getProp inst "private_key_usage_period_not_before")),
    ("private_key_usage_period_not_after", .old (getProp inst "private_key_usage_period_not_after")),
    ("certificate_policies", .old (getProp inst "certificate_policies")),
    ("policy_mappings", .old (getProp inst "policy_mappings"))]
  pure (assignT cyber [
    ("is_self_signed", .old (getProp inst "is_self_signed")),
    ("hashes", nullishT (getProp inst "hashes") (.newObj [])),
    ("version", .old (getProp inst "version")),
    ("serial_number", .old (getProp inst "serial_number")),
    ("signature_algorithm", .old (getProp inst "signature_algorithm")),
    ("issuer", .old (getProp inst "issuer")),
    ("validity_not_before", .old (getProp inst "validity_not_before")),
    ("validity_not_after", .old (getProp inst "validity_not_after")),
    ("subject", .old (getProp inst "subject")),
    ("subject_public_key_algorithm", .old (getProp inst "subject_public_key_algorithm")),
    ("subject_public_key_modulus", .old (getProp inst "subject_public_key_modulus")),
    ("subject_public_key_exponent", .old (getProp inst "subject_public_key_exponent")),
    ("x509_v3_extensions", .newObj x509_v3_extensions)])

/-- Run of `convertRelationToStix` with ownership marks. -/
def convertRelationToStixT (S : Schema) (inst : Obj) : Run TObj := do
  Run.lift (checkInstanceCompletion inst)
  let stixRelationship ← buildStixRelationshipT S inst
  let external_references ← buildExternalReferencesT S inst
  let kill_chain_phases ← buildKillChainPhasesT S inst
  let octi ← cleanObjectT (assignT (spreadT (getPropT (extensionsOfT stixRelationship) S.STIX_EXT_OCTI)) [
    ("source_ref", .old (optProp (getProp inst "from") "internal_id")),
    ("source_type", .old (optProp (getProp inst "from") "entity_type")),
    ("target_ref", .old (optProp (getProp inst "to") "internal_id")),
    ("target_type", .old (optProp (getProp inst "to") "entity_type")),
    ("kill_chain_phases", kill_chain_phases)])
  pure (assignT stixRelationship [
    ("relationship_type", .old (getProp inst "relationship_type")),
    ("description", .old (getProp inst "description")),
    ("source_ref", .old (optProp (getProp inst "from") "standard_id")),
    ("target_ref", .old (optProp (getProp inst "to") "standard_id")),
    ("start_time", .old (getProp inst "start_time")),
    ("stop_time", .old (getProp inst "stop_time")),
    ("external_references", external_references),
    ("extensions", .newObj (mkObjT [(S.STIX_EXT_OCTI, .newObj octi)]))])

/-- Run of `convertSightingToStix` with ownership marks. -/
def convertSightingToStixT (S : Schema) (inst : Obj) : Run TObj := do
  Run.lift (checkInstanceCompletion inst)
  let stixRelationship ← buildStixRelationshipT S inst
  let octi ← cleanObjectT (assignT (spreadT (getPropT (extensionsOfT stixRelationship) S.STIX_EXT_OCTI)) [
    ("sighting_of_ref", .old (optProp (getProp inst "from") "internal_id")),
    ("sighting_of_type", .old (optProp (getProp inst "from") "entity_type")),
    ("where_sighted_refs", singletonIfTruthyT (optProp (getProp inst "to") "internal_id")),
    ("where_sighted_types", singletonIfTruthyT (optProp (getProp inst "to") "entity_type")),
    ("negative", .old (getProp inst "x_opencti_negative"))])
  pure (assignT stixRelationship [
    ("description", .old (getProp inst "description")),
    ("first_seen", .old (getProp inst "first_seen")),
    ("last_seen", .old (getProp inst "last_seen")),
    ("count", .old (getProp inst "attribute_count")),
    ("sighting_of_ref", .old (optProp (getProp inst "from") "standard_id")),
    ("where_sighted_refs", singletonIfTruthyT (optProp (getProp inst "to") "standard_id")),
    ("summary", .old (getProp inst "summary")),
    ("observed_data_refs", .newArr []),
    ("extensions", .newObj (mkObjT [(S.STIX_EXT_OCTI, .newObj octi)]))])

/-- Run of `convertMarkingToStix` with ownership marks. -/
def convertMarkingToStixT (S : Schema) (inst : Obj) : Run TObj := do
  let marking ← buildStixMarkingsT S inst
  let octi ← cleanObjectT (assignT (spreadT (getPropT (extensionsOfT marking) S.STIX_EXT_OCTI)) [
    ("order", .old (getProp inst "x_opencti_order")),
    ("color", .old (getProp inst "x_opencti_color"))])
  pure (assignT marking [
    ("name", .old (getProp inst "definition")),
    ("definition_type", .old (getProp inst "definition_type")),
    ("extensions", .newObj (mkObjT [(S.STIX_EXT_OCTI, .newObj octi)]))])

/-- Run of `convertLabelToStix` with ownership marks. -/
def convertLabelToStixT (S : Schema) (inst : Obj) : Run TObj := do
  let label ← buildStixObjectT S inst
  let octi ← cleanObjectT (assignT (spreadT (getPropT (extensionsOfT label) S.STIX_EXT_OCTI)) [
    ("extension_type", .old (.str "new-sdo"))])
  pure (assignT label [
    ("value", .old (getProp inst "value")),
    ("color", .old (getProp inst "color")),
    ("extensions", .newObj (mkObjT [(S.STIX_EXT_OCTI, .newObj octi)]))])

/-- Run of `convertKillChainPhaseToStix` with ownership marks. -/
def convertKillChainPhaseToStixT (S : Schema) (inst : Obj) : Run TObj := do
  let killChain ← buildStixObjectT S inst
  let octi ← cleanObjectT (assignT (spreadT (getPropT (extensionsOfT killChain) S.STIX_EXT_OCTI)) [
    ("extension_type", .old (.str "new-sdo"))])
  pure (assignT killChain [
    ("kill_chain_name", .old (getProp inst "kill_chain_name")),
    ("phase_name", .old (getProp inst "phase_name")),
    ("order", .old (getProp inst "x_opencti_order")),
    ("extensions", .newObj (mkObjT [(S.STIX_EXT_OCTI, .newObj octi)]))])

/-- Run of `convertExternalReferenceToStix` with ownership marks. -/
def convertExternalReferenceToStixT (S : Schema) (inst : Obj) : Run TObj := do
  let reference ← buildStixObjectT S inst
  let octi ← cleanObjectT (assignT (spreadT (getPropT (extensionsOfT reference) S.STIX_EXT_OCTI)) [
    ("extension_type", .old (.str "new-sdo"))])
  pure (assignT reference [
    ("source_name", .old (getProp inst "source_name")),
    ("description", .old (getProp inst "description")),
    ("url", .old (getProp inst "url")),
    ("hashes", nullishT (getProp inst "hashes") (.newObj [])),
    ("external_id", .old (getProp inst "external_id")),
    ("extensions", .newObj (mkObjT [(S.STIX_EXT_OCTI, .newObj octi)]))])

/-- Run of `convertWindowsRegistryValueToStix` with ownership marks. -/
def convertWindowsRegistryValueToStixT (S : Schema) (inst : Obj) : Run TObj := do
  let stixCyberObject ← buildStixCyberObservableT S inst
  let labels ← labelValuesT S inst
  let external_references ← buildExternalReferencesT S inst
  pure (assignT stixCyberObject [
    ("name", .old (getProp inst "name")),
    ("data", .old (getProp inst "data")),
    ("data_type", .old (getProp inst "data_type")),
    ("labels", labels),
    ("description", .old (getProp inst "x_opencti_description")),
    ("score", .old (getProp inst "x_opencti_score")),
    ("created_by_ref", .old (optProp (getProp inst S.INPUT_CREATED_BY) "standard_id")),
    ("external_references", external_references),
    ("extensions", .newObj (mkObjT [
      (S.STIX_EXT_OCTI, getPropT (extensionsOfT stixCyberObject) S.STIX_EXT_OCTI),
      (S.STIX_EXT_OCTI_SCO, .newObj [("extension_type", .old (.str "new-sco"))])]))])

/-- Run of `convertEmailMimePartToStix` with ownership marks. -/
def convertEmailMimePartToStixT (S : Schema) (inst : Obj) : Run TObj := do
  let stixCyberObject ← buildStixCyberObservableT S inst
  let labels ← labelValuesT S inst
  let external_references ← buildExternalReferencesT S inst
  pure (assignT stixCyberObject [
    ("content_type", .old (getProp inst "content_type")),
    ("content_disposition", .old (getProp inst "content_disposition")),
    ("body", .old (getProp inst "body")),
    ("body_raw_ref", .old (optProp (getProp inst S.INPUT_BODY_RAW) "standard_id")),
    ("labels", labels),
    ("description", .old (getProp inst "x_opencti_description")),
    ("score", .old (getProp inst "x_opencti_score")),
    ("created_by_ref", .old (optProp (getProp inst S.INPUT_CREATED_BY) "standard_id")),
    ("external_references", external_references),
    ("extensions", .newObj (mkObjT [
      (S.STIX_EXT_OCTI, getPropT (extensionsOfT stixCyberObject) S.STIX_EXT_OCTI),
      (S.STIX_EXT_OCTI_SCO, .newObj [("extension_type", .old (.str "new-sco"))])]))])

/-- Run of `convertRelationshipKind` with ownership marks. -/
def convertRelationshipKindT (S : Schema) (inst : Obj) (type : String) : Run TObj :=
  if S.isStixCoreRelationship type then convertRelationToStixT S inst
  else if S.isStixCyberObservableRelationship type then convertRelationToStixT S inst
  else if S.isStixSightingRelationship type then convertSightingToStixT S inst
  else if S.isStixMetaRelationship type then convertRelationToStixT S inst
  else Run.fail (.unsupported ("No relation converter available for " ++ type))

/-- Run of `convertDomainKind` with ownership marks. -/
def convertDomainKindT (S : Schema) (inst : Obj) (type : String) : Run TObj :=
  if S.isStixDomainObjectIdentity type then convertIdentityToStixT S inst type
  else if S.isStixDomainObjectLocation type then convertLocationToStixT S inst type
  else if S.ENTITY_TYPE_CONTAINER_REPORT = type then convertReportToStixT S inst type
  else if S.ENTITY_TYPE_MALWARE = type then convertMalwareToStixT S inst type
  else if S.ENTITY_TYPE_INFRASTRUCTURE = type then convertInfrastructureToStixT S inst type
  else if S.ENTITY_TYPE_ATTACK_PATTERN = type then convertAttackPatternToStixT S inst type
  else if S.ENTITY_TYPE_CAMPAIGN = type then convertCampaignToStixT S inst type
  else if S.ENTITY_TYPE_THREAT_ACTOR = type then convertThreatActorToStixT S inst type
  else if S.ENTITY_TYPE_CONTAINER_NOTE = type then convertNoteToStixT S inst type
  else if S.ENTITY_TYPE_CONTAINER_OPINION = type then convertOpinionToStixT S inst type
  else if S.ENTITY_TYPE_CONTAINER_OBSERVED_DATA = type then convertObservedDateToStixT S inst type
  else if S.ENTITY_TYPE_COURSE_OF_ACTION = type then convertCourseOfActionToStixT S inst type
  else if S.ENTITY_TYPE_INCIDENT = type then convertIncidentToStixT S inst type
  else if S.ENTITY_TYPE_INDICATOR = type then convertIndicatorToStixT S inst type
  else if S.ENTITY_TYPE_INTRUSION_SET = type then convertIntrusionSetToStixT S inst type
  else if S.ENTITY_TYPE_TOOL = type then convertToolToStixT S inst type
  else if S.ENTITY_TYPE_VULNERABILITY = type then convertVulnerabilityToStixT S inst type
  else Run.fail (.unsupported ("No entity converter available for " ++ type))

/-- Run of `convertMetaKind` with ownership marks. -/
def convertMetaKindT (S : Schema) (inst : Obj) (type : String) : Run TObj :=
  if S.ENTITY_TYPE_MARKING_DEFINITION = type then convertMarkingToStixT S inst
  else if S.ENTITY_TYPE_LABEL = type then convertLabelToStixT S inst
  else if S.ENTITY_TYPE_KILL_CHAIN_PHASE = type then convertKillChainPhaseToStixT S inst
  else if S.ENTITY_TYPE_EXTERNAL_REFERENCE = type then convertExternalReferenceToStixT S inst
  else Run.fail (.unsupported ("No meta converter available for " ++ type))

/-- Run of `convertObservableKind` with ownership marks. -/
def convertObservableKindT (S : Schema) (inst : Obj) (type : String) : Run TObj :=
  if S.ENTITY_WINDOWS_REGISTRY_VALUE_TYPE = type then convertWindowsRegistryValueToStixT S inst
  else if S.ENTITY_EMAIL_MIME_PART_TYPE = type then convertEmailMimePartToStixT S inst
  else if S.ENTITY_HASHED_OBSERVABLE_ARTIFACT = type then convertArtifactToStixT S inst type
  else if S.ENTITY_AUTONOMOUS_SYSTEM = type then convertAutonomousSystemToStixT S inst type
  else if S.ENTITY_CRYPTOGRAPHIC_WALLET = type then convertCryptocurrencyWalletToStixT S inst type
  else if S.ENTITY_CRYPTOGRAPHIC_KEY = type then convertCryptographicKeyToStixT S inst type
  else if S.ENTITY_DIRECTORY = type then convertDirectoryToStixT S inst type
  else if S.ENTITY_DOMAIN_NAME = type then convertDomainNameToStixT S inst type
  else if S.ENTITY_EMAIL_ADDR = type then convertEmailAddressToStixT S inst type
  else if S.ENTITY_EMAIL_MESSAGE = type then convertEmailMessageToStixT S inst type
  else if S.ENTITY_HASHED_OBSERVABLE_STIX_FILE = type then convertFileToStixT S inst type
  else if S.ENTITY_HOSTNAME = type then convertHostnameToStixT S inst type
  else if S.ENTITY_IPV4_ADDR = type then convertIPv4AddressToStixT S inst type
  else if S.ENTITY_IPV6_ADDR = type then convertIPv6AddressToStixT S inst type
  else if S.ENTITY_MAC_ADDR = type then convertMacAddressToStixT S inst type
  else if S.ENTITY_MUTEX = type then convertMutexToStixT S inst type
  else if S.ENTITY_NETWORK_TRAFFIC = type then convertNetworkTrafficToStixT S inst type
  else if S.ENTITY_PROCESS = type then convertProcessToStixT S inst type
  else if S.ENTITY_SOFTWARE = type then convertSoftwareToStixT S inst type
  else if S.ENTITY_TEXT = type then convertTextToStixT S inst type
  else if S.ENTITY_URL = type then convertURLToStixT S inst type
  else if S.ENTITY_USER_ACCOUNT = type then convertUserAccountToStixT S inst type
  else if S.ENTITY_WINDOWS_REGISTRY_KEY = type then convertWindowsRegistryKeyToStixT S inst type
  else if S.ENTITY_HASHED_OBSERVABLE_X509_CERTIFICATE = type then convertX509CertificateToStixT S inst type
  else Run.fail (.unsupported ("No meta cyber observable available for " ++ type))

/-- Run of `convertToStix` with ownership marks. -/
def convertToStixT (S : Schema) (inst : Obj) : Run TObj := do
  let type ← Run.lift (entityType inst)
  if !S.isStixObject type && !S.isStixRelationship type then
    Run.fail (.unsupported ("Type " ++ type ++ " cannot be converted to Stix"))
  else if S.isStixRelationship type then convertRelationshipKindT S inst type
  else if S.isStixDomainObject type then convertDomainKindT S inst type
  else if S.isStixMetaObject type then convertMetaKindT S inst type
  else if S.isStixCyberObservable type then convertObservableKindT S inst type
  else Run.fail (.unsupported ("No converter available for " ++ type))

/-- Run of `convertStoreToStix` with ownership marks. -/
def convertStoreToStixT (S : Schema) (inst : Obj) : Run TObj :=
  if isEmptyField (getProp inst "_index") || isEmptyField (getProp inst "entity_type") then
    Run.fail (.unsupported "convertInstanceToStix must be used with opencti fully loaded instance")
  else do
    let converted ← convertToStixT S inst
    let stix ← cleanObjectT converted
    if !isValidStixT stix then Run.fail (.functional "Invalid stix data conversion")
    else pure stix

/-! ### Predicates on runs -/

/-- The computation `m` writes to no object of the instance (the journal is
left as it was, whether it returns or throws), and its result satisfies `Q`. -/
def Quiet {α : Type} (m : Run α) (Q : α → Prop) : Prop :=
  ∀ j, (m j).2 = j ∧ ∀ a, (m j).1 = .ok a → Q a

/-- The object has no `extensions` key. -/
def NoExtKey (o : TObj) : Prop := hasPropT o "extensions" = false

/-- No sub-block of an `extensions` mapping has an `extensions` key. -/
def BlocksOK (exts : TObj) : Prop := ∀ e ∈ exts, NoExtKey (spreadT e.2)

/-- The value is an `extensions` mapping created by the converter. -/
def FreshMapping (v : TValue) : Prop := ∃ exts, v = .newObj exts ∧ BlocksOK exts

/-- Every value held under the key `extensions` is a mapping created by the
converter. -/
def FreshExt (o : TObj) : Prop := ∀ kv ∈ o, kv.1 = "extensions" → FreshMapping kv.2

/-- No field of an object literal is named `extensions`. -/
def noExtField (fields : TObj) : Bool := fields.all fun kv => kv.1 != "extensions"

/-- The values an object literal gives to the key `extensions`. -/
def extFields (fields : TObj) : List TValue :=
  (fields.filter fun kv => kv.1 == "extensions").map Prod.snd

/-- An object whose `extensions` is an object of the instance holding a
sub-block with a single entry. -/
def sampleSharedExtensions : TObj := [
  ("id", .old (.str "x--1")),
  ("extensions", .old (.obj [("ext-a", .obj [("extension_type", .str "property-extension")])]))]

/-- The run `m` returns, without the ownership marks, what the computation `x`
on values returns, and throws what it throws. -/
def Agrees {α β : Type} (e : α → β) (m : Run α) (x : Except Err β) : Prop :=
  ∀ j, Except.map e (m j).1 = x

/-! ## Definitions for normalisation as a whole, the entry builders and the overview edit -/

/-- The value the specification describes under a kept `extensions` key: a
mapping without its sub-blocks that have exactly one entry; any other value is
left as it is. -/
def withoutSingleEntryBlocks : JValue → JValue
  | .obj exts => .obj (exts.filter fun e => entriesLength e.2 != 1)
  | v => v

/-- Normalisation in the words of the specification: the entries of `data`
whose value is non-empty, in their order, each with its original value, except
that the value under the key `extensions` loses its single-entry sub-blocks. -/
def cleanObjectSpec (data : Obj) : Obj :=
  (data.filter fun kv => !isEmptyField kv.2).map fun kv =>
    if kv.1 = "extensions" then (kv.1, withoutSingleEntryBlocks kv.2) else kv

/-- An object with an empty field, a falsy field, and an `extensions` mapping
that holds a single-entry sub-block and a two-entry sub-block. -/
def sampleToClean : Obj := [
  ("id", .str "url--7c1c6b2f-8a56-5c0e-9d2c-1c3d0a6e8f11"),
  ("description", .str ""),
  ("revoked", .bool false),
  ("extensions", .obj [
    ("ext-a", .obj [("extension_type", .str "property-extension")]),
    ("ext-b", .obj [("extension_type", .str "property-extension"), ("score", .num 10)])]),
  ("labels", .arr [])]

/-- The five fields of an external reference entry. -/
def externalReferenceKeys : List String :=
  ["source_name", "description", "url", "hashes", "external_id"]

/-- The entry `buildExternalReferences` is specified to give for one attached
external reference: its non-empty fields among the five. -/
def externalReferenceEntry (e : JValue) : JValue :=
  .obj (nonEmptyEntries (externalReferenceKeys.map fun k => (k, optProp e k)))

/-- A report with two external references; the second has an empty `url` and no
`description`. -/
def sampleReportWithReferences : Obj := [
  ("_index", .str "opencti_stix_domain_objects"),
  ("internal_id", .str "51c2"),
  ("standard_id", .str "report--0b7d3a52-2c1e-5d6f-8a9b-3c4d5e6f7a8b"),
  ("entity_type", .str "Report"),
  ("name", .str "Quarterly review"),
  ("externalReferences", .arr [
    .obj [("source_name", .str "mitre-attack"), ("description", .str "Technique page"),
      ("url", .str "https://attack.mitre.org/techniques/T1059"),
      ("external_id", .str "T1059")],
    .obj [("source_name", .str "vendor-blog"), ("url", .str ""),
      ("hashes", .obj [("MD5", .str "9e107d9d372bb6826bd81d3542a419d6")])]])]

/-- The sixteen v3 attributes of an X.509 certificate. -/
def x509V3Keys : List String :=
  ["basic_constraints", "name_constraints", "policy_constraints", "key_usage",
    "extended_key_usage", "subject_key_identifier", "authority_key_identifier",
    "subject_alternative_name", "issuer_alternative_name", "subject_directory_attributes",
    "crl_distribution_points", "inhibit_any_policy", "private_key_usage_period_not_before",
    "private_key_usage_period_not_after", "certificate_policies", "policy_mappings"]

/-- The v3 attributes of the instance that are non-empty, with their values. -/
def x509V3Block (inst : Obj) : Obj :=
  nonEmptyEntries (x509V3Keys.map fun k => (k, getProp inst k))

/-- A certificate with two v3 attributes, one of them after an empty one. -/
def sampleCertificate : Obj := [
  ("_index", .str "opencti_stix_cyber_observables"),
  ("internal_id", .str "88f7"),
  ("standard_id", .str "x509-certificate--1c3d6b8a-565c-5f7c-9d2c-0a6e8f11c0e2"),
  ("entity_type", .str "X509-Certificate"),
  ("serial_number", .str "36:f7:d4:32:f4:ab:70:ea"),
  ("basic_constraints", .str "critical,CA:TRUE"),
  ("key_usage", .str ""),
  ("subject_key_identifier", .str "a8:4a:6a:63:04:7d:dd:ba")]

/-- A certificate without any v3 attribute. -/
def sampleCertificateNoV3 : Obj := [
  ("_index", .str "opencti_stix_cyber_observables"),
  ("internal_id", .str "88f8"),
  ("standard_id", .str "x509-certificate--6b8a1c3d-565c-5f7c-9d2c-0a6e8f11c0e3"),
  ("entity_type", .str "X509-Certificate"),
  ("serial_number", .str "01:02:03:04")]

/-- The entry `buildEmailBodyMultipart` gives for one multipart part of an
email message: the non-empty ones among the part's `content_type`,
`content_disposition` and `body` and the `standard_id` of the raw-body slot of
the message itself. -/
def emailBodyPart (S : Schema) (inst : Obj) (part : JValue) : JValue :=
  .obj (nonEmptyEntries [
    ("content_type", optProp part "content_type"),
    ("content_disposition", optProp part "content_disposition"),
    ("body", optProp part "body"),
    ("body_raw_ref", optProp (getProp inst S.INPUT_BODY_RAW) "standard_id")])

/-- An email message with a resolved raw body and two multipart parts; the
second part has an empty `body`. -/
def sampleEmailMultipart : Obj := [
  ("_index", .str "opencti_stix_cyber_observables"),
  ("internal_id", .str "88f9"),
  ("standard_id", .str "email-message--1c3d6b8a-565c-5f7c-9d2c-0a6e8f11c0e4"),
  ("entity_type", .str "Email-Message"),
  ("is_multipart", .bool true),
  ("bodyRaw", .obj [("standard_id", .str "artifact--4e8f11c0-0a6e-5f7c-9d2c-1c3d6b8a565c")]),
  ("bodyMultipart", .arr [
    .obj [("content_type", .str "text/plain"), ("content_disposition", .str "inline"),
      ("body", .str "Please find the invoice attached.")],
    .obj [("content_type", .str "application/pdf"),
      ("content_disposition", .str "attachment"), ("body", .str "")]])]

/-- The four observable types whose projector writes the observable fields at
the top level and replaces the cyber-observable block by a bare marker. -/
def topLevelObservableTypes (S : Schema) : List String :=
  [S.ENTITY_HOSTNAME, S.ENTITY_TEXT, S.ENTITY_CRYPTOGRAPHIC_WALLET, S.ENTITY_CRYPTOGRAPHIC_KEY]

/-- A text observable with a label, a description, a score, an author and an
external reference. -/
def sampleText : Obj := [
  ("_index", .str "opencti_stix_cyber_observables"),
  ("internal_id", .str "88fa"),
  ("standard_id", .str "text--565c6b8a-1c3d-5f7c-9d2c-0a6e8f11c0e5"),
  ("entity_type", .str "X-OpenCTI-Text"),
  ("value", .str "invoice overdue"),
  ("x_opencti_description", .str "Subject line of the campaign"),
  ("x_opencti_score", .num 40),
  ("objectLabel", .arr [.obj [("value", .str "phishing")]]),
  ("createdBy", .obj [("standard_id", .str "identity--0a6e8f11-1c3d-5f7c-9d2c-565c6b8ac0e5")]),
  ("externalReferences", .arr [
    .obj [("source_name", .str "vendor-blog"), ("url", .str "https://blog.example/post")]])]

/-- An email address that belongs to two user accounts. -/
def sampleEmailAddress : Obj := [
  ("_index", .str "opencti_stix_cyber_observables"),
  ("internal_id", .str "88fb"),
  ("standard_id", .str "email-addr--6b8a565c-1c3d-5f7c-9d2c-0a6e8f11c0e6"),
  ("entity_type", .str "Email-Addr"),
  ("value", .str "billing@example.org"),
  ("belongsTo", .arr [
    .obj [("standard_id", .str "user-account--1c3d565c-6b8a-5f7c-9d2c-0a6e8f11c0e7")],
    .obj [("standard_id", .str "user-account--9d2c565c-6b8a-5f7c-1c3d-0a6e8f11c0e8")]])]

/-- An email address whose first user account has an empty `standard_id`. -/
def sampleEmailAddressEmptyId : Obj := [
  ("_index", .str "opencti_stix_cyber_observables"),
  ("internal_id", .str "88fc"),
  ("standard_id", .str "email-addr--565c6b8a-1c3d-5f7c-9d2c-0a6e8f11c0e9"),
  ("entity_type", .str "Email-Addr"),
  ("value", .str "sales@example.org"),
  ("belongsTo", .arr [
    .obj [("standard_id", .str "")],
    .obj [("standard_id", .str "user-account--9d2c565c-6b8a-5f7c-1c3d-0a6e8f11c0e8")]])]

/-! ### The overview component of a domain object (`StixDomainObjectOverview.js`) -/

/-- Strict equality `a === b` on the values an id can be: primitives are
compared by value; an array or an object is never equal to an id. -/
def strictEq : JValue → JValue → Bool
  | .undefined, .undefined => true
  | .null, .null => true
  | .bool a, .bool b => a == b
  | .num a, .num b => a == b
  | .str a, .str b => a == b
  | _, _ => false

/-- Logical or `v || d`. -/
def orElse (v d : JValue) : JValue := if truthy v then v else d

/-- The variables `deleteStixId(stixId)` hands to `commitMutation`, for the
domain object of the component props.  The attribute `x_opencti_stix_ids` is
declared a list: `R.filter` on any other truthy value is reported as a
`typeError`. -/
def deleteStixId (stixDomainObject : Obj) (stixId : JValue) : Except Err Obj :=
  match orElse (getProp stixDomainObject "x_opencti_stix_ids") (.arr []) with
  | .arr otherStixIds =>
    let stixIds := otherStixIds.filter fun n =>
      !strictEq n (getProp stixDomainObject "standard_id") && !strictEq n stixId
    pure [
      ("id", getProp stixDomainObject "id"),
      ("input", .obj [("key", .str "x_opencti_stix_ids"), ("value", .arr stixIds)])]
  | _ => throw .typeError

/-- The props of the overview of a malware that was imported under three other
ids, one of them twice, and that also lists its own standard id. -/
def sampleOverviewProps : Obj := [
  ("id", .str "3f2a"),
  ("standard_id", .str "malware--6f2d9c1e-3b7a-4e58-9a10-5d2c7e8b1f33"),
  ("x_opencti_stix_ids", .arr [
    .str "malware--aaaaaaaa-0000-4000-8000-000000000001",
    .str "malware--bbbbbbbb-0000-4000-8000-000000000002",
    .str "malware--6f2d9c1e-3b7a-4e58-9a10-5d2c7e8b1f33",
    .str "malware--aaaaaaaa-0000-4000-8000-000000000001",
    .str "malware--cccccccc-0000-4000-8000-000000000003"])]

/-- A hostname observable whose description is the empty string. -/
def sampleHostnameEmptyDescription : Obj := [
  ("_index", .str "opencti_stix_cyber_observables"),
  ("internal_id", .str "88fd"),
  ("standard_id", .str "hostname--8a565c6b-5f7c-1c3d-9d2c-0a6e8f11c0ea"),
  ("entity_type", .str "X-OpenCTI-Hostname"),
  ("value", .str "mail.example"),
  ("x_opencti_description", .str ""),
  ("x_opencti_score", .num 15)]

/-! ## Definitions for the discriminator of the platform block and for totality -/

/-- The platform block of the object is a well-formed block with the given
discriminator. -/
def PlatformExtType (S : Schema) (o : Obj) (v : String) : Prop :=
  ∃ blk, getProp (extensionsOf o) S.STIX_EXT_OCTI = .obj blk ∧ NoDupKeys blk ∧
    hasProp blk "extensions" = false ∧ getProp blk "extension_type" = .str v

/-- The four types whose projector marks the platform block as a new object
definition. -/
def newSdoTypes (S : Schema) : List String :=
  [S.ENTITY_TYPE_INCIDENT, S.ENTITY_TYPE_LABEL, S.ENTITY_TYPE_KILL_CHAIN_PHASE,
    S.ENTITY_TYPE_EXTERNAL_REFERENCE]

/-- A fully loaded incident. -/
def sampleIncident : Obj := [
  ("_index", .str "opencti_stix_domain_objects"),
  ("internal_id", .str "51c3"),
  ("standard_id", .str "incident--3a520b7d-2c1e-5d6f-8a9b-3c4d5e6f7a8c"),
  ("entity_type", .str "Incident"),
  ("name", .str "Mail server outage"),
  ("objective", .str "disruption")]

/-- A multi-valued slot as its declared type has it: absent, `null`, or a list
of objects. -/
def isObjectList : JValue → Bool
  | .undefined => true
  | .null => true
  | .arr xs => xs.all fun x => match x with
    | .obj _ => true
    | _ => false
  | _ => false

/-- The multi-valued attributes and slots the builders map over, for an instance
of any type. -/
def commonSlots (S : Schema) : List String :=
  ["x_opencti_files", S.INPUT_LABELS, S.INPUT_MARKINGS, S.INPUT_EXTERNAL_REFS,
    S.INPUT_LINKED, S.INPUT_KILLCHAIN]

/-- The multi-valued slots a projector maps over, each with the type of the
projector. -/
def projectorSlots (S : Schema) : List (String × String) :=
  [(S.ENTITY_TYPE_CONTAINER_REPORT, S.INPUT_OBJECTS),
    (S.ENTITY_TYPE_MALWARE, S.INPUT_OPERATING_SYSTEM),
    (S.ENTITY_TYPE_MALWARE, S.INPUT_SAMPLE),
    (S.ENTITY_TYPE_CONTAINER_NOTE, S.INPUT_OBJECTS),
    (S.ENTITY_TYPE_CONTAINER_OPINION, "objects"),
    (S.ENTITY_TYPE_CONTAINER_OBSERVED_DATA, "objects"),
    (S.ENTITY_DIRECTORY, S.INPUT_CONTAINS),
    (S.ENTITY_DOMAIN_NAME, S.INPUT_RESOLVES_TO),
    (S.ENTITY_EMAIL_MESSAGE, S.INPUT_TO),
    (S.ENTITY_EMAIL_MESSAGE, S.INPUT_CC),
    (S.ENTITY_EMAIL_MESSAGE, S.INPUT_BCC),
    (S.ENTITY_EMAIL_MESSAGE, S.INPUT_BODY_MULTIPART),
    (S.ENTITY_HASHED_OBSERVABLE_STIX_FILE, S.INPUT_CONTAINS),
    (S.ENTITY_IPV4_ADDR, S.INPUT_RESOLVES_TO),
    (S.ENTITY_IPV4_ADDR, S.INPUT_BELONGS_TO),
    (S.ENTITY_IPV6_ADDR, S.INPUT_RESOLVES_TO),
    (S.ENTITY_IPV6_ADDR, S.INPUT_BELONGS_TO),
    (S.ENTITY_NETWORK_TRAFFIC, S.INPUT_ENCAPSULATES),
    (S.ENTITY_PROCESS, S.INPUT_OPENED_CONNECTION),
    (S.ENTITY_PROCESS, S.INPUT_CHILD),
    (S.ENTITY_WINDOWS_REGISTRY_KEY, S.INPUT_VALUES)]

/-- The dispatcher reaches a concrete projector for the type: the type is a
STIX object or relationship, and its category holds a projector for it. -/
def reachesProjector (S : Schema) (t : String) : Bool :=
  (S.isStixObject t || S.isStixRelationship t) && hasProjector S t

/-- What the totality of the conversion needs from an instance besides its type:
`_index` is a string, the UUID version is defined on every entry of
`x_opencti_stix_ids`, and every slot the converter maps over has its declared
type. -/
structure Convertible (S : Schema) (inst : Obj) (t : String) : Prop where
  index : ∃ s, getProp inst "_index" = .str s
  stixIds : ∃ ids, nullish (getProp inst "x_opencti_stix_ids") (.arr []) = .arr ids ∧
    ∀ id ∈ ids, (uuidVersionOf S id).isSome = true
  common : ∀ k ∈ commonSlots S, isObjectList (getProp inst k) = true
  slots : ∀ p ∈ projectorSlots S, p.1 = t → isObjectList (getProp inst p.2) = true

/-! # Proofs -/

/-! ## Lemmas on the exception monad -/

theorem bind_eq_ok {α β : Type} (x : Except Err α) (f : α → Except Err β) (b : β) :
    (x >>= f) = .ok b ↔ ∃ a, x = .ok a ∧ f a = .ok b := by
  cases x with
  | error e => simp [bind, Except.bind]
  | ok a => simp [bind, Except.bind]

theorem pure_eq_ok {α : Type} (a b : α) : (pure a : Except Err α) = .ok b ↔ a = b := by
  simp [pure, Except.pure]

theorem throw_ne_ok {α : Type} (e : Err) (b : α) : (throw e : Except Err α) ≠ .ok b := by
  simp [throw, throwThe, MonadExceptOf.throw]

/-! ## Lemmas on objects -/

theorem getProp_of_not_mem (o : Obj) (k : String) (h : k ∉ keys o) : getProp o k = .undefined := by
  induction o with
  | nil => rfl
  | cons kv rest ih =>
    obtain ⟨k', v⟩ := kv
    simp only [keys, List.map_cons, List.mem_cons, not_or] at h
    have h1 : ¬ k' = k := fun e => h.1 e.symm
    simp only [getProp, h1, if_false]
    exact ih h.2

theorem hasProp_eq_false_iff (o : Obj) (k : String) : hasProp o k = false ↔ k ∉ keys o := by
  induction o with
  | nil => simp [hasProp, keys]
  | cons kv rest ih =>
    obtain ⟨k', v⟩ := kv
    by_cases h : k' = k
    · simp [hasProp, keys, h]
    · have h' : ¬ k = k' := fun e => h e.symm
      simp [hasProp, h, h', ih, keys]

theorem hasProp_eq_true_iff (o : Obj) (k : String) : hasProp o k = true ↔ k ∈ keys o := by
  have := hasProp_eq_false_iff o k
  cases h : hasProp o k <;> simp_all

theorem getProp_mem (o : Obj) (k : String) (h : k ∈ keys o) : (k, getProp o k) ∈ o := by
  induction o with
  | nil => simp [keys] at h
  | cons kv rest ih =>
    obtain ⟨k', v⟩ := kv
    by_cases e : k' = k
    · subst e; simp [getProp]
    · have e' : ¬ k = k' := fun x => e x.symm
      simp only [keys, List.map_cons, List.mem_cons, e', false_or] at h
      simp only [getProp, e, if_false, List.mem_cons]
      exact Or.inr (ih h)

theorem getProp_eq_of_mem (o : Obj) (hn : NoDupKeys o) (k : String) (v : JValue) (h : (k, v) ∈ o) :
    getProp o k = v := by
  induction o with
  | nil => simp at h
  | cons kv rest ih =>
    obtain ⟨k', v'⟩ := kv
    simp only [NoDupKeys, keys, List.map_cons, List.nodup_cons] at hn
    rcases List.mem_cons.1 h with e | e
    · injection e with e1 e2; subst e1; subst e2; simp [getProp]
    · have hk : k ∈ keys rest := List.mem_map.2 ⟨(k, v), e, rfl⟩
      have e' : ¬ k' = k := fun x => hn.1 (x ▸ hk)
      simp only [getProp, e', if_false]
      exact ih hn.2 e

theorem getProp_setProp_same (o : Obj) (k : String) (v : JValue) : getProp (setProp o k v) k = v := by
  induction o with
  | nil => simp [setProp, getProp]
  | cons kv rest ih =>
    obtain ⟨k', v'⟩ := kv
    by_cases e : k' = k
    · simp [setProp, getProp, e]
    · simp [setProp, getProp, e, ih]

theorem getProp_setProp_ne (o : Obj) (k k2 : String) (v : JValue) (h : k ≠ k2) :
    getProp (setProp o k v) k2 = getProp o k2 := by
  induction o with
  | nil => simp [setProp, getProp, h]
  | cons kv rest ih =>
    obtain ⟨k', v'⟩ := kv
    by_cases e : k' = k
    · subst e; simp [setProp, getProp, h]
    · by_cases e2 : k' = k2
      · subst e2; simp [setProp, getProp, e]
      · simp [setProp, getProp, e, e2, ih]

theorem keys_setProp (o : Obj) (k : String) (v : JValue) :
    keys (setProp o k v) = if k ∈ keys o then keys o else keys o ++ [k] := by
  induction o with
  | nil => simp [setProp, keys]
  | cons kv rest ih =>
    obtain ⟨k', v'⟩ := kv
    by_cases e : k' = k
    · subst e; simp [setProp, keys]
    · have e' : ¬ k = k' := fun x => e x.symm
      simp only [keys] at ih
      simp only [setProp, e, if_false, keys, List.map_cons, List.mem_cons, e', false_or, ih]
      split <;> simp

theorem nodup_setProp (o : Obj) (k : String) (v : JValue) (h : NoDupKeys o) :
    NoDupKeys (setProp o k v) := by
  unfold NoDupKeys at *
  rw [keys_setProp]
  split
  · exact h
  · rename_i hk
    exact List.Nodup.append h (List.nodup_singleton k) (by simpa using hk)

theorem mem_setProp (o : Obj) (k : String) (v : JValue) (kv : String × JValue)
    (h : kv ∈ setProp o k v) : kv = (k, v) ∨ kv ∈ o := by
  induction o with
  | nil => simpa [setProp] using h
  | cons e rest ih =>
    obtain ⟨k', v'⟩ := e
    by_cases hk : k' = k
    · subst hk
      simp only [setProp, if_true, List.mem_cons] at h
      rcases h with h | h
      · exact Or.inl h
      · exact Or.inr (List.mem_cons_of_mem _ h)
    · simp only [setProp, hk, if_false, List.mem_cons] at h
      rcases h with h | h
      · exact Or.inr (h ▸ List.mem_cons_self _ _)
      · rcases ih h with h | h
        · exact Or.inl h
        · exact Or.inr (List.mem_cons_of_mem _ h)

theorem assign_nil (base : Obj) : assign base [] = base := rfl

theorem assign_cons (base : Obj) (kv : String × JValue) (fs : Obj) :
    assign base (kv :: fs) = assign (setProp base kv.1 kv.2) fs := rfl

theorem getProp_assign (fs : Obj) : ∀ (base : Obj) (k : String),
    getProp (assign base fs) k = (lookupLast fs k).getD (getProp base k) := by
  induction fs with
  | nil => intro base k; rfl
  | cons kv rest ih =>
    intro base k
    obtain ⟨k', v⟩ := kv
    rw [assign_cons, ih]
    simp only [lookupLast]
    cases h : lookupLast rest k with
    | some w => simp
    | none =>
      by_cases e : k' = k
      · subst e; simp [getProp_setProp_same]
      · simp [e, getProp_setProp_ne _ _ _ _ e]

theorem nodup_assign (fs : Obj) : ∀ (base : Obj), NoDupKeys base → NoDupKeys (assign base fs) := by
  induction fs with
  | nil => intro base h; exact h
  | cons kv rest ih =>
    intro base h
    rw [assign_cons]
    exact ih _ (nodup_setProp _ _ _ h)

theorem mem_assign (fs : Obj) : ∀ (base : Obj) (kv : String × JValue),
    kv ∈ assign base fs → kv ∈ fs ∨ kv ∈ base := by
  induction fs with
  | nil => intro base kv h; exact Or.inr h
  | cons e rest ih =>
    intro base kv h
    rw [assign_cons] at h
    rcases ih _ _ h with h | h
    · exact Or.inl (List.mem_cons_of_mem _ h)
    · rcases mem_setProp _ _ _ _ h with h | h
      · exact Or.inl (h ▸ List.mem_cons_self _ _)
      · exact Or.inr h

theorem nodup_nil : NoDupKeys [] := List.nodup_nil

theorem nodup_mkObj (fs : Obj) : NoDupKeys (mkObj fs) := nodup_assign fs [] nodup_nil

theorem getProp_mkObj (fs : Obj) (k : String) :
    getProp (mkObj fs) k = (lookupLast fs k).getD .undefined := by
  unfold mkObj; rw [getProp_assign]; rfl

theorem mem_mkObj (fs : Obj) (kv : String × JValue) (h : kv ∈ mkObj fs) : kv ∈ fs := by
  rcases mem_assign fs [] kv h with h | h
  · exact h
  · simp at h

/-! ## Lemmas on normalisation -/

theorem nonEmptyEntries_allNonEmpty (o : Obj) : AllNonEmpty (nonEmptyEntries o) := by
  intro kv h
  simp only [nonEmptyEntries, List.mem_filter, Bool.not_eq_true'] at h
  exact h.2

theorem nonEmptyEntries_of_allNonEmpty (o : Obj) (h : AllNonEmpty o) : nonEmptyEntries o = o := by
  unfold nonEmptyEntries
  rw [List.filter_eq_self]
  intro kv hkv
  simp [h kv hkv]

theorem keys_nonEmptyEntries_sublist (o : Obj) : (keys (nonEmptyEntries o)).Sublist (keys o) := by
  unfold keys nonEmptyEntries
  exact List.Sublist.map _ (List.filter_sublist o)

theorem nodup_nonEmptyEntries (o : Obj) (h : NoDupKeys o) : NoDupKeys (nonEmptyEntries o) :=
  List.Nodup.sublist (keys_nonEmptyEntries_sublist o) h

theorem getProp_nonEmptyEntries (o : Obj) (hn : NoDupKeys o) (k : String) :
    getProp (nonEmptyEntries o) k =
      if isEmptyField (getProp o k) = true then .undefined else getProp o k := by
  induction o with
  | nil => simp [nonEmptyEntries, getProp]
  | cons kv rest ih =>
    obtain ⟨k', v⟩ := kv
    simp only [NoDupKeys, keys, List.map_cons, List.nodup_cons] at hn
    have ih' := ih hn.2
    by_cases e : k' = k
    · subst e
      cases hv : isEmptyField v
      · simp [nonEmptyEntries, getProp, hv]
      · have : getProp (nonEmptyEntries rest) k' = .undefined :=
          getProp_of_not_mem _ _ (fun hm => hn.1 ((keys_nonEmptyEntries_sublist rest).subset hm))
        simp only [nonEmptyEntries] at this
        simp [nonEmptyEntries, getProp, hv, this]
    · simp only [nonEmptyEntries] at ih'
      cases hv : isEmptyField v <;> simp [nonEmptyEntries, getProp, hv, e, ih']

theorem getProp_undefined_of_allNonEmpty (o : Obj) (h : AllNonEmpty o) (k : String)
    (he : isEmptyField (getProp o k) = true) : getProp o k = .undefined := by
  by_cases hk : k ∈ keys o
  · have := h _ (getProp_mem o k hk)
    simp [he] at this
  · exact getProp_of_not_mem o k hk

theorem hasProp_of_getProp_ne (o : Obj) (k : String) (h : getProp o k ≠ .undefined) :
    hasProp o k = true := by
  rw [hasProp_eq_true_iff]
  by_contra hk
  exact h (getProp_of_not_mem o k hk)

theorem cleanObject_noext (data : Obj) (h : hasProp data "extensions" = false) :
    cleanObject data = .ok (nonEmptyEntries data) := by
  induction data with
  | nil => rfl
  | cons kv rest ih =>
    obtain ⟨k', v⟩ := kv
    by_cases e : k' = "extensions"
    · simp [hasProp, e] at h
    · simp only [hasProp, e, if_false] at h
      cases hv : isEmptyField v
      · simp [cleanObject, hv, e, ih h, nonEmptyEntries, bind, Except.bind, pure, Except.pure]
      · simp [cleanObject, hv, ih h, nonEmptyEntries]

theorem cleanObject_mem (data : Obj) : ∀ (out : Obj), cleanObject data = .ok out →
    ∀ kv ∈ out, (kv.1 ≠ "extensions" ∧ kv ∈ data ∧ isEmptyField kv.2 = false) ∨
      (kv.1 = "extensions" ∧ ∃ v, (kv.1, v) ∈ data ∧ isEmptyField v = false ∧
        pruneExtensions v = .ok kv.2) := by
  induction data with
  | nil =>
    intro out h kv hkv
    simp only [cleanObject, pure_eq_ok] at h
    subst h; simp at hkv
  | cons e rest ih =>
    intro out h kv hkv
    obtain ⟨k', v⟩ := e
    have lift : ((kv.1 ≠ "extensions" ∧ kv ∈ rest ∧ isEmptyField kv.2 = false) ∨
        (kv.1 = "extensions" ∧ ∃ w, (kv.1, w) ∈ rest ∧ isEmptyField w = false ∧
          pruneExtensions w = .ok kv.2)) →
        ((kv.1 ≠ "extensions" ∧ kv ∈ (k', v) :: rest ∧ isEmptyField kv.2 = false) ∨
        (kv.1 = "extensions" ∧ ∃ w, (kv.1, w) ∈ (k', v) :: rest ∧ isEmptyField w = false ∧
          pruneExtensions w = .ok kv.2)) := by
      rintro (⟨a, b, c⟩ | ⟨a, w, b, c, d⟩)
      · exact Or.inl ⟨a, List.mem_cons_of_mem _ b, c⟩
      · exact Or.inr ⟨a, w, List.mem_cons_of_mem _ b, c, d⟩
    cases hv : isEmptyField v
    · by_cases hk : k' = "extensions"
      · simp only [cleanObject, hv, hk, if_true, bind_eq_ok, pure_eq_ok, Bool.false_eq_true,
          if_false] at h
        obtain ⟨v', hv', rest', hrest, rfl⟩ := h
        rcases List.mem_cons.1 hkv with h1 | h1
        · subst h1
          exact Or.inr ⟨rfl, v, by simp [hk], hv, hv'⟩
        · exact lift (ih rest' hrest kv h1)
      · simp only [cleanObject, hv, hk, if_false, bind_eq_ok, pure_eq_ok, Bool.false_eq_true] at h
        obtain ⟨rest', hrest, rfl⟩ := h
        rcases List.mem_cons.1 hkv with h1 | h1
        · subst h1
          exact Or.inl ⟨hk, List.mem_cons_self _ _, hv⟩
        · exact lift (ih rest' hrest kv h1)
    · simp only [cleanObject, hv, if_true] at h
      exact lift (ih out h kv hkv)

theorem cleanObject_keys_sublist (data : Obj) : ∀ (out : Obj), cleanObject data = .ok out →
    (keys out).Sublist (keys data) := by
  induction data with
  | nil =>
    intro out h
    simp only [cleanObject, pure_eq_ok] at h
    subst h; exact List.Sublist.refl _
  | cons e rest ih =>
    intro out h
    obtain ⟨k', v⟩ := e
    cases hv : isEmptyField v
    · by_cases hk : k' = "extensions"
      · simp only [cleanObject, hv, hk, if_true, bind_eq_ok, pure_eq_ok, Bool.false_eq_true,
          if_false] at h
        obtain ⟨v', _, rest', hrest, rfl⟩ := h
        simpa [keys, hk] using ih rest' hrest
      · simp only [cleanObject, hv, hk, if_false, bind_eq_ok, pure_eq_ok, Bool.false_eq_true] at h
        obtain ⟨rest', hrest, rfl⟩ := h
        simpa [keys] using ih rest' hrest
    · simp only [cleanObject, hv, if_true] at h
      exact List.Sublist.cons _ (ih out h)

theorem cleanObject_nodup (data out : Obj) (hn : NoDupKeys data) (h : cleanObject data = .ok out) :
    NoDupKeys out :=
  List.Nodup.sublist (cleanObject_keys_sublist data out h) hn

theorem cleanObject_getProp (data : Obj) (hn : NoDupKeys data) : ∀ (out : Obj),
    cleanObject data = .ok out → ∀ k, k ≠ "extensions" →
    getProp out k = if isEmptyField (getProp data k) = true then .undefined else getProp data k := by
  induction data with
  | nil =>
    intro out h k _
    simp only [cleanObject, pure_eq_ok] at h
    subst h; simp [getProp]
  | cons e rest ih =>
    intro out h k hk
    obtain ⟨k', v⟩ := e
    simp only [NoDupKeys, keys, List.map_cons, List.nodup_cons] at hn
    have absent : ∀ o, cleanObject rest = .ok o → k' = k → getProp o k = .undefined := by
      intro o ho e
      apply getProp_of_not_mem
      intro hm
      exact hn.1 (e ▸ (cleanObject_keys_sublist rest o ho).subset hm)
    cases hv : isEmptyField v
    · by_cases hx : k' = "extensions"
      · simp only [cleanObject, hv, hx, if_true, bind_eq_ok, pure_eq_ok, Bool.false_eq_true,
          if_false] at h
        obtain ⟨v', _, rest', hrest, rfl⟩ := h
        have e : ¬ k' = k := fun e => hk (e ▸ hx)
        have e2 : ¬ "extensions" = k := fun e => hk e.symm
        simp only [getProp, e, e2, if_false]
        exact ih hn.2 rest' hrest k hk
      · simp only [cleanObject, hv, hx, if_false, bind_eq_ok, pure_eq_ok, Bool.false_eq_true] at h
        obtain ⟨rest', hrest, rfl⟩ := h
        by_cases e : k' = k
        · simp [getProp, e, hv]
        · simp only [getProp, e, if_false]
          exact ih hn.2 rest' hrest k hk
    · simp only [cleanObject, hv, if_true] at h
      by_cases e : k' = k
      · simp [getProp, e, hv, absent out h e]
      · simp only [getProp, e, if_false]
        exact ih hn.2 out h k hk

theorem cleanObject_hasProp (data : Obj) (hn : NoDupKeys data) : ∀ (out : Obj),
    cleanObject data = .ok out → ∀ k,
    hasProp out k = (hasProp data k && !isEmptyField (getProp data k)) := by
  induction data with
  | nil =>
    intro out h k
    simp only [cleanObject, pure_eq_ok] at h
    subst h; simp [hasProp]
  | cons e rest ih =>
    intro out h k
    obtain ⟨k', v⟩ := e
    simp only [NoDupKeys, keys, List.map_cons, List.nodup_cons] at hn
    have absent : ∀ o, cleanObject rest = .ok o → k' = k → hasProp o k = false := by
      intro o ho e
      rw [hasProp_eq_false_iff]
      intro hm
      exact hn.1 (e ▸ (cleanObject_keys_sublist rest o ho).subset hm)
    cases hv : isEmptyField v
    · by_cases hx : k' = "extensions"
      · simp only [cleanObject, hv, hx, if_true, bind_eq_ok, pure_eq_ok, Bool.false_eq_true,
          if_false] at h
        obtain ⟨v', _, rest', hrest, rfl⟩ := h
        by_cases e : k' = k
        · have e2 : "extensions" = k := hx ▸ e
          simp [hasProp, getProp, e, e2, hv]
        · have e2 : ¬ "extensions" = k := fun x => e (hx.trans x)
          simp only [hasProp, getProp, e, e2, if_false]
          exact ih hn.2 rest' hrest k
      · simp only [cleanObject, hv, hx, if_false, bind_eq_ok, pure_eq_ok, Bool.false_eq_true] at h
        obtain ⟨rest', hrest, rfl⟩ := h
        by_cases e : k' = k
        · simp [hasProp, getProp, e, hv]
        · simp only [hasProp, getProp, e, if_false]
          exact ih hn.2 rest' hrest k
    · simp only [cleanObject, hv, if_true] at h
      by_cases e : k' = k
      · simp [hasProp, getProp, e, hv, absent out h e]
      · simp only [hasProp, getProp, e, if_false]
        exact ih hn.2 out h k

theorem cleanObject_getProp_ext (data : Obj) : ∀ (out : Obj), cleanObject data = .ok out →
    isEmptyField (getProp data "extensions") = false →
    pruneExtensions (getProp data "extensions") = .ok (getProp out "extensions") := by
  induction data with
  | nil => intro out _ he; simp [getProp, isEmptyField] at he
  | cons e rest ih =>
    intro out h he
    obtain ⟨k', v⟩ := e
    by_cases hx : k' = "extensions"
    · simp only [getProp, hx, if_true] at he
      simp only [cleanObject, he, hx, if_true, bind_eq_ok, pure_eq_ok, Bool.false_eq_true,
        if_false] at h
      obtain ⟨v', hv', rest', _, rfl⟩ := h
      simpa [getProp, hx] using hv'
    · simp only [getProp, hx, if_false] at he
      cases hv : isEmptyField v
      · simp only [cleanObject, hv, hx, if_false, bind_eq_ok, pure_eq_ok, Bool.false_eq_true] at h
        obtain ⟨rest', hrest, rfl⟩ := h
        simpa [getProp, hx] using ih rest' hrest he
      · simp only [cleanObject, hv, if_true] at h
        simpa [getProp, hx] using ih out h he

theorem hasProp_setProp (o : Obj) (k k2 : String) (v : JValue) :
    hasProp (setProp o k v) k2 = (hasProp o k2 || decide (k = k2)) := by
  induction o with
  | nil => simp [setProp, hasProp]
  | cons kv rest ih =>
    obtain ⟨k', v'⟩ := kv
    by_cases e : k' = k
    · subst e
      by_cases e2 : k' = k2 <;> simp [setProp, hasProp, e2]
    · by_cases e2 : k' = k2
      · subst e2; simp [setProp, hasProp, e]
      · simp [setProp, hasProp, e, e2, ih]

theorem hasProp_assign (fs : Obj) : ∀ (base : Obj) (k : String),
    hasProp (assign base fs) k = (hasProp base k || (lookupLast fs k).isSome) := by
  induction fs with
  | nil => intro base k; simp [assign_nil, lookupLast]
  | cons kv rest ih =>
    intro base k
    obtain ⟨k', v⟩ := kv
    rw [assign_cons, ih, hasProp_setProp]
    simp only [lookupLast]
    cases h : lookupLast rest k with
    | some w => simp
    | none => by_cases e : k' = k <;> simp [e]

theorem allNonEmpty_assign (base fs : Obj) (hb : AllNonEmpty base) (hf : AllNonEmpty fs) :
    AllNonEmpty (assign base fs) := by
  intro kv h
  rcases mem_assign fs base kv h with h | h
  · exact hf kv h
  · exact hb kv h

theorem OctiBlock.assign_clean {S : Schema} {inst blk : Obj} (hb : OctiBlock S inst blk)
    (extra : Obj) (h1 : ∀ k ∈ octiKeys, lookupLast extra k = none)
    (h2 : lookupLast extra "extensions" = none)
    (h3 : lookupLast extra "extension_type" = none ∨
      lookupLast extra "extension_type" = some (.str "new-sdo")) :
    OctiBlock S inst (nonEmptyEntries (assign blk extra)) := by
  have key : ∀ k, lookupLast extra k = none →
      getProp (nonEmptyEntries (assign blk extra)) k = getProp blk k := by
    intro k hk
    rw [getProp_nonEmptyEntries _ (nodup_assign _ _ hb.nodup), getProp_assign, hk]
    simp only [Option.getD_none]
    split
    · rename_i he
      exact (getProp_undefined_of_allNonEmpty blk hb.nonEmpty k he).symm
    · rfl
  refine ⟨nodup_nonEmptyEntries _ (nodup_assign _ _ hb.nodup), nonEmptyEntries_allNonEmpty _, ?_, ?_, ?_⟩
  · rw [hasProp_eq_false_iff]
    intro hm
    have := (keys_nonEmptyEntries_sublist (assign blk extra)).subset hm
    rw [← hasProp_eq_true_iff, hasProp_assign, hb.noExt, h2] at this
    simp at this
  · obtain ⟨octi, ho, hk⟩ := hb.base
    exact ⟨octi, ho, fun k hkm => (key k (h1 k hkm)).trans (hk k hkm)⟩
  · rcases h3 with h3 | h3
    · rw [key _ h3]; exact hb.extType
    · right
      rw [getProp_nonEmptyEntries _ (nodup_assign _ _ hb.nodup), getProp_assign, h3]
      simp [isEmptyField]

theorem OctiBlock.assign_newsdo {S : Schema} {inst blk : Obj} (hb : OctiBlock S inst blk) :
    OctiBlock S inst (assign blk [("extension_type", .str "new-sdo")]) := by
  have h := hb.assign_clean [("extension_type", .str "new-sdo")]
    (by simp [octiKeys, lookupLast]) (by simp [lookupLast]) (Or.inr (by simp [lookupLast]))
  rwa [nonEmptyEntries_of_allNonEmpty] at h
  exact allNonEmpty_assign _ _ hb.nonEmpty (by intro kv hkv; simp at hkv; subst hkv; simp [isEmptyField])

theorem OctiBlock.cleanObject_assign {S : Schema} {inst blk out : Obj} (hb : OctiBlock S inst blk)
    (extra : Obj) (h : cleanObject (assign blk extra) = .ok out)
    (h1 : ∀ k ∈ octiKeys, lookupLast extra k = none)
    (h2 : lookupLast extra "extensions" = none)
    (h3 : lookupLast extra "extension_type" = none ∨
      lookupLast extra "extension_type" = some (.str "new-sdo")) :
    OctiBlock S inst out := by
  rw [cleanObject_noext _ (by rw [hasProp_assign, hb.noExt, h2]; rfl)] at h
  injection h with h
  subst h
  exact hb.assign_clean extra h1 h2 h3

theorem cleanObject_eq_of_noext {data out : Obj} (h : cleanObject data = .ok out)
    (hd : hasProp data "extensions" = false) : out = nonEmptyEntries data := by
  rw [cleanObject_noext _ hd] at h
  injection h with h
  exact h.symm

theorem cleanObject_allNonEmpty_of_noext {data out : Obj} (h : cleanObject data = .ok out)
    (hd : hasProp data "extensions" = false) : AllNonEmpty out := by
  rw [cleanObject_eq_of_noext h hd]
  exact nonEmptyEntries_allNonEmpty _

theorem buildOCTIExtensions_block {S : Schema} {inst octi : Obj}
    (h : buildOCTIExtensions S inst = .ok octi) : OctiBlock S inst octi := by
  have h0 := h
  simp only [buildOCTIExtensions, bind_eq_ok] at h
  obtain ⟨files, _, ids, _, flag, _, hc⟩ := h
  have hc := cleanObject_eq_of_noext hc rfl
  subst hc
  refine ⟨nodup_nonEmptyEntries _ (by simp [NoDupKeys, keys]), nonEmptyEntries_allNonEmpty _, ?_,
    ⟨_, h0, fun _ _ => rfl⟩, ?_⟩
  · rw [hasProp_eq_false_iff]
    intro hm
    have := (keys_nonEmptyEntries_sublist _).subset hm
    simp [keys] at this
  · left
    rw [getProp_nonEmptyEntries _ (by simp [NoDupKeys, keys])]
    simp [getProp, isEmptyField]

theorem OctiBlock.cleanBlock {S : Schema} {inst blk : Obj} (hb : OctiBlock S inst blk) :
    CleanBlock blk := ⟨hb.nonEmpty, hb.noExt⟩

theorem CleanBlock.nil : CleanBlock [] := ⟨by intro kv h; simp at h, rfl⟩

theorem CleanBlock.of_cleanObject {data out : Obj} (h : cleanObject data = .ok out)
    (hd : hasProp data "extensions" = false) : CleanBlock out := by
  refine ⟨cleanObject_allNonEmpty_of_noext h hd, ?_⟩
  rw [cleanObject_eq_of_noext h hd, hasProp_eq_false_iff]
  intro hm
  have := (keys_nonEmptyEntries_sublist _).subset hm
  rw [← hasProp_eq_true_iff, hd] at this
  simp at this

theorem CleanBlock.of_cleanObject_assign {b extra out : Obj} (hb : CleanBlock b)
    (h : cleanObject (assign b extra) = .ok out) (he : lookupLast extra "extensions" = none) :
    CleanBlock out :=
  CleanBlock.of_cleanObject h (by rw [hasProp_assign, hb.2, he]; rfl)

theorem CleanBlock.newsco : CleanBlock [("extension_type", .str "new-sco")] := by
  refine ⟨?_, rfl⟩
  intro kv h
  simp only [List.mem_singleton] at h
  subst h
  simp [isEmptyField]

theorem ExtsOK.single {S : Schema} {inst blk : Obj} (hb : OctiBlock S inst blk) :
    ExtsOK S inst (mkObj [(S.STIX_EXT_OCTI, .obj blk)]) := by
  refine ⟨nodup_mkObj _, ⟨blk, ?_, hb⟩, ?_⟩
  · simp [getProp_mkObj, lookupLast]
  · intro e he
    have := mem_mkObj _ _ he
    simp only [List.mem_singleton] at this
    subst this
    exact ⟨blk, rfl, hb.cleanBlock⟩

theorem ExtsOK.pair {S : Schema} {inst blk b : Obj} {k2 : String} (hb : OctiBlock S inst blk)
    (h2 : CleanBlock b) (hk : S.STIX_EXT_OCTI ≠ k2) :
    ExtsOK S inst (mkObj [(S.STIX_EXT_OCTI, .obj blk), (k2, .obj b)]) := by
  refine ⟨nodup_mkObj _, ⟨blk, ?_, hb⟩, ?_⟩
  · have hk' : ¬ k2 = S.STIX_EXT_OCTI := fun e => hk e.symm
    simp [getProp_mkObj, lookupLast, hk']
  · intro e he
    have := mem_mkObj _ _ he
    simp only [List.mem_cons, List.mem_singleton, List.not_mem_nil, or_false] at this
    rcases this with rfl | rfl
    · exact ⟨blk, rfl, hb.cleanBlock⟩
    · exact ⟨b, rfl, h2⟩

theorem ExtsOK.assign_block {S : Schema} {inst exts b : Obj} {k2 : String}
    (he : ExtsOK S inst exts) (h2 : CleanBlock b) (hk : S.STIX_EXT_OCTI ≠ k2) :
    ExtsOK S inst (assign exts [(k2, .obj b)]) := by
  obtain ⟨blk, hg, hb⟩ := he.octi
  refine ⟨nodup_assign _ _ he.nodup, ⟨blk, ?_, hb⟩, ?_⟩
  · have hk' : ¬ k2 = S.STIX_EXT_OCTI := fun e => hk e.symm
    simp [getProp_assign, lookupLast, hk', hg]
  · intro e hm
    rcases mem_assign _ _ _ hm with h | h
    · simp only [List.mem_singleton] at h
      subst h
      exact ⟨b, rfl, h2⟩
    · exact he.blocks e h

theorem ExtsOK.spread_block {S : Schema} {inst exts : Obj} (he : ExtsOK S inst exts) (k : String) :
    CleanBlock (spread (getProp exts k)) := by
  by_cases hk : k ∈ keys exts
  · obtain ⟨b, hb, hB⟩ := he.blocks _ (getProp_mem exts k hk)
    simp only at hb
    rw [hb]
    exact hB
  · rw [getProp_of_not_mem exts k hk]
    exact CleanBlock.nil

theorem buildMITREExtensions_cleanBlock {inst mitre : Obj}
    (h : buildMITREExtensions inst = .ok mitre) : CleanBlock mitre :=
  CleanBlock.of_cleanObject h rfl

theorem bind_post {α β : Type} {x : Except Err α} {f : α → Except Err β} {Q : β → Prop}
    (h : ∀ a, x = .ok a → ∀ b, f a = .ok b → Q b) : ∀ b, (x >>= f) = .ok b → Q b := by
  intro b hb
  obtain ⟨a, ha, hf⟩ := (bind_eq_ok x f b).1 hb
  exact h a ha b hf

theorem ite_post {β : Type} {c : Prop} [Decidable c] {x y : Except Err β} {Q : β → Prop}
    (h1 : c → ∀ b, x = .ok b → Q b) (h2 : ¬ c → ∀ b, y = .ok b → Q b) :
    ∀ b, (if c then x else y) = .ok b → Q b := by
  intro b hb
  split at hb
  · exact h1 ‹_› b hb
  · exact h2 ‹_› b hb

theorem throw_bind_post {α β : Type} {e : Err} {f : α → Except Err β} {Q : β → Prop} :
    ∀ b, ((throw e : Except Err α) >>= f) = .ok b → Q b := by
  intro b hb
  obtain ⟨a, ha, _⟩ := (bind_eq_ok _ f b).1 hb
  exact absurd ha (throw_ne_ok _ _)

theorem Projected.block {S : Schema} {inst o : Obj} (hp : Projected S inst o) :
    ∃ exts blk, extensionsOf o = exts ∧ ExtsOK S inst exts ∧
      getProp exts S.STIX_EXT_OCTI = .obj blk ∧ OctiBlock S inst blk := by
  obtain ⟨exts, hg, he⟩ := hp.exts
  obtain ⟨blk, hb, hB⟩ := he.octi
  exact ⟨exts, blk, by simp [extensionsOf, hg, spread], he, hb, hB⟩

theorem Envelope.assign_envelope {S : Schema} {inst base : Obj} (hp : Envelope S inst base)
    (fields : Obj) (h1 : lookupLast fields "id" = none)
    (h2 : lookupLast fields "spec_version" = none) (h3 : lookupLast fields "type" = none) :
    Envelope S inst (assign base fields) := by
  refine ⟨nodup_assign _ _ hp.nodup, ?_, ?_, ?_⟩
  · rw [getProp_assign, h1]; exact hp.id
  · rw [getProp_assign, h2]; exact hp.spec_version
  · obtain ⟨t, ht, hty⟩ := hp.type
    exact ⟨t, ht, by rw [getProp_assign, h3]; exact hty⟩

theorem Projected.assign_projected {S : Schema} {inst base : Obj} (hp : Projected S inst base)
    (fields : Obj) (h1 : lookupLast fields "id" = none)
    (h2 : lookupLast fields "spec_version" = none) (h3 : lookupLast fields "type" = none)
    (h4 : lookupLast fields "extensions" = none ∨
      ∃ exts, lookupLast fields "extensions" = some (.obj exts) ∧ ExtsOK S inst exts) :
    Projected S inst (assign base fields) := by
  refine ⟨hp.env.assign_envelope fields h1 h2 h3, ?_⟩
  · rcases h4 with h4 | ⟨exts, h4, he⟩
    · obtain ⟨exts, hg, he⟩ := hp.exts
      exact ⟨exts, by rw [getProp_assign, h4]; exact hg, he⟩
    · exact ⟨exts, by rw [getProp_assign, h4]; rfl, he⟩

theorem entityType_eq_ok {inst : Obj} {t : String} (h : entityType inst = .ok t) :
    getProp inst "entity_type" = .str t := by
  unfold entityType at h
  split at h
  · rename_i s hs
    simp only [pure_eq_ok] at h
    rw [hs, h]
  · exact absurd h (throw_ne_ok _ _)

theorem buildStixObject_envelope {S : Schema} {inst o : Obj}
    (h : buildStixObject S inst = .ok o) : Envelope S inst o := by
  simp only [buildStixObject, bind_eq_ok, pure_eq_ok] at h
  obtain ⟨t, ht, octi, ho, rfl⟩ := h
  exact ⟨by simp [NoDupKeys, keys], by simp [getProp], by simp [getProp],
    ⟨t, entityType_eq_ok ht, by simp [getProp]⟩⟩

theorem buildStixObject_projected {S : Schema} {inst o : Obj}
    (h : buildStixObject S inst = .ok o) : Projected S inst o := by
  refine ⟨buildStixObject_envelope h, ?_⟩
  simp only [buildStixObject, bind_eq_ok, pure_eq_ok] at h
  obtain ⟨t, ht, octi, ho, rfl⟩ := h
  exact ⟨mkObj [(S.STIX_EXT_OCTI, .obj octi)], by simp [getProp],
    ExtsOK.single (buildOCTIExtensions_block ho)⟩

theorem buildStixDomain_envelope {S : Schema} {inst o : Obj}
    (h : buildStixDomain S inst = .ok o) : Envelope S inst o := by
  simp only [buildStixDomain, bind_eq_ok, pure_eq_ok] at h
  obtain ⟨base, hb, _, _, _, _, _, _, rfl⟩ := h
  exact (buildStixObject_envelope hb).assign_envelope _ (by simp [lookupLast])
    (by simp [lookupLast]) (by simp [lookupLast])

theorem buildStixMarkings_envelope {S : Schema} {inst o : Obj}
    (h : buildStixMarkings S inst = .ok o) : Envelope S inst o := by
  simp only [buildStixMarkings, bind_eq_ok, pure_eq_ok] at h
  obtain ⟨base, hb, _, _, _, _, rfl⟩ := h
  exact (buildStixObject_envelope hb).assign_envelope _ (by simp [lookupLast])
    (by simp [lookupLast]) (by simp [lookupLast])

theorem buildStixCyberObservable_envelope {S : Schema} {inst o : Obj}
    (h : buildStixCyberObservable S inst = .ok o) : Envelope S inst o := by
  simp only [buildStixCyberObservable, bind_eq_ok, pure_eq_ok] at h
  obtain ⟨base, hb, _, _, _, _, _, _, _, _, sco, hsco, rfl⟩ := h
  exact (buildStixObject_envelope hb).assign_envelope _ (by simp [lookupLast])
    (by simp [lookupLast]) (by simp [lookupLast])

theorem buildStixDomain_projected {S : Schema} {inst o : Obj}
    (h : buildStixDomain S inst = .ok o) : Projected S inst o := by
  simp only [buildStixDomain, bind_eq_ok, pure_eq_ok] at h
  obtain ⟨base, hb, _, _, _, _, _, _, rfl⟩ := h
  exact (buildStixObject_projected hb).assign_projected _ (by simp [lookupLast])
    (by simp [lookupLast]) (by simp [lookupLast]) (Or.inl (by simp [lookupLast]))

theorem buildStixMarkings_projected {S : Schema} {inst o : Obj}
    (h : buildStixMarkings S inst = .ok o) : Projected S inst o := by
  simp only [buildStixMarkings, bind_eq_ok, pure_eq_ok] at h
  obtain ⟨base, hb, _, _, _, _, rfl⟩ := h
  exact (buildStixObject_projected hb).assign_projected _ (by simp [lookupLast])
    (by simp [lookupLast]) (by simp [lookupLast]) (Or.inl (by simp [lookupLast]))

theorem buildStixCyberObservable_projected {S : Schema} {inst o : Obj} (hS : S.ExtKeysDistinct)
    (h : buildStixCyberObservable S inst = .ok o) : Projected S inst o := by
  simp only [buildStixCyberObservable, bind_eq_ok, pure_eq_ok] at h
  obtain ⟨base, hb, _, _, _, _, _, _, _, _, sco, hsco, rfl⟩ := h
  have hp := buildStixObject_projected hb
  obtain ⟨exts, blk, he, hE, hg, hB⟩ := hp.block
  refine hp.assign_projected _ (by simp [lookupLast]) (by simp [lookupLast]) (by simp [lookupLast])
    (Or.inr ⟨_, by simp only [lookupLast]; rfl, ?_⟩)
  rw [he, hg]
  exact ExtsOK.pair hB (CleanBlock.of_cleanObject hsco rfl) hS.1

/-! ## Every projector builds a well-formed object -/

theorem convertIdentityToStix_envelope {S : Schema} {inst : Obj} {t : String} :
    ∀ o, convertIdentityToStix S inst t = .ok o → Envelope S inst o := by
  simp only [convertIdentityToStix]
  refine ite_post (fun _ => throw_bind_post) (fun _ => ?_)
  repeat (refine bind_post ?_; intro _ _)
  intro o h
  rw [pure_eq_ok] at h
  subst h
  exact Envelope.assign_envelope (buildStixDomain_envelope (by assumption)) _ (by simp [lookupLast])
    (by simp [lookupLast]) (by simp [lookupLast])

theorem convertIdentityToStix_projected {S : Schema} {inst : Obj} {t : String} :
    ∀ o, convertIdentityToStix S inst t = .ok o → Projected S inst o := by
  simp only [convertIdentityToStix]
  refine ite_post (fun _ => throw_bind_post) (fun _ => ?_)
  repeat (refine bind_post ?_; intro _ _)
  intro o h
  rw [pure_eq_ok] at h
  subst h
  have hp := buildStixDomain_projected (by assumption)
  obtain ⟨exts, blk, he, hE, hg, hB⟩ := hp.block
  simp only [he, hg, spread] at *
  refine hp.assign_projected _ (by simp [lookupLast]) (by simp [lookupLast]) (by simp [lookupLast])
    (Or.inr ⟨_, by simp only [lookupLast]; rfl, ?_⟩)
  exact ExtsOK.single (hB.cleanObject_assign _ (by assumption) (by simp [octiKeys, lookupLast]) (by simp [lookupLast])
    (Or.inl (by simp [lookupLast])))

theorem convertLocationToStix_envelope {S : Schema} {inst : Obj} {t : String} :
    ∀ o, convertLocationToStix S inst t = .ok o → Envelope S inst o := by
  simp only [convertLocationToStix]
  refine ite_post (fun _ => throw_bind_post) (fun _ => ?_)
  repeat (refine bind_post ?_; intro _ _)
  intro o h
  rw [pure_eq_ok] at h
  subst h
  exact Envelope.assign_envelope (buildStixDomain_envelope (by assumption)) _ (by simp [lookupLast])
    (by simp [lookupLast]) (by simp [lookupLast])

theorem convertLocationToStix_projected {S : Schema} {inst : Obj} {t : String} :
    ∀ o, convertLocationToStix S inst t = .ok o → Projected S inst o := by
  simp only [convertLocationToStix]
  refine ite_post (fun _ => throw_bind_post) (fun _ => ?_)
  repeat (refine bind_post ?_; intro _ _)
  intro o h
  rw [pure_eq_ok] at h
  subst h
  exact Projected.assign_projected (buildStixDomain_projected (by assumption)) _ (by simp [lookupLast])
    (by simp [lookupLast]) (by simp [lookupLast]) (Or.inl (by simp [lookupLast]))

theorem convertIncidentToStix_envelope {S : Schema} {inst : Obj} {t : String} :
    ∀ o, convertIncidentToStix S inst t = .ok o → Envelope S inst o := by
  simp only [convertIncidentToStix]
  repeat (refine bind_post ?_; intro _ _)
  intro o h
  rw [pure_eq_ok] at h
  subst h
  exact Envelope.assign_envelope (buildStixDomain_envelope (by assumption)) _ (by simp [lookupLast])
    (by simp [lookupLast]) (by simp [lookupLast])

theorem convertIncidentToStix_projected {S : Schema} {inst : Obj} {t : String} :
    ∀ o, convertIncidentToStix S inst t = .ok o → Projected S inst o := by
  simp only [convertIncidentToStix]
  repeat (refine bind_post ?_; intro _ _)
  intro o h
  rw [pure_eq_ok] at h
  subst h
  have hp := buildStixDomain_projected (by assumption)
  obtain ⟨exts, blk, he, hE, hg, hB⟩ := hp.block
  simp only [he, hg, spread] at *
  refine hp.assign_projected _ (by simp [lookupLast]) (by simp [lookupLast]) (by simp [lookupLast])
    (Or.inr ⟨_, by simp only [lookupLast]; rfl, ?_⟩)
  exact ExtsOK.single hB.assign_newsdo

theorem convertCampaignToStix_envelope {S : Schema} {inst : Obj} {t : String} :
    ∀ o, convertCampaignToStix S inst t = .ok o → Envelope S inst o := by
  simp only [convertCampaignToStix]
  repeat (refine bind_post ?_; intro _ _)
  intro o h
  rw [pure_eq_ok] at h
  subst h
  exact Envelope.assign_envelope (buildStixDomain_envelope (by assumption)) _ (by simp [lookupLast])
    (by simp [lookupLast]) (by simp [lookupLast])

theorem convertCampaignToStix_projected {S : Schema} {inst : Obj} {t : String} :
    ∀ o, convertCampaignToStix S inst t = .ok o → Projected S inst o := by
  simp only [convertCampaignToStix]
  repeat (refine bind_post ?_; intro _ _)
  intro o h
  rw [pure_eq_ok] at h
  subst h
  exact Projected.assign_projected (buildStixDomain_projected (by assumption)) _ (by simp [lookupLast])
    (by simp [lookupLast]) (by simp [lookupLast]) (Or.inl (by simp [lookupLast]))

theorem convertToolToStix_envelope {S : Schema} {inst : Obj} {t : String} :
    ∀ o, convertToolToStix S inst t = .ok o → Envelope S inst o := by
  simp only [convertToolToStix]
  repeat (refine bind_post ?_; intro _ _)
  intro o h
  rw [pure_eq_ok] at h
  subst h
  exact Envelope.assign_envelope (buildStixDomain_envelope (by assumption)) _ (by simp [lookupLast])
    (by simp [lookupLast]) (by simp [lookupLast])

theorem convertToolToStix_projected {S : Schema} {inst : Obj} {t : String} :
    ∀ o, convertToolToStix S inst t = .ok o → Projected S inst o := by
  simp only [convertToolToStix]
  repeat (refine bind_post ?_; intro _ _)
  intro o h
  rw [pure_eq_ok] at h
  subst h
  exact Projected.assign_projected (buildStixDomain_projected (by assumption)) _ (by simp [lookupLast])
    (by simp [lookupLast]) (by simp [lookupLast]) (Or.inl (by simp [lookupLast]))

theorem convertThreatActorToStix_envelope {S : Schema} {inst : Obj} {t : String} :
    ∀ o, convertThreatActorToStix S inst t = .ok o → Envelope S inst o := by
  simp only [convertThreatActorToStix]
  repeat (refine bind_post ?_; intro _ _)
  intro o h
  rw [pure_eq_ok] at h
  subst h
  exact Envelope.assign_envelope (buildStixDomain_envelope (by assumption)) _ (by simp [lookupLast])
    (by simp [lookupLast]) (by simp [lookupLast])

theorem convertThreatActorToStix_projected {S : Schema} {inst : Obj} {t : String} :
    ∀ o, convertThreatActorToStix S inst t = .ok o → Projected S inst o := by
  simp only [convertThreatActorToStix]
  repeat (refine bind_post ?_; intro _ _)
  intro o h
  rw [pure_eq_ok] at h
  subst h
  exact Projected.assign_projected (buildStixDomain_projected (by assumption)) _ (by simp [lookupLast])
    (by simp [lookupLast]) (by simp [lookupLast]) (Or.inl (by simp [lookupLast]))

theorem convertInfrastructureToStix_envelope {S : Schema} {inst : Obj} {t : String} :
    ∀ o, convertInfrastructureToStix S inst t = .ok o → Envelope S inst o := by
  simp only [convertInfrastructureToStix]
  repeat (refine bind_post ?_; intro _ _)
  intro o h
  rw [pure_eq_ok] at h
  subst h
  exact Envelope.assign_envelope (buildStixDomain_envelope (by assumption)) _ (by simp [lookupLast])
    (by simp [lookupLast]) (by simp [lookupLast])

theorem convertInfrastructureToStix_projected {S : Schema} {inst : Obj} {t : String} :
    ∀ o, convertInfrastructureToStix S inst t = .ok o → Projected S inst o := by
  simp only [convertInfrastructureToStix]
  repeat (refine bind_post ?_; intro _ _)
  intro o h
  rw [pure_eq_ok] at h
  subst h
  exact Projected.assign_projected (buildStixDomain_projected (by assumption)) _ (by simp [lookupLast])
    (by simp [lookupLast]) (by simp [lookupLast]) (Or.inl (by simp [lookupLast]))

theorem convertIntrusionSetToStix_envelope {S : Schema} {inst : Obj} {t : String} :
    ∀ o, convertIntrusionSetToStix S inst t = .ok o → Envelope S inst o := by
  simp only [convertIntrusionSetToStix]
  repeat (refine bind_post ?_; intro _ _)
  intro o h
  rw [pure_eq_ok] at h
  subst h
  exact Envelope.assign_envelope (buildStixDomain_envelope (by assumption)) _ (by simp [lookupLast])
    (by simp [lookupLast]) (by simp [lookupLast])

theorem convertIntrusionSetToStix_projected {S : Schema} {inst : Obj} {t : String} :
    ∀ o, convertIntrusionSetToStix S inst t = .ok o → Projected S inst o := by
  simp only [convertIntrusionSetToStix]
  repeat (refine bind_post ?_; intro _ _)
  intro o h
  rw [pure_eq_ok] at h
  subst h
  exact Projected.assign_projected (buildStixDomain_projected (by assumption)) _ (by simp [lookupLast])
    (by simp [lookupLast]) (by simp [lookupLast]) (Or.inl (by simp [lookupLast]))

theorem convertMalwareToStix_envelope {S : Schema} {inst : Obj} {t : String} :
    ∀ o, convertMalwareToStix S inst t = .ok o → Envelope S inst o := by
  simp only [convertMalwareToStix]
  repeat (refine bind_post ?_; intro _ _)
  intro o h
  rw [pure_eq_ok] at h
  subst h
  exact Envelope.assign_envelope (buildStixDomain_envelope (by assumption)) _ (by simp [lookupLast])
    (by simp [lookupLast]) (by simp [lookupLast])

theorem convertMalwareToStix_projected {S : Schema} {inst : Obj} {t : String} :
    ∀ o, convertMalwareToStix S inst t = .ok o → Projected S inst o := by
  simp only [convertMalwareToStix]
  repeat (refine bind_post ?_; intro _ _)
  intro o h
  rw [pure_eq_ok] at h
  subst h
  exact Projected.assign_projected (buildStixDomain_projected (by assumption)) _ (by simp [lookupLast])
    (by simp [lookupLast]) (by simp [lookupLast]) (Or.inl (by simp [lookupLast]))

theorem convertReportToStix_envelope {S : Schema} {inst : Obj} {t : String} :
    ∀ o, convertReportToStix S inst t = .ok o → Envelope S inst o := by
  simp only [convertReportToStix]
  repeat (refine bind_post ?_; intro _ _)
  intro o h
  rw [pure_eq_ok] at h
  subst h
  exact Envelope.assign_envelope (buildStixDomain_envelope (by assumption)) _ (by simp [lookupLast])
    (by simp [lookupLast]) (by simp [lookupLast])

theorem convertReportToStix_projected {S : Schema} {inst : Obj} {t : String} :
    ∀ o, convertReportToStix S inst t = .ok o → Projected S inst o := by
  simp only [convertReportToStix]
  repeat (refine bind_post ?_; intro _ _)
  intro o h
  rw [pure_eq_ok] at h
  subst h
  exact Projected.assign_projected (buildStixDomain_projected (by assumption)) _ (by simp [lookupLast])
    (by simp [lookupLast]) (by simp [lookupLast]) (Or.inl (by simp [lookupLast]))

theorem convertNoteToStix_envelope {S : Schema} {inst : Obj} {t : String} :
    ∀ o, convertNoteToStix S inst t = .ok o → Envelope S inst o := by
  simp only [convertNoteToStix]
  repeat (refine bind_post ?_; intro _ _)
  intro o h
  rw [pure_eq_ok] at h
  subst h
  exact Envelope.assign_envelope (buildStixDomain_envelope (by assumption)) _ (by simp [lookupLast])
    (by simp [lookupLast]) (by simp [lookupLast])

theorem convertNoteToStix_projected {S : Schema} {inst : Obj} {t : String} :
    ∀ o, convertNoteToStix S inst t = .ok o → Projected S inst o := by
  simp only [convertNoteToStix]
  repeat (refine bind_post ?_; intro _ _)
  intro o h
  rw [pure_eq_ok] at h
  subst h
  exact Projected.assign_projected (buildStixDomain_projected (by assumption)) _ (by simp [lookupLast])
    (by simp [lookupLast]) (by simp [lookupLast]) (Or.inl (by simp [lookupLast]))

theorem convertObservedDateToStix_envelope {S : Schema} {inst : Obj} {t : String} :
    ∀ o, convertObservedDateToStix S inst t = .ok o → Envelope S inst o := by
  simp only [convertObservedDateToStix]
  repeat (refine bind_post ?_; intro _ _)
  intro o h
  rw [pure_eq_ok] at h
  subst h
  exact Envelope.assign_envelope (buildStixDomain_envelope (by assumption)) _ (by simp [lookupLast])
    (by simp [lookupLast]) (by simp [lookupLast])

theorem convertObservedDateToStix_projected {S : Schema} {inst : Obj} {t : String} :
    ∀ o, convertObservedDateToStix S inst t = .ok o → Projected S inst o := by
  simp only [convertObservedDateToStix]
  repeat (refine bind_post ?_; intro _ _)
  intro o h
  rw [pure_eq_ok] at h
  subst h
  exact Projected.assign_projected (buildStixDomain_projected (by assumption)) _ (by simp [lookupLast])
    (by simp [lookupLast]) (by simp [lookupLast]) (Or.inl (by simp [lookupLast]))

theorem convertOpinionToStix_envelope {S : Schema} {inst : Obj} {t : String} :
    ∀ o, convertOpinionToStix S inst t = .ok o → Envelope S inst o := by
  simp only [convertOpinionToStix]
  repeat (refine bind_post ?_; intro _ _)
  intro o h
  rw [pure_eq_ok] at h
  subst h
  exact Envelope.assign_envelope (buildStixDomain_envelope (by assumption)) _ (by simp [lookupLast])
    (by simp [lookupLast]) (by simp [lookupLast])

theorem convertOpinionToStix_projected {S : Schema} {inst : Obj} {t : String} :
    ∀ o, convertOpinionToStix S inst t = .ok o → Projected S inst o := by
  simp only [convertOpinionToStix]
  repeat (refine bind_post ?_; intro _ _)
  intro o h
  rw [pure_eq_ok] at h
  subst h
  exact Projected.assign_projected (buildStixDomain_projected (by assumption)) _ (by simp [lookupLast])
    (by simp [lookupLast]) (by simp [lookupLast]) (Or.inl (by simp [lookupLast]))

theorem convertVulnerabilityToStix_envelope {S : Schema} {inst : Obj} {t : String} :
    ∀ o, convertVulnerabilityToStix S inst t = .ok o → Envelope S inst o := by
  simp only [convertVulnerabilityToStix]
  repeat (refine bind_post ?_; intro _ _)
  intro o h
  rw [pure_eq_ok] at h
  subst h
  exact Envelope.assign_envelope (buildStixDomain_envelope (by assumption)) _ (by simp [lookupLast])
    (by simp [lookupLast]) (by simp [lookupLast])

theorem convertVulnerabilityToStix_projected {S : Schema} {inst : Obj} {t : String} :
    ∀ o, convertVulnerabilityToStix S inst t = .ok o → Projected S inst o := by
  simp only [convertVulnerabilityToStix]
  repeat (refine bind_post ?_; intro _ _)
  intro o h
  rw [pure_eq_ok] at h
  subst h
  have hp := buildStixDomain_projected (by assumption)
  obtain ⟨exts, blk, he, hE, hg, hB⟩ := hp.block
  simp only [he, hg, spread] at *
  refine hp.assign_projected _ (by simp [lookupLast]) (by simp [lookupLast]) (by simp [lookupLast])
    (Or.inr ⟨_, by simp only [lookupLast]; rfl, ?_⟩)
  exact ExtsOK.single (hB.cleanObject_assign _ (by assumption) (by simp [octiKeys, lookupLast]) (by simp [lookupLast])
    (Or.inl (by simp [lookupLast])))

theorem convertIndicatorToStix_envelope {S : Schema} {inst : Obj} {t : String} :
    ∀ o, convertIndicatorToStix S inst t = .ok o → Envelope S inst o := by
  simp only [convertIndicatorToStix]
  repeat (refine bind_post ?_; intro _ _)
  intro o h
  rw [pure_eq_ok] at h
  subst h
  exact Envelope.assign_envelope (buildStixDomain_envelope (by assumption)) _ (by simp [lookupLast])
    (by simp [lookupLast]) (by simp [lookupLast])

theorem convertIndicatorToStix_projected {S : Schema} {inst : Obj} {t : String} (hS : S.ExtKeysDistinct) :
    ∀ o, convertIndicatorToStix S inst t = .ok o → Projected S inst o := by
  simp only [convertIndicatorToStix]
  repeat (refine bind_post ?_; intro _ _)
  intro o h
  rw [pure_eq_ok] at h
  subst h
  have hp := buildStixDomain_projected (by assumption)
  obtain ⟨exts, blk, he, hE, hg, hB⟩ := hp.block
  simp only [he, hg, spread] at *
  refine hp.assign_projected _ (by simp [lookupLast]) (by simp [lookupLast]) (by simp [lookupLast])
    (Or.inr ⟨_, by simp only [lookupLast]; rfl, ?_⟩)
  exact ExtsOK.pair (hB.cleanObject_assign _ (by assumption) (by simp [octiKeys, lookupLast]) (by simp [lookupLast])
    (Or.inl (by simp [lookupLast])))
    (buildMITREExtensions_cleanBlock (by assumption)) hS.2.1

theorem convertCourseOfActionToStix_envelope {S : Schema} {inst : Obj} {t : String} :
    ∀ o, convertCourseOfActionToStix S inst t = .ok o → Envelope S inst o := by
  simp only [convertCourseOfActionToStix]
  repeat (refine bind_post ?_; intro _ _)
  intro o h
  rw [pure_eq_ok] at h
  subst h
  exact Envelope.assign_envelope (buildStixDomain_envelope (by assumption)) _ (by simp [lookupLast])
    (by simp [lookupLast]) (by simp [lookupLast])

theorem convertCourseOfActionToStix_projected {S : Schema} {inst : Obj} {t : String} (hS : S.ExtKeysDistinct) :
    ∀ o, convertCourseOfActionToStix S inst t = .ok o → Projected S inst o := by
  simp only [convertCourseOfActionToStix]
  repeat (refine bind_post ?_; intro _ _)
  intro o h
  rw [pure_eq_ok] at h
  subst h
  have hp := buildStixDomain_projected (by assumption)
  obtain ⟨exts, blk, he, hE, hg, hB⟩ := hp.block
  simp only [he, hg, spread] at *
  refine hp.assign_projected _ (by simp [lookupLast]) (by simp [lookupLast]) (by simp [lookupLast])
    (Or.inr ⟨_, by simp only [lookupLast]; rfl, ?_⟩)
  exact ExtsOK.pair (buildOCTIExtensions_block (by assumption))
    (buildMITREExtensions_cleanBlock (by assumption)) hS.2.1

theorem convertAttackPatternToStix_envelope {S : Schema} {inst : Obj} {t : String} :
    ∀ o, convertAttackPatternToStix S inst t = .ok o → Envelope S inst o := by
  simp only [convertAttackPatternToStix]
  repeat (refine bind_post ?_; intro _ _)
  intro o h
  rw [pure_eq_ok] at h
  subst h
  exact Envelope.assign_envelope (buildStixDomain_envelope (by assumption)) _ (by simp [lookupLast])
    (by simp [lookupLast]) (by simp [lookupLast])

theorem convertAttackPatternToStix_projected {S : Schema} {inst : Obj} {t : String} (hS : S.ExtKeysDistinct) :
    ∀ o, convertAttackPatternToStix S inst t = .ok o → Projected S inst o := by
  simp only [convertAttackPatternToStix]
  repeat (refine bind_post ?_; intro _ _)
  intro o h
  rw [pure_eq_ok] at h
  subst h
  have hp := buildStixDomain_projected (by assumption)
  obtain ⟨exts, blk, he, hE, hg, hB⟩ := hp.block
  simp only [he, hg, spread] at *
  refine hp.assign_projected _ (by simp [lookupLast]) (by simp [lookupLast]) (by simp [lookupLast])
    (Or.inr ⟨_, by simp only [lookupLast]; rfl, ?_⟩)
  exact ExtsOK.pair (buildOCTIExtensions_block (by assumption))
    (buildMITREExtensions_cleanBlock (by assumption)) hS.2.1

theorem convertAutonomousSystemToStix_envelope {S : Schema} {inst : Obj} {t : String} :
    ∀ o, convertAutonomousSystemToStix S inst t = .ok o → Envelope S inst o := by
  simp only [convertAutonomousSystemToStix]
  repeat (refine bind_post ?_; intro _ _)
  intro o h
  rw [pure_eq_ok] at h
  subst h
  exact Envelope.assign_envelope (buildStixCyberObservable_envelope (by assumption)) _ (by simp [lookupLast])
    (by simp [lookupLast]) (by simp [lookupLast])

theorem convertAutonomousSystemToStix_projected {S : Schema} {inst : Obj} {t : String} (hS : S.ExtKeysDistinct) :
    ∀ o, convertAutonomousSystemToStix S inst t = .ok o → Projected S inst o := by
  simp only [convertAutonomousSystemToStix]
  repeat (refine bind_post ?_; intro _ _)
  intro o h
  rw [pure_eq_ok] at h
  subst h
  exact Projected.assign_projected (buildStixCyberObservable_projected hS (by assumption)) _ (by simp [lookupLast])
    (by simp [lookupLast]) (by simp [lookupLast]) (Or.inl (by simp [lookupLast]))

theorem convertDirectoryToStix_envelope {S : Schema} {inst : Obj} {t : String} :
    ∀ o, convertDirectoryToStix S inst t = .ok o → Envelope S inst o := by
  simp only [convertDirectoryToStix]
  repeat (refine bind_post ?_; intro _ _)
  intro o h
  rw [pure_eq_ok] at h
  subst h
  exact Envelope.assign_envelope (buildStixCyberObservable_envelope (by assumption)) _ (by simp [lookupLast])
    (by simp [lookupLast]) (by simp [lookupLast])

theorem convertDirectoryToStix_projected {S : Schema} {inst : Obj} {t : String} (hS : S.ExtKeysDistinct) :
    ∀ o, convertDirectoryToStix S inst t = .ok o → Projected S inst o := by
  simp only [convertDirectoryToStix]
  repeat (refine bind_post ?_; intro _ _)
  intro o h
  rw [pure_eq_ok] at h
  subst h
  exact Projected.assign_projected (buildStixCyberObservable_projected hS (by assumption)) _ (by simp [lookupLast])
    (by simp [lookupLast]) (by simp [lookupLast]) (Or.inl (by simp [lookupLast]))

theorem convertDomainNameToStix_envelope {S : Schema} {inst : Obj} {t : String} :
    ∀ o, convertDomainNameToStix S inst t = .ok o → Envelope S inst o := by
  simp only [convertDomainNameToStix]
  repeat (refine bind_post ?_; intro _ _)
  intro o h
  rw [pure_eq_ok] at h
  subst h
  exact Envelope.assign_envelope (buildStixCyberObservable_envelope (by assumption)) _ (by simp [lookupLast])
    (by simp [lookupLast]) (by simp [lookupLast])

theorem convertDomainNameToStix_projected {S : Schema} {inst : Obj} {t : String} (hS : S.ExtKeysDistinct) :
    ∀ o, convertDomainNameToStix S inst t = .ok o → Projected S inst o := by
  simp only [convertDomainNameToStix]
  repeat (refine bind_post ?_; intro _ _)
  intro o h
  rw [pure_eq_ok] at h
  subst h
  exact Projected.assign_projected (buildStixCyberObservable_projected hS (by assumption)) _ (by simp [lookupLast])
    (by simp [lookupLast]) (by simp [lookupLast]) (Or.inl (by simp [lookupLast]))

theorem convertEmailAddressToStix_envelope {S : Schema} {inst : Obj} {t : String} :
    ∀ o, convertEmailAddressToStix S inst t = .ok o → Envelope S inst o := by
  simp only [convertEmailAddressToStix]
  repeat (refine bind_post ?_; intro _ _)
  intro o h
  rw [pure_eq_ok] at h
  subst h
  exact Envelope.assign_envelope (buildStixCyberObservable_envelope (by assumption)) _ (by simp [lookupLast])
    (by simp [lookupLast]) (by simp [lookupLast])

theorem convertEmailAddressToStix_projected {S : Schema} {inst : Obj} {t : String} (hS : S.ExtKeysDistinct) :
    ∀ o, convertEmailAddressToStix S inst t = .ok o → Projected S inst o := by
  simp only [convertEmailAddressToStix]
  repeat (refine bind_post ?_; intro _ _)
  intro o h
  rw [pure_eq_ok] at h
  subst h
  exact Projected.assign_projected (buildStixCyberObservable_projected hS (by assumption)) _ (by simp [lookupLast])
    (by simp [lookupLast]) (by simp [lookupLast]) (Or.inl (by simp [lookupLast]))

theorem convertEmailMessageToStix_envelope {S : Schema} {inst : Obj} {t : String} :
    ∀ o, convertEmailMessageToStix S inst t = .ok o → Envelope S inst o := by
  simp only [convertEmailMessageToStix]
  repeat (refine bind_post ?_; intro _ _)
  intro o h
  rw [pure_eq_ok] at h
  subst h
  exact Envelope.assign_envelope (buildStixCyberObservable_envelope (by assumption)) _ (by simp [lookupLast])
    (by simp [lookupLast]) (by simp [lookupLast])

theorem convertEmailMessageToStix_projected {S : Schema} {inst : Obj} {t : String} (hS : S.ExtKeysDistinct) :
    ∀ o, convertEmailMessageToStix S inst t = .ok o → Projected S inst o := by
  simp only [convertEmailMessageToStix]
  repeat (refine bind_post ?_; intro _ _)
  intro o h
  rw [pure_eq_ok] at h
  subst h
  exact Projected.assign_projected (buildStixCyberObservable_projected hS (by assumption)) _ (by simp [lookupLast])
    (by simp [lookupLast]) (by simp [lookupLast]) (Or.inl (by simp [lookupLast]))

theorem convertIPv4AddressToStix_envelope {S : Schema} {inst : Obj} {t : String} :
    ∀ o, convertIPv4AddressToStix S inst t = .ok o → Envelope S inst o := by
  simp only [convertIPv4AddressToStix]
  repeat (refine bind_post ?_; intro _ _)
  intro o h
  rw [pure_eq_ok] at h
  subst h
  exact Envelope.assign_envelope (buildStixCyberObservable_envelope (by assumption)) _ (by simp [lookupLast])
    (by simp [lookupLast]) (by simp [lookupLast])

theorem convertIPv4AddressToStix_projected {S : Schema} {inst : Obj} {t : String} (hS : S.ExtKeysDistinct) :
    ∀ o, convertIPv4AddressToStix S inst t = .ok o → Projected S inst o := by
  simp only [convertIPv4AddressToStix]
  repeat (refine bind_post ?_; intro _ _)
  intro o h
  rw [pure_eq_ok] at h
  subst h
  exact Projected.assign_projected (buildStixCyberObservable_projected hS (by assumption)) _ (by simp [lookupLast])
    (by simp [lookupLast]) (by simp [lookupLast]) (Or.inl (by simp [lookupLast]))

theorem convertIPv6AddressToStix_envelope {S : Schema} {inst : Obj} {t : String} :
    ∀ o, convertIPv6AddressToStix S inst t = .ok o → Envelope S inst o := by
  simp only [convertIPv6AddressToStix]
  repeat (refine bind_post ?_; intro _ _)
  intro o h
  rw [pure_eq_ok] at h
  subst h
  exact Envelope.assign_envelope (buildStixCyberObservable_envelope (by assumption)) _ (by simp [lookupLast])
    (by simp [lookupLast]) (by simp [lookupLast])

theorem convertIPv6AddressToStix_projected {S : Schema} {inst : Obj} {t : String} (hS : S.ExtKeysDistinct) :
    ∀ o, convertIPv6AddressToStix S inst t = .ok o → Projected S inst o := by
  simp only [convertIPv6AddressToStix]
  repeat (refine bind_post ?_; intro _ _)
  intro o h
  rw [pure_eq_ok] at h
  subst h
  exact Projected.assign_projected (buildStixCyberObservable_projected hS (by assumption)) _ (by simp [lookupLast])
    (by simp [lookupLast]) (by simp [lookupLast]) (Or.inl (by simp [lookupLast]))

theorem convertMacAddressToStix_envelope {S : Schema} {inst : Obj} {t : String} :
    ∀ o, convertMacAddressToStix S inst t = .ok o → Envelope S inst o := by
  simp only [convertMacAddressToStix]
  repeat (refine bind_post ?_; intro _ _)
  intro o h
  rw [pure_eq_ok] at h
  subst h
  exact Envelope.assign_envelope (buildStixCyberObservable_envelope (by assumption)) _ (by simp [lookupLast])
    (by simp [lookupLast]) (by simp [lookupLast])

theorem convertMacAddressToStix_projected {S : Schema} {inst : Obj} {t : String} (hS : S.ExtKeysDistinct) :
    ∀ o, convertMacAddressToStix S inst t = .ok o → Projected S inst o := by
  simp only [convertMacAddressToStix]
  repeat (refine bind_post ?_; intro _ _)
  intro o h
  rw [pure_eq_ok] at h
  subst h
  exact Projected.assign_projected (buildStixCyberObservable_projected hS (by assumption)) _ (by simp [lookupLast])
    (by simp [lookupLast]) (by simp [lookupLast]) (Or.inl (by simp [lookupLast]))

theorem convertMutexToStix_envelope {S : Schema} {inst : Obj} {t : String} :
    ∀ o, convertMutexToStix S inst t = .ok o → Envelope S inst o := by
  simp only [convertMutexToStix]
  repeat (refine bind_post ?_; intro _ _)
  intro o h
  rw [pure_eq_ok] at h
  subst h
  exact Envelope.assign_envelope (buildStixCyberObservable_envelope (by assumption)) _ (by simp [lookupLast])
    (by simp [lookupLast]) (by simp [lookupLast])

theorem convertMutexToStix_projected {S : Schema} {inst : Obj} {t : String} (hS : S.ExtKeysDistinct) :
    ∀ o, convertMutexToStix S inst t = .ok o → Projected S inst o := by
  simp only [convertMutexToStix]
  repeat (refine bind_post ?_; intro _ _)
  intro o h
  rw [pure_eq_ok] at h
  subst h
  exact Projected.assign_projected (buildStixCyberObservable_projected hS (by assumption)) _ (by simp [lookupLast])
    (by simp [lookupLast]) (by simp [lookupLast]) (Or.inl (by simp [lookupLast]))

theorem convertNetworkTrafficToStix_envelope {S : Schema} {inst : Obj} {t : String} :
    ∀ o, convertNetworkTrafficToStix S inst t = .ok o → Envelope S inst o := by
  simp only [convertNetworkTrafficToStix]
  repeat (refine bind_post ?_; intro _ _)
  intro o h
  rw [pure_eq_ok] at h
  subst h
  exact Envelope.assign_envelope (buildStixCyberObservable_envelope (by assumption)) _ (by simp [lookupLast])
    (by simp [lookupLast]) (by simp [lookupLast])

theorem convertNetworkTrafficToStix_projected {S : Schema} {inst : Obj} {t : String} (hS : S.ExtKeysDistinct) :
    ∀ o, convertNetworkTrafficToStix S inst t = .ok o → Projected S inst o := by
  simp only [convertNetworkTrafficToStix]
  repeat (refine bind_post ?_; intro _ _)
  intro o h
  rw [pure_eq_ok] at h
  subst h
  exact Projected.assign_projected (buildStixCyberObservable_projected hS (by assumption)) _ (by simp [lookupLast])
    (by simp [lookupLast]) (by simp [lookupLast]) (Or.inl (by simp [lookupLast]))

theorem convertProcessToStix_envelope {S : Schema} {inst : Obj} {t : String} :
    ∀ o, convertProcessToStix S inst t = .ok o → Envelope S inst o := by
  simp only [convertProcessToStix]
  repeat (refine bind_post ?_; intro _ _)
  intro o h
  rw [pure_eq_ok] at h
  subst h
  exact Envelope.assign_envelope (buildStixCyberObservable_envelope (by assumption)) _ (by simp [lookupLast])
    (by simp [lookupLast]) (by simp [lookupLast])

theorem convertProcessToStix_projected {S : Schema} {inst : Obj} {t : String} (hS : S.ExtKeysDistinct) :
    ∀ o, convertProcessToStix S inst t = .ok o → Projected S inst o := by
  simp only [convertProcessToStix]
  repeat (refine bind_post ?_; intro _ _)
  intro o h
  rw [pure_eq_ok] at h
  subst h
  exact Projected.assign_projected (buildStixCyberObservable_projected hS (by assumption)) _ (by simp [lookupLast])
    (by simp [lookupLast]) (by simp [lookupLast]) (Or.inl (by simp [lookupLast]))

theorem convertSoftwareToStix_envelope {S : Schema} {inst : Obj} {t : String} :
    ∀ o, convertSoftwareToStix S inst t = .ok o → Envelope S inst o := by
  simp only [convertSoftwareToStix]
  repeat (refine bind_post ?_; intro _ _)
  intro o h
  rw [pure_eq_ok] at h
  subst h
  exact Envelope.assign_envelope (buildStixCyberObservable_envelope (by assumption)) _ (by simp [lookupLast])
    (by simp [lookupLast]) (by simp [lookupLast])

theorem convertSoftwareToStix_projected {S : Schema} {inst : Obj} {t : String} (hS : S.ExtKeysDistinct) :
    ∀ o, convertSoftwareToStix S inst t = .ok o → Projected S inst o := by
  simp only [convertSoftwareToStix]
  repeat (refine bind_post ?_; intro _ _)
  intro o h
  rw [pure_eq_ok] at h
  subst h
  exact Projected.assign_projected (buildStixCyberObservable_projected hS (by assumption)) _ (by simp [lookupLast])
    (by simp [lookupLast]) (by simp [lookupLast]) (Or.inl (by simp [lookupLast]))

theorem convertURLToStix_envelope {S : Schema} {inst : Obj} {t : String} :
    ∀ o, convertURLToStix S inst t = .ok o → Envelope S inst o := by
  simp only [convertURLToStix]
  repeat (refine bind_post ?_; intro _ _)
  intro o h
  rw [pure_eq_ok] at h
  subst h
  exact Envelope.assign_envelope (buildStixCyberObservable_envelope (by assumption)) _ (by simp [lookupLast])
    (by simp [lookupLast]) (by simp [lookupLast])

theorem convertURLToStix_projected {S : Schema} {inst : Obj} {t : String} (hS : S.ExtKeysDistinct) :
    ∀ o, convertURLToStix S inst t = .ok o → Projected S inst o := by
  simp only [convertURLToStix]
  repeat (refine bind_post ?_; intro _ _)
  intro o h
  rw [pure_eq_ok] at h
  subst h
  exact Projected.assign_projected (buildStixCyberObservable_projected hS (by assumption)) _ (by simp [lookupLast])
    (by simp [lookupLast]) (by simp [lookupLast]) (Or.inl (by simp [lookupLast]))

theorem convertUserAccountToStix_envelope {S : Schema} {inst : Obj} {t : String} :
    ∀ o, convertUserAccountToStix S inst t = .ok o → Envelope S inst o := by
  simp only [convertUserAccountToStix]
  repeat (refine bind_post ?_; intro _ _)
  intro o h
  rw [pure_eq_ok] at h
  subst h
  exact Envelope.assign_envelope (buildStixCyberObservable_envelope (by assumption)) _ (by simp [lookupLast])
    (by simp [lookupLast]) (by simp [lookupLast])

theorem convertUserAccountToStix_projected {S : Schema} {inst : Obj} {t : String} (hS : S.ExtKeysDistinct) :
    ∀ o, convertUserAccountToStix S inst t = .ok o → Projected S inst o := by
  simp only [convertUserAccountToStix]
  repeat (refine bind_post ?_; intro _ _)
  intro o h
  rw [pure_eq_ok] at h
  subst h
  exact Projected.assign_projected (buildStixCyberObservable_projected hS (by assumption)) _ (by simp [lookupLast])
    (by simp [lookupLast]) (by simp [lookupLast]) (Or.inl (by simp [lookupLast]))

theorem convertWindowsRegistryKeyToStix_envelope {S : Schema} {inst : Obj} {t : String} :
    ∀ o, convertWindowsRegistryKeyToStix S inst t = .ok o → Envelope S inst o := by
  simp only [convertWindowsRegistryKeyToStix]
  repeat (refine bind_post ?_; intro _ _)
  intro o h
  rw [pure_eq_ok] at h
  subst h
  exact Envelope.assign_envelope (buildStixCyberObservable_envelope (by assumption)) _ (by simp [lookupLast])
    (by simp [lookupLast]) (by simp [lookupLast])

theorem convertWindowsRegistryKeyToStix_projected {S : Schema} {inst : Obj} {t : String} (hS : S.ExtKeysDistinct) :
    ∀ o, convertWindowsRegistryKeyToStix S inst t = .ok o → Projected S inst o := by
  simp only [convertWindowsRegistryKeyToStix]
  repeat (refine bind_post ?_; intro _ _)
  intro o h
  rw [pure_eq_ok] at h
  subst h
  exact Projected.assign_projected (buildStixCyberObservable_projected hS (by assumption)) _ (by simp [lookupLast])
    (by simp [lookupLast]) (by simp [lookupLast]) (Or.inl (by simp [lookupLast]))

theorem convertX509CertificateToStix_envelope {S : Schema} {inst : Obj} {t : String} :
    ∀ o, convertX509CertificateToStix S inst t = .ok o → Envelope S inst o := by
  simp only [convertX509CertificateToStix]
  repeat (refine bind_post ?_; intro _ _)
  intro o h
  rw [pure_eq_ok] at h
  subst h
  exact Envelope.assign_envelope (buildStixCyberObservable_envelope (by assumption)) _ (by simp [lookupLast])
    (by simp [lookupLast]) (by simp [lookupLast])

theorem convertX509CertificateToStix_projected {S : Schema} {inst : Obj} {t : String} (hS : S.ExtKeysDistinct) :
    ∀ o, convertX509CertificateToStix S inst t = .ok o → Projected S inst o := by
  simp only [convertX509CertificateToStix]
  repeat (refine bind_post ?_; intro _ _)
  intro o h
  rw [pure_eq_ok] at h
  subst h
  exact Projected.assign_projected (buildStixCyberObservable_projected hS (by assumption)) _ (by simp [lookupLast])
    (by simp [lookupLast]) (by simp [lookupLast]) (Or.inl (by simp [lookupLast]))

theorem convertCryptocurrencyWalletToStix_envelope {S : Schema} {inst : Obj} {t : String} :
    ∀ o, convertCryptocurrencyWalletToStix S inst t = .ok o → Envelope S inst o := by
  simp only [convertCryptocurrencyWalletToStix]
  repeat (refine bind_post ?_; intro _ _)
  intro o h
  rw [pure_eq_ok] at h
  subst h
  exact Envelope.assign_envelope (buildStixCyberObservable_envelope (by assumption)) _ (by simp [lookupLast])
    (by simp [lookupLast]) (by simp [lookupLast])

theorem convertCryptocurrencyWalletToStix_projected {S : Schema} {inst : Obj} {t : String} (hS : S.ExtKeysDistinct) :
    ∀ o, convertCryptocurrencyWalletToStix S inst t = .ok o → Projected S inst o := by
  simp only [convertCryptocurrencyWalletToStix]
  repeat (refine bind_post ?_; intro _ _)
  intro o h
  rw [pure_eq_ok] at h
  subst h
  have hp := buildStixCyberObservable_projected hS (by assumption)
  obtain ⟨exts, blk, he, hE, hg, hB⟩ := hp.block
  simp only [he, hg, spread] at *
  refine hp.assign_projected _ (by simp [lookupLast]) (by simp [lookupLast]) (by simp [lookupLast])
    (Or.inr ⟨_, by simp only [lookupLast]; rfl, ?_⟩)
  exact ExtsOK.assign_block hE CleanBlock.newsco hS.1

theorem convertCryptographicKeyToStix_envelope {S : Schema} {inst : Obj} {t : String} :
    ∀ o, convertCryptographicKeyToStix S inst t = .ok o → Envelope S inst o := by
  simp only [convertCryptographicKeyToStix]
  repeat (refine bind_post ?_; intro _ _)
  intro o h
  rw [pure_eq_ok] at h
  subst h
  exact Envelope.assign_envelope (buildStixCyberObservable_envelope (by assumption)) _ (by simp [lookupLast])
    (by simp [lookupLast]) (by simp [lookupLast])

theorem convertCryptographicKeyToStix_projected {S : Schema} {inst : Obj} {t : String} (hS : S.ExtKeysDistinct) :
    ∀ o, convertCryptographicKeyToStix S inst t = .ok o → Projected S inst o := by
  simp only [convertCryptographicKeyToStix]
  repeat (refine bind_post ?_; intro _ _)
  intro o h
  rw [pure_eq_ok] at h
  subst h
  have hp := buildStixCyberObservable_projected hS (by assumption)
  obtain ⟨exts, blk, he, hE, hg, hB⟩ := hp.block
  simp only [he, hg, spread] at *
  refine hp.assign_projected _ (by simp [lookupLast]) (by simp [lookupLast]) (by simp [lookupLast])
    (Or.inr ⟨_, by simp only [lookupLast]; rfl, ?_⟩)
  exact ExtsOK.assign_block hE CleanBlock.newsco hS.1

theorem convertHostnameToStix_envelope {S : Schema} {inst : Obj} {t : String} :
    ∀ o, convertHostnameToStix S inst t = .ok o → Envelope S inst o := by
  simp only [convertHostnameToStix]
  repeat (refine bind_post ?_; intro _ _)
  intro o h
  rw [pure_eq_ok] at h
  subst h
  exact Envelope.assign_envelope (buildStixCyberObservable_envelope (by assumption)) _ (by simp [lookupLast])
    (by simp [lookupLast]) (by simp [lookupLast])

theorem convertHostnameToStix_projected {S : Schema} {inst : Obj} {t : String} (hS : S.ExtKeysDistinct) :
    ∀ o, convertHostnameToStix S inst t = .ok o → Projected S inst o := by
  simp only [convertHostnameToStix]
  repeat (refine bind_post ?_; intro _ _)
  intro o h
  rw [pure_eq_ok] at h
  subst h
  have hp := buildStixCyberObservable_projected hS (by assumption)
  obtain ⟨exts, blk, he, hE, hg, hB⟩ := hp.block
  simp only [he, hg, spread] at *
  refine hp.assign_projected _ (by simp [lookupLast]) (by simp [lookupLast]) (by simp [lookupLast])
    (Or.inr ⟨_, by simp only [lookupLast]; rfl, ?_⟩)
  exact ExtsOK.assign_block hE CleanBlock.newsco hS.1

theorem convertTextToStix_envelope {S : Schema} {inst : Obj} {t : String} :
    ∀ o, convertTextToStix S inst t = .ok o → Envelope S inst o := by
  simp only [convertTextToStix]
  repeat (refine bind_post ?_; intro _ _)
  intro o h
  rw [pure_eq_ok] at h
  subst h
  exact Envelope.assign_envelope (buildStixCyberObservable_envelope (by assumption)) _ (by simp [lookupLast])
    (by simp [lookupLast]) (by simp [lookupLast])

theorem convertTextToStix_projected {S : Schema} {inst : Obj} {t : String} (hS : S.ExtKeysDistinct) :
    ∀ o, convertTextToStix S inst t = .ok o → Projected S inst o := by
  simp only [convertTextToStix]
  repeat (refine bind_post ?_; intro _ _)
  intro o h
  rw [pure_eq_ok] at h
  subst h
  have hp := buildStixCyberObservable_projected hS (by assumption)
  obtain ⟨exts, blk, he, hE, hg, hB⟩ := hp.block
  simp only [he, hg, spread] at *
  refine hp.assign_projected _ (by simp [lookupLast]) (by simp [lookupLast]) (by simp [lookupLast])
    (Or.inr ⟨_, by simp only [lookupLast]; rfl, ?_⟩)
  exact ExtsOK.assign_block hE CleanBlock.newsco hS.1

theorem convertArtifactToStix_envelope {S : Schema} {inst : Obj} {t : String} :
    ∀ o, convertArtifactToStix S inst t = .ok o → Envelope S inst o := by
  simp only [convertArtifactToStix]
  repeat (refine bind_post ?_; intro _ _)
  intro o h
  rw [pure_eq_ok] at h
  subst h
  exact Envelope.assign_envelope (buildStixCyberObservable_envelope (by assumption)) _ (by simp [lookupLast])
    (by simp [lookupLast]) (by simp [lookupLast])

theorem convertArtifactToStix_projected {S : Schema} {inst : Obj} {t : String} (hS : S.ExtKeysDistinct) :
    ∀ o, convertArtifactToStix S inst t = .ok o → Projected S inst o := by
  simp only [convertArtifactToStix]
  repeat (refine bind_post ?_; intro _ _)
  intro o h
  rw [pure_eq_ok] at h
  subst h
  have hp := buildStixCyberObservable_projected hS (by assumption)
  obtain ⟨exts, blk, he, hE, hg, hB⟩ := hp.block
  simp only [he, hg, spread] at *
  refine hp.assign_projected _ (by simp [lookupLast]) (by simp [lookupLast]) (by simp [lookupLast])
    (Or.inr ⟨_, by simp only [lookupLast]; rfl, ?_⟩)
  exact ExtsOK.assign_block hE
    ((hE.spread_block _).of_cleanObject_assign (by assumption) (by simp [lookupLast])) hS.1

theorem convertFileToStix_envelope {S : Schema} {inst : Obj} {t : String} :
    ∀ o, convertFileToStix S inst t = .ok o → Envelope S inst o := by
  simp only [convertFileToStix]
  repeat (refine bind_post ?_; intro _ _)
  intro o h
  rw [pure_eq_ok] at h
  subst h
  exact Envelope.assign_envelope (buildStixCyberObservable_envelope (by assumption)) _ (by simp [lookupLast])
    (by simp [lookupLast]) (by simp [lookupLast])

theorem convertFileToStix_projected {S : Schema} {inst : Obj} {t : String} (hS : S.ExtKeysDistinct) :
    ∀ o, convertFileToStix S inst t = .ok o → Projected S inst o := by
  simp only [convertFileToStix]
  repeat (refine bind_post ?_; intro _ _)
  intro o h
  rw [pure_eq_ok] at h
  subst h
  have hp := buildStixCyberObservable_projected hS (by assumption)
  obtain ⟨exts, blk, he, hE, hg, hB⟩ := hp.block
  simp only [he, hg, spread] at *
  refine hp.assign_projected _ (by simp [lookupLast]) (by simp [lookupLast]) (by simp [lookupLast])
    (Or.inr ⟨_, by simp only [lookupLast]; rfl, ?_⟩)
  exact ExtsOK.assign_block hE
    ((hE.spread_block _).of_cleanObject_assign (by assumption) (by simp [lookupLast])) hS.1

theorem convertRelationToStix_envelope {S : Schema} {inst : Obj} :
    ∀ o, convertRelationToStix S inst = .ok o → Envelope S inst o := by
  simp only [convertRelationToStix, buildStixRelationship]
  repeat (refine bind_post ?_; intro _ _)
  intro o h
  rw [pure_eq_ok] at h
  subst h
  exact Envelope.assign_envelope (buildStixDomain_envelope (by assumption)) _ (by simp [lookupLast])
    (by simp [lookupLast]) (by simp [lookupLast])

theorem convertRelationToStix_projected {S : Schema} {inst : Obj} :
    ∀ o, convertRelationToStix S inst = .ok o → Projected S inst o := by
  simp only [convertRelationToStix, buildStixRelationship]
  repeat (refine bind_post ?_; intro _ _)
  intro o h
  rw [pure_eq_ok] at h
  subst h
  have hp := buildStixDomain_projected (by assumption)
  obtain ⟨exts, blk, he, hE, hg, hB⟩ := hp.block
  simp only [he, hg, spread] at *
  refine hp.assign_projected _ (by simp [lookupLast]) (by simp [lookupLast]) (by simp [lookupLast])
    (Or.inr ⟨_, by simp only [lookupLast]; rfl, ?_⟩)
  exact ExtsOK.single (hB.cleanObject_assign _ (by assumption) (by simp [octiKeys, lookupLast]) (by simp [lookupLast])
    (Or.inl (by simp [lookupLast])))

theorem convertSightingToStix_envelope {S : Schema} {inst : Obj} :
    ∀ o, convertSightingToStix S inst = .ok o → Envelope S inst o := by
  simp only [convertSightingToStix, buildStixRelationship]
  repeat (refine bind_post ?_; intro _ _)
  intro o h
  rw [pure_eq_ok] at h
  subst h
  exact Envelope.assign_envelope (buildStixDomain_envelope (by assumption)) _ (by simp [lookupLast])
    (by simp [lookupLast]) (by simp [lookupLast])

theorem convertSightingToStix_projected {S : Schema} {inst : Obj} :
    ∀ o, convertSightingToStix S inst = .ok o → Projected S inst o := by
  simp only [convertSightingToStix, buildStixRelationship]
  repeat (refine bind_post ?_; intro _ _)
  intro o h
  rw [pure_eq_ok] at h
  subst h
  have hp := buildStixDomain_projected (by assumption)
  obtain ⟨exts, blk, he, hE, hg, hB⟩ := hp.block
  simp only [he, hg, spread] at *
  refine hp.assign_projected _ (by simp [lookupLast]) (by simp [lookupLast]) (by simp [lookupLast])
    (Or.inr ⟨_, by simp only [lookupLast]; rfl, ?_⟩)
  exact ExtsOK.single (hB.cleanObject_assign _ (by assumption) (by simp [octiKeys, lookupLast]) (by simp [lookupLast])
    (Or.inl (by simp [lookupLast])))

theorem convertMarkingToStix_envelope {S : Schema} {inst : Obj} :
    ∀ o, convertMarkingToStix S inst = .ok o → Envelope S inst o := by
  simp only [convertMarkingToStix]
  repeat (refine bind_post ?_; intro _ _)
  intro o h
  rw [pure_eq_ok] at h
  subst h
  exact Envelope.assign_envelope (buildStixMarkings_envelope (by assumption)) _ (by simp [lookupLast])
    (by simp [lookupLast]) (by simp [lookupLast])

theorem convertMarkingToStix_projected {S : Schema} {inst : Obj} :
    ∀ o, convertMarkingToStix S inst = .ok o → Projected S inst o := by
  simp only [convertMarkingToStix]
  repeat (refine bind_post ?_; intro _ _)
  intro o h
  rw [pure_eq_ok] at h
  subst h
  have hp := buildStixMarkings_projected (by assumption)
  obtain ⟨exts, blk, he, hE, hg, hB⟩ := hp.block
  simp only [he, hg, spread] at *
  refine hp.assign_projected _ (by simp [lookupLast]) (by simp [lookupLast]) (by simp [lookupLast])
    (Or.inr ⟨_, by simp only [lookupLast]; rfl, ?_⟩)
  exact ExtsOK.single (hB.cleanObject_assign _ (by assumption) (by simp [octiKeys, lookupLast]) (by simp [lookupLast])
    (Or.inl (by simp [lookupLast])))

theorem convertLabelToStix_envelope {S : Schema} {inst : Obj} :
    ∀ o, convertLabelToStix S inst = .ok o → Envelope S inst o := by
  simp only [convertLabelToStix]
  repeat (refine bind_post ?_; intro _ _)
  intro o h
  rw [pure_eq_ok] at h
  subst h
  exact Envelope.assign_envelope (buildStixObject_envelope (by assumption)) _ (by simp [lookupLast])
    (by simp [lookupLast]) (by simp [lookupLast])

theorem convertLabelToStix_projected {S : Schema} {inst : Obj} :
    ∀ o, convertLabelToStix S inst = .ok o → Projected S inst o := by
  simp only [convertLabelToStix]
  repeat (refine bind_post ?_; intro _ _)
  intro o h
  rw [pure_eq_ok] at h
  subst h
  have hp := buildStixObject_projected (by assumption)
  obtain ⟨exts, blk, he, hE, hg, hB⟩ := hp.block
  simp only [he, hg, spread] at *
  refine hp.assign_projected _ (by simp [lookupLast]) (by simp [lookupLast]) (by simp [lookupLast])
    (Or.inr ⟨_, by simp only [lookupLast]; rfl, ?_⟩)
  exact ExtsOK.single (hB.cleanObject_assign _ (by assumption) (by simp [octiKeys, lookupLast]) (by simp [lookupLast])
    (Or.inr (by simp [lookupLast])))

theorem convertKillChainPhaseToStix_envelope {S : Schema} {inst : Obj} :
    ∀ o, convertKillChainPhaseToStix S inst = .ok o → Envelope S inst o := by
  simp only [convertKillChainPhaseToStix]
  repeat (refine bind_post ?_; intro _ _)
  intro o h
  rw [pure_eq_ok] at h
  subst h
  exact Envelope.assign_envelope (buildStixObject_envelope (by assumption)) _ (by simp [lookupLast])
    (by simp [lookupLast]) (by simp [lookupLast])

theorem convertKillChainPhaseToStix_projected {S : Schema} {inst : Obj} :
    ∀ o, convertKillChainPhaseToStix S inst = .ok o → Projected S inst o := by
  simp only [convertKillChainPhaseToStix]
  repeat (refine bind_post ?_; intro _ _)
  intro o h
  rw [pure_eq_ok] at h
  subst h
  have hp := buildStixObject_projected (by assumption)
  obtain ⟨exts, blk, he, hE, hg, hB⟩ := hp.block
  simp only [he, hg, spread] at *
  refine hp.assign_projected _ (by simp [lookupLast]) (by simp [lookupLast]) (by simp [lookupLast])
    (Or.inr ⟨_, by simp only [lookupLast]; rfl, ?_⟩)
  exact ExtsOK.single (hB.cleanObject_assign _ (by assumption) (by simp [octiKeys, lookupLast]) (by simp [lookupLast])
    (Or.inr (by simp [lookupLast])))

theorem convertExternalReferenceToStix_envelope {S : Schema} {inst : Obj} :
    ∀ o, convertExternalReferenceToStix S inst = .ok o → Envelope S inst o := by
  simp only [convertExternalReferenceToStix]
  repeat (refine bind_post ?_; intro _ _)
  intro o h
  rw [pure_eq_ok] at h
  subst h
  exact Envelope.assign_envelope (buildStixObject_envelope (by assumption)) _ (by simp [lookupLast])
    (by simp [lookupLast]) (by simp [lookupLast])

theorem convertExternalReferenceToStix_projected {S : Schema} {inst : Obj} :
    ∀ o, convertExternalReferenceToStix S inst = .ok o → Projected S inst o := by
  simp only [convertExternalReferenceToStix]
  repeat (refine bind_post ?_; intro _ _)
  intro o h
  rw [pure_eq_ok] at h
  subst h
  have hp := buildStixObject_projected (by assumption)
  obtain ⟨exts, blk, he, hE, hg, hB⟩ := hp.block
  simp only [he, hg, spread] at *
  refine hp.assign_projected _ (by simp [lookupLast]) (by simp [lookupLast]) (by simp [lookupLast])
    (Or.inr ⟨_, by simp only [lookupLast]; rfl, ?_⟩)
  exact ExtsOK.single (hB.cleanObject_assign _ (by assumption) (by simp [octiKeys, lookupLast]) (by simp [lookupLast])
    (Or.inr (by simp [lookupLast])))

theorem convertWindowsRegistryValueToStix_envelope {S : Schema} {inst : Obj} :
    ∀ o, convertWindowsRegistryValueToStix S inst = .ok o → Envelope S inst o := by
  simp only [convertWindowsRegistryValueToStix]
  repeat (refine bind_post ?_; intro _ _)
  intro o h
  rw [pure_eq_ok] at h
  subst h
  exact Envelope.assign_envelope (buildStixCyberObservable_envelope (by assumption)) _ (by simp [lookupLast])
    (by simp [lookupLast]) (by simp [lookupLast])

theorem convertWindowsRegistryValueToStix_projected {S : Schema} {inst : Obj} (hS : S.ExtKeysDistinct) :
    ∀ o, convertWindowsRegistryValueToStix S inst = .ok o → Projected S inst o := by
  simp only [convertWindowsRegistryValueToStix]
  repeat (refine bind_post ?_; intro _ _)
  intro o h
  rw [pure_eq_ok] at h
  subst h
  have hp := buildStixCyberObservable_projected hS (by assumption)
  obtain ⟨exts, blk, he, hE, hg, hB⟩ := hp.block
  simp only [he, hg, spread] at *
  refine hp.assign_projected _ (by simp [lookupLast]) (by simp [lookupLast]) (by simp [lookupLast])
    (Or.inr ⟨_, by simp only [lookupLast]; rfl, ?_⟩)
  exact ExtsOK.pair hB CleanBlock.newsco hS.1

theorem convertEmailMimePartToStix_envelope {S : Schema} {inst : Obj} :
    ∀ o, convertEmailMimePartToStix S inst = .ok o → Envelope S inst o := by
  simp only [convertEmailMimePartToStix]
  repeat (refine bind_post ?_; intro _ _)
  intro o h
  rw [pure_eq_ok] at h
  subst h
  exact Envelope.assign_envelope (buildStixCyberObservable_envelope (by assumption)) _ (by simp [lookupLast])
    (by simp [lookupLast]) (by simp [lookupLast])

theorem convertEmailMimePartToStix_projected {S : Schema} {inst : Obj} (hS : S.ExtKeysDistinct) :
    ∀ o, convertEmailMimePartToStix S inst = .ok o → Projected S inst o := by
  simp only [convertEmailMimePartToStix]
  repeat (refine bind_post ?_; intro _ _)
  intro o h
  rw [pure_eq_ok] at h
  subst h
  have hp := buildStixCyberObservable_projected hS (by assumption)
  obtain ⟨exts, blk, he, hE, hg, hB⟩ := hp.block
  simp only [he, hg, spread] at *
  refine hp.assign_projected _ (by simp [lookupLast]) (by simp [lookupLast]) (by simp [lookupLast])
    (Or.inr ⟨_, by simp only [lookupLast]; rfl, ?_⟩)
  exact ExtsOK.pair hB CleanBlock.newsco hS.1

theorem convertRelationshipKind_envelope {S : Schema} {inst : Obj} {t : String} :
    ∀ o, convertRelationshipKind S inst t = .ok o → Envelope S inst o := by
  unfold convertRelationshipKind
  refine ite_post (fun _ => convertRelationToStix_envelope) (fun _ => ?_)
  refine ite_post (fun _ => convertRelationToStix_envelope) (fun _ => ?_)
  refine ite_post (fun _ => convertSightingToStix_envelope) (fun _ => ?_)
  refine ite_post (fun _ => convertRelationToStix_envelope) (fun _ => ?_)
  exact fun b h => absurd h (throw_ne_ok _ _)

theorem convertDomainKind_envelope {S : Schema} {inst : Obj} {t : String} :
    ∀ o, convertDomainKind S inst t = .ok o → Envelope S inst o := by
  unfold convertDomainKind
  refine ite_post (fun _ => convertIdentityToStix_envelope) (fun _ => ?_)
  refine ite_post (fun _ => convertLocationToStix_envelope) (fun _ => ?_)
  refine ite_post (fun _ => convertReportToStix_envelope) (fun _ => ?_)
  refine ite_post (fun _ => convertMalwareToStix_envelope) (fun _ => ?_)
  refine ite_post (fun _ => convertInfrastructureToStix_envelope) (fun _ => ?_)
  refine ite_post (fun _ => convertAttackPatternToStix_envelope) (fun _ => ?_)
  refine ite_post (fun _ => convertCampaignToStix_envelope) (fun _ => ?_)
  refine ite_post (fun _ => convertThreatActorToStix_envelope) (fun _ => ?_)
  refine ite_post (fun _ => convertNoteToStix_envelope) (fun _ => ?_)
  refine ite_post (fun _ => convertOpinionToStix_envelope) (fun _ => ?_)
  refine ite_post (fun _ => convertObservedDateToStix_envelope) (fun _ => ?_)
  refine ite_post (fun _ => convertCourseOfActionToStix_envelope) (fun _ => ?_)
  refine ite_post (fun _ => convertIncidentToStix_envelope) (fun _ => ?_)
  refine ite_post (fun _ => convertIndicatorToStix_envelope) (fun _ => ?_)
  refine ite_post (fun _ => convertIntrusionSetToStix_envelope) (fun _ => ?_)
  refine ite_post (fun _ => convertToolToStix_envelope) (fun _ => ?_)
  refine ite_post (fun _ => convertVulnerabilityToStix_envelope) (fun _ => ?_)
  exact fun b h => absurd h (throw_ne_ok _ _)

theorem convertMetaKind_envelope {S : Schema} {inst : Obj} {t : String} :
    ∀ o, convertMetaKind S inst t = .ok o → Envelope S inst o := by
  unfold convertMetaKind
  refine ite_post (fun _ => convertMarkingToStix_envelope) (fun _ => ?_)
  refine ite_post (fun _ => convertLabelToStix_envelope) (fun _ => ?_)
  refine ite_post (fun _ => convertKillChainPhaseToStix_envelope) (fun _ => ?_)
  refine ite_post (fun _ => convertExternalReferenceToStix_envelope) (fun _ => ?_)
  exact fun b h => absurd h (throw_ne_ok _ _)

theorem convertObservableKind_envelope {S : Schema} {inst : Obj} {t : String} :
    ∀ o, convertObservableKind S inst t = .ok o → Envelope S inst o := by
  unfold convertObservableKind
  refine ite_post (fun _ => convertWindowsRegistryValueToStix_envelope) (fun _ => ?_)
  refine ite_post (fun _ => convertEmailMimePartToStix_envelope) (fun _ => ?_)
  refine ite_post (fun _ => convertArtifactToStix_envelope) (fun _ => ?_)
  refine ite_post (fun _ => convertAutonomousSystemToStix_envelope) (fun _ => ?_)
  refine ite_post (fun _ => convertCryptocurrencyWalletToStix_envelope) (fun _ => ?_)
  refine ite_post (fun _ => convertCryptographicKeyToStix_envelope) (fun _ => ?_)
  refine ite_post (fun _ => convertDirectoryToStix_envelope) (fun _ => ?_)
  refine ite_post (fun _ => convertDomainNameToStix_envelope) (fun _ => ?_)
  refine ite_post (fun _ => convertEmailAddressToStix_envelope) (fun _ => ?_)
  refine ite_post (fun _ => convertEmailMessageToStix_envelope) (fun _ => ?_)
  refine ite_post (fun _ => convertFileToStix_envelope) (fun _ => ?_)
  refine ite_post (fun _ => convertHostnameToStix_envelope) (fun _ => ?_)
  refine ite_post (fun _ => convertIPv4AddressToStix_envelope) (fun _ => ?_)
  refine ite_post (fun _ => convertIPv6AddressToStix_envelope) (fun _ => ?_)
  refine ite_post (fun _ => convertMacAddressToStix_envelope) (fun _ => ?_)
  refine ite_post (fun _ => convertMutexToStix_envelope) (fun _ => ?_)
  refine ite_post (fun _ => convertNetworkTrafficToStix_envelope) (fun _ => ?_)
  refine ite_post (fun _ => convertProcessToStix_envelope) (fun _ => ?_)
  refine ite_post (fun _ => convertSoftwareToStix_envelope) (fun _ => ?_)
  refine ite_post (fun _ => convertTextToStix_envelope) (fun _ => ?_)
  refine ite_post (fun _ => convertURLToStix_envelope) (fun _ => ?_)
  refine ite_post (fun _ => convertUserAccountToStix_envelope) (fun _ => ?_)
  refine ite_post (fun _ => convertWindowsRegistryKeyToStix_envelope) (fun _ => ?_)
  refine ite_post (fun _ => convertX509CertificateToStix_envelope) (fun _ => ?_)
  exact fun b h => absurd h (throw_ne_ok _ _)

theorem convertToStix_envelope {S : Schema} {inst : Obj} :
    ∀ o, convertToStix S inst = .ok o → Envelope S inst o := by
  unfold convertToStix
  refine bind_post ?_
  intro t _
  refine ite_post (fun _ b h => absurd h (throw_ne_ok _ _)) (fun _ => ?_)
  refine ite_post (fun _ => convertRelationshipKind_envelope) (fun _ => ?_)
  refine ite_post (fun _ => convertDomainKind_envelope) (fun _ => ?_)
  refine ite_post (fun _ => convertMetaKind_envelope) (fun _ => ?_)
  refine ite_post (fun _ => convertObservableKind_envelope) (fun _ => ?_)
  exact fun b h => absurd h (throw_ne_ok _ _)

theorem convertRelationshipKind_projected {S : Schema} {inst : Obj} {t : String} :
    ∀ o, convertRelationshipKind S inst t = .ok o → Projected S inst o := by
  unfold convertRelationshipKind
  refine ite_post (fun _ => convertRelationToStix_projected) (fun _ => ?_)
  refine ite_post (fun _ => convertRelationToStix_projected) (fun _ => ?_)
  refine ite_post (fun _ => convertSightingToStix_projected) (fun _ => ?_)
  refine ite_post (fun _ => convertRelationToStix_projected) (fun _ => ?_)
  exact fun b h => absurd h (throw_ne_ok _ _)

theorem convertDomainKind_projected {S : Schema} {inst : Obj} {t : String} (hS : S.ExtKeysDistinct) :
    ∀ o, convertDomainKind S inst t = .ok o → Projected S inst o := by
  unfold convertDomainKind
  refine ite_post (fun _ => convertIdentityToStix_projected) (fun _ => ?_)
  refine ite_post (fun _ => convertLocationToStix_projected) (fun _ => ?_)
  refine ite_post (fun _ => convertReportToStix_projected) (fun _ => ?_)
  refine ite_post (fun _ => convertMalwareToStix_projected) (fun _ => ?_)
  refine ite_post (fun _ => convertInfrastructureToStix_projected) (fun _ => ?_)
  refine ite_post (fun _ => convertAttackPatternToStix_projected hS) (fun _ => ?_)
  refine ite_post (fun _ => convertCampaignToStix_projected) (fun _ => ?_)
  refine ite_post (fun _ => convertThreatActorToStix_projected) (fun _ => ?_)
  refine ite_post (fun _ => convertNoteToStix_projected) (fun _ => ?_)
  refine ite_post (fun _ => convertOpinionToStix_projected) (fun _ => ?_)
  refine ite_post (fun _ => convertObservedDateToStix_projected) (fun _ => ?_)
  refine ite_post (fun _ => convertCourseOfActionToStix_projected hS) (fun _ => ?_)
  refine ite_post (fun _ => convertIncidentToStix_projected) (fun _ => ?_)
  refine ite_post (fun _ => convertIndicatorToStix_projected hS) (fun _ => ?_)
  refine ite_post (fun _ => convertIntrusionSetToStix_projected) (fun _ => ?_)
  refine ite_post (fun _ => convertToolToStix_projected) (fun _ => ?_)
  refine ite_post (fun _ => convertVulnerabilityToStix_projected) (fun _ => ?_)
  exact fun b h => absurd h (throw_ne_ok _ _)

theorem convertMetaKind_projected {S : Schema} {inst : Obj} {t : String} :
    ∀ o, convertMetaKind S inst t = .ok o → Projected S inst o := by
  unfold convertMetaKind
  refine ite_post (fun _ => convertMarkingToStix_projected) (fun _ => ?_)
  refine ite_post (fun _ => convertLabelToStix_projected) (fun _ => ?_)
  refine ite_post (fun _ => convertKillChainPhaseToStix_projected) (fun _ => ?_)
  refine ite_post (fun _ => convertExternalReferenceToStix_projected) (fun _ => ?_)
  exact fun b h => absurd h (throw_ne_ok _ _)

theorem convertObservableKind_projected {S : Schema} {inst : Obj} {t : String} (hS : S.ExtKeysDistinct) :
    ∀ o, convertObservableKind S inst t = .ok o → Projected S inst o := by
  unfold convertObservableKind
  refine ite_post (fun _ => convertWindowsRegistryValueToStix_projected hS) (fun _ => ?_)
  refine ite_post (fun _ => convertEmailMimePartToStix_projected hS) (fun _ => ?_)
  refine ite_post (fun _ => convertArtifactToStix_projected hS) (fun _ => ?_)
  refine ite_post (fun _ => convertAutonomousSystemToStix_projected hS) (fun _ => ?_)
  refine ite_post (fun _ => convertCryptocurrencyWalletToStix_projected hS) (fun _ => ?_)
  refine ite_post (fun _ => convertCryptographicKeyToStix_projected hS) (fun _ => ?_)
  refine ite_post (fun _ => convertDirectoryToStix_projected hS) (fun _ => ?_)
  refine ite_post (fun _ => convertDomainNameToStix_projected hS) (fun _ => ?_)
  refine ite_post (fun _ => convertEmailAddressToStix_projected hS) (fun _ => ?_)
  refine ite_post (fun _ => convertEmailMessageToStix_projected hS) (fun _ => ?_)
  refine ite_post (fun _ => convertFileToStix_projected hS) (fun _ => ?_)
  refine ite_post (fun _ => convertHostnameToStix_projected hS) (fun _ => ?_)
  refine ite_post (fun _ => convertIPv4AddressToStix_projected hS) (fun _ => ?_)
  refine ite_post (fun _ => convertIPv6AddressToStix_projected hS) (fun _ => ?_)
  refine ite_post (fun _ => convertMacAddressToStix_projected hS) (fun _ => ?_)
  refine ite_post (fun _ => convertMutexToStix_projected hS) (fun _ => ?_)
  refine ite_post (fun _ => convertNetworkTrafficToStix_projected hS) (fun _ => ?_)
  refine ite_post (fun _ => convertProcessToStix_projected hS) (fun _ => ?_)
  refine ite_post (fun _ => convertSoftwareToStix_projected hS) (fun _ => ?_)
  refine ite_post (fun _ => convertTextToStix_projected hS) (fun _ => ?_)
  refine ite_post (fun _ => convertURLToStix_projected hS) (fun _ => ?_)
  refine ite_post (fun _ => convertUserAccountToStix_projected hS) (fun _ => ?_)
  refine ite_post (fun _ => convertWindowsRegistryKeyToStix_projected hS) (fun _ => ?_)
  refine ite_post (fun _ => convertX509CertificateToStix_projected hS) (fun _ => ?_)
  exact fun b h => absurd h (throw_ne_ok _ _)

theorem convertToStix_projected {S : Schema} {inst : Obj} (hS : S.ExtKeysDistinct) :
    ∀ o, convertToStix S inst = .ok o → Projected S inst o := by
  unfold convertToStix
  refine bind_post ?_
  intro t _
  refine ite_post (fun _ b h => absurd h (throw_ne_ok _ _)) (fun _ => ?_)
  refine ite_post (fun _ => convertRelationshipKind_projected) (fun _ => ?_)
  refine ite_post (fun _ => convertDomainKind_projected hS) (fun _ => ?_)
  refine ite_post (fun _ => convertMetaKind_projected) (fun _ => ?_)
  refine ite_post (fun _ => convertObservableKind_projected hS) (fun _ => ?_)
  exact fun b h => absurd h (throw_ne_ok _ _)

/-! ## Shape of a successful conversion -/

theorem convertStoreToStix_ok {S : Schema} {inst out : Obj}
    (h : convertStoreToStix S inst = .ok out) :
    isEmptyField (getProp inst "_index") = false ∧
    isEmptyField (getProp inst "entity_type") = false ∧
    ∃ o, convertToStix S inst = .ok o ∧ cleanObject o = .ok out := by
  unfold convertStoreToStix at h
  split at h
  · exact absurd h (throw_ne_ok _ _)
  · rename_i hg
    simp only [Bool.or_eq_true, not_or, Bool.not_eq_true] at hg
    obtain ⟨o, ho, h2⟩ := (bind_eq_ok _ _ _).1 h
    obtain ⟨stix, hs, hv⟩ := (bind_eq_ok _ _ _).1 h2
    split at hv
    · exact absurd hv (throw_ne_ok _ _)
    · rw [pure_eq_ok] at hv
      subst hv
      exact ⟨hg.1, hg.2, o, ho, hs⟩


theorem pruneExtensions_obj (exts : Obj) (h : ∀ e ∈ exts, ∃ b, e.2 = .obj b) :
    pruneExtensions (.obj exts) = .ok (.obj (exts.filter (fun e => entriesLength e.2 != 1))) := by
  unfold pruneExtensions
  simp only
  split
  · rename_i hany
    rw [List.any_eq_true] at hany
    obtain ⟨e, he, hm⟩ := hany
    obtain ⟨b, hb⟩ := h e he
    rw [hb] at hm
    simp at hm
  · rfl

theorem getProp_filter_of_pos (o : Obj) (p : String × JValue → Bool) (k : String)
    (hk : k ∈ keys o) (hp : p (k, getProp o k) = true) :
    getProp (o.filter p) k = getProp o k := by
  induction o with
  | nil => simp [keys] at hk
  | cons kv rest ih =>
    obtain ⟨k', v⟩ := kv
    by_cases e : k' = k
    · subst e
      simp only [getProp, if_true] at hp ⊢
      simp [List.filter, hp, getProp]
    · have e' : ¬ k = k' := fun x => e x.symm
      simp only [keys, List.map_cons, List.mem_cons, e', false_or] at hk
      simp only [getProp, e, if_false] at hp ⊢
      cases hv : p (k', v)
      · simp only [List.filter, hv]
        exact ih hk hp
      · simp only [List.filter, hv, getProp, e, if_false]
        exact ih hk hp

theorem two_le_length (o : Obj) (k1 k2 : String) (h1 : k1 ∈ keys o) (h2 : k2 ∈ keys o)
    (hne : k1 ≠ k2) : 2 ≤ o.length := by
  match o, h1, h2 with
  | [], h1, _ => simp [keys] at h1
  | [kv], h1, h2 =>
    simp only [keys, List.map_cons, List.map_nil, List.mem_singleton] at h1 h2
    exact absurd (h1.trans h2.symm) hne
  | _ :: _ :: _, _, _ => simp

theorem mem_keys_of_getProp_ne (o : Obj) (k : String) (h : getProp o k ≠ .undefined) :
    k ∈ keys o := by
  by_contra hk
  exact h (getProp_of_not_mem o k hk)

theorem hasProp_false_of_getProp_undefined (o : Obj) (ho : AllNonEmpty o) (k : String)
    (h : getProp o k = .undefined) : hasProp o k = false := by
  rw [hasProp_eq_false_iff]
  intro hk
  have := ho _ (getProp_mem o k hk)
  rw [h] at this
  simp [isEmptyField] at this

theorem buildOCTIExtensions_eq {S : Schema} {inst octi : Obj}
    (h : buildOCTIExtensions S inst = .ok octi) :
    ∃ files ids flag,
      filterArray (isTrustedStixId S) (nullish (getProp inst "x_opencti_stix_ids") (.arr [])) =
        .ok ids ∧
      inferredFlag S (getProp inst "_index") = .ok flag ∧
      octi = nonEmptyEntries [
        ("extension_type", .str "property-extension"),
        ("id", getProp inst "internal_id"),
        ("type", getProp inst "entity_type"),
        ("created_at", getProp inst "created_at"),
        ("updated_at", getProp inst "updated_at"),
        ("aliases", nullish (getProp inst "x_opencti_aliases") (.arr [])),
        ("files", files),
        ("stix_ids", ids),
        ("is_inferred", flag),
        ("workflow_id", getProp inst "x_opencti_workflow_id")] := by
  simp only [buildOCTIExtensions, bind_eq_ok] at h
  obtain ⟨files, _, ids, hi, flag, hf, hc⟩ := h
  exact ⟨files, ids, flag, hi, hf, cleanObject_eq_of_noext hc rfl⟩

theorem buildOCTIExtensions_type {S : Schema} {inst octi : Obj}
    (h : buildOCTIExtensions S inst = .ok octi)
    (ht : isEmptyField (getProp inst "entity_type") = false) :
    getProp octi "type" = getProp inst "entity_type" := by
  obtain ⟨files, ids, flag, _, _, rfl⟩ := buildOCTIExtensions_eq h
  rw [getProp_nonEmptyEntries _ (by simp [NoDupKeys, keys])]
  simp [getProp, ht]

theorem filterM_eq_ok (p : JValue → Except Err Bool) (xs : List JValue) :
    ∀ ys, filterM p xs = .ok ys →
      (∀ x ∈ xs, ∃ b, p x = .ok b) ∧
      ys = xs.filter (fun x => match p x with
        | .ok true => true
        | _ => false) := by
  induction xs with
  | nil =>
    intro ys h
    simp only [filterM, pure_eq_ok] at h
    subst h
    simp
  | cons x rest ih =>
    intro ys h
    simp only [filterM, bind_eq_ok, pure_eq_ok] at h
    obtain ⟨b, hb, ys', hys, rfl⟩ := h
    obtain ⟨h1, h2⟩ := ih ys' hys
    refine ⟨?_, ?_⟩
    · intro y hy
      rcases List.mem_cons.1 hy with rfl | hy
      · exact ⟨b, hb⟩
      · exact h1 y hy
    · cases b <;> simp [List.filter, hb, ← h2]

theorem isTrustedStixId_ok {S : Schema} {id : JValue} {b : Bool}
    (h : isTrustedStixId S id = .ok b) :
    (∃ v, uuidVersionOf S id = some v) ∧ b = decide (uuidVersionOf S id ≠ some 1) := by
  unfold isTrustedStixId at h
  split at h
  · rename_i v hv
    rw [pure_eq_ok] at h
    subst h
    refine ⟨⟨v, hv⟩, ?_⟩
    rw [hv]
    by_cases e : v = 1 <;> simp [e]
  · exact absurd h (throw_ne_ok _ _)

theorem filterArray_isTrusted {S : Schema} {v r : JValue}
    (h : filterArray (isTrustedStixId S) v = .ok r) :
    ∃ ids, v = .arr ids ∧ (∀ id ∈ ids, ∃ n, uuidVersionOf S id = some n) ∧
      r = .arr (trustedIds S ids) := by
  unfold filterArray at h
  split at h
  · rename_i xs
    simp only [bind_eq_ok, pure_eq_ok] at h
    obtain ⟨ys, hys, rfl⟩ := h
    obtain ⟨h1, h2⟩ := filterM_eq_ok _ _ _ hys
    refine ⟨xs, rfl, fun id hid => ?_, ?_⟩
    · obtain ⟨b, hb⟩ := h1 id hid
      exact (isTrustedStixId_ok hb).1
    · rw [h2]
      unfold trustedIds
      congr 1
      apply List.filter_congr
      intro id hid
      obtain ⟨b, hb⟩ := h1 id hid
      have := (isTrustedStixId_ok hb).2
      rw [hb]
      cases b <;> simp_all
  · exact absurd h (throw_ne_ok _ _)

/-- Shape of a successful conversion: the projected object, its extension
mapping and the platform block that survives the final normalisation. -/
theorem convertStoreToStix_shape {S : Schema} {inst out : Obj} (hS : S.ExtKeysDistinct)
    (h : convertStoreToStix S inst = .ok out) :
    ∃ o exts blk, Projected S inst o ∧ cleanObject o = .ok out ∧
      getProp o "extensions" = .obj exts ∧ ExtsOK S inst exts ∧
      getProp exts S.STIX_EXT_OCTI = .obj blk ∧ OctiBlock S inst blk ∧
      getProp blk "type" = getProp inst "entity_type" ∧
      getProp out "extensions" = .obj (exts.filter (fun e => entriesLength e.2 != 1)) ∧
      getProp (exts.filter (fun e => entriesLength e.2 != 1)) S.STIX_EXT_OCTI = .obj blk := by
  obtain ⟨_, hty, o, ho, hc⟩ := convertStoreToStix_ok h
  have hp := convertToStix_projected hS o ho
  obtain ⟨exts, hx, hE⟩ := hp.exts
  obtain ⟨blk, hg, hB⟩ := hE.octi
  obtain ⟨octi, hocti, hk⟩ := hB.base
  have htype : getProp blk "type" = getProp inst "entity_type" := by
    rw [hk "type" (by simp [octiKeys])]
    exact buildOCTIExtensions_type hocti hty
  have hkeyO : S.STIX_EXT_OCTI ∈ keys exts :=
    mem_keys_of_getProp_ne _ _ (by rw [hg]; exact fun e => JValue.noConfusion e)
  have hne : isEmptyField (getProp o "extensions") = false := by
    rw [hx]
    cases exts with
    | nil => simp [keys] at hkeyO
    | cons _ _ => rfl
  have hpr := cleanObject_getProp_ext o out hc hne
  rw [hx, pruneExtensions_obj exts (fun e he => (hE.blocks e he).imp fun b hb => hb.1)] at hpr
  injection hpr with hpr
  have hlen : 2 ≤ blk.length := by
    refine two_le_length blk "extension_type" "type" ?_ ?_ (by decide)
    · apply mem_keys_of_getProp_ne
      rcases hB.extType with e | e <;> rw [e] <;> exact fun e => JValue.noConfusion e
    · apply mem_keys_of_getProp_ne
      rw [htype]
      intro e
      rw [e] at hty
      simp [isEmptyField] at hty
  refine ⟨o, exts, blk, hp, hc, hx, hE, hg, hB, htype, hpr.symm, ?_⟩
  rw [getProp_filter_of_pos exts _ _ hkeyO, hg]
  rw [hg]
  simp only [entriesLength, bne_iff_ne, ne_eq]
  omega

theorem opencti_extKeysDistinct : opencti.ExtKeysDistinct :=
  ⟨by decide, by decide, by decide⟩

theorem toLowerCase_ne_empty (t : String) (h : t ≠ "") : toLowerCase t ≠ "" := by
  intro e
  apply h
  unfold toLowerCase at e
  have : (t.data.map Char.toLower) = [] := by
    have := congrArg String.data e
    simpa using this
  have hd : t.data = [] := by simpa using this
  cases t
  simp_all

theorem convertTypeToStixType_ne_empty (S : Schema) (t : String) (h : t ≠ "") :
    convertTypeToStixType S t ≠ "" := by
  unfold convertTypeToStixType
  split_ifs <;> first | decide | exact toLowerCase_ne_empty t h

/-! ## C1 -/

/-- C1, counterexample: the converted sample process keeps, inside its
passed-through `environment_variables` mapping, a field holding the empty
string. -/
theorem C1_nested_empty_field_survives :
    ∃ out, convertStoreToStix opencti sampleProcess = .ok out ∧
      getProp out "environment_variables" =
        .obj [("PATH", .str "/usr/bin"), ("DEBUG", .str "")] ∧
      noEmptyField (.obj out) = false :=
  ⟨_, rfl, rfl, rfl⟩

/-- C1, amended: on every successful conversion no top-level field of the
output and no field placed directly inside an extension block holds an empty
value (the normalisation is not recursive: deeper structures are not visited). -/
theorem C1_output_fields_nonEmpty (S : Schema) (inst out : Obj) (hS : S.ExtKeysDistinct)
    (h : convertStoreToStix S inst = .ok out) :
    (∀ kv ∈ out, isEmptyField kv.2 = false) ∧
    (∀ e ∈ extensionsOf out, ∃ b, e.2 = .obj b ∧ ∀ kv ∈ b, isEmptyField kv.2 = false) := by
  obtain ⟨o, exts, blk, hp, hc, hx, hE, hg, hB, _, hout, hkeep⟩ := convertStoreToStix_shape hS h
  refine ⟨?_, ?_⟩
  · intro kv hkv
    rcases cleanObject_mem o out hc kv hkv with ⟨_, _, hne⟩ | ⟨hk, v, hv, _, _⟩
    · exact hne
    · have hnd := cleanObject_nodup o out hp.env.nodup hc
      have h1 : getProp out kv.1 = kv.2 := getProp_eq_of_mem out hnd kv.1 kv.2 hkv
      rw [hk, hout] at h1
      rw [← h1]
      cases hf : exts.filter (fun e => entriesLength e.2 != 1) with
      | nil => rw [hf] at hkeep; simp [getProp] at hkeep
      | cons _ _ => rfl
  · intro e he
    simp only [extensionsOf, hout, spread] at he
    obtain ⟨b, hb, hB'⟩ := hE.blocks e (List.mem_filter.1 he).1
    exact ⟨b, hb, hB'.1⟩

/-- C1, amended, on the sample malware. -/
theorem C1_output_fields_nonEmpty_witness :
    opencti.ExtKeysDistinct ∧
    ∃ out, convertStoreToStix opencti sampleMalware = .ok out ∧
      (∀ kv ∈ out, isEmptyField kv.2 = false) ∧
      (∀ e ∈ extensionsOf out, ∃ b, e.2 = .obj b ∧ ∀ kv ∈ b, isEmptyField kv.2 = false) :=
  ⟨opencti_extKeysDistinct, _, rfl,
    C1_output_fields_nonEmpty opencti sampleMalware _ opencti_extKeysDistinct rfl⟩

/-! ## C2 -/

/-- C2: on every successful conversion the `extensions` mapping of the output
holds the platform extension block under `STIX_EXT_OCTI`, and that block holds
an `extension_type` and a `type` equal to the entity type of the instance. -/
theorem C2_platform_extension_present (S : Schema) (inst out : Obj) (hS : S.ExtKeysDistinct)
    (h : convertStoreToStix S inst = .ok out) :
    ∃ exts blk, getProp out "extensions" = .obj exts ∧
      getProp exts S.STIX_EXT_OCTI = .obj blk ∧
      hasProp blk "extension_type" = true ∧
      hasProp blk "type" = true ∧
      getProp blk "type" = getProp inst "entity_type" := by
  obtain ⟨o, exts, blk, hp, hc, hx, hE, hg, hB, hty, hout, hkeep⟩ := convertStoreToStix_shape hS h
  obtain ⟨_, hne, _⟩ := convertStoreToStix_ok h
  refine ⟨_, blk, hout, hkeep, ?_, ?_, hty⟩
  · apply hasProp_of_getProp_ne
    rcases hB.extType with e | e <;> rw [e] <;> exact fun e => JValue.noConfusion e
  · apply hasProp_of_getProp_ne
    rw [hty]
    intro e
    rw [e] at hne
    simp [isEmptyField] at hne

/-- C2 on the sample malware. -/
theorem C2_platform_extension_present_witness :
    opencti.ExtKeysDistinct ∧
    ∃ out, convertStoreToStix opencti sampleMalware = .ok out ∧
      ∃ exts blk, getProp out "extensions" = .obj exts ∧
        getProp exts opencti.STIX_EXT_OCTI = .obj blk ∧
        hasProp blk "extension_type" = true ∧
        hasProp blk "type" = true ∧
        getProp blk "type" = getProp sampleMalware "entity_type" :=
  ⟨opencti_extKeysDistinct, _, rfl,
    C2_platform_extension_present opencti sampleMalware _ opencti_extKeysDistinct rfl⟩

/-! ## C3 -/

/-- C3: on every successful conversion the output has `spec_version` "2.1" and
a `type` equal to `convertTypeToStixType` of the entity type of the instance. -/
theorem C3_type_and_spec_version (S : Schema) (inst out : Obj)
    (h : convertStoreToStix S inst = .ok out) :
    ∃ t, getProp inst "entity_type" = .str t ∧
      getProp out "type" = .str (convertTypeToStixType S t) ∧
      getProp out "spec_version" = .str "2.1" := by
  obtain ⟨_, hne, o, ho, hc⟩ := convertStoreToStix_ok h
  have hp := convertToStix_envelope o ho
  obtain ⟨t, ht, hty⟩ := hp.type
  have htne : t ≠ "" := by
    intro e
    rw [ht, e] at hne
    simp [isEmptyField] at hne
  refine ⟨t, ht, ?_, ?_⟩
  · rw [cleanObject_getProp o hp.nodup out hc "type" (by decide), hty]
    have := convertTypeToStixType_ne_empty S t htne
    simp [isEmptyField, this]
  · rw [cleanObject_getProp o hp.nodup out hc "spec_version" (by decide), hp.spec_version]
    simp [isEmptyField]

/-- C3 on the sample file observable, whose STIX type is "file". -/
theorem C3_type_and_spec_version_witness :
    ∃ out, convertStoreToStix opencti sampleFile = .ok out ∧
      ∃ t, getProp sampleFile "entity_type" = .str t ∧
        getProp out "type" = .str (convertTypeToStixType opencti t) ∧
        getProp out "spec_version" = .str "2.1" :=
  ⟨_, rfl, C3_type_and_spec_version opencti sampleFile _ rfl⟩

/-! ## C4 -/

/-- C4: `convertTypeToStixType` is a total function that, for every type
string, returns "identity" for an identity kind; otherwise "location" for a
location kind; otherwise "file" for the file-hash observable type; otherwise
"relationship" for a core relationship type; otherwise "sighting" for the
sighting type; and otherwise the lower-cased type, the value of the last case
being stated for the types made of ASCII characters, on which `toLowerCase` is
the lower-casing of the source. -/
theorem C4_convertTypeToStixType_cases (S : Schema) (type : String) :
    (S.isStixDomainObjectIdentity type = true → convertTypeToStixType S type = "identity") ∧
    (S.isStixDomainObjectIdentity type = false → S.isStixDomainObjectLocation type = true →
      convertTypeToStixType S type = "location") ∧
    (S.isStixDomainObjectIdentity type = false → S.isStixDomainObjectLocation type = false →
      type = S.ENTITY_HASHED_OBSERVABLE_STIX_FILE → convertTypeToStixType S type = "file") ∧
    (S.isStixDomainObjectIdentity type = false → S.isStixDomainObjectLocation type = false →
      type ≠ S.ENTITY_HASHED_OBSERVABLE_STIX_FILE → S.isStixCoreRelationship type = true →
      convertTypeToStixType S type = "relationship") ∧
    (S.isStixDomainObjectIdentity type = false → S.isStixDomainObjectLocation type = false →
      type ≠ S.ENTITY_HASHED_OBSERVABLE_STIX_FILE → S.isStixCoreRelationship type = false →
      S.isStixSightingRelationship type = true → convertTypeToStixType S type = "sighting") ∧
    (S.isStixDomainObjectIdentity type = false → S.isStixDomainObjectLocation type = false →
      type ≠ S.ENTITY_HASHED_OBSERVABLE_STIX_FILE → S.isStixCoreRelationship type = false →
      S.isStixSightingRelationship type = false → asciiOnly type = true →
      convertTypeToStixType S type = toLowerCase type) := by
  unfold convertTypeToStixType
  refine ⟨?_, ?_, ?_, ?_, ?_, ?_⟩ <;> intros <;> simp_all

/-- C4 on the sample schema: one type for each of the six outcomes. -/
theorem C4_convertTypeToStixType_cases_witness :
    convertTypeToStixType opencti "Organization" = "identity" ∧
    convertTypeToStixType opencti "City" = "location" ∧
    convertTypeToStixType opencti "StixFile" = "file" ∧
    convertTypeToStixType opencti "uses" = "relationship" ∧
    convertTypeToStixType opencti "stix-sighting-relationship" = "sighting" ∧
    asciiOnly "Attack-Pattern" = true ∧
    convertTypeToStixType opencti "Attack-Pattern" = "attack-pattern" :=
  ⟨(C4_convertTypeToStixType_cases opencti "Organization").1 rfl,
    (C4_convertTypeToStixType_cases opencti "City").2.1 rfl rfl,
    (C4_convertTypeToStixType_cases opencti "StixFile").2.2.1 rfl rfl rfl,
    (C4_convertTypeToStixType_cases opencti "uses").2.2.2.1 rfl rfl (by decide) rfl,
    (C4_convertTypeToStixType_cases opencti "stix-sighting-relationship").2.2.2.2.1 rfl rfl
      (by decide) rfl rfl,
    by decide,
    (C4_convertTypeToStixType_cases opencti "Attack-Pattern").2.2.2.2.2 rfl rfl (by decide) rfl rfl
      (by decide)⟩

/-! ## C5 -/

/-- C5, evaluation at the failing input: the meta relationship type
`object-marking` is routed to the relationship projector, and the converted
object carries the type "object-marking" instead of "relationship". -/
theorem C5_meta_relationship_type :
    opencti.isStixMetaRelationship "object-marking" = true ∧
    convertTypeToStixType opencti "object-marking" = "object-marking" ∧
    ∃ out, convertStoreToStix opencti sampleObjectMarking = .ok out ∧
      getProp out "type" = .str "object-marking" ∧
      getProp out "source_ref" = .str "malware--2f7c1c6b-8a56-5c0e-9d2c-1c3d0a6e8f11" :=
  ⟨rfl, rfl, _, rfl, rfl, rfl⟩

/-! ## C6 -/

/-- C6, counterexample: the sample instance with an empty standard id is
converted, and the output has no `id` field. -/
theorem C6_id_absent_when_standard_id_empty :
    ∃ out, convertStoreToStix opencti sampleNoStandardId = .ok out ∧
      hasProp out "id" = false :=
  ⟨_, rfl, rfl⟩

/-- C6, amended: on every successful conversion, when the standard id of the
instance is not empty the output has an `id` field equal to it, and when it is
empty the output has no `id` field. -/
theorem C6_output_id (S : Schema) (inst out : Obj) (h : convertStoreToStix S inst = .ok out) :
    (isEmptyField (getProp inst "standard_id") = false →
      hasProp out "id" = true ∧ getProp out "id" = getProp inst "standard_id") ∧
    (isEmptyField (getProp inst "standard_id") = true → hasProp out "id" = false) := by
  obtain ⟨_, _, o, ho, hc⟩ := convertStoreToStix_ok h
  have hp := convertToStix_envelope o ho
  have hg := cleanObject_getProp o hp.nodup out hc "id" (by decide)
  have hh := cleanObject_hasProp o hp.nodup out hc "id"
  rw [hp.id] at hg hh
  refine ⟨fun he => ?_, fun he => ?_⟩
  · have hk : hasProp o "id" = true := by
      apply hasProp_of_getProp_ne
      rw [hp.id]
      intro e
      rw [e] at he
      simp [isEmptyField] at he
    simp [hg, hh, he, hk]
  · simp [hh, he]

/-- C6, amended, on the sample malware. -/
theorem C6_output_id_witness :
    ∃ out, convertStoreToStix opencti sampleMalware = .ok out ∧
      hasProp out "id" = true ∧
      getProp out "id" = .str "malware--2f7c1c6b-8a56-5c0e-9d2c-1c3d0a6e8f11" :=
  ⟨_, rfl, (C6_output_id opencti sampleMalware _ rfl).1 rfl⟩

/-! ## C7 -/

theorem pruneExtensions_idem (v w : JValue) (h : pruneExtensions v = .ok w) :
    pruneExtensions w = .ok w := by
  unfold pruneExtensions at h
  split at h
  · rename_i exts
    split at h
    · exact absurd h (throw_ne_ok _ _)
    · rename_i hany
      rw [pure_eq_ok] at h
      subst h
      unfold pruneExtensions
      simp only
      rw [List.filter_filter]
      split
      · rename_i hany2
        exfalso
        apply hany
        rw [List.any_eq_true] at hany2 ⊢
        obtain ⟨e, he, hm⟩ := hany2
        exact ⟨e, (List.mem_filter.1 he).1, hm⟩
      · simp [pure, Except.pure]
  · rename_i xs
    split at h
    · exact absurd h (throw_ne_ok _ _)
    · rename_i hany
      rw [pure_eq_ok] at h
      subst h
      unfold pruneExtensions
      simp only
      rw [if_neg hany]
      rfl
  · exact absurd h (throw_ne_ok _ _)
  · rename_i h1 h2 h3
    rw [pure_eq_ok] at h
    subst h
    unfold pruneExtensions
    split
    · exact absurd rfl (h1 _)
    · exact absurd rfl (h2 _)
    · exact absurd rfl (h3 _)
    · rfl

/-- C7, counterexample: normalising the sample object with one bare extension
sub-block leaves an empty `extensions` mapping, which a second normalisation
removes: the second pass is not a no-op. -/
theorem C7_cleanObject_not_idempotent :
    cleanObject sampleBareExtension = .ok [("extensions", .obj [])] ∧
    cleanObject [("extensions", .obj [])] = .ok [] ∧
    (cleanObject sampleBareExtension >>= cleanObject) ≠ cleanObject sampleBareExtension := by
  refine ⟨rfl, rfl, ?_⟩
  intro h
  have h2 : (Except.ok [] : Except Err Obj) = .ok [("extensions", .obj [])] := h
  injection h2 with h2
  cases h2

/-- C7, amended: normalisation is idempotent on every object whose normalised
form holds no empty `extensions` mapping: if `cleanObject x` returns `y` and the
value left under `extensions` (if any) is not empty, then `cleanObject y`
returns `y`. -/
theorem C7_cleanObject_idempotent (x : Obj) : ∀ (y : Obj), cleanObject x = .ok y →
    (∀ kv ∈ y, kv.1 = "extensions" → isEmptyField kv.2 = false) →
    cleanObject y = .ok y := by
  induction x with
  | nil =>
    intro y h _
    simp only [cleanObject, pure_eq_ok] at h
    subst h
    rfl
  | cons e rest ih =>
    intro y h hne
    obtain ⟨k, v⟩ := e
    cases hv : isEmptyField v
    · by_cases hk : k = "extensions"
      · simp only [cleanObject, hv, hk, if_true, bind_eq_ok, pure_eq_ok, Bool.false_eq_true,
          if_false] at h
        obtain ⟨w, hw, rest', hrest, rfl⟩ := h
        have h1 : isEmptyField w = false := hne ("extensions", w) (List.mem_cons_self _ _) rfl
        have h2 := ih rest' hrest (fun kv hkv => hne kv (List.mem_cons_of_mem _ hkv))
        simp [cleanObject, h1, pruneExtensions_idem v w hw, h2, bind, Except.bind, pure,
          Except.pure]
      · simp only [cleanObject, hv, hk, if_false, bind_eq_ok, pure_eq_ok, Bool.false_eq_true] at h
        obtain ⟨rest', hrest, rfl⟩ := h
        have h2 := ih rest' hrest (fun kv hkv => hne kv (List.mem_cons_of_mem _ hkv))
        simp [cleanObject, hv, hk, h2, bind, Except.bind, pure, Except.pure]
    · simp only [cleanObject, hv, if_true] at h
      exact ih y h hne

/-- C7, amended, on the sample object with two extension sub-blocks. -/
theorem C7_cleanObject_idempotent_witness :
    cleanObject sampleTwoBlocks = .ok sampleTwoBlocksClean ∧
    (∀ kv ∈ sampleTwoBlocksClean, kv.1 = "extensions" → isEmptyField kv.2 = false) ∧
    cleanObject sampleTwoBlocksClean = .ok sampleTwoBlocksClean :=
  have hne : ∀ kv ∈ sampleTwoBlocksClean, kv.1 = "extensions" → isEmptyField kv.2 = false := by
    intro kv hkv hk
    simp only [sampleTwoBlocksClean, List.mem_cons, List.mem_singleton, List.not_mem_nil,
      or_false] at hkv
    rcases hkv with rfl | rfl
    · exact absurd hk (by decide)
    · rfl
  ⟨rfl, hne, C7_cleanObject_idempotent sampleTwoBlocks sampleTwoBlocksClean rfl hne⟩

/-! ## C8 -/

theorem pruneExtensions_obj_ok (exts : Obj) (w : JValue) (h : pruneExtensions (.obj exts) = .ok w) :
    w = .obj (exts.filter (fun e => entriesLength e.2 != 1)) := by
  unfold pruneExtensions at h
  simp only at h
  split at h
  · exact absurd h (throw_ne_ok _ _)
  · rw [pure_eq_ok] at h
    exact h.symm

theorem cleanObject_total (data : Obj)
    (h : ∀ kv ∈ data, kv.1 = "extensions" → isEmptyField kv.2 = false →
      ∃ w, pruneExtensions kv.2 = .ok w) :
    ∃ out, cleanObject data = .ok out := by
  induction data with
  | nil => exact ⟨[], rfl⟩
  | cons e rest ih =>
    obtain ⟨k, v⟩ := e
    obtain ⟨rest', hrest⟩ := ih (fun kv hkv => h kv (List.mem_cons_of_mem _ hkv))
    cases hv : isEmptyField v
    · by_cases hk : k = "extensions"
      · obtain ⟨w, hw⟩ := h (k, v) (List.mem_cons_self _ _) hk hv
        simp only at hw
        exact ⟨(k, w) :: rest', by
          simp [cleanObject, hv, hk, hw, hrest, bind, Except.bind, pure, Except.pure]⟩
      · exact ⟨(k, v) :: rest', by
          simp [cleanObject, hv, hk, hrest, bind, Except.bind, pure, Except.pure]⟩
    · exact ⟨rest', by simp [cleanObject, hv, hrest]⟩

/-- C8, counterexample: the platform extension block of the sample object holds
only its discriminator, and normalisation deletes it like any other sub-block
with a single entry. -/
theorem C8_bare_platform_block_deleted :
    ∃ out, cleanObject sampleBarePlatform = .ok out ∧
      hasProp (extensionsOf sampleBarePlatform) opencti.STIX_EXT_OCTI = true ∧
      hasProp (extensionsOf out) opencti.STIX_EXT_OCTI = false :=
  ⟨_, rfl, rfl, rfl⟩

/-- C8, amended: for every object whose `extensions` mapping holds sub-blocks,
normalisation returns an object that keeps under `extensions` exactly the
sub-blocks whose number of entries is not one, unchanged and in order; a
sub-block with a single entry is deleted, the platform extension block
included. -/
theorem C8_cleanObject_prunes_single_entry_blocks (data exts : Obj) (hn : NoDupKeys data)
    (hx : getProp data "extensions" = .obj exts) (hne : exts ≠ [])
    (hb : ∀ e ∈ exts, ∃ b, e.2 = .obj b) :
    ∃ out, cleanObject data = .ok out ∧
      getProp out "extensions" = .obj (exts.filter (fun e => entriesLength e.2 != 1)) := by
  have he : isEmptyField (getProp data "extensions") = false := by
    rw [hx]
    cases exts with
    | nil => exact absurd rfl hne
    | cons _ _ => rfl
  obtain ⟨out, hout⟩ := cleanObject_total data (by
    intro kv hkv hk _
    have : kv.2 = .obj exts := by
      rw [← hx, ← hk]
      exact (getProp_eq_of_mem data hn kv.1 kv.2 hkv).symm
    rw [this]
    exact ⟨_, pruneExtensions_obj exts hb⟩)
  have hp := cleanObject_getProp_ext data out hout he
  rw [hx] at hp
  exact ⟨out, hout, pruneExtensions_obj_ok exts _ hp⟩

/-- C8, amended, on the sample object with two extension sub-blocks: the block
with two entries is kept and the block with one entry is deleted. -/
theorem C8_cleanObject_prunes_single_entry_blocks_witness :
    NoDupKeys sampleTwoBlocks ∧
    ∃ out, cleanObject sampleTwoBlocks = .ok out ∧
      getProp out "extensions" = .obj [
        ("extension-definition--ea279b3e-5c71-4632-ac08-831c66a786ba",
          .obj [("extension_type", .str "property-extension"), ("type", .str "Url")])] :=
  ⟨by decide, C8_cleanObject_prunes_single_entry_blocks sampleTwoBlocks _ (by decide) rfl
    (fun e => List.noConfusion e) (by
      intro e he
      simp only [List.mem_cons, List.mem_singleton, List.not_mem_nil, or_false] at he
      rcases he with rfl | rfl
      · exact ⟨_, rfl⟩
      · exact ⟨_, rfl⟩)⟩

/-! ## C9 -/

/-- C9, evaluation at the failing input: the sample file observable has no
`hashes` attribute, its projector sets `hashes` to the empty mapping, and the
converted object has no `hashes` field. -/
theorem C9_file_without_hashes :
    getProp sampleFile "hashes" = .undefined ∧
    ∃ out, convertStoreToStix opencti sampleFile = .ok out ∧ hasProp out "hashes" = false :=
  ⟨rfl, _, rfl, rfl⟩

/-! ## C10 -/

/-- C10: on every successful conversion, `x_opencti_stix_ids` (the empty list
when unset) is a list of ids that all have a UUID version, and the `stix_ids`
of the platform extension block is the sublist, in the original order, of the
ids whose UUID version is not 1; the field is absent when that sublist is
empty. -/
theorem C10_stix_ids_trusted (S : Schema) (inst out : Obj) (hS : S.ExtKeysDistinct)
    (h : convertStoreToStix S inst = .ok out) :
    ∃ blk ids, getProp (extensionsOf out) S.STIX_EXT_OCTI = .obj blk ∧
      nullish (getProp inst "x_opencti_stix_ids") (.arr []) = .arr ids ∧
      (∀ id ∈ ids, ∃ v, uuidVersionOf S id = some v) ∧
      (trustedIds S ids ≠ [] →
        hasProp blk "stix_ids" = true ∧ getProp blk "stix_ids" = .arr (trustedIds S ids)) ∧
      (trustedIds S ids = [] → hasProp blk "stix_ids" = false) := by
  obtain ⟨o, exts, blk, hp, hc, hx, hE, hg, hB, _, hout, hkeep⟩ := convertStoreToStix_shape hS h
  obtain ⟨octi, hocti, hk⟩ := hB.base
  obtain ⟨files, idsJ, flag, hids, _, rfl⟩ := buildOCTIExtensions_eq hocti
  obtain ⟨ids, hnull, hver, rfl⟩ := filterArray_isTrusted hids
  have hblk : getProp blk "stix_ids" =
      if isEmptyField (.arr (trustedIds S ids)) = true then .undefined
      else .arr (trustedIds S ids) := by
    rw [hk "stix_ids" (by simp [octiKeys]), getProp_nonEmptyEntries _ (by simp [NoDupKeys, keys])]
    simp [getProp]
  refine ⟨blk, ids, by simp [extensionsOf, hout, spread, hkeep], hnull, hver, ?_, ?_⟩
  · intro hne
    have he : isEmptyField (.arr (trustedIds S ids)) = false := by
      cases ht : trustedIds S ids with
      | nil => exact absurd ht hne
      | cons _ _ => rfl
    rw [he] at hblk
    simp only [Bool.false_eq_true, if_false] at hblk
    exact ⟨hasProp_of_getProp_ne _ _ (by rw [hblk]; exact fun e => JValue.noConfusion e), hblk⟩
  · intro hnil
    rw [hnil] at hblk
    simp only [isEmptyField, if_true] at hblk
    exact hasProp_false_of_getProp_undefined blk hB.nonEmpty _ hblk

/-- C10 on the sample malware: of its two stix ids the one with a version 1
UUID is dropped and the one with a version 4 UUID is kept. -/
theorem C10_stix_ids_trusted_witness :
    opencti.ExtKeysDistinct ∧
    trustedIds opencti [.str "malware--c8b3e2a0-5f1d-11ec-bf63-0242ac130002",
      .str "malware--6f2d9c1e-3b7a-4e58-9a10-5d2c7e8b1f33"] =
      [.str "malware--6f2d9c1e-3b7a-4e58-9a10-5d2c7e8b1f33"] ∧
    ∃ out, convertStoreToStix opencti sampleMalware = .ok out ∧
      ∃ blk ids, getProp (extensionsOf out) opencti.STIX_EXT_OCTI = .obj blk ∧
        nullish (getProp sampleMalware "x_opencti_stix_ids") (.arr []) = .arr ids ∧
        (∀ id ∈ ids, ∃ v, uuidVersionOf opencti id = some v) ∧
        (trustedIds opencti ids ≠ [] →
          hasProp blk "stix_ids" = true ∧
          getProp blk "stix_ids" = .arr (trustedIds opencti ids)) ∧
        (trustedIds opencti ids = [] → hasProp blk "stix_ids" = false) :=
  ⟨opencti_extKeysDistinct, rfl, _, rfl,
    C10_stix_ids_trusted opencti sampleMalware _ opencti_extKeysDistinct rfl⟩

/-! ## Lemmas on the error paths -/

theorem throw_eq_error {α : Type} (e : Err) : (throw e : Except Err α) = .error e := rfl

theorem error_bind {α β : Type} (e : Err) (f : α → Except Err β) :
    ((Except.error e : Except Err α) >>= f) = .error e := rfl

theorem ok_bind {α β : Type} (a : α) (f : α → Except Err β) :
    ((Except.ok a : Except Err α) >>= f) = f a := rfl

theorem entityType_of_str {inst : Obj} {t : String} (h : getProp inst "entity_type" = .str t) :
    entityType inst = .ok t := by
  unfold entityType
  rw [h]
  rfl

theorem convertStoreToStix_of_loaded (S : Schema) (inst : Obj)
    (hi : isEmptyField (getProp inst "_index") = false)
    (he : isEmptyField (getProp inst "entity_type") = false) :
    convertStoreToStix S inst = (do
      let converted ← convertToStix S inst
      let stix ← cleanObject converted
      if !isValidStix stix then throw (.functional "Invalid stix data conversion")
      else pure stix) := by
  unfold convertStoreToStix
  rw [hi, he]
  rfl

theorem convertStoreToStix_of_error (S : Schema) (inst : Obj) (e : Err)
    (hi : isEmptyField (getProp inst "_index") = false)
    (he : isEmptyField (getProp inst "entity_type") = false)
    (h : convertToStix S inst = .error e) :
    convertStoreToStix S inst = .error e := by
  rw [convertStoreToStix_of_loaded S inst hi he, h]
  rfl

theorem checkInstanceCompletion_from (inst : Obj)
    (h : isEmptyField (getProp inst "from") = true) :
    checkInstanceCompletion inst = .error (.unsupported
      ("Cannot convert relation without a resolved from: " ++
        toJsString (getProp inst "fromId"))) := by
  unfold checkInstanceCompletion
  rw [h]
  simp [throw_eq_error]

theorem checkInstanceCompletion_to (inst : Obj)
    (h1 : isEmptyField (getProp inst "from") = false)
    (h2 : isEmptyField (getProp inst "to") = true) :
    checkInstanceCompletion inst = .error (.unsupported
      ("Cannot convert relation without a resolved to: " ++
        toJsString (getProp inst "toId"))) := by
  unfold checkInstanceCompletion
  rw [h1, h2]
  cases hf : getProp inst "from" <;> simp_all [isEmptyField, throw_eq_error]

theorem convertRelationToStix_of_incomplete (S : Schema) (inst : Obj) (e : Err)
    (h : checkInstanceCompletion inst = .error e) : convertRelationToStix S inst = .error e := by
  unfold convertRelationToStix
  rw [h]
  rfl

theorem convertSightingToStix_of_incomplete (S : Schema) (inst : Obj) (e : Err)
    (h : checkInstanceCompletion inst = .error e) : convertSightingToStix S inst = .error e := by
  unfold convertSightingToStix
  rw [h]
  rfl

theorem convertRelationshipKind_of_incomplete (S : Schema) (inst : Obj) (t : String) (e : Err)
    (hk : (S.isStixCoreRelationship t || S.isStixCyberObservableRelationship t ||
      S.isStixSightingRelationship t || S.isStixMetaRelationship t) = true)
    (h : checkInstanceCompletion inst = .error e) :
    convertRelationshipKind S inst t = .error e := by
  unfold convertRelationshipKind
  have h1 := convertRelationToStix_of_incomplete S inst e h
  have h2 := convertSightingToStix_of_incomplete S inst e h
  rw [h1, h2]
  simp only [Bool.or_eq_true] at hk
  split_ifs <;> first | rfl | simp_all

theorem convertToStix_relationship (S : Schema) (inst : Obj) (t : String)
    (ht : getProp inst "entity_type" = .str t) (hr : S.isStixRelationship t = true) :
    convertToStix S inst = convertRelationshipKind S inst t := by
  unfold convertToStix
  rw [entityType_of_str ht]
  simp [ok_bind, hr]

/-! ## C11 -/

/-- C11: for every fully loaded instance of a relationship or sighting type,
when `from` is missing or empty the conversion raises the unsupported error
whose message ends with `instance.fromId` (whatever `to` is), and when `from`
is resolved and `to` is missing or empty it raises the unsupported error whose
message ends with `instance.toId`; no object is returned. -/
theorem C11_unresolved_endpoint (S : Schema) (inst : Obj) (t : String)
    (hi : isEmptyField (getProp inst "_index") = false)
    (ht : getProp inst "entity_type" = .str t) (hne : t ≠ "")
    (hr : S.isStixRelationship t = true)
    (hk : (S.isStixCoreRelationship t || S.isStixCyberObservableRelationship t ||
      S.isStixSightingRelationship t || S.isStixMetaRelationship t) = true) :
    (isEmptyField (getProp inst "from") = true →
      convertStoreToStix S inst = .error (.unsupported
        ("Cannot convert relation without a resolved from: " ++
          toJsString (getProp inst "fromId")))) ∧
    (isEmptyField (getProp inst "from") = false → isEmptyField (getProp inst "to") = true →
      convertStoreToStix S inst = .error (.unsupported
        ("Cannot convert relation without a resolved to: " ++
          toJsString (getProp inst "toId")))) := by
  have he : isEmptyField (getProp inst "entity_type") = false := by
    rw [ht]
    simp [isEmptyField, hne]
  refine ⟨fun hf => ?_, fun hf hto => ?_⟩
  · apply convertStoreToStix_of_error S inst _ hi he
    rw [convertToStix_relationship S inst t ht hr]
    exact convertRelationshipKind_of_incomplete S inst t _ hk (checkInstanceCompletion_from inst hf)
  · apply convertStoreToStix_of_error S inst _ hi he
    rw [convertToStix_relationship S inst t ht hr]
    exact convertRelationshipKind_of_incomplete S inst t _ hk
      (checkInstanceCompletion_to inst hf hto)

/-- C11 on a core relationship without `from` and on a sighting whose `to` is `null`. -/
theorem C11_unresolved_endpoint_witness :
    convertStoreToStix opencti sampleRelationNoFrom = .error (.unsupported
      "Cannot convert relation without a resolved from: 4a1f") ∧
    convertStoreToStix opencti sampleSightingNoTo = .error (.unsupported
      "Cannot convert relation without a resolved to: 62c8") :=
  ⟨(C11_unresolved_endpoint opencti sampleRelationNoFrom "uses" rfl rfl (by decide) rfl rfl).1 rfl,
    (C11_unresolved_endpoint opencti sampleSightingNoTo "stix-sighting-relationship" rfl rfl
      (by decide) rfl rfl).2 rfl rfl⟩

/-! ## C12 -/

/-- C12: for every fully loaded instance whose entity type is neither a STIX
object type nor a STIX relationship type, the conversion raises the unsupported
error "Type <type> cannot be converted to Stix". -/
theorem C12_unknown_type (S : Schema) (inst : Obj) (t : String)
    (hi : isEmptyField (getProp inst "_index") = false)
    (ht : getProp inst "entity_type" = .str t) (hne : t ≠ "")
    (ho : S.isStixObject t = false) (hr : S.isStixRelationship t = false) :
    convertStoreToStix S inst =
      .error (.unsupported ("Type " ++ t ++ " cannot be converted to Stix")) := by
  have he : isEmptyField (getProp inst "entity_type") = false := by
    rw [ht]
    simp [isEmptyField, hne]
  apply convertStoreToStix_of_error S inst _ hi he
  unfold convertToStix
  rw [entityType_of_str ht]
  simp [ok_bind, ho, hr, throw_eq_error]

/-- C12 on an instance of type `Workspace`. -/
theorem C12_unknown_type_witness :
    convertStoreToStix opencti sampleUnknownType =
      .error (.unsupported "Type Workspace cannot be converted to Stix") :=
  C12_unknown_type opencti sampleUnknownType "Workspace" rfl rfl (by decide) rfl rfl

/-! ## C13 -/

/-- C13: for every instance whose `_index` or `entity_type` is empty, the
conversion raises the unsupported error of the entry guard, whatever the schema
and the other attributes are. -/
theorem C13_not_fully_loaded (S : Schema) (inst : Obj)
    (h : isEmptyField (getProp inst "_index") = true ∨
      isEmptyField (getProp inst "entity_type") = true) :
    convertStoreToStix S inst = .error (.unsupported
      "convertInstanceToStix must be used with opencti fully loaded instance") := by
  unfold convertStoreToStix
  rcases h with h | h <;> simp [h, throw_eq_error]

/-- C13 on a malware instance that has no `_index`. -/
theorem C13_not_fully_loaded_witness :
    convertStoreToStix opencti sampleNoIndex = .error (.unsupported
      "convertInstanceToStix must be used with opencti fully loaded instance") :=
  C13_not_fully_loaded opencti sampleNoIndex (Or.inl rfl)

/-! ## A category without a projector for the type -/

theorem convertRelationshipKind_none (S : Schema) (inst : Obj) (t : String)
    (h : (S.isStixCoreRelationship t || S.isStixCyberObservableRelationship t ||
      S.isStixSightingRelationship t || S.isStixMetaRelationship t) = false) :
    convertRelationshipKind S inst t =
      .error (.unsupported ("No relation converter available for " ++ t)) := by
  simp only [Bool.or_eq_false_iff] at h
  obtain ⟨⟨⟨h1, h2⟩, h3⟩, h4⟩ := h
  simp [convertRelationshipKind, h1, h2, h3, h4, throw_eq_error]

theorem convertDomainKind_none (S : Schema) (inst : Obj) (t : String)
    (h : (S.isStixDomainObjectIdentity t || S.isStixDomainObjectLocation t ||
      (domainProjectorTypes S).contains t) = false) :
    convertDomainKind S inst t =
      .error (.unsupported ("No entity converter available for " ++ t)) := by
  simp only [Bool.or_eq_false_iff, domainProjectorTypes, List.contains_eq_any_beq,
    List.any_cons, List.any_nil, Bool.or_false, beq_eq_false_iff_ne, ne_eq] at h
  obtain ⟨⟨h1, h2⟩, h3⟩ := h
  simp only [convertDomainKind, h1, h2, Bool.false_eq_true, if_false]
  simp [eq_comm, h3, throw_eq_error]

theorem convertMetaKind_none (S : Schema) (inst : Obj) (t : String)
    (h : (metaProjectorTypes S).contains t = false) :
    convertMetaKind S inst t =
      .error (.unsupported ("No meta converter available for " ++ t)) := by
  simp only [Bool.or_eq_false_iff, metaProjectorTypes, List.contains_eq_any_beq,
    List.any_cons, List.any_nil, Bool.or_false, beq_eq_false_iff_ne, ne_eq] at h
  simp [convertMetaKind, eq_comm, h, throw_eq_error]

theorem convertObservableKind_none (S : Schema) (inst : Obj) (t : String)
    (h : (observableProjectorTypes S).contains t = false) :
    convertObservableKind S inst t =
      .error (.unsupported ("No meta cyber observable available for " ++ t)) := by
  simp only [Bool.or_eq_false_iff, observableProjectorTypes, List.contains_eq_any_beq,
    List.any_cons, List.any_nil, Bool.or_false, beq_eq_false_iff_ne, ne_eq] at h
  simp [convertObservableKind, eq_comm, h, throw_eq_error]

/-! ## C14 -/

/-- C14: for every fully loaded instance whose type is a STIX object or
relationship type that the dispatcher classifies in a category (relationship,
domain object, meta object, cyber observable, tested in this order) holding no
projector for it, the conversion raises the unsupported error of that category,
"No relation converter available for <type>", "No entity converter available
for <type>", "No meta converter available for <type>" or "No meta cyber
observable available for <type>"; no object is returned. -/
theorem C14_no_projector (S : Schema) (inst : Obj) (t : String)
    (hi : isEmptyField (getProp inst "_index") = false)
    (ht : getProp inst "entity_type" = .str t) (hne : t ≠ "")
    (hcls : (S.isStixObject t || S.isStixRelationship t) = true)
    (hcat : (S.isStixRelationship t || S.isStixDomainObject t || S.isStixMetaObject t ||
      S.isStixCyberObservable t) = true)
    (hp : hasProjector S t = false) :
    convertStoreToStix S inst = .error (.unsupported (noProjectorMessage S t)) := by
  have he : isEmptyField (getProp inst "entity_type") = false := by
    rw [ht]
    simp [isEmptyField, hne]
  apply convertStoreToStix_of_error S inst _ hi he
  unfold convertToStix
  rw [entityType_of_str ht, ok_bind]
  have h0 : ¬ ((!S.isStixObject t && !S.isStixRelationship t) = true) := by
    cases h1 : S.isStixObject t <;> cases h2 : S.isStixRelationship t <;> simp_all
  rw [if_neg h0]
  unfold hasProjector at hp
  unfold noProjectorMessage
  by_cases hr : S.isStixRelationship t = true
  · rw [if_pos hr] at hp ⊢
    rw [if_pos hr]
    exact convertRelationshipKind_none S inst t hp
  · rw [if_neg hr] at hp ⊢
    rw [if_neg hr]
    by_cases hd : S.isStixDomainObject t = true
    · rw [if_pos hd] at hp ⊢
      rw [if_pos hd]
      exact convertDomainKind_none S inst t hp
    · rw [if_neg hd] at hp ⊢
      rw [if_neg hd]
      by_cases hm : S.isStixMetaObject t = true
      · rw [if_pos hm] at hp ⊢
        rw [if_pos hm]
        exact convertMetaKind_none S inst t hp
      · rw [if_neg hm] at hp ⊢
        rw [if_neg hm]
        have hc : S.isStixCyberObservable t = true := by
          simp only [Bool.or_eq_true] at hcat
          rcases hcat with ((h | h) | h) | h
          · exact absurd h hr
          · exact absurd h hd
          · exact absurd h hm
          · exact h
        rw [if_pos hc] at hp ⊢
        exact convertObservableKind_none S inst t hp

/-- C14 on the widened sample schema: one type without projector in each of
the four categories. -/
theorem C14_no_projector_witness :
    convertStoreToStix openctiWide (sampleOfType "stix-relationship") = .error (.unsupported
      "No relation converter available for stix-relationship") ∧
    convertStoreToStix openctiWide (sampleOfType "Narrative") = .error (.unsupported
      "No entity converter available for Narrative") ∧
    convertStoreToStix openctiWide (sampleOfType "Language") = .error (.unsupported
      "No meta converter available for Language") ∧
    convertStoreToStix openctiWide (sampleOfType "X-OpenCTI-User-Agent") = .error (.unsupported
      "No meta cyber observable available for X-OpenCTI-User-Agent") :=
  ⟨C14_no_projector openctiWide (sampleOfType "stix-relationship") "stix-relationship"
      rfl rfl (by decide) rfl rfl rfl,
    C14_no_projector openctiWide (sampleOfType "Narrative") "Narrative"
      rfl rfl (by decide) rfl rfl rfl,
    C14_no_projector openctiWide (sampleOfType "Language") "Language"
      rfl rfl (by decide) rfl rfl rfl,
    C14_no_projector openctiWide (sampleOfType "X-OpenCTI-User-Agent") "X-OpenCTI-User-Agent"
      rfl rfl (by decide) rfl rfl rfl⟩

/-! ## No projector raises a functional error -/

theorem nf_pure {α : Type} (a : α) : NotFunctional (pure a : Except Err α) := by
  intro msg h
  cases h

theorem nf_throw_unsupported {α : Type} (m : String) :
    NotFunctional (throw (Err.unsupported m) : Except Err α) := by
  intro msg h
  cases h

theorem nf_throw_typeError {α : Type} : NotFunctional (throw Err.typeError : Except Err α) := by
  intro msg h
  cases h

theorem nf_bind {α β : Type} {x : Except Err α} {f : α → Except Err β}
    (hx : NotFunctional x) (hf : ∀ a, NotFunctional (f a)) : NotFunctional (x >>= f) := by
  intro msg h
  cases x with
  | error e =>
    have : (Except.error e : Except Err β) = .error (.functional msg) := h
    injection this with this
    exact hx msg (by rw [this])
  | ok a => exact hf a msg h

theorem nf_ite {α : Type} {c : Prop} [Decidable c] {x y : Except Err α}
    (hx : NotFunctional x) (hy : NotFunctional y) : NotFunctional (if c then x else y) := by
  split
  · exact hx
  · exact hy

theorem nf_prop (v : JValue) (k : String) : NotFunctional (prop v k) := by
  unfold prop
  split <;> first | exact nf_pure _ | exact nf_throw_typeError

theorem nf_traverse (f : JValue → Except Err JValue) (hf : ∀ x, NotFunctional (f x))
    (xs : List JValue) : NotFunctional (traverse f xs) := by
  induction xs with
  | nil => exact nf_pure _
  | cons x rest ih =>
    unfold traverse
    exact nf_bind (hf x) (fun _ => nf_bind ih (fun _ => nf_pure _))

theorem nf_filterM (p : JValue → Except Err Bool) (hp : ∀ x, NotFunctional (p x))
    (xs : List JValue) : NotFunctional (filterM p xs) := by
  induction xs with
  | nil => exact nf_pure _
  | cons x rest ih =>
    unfold filterM
    exact nf_bind (hp x) (fun _ => nf_bind ih (fun _ => nf_pure _))

theorem nf_mapArray (f : JValue → Except Err JValue) (hf : ∀ x, NotFunctional (f x))
    (v : JValue) : NotFunctional (mapArray f v) := by
  unfold mapArray
  split
  · exact nf_bind (nf_traverse f hf _) (fun _ => nf_pure _)
  · exact nf_throw_typeError

theorem nf_filterArray (p : JValue → Except Err Bool) (hp : ∀ x, NotFunctional (p x))
    (v : JValue) : NotFunctional (filterArray p v) := by
  unfold filterArray
  split
  · exact nf_bind (nf_filterM p hp _) (fun _ => nf_pure _)
  · exact nf_throw_typeError

theorem nf_isTrustedStixId (S : Schema) (id : JValue) : NotFunctional (isTrustedStixId S id) := by
  unfold isTrustedStixId
  split <;> first | exact nf_pure _ | exact nf_throw_typeError

theorem nf_pruneExtensions (v : JValue) : NotFunctional (pruneExtensions v) := by
  unfold pruneExtensions
  split
  · exact nf_ite nf_throw_typeError (nf_pure _)
  · exact nf_ite nf_throw_typeError (nf_pure _)
  · exact nf_throw_typeError
  · exact nf_pure _

theorem nf_cleanObject (data : Obj) : NotFunctional (cleanObject data) := by
  induction data with
  | nil => exact nf_pure _
  | cons kv rest ih =>
    obtain ⟨k, v⟩ := kv
    unfold cleanObject
    refine nf_ite ih (nf_ite ?_ ?_)
    · exact nf_bind (nf_pruneExtensions v) (fun _ => nf_bind ih (fun _ => nf_pure _))
    · exact nf_bind ih (fun _ => nf_pure _)

theorem nf_inferredFlag (S : Schema) (v : JValue) : NotFunctional (inferredFlag S v) := by
  unfold inferredFlag
  split
  · split <;> first | exact nf_pure _ | exact nf_throw_typeError
  · exact nf_pure _

theorem nf_entityType (inst : Obj) : NotFunctional (entityType inst) := by
  unfold entityType
  split <;> first | exact nf_pure _ | exact nf_throw_typeError

theorem nf_standardIds (inst : Obj) (slot : String) : NotFunctional (standardIds inst slot) :=
  nf_mapArray _ (fun _ => nf_prop _ _) _

theorem nf_labelValues (S : Schema) (inst : Obj) : NotFunctional (labelValues S inst) :=
  nf_mapArray _ (fun _ => nf_prop _ _) _

theorem nf_assertType (a b : String) : NotFunctional (assertType a b) := by
  unfold assertType
  exact nf_ite (nf_throw_unsupported _) (nf_pure _)

theorem nf_checkInstanceCompletion (inst : Obj) :
    NotFunctional (checkInstanceCompletion inst) := by
  unfold checkInstanceCompletion
  exact nf_ite (nf_throw_unsupported _) (nf_ite (nf_throw_unsupported _) (nf_pure _))

theorem nf_buildOCTIExtensions (S : Schema) (inst : Obj) :
    NotFunctional (buildOCTIExtensions S inst) := by
  unfold buildOCTIExtensions
  repeat' with_reducible first
    | apply nf_bind
    | intro _
    | exact nf_pure _
    | apply nf_mapArray
    | exact nf_cleanObject _
    | exact nf_prop _ _
    | exact nf_inferredFlag _ _
    | exact nf_filterArray _ (nf_isTrustedStixId _) _

theorem nf_buildMITREExtensions (inst : Obj) : NotFunctional (buildMITREExtensions inst) :=
  nf_cleanObject _

theorem nf_buildStixObject (S : Schema) (inst : Obj) :
    NotFunctional (buildStixObject S inst) := by
  unfold buildStixObject
  repeat' with_reducible first
    | apply nf_bind
    | intro _
    | exact nf_pure _
    | exact nf_entityType _
    | exact nf_buildOCTIExtensions _ _

theorem nf_buildKillChainPhases (S : Schema) (inst : Obj) :
    NotFunctional (buildKillChainPhases S inst) := by
  unfold buildKillChainPhases
  repeat' with_reducible first
    | apply nf_bind
    | intro _
    | exact nf_pure _
    | apply nf_mapArray
    | exact nf_cleanObject _
    | exact nf_prop _ _

theorem nf_buildExternalReferences (S : Schema) (inst : Obj) :
    NotFunctional (buildExternalReferences S inst) := by
  unfold buildExternalReferences
  repeat' with_reducible first
    | apply nf_bind
    | intro _
    | exact nf_pure _
    | apply nf_mapArray
    | exact nf_cleanObject _
    | exact nf_prop _ _

theorem nf_buildWindowsRegistryValueType (S : Schema) (inst : Obj) :
    NotFunctional (buildWindowsRegistryValueType S inst) := by
  unfold buildWindowsRegistryValueType
  repeat' with_reducible first
    | apply nf_bind
    | intro _
    | exact nf_pure _
    | apply nf_mapArray
    | exact nf_cleanObject _
    | exact nf_prop _ _

theorem nf_buildEmailBodyMultipart (S : Schema) (inst : Obj) :
    NotFunctional (buildEmailBodyMultipart S inst) := by
  unfold buildEmailBodyMultipart
  repeat' with_reducible first
    | apply nf_bind
    | intro _
    | exact nf_pure _
    | apply nf_mapArray
    | exact nf_cleanObject _
    | exact nf_prop _ _

theorem nf_buildStixDomain (S : Schema) (inst : Obj) :
    NotFunctional (buildStixDomain S inst) := by
  unfold buildStixDomain
  repeat' with_reducible first
    | apply nf_bind
    | intro _
    | exact nf_pure _
    | exact nf_standardIds _ _
    | exact nf_labelValues _ _
    | exact nf_buildStixObject _ _
    | exact nf_buildExternalReferences _ _

theorem nf_buildStixRelationship (S : Schema) (inst : Obj) :
    NotFunctional (buildStixRelationship S inst) :=
  nf_buildStixDomain S inst

theorem nf_buildStixMarkings (S : Schema) (inst : Obj) :
    NotFunctional (buildStixMarkings S inst) := by
  unfold buildStixMarkings
  repeat' with_reducible first
    | apply nf_bind
    | intro _
    | exact nf_pure _
    | exact nf_standardIds _ _
    | exact nf_buildStixObject _ _
    | exact nf_buildExternalReferences _ _

theorem nf_buildStixCyberObservable (S : Schema) (inst : Obj) :
    NotFunctional (buildStixCyberObservable S inst) := by
  unfold buildStixCyberObservable
  repeat' with_reducible first
    | apply nf_bind
    | intro _
    | exact nf_pure _
    | exact nf_cleanObject _
    | exact nf_standardIds _ _
    | exact nf_labelValues _ _
    | exact nf_buildStixObject _ _
    | exact nf_buildExternalReferences _ _

theorem nf_convertIdentityToStix (S : Schema) (inst : Obj) (t : String) :
    NotFunctional (convertIdentityToStix S inst t) := by
  unfold convertIdentityToStix
  repeat' with_reducible first
    | apply nf_bind
    | intro _
    | exact nf_pure _
    | exact nf_throw_unsupported _
    | apply nf_ite
    | exact nf_cleanObject _
    | exact nf_buildStixDomain _ _

theorem nf_convertLocationToStix (S : Schema) (inst : Obj) (t : String) :
    NotFunctional (convertLocationToStix S inst t) := by
  unfold convertLocationToStix
  repeat' with_reducible first
    | apply nf_bind
    | intro _
    | exact nf_pure _
    | exact nf_throw_unsupported _
    | apply nf_ite
    | exact nf_buildStixDomain _ _

theorem nf_convertReportToStix (S : Schema) (inst : Obj) (t : String) :
    NotFunctional (convertReportToStix S inst t) := by
  unfold convertReportToStix
  repeat' with_reducible first
    | apply nf_bind
    | intro _
    | exact nf_pure _
    | exact nf_standardIds _ _
    | exact nf_assertType _ _
    | exact nf_buildStixDomain _ _

theorem nf_convertMalwareToStix (S : Schema) (inst : Obj) (t : String) :
    NotFunctional (convertMalwareToStix S inst t) := by
  unfold convertMalwareToStix
  repeat' with_reducible first
    | apply nf_bind
    | intro _
    | exact nf_pure _
    | exact nf_standardIds _ _
    | exact nf_assertType _ _
    | exact nf_buildKillChainPhases _ _
    | exact nf_buildStixDomain _ _

theorem nf_convertInfrastructureToStix (S : Schema) (inst : Obj) (t : String) :
    NotFunctional (convertInfrastructureToStix S inst t) := by
  unfold convertInfrastructureToStix
  repeat' with_reducible first
    | apply nf_bind
    | intro _
    | exact nf_pure _
    | exact nf_assertType _ _
    | exact nf_buildKillChainPhases _ _
    | exact nf_buildStixDomain _ _

theorem nf_convertAttackPatternToStix (S : Schema) (inst : Obj) (t : String) :
    NotFunctional (convertAttackPatternToStix S inst t) := by
  unfold convertAttackPatternToStix
  repeat' with_reducible first
    | apply nf_bind
    | intro _
    | exact nf_pure _
    | exact nf_assertType _ _
    | exact nf_buildOCTIExtensions _ _
    | exact nf_buildMITREExtensions _
    | exact nf_buildKillChainPhases _ _
    | exact nf_buildStixDomain _ _

theorem nf_convertCampaignToStix (S : Schema) (inst : Obj) (t : String) :
    NotFunctional (convertCampaignToStix S inst t) := by
  unfold convertCampaignToStix
  repeat' with_reducible first
    | apply nf_bind
    | intro _
    | exact nf_pure _
    | exact nf_assertType _ _
    | exact nf_buildStixDomain _ _

theorem nf_convertThreatActorToStix (S : Schema) (inst : Obj) (t : String) :
    NotFunctional (convertThreatActorToStix S inst t) := by
  unfold convertThreatActorToStix
  repeat' with_reducible first
    | apply nf_bind
    | intro _
    | exact nf_pure _
    | exact nf_assertType _ _
    | exact nf_buildStixDomain _ _

theorem nf_convertNoteToStix (S : Schema) (inst : Obj) (t : String) :
    NotFunctional (convertNoteToStix S inst t) := by
  unfold convertNoteToStix
  repeat' with_reducible first
    | apply nf_bind
    | intro _
    | exact nf_pure _
    | exact nf_standardIds _ _
    | exact nf_assertType _ _
    | exact nf_buildStixDomain _ _

theorem nf_convertOpinionToStix (S : Schema) (inst : Obj) (t : String) :
    NotFunctional (convertOpinionToStix S inst t) := by
  unfold convertOpinionToStix
  repeat' with_reducible first
    | apply nf_bind
    | intro _
    | exact nf_pure _
    | exact nf_standardIds _ _
    | exact nf_assertType _ _
    | exact nf_buildStixDomain _ _

theorem nf_convertObservedDateToStix (S : Schema) (inst : Obj) (t : String) :
    NotFunctional (convertObservedDateToStix S inst t) := by
  unfold convertObservedDateToStix
  repeat' with_reducible first
    | apply nf_bind
    | intro _
    | exact nf_pure _
    | exact nf_standardIds _ _
    | exact nf_assertType _ _
    | exact nf_buildStixDomain _ _

theorem nf_convertCourseOfActionToStix (S : Schema) (inst : Obj) (t : String) :
    NotFunctional (convertCourseOfActionToStix S inst t) := by
  unfold convertCourseOfActionToStix
  repeat' with_reducible first
    | apply nf_bind
    | intro _
    | exact nf_pure _
    | exact nf_assertType _ _
    | exact nf_buildOCTIExtensions _ _
    | exact nf_buildMITREExtensions _
    | exact nf_buildStixDomain _ _

theorem nf_convertIncidentToStix (S : Schema) (inst : Obj) (t : String) :
    NotFunctional (convertIncidentToStix S inst t) := by
  unfold convertIncidentToStix
  repeat' with_reducible first
    | apply nf_bind
    | intro _
    | exact nf_pure _
    | exact nf_assertType _ _
    | exact nf_buildStixDomain _ _

theorem nf_convertIndicatorToStix (S : Schema) (inst : Obj) (t : String) :
    NotFunctional (convertIndicatorToStix S inst t) := by
  unfold convertIndicatorToStix
  repeat' with_reducible first
    | apply nf_bind
    | intro _
    | exact nf_pure _
    | exact nf_cleanObject _
    | exact nf_assertType _ _
    | exact nf_buildMITREExtensions _
    | exact nf_buildKillChainPhases _ _
    | exact nf_buildStixDomain _ _

theorem nf_convertIntrusionSetToStix (S : Schema) (inst : Obj) (t : String) :
    NotFunctional (convertIntrusionSetToStix S inst t) := by
  unfold convertIntrusionSetToStix
  repeat' with_reducible first
    | apply nf_bind
    | intro _
    | exact nf_pure _
    | exact nf_assertType _ _
    | exact nf_buildStixDomain _ _

theorem nf_convertToolToStix (S : Schema) (inst : Obj) (t : String) :
    NotFunctional (convertToolToStix S inst t) := by
  unfold convertToolToStix
  repeat' with_reducible first
    | apply nf_bind
    | intro _
    | exact nf_pure _
    | exact nf_assertType _ _
    | exact nf_buildKillChainPhases _ _
    | exact nf_buildStixDomain _ _

theorem nf_convertVulnerabilityToStix (S : Schema) (inst : Obj) (t : String) :
    NotFunctional (convertVulnerabilityToStix S inst t) := by
  unfold convertVulnerabilityToStix
  repeat' with_reducible first
    | apply nf_bind
    | intro _
    | exact nf_pure _
    | exact nf_cleanObject _
    | exact nf_assertType _ _
    | exact nf_buildStixDomain _ _

theorem nf_convertArtifactToStix (S : Schema) (inst : Obj) (t : String) :
    NotFunctional (convertArtifactToStix S inst t) := by
  unfold convertArtifactToStix
  repeat' with_reducible first
    | apply nf_bind
    | intro _
    | exact nf_pure _
    | exact nf_cleanObject _
    | exact nf_assertType _ _
    | exact nf_buildStixCyberObservable _ _

theorem nf_convertAutonomousSystemToStix (S : Schema) (inst : Obj) (t : String) :
    NotFunctional (convertAutonomousSystemToStix S inst t) := by
  unfold convertAutonomousSystemToStix
  repeat' with_reducible first
    | apply nf_bind
    | intro _
    | exact nf_pure _
    | exact nf_assertType _ _
    | exact nf_buildStixCyberObservable _ _

theorem nf_convertCryptocurrencyWalletToStix (S : Schema) (inst : Obj) (t : String) :
    NotFunctional (convertCryptocurrencyWalletToStix S inst t) := by
  unfold convertCryptocurrencyWalletToStix
  repeat' with_reducible first
    | apply nf_bind
    | intro _
    | exact nf_pure _
    | exact nf_labelValues _ _
    | exact nf_assertType _ _
    | exact nf_buildExternalReferences _ _
    | exact nf_buildStixCyberObservable _ _

theorem nf_convertCryptographicKeyToStix (S : Schema) (inst : Obj) (t : String) :
    NotFunctional (convertCryptographicKeyToStix S inst t) := by
  unfold convertCryptographicKeyToStix
  repeat' with_reducible first
    | apply nf_bind
    | intro _
    | exact nf_pure _
    | exact nf_labelValues _ _
    | exact nf_assertType _ _
    | exact nf_buildExternalReferences _ _
    | exact nf_buildStixCyberObservable _ _

theorem nf_convertDirectoryToStix (S : Schema) (inst : Obj) (t : String) :
    NotFunctional (convertDirectoryToStix S inst t) := by
  unfold convertDirectoryToStix
  repeat' with_reducible first
    | apply nf_bind
    | intro _
    | exact nf_pure _
    | exact nf_standardIds _ _
    | exact nf_assertType _ _
    | exact nf_buildStixCyberObservable _ _

theorem nf_convertDomainNameToStix (S : Schema) (inst : Obj) (t : String) :
    NotFunctional (convertDomainNameToStix S inst t) := by
  unfold convertDomainNameToStix
  repeat' with_reducible first
    | apply nf_bind
    | intro _
    | exact nf_pure _
    | exact nf_standardIds _ _
    | exact nf_assertType _ _
    | exact nf_buildStixCyberObservable _ _

theorem nf_convertEmailAddressToStix (S : Schema) (inst : Obj) (t : String) :
    NotFunctional (convertEmailAddressToStix S inst t) := by
  unfold convertEmailAddressToStix
  repeat' with_reducible first
    | apply nf_bind
    | intro _
    | exact nf_pure _
    | exact nf_assertType _ _
    | exact nf_buildStixCyberObservable _ _

theorem nf_convertEmailMessageToStix (S : Schema) (inst : Obj) (t : String) :
    NotFunctional (convertEmailMessageToStix S inst t) := by
  unfold convertEmailMessageToStix
  repeat' with_reducible first
    | apply nf_bind
    | intro _
    | exact nf_pure _
    | exact nf_standardIds _ _
    | exact nf_assertType _ _
    | exact nf_buildEmailBodyMultipart _ _
    | exact nf_buildStixCyberObservable _ _

theorem nf_convertFileToStix (S : Schema) (inst : Obj) (t : String) :
    NotFunctional (convertFileToStix S inst t) := by
  unfold convertFileToStix
  repeat' with_reducible first
    | apply nf_bind
    | intro _
    | exact nf_pure _
    | exact nf_cleanObject _
    | exact nf_standardIds _ _
    | exact nf_assertType _ _
    | exact nf_buildStixCyberObservable _ _

theorem nf_convertHostnameToStix (S : Schema) (inst : Obj) (t : String) :
    NotFunctional (convertHostnameToStix S inst t) := by
  unfold convertHostnameToStix
  repeat' with_reducible first
    | apply nf_bind
    | intro _
    | exact nf_pure _
    | exact nf_labelValues _ _
    | exact nf_assertType _ _
    | exact nf_buildExternalReferences _ _
    | exact nf_buildStixCyberObservable _ _

theorem nf_convertIPv4AddressToStix (S : Schema) (inst : Obj) (t : String) :
    NotFunctional (convertIPv4AddressToStix S inst t) := by
  unfold convertIPv4AddressToStix
  repeat' with_reducible first
    | apply nf_bind
    | intro _
    | exact nf_pure _
    | exact nf_standardIds _ _
    | exact nf_assertType _ _
    | exact nf_buildStixCyberObservable _ _

theorem nf_convertIPv6AddressToStix (S : Schema) (inst : Obj) (t : String) :
    NotFunctional (convertIPv6AddressToStix S inst t) := by
  unfold convertIPv6AddressToStix
  repeat' with_reducible first
    | apply nf_bind
    | intro _
    | exact nf_pure _
    | exact nf_standardIds _ _
    | exact nf_assertType _ _
    | exact nf_buildStixCyberObservable _ _

theorem nf_convertMacAddressToStix (S : Schema) (inst : Obj) (t : String) :
    NotFunctional (convertMacAddressToStix S inst t) := by
  unfold convertMacAddressToStix
  repeat' with_reducible first
    | apply nf_bind
    | intro _
    | exact nf_pure _
    | exact nf_assertType _ _
    | exact nf_buildStixCyberObservable _ _

theorem nf_convertMutexToStix (S : Schema) (inst : Obj) (t : String) :
    NotFunctional (convertMutexToStix S inst t) := by
  unfold convertMutexToStix
  repeat' with_reducible first
    | apply nf_bind
    | intro _
    | exact nf_pure _
    | exact nf_assertType _ _
    | exact nf_buildStixCyberObservable _ _

theorem nf_convertNetworkTrafficToStix (S : Schema) (inst : Obj) (t : String) :
    NotFunctional (convertNetworkTrafficToStix S inst t) := by
  unfold convertNetworkTrafficToStix
  repeat' with_reducible first
    | apply nf_bind
    | intro _
    | exact nf_pure _
    | exact nf_standardIds _ _
    | exact nf_assertType _ _
    | exact nf_buildStixCyberObservable _ _

theorem nf_convertProcessToStix (S : Schema) (inst : Obj) (t : String) :
    NotFunctional (convertProcessToStix S inst t) := by
  unfold convertProcessToStix
  repeat' with_reducible first
    | apply nf_bind
    | intro _
    | exact nf_pure _
    | exact nf_standardIds _ _
    | exact nf_assertType _ _
    | exact nf_buildStixCyberObservable _ _

theorem nf_convertSoftwareToStix (S : Schema) (inst : Obj) (t : String) :
    NotFunctional (convertSoftwareToStix S inst t) := by
  unfold convertSoftwareToStix
  repeat' with_reducible first
    | apply nf_bind
    | intro _
    | exact nf_pure _
    | exact nf_assertType _ _
    | exact nf_buildStixCyberObservable _ _

theorem nf_convertTextToStix (S : Schema) (inst : Obj) (t : String) :
    NotFunctional (convertTextToStix S inst t) := by
  unfold convertTextToStix
  repeat' with_reducible first
    | apply nf_bind
    | intro _
    | exact nf_pure _
    | exact nf_labelValues _ _
    | exact nf_assertType _ _
    | exact nf_buildExternalReferences _ _
    | exact nf_buildStixCyberObservable _ _

theorem nf_convertURLToStix (S : Schema) (inst : Obj) (t : String) :
    NotFunctional (convertURLToStix S inst t) := by
  unfold convertURLToStix
  repeat' with_reducible first
    | apply nf_bind
    | intro _
    | exact nf_pure _
    | exact nf_assertType _ _
    | exact nf_buildStixCyberObservable _ _

theorem nf_convertUserAccountToStix (S : Schema) (inst : Obj) (t : String) :
    NotFunctional (convertUserAccountToStix S inst t) := by
  unfold convertUserAccountToStix
  repeat' with_reducible first
    | apply nf_bind
    | intro _
    | exact nf_pure _
    | exact nf_assertType _ _
    | exact nf_buildStixCyberObservable _ _

theorem nf_convertWindowsRegistryKeyToStix (S : Schema) (inst : Obj) (t : String) :
    NotFunctional (convertWindowsRegistryKeyToStix S inst t) := by
  unfold convertWindowsRegistryKeyToStix
  repeat' with_reducible first
    | apply nf_bind
    | intro _
    | exact nf_pure _
    | exact nf_assertType _ _
    | exact nf_buildWindowsRegistryValueType _ _
    | exact nf_buildStixCyberObservable _ _

theorem nf_convertX509CertificateToStix (S : Schema) (inst : Obj) (t : String) :
    NotFunctional (convertX509CertificateToStix S inst t) := by
  unfold convertX509CertificateToStix
  repeat' with_reducible first
    | apply nf_bind
    | intro _
    | exact nf_pure _
    | exact nf_cleanObject _
    | exact nf_assertType _ _
    | exact nf_buildStixCyberObservable _ _

theorem nf_convertMarkingToStix (S : Schema) (inst : Obj) :
    NotFunctional (convertMarkingToStix S inst) := by
  unfold convertMarkingToStix
  repeat' with_reducible first
    | apply nf_bind
    | intro _
    | exact nf_pure _
    | exact nf_cleanObject _
    | exact nf_buildStixMarkings _ _

theorem nf_convertLabelToStix (S : Schema) (inst : Obj) :
    NotFunctional (convertLabelToStix S inst) := by
  unfold convertLabelToStix
  repeat' with_reducible first
    | apply nf_bind
    | intro _
    | exact nf_pure _
    | exact nf_cleanObject _
    | exact nf_buildStixObject _ _

theorem nf_convertKillChainPhaseToStix (S : Schema) (inst : Obj) :
    NotFunctional (convertKillChainPhaseToStix S inst) := by
  unfold convertKillChainPhaseToStix
  repeat' with_reducible first
    | apply nf_bind
    | intro _
    | exact nf_pure _
    | exact nf_cleanObject _
    | exact nf_buildStixObject _ _

theorem nf_convertExternalReferenceToStix (S : Schema) (inst : Obj) :
    NotFunctional (convertExternalReferenceToStix S inst) := by
  unfold convertExternalReferenceToStix
  repeat' with_reducible first
    | apply nf_bind
    | intro _
    | exact nf_pure _
    | exact nf_cleanObject _
    | exact nf_buildStixObject _ _

theorem nf_convertWindowsRegistryValueToStix (S : Schema) (inst : Obj) :
    NotFunctional (convertWindowsRegistryValueToStix S inst) := by
  unfold convertWindowsRegistryValueToStix
  repeat' with_reducible first
    | apply nf_bind
    | intro _
    | exact nf_pure _
    | exact nf_labelValues _ _
    | exact nf_buildExternalReferences _ _
    | exact nf_buildStixCyberObservable _ _

theorem nf_convertEmailMimePartToStix (S : Schema) (inst : Obj) :
    NotFunctional (convertEmailMimePartToStix S inst) := by
  unfold convertEmailMimePartToStix
  repeat' with_reducible first
    | apply nf_bind
    | intro _
    | exact nf_pure _
    | exact nf_labelValues _ _
    | exact nf_buildExternalReferences _ _
    | exact nf_buildStixCyberObservable _ _

theorem nf_convertRelationToStix (S : Schema) (inst : Obj) :
    NotFunctional (convertRelationToStix S inst) := by
  unfold convertRelationToStix
  repeat' with_reducible first
    | apply nf_bind
    | intro _
    | exact nf_pure _
    | exact nf_cleanObject _
    | exact nf_checkInstanceCompletion _
    | exact nf_buildKillChainPhases _ _
    | exact nf_buildExternalReferences _ _
    | exact nf_buildStixRelationship _ _

theorem nf_convertSightingToStix (S : Schema) (inst : Obj) :
    NotFunctional (convertSightingToStix S inst) := by
  unfold convertSightingToStix
  repeat' with_reducible first
    | apply nf_bind
    | intro _
    | exact nf_pure _
    | exact nf_cleanObject _
    | exact nf_checkInstanceCompletion _
    | exact nf_buildStixRelationship _ _

theorem nf_convertRelationshipKind (S : Schema) (inst : Obj) (t : String) :
    NotFunctional (convertRelationshipKind S inst t) := by
  unfold convertRelationshipKind
  refine nf_ite (nf_convertRelationToStix S inst) ?_
  refine nf_ite (nf_convertRelationToStix S inst) ?_
  refine nf_ite (nf_convertSightingToStix S inst) ?_
  refine nf_ite (nf_convertRelationToStix S inst) ?_
  exact nf_throw_unsupported _

theorem nf_convertDomainKind (S : Schema) (inst : Obj) (t : String) :
    NotFunctional (convertDomainKind S inst t) := by
  unfold convertDomainKind
  refine nf_ite (nf_convertIdentityToStix S inst t) ?_
  refine nf_ite (nf_convertLocationToStix S inst t) ?_
  refine nf_ite (nf_convertReportToStix S inst t) ?_
  refine nf_ite (nf_convertMalwareToStix S inst t) ?_
  refine nf_ite (nf_convertInfrastructureToStix S inst t) ?_
  refine nf_ite (nf_convertAttackPatternToStix S inst t) ?_
  refine nf_ite (nf_convertCampaignToStix S inst t) ?_
  refine nf_ite (nf_convertThreatActorToStix S inst t) ?_
  refine nf_ite (nf_convertNoteToStix S inst t) ?_
  refine nf_ite (nf_convertOpinionToStix S inst t) ?_
  refine nf_ite (nf_convertObservedDateToStix S inst t) ?_
  refine nf_ite (nf_convertCourseOfActionToStix S inst t) ?_
  refine nf_ite (nf_convertIncidentToStix S inst t) ?_
  refine nf_ite (nf_convertIndicatorToStix S inst t) ?_
  refine nf_ite (nf_convertIntrusionSetToStix S inst t) ?_
  refine nf_ite (nf_convertToolToStix S inst t) ?_
  refine nf_ite (nf_convertVulnerabilityToStix S inst t) ?_
  exact nf_throw_unsupported _

theorem nf_convertMetaKind (S : Schema) (inst : Obj) (t : String) :
    NotFunctional (convertMetaKind S inst t) := by
  unfold convertMetaKind
  refine nf_ite (nf_convertMarkingToStix S inst) ?_
  refine nf_ite (nf_convertLabelToStix S inst) ?_
  refine nf_ite (nf_convertKillChainPhaseToStix S inst) ?_
  refine nf_ite (nf_convertExternalReferenceToStix S inst) ?_
  exact nf_throw_unsupported _

theorem nf_convertObservableKind (S : Schema) (inst : Obj) (t : String) :
    NotFunctional (convertObservableKind S inst t) := by
  unfold convertObservableKind
  refine nf_ite (nf_convertWindowsRegistryValueToStix S inst) ?_
  refine nf_ite (nf_convertEmailMimePartToStix S inst) ?_
  refine nf_ite (nf_convertArtifactToStix S inst t) ?_
  refine nf_ite (nf_convertAutonomousSystemToStix S inst t) ?_
  refine nf_ite (nf_convertCryptocurrencyWalletToStix S inst t) ?_
  refine nf_ite (nf_convertCryptographicKeyToStix S inst t) ?_
  refine nf_ite (nf_convertDirectoryToStix S inst t) ?_
  refine nf_ite (nf_convertDomainNameToStix S inst t) ?_
  refine nf_ite (nf_convertEmailAddressToStix S inst t) ?_
  refine nf_ite (nf_convertEmailMessageToStix S inst t) ?_
  refine nf_ite (nf_convertFileToStix S inst t) ?_
  refine nf_ite (nf_convertHostnameToStix S inst t) ?_
  refine nf_ite (nf_convertIPv4AddressToStix S inst t) ?_
  refine nf_ite (nf_convertIPv6AddressToStix S inst t) ?_
  refine nf_ite (nf_convertMacAddressToStix S inst t) ?_
  refine nf_ite (nf_convertMutexToStix S inst t) ?_
  refine nf_ite (nf_convertNetworkTrafficToStix S inst t) ?_
  refine nf_ite (nf_convertProcessToStix S inst t) ?_
  refine nf_ite (nf_convertSoftwareToStix S inst t) ?_
  refine nf_ite (nf_convertTextToStix S inst t) ?_
  refine nf_ite (nf_convertURLToStix S inst t) ?_
  refine nf_ite (nf_convertUserAccountToStix S inst t) ?_
  refine nf_ite (nf_convertWindowsRegistryKeyToStix S inst t) ?_
  refine nf_ite (nf_convertX509CertificateToStix S inst t) ?_
  exact nf_throw_unsupported _

theorem nf_convertToStix (S : Schema) (inst : Obj) : NotFunctional (convertToStix S inst) := by
  unfold convertToStix
  refine nf_bind (nf_entityType inst) (fun t => ?_)
  refine nf_ite (nf_throw_unsupported _) ?_
  refine nf_ite (nf_convertRelationshipKind S inst t) ?_
  refine nf_ite (nf_convertDomainKind S inst t) ?_
  refine nf_ite (nf_convertMetaKind S inst t) ?_
  refine nf_ite (nf_convertObservableKind S inst t) ?_
  exact nf_throw_unsupported _

/-! ## Routing of the dispatcher under a well-formed schema -/

theorem convertToStix_domain {S : Schema} (hW : S.WellFormed) {inst : Obj} {t : String}
    (hm : t ∈ domainProjectorTypes S) (ht : getProp inst "entity_type" = .str t) :
    convertToStix S inst = convertDomainKind S inst t := by
  obtain ⟨h1, h2, h3, _, _⟩ := hW.domain t hm
  unfold convertToStix
  rw [entityType_of_str ht, ok_bind]
  simp [h1, h2, h3]

theorem convertToStix_meta {S : Schema} (hW : S.WellFormed) {inst : Obj} {t : String}
    (hm : t ∈ metaProjectorTypes S) (ht : getProp inst "entity_type" = .str t) :
    convertToStix S inst = convertMetaKind S inst t := by
  obtain ⟨h1, h2, h3, h4⟩ := hW.metaTypes t hm
  unfold convertToStix
  rw [entityType_of_str ht, ok_bind]
  simp [h1, h2, h3, h4]

theorem convertToStix_observable {S : Schema} (hW : S.WellFormed) {inst : Obj} {t : String}
    (hm : t ∈ observableProjectorTypes S) (ht : getProp inst "entity_type" = .str t) :
    convertToStix S inst = convertObservableKind S inst t := by
  obtain ⟨h1, h2, h3, h4, h5⟩ := hW.observable t hm
  unfold convertToStix
  rw [entityType_of_str ht, ok_bind]
  simp [h1, h2, h3, h4, h5]

theorem route_convertReportToStix {S : Schema} (hW : S.WellFormed) {inst : Obj}
    (ht : getProp inst "entity_type" = .str S.ENTITY_TYPE_CONTAINER_REPORT) :
    convertToStix S inst = convertReportToStix S inst S.ENTITY_TYPE_CONTAINER_REPORT := by
  have hm : S.ENTITY_TYPE_CONTAINER_REPORT ∈ domainProjectorTypes S := by simp [domainProjectorTypes]
  rw [convertToStix_domain hW hm ht]
  have hn := hW.domainNodup
  simp only [domainProjectorTypes, List.nodup_cons, List.mem_cons, List.mem_singleton, List.not_mem_nil,
    not_or, or_false, List.nodup_nil, and_true, not_false_eq_true] at hn
  obtain ⟨_, _, _, h4, h5⟩ := hW.domain _ hm
  simp only [convertDomainKind, h4, h5, Bool.false_eq_true, if_false]
  simp [convertDomainKind, hn]

theorem route_convertMalwareToStix {S : Schema} (hW : S.WellFormed) {inst : Obj}
    (ht : getProp inst "entity_type" = .str S.ENTITY_TYPE_MALWARE) :
    convertToStix S inst = convertMalwareToStix S inst S.ENTITY_TYPE_MALWARE := by
  have hm : S.ENTITY_TYPE_MALWARE ∈ domainProjectorTypes S := by simp [domainProjectorTypes]
  rw [convertToStix_domain hW hm ht]
  have hn := hW.domainNodup
  simp only [domainProjectorTypes, List.nodup_cons, List.mem_cons, List.mem_singleton, List.not_mem_nil,
    not_or, or_false, List.nodup_nil, and_true, not_false_eq_true] at hn
  obtain ⟨_, _, _, h4, h5⟩ := hW.domain _ hm
  simp only [convertDomainKind, h4, h5, Bool.false_eq_true, if_false]
  simp [convertDomainKind, hn]

theorem route_convertInfrastructureToStix {S : Schema} (hW : S.WellFormed) {inst : Obj}
    (ht : getProp inst "entity_type" = .str S.ENTITY_TYPE_INFRASTRUCTURE) :
    convertToStix S inst = convertInfrastructureToStix S inst S.ENTITY_TYPE_INFRASTRUCTURE := by
  have hm : S.ENTITY_TYPE_INFRASTRUCTURE ∈ domainProjectorTypes S := by simp [domainProjectorTypes]
  rw [convertToStix_domain hW hm ht]
  have hn := hW.domainNodup
  simp only [domainProjectorTypes, List.nodup_cons, List.mem_cons, List.mem_singleton, List.not_mem_nil,
    not_or, or_false, List.nodup_nil, and_true, not_false_eq_true] at hn
  obtain ⟨_, _, _, h4, h5⟩ := hW.domain _ hm
  simp only [convertDomainKind, h4, h5, Bool.false_eq_true, if_false]
  simp [convertDomainKind, hn]

theorem route_convertAttackPatternToStix {S : Schema} (hW : S.WellFormed) {inst : Obj}
    (ht : getProp inst "entity_type" = .str S.ENTITY_TYPE_ATTACK_PATTERN) :
    convertToStix S inst = convertAttackPatternToStix S inst S.ENTITY_TYPE_ATTACK_PATTERN := by
  have hm : S.ENTITY_TYPE_ATTACK_PATTERN ∈ domainProjectorTypes S := by simp [domainProjectorTypes]
  rw [convertToStix_domain hW hm ht]
  have hn := hW.domainNodup
  simp only [domainProjectorTypes, List.nodup_cons, List.mem_cons, List.mem_singleton, List.not_mem_nil,
    not_or, or_false, List.nodup_nil, and_true, not_false_eq_true] at hn
  obtain ⟨_, _, _, h4, h5⟩ := hW.domain _ hm
  simp only [convertDomainKind, h4, h5, Bool.false_eq_true, if_false]
  simp [convertDomainKind, hn]

theorem route_convertCampaignToStix {S : Schema} (hW : S.WellFormed) {inst : Obj}
    (ht : getProp inst "entity_type" = .str S.ENTITY_TYPE_CAMPAIGN) :
    convertToStix S inst = convertCampaignToStix S inst S.ENTITY_TYPE_CAMPAIGN := by
  have hm : S.ENTITY_TYPE_CAMPAIGN ∈ domainProjectorTypes S := by simp [domainProjectorTypes]
  rw [convertToStix_domain hW hm ht]
  have hn := hW.domainNodup
  simp only [domainProjectorTypes, List.nodup_cons, List.mem_cons, List.mem_singleton, List.not_mem_nil,
    not_or, or_false, List.nodup_nil, and_true, not_false_eq_true] at hn
  obtain ⟨_, _, _, h4, h5⟩ := hW.domain _ hm
  simp only [convertDomainKind, h4, h5, Bool.false_eq_true, if_false]
  simp [convertDomainKind, hn]

theorem route_convertThreatActorToStix {S : Schema} (hW : S.WellFormed) {inst : Obj}
    (ht : getProp inst "entity_type" = .str S.ENTITY_TYPE_THREAT_ACTOR) :
    convertToStix S inst = convertThreatActorToStix S inst S.ENTITY_TYPE_THREAT_ACTOR := by
  have hm : S.ENTITY_TYPE_THREAT_ACTOR ∈ domainProjectorTypes S := by simp [domainProjectorTypes]
  rw [convertToStix_domain hW hm ht]
  have hn := hW.domainNodup
  simp only [domainProjectorTypes, List.nodup_cons, List.mem_cons, List.mem_singleton, List.not_mem_nil,
    not_or, or_false, List.nodup_nil, and_true, not_false_eq_true] at hn
  obtain ⟨_, _, _, h4, h5⟩ := hW.domain _ hm
  simp only [convertDomainKind, h4, h5, Bool.false_eq_true, if_false]
  simp [convertDomainKind, hn]

theorem route_convertNoteToStix {S : Schema} (hW : S.WellFormed) {inst : Obj}
    (ht : getProp inst "entity_type" = .str S.ENTITY_TYPE_CONTAINER_NOTE) :
    convertToStix S inst = convertNoteToStix S inst S.ENTITY_TYPE_CONTAINER_NOTE := by
  have hm : S.ENTITY_TYPE_CONTAINER_NOTE ∈ domainProjectorTypes S := by simp [domainProjectorTypes]
  rw [convertToStix_domain hW hm ht]
  have hn := hW.domainNodup
  simp only [domainProjectorTypes, List.nodup_cons, List.mem_cons, List.mem_singleton, List.not_mem_nil,
    not_or, or_false, List.nodup_nil, and_true, not_false_eq_true] at hn
  obtain ⟨_, _, _, h4, h5⟩ := hW.domain _ hm
  simp only [convertDomainKind, h4, h5, Bool.false_eq_true, if_false]
  simp [convertDomainKind, hn]

theorem route_convertOpinionToStix {S : Schema} (hW : S.WellFormed) {inst : Obj}
    (ht : getProp inst "entity_type" = .str S.ENTITY_TYPE_CONTAINER_OPINION) :
    convertToStix S inst = convertOpinionToStix S inst S.ENTITY_TYPE_CONTAINER_OPINION := by
  have hm : S.ENTITY_TYPE_CONTAINER_OPINION ∈ domainProjectorTypes S := by simp [domainProjectorTypes]
  rw [convertToStix_domain hW hm ht]
  have hn := hW.domainNodup
  simp only [domainProjectorTypes, List.nodup_cons, List.mem_cons, List.mem_singleton, List.not_mem_nil,
    not_or, or_false, List.nodup_nil, and_true, not_false_eq_true] at hn
  obtain ⟨_, _, _, h4, h5⟩ := hW.domain _ hm
  simp only [convertDomainKind, h4, h5, Bool.false_eq_true, if_false]
  simp [convertDomainKind, hn]

theorem route_convertObservedDateToStix {S : Schema} (hW : S.WellFormed) {inst : Obj}
    (ht : getProp inst "entity_type" = .str S.ENTITY_TYPE_CONTAINER_OBSERVED_DATA) :
    convertToStix S inst = convertObservedDateToStix S inst S.ENTITY_TYPE_CONTAINER_OBSERVED_DATA := by
  have hm : S.ENTITY_TYPE_CONTAINER_OBSERVED_DATA ∈ domainProjectorTypes S := by simp [domainProjectorTypes]
  rw [convertToStix_domain hW hm ht]
  have hn := hW.domainNodup
  simp only [domainProjectorTypes, List.nodup_cons, List.mem_cons, List.mem_singleton, List.not_mem_nil,
    not_or, or_false, List.nodup_nil, and_true, not_false_eq_true] at hn
  obtain ⟨_, _, _, h4, h5⟩ := hW.domain _ hm
  simp only [convertDomainKind, h4, h5, Bool.false_eq_true, if_false]
  simp [convertDomainKind, hn]

theorem route_convertCourseOfActionToStix {S : Schema} (hW : S.WellFormed) {inst : Obj}
    (ht : getProp inst "entity_type" = .str S.ENTITY_TYPE_COURSE_OF_ACTION) :
    convertToStix S inst = convertCourseOfActionToStix S inst S.ENTITY_TYPE_COURSE_OF_ACTION := by
  have hm : S.ENTITY_TYPE_COURSE_OF_ACTION ∈ domainProjectorTypes S := by simp [domainProjectorTypes]
  rw [convertToStix_domain hW hm ht]
  have hn := hW.domainNodup
  simp only [domainProjectorTypes, List.nodup_cons, List.mem_cons, List.mem_singleton, List.not_mem_nil,
    not_or, or_false, List.nodup_nil, and_true, not_false_eq_true] at hn
  obtain ⟨_, _, _, h4, h5⟩ := hW.domain _ hm
  simp only [convertDomainKind, h4, h5, Bool.false_eq_true, if_false]
  simp [convertDomainKind, hn]

theorem route_convertIncidentToStix {S : Schema} (hW : S.WellFormed) {inst : Obj}
    (ht : getProp inst "entity_type" = .str S.ENTITY_TYPE_INCIDENT) :
    convertToStix S inst = convertIncidentToStix S inst S.ENTITY_TYPE_INCIDENT := by
  have hm : S.ENTITY_TYPE_INCIDENT ∈ domainProjectorTypes S := by simp [domainProjectorTypes]
  rw [convertToStix_domain hW hm ht]
  have hn := hW.domainNodup
  simp only [domainProjectorTypes, List.nodup_cons, List.mem_cons, List.mem_singleton, List.not_mem_nil,
    not_or, or_false, List.nodup_nil, and_true, not_false_eq_true] at hn
  obtain ⟨_, _, _, h4, h5⟩ := hW.domain _ hm
  simp only [convertDomainKind, h4, h5, Bool.false_eq_true, if_false]
  simp [convertDomainKind, hn]

theorem route_convertIndicatorToStix {S : Schema} (hW : S.WellFormed) {inst : Obj}
    (ht : getProp inst "entity_type" = .str S.ENTITY_TYPE_INDICATOR) :
    convertToStix S inst = convertIndicatorToStix S inst S.ENTITY_TYPE_INDICATOR := by
  have hm : S.ENTITY_TYPE_INDICATOR ∈ domainProjectorTypes S := by simp [domainProjectorTypes]
  rw [convertToStix_domain hW hm ht]
  have hn := hW.domainNodup
  simp only [domainProjectorTypes, List.nodup_cons, List.mem_cons, List.mem_singleton, List.not_mem_nil,
    not_or, or_false, List.nodup_nil, and_true, not_false_eq_true] at hn
  obtain ⟨_, _, _, h4, h5⟩ := hW.domain _ hm
  simp only [convertDomainKind, h4, h5, Bool.false_eq_true, if_false]
  simp [convertDomainKind, hn]

theorem route_convertIntrusionSetToStix {S : Schema} (hW : S.WellFormed) {inst : Obj}
    (ht : getProp inst "entity_type" = .str S.ENTITY_TYPE_INTRUSION_SET) :
    convertToStix S inst = convertIntrusionSetToStix S inst S.ENTITY_TYPE_INTRUSION_SET := by
  have hm : S.ENTITY_TYPE_INTRUSION_SET ∈ domainProjectorTypes S := by simp [domainProjectorTypes]
  rw [convertToStix_domain hW hm ht]
  have hn := hW.domainNodup
  simp only [domainProjectorTypes, List.nodup_cons, List.mem_cons, List.mem_singleton, List.not_mem_nil,
    not_or, or_false, List.nodup_nil, and_true, not_false_eq_true] at hn
  obtain ⟨_, _, _, h4, h5⟩ := hW.domain _ hm
  simp only [convertDomainKind, h4, h5, Bool.false_eq_true, if_false]
  simp [convertDomainKind, hn]

theorem route_convertToolToStix {S : Schema} (hW : S.WellFormed) {inst : Obj}
    (ht : getProp inst "entity_type" = .str S.ENTITY_TYPE_TOOL) :
    convertToStix S inst = convertToolToStix S inst S.ENTITY_TYPE_TOOL := by
  have hm : S.ENTITY_TYPE_TOOL ∈ domainProjectorTypes S := by simp [domainProjectorTypes]
  rw [convertToStix_domain hW hm ht]
  have hn := hW.domainNodup
  simp only [domainProjectorTypes, List.nodup_cons, List.mem_cons, List.mem_singleton, List.not_mem_nil,
    not_or, or_false, List.nodup_nil, and_true, not_false_eq_true] at hn
  obtain ⟨_, _, _, h4, h5⟩ := hW.domain _ hm
  simp only [convertDomainKind, h4, h5, Bool.false_eq_true, if_false]
  simp [convertDomainKind, hn]

theorem route_convertVulnerabilityToStix {S : Schema} (hW : S.WellFormed) {inst : Obj}
    (ht : getProp inst "entity_type" = .str S.ENTITY_TYPE_VULNERABILITY) :
    convertToStix S inst = convertVulnerabilityToStix S inst S.ENTITY_TYPE_VULNERABILITY := by
  have hm : S.ENTITY_TYPE_VULNERABILITY ∈ domainProjectorTypes S := by simp [domainProjectorTypes]
  rw [convertToStix_domain hW hm ht]
  have hn := hW.domainNodup
  simp only [domainProjectorTypes, List.nodup_cons, List.mem_cons, List.mem_singleton, List.not_mem_nil,
    not_or, or_false, List.nodup_nil, and_true, not_false_eq_true] at hn
  obtain ⟨_, _, _, h4, h5⟩ := hW.domain _ hm
  simp only [convertDomainKind, h4, h5, Bool.false_eq_true, if_false]
  simp [convertDomainKind, hn]

theorem route_convertMarkingToStix {S : Schema} (hW : S.WellFormed) {inst : Obj}
    (ht : getProp inst "entity_type" = .str S.ENTITY_TYPE_MARKING_DEFINITION) :
    convertToStix S inst = convertMarkingToStix S inst := by
  have hm : S.ENTITY_TYPE_MARKING_DEFINITION ∈ metaProjectorTypes S := by simp [metaProjectorTypes]
  rw [convertToStix_meta hW hm ht]
  have hn := hW.metaNodup
  simp only [metaProjectorTypes, List.nodup_cons, List.mem_cons, List.mem_singleton, List.not_mem_nil,
    not_or, or_false, List.nodup_nil, and_true, not_false_eq_true] at hn
  simp [convertMetaKind, hn]

theorem route_convertLabelToStix {S : Schema} (hW : S.WellFormed) {inst : Obj}
    (ht : getProp inst "entity_type" = .str S.ENTITY_TYPE_LABEL) :
    convertToStix S inst = convertLabelToStix S inst := by
  have hm : S.ENTITY_TYPE_LABEL ∈ metaProjectorTypes S := by simp [metaProjectorTypes]
  rw [convertToStix_meta hW hm ht]
  have hn := hW.metaNodup
  simp only [metaProjectorTypes, List.nodup_cons, List.mem_cons, List.mem_singleton, List.not_mem_nil,
    not_or, or_false, List.nodup_nil, and_true, not_false_eq_true] at hn
  simp [convertMetaKind, hn]

theorem route_convertKillChainPhaseToStix {S : Schema} (hW : S.WellFormed) {inst : Obj}
    (ht : getProp inst "entity_type" = .str S.ENTITY_TYPE_KILL_CHAIN_PHASE) :
    convertToStix S inst = convertKillChainPhaseToStix S inst := by
  have hm : S.ENTITY_TYPE_KILL_CHAIN_PHASE ∈ metaProjectorTypes S := by simp [metaProjectorTypes]
  rw [convertToStix_meta hW hm ht]
  have hn := hW.metaNodup
  simp only [metaProjectorTypes, List.nodup_cons, List.mem_cons, List.mem_singleton, List.not_mem_nil,
    not_or, or_false, List.nodup_nil, and_true, not_false_eq_true] at hn
  simp [convertMetaKind, hn]

theorem route_convertExternalReferenceToStix {S : Schema} (hW : S.WellFormed) {inst : Obj}
    (ht : getProp inst "entity_type" = .str S.ENTITY_TYPE_EXTERNAL_REFERENCE) :
    convertToStix S inst = convertExternalReferenceToStix S inst := by
  have hm : S.ENTITY_TYPE_EXTERNAL_REFERENCE ∈ metaProjectorTypes S := by simp [metaProjectorTypes]
  rw [convertToStix_meta hW hm ht]
  have hn := hW.metaNodup
  simp only [metaProjectorTypes, List.nodup_cons, List.mem_cons, List.mem_singleton, List.not_mem_nil,
    not_or, or_false, List.nodup_nil, and_true, not_false_eq_true] at hn
  simp [convertMetaKind, hn]

theorem route_convertWindowsRegistryValueToStix {S : Schema} (hW : S.WellFormed) {inst : Obj}
    (ht : getProp inst "entity_type" = .str S.ENTITY_WINDOWS_REGISTRY_VALUE_TYPE) :
    convertToStix S inst = convertWindowsRegistryValueToStix S inst := by
  have hm : S.ENTITY_WINDOWS_REGISTRY_VALUE_TYPE ∈ observableProjectorTypes S := by simp [observableProjectorTypes]
  rw [convertToStix_observable hW hm ht]
  have hn := hW.observableNodup
  simp only [observableProjectorTypes, List.nodup_cons, List.mem_cons, List.mem_singleton, List.not_mem_nil,
    not_or, or_false, List.nodup_nil, and_true, not_false_eq_true] at hn
  simp [convertObservableKind, hn]

theorem route_convertEmailMimePartToStix {S : Schema} (hW : S.WellFormed) {inst : Obj}
    (ht : getProp inst "entity_type" = .str S.ENTITY_EMAIL_MIME_PART_TYPE) :
    convertToStix S inst = convertEmailMimePartToStix S inst := by
  have hm : S.ENTITY_EMAIL_MIME_PART_TYPE ∈ observableProjectorTypes S := by simp [observableProjectorTypes]
  rw [convertToStix_observable hW hm ht]
  have hn := hW.observableNodup
  simp only [observableProjectorTypes, List.nodup_cons, List.mem_cons, List.mem_singleton, List.not_mem_nil,
    not_or, or_false, List.nodup_nil, and_true, not_false_eq_true] at hn
  simp [convertObservableKind, hn]

theorem route_convertArtifactToStix {S : Schema} (hW : S.WellFormed) {inst : Obj}
    (ht : getProp inst "entity_type" = .str S.ENTITY_HASHED_OBSERVABLE_ARTIFACT) :
    convertToStix S inst = convertArtifactToStix S inst S.ENTITY_HASHED_OBSERVABLE_ARTIFACT := by
  have hm : S.ENTITY_HASHED_OBSERVABLE_ARTIFACT ∈ observableProjectorTypes S := by simp [observableProjectorTypes]
  rw [convertToStix_observable hW hm ht]
  have hn := hW.observableNodup
  simp only [observableProjectorTypes, List.nodup_cons, List.mem_cons, List.mem_singleton, List.not_mem_nil,
    not_or, or_false, List.nodup_nil, and_true, not_false_eq_true] at hn
  simp [convertObservableKind, hn]

theorem route_convertAutonomousSystemToStix {S : Schema} (hW : S.WellFormed) {inst : Obj}
    (ht : getProp inst "entity_type" = .str S.ENTITY_AUTONOMOUS_SYSTEM) :
    convertToStix S inst = convertAutonomousSystemToStix S inst S.ENTITY_AUTONOMOUS_SYSTEM := by
  have hm : S.ENTITY_AUTONOMOUS_SYSTEM ∈ observableProjectorTypes S := by simp [observableProjectorTypes]
  rw [convertToStix_observable hW hm ht]
  have hn := hW.observableNodup
  simp only [observableProjectorTypes, List.nodup_cons, List.mem_cons, List.mem_singleton, List.not_mem_nil,
    not_or, or_false, List.nodup_nil, and_true, not_false_eq_true] at hn
  simp [convertObservableKind, hn]

theorem route_convertCryptocurrencyWalletToStix {S : Schema} (hW : S.WellFormed) {inst : Obj}
    (ht : getProp inst "entity_type" = .str S.ENTITY_CRYPTOGRAPHIC_WALLET) :
    convertToStix S inst = convertCryptocurrencyWalletToStix S inst S.ENTITY_CRYPTOGRAPHIC_WALLET := by
  have hm : S.ENTITY_CRYPTOGRAPHIC_WALLET ∈ observableProjectorTypes S := by simp [observableProjectorTypes]
  rw [convertToStix_observable hW hm ht]
  have hn := hW.observableNodup
  simp only [observableProjectorTypes, List.nodup_cons, List.mem_cons, List.mem_singleton, List.not_mem_nil,
    not_or, or_false, List.nodup_nil, and_true, not_false_eq_true] at hn
  simp [convertObservableKind, hn]

theorem route_convertCryptographicKeyToStix {S : Schema} (hW : S.WellFormed) {inst : Obj}
    (ht : getProp inst "entity_type" = .str S.ENTITY_CRYPTOGRAPHIC_KEY) :
    convertToStix S inst = convertCryptographicKeyToStix S inst S.ENTITY_CRYPTOGRAPHIC_KEY := by
  have hm : S.ENTITY_CRYPTOGRAPHIC_KEY ∈ observableProjectorTypes S := by simp [observableProjectorTypes]
  rw [convertToStix_observable hW hm ht]
  have hn := hW.observableNodup
  simp only [observableProjectorTypes, List.nodup_cons, List.mem_cons, List.mem_singleton, List.not_mem_nil,
    not_or, or_false, List.nodup_nil, and_true, not_false_eq_true] at hn
  simp [convertObservableKind, hn]

theorem route_convertDirectoryToStix {S : Schema} (hW : S.WellFormed) {inst : Obj}
    (ht : getProp inst "entity_type" = .str S.ENTITY_DIRECTORY) :
    convertToStix S inst = convertDirectoryToStix S inst S.ENTITY_DIRECTORY := by
  have hm : S.ENTITY_DIRECTORY ∈ observableProjectorTypes S := by simp [observableProjectorTypes]
  rw [convertToStix_observable hW hm ht]
  have hn := hW.observableNodup
  simp only [observableProjectorTypes, List.nodup_cons, List.mem_cons, List.mem_singleton, List.not_mem_nil,
    not_or, or_false, List.nodup_nil, and_true, not_false_eq_true] at hn
  simp [convertObservableKind, hn]

theorem route_convertDomainNameToStix {S : Schema} (hW : S.WellFormed) {inst : Obj}
    (ht : getProp inst "entity_type" = .str S.ENTITY_DOMAIN_NAME) :
    convertToStix S inst = convertDomainNameToStix S inst S.ENTITY_DOMAIN_NAME := by
  have hm : S.ENTITY_DOMAIN_NAME ∈ observableProjectorTypes S := by simp [observableProjectorTypes]
  rw [convertToStix_observable hW hm ht]
  have hn := hW.observableNodup
  simp only [observableProjectorTypes, List.nodup_cons, List.mem_cons, List.mem_singleton, List.not_mem_nil,
    not_or, or_false, List.nodup_nil, and_true, not_false_eq_true] at hn
  simp [convertObservableKind, hn]

theorem route_convertEmailAddressToStix {S : Schema} (hW : S.WellFormed) {inst : Obj}
    (ht : getProp inst "entity_type" = .str S.ENTITY_EMAIL_ADDR) :
    convertToStix S inst = convertEmailAddressToStix S inst S.ENTITY_EMAIL_ADDR := by
  have hm : S.ENTITY_EMAIL_ADDR ∈ observableProjectorTypes S := by simp [observableProjectorTypes]
  rw [convertToStix_observable hW hm ht]
  have hn := hW.observableNodup
  simp only [observableProjectorTypes, List.nodup_cons, List.mem_cons, List.mem_singleton, List.not_mem_nil,
    not_or, or_false, List.nodup_nil, and_true, not_false_eq_true] at hn
  simp [convertObservableKind, hn]

theorem route_convertEmailMessageToStix {S : Schema} (hW : S.WellFormed) {inst : Obj}
    (ht : getProp inst "entity_type" = .str S.ENTITY_EMAIL_MESSAGE) :
    convertToStix S inst = convertEmailMessageToStix S inst S.ENTITY_EMAIL_MESSAGE := by
  have hm : S.ENTITY_EMAIL_MESSAGE ∈ observableProjectorTypes S := by simp [observableProjectorTypes]
  rw [convertToStix_observable hW hm ht]
  have hn := hW.observableNodup
  simp only [observableProjectorTypes, List.nodup_cons, List.mem_cons, List.mem_singleton, List.not_mem_nil,
    not_or, or_false, List.nodup_nil, and_true, not_false_eq_true] at hn
  simp [convertObservableKind, hn]

theorem route_convertFileToStix {S : Schema} (hW : S.WellFormed) {inst : Obj}
    (ht : getProp inst "entity_type" = .str S.ENTITY_HASHED_OBSERVABLE_STIX_FILE) :
    convertToStix S inst = convertFileToStix S inst S.ENTITY_HASHED_OBSERVABLE_STIX_FILE := by
  have hm : S.ENTITY_HASHED_OBSERVABLE_STIX_FILE ∈ observableProjectorTypes S := by simp [observableProjectorTypes]
  rw [convertToStix_observable hW hm ht]
  have hn := hW.observableNodup
  simp only [observableProjectorTypes, List.nodup_cons, List.mem_cons, List.mem_singleton, List.not_mem_nil,
    not_or, or_false, List.nodup_nil, and_true, not_false_eq_true] at hn
  simp [convertObservableKind, hn]

theorem route_convertHostnameToStix {S : Schema} (hW : S.WellFormed) {inst : Obj}
    (ht : getProp inst "entity_type" = .str S.ENTITY_HOSTNAME) :
    convertToStix S inst = convertHostnameToStix S inst S.ENTITY_HOSTNAME := by
  have hm : S.ENTITY_HOSTNAME ∈ observableProjectorTypes S := by simp [observableProjectorTypes]
  rw [convertToStix_observable hW hm ht]
  have hn := hW.observableNodup
  simp only [observableProjectorTypes, List.nodup_cons, List.mem_cons, List.mem_singleton, List.not_mem_nil,
    not_or, or_false, List.nodup_nil, and_true, not_false_eq_true] at hn
  simp [convertObservableKind, hn]

theorem route_convertIPv4AddressToStix {S : Schema} (hW : S.WellFormed) {inst : Obj}
    (ht : getProp inst "entity_type" = .str S.ENTITY_IPV4_ADDR) :
    convertToStix S inst = convertIPv4AddressToStix S inst S.ENTITY_IPV4_ADDR := by
  have hm : S.ENTITY_IPV4_ADDR ∈ observableProjectorTypes S := by simp [observableProjectorTypes]
  rw [convertToStix_observable hW hm ht]
  have hn := hW.observableNodup
  simp only [observableProjectorTypes, List.nodup_cons, List.mem_cons, List.mem_singleton, List.not_mem_nil,
    not_or, or_false, List.nodup_nil, and_true, not_false_eq_true] at hn
  simp [convertObservableKind, hn]

theorem route_convertIPv6AddressToStix {S : Schema} (hW : S.WellFormed) {inst : Obj}
    (ht : getProp inst "entity_type" = .str S.ENTITY_IPV6_ADDR) :
    convertToStix S inst = convertIPv6AddressToStix S inst S.ENTITY_IPV6_ADDR := by
  have hm : S.ENTITY_IPV6_ADDR ∈ observableProjectorTypes S := by simp [observableProjectorTypes]
  rw [convertToStix_observable hW hm ht]
  have hn := hW.observableNodup
  simp only [observableProjectorTypes, List.nodup_cons, List.mem_cons, List.mem_singleton, List.not_mem_nil,
    not_or, or_false, List.nodup_nil, and_true, not_false_eq_true] at hn
  simp [convertObservableKind, hn]

theorem route_convertMacAddressToStix {S : Schema} (hW : S.WellFormed) {inst : Obj}
    (ht : getProp inst "entity_type" = .str S.ENTITY_MAC_ADDR) :
    convertToStix S inst = convertMacAddressToStix S inst S.ENTITY_MAC_ADDR := by
  have hm : S.ENTITY_MAC_ADDR ∈ observableProjectorTypes S := by simp [observableProjectorTypes]
  rw [convertToStix_observable hW hm ht]
  have hn := hW.observableNodup
  simp only [observableProjectorTypes, List.nodup_cons, List.mem_cons, List.mem_singleton, List.not_mem_nil,
    not_or, or_false, List.nodup_nil, and_true, not_false_eq_true] at hn
  simp [convertObservableKind, hn]

theorem route_convertMutexToStix {S : Schema} (hW : S.WellFormed) {inst : Obj}
    (ht : getProp inst "entity_type" = .str S.ENTITY_MUTEX) :
    convertToStix S inst = convertMutexToStix S inst S.ENTITY_MUTEX := by
  have hm : S.ENTITY_MUTEX ∈ observableProjectorTypes S := by simp [observableProjectorTypes]
  rw [convertToStix_observable hW hm ht]
  have hn := hW.observableNodup
  simp only [observableProjectorTypes, List.nodup_cons, List.mem_cons, List.mem_singleton, List.not_mem_nil,
    not_or, or_false, List.nodup_nil, and_true, not_false_eq_true] at hn
  simp [convertObservableKind, hn]

theorem route_convertNetworkTrafficToStix {S : Schema} (hW : S.WellFormed) {inst : Obj}
    (ht : getProp inst "entity_type" = .str S.ENTITY_NETWORK_TRAFFIC) :
    convertToStix S inst = convertNetworkTrafficToStix S inst S.ENTITY_NETWORK_TRAFFIC := by
  have hm : S.ENTITY_NETWORK_TRAFFIC ∈ observableProjectorTypes S := by simp [observableProjectorTypes]
  rw [convertToStix_observable hW hm ht]
  have hn := hW.observableNodup
  simp only [observableProjectorTypes, List.nodup_cons, List.mem_cons, List.mem_singleton, List.not_mem_nil,
    not_or, or_false, List.nodup_nil, and_true, not_false_eq_true] at hn
  simp [convertObservableKind, hn]

theorem route_convertProcessToStix {S : Schema} (hW : S.WellFormed) {inst : Obj}
    (ht : getProp inst "entity_type" = .str S.ENTITY_PROCESS) :
    convertToStix S inst = convertProcessToStix S inst S.ENTITY_PROCESS := by
  have hm : S.ENTITY_PROCESS ∈ observableProjectorTypes S := by simp [observableProjectorTypes]
  rw [convertToStix_observable hW hm ht]
  have hn := hW.observableNodup
  simp only [observableProjectorTypes, List.nodup_cons, List.mem_cons, List.mem_singleton, List.not_mem_nil,
    not_or, or_false, List.nodup_nil, and_true, not_false_eq_true] at hn
  simp [convertObservableKind, hn]

theorem route_convertSoftwareToStix {S : Schema} (hW : S.WellFormed) {inst : Obj}
    (ht : getProp inst "entity_type" = .str S.ENTITY_SOFTWARE) :
    convertToStix S inst = convertSoftwareToStix S inst S.ENTITY_SOFTWARE := by
  have hm : S.ENTITY_SOFTWARE ∈ observableProjectorTypes S := by simp [observableProjectorTypes]
  rw [convertToStix_observable hW hm ht]
  have hn := hW.observableNodup
  simp only [observableProjectorTypes, List.nodup_cons, List.mem_cons, List.mem_singleton, List.not_mem_nil,
    not_or, or_false, List.nodup_nil, and_true, not_false_eq_true] at hn
  simp [convertObservableKind, hn]

theorem route_convertTextToStix {S : Schema} (hW : S.WellFormed) {inst : Obj}
    (ht : getProp inst "entity_type" = .str S.ENTITY_TEXT) :
    convertToStix S inst = convertTextToStix S inst S.ENTITY_TEXT := by
  have hm : S.ENTITY_TEXT ∈ observableProjectorTypes S := by simp [observableProjectorTypes]
  rw [convertToStix_observable hW hm ht]
  have hn := hW.observableNodup
  simp only [observableProjectorTypes, List.nodup_cons, List.mem_cons, List.mem_singleton, List.not_mem_nil,
    not_or, or_false, List.nodup_nil, and_true, not_false_eq_true] at hn
  simp [convertObservableKind, hn]

theorem route_convertURLToStix {S : Schema} (hW : S.WellFormed) {inst : Obj}
    (ht : getProp inst "entity_type" = .str S.ENTITY_URL) :
    convertToStix S inst = convertURLToStix S inst S.ENTITY_URL := by
  have hm : S.ENTITY_URL ∈ observableProjectorTypes S := by simp [observableProjectorTypes]
  rw [convertToStix_observable hW hm ht]
  have hn := hW.observableNodup
  simp only [observableProjectorTypes, List.nodup_cons, List.mem_cons, List.mem_singleton, List.not_mem_nil,
    not_or, or_false, List.nodup_nil, and_true, not_false_eq_true] at hn
  simp [convertObservableKind, hn]

theorem route_convertUserAccountToStix {S : Schema} (hW : S.WellFormed) {inst : Obj}
    (ht : getProp inst "entity_type" = .str S.ENTITY_USER_ACCOUNT) :
    convertToStix S inst = convertUserAccountToStix S inst S.ENTITY_USER_ACCOUNT := by
  have hm : S.ENTITY_USER_ACCOUNT ∈ observableProjectorTypes S := by simp [observableProjectorTypes]
  rw [convertToStix_observable hW hm ht]
  have hn := hW.observableNodup
  simp only [observableProjectorTypes, List.nodup_cons, List.mem_cons, List.mem_singleton, List.not_mem_nil,
    not_or, or_false, List.nodup_nil, and_true, not_false_eq_true] at hn
  simp [convertObservableKind, hn]

theorem route_convertWindowsRegistryKeyToStix {S : Schema} (hW : S.WellFormed) {inst : Obj}
    (ht : getProp inst "entity_type" = .str S.ENTITY_WINDOWS_REGISTRY_KEY) :
    convertToStix S inst = convertWindowsRegistryKeyToStix S inst S.ENTITY_WINDOWS_REGISTRY_KEY := by
  have hm : S.ENTITY_WINDOWS_REGISTRY_KEY ∈ observableProjectorTypes S := by simp [observableProjectorTypes]
  rw [convertToStix_observable hW hm ht]
  have hn := hW.observableNodup
  simp only [observableProjectorTypes, List.nodup_cons, List.mem_cons, List.mem_singleton, List.not_mem_nil,
    not_or, or_false, List.nodup_nil, and_true, not_false_eq_true] at hn
  simp [convertObservableKind, hn]

theorem route_convertX509CertificateToStix {S : Schema} (hW : S.WellFormed) {inst : Obj}
    (ht : getProp inst "entity_type" = .str S.ENTITY_HASHED_OBSERVABLE_X509_CERTIFICATE) :
    convertToStix S inst = convertX509CertificateToStix S inst S.ENTITY_HASHED_OBSERVABLE_X509_CERTIFICATE := by
  have hm : S.ENTITY_HASHED_OBSERVABLE_X509_CERTIFICATE ∈ observableProjectorTypes S := by simp [observableProjectorTypes]
  rw [convertToStix_observable hW hm ht]
  have hn := hW.observableNodup
  simp only [observableProjectorTypes, List.nodup_cons, List.mem_cons, List.mem_singleton, List.not_mem_nil,
    not_or, or_false, List.nodup_nil, and_true, not_false_eq_true] at hn
  simp [convertObservableKind, hn]

/-- The sample schema is well formed. -/
theorem opencti_wellFormed : opencti.WellFormed where
  extKeys := opencti_extKeysDistinct
  domainNodup := by decide
  metaNodup := by decide
  observableNodup := by decide
  domain := by decide
  metaTypes := by decide
  observable := by decide

/-! ## C15 -/

theorem isValidStix_of_cleaned {S : Schema} {inst o stix : Obj}
    (ho : convertToStix S inst = .ok o) (hc : cleanObject o = .ok stix) :
    isValidStix stix = true := by
  have hp := convertToStix_envelope o ho
  have hv : getProp stix "spec_version" = .str "2.1" := by
    rw [cleanObject_getProp o hp.nodup stix hc "spec_version" (by decide), hp.spec_version]
    simp [isEmptyField]
  cases stix with
  | nil => simp [getProp] at hv
  | cons _ _ => rfl

/-- C15: for every schema and every instance, the conversion does not raise the
functional error "Invalid stix data conversion" (nor any other functional
error), because the final check never fails: whenever a projector returns an
object and its normalisation completes, the normalised object is non-empty
(it keeps the `spec_version` field every projector sets). -/
theorem C15_functional_error_unreachable (S : Schema) (inst : Obj) :
    (∀ msg, convertStoreToStix S inst ≠ .error (.functional msg)) ∧
    (∀ o stix, convertToStix S inst = .ok o → cleanObject o = .ok stix →
      isValidStix stix = true) := by
  refine ⟨fun msg => ?_, fun o stix ho hc => isValidStix_of_cleaned ho hc⟩
  unfold convertStoreToStix
  split
  · exact nf_throw_unsupported _ msg
  · cases ho : convertToStix S inst with
    | error e =>
      rw [error_bind]
      exact ho ▸ nf_convertToStix S inst msg
    | ok o =>
      rw [ok_bind]
      cases hc : cleanObject o with
      | error e =>
        rw [error_bind]
        exact hc ▸ nf_cleanObject o msg
      | ok stix =>
        rw [ok_bind, isValidStix_of_cleaned ho hc]
        exact fun e => Except.noConfusion e

/-- C15 on an instance the conversion rejects (an unknown type) and on one it
accepts (the sample malware). -/
theorem C15_functional_error_unreachable_witness :
    convertStoreToStix opencti sampleUnknownType ≠
      .error (.functional "Invalid stix data conversion") ∧
    ∃ o stix, convertToStix opencti sampleMalware = .ok o ∧ cleanObject o = .ok stix ∧
      isValidStix stix = true :=
  ⟨(C15_functional_error_unreachable opencti sampleUnknownType).1 _,
    _, _, rfl, rfl, (C15_functional_error_unreachable opencti sampleMalware).2 _ _ rfl rfl⟩

/-! ## C16 -/

theorem convertMarkingToStix_modified {S : Schema} {inst o : Obj}
    (h : convertMarkingToStix S inst = .ok o) :
    getProp o "modified" = getProp inst "updated_at" := by
  simp only [convertMarkingToStix, bind_eq_ok, pure_eq_ok] at h
  obtain ⟨marking, hm, octi, _, rfl⟩ := h
  simp only [buildStixMarkings, bind_eq_ok, pure_eq_ok] at hm
  obtain ⟨base, _, refs, _, marks, _, rfl⟩ := hm
  simp [getProp_assign, lookupLast]

/-- C16: under a well-formed schema, for every successfully converted
marking-definition instance whose `updated_at` is non-empty, the `modified`
field of the output equals the `updated_at` of the instance; the `modified`
attribute of the instance is not read. -/
theorem C16_marking_modified (S : Schema) (hW : S.WellFormed) (inst out : Obj)
    (h : convertStoreToStix S inst = .ok out)
    (ht : getProp inst "entity_type" = .str S.ENTITY_TYPE_MARKING_DEFINITION)
    (hu : isEmptyField (getProp inst "updated_at") = false) :
    getProp out "modified" = getProp inst "updated_at" := by
  obtain ⟨_, _, o, ho, hc⟩ := convertStoreToStix_ok h
  have hp := convertToStix_envelope o ho
  rw [route_convertMarkingToStix hW ht] at ho
  rw [cleanObject_getProp o hp.nodup out hc "modified" (by decide),
    convertMarkingToStix_modified ho, hu]
  simp

/-- C16 on the sample marking definition, whose `modified` attribute differs
from its `updated_at`. -/
theorem C16_marking_modified_witness :
    opencti.WellFormed ∧
    getProp sampleMarking "modified" = .str "2020-02-25T09:02:29.040Z" ∧
    getProp sampleMarking "updated_at" = .str "2022-03-01T10:00:00.000Z" ∧
    ∃ out, convertStoreToStix opencti sampleMarking = .ok out ∧
      getProp out "modified" = getProp sampleMarking "updated_at" :=
  ⟨opencti_wellFormed, rfl, rfl, _, rfl,
    C16_marking_modified opencti opencti_wellFormed sampleMarking _ rfl rfl rfl⟩

/-! ## The MITRE block of a projected object -/

theorem extensionsOf_assign (base fields : Obj) :
    extensionsOf (assign base fields) =
      match lookupLast fields "extensions" with
      | some v => spread v
      | none => extensionsOf base := by
  unfold extensionsOf
  rw [getProp_assign]
  cases lookupLast fields "extensions" <;> rfl

theorem hasProp_mkObj (fs : Obj) (k : String) :
    hasProp (mkObj fs) k = (lookupLast fs k).isSome := by
  unfold mkObj
  rw [hasProp_assign]
  simp [hasProp]

theorem assertType_ok {a b : String} {u : Unit} (h : assertType a b = .ok u) : b = a := by
  unfold assertType at h
  split at h
  · exact absurd h (throw_ne_ok _ _)
  · rename_i hn
    exact not_not.1 hn

theorem buildStixObject_noMitre {S : Schema} {inst o : Obj} (hS : S.ExtKeysDistinct)
    (h : buildStixObject S inst = .ok o) : hasProp (extensionsOf o) S.STIX_EXT_MITRE = false := by
  simp only [buildStixObject, bind_eq_ok, pure_eq_ok] at h
  obtain ⟨t, _, octi, _, rfl⟩ := h
  simp [extensionsOf, getProp, spread, hasProp_mkObj, lookupLast, hS.2.1]

theorem buildStixDomain_noMitre {S : Schema} {inst o : Obj} (hS : S.ExtKeysDistinct)
    (h : buildStixDomain S inst = .ok o) : hasProp (extensionsOf o) S.STIX_EXT_MITRE = false := by
  simp only [buildStixDomain, bind_eq_ok, pure_eq_ok] at h
  obtain ⟨base, hb, _, _, _, _, _, _, rfl⟩ := h
  rw [extensionsOf_assign]
  simpa [lookupLast] using buildStixObject_noMitre hS hb

theorem buildStixRelationship_noMitre {S : Schema} {inst o : Obj} (hS : S.ExtKeysDistinct)
    (h : buildStixRelationship S inst = .ok o) :
    hasProp (extensionsOf o) S.STIX_EXT_MITRE = false :=
  buildStixDomain_noMitre hS h

theorem buildStixMarkings_noMitre {S : Schema} {inst o : Obj} (hS : S.ExtKeysDistinct)
    (h : buildStixMarkings S inst = .ok o) : hasProp (extensionsOf o) S.STIX_EXT_MITRE = false := by
  simp only [buildStixMarkings, bind_eq_ok, pure_eq_ok] at h
  obtain ⟨base, hb, _, _, _, _, rfl⟩ := h
  rw [extensionsOf_assign]
  simpa [lookupLast] using buildStixObject_noMitre hS hb

theorem buildStixCyberObservable_noMitre {S : Schema} {inst o : Obj} (hS : S.ExtKeysDistinct)
    (h : buildStixCyberObservable S inst = .ok o) :
    hasProp (extensionsOf o) S.STIX_EXT_MITRE = false := by
  simp only [buildStixCyberObservable, bind_eq_ok, pure_eq_ok] at h
  obtain ⟨base, hb, _, _, _, _, _, _, _, _, sco, hsco, rfl⟩ := h
  rw [extensionsOf_assign]
  simp [lookupLast, spread, hasProp_mkObj, hS.2.1, hS.2.2]

theorem convertIdentityToStix_noMitre {S : Schema} {inst : Obj} {t : String} (hS : S.ExtKeysDistinct) :
    ∀ o, convertIdentityToStix S inst t = .ok o → hasProp (extensionsOf o) S.STIX_EXT_MITRE = false := by
  simp only [convertIdentityToStix]
  refine ite_post (fun _ => throw_bind_post) (fun _ => ?_)
  repeat (refine bind_post ?_; intro _ _)
  intro o h
  rw [pure_eq_ok] at h
  subst h
  have hb := buildStixDomain_noMitre hS (by assumption)
  rw [extensionsOf_assign]
  simp [lookupLast, spread, hasProp_mkObj, hasProp_assign, hS.2.1, hS.2.2, hb]

theorem convertLocationToStix_noMitre {S : Schema} {inst : Obj} {t : String} (hS : S.ExtKeysDistinct) :
    ∀ o, convertLocationToStix S inst t = .ok o → hasProp (extensionsOf o) S.STIX_EXT_MITRE = false := by
  simp only [convertLocationToStix]
  refine ite_post (fun _ => throw_bind_post) (fun _ => ?_)
  repeat (refine bind_post ?_; intro _ _)
  intro o h
  rw [pure_eq_ok] at h
  subst h
  have hb := buildStixDomain_noMitre hS (by assumption)
  rw [extensionsOf_assign]
  simp [lookupLast, spread, hasProp_mkObj, hasProp_assign, hS.2.1, hS.2.2, hb]

theorem convertReportToStix_noMitre {S : Schema} {inst : Obj} {t : String} (hS : S.ExtKeysDistinct) :
    ∀ o, convertReportToStix S inst t = .ok o → hasProp (extensionsOf o) S.STIX_EXT_MITRE = false := by
  simp only [convertReportToStix]
  repeat (refine bind_post ?_; intro _ _)
  intro o h
  rw [pure_eq_ok] at h
  subst h
  have hb := buildStixDomain_noMitre hS (by assumption)
  rw [extensionsOf_assign]
  simp [lookupLast, spread, hasProp_mkObj, hasProp_assign, hS.2.1, hS.2.2, hb]

theorem convertMalwareToStix_noMitre {S : Schema} {inst : Obj} {t : String} (hS : S.ExtKeysDistinct) :
    ∀ o, convertMalwareToStix S inst t = .ok o → hasProp (extensionsOf o) S.STIX_EXT_MITRE = false := by
  simp only [convertMalwareToStix]
  repeat (refine bind_post ?_; intro _ _)
  intro o h
  rw [pure_eq_ok] at h
  subst h
  have hb := buildStixDomain_noMitre hS (by assumption)
  rw [extensionsOf_assign]
  simp [lookupLast, spread, hasProp_mkObj, hasProp_assign, hS.2.1, hS.2.2, hb]

theorem convertInfrastructureToStix_noMitre {S : Schema} {inst : Obj} {t : String} (hS : S.ExtKeysDistinct) :
    ∀ o, convertInfrastructureToStix S inst t = .ok o → hasProp (extensionsOf o) S.STIX_EXT_MITRE = false := by
  simp only [convertInfrastructureToStix]
  repeat (refine bind_post ?_; intro _ _)
  intro o h
  rw [pure_eq_ok] at h
  subst h
  have hb := buildStixDomain_noMitre hS (by assumption)
  rw [extensionsOf_assign]
  simp [lookupLast, spread, hasProp_mkObj, hasProp_assign, hS.2.1, hS.2.2, hb]

theorem convertAttackPatternToStix_mitre {S : Schema} {inst : Obj} {t : String} :
    ∀ o, convertAttackPatternToStix S inst t = .ok o → t = S.ENTITY_TYPE_ATTACK_PATTERN ∧
      ∃ mitre, buildMITREExtensions inst = .ok mitre ∧
        getProp (extensionsOf o) S.STIX_EXT_MITRE = .obj mitre := by
  simp only [convertAttackPatternToStix]
  repeat (refine bind_post ?_; intro _ _)
  intro o h
  rw [pure_eq_ok] at h
  subst h
  refine ⟨assertType_ok (by assumption), _, (by assumption), ?_⟩
  rw [extensionsOf_assign]
  simp [lookupLast, spread, getProp_mkObj]

theorem convertCampaignToStix_noMitre {S : Schema} {inst : Obj} {t : String} (hS : S.ExtKeysDistinct) :
    ∀ o, convertCampaignToStix S inst t = .ok o → hasProp (extensionsOf o) S.STIX_EXT_MITRE = false := by
  simp only [convertCampaignToStix]
  repeat (refine bind_post ?_; intro _ _)
  intro o h
  rw [pure_eq_ok] at h
  subst h
  have hb := buildStixDomain_noMitre hS (by assumption)
  rw [extensionsOf_assign]
  simp [lookupLast, spread, hasProp_mkObj, hasProp_assign, hS.2.1, hS.2.2, hb]

theorem convertThreatActorToStix_noMitre {S : Schema} {inst : Obj} {t : String} (hS : S.ExtKeysDistinct) :
    ∀ o, convertThreatActorToStix S inst t = .ok o → hasProp (extensionsOf o) S.STIX_EXT_MITRE = false := by
  simp only [convertThreatActorToStix]
  repeat (refine bind_post ?_; intro _ _)
  intro o h
  rw [pure_eq_ok] at h
  subst h
  have hb := buildStixDomain_noMitre hS (by assumption)
  rw [extensionsOf_assign]
  simp [lookupLast, spread, hasProp_mkObj, hasProp_assign, hS.2.1, hS.2.2, hb]

theorem convertNoteToStix_noMitre {S : Schema} {inst : Obj} {t : String} (hS : S.ExtKeysDistinct) :
    ∀ o, convertNoteToStix S inst t = .ok o → hasProp (extensionsOf o) S.STIX_EXT_MITRE = false := by
  simp only [convertNoteToStix]
  repeat (refine bind_post ?_; intro _ _)
  intro o h
  rw [pure_eq_ok] at h
  subst h
  have hb := buildStixDomain_noMitre hS (by assumption)
  rw [extensionsOf_assign]
  simp [lookupLast, spread, hasProp_mkObj, hasProp_assign, hS.2.1, hS.2.2, hb]

theorem convertOpinionToStix_noMitre {S : Schema} {inst : Obj} {t : String} (hS : S.ExtKeysDistinct) :
    ∀ o, convertOpinionToStix S inst t = .ok o → hasProp (extensionsOf o) S.STIX_EXT_MITRE = false := by
  simp only [convertOpinionToStix]
  repeat (refine bind_post ?_; intro _ _)
  intro o h
  rw [pure_eq_ok] at h
  subst h
  have hb := buildStixDomain_noMitre hS (by assumption)
  rw [extensionsOf_assign]
  simp [lookupLast, spread, hasProp_mkObj, hasProp_assign, hS.2.1, hS.2.2, hb]

theorem convertObservedDateToStix_noMitre {S : Schema} {inst : Obj} {t : String} (hS : S.ExtKeysDistinct) :
    ∀ o, convertObservedDateToStix S inst t = .ok o → hasProp (extensionsOf o) S.STIX_EXT_MITRE = false := by
  simp only [convertObservedDateToStix]
  repeat (refine bind_post ?_; intro _ _)
  intro o h
  rw [pure_eq_ok] at h
  subst h
  have hb := buildStixDomain_noMitre hS (by assumption)
  rw [extensionsOf_assign]
  simp [lookupLast, spread, hasProp_mkObj, hasProp_assign, hS.2.1, hS.2.2, hb]

theorem convertCourseOfActionToStix_mitre {S : Schema} {inst : Obj} {t : String} :
    ∀ o, convertCourseOfActionToStix S inst t = .ok o → t = S.ENTITY_TYPE_COURSE_OF_ACTION ∧
      ∃ mitre, buildMITREExtensions inst = .ok mitre ∧
        getProp (extensionsOf o) S.STIX_EXT_MITRE = .obj mitre := by
  simp only [convertCourseOfActionToStix]
  repeat (refine bind_post ?_; intro _ _)
  intro o h
  rw [pure_eq_ok] at h
  subst h
  refine ⟨assertType_ok (by assumption), _, (by assumption), ?_⟩
  rw [extensionsOf_assign]
  simp [lookupLast, spread, getProp_mkObj]

theorem convertIncidentToStix_noMitre {S : Schema} {inst : Obj} {t : String} (hS : S.ExtKeysDistinct) :
    ∀ o, convertIncidentToStix S inst t = .ok o → hasProp (extensionsOf o) S.STIX_EXT_MITRE = false := by
  simp only [convertIncidentToStix]
  repeat (refine bind_post ?_; intro _ _)
  intro o h
  rw [pure_eq_ok] at h
  subst h
  have hb := buildStixDomain_noMitre hS (by assumption)
  rw [extensionsOf_assign]
  simp [lookupLast, spread, hasProp_mkObj, hasProp_assign, hS.2.1, hS.2.2, hb]

theorem convertIndicatorToStix_mitre {S : Schema} {inst : Obj} {t : String} :
    ∀ o, convertIndicatorToStix S inst t = .ok o → t = S.ENTITY_TYPE_INDICATOR ∧
      ∃ mitre, buildMITREExtensions inst = .ok mitre ∧
        getProp (extensionsOf o) S.STIX_EXT_MITRE = .obj mitre := by
  simp only [convertIndicatorToStix]
  repeat (refine bind_post ?_; intro _ _)
  intro o h
  rw [pure_eq_ok] at h
  subst h
  refine ⟨assertType_ok (by assumption), _, (by assumption), ?_⟩
  rw [extensionsOf_assign]
  simp [lookupLast, spread, getProp_mkObj]

theorem convertIntrusionSetToStix_noMitre {S : Schema} {inst : Obj} {t : String} (hS : S.ExtKeysDistinct) :
    ∀ o, convertIntrusionSetToStix S inst t = .ok o → hasProp (extensionsOf o) S.STIX_EXT_MITRE = false := by
  simp only [convertIntrusionSetToStix]
  repeat (refine bind_post ?_; intro _ _)
  intro o h
  rw [pure_eq_ok] at h
  subst h
  have hb := buildStixDomain_noMitre hS (by assumption)
  rw [extensionsOf_assign]
  simp [lookupLast, spread, hasProp_mkObj, hasProp_assign, hS.2.1, hS.2.2, hb]

theorem convertToolToStix_noMitre {S : Schema} {inst : Obj} {t : String} (hS : S.ExtKeysDistinct) :
    ∀ o, convertToolToStix S inst t = .ok o → hasProp (extensionsOf o) S.STIX_EXT_MITRE = false := by
  simp only [convertToolToStix]
  repeat (refine bind_post ?_; intro _ _)
  intro o h
  rw [pure_eq_ok] at h
  subst h
  have hb := buildStixDomain_noMitre hS (by assumption)
  rw [extensionsOf_assign]
  simp [lookupLast, spread, hasProp_mkObj, hasProp_assign, hS.2.1, hS.2.2, hb]

theorem convertVulnerabilityToStix_noMitre {S : Schema} {inst : Obj} {t : String} (hS : S.ExtKeysDistinct) :
    ∀ o, convertVulnerabilityToStix S inst t = .ok o → hasProp (extensionsOf o) S.STIX_EXT_MITRE = false := by
  simp only [convertVulnerabilityToStix]
  repeat (refine bind_post ?_; intro _ _)
  intro o h
  rw [pure_eq_ok] at h
  subst h
  have hb := buildStixDomain_noMitre hS (by assumption)
  rw [extensionsOf_assign]
  simp [lookupLast, spread, hasProp_mkObj, hasProp_assign, hS.2.1, hS.2.2, hb]

theorem convertMarkingToStix_noMitre {S : Schema} {inst : Obj} (hS : S.ExtKeysDistinct) :
    ∀ o, convertMarkingToStix S inst = .ok o → hasProp (extensionsOf o) S.STIX_EXT_MITRE = false := by
  simp only [convertMarkingToStix]
  repeat (refine bind_post ?_; intro _ _)
  intro o h
  rw [pure_eq_ok] at h
  subst h
  have hb := buildStixMarkings_noMitre hS (by assumption)
  rw [extensionsOf_assign]
  simp [lookupLast, spread, hasProp_mkObj, hasProp_assign, hS.2.1, hS.2.2, hb]

theorem convertLabelToStix_noMitre {S : Schema} {inst : Obj} (hS : S.ExtKeysDistinct) :
    ∀ o, convertLabelToStix S inst = .ok o → hasProp (extensionsOf o) S.STIX_EXT_MITRE = false := by
  simp only [convertLabelToStix]
  repeat (refine bind_post ?_; intro _ _)
  intro o h
  rw [pure_eq_ok] at h
  subst h
  have hb := buildStixObject_noMitre hS (by assumption)
  rw [extensionsOf_assign]
  simp [lookupLast, spread, hasProp_mkObj, hasProp_assign, hS.2.1, hS.2.2, hb]

theorem convertKillChainPhaseToStix_noMitre {S : Schema} {inst : Obj} (hS : S.ExtKeysDistinct) :
    ∀ o, convertKillChainPhaseToStix S inst = .ok o → hasProp (extensionsOf o) S.STIX_EXT_MITRE = false := by
  simp only [convertKillChainPhaseToStix]
  repeat (refine bind_post ?_; intro _ _)
  intro o h
  rw [pure_eq_ok] at h
  subst h
  have hb := buildStixObject_noMitre hS (by assumption)
  rw [extensionsOf_assign]
  simp [lookupLast, spread, hasProp_mkObj, hasProp_assign, hS.2.1, hS.2.2, hb]

theorem convertExternalReferenceToStix_noMitre {S : Schema} {inst : Obj} (hS : S.ExtKeysDistinct) :
    ∀ o, convertExternalReferenceToStix S inst = .ok o → hasProp (extensionsOf o) S.STIX_EXT_MITRE = false := by
  simp only [convertExternalReferenceToStix]
  repeat (refine bind_post ?_; intro _ _)
  intro o h
  rw [pure_eq_ok] at h
  subst h
  have hb := buildStixObject_noMitre hS (by assumption)
  rw [extensionsOf_assign]
  simp [lookupLast, spread, hasProp_mkObj, hasProp_assign, hS.2.1, hS.2.2, hb]

theorem convertWindowsRegistryValueToStix_noMitre {S : Schema} {inst : Obj} (hS : S.ExtKeysDistinct) :
    ∀ o, convertWindowsRegistryValueToStix S inst = .ok o → hasProp (extensionsOf o) S.STIX_EXT_MITRE = false := by
  simp only [convertWindowsRegistryValueToStix]
  repeat (refine bind_post ?_; intro _ _)
  intro o h
  rw [pure_eq_ok] at h
  subst h
  have hb := buildStixCyberObservable_noMitre hS (by assumption)
  rw [extensionsOf_assign]
  simp [lookupLast, spread, hasProp_mkObj, hasProp_assign, hS.2.1, hS.2.2, hb]

theorem convertEmailMimePartToStix_noMitre {S : Schema} {inst : Obj} (hS : S.ExtKeysDistinct) :
    ∀ o, convertEmailMimePartToStix S inst = .ok o → hasProp (extensionsOf o) S.STIX_EXT_MITRE = false := by
  simp only [convertEmailMimePartToStix]
  repeat (refine bind_post ?_; intro _ _)
  intro o h
  rw [pure_eq_ok] at h
  subst h
  have hb := buildStixCyberObservable_noMitre hS (by assumption)
  rw [extensionsOf_assign]
  simp [lookupLast, spread, hasProp_mkObj, hasProp_assign, hS.2.1, hS.2.2, hb]

theorem convertArtifactToStix_noMitre {S : Schema} {inst : Obj} {t : String} (hS : S.ExtKeysDistinct) :
    ∀ o, convertArtifactToStix S inst t = .ok o → hasProp (extensionsOf o) S.STIX_EXT_MITRE = false := by
  simp only [convertArtifactToStix]
  repeat (refine bind_post ?_; intro _ _)
  intro o h
  rw [pure_eq_ok] at h
  subst h
  have hb := buildStixCyberObservable_noMitre hS (by assumption)
  rw [extensionsOf_assign]
  simp [lookupLast, spread, hasProp_mkObj, hasProp_assign, hS.2.1, hS.2.2, hb]

theorem convertAutonomousSystemToStix_noMitre {S : Schema} {inst : Obj} {t : String} (hS : S.ExtKeysDistinct) :
    ∀ o, convertAutonomousSystemToStix S inst t = .ok o → hasProp (extensionsOf o) S.STIX_EXT_MITRE = false := by
  simp only [convertAutonomousSystemToStix]
  repeat (refine bind_post ?_; intro _ _)
  intro o h
  rw [pure_eq_ok] at h
  subst h
  have hb := buildStixCyberObservable_noMitre hS (by assumption)
  rw [extensionsOf_assign]
  simp [lookupLast, spread, hasProp_mkObj, hasProp_assign, hS.2.1, hS.2.2, hb]

theorem convertCryptocurrencyWalletToStix_noMitre {S : Schema} {inst : Obj} {t : String} (hS : S.ExtKeysDistinct) :
    ∀ o, convertCryptocurrencyWalletToStix S inst t = .ok o → hasProp (extensionsOf o) S.STIX_EXT_MITRE = false := by
  simp only [convertCryptocurrencyWalletToStix]
  repeat (refine bind_post ?_; intro _ _)
  intro o h
  rw [pure_eq_ok] at h
  subst h
  have hb := buildStixCyberObservable_noMitre hS (by assumption)
  rw [extensionsOf_assign]
  simp [lookupLast, spread, hasProp_mkObj, hasProp_assign, hS.2.1, hS.2.2, hb]

theorem convertCryptographicKeyToStix_noMitre {S : Schema} {inst : Obj} {t : String} (hS : S.ExtKeysDistinct) :
    ∀ o, convertCryptographicKeyToStix S inst t = .ok o → hasProp (extensionsOf o) S.STIX_EXT_MITRE = false := by
  simp only [convertCryptographicKeyToStix]
  repeat (refine bind_post ?_; intro _ _)
  intro o h
  rw [pure_eq_ok] at h
  subst h
  have hb := buildStixCyberObservable_noMitre hS (by assumption)
  rw [extensionsOf_assign]
  simp [lookupLast, spread, hasProp_mkObj, hasProp_assign, hS.2.1, hS.2.2, hb]

theorem convertDirectoryToStix_noMitre {S : Schema} {inst : Obj} {t : String} (hS : S.ExtKeysDistinct) :
    ∀ o, convertDirectoryToStix S inst t = .ok o → hasProp (extensionsOf o) S.STIX_EXT_MITRE = false := by
  simp only [convertDirectoryToStix]
  repeat (refine bind_post ?_; intro _ _)
  intro o h
  rw [pure_eq_ok] at h
  subst h
  have hb := buildStixCyberObservable_noMitre hS (by assumption)
  rw [extensionsOf_assign]
  simp [lookupLast, spread, hasProp_mkObj, hasProp_assign, hS.2.1, hS.2.2, hb]

theorem convertDomainNameToStix_noMitre {S : Schema} {inst : Obj} {t : String} (hS : S.ExtKeysDistinct) :
    ∀ o, convertDomainNameToStix S inst t = .ok o → hasProp (extensionsOf o) S.STIX_EXT_MITRE = false := by
  simp only [convertDomainNameToStix]
  repeat (refine bind_post ?_; intro _ _)
  intro o h
  rw [pure_eq_ok] at h
  subst h
  have hb := buildStixCyberObservable_noMitre hS (by assumption)
  rw [extensionsOf_assign]
  simp [lookupLast, spread, hasProp_mkObj, hasProp_assign, hS.2.1, hS.2.2, hb]

theorem convertEmailAddressToStix_noMitre {S : Schema} {inst : Obj} {t : String} (hS : S.ExtKeysDistinct) :
    ∀ o, convertEmailAddressToStix S inst t = .ok o → hasProp (extensionsOf o) S.STIX_EXT_MITRE = false := by
  simp only [convertEmailAddressToStix]
  repeat (refine bind_post ?_; intro _ _)
  intro o h
  rw [pure_eq_ok] at h
  subst h
  have hb := buildStixCyberObservable_noMitre hS (by assumption)
  rw [extensionsOf_assign]
  simp [lookupLast, spread, hasProp_mkObj, hasProp_assign, hS.2.1, hS.2.2, hb]

theorem convertEmailMessageToStix_noMitre {S : Schema} {inst : Obj} {t : String} (hS : S.ExtKeysDistinct) :
    ∀ o, convertEmailMessageToStix S inst t = .ok o → hasProp (extensionsOf o) S.STIX_EXT_MITRE = false := by
  simp only [convertEmailMessageToStix]
  repeat (refine bind_post ?_; intro _ _)
  intro o h
  rw [pure_eq_ok] at h
  subst h
  have hb := buildStixCyberObservable_noMitre hS (by assumption)
  rw [extensionsOf_assign]
  simp [lookupLast, spread, hasProp_mkObj, hasProp_assign, hS.2.1, hS.2.2, hb]

theorem convertFileToStix_noMitre {S : Schema} {inst : Obj} {t : String} (hS : S.ExtKeysDistinct) :
    ∀ o, convertFileToStix S inst t = .ok o → hasProp (extensionsOf o) S.STIX_EXT_MITRE = false := by
  simp only [convertFileToStix]
  repeat (refine bind_post ?_; intro _ _)
  intro o h
  rw [pure_eq_ok] at h
  subst h
  have hb := buildStixCyberObservable_noMitre hS (by assumption)
  rw [extensionsOf_assign]
  simp [lookupLast, spread, hasProp_mkObj, hasProp_assign, hS.2.1, hS.2.2, hb]

theorem convertHostnameToStix_noMitre {S : Schema} {inst : Obj} {t : String} (hS : S.ExtKeysDistinct) :
    ∀ o, convertHostnameToStix S inst t = .ok o → hasProp (extensionsOf o) S.STIX_EXT_MITRE = false := by
  simp only [convertHostnameToStix]
  repeat (refine bind_post ?_; intro _ _)
  intro o h
  rw [pure_eq_ok] at h
  subst h
  have hb := buildStixCyberObservable_noMitre hS (by assumption)
  rw [extensionsOf_assign]
  simp [lookupLast, spread, hasProp_mkObj, hasProp_assign, hS.2.1, hS.2.2, hb]

theorem convertIPv4AddressToStix_noMitre {S : Schema} {inst : Obj} {t : String} (hS : S.ExtKeysDistinct) :
    ∀ o, convertIPv4AddressToStix S inst t = .ok o → hasProp (extensionsOf o) S.STIX_EXT_MITRE = false := by
  simp only [convertIPv4AddressToStix]
  repeat (refine bind_post ?_; intro _ _)
  intro o h
  rw [pure_eq_ok] at h
  subst h
  have hb := buildStixCyberObservable_noMitre hS (by assumption)
  rw [extensionsOf_assign]
  simp [lookupLast, spread, hasProp_mkObj, hasProp_assign, hS.2.1, hS.2.2, hb]

theorem convertIPv6AddressToStix_noMitre {S : Schema} {inst : Obj} {t : String} (hS : S.ExtKeysDistinct) :
    ∀ o, convertIPv6AddressToStix S inst t = .ok o → hasProp (extensionsOf o) S.STIX_EXT_MITRE = false := by
  simp only [convertIPv6AddressToStix]
  repeat (refine bind_post ?_; intro _ _)
  intro o h
  rw [pure_eq_ok] at h
  subst h
  have hb := buildStixCyberObservable_noMitre hS (by assumption)
  rw [extensionsOf_assign]
  simp [lookupLast, spread, hasProp_mkObj, hasProp_assign, hS.2.1, hS.2.2, hb]

theorem convertMacAddressToStix_noMitre {S : Schema} {inst : Obj} {t : String} (hS : S.ExtKeysDistinct) :
    ∀ o, convertMacAddressToStix S inst t = .ok o → hasProp (extensionsOf o) S.STIX_EXT_MITRE = false := by
  simp only [convertMacAddressToStix]
  repeat (refine bind_post ?_; intro _ _)
  intro o h
  rw [pure_eq_ok] at h
  subst h
  have hb := buildStixCyberObservable_noMitre hS (by assumption)
  rw [extensionsOf_assign]
  simp [lookupLast, spread, hasProp_mkObj, hasProp_assign, hS.2.1, hS.2.2, hb]

theorem convertMutexToStix_noMitre {S : Schema} {inst : Obj} {t : String} (hS : S.ExtKeysDistinct) :
    ∀ o, convertMutexToStix S inst t = .ok o → hasProp (extensionsOf o) S.STIX_EXT_MITRE = false := by
  simp only [convertMutexToStix]
  repeat (refine bind_post ?_; intro _ _)
  intro o h
  rw [pure_eq_ok] at h
  subst h
  have hb := buildStixCyberObservable_noMitre hS (by assumption)
  rw [extensionsOf_assign]
  simp [lookupLast, spread, hasProp_mkObj, hasProp_assign, hS.2.1, hS.2.2, hb]

theorem convertNetworkTrafficToStix_noMitre {S : Schema} {inst : Obj} {t : String} (hS : S.ExtKeysDistinct) :
    ∀ o, convertNetworkTrafficToStix S inst t = .ok o → hasProp (extensionsOf o) S.STIX_EXT_MITRE = false := by
  simp only [convertNetworkTrafficToStix]
  repeat (refine bind_post ?_; intro _ _)
  intro o h
  rw [pure_eq_ok] at h
  subst h
  have hb := buildStixCyberObservable_noMitre hS (by assumption)
  rw [extensionsOf_assign]
  simp [lookupLast, spread, hasProp_mkObj, hasProp_assign, hS.2.1, hS.2.2, hb]

theorem convertProcessToStix_noMitre {S : Schema} {inst : Obj} {t : String} (hS : S.ExtKeysDistinct) :
    ∀ o, convertProcessToStix S inst t = .ok o → hasProp (extensionsOf o) S.STIX_EXT_MITRE = false := by
  simp only [convertProcessToStix]
  repeat (refine bind_post ?_; intro _ _)
  intro o h
  rw [pure_eq_ok] at h
  subst h
  have hb := buildStixCyberObservable_noMitre hS (by assumption)
  rw [extensionsOf_assign]
  simp [lookupLast, spread, hasProp_mkObj, hasProp_assign, hS.2.1, hS.2.2, hb]

theorem convertSoftwareToStix_noMitre {S : Schema} {inst : Obj} {t : String} (hS : S.ExtKeysDistinct) :
    ∀ o, convertSoftwareToStix S inst t = .ok o → hasProp (extensionsOf o) S.STIX_EXT_MITRE = false := by
  simp only [convertSoftwareToStix]
  repeat (refine bind_post ?_; intro _ _)
  intro o h
  rw [pure_eq_ok] at h
  subst h
  have hb := buildStixCyberObservable_noMitre hS (by assumption)
  rw [extensionsOf_assign]
  simp [lookupLast, spread, hasProp_mkObj, hasProp_assign, hS.2.1, hS.2.2, hb]

theorem convertTextToStix_noMitre {S : Schema} {inst : Obj} {t : String} (hS : S.ExtKeysDistinct) :
    ∀ o, convertTextToStix S inst t = .ok o → hasProp (extensionsOf o) S.STIX_EXT_MITRE = false := by
  simp only [convertTextToStix]
  repeat (refine bind_post ?_; intro _ _)
  intro o h
  rw [pure_eq_ok] at h
  subst h
  have hb := buildStixCyberObservable_noMitre hS (by assumption)
  rw [extensionsOf_assign]
  simp [lookupLast, spread, hasProp_mkObj, hasProp_assign, hS.2.1, hS.2.2, hb]

theorem convertURLToStix_noMitre {S : Schema} {inst : Obj} {t : String} (hS : S.ExtKeysDistinct) :
    ∀ o, convertURLToStix S inst t = .ok o → hasProp (extensionsOf o) S.STIX_EXT_MITRE = false := by
  simp only [convertURLToStix]
  repeat (refine bind_post ?_; intro _ _)
  intro o h
  rw [pure_eq_ok] at h
  subst h
  have hb := buildStixCyberObservable_noMitre hS (by assumption)
  rw [extensionsOf_assign]
  simp [lookupLast, spread, hasProp_mkObj, hasProp_assign, hS.2.1, hS.2.2, hb]

theorem convertUserAccountToStix_noMitre {S : Schema} {inst : Obj} {t : String} (hS : S.ExtKeysDistinct) :
    ∀ o, convertUserAccountToStix S inst t = .ok o → hasProp (extensionsOf o) S.STIX_EXT_MITRE = false := by
  simp only [convertUserAccountToStix]
  repeat (refine bind_post ?_; intro _ _)
  intro o h
  rw [pure_eq_ok] at h
  subst h
  have hb := buildStixCyberObservable_noMitre hS (by assumption)
  rw [extensionsOf_assign]
  simp [lookupLast, spread, hasProp_mkObj, hasProp_assign, hS.2.1, hS.2.2, hb]

theorem convertWindowsRegistryKeyToStix_noMitre {S : Schema} {inst : Obj} {t : String} (hS : S.ExtKeysDistinct) :
    ∀ o, convertWindowsRegistryKeyToStix S inst t = .ok o → hasProp (extensionsOf o) S.STIX_EXT_MITRE = false := by
  simp only [convertWindowsRegistryKeyToStix]
  repeat (refine bind_post ?_; intro _ _)
  intro o h
  rw [pure_eq_ok] at h
  subst h
  have hb := buildStixCyberObservable_noMitre hS (by assumption)
  rw [extensionsOf_assign]
  simp [lookupLast, spread, hasProp_mkObj, hasProp_assign, hS.2.1, hS.2.2, hb]

theorem convertX509CertificateToStix_noMitre {S : Schema} {inst : Obj} {t : String} (hS : S.ExtKeysDistinct) :
    ∀ o, convertX509CertificateToStix S inst t = .ok o → hasProp (extensionsOf o) S.STIX_EXT_MITRE = false := by
  simp only [convertX509CertificateToStix]
  repeat (refine bind_post ?_; intro _ _)
  intro o h
  rw [pure_eq_ok] at h
  subst h
  have hb := buildStixCyberObservable_noMitre hS (by assumption)
  rw [extensionsOf_assign]
  simp [lookupLast, spread, hasProp_mkObj, hasProp_assign, hS.2.1, hS.2.2, hb]

theorem convertRelationToStix_noMitre {S : Schema} {inst : Obj} (hS : S.ExtKeysDistinct) :
    ∀ o, convertRelationToStix S inst = .ok o → hasProp (extensionsOf o) S.STIX_EXT_MITRE = false := by
  simp only [convertRelationToStix]
  repeat (refine bind_post ?_; intro _ _)
  intro o h
  rw [pure_eq_ok] at h
  subst h
  have hb := buildStixRelationship_noMitre hS (by assumption)
  rw [extensionsOf_assign]
  simp [lookupLast, spread, hasProp_mkObj, hasProp_assign, hS.2.1, hS.2.2, hb]

theorem convertSightingToStix_noMitre {S : Schema} {inst : Obj} (hS : S.ExtKeysDistinct) :
    ∀ o, convertSightingToStix S inst = .ok o → hasProp (extensionsOf o) S.STIX_EXT_MITRE = false := by
  simp only [convertSightingToStix]
  repeat (refine bind_post ?_; intro _ _)
  intro o h
  rw [pure_eq_ok] at h
  subst h
  have hb := buildStixRelationship_noMitre hS (by assumption)
  rw [extensionsOf_assign]
  simp [lookupLast, spread, hasProp_mkObj, hasProp_assign, hS.2.1, hS.2.2, hb]

theorem convertRelationshipKind_mitre {S : Schema} {inst : Obj} {t : String} (hS : S.ExtKeysDistinct) :
    ∀ o, convertRelationshipKind S inst t = .ok o →
      hasProp (extensionsOf o) S.STIX_EXT_MITRE = false ∨
      (t ∈ mitreTypes S ∧ ∃ mitre, buildMITREExtensions inst = .ok mitre ∧
        getProp (extensionsOf o) S.STIX_EXT_MITRE = .obj mitre) := by
  unfold convertRelationshipKind
  refine ite_post (fun _ o h => Or.inl (convertRelationToStix_noMitre hS o h)) (fun _ => ?_)
  refine ite_post (fun _ o h => Or.inl (convertRelationToStix_noMitre hS o h)) (fun _ => ?_)
  refine ite_post (fun _ o h => Or.inl (convertSightingToStix_noMitre hS o h)) (fun _ => ?_)
  refine ite_post (fun _ o h => Or.inl (convertRelationToStix_noMitre hS o h)) (fun _ => ?_)
  exact fun b h => absurd h (throw_ne_ok _ _)

theorem convertDomainKind_mitre {S : Schema} {inst : Obj} {t : String} (hS : S.ExtKeysDistinct) :
    ∀ o, convertDomainKind S inst t = .ok o →
      hasProp (extensionsOf o) S.STIX_EXT_MITRE = false ∨
      (t ∈ mitreTypes S ∧ ∃ mitre, buildMITREExtensions inst = .ok mitre ∧
        getProp (extensionsOf o) S.STIX_EXT_MITRE = .obj mitre) := by
  unfold convertDomainKind
  refine ite_post (fun _ o h => Or.inl (convertIdentityToStix_noMitre hS o h)) (fun _ => ?_)
  refine ite_post (fun _ o h => Or.inl (convertLocationToStix_noMitre hS o h)) (fun _ => ?_)
  refine ite_post (fun _ o h => Or.inl (convertReportToStix_noMitre hS o h)) (fun _ => ?_)
  refine ite_post (fun _ o h => Or.inl (convertMalwareToStix_noMitre hS o h)) (fun _ => ?_)
  refine ite_post (fun _ o h => Or.inl (convertInfrastructureToStix_noMitre hS o h)) (fun _ => ?_)
  refine ite_post (fun _ o h => Or.inr ⟨?_, (convertAttackPatternToStix_mitre o h).2⟩) (fun _ => ?_)
  · rw [(convertAttackPatternToStix_mitre o h).1]; simp [mitreTypes]
  refine ite_post (fun _ o h => Or.inl (convertCampaignToStix_noMitre hS o h)) (fun _ => ?_)
  refine ite_post (fun _ o h => Or.inl (convertThreatActorToStix_noMitre hS o h)) (fun _ => ?_)
  refine ite_post (fun _ o h => Or.inl (convertNoteToStix_noMitre hS o h)) (fun _ => ?_)
  refine ite_post (fun _ o h => Or.inl (convertOpinionToStix_noMitre hS o h)) (fun _ => ?_)
  refine ite_post (fun _ o h => Or.inl (convertObservedDateToStix_noMitre hS o h)) (fun _ => ?_)
  refine ite_post (fun _ o h => Or.inr ⟨?_, (convertCourseOfActionToStix_mitre o h).2⟩) (fun _ => ?_)
  · rw [(convertCourseOfActionToStix_mitre o h).1]; simp [mitreTypes]
  refine ite_post (fun _ o h => Or.inl (convertIncidentToStix_noMitre hS o h)) (fun _ => ?_)
  refine ite_post (fun _ o h => Or.inr ⟨?_, (convertIndicatorToStix_mitre o h).2⟩) (fun _ => ?_)
  · rw [(convertIndicatorToStix_mitre o h).1]; simp [mitreTypes]
  refine ite_post (fun _ o h => Or.inl (convertIntrusionSetToStix_noMitre hS o h)) (fun _ => ?_)
  refine ite_post (fun _ o h => Or.inl (convertToolToStix_noMitre hS o h)) (fun _ => ?_)
  refine ite_post (fun _ o h => Or.inl (convertVulnerabilityToStix_noMitre hS o h)) (fun _ => ?_)
  exact fun b h => absurd h (throw_ne_ok _ _)

theorem convertMetaKind_mitre {S : Schema} {inst : Obj} {t : String} (hS : S.ExtKeysDistinct) :
    ∀ o, convertMetaKind S inst t = .ok o →
      hasProp (extensionsOf o) S.STIX_EXT_MITRE = false ∨
      (t ∈ mitreTypes S ∧ ∃ mitre, buildMITREExtensions inst = .ok mitre ∧
        getProp (extensionsOf o) S.STIX_EXT_MITRE = .obj mitre) := by
  unfold convertMetaKind
  refine ite_post (fun _ o h => Or.inl (convertMarkingToStix_noMitre hS o h)) (fun _ => ?_)
  refine ite_post (fun _ o h => Or.inl (convertLabelToStix_noMitre hS o h)) (fun _ => ?_)
  refine ite_post (fun _ o h => Or.inl (convertKillChainPhaseToStix_noMitre hS o h)) (fun _ => ?_)
  refine ite_post (fun _ o h => Or.inl (convertExternalReferenceToStix_noMitre hS o h)) (fun _ => ?_)
  exact fun b h => absurd h (throw_ne_ok _ _)

theorem convertObservableKind_mitre {S : Schema} {inst : Obj} {t : String} (hS : S.ExtKeysDistinct) :
    ∀ o, convertObservableKind S inst t = .ok o →
      hasProp (extensionsOf o) S.STIX_EXT_MITRE = false ∨
      (t ∈ mitreTypes S ∧ ∃ mitre, buildMITREExtensions inst = .ok mitre ∧
        getProp (extensionsOf o) S.STIX_EXT_MITRE = .obj mitre) := by
  unfold convertObservableKind
  refine ite_post (fun _ o h => Or.inl (convertWindowsRegistryValueToStix_noMitre hS o h)) (fun _ => ?_)
  refine ite_post (fun _ o h => Or.inl (convertEmailMimePartToStix_noMitre hS o h)) (fun _ => ?_)
  refine ite_post (fun _ o h => Or.inl (convertArtifactToStix_noMitre hS o h)) (fun _ => ?_)
  refine ite_post (fun _ o h => Or.inl (convertAutonomousSystemToStix_noMitre hS o h)) (fun _ => ?_)
  refine ite_post (fun _ o h => Or.inl (convertCryptocurrencyWalletToStix_noMitre hS o h)) (fun _ => ?_)
  refine ite_post (fun _ o h => Or.inl (convertCryptographicKeyToStix_noMitre hS o h)) (fun _ => ?_)
  refine ite_post (fun _ o h => Or.inl (convertDirectoryToStix_noMitre hS o h)) (fun _ => ?_)
  refine ite_post (fun _ o h => Or.inl (convertDomainNameToStix_noMitre hS o h)) (fun _ => ?_)
  refine ite_post (fun _ o h => Or.inl (convertEmailAddressToStix_noMitre hS o h)) (fun _ => ?_)
  refine ite_post (fun _ o h => Or.inl (convertEmailMessageToStix_noMitre hS o h)) (fun _ => ?_)
  refine ite_post (fun _ o h => Or.inl (convertFileToStix_noMitre hS o h)) (fun _ => ?_)
  refine ite_post (fun _ o h => Or.inl (convertHostnameToStix_noMitre hS o h)) (fun _ => ?_)
  refine ite_post (fun _ o h => Or.inl (convertIPv4AddressToStix_noMitre hS o h)) (fun _ => ?_)
  refine ite_post (fun _ o h => Or.inl (convertIPv6AddressToStix_noMitre hS o h)) (fun _ => ?_)
  refine ite_post (fun _ o h => Or.inl (convertMacAddressToStix_noMitre hS o h)) (fun _ => ?_)
  refine ite_post (fun _ o h => Or.inl (convertMutexToStix_noMitre hS o h)) (fun _ => ?_)
  refine ite_post (fun _ o h => Or.inl (convertNetworkTrafficToStix_noMitre hS o h)) (fun _ => ?_)
  refine ite_post (fun _ o h => Or.inl (convertProcessToStix_noMitre hS o h)) (fun _ => ?_)
  refine ite_post (fun _ o h => Or.inl (convertSoftwareToStix_noMitre hS o h)) (fun _ => ?_)
  refine ite_post (fun _ o h => Or.inl (convertTextToStix_noMitre hS o h)) (fun _ => ?_)
  refine ite_post (fun _ o h => Or.inl (convertURLToStix_noMitre hS o h)) (fun _ => ?_)
  refine ite_post (fun _ o h => Or.inl (convertUserAccountToStix_noMitre hS o h)) (fun _ => ?_)
  refine ite_post (fun _ o h => Or.inl (convertWindowsRegistryKeyToStix_noMitre hS o h)) (fun _ => ?_)
  refine ite_post (fun _ o h => Or.inl (convertX509CertificateToStix_noMitre hS o h)) (fun _ => ?_)
  exact fun b h => absurd h (throw_ne_ok _ _)

theorem convertToStix_mitre {S : Schema} {inst : Obj} (hS : S.ExtKeysDistinct) :
    ∀ o, convertToStix S inst = .ok o →
      hasProp (extensionsOf o) S.STIX_EXT_MITRE = false ∨
      (∃ t, getProp inst "entity_type" = .str t ∧ t ∈ mitreTypes S ∧
        ∃ mitre, buildMITREExtensions inst = .ok mitre ∧
          getProp (extensionsOf o) S.STIX_EXT_MITRE = .obj mitre) := by
  unfold convertToStix
  refine bind_post ?_
  intro t ht
  have hk : ∀ {f : Except Err Obj}, (∀ o, f = .ok o →
      hasProp (extensionsOf o) S.STIX_EXT_MITRE = false ∨
      (t ∈ mitreTypes S ∧ ∃ mitre, buildMITREExtensions inst = .ok mitre ∧
        getProp (extensionsOf o) S.STIX_EXT_MITRE = .obj mitre)) →
      ∀ o, f = .ok o → hasProp (extensionsOf o) S.STIX_EXT_MITRE = false ∨
      (∃ t, getProp inst "entity_type" = .str t ∧ t ∈ mitreTypes S ∧
        ∃ mitre, buildMITREExtensions inst = .ok mitre ∧
          getProp (extensionsOf o) S.STIX_EXT_MITRE = .obj mitre) := by
    intro f hf o ho
    rcases hf o ho with h | ⟨h1, h2⟩
    · exact Or.inl h
    · exact Or.inr ⟨t, entityType_eq_ok ht, h1, h2⟩
  refine ite_post (fun _ b h => absurd h (throw_ne_ok _ _)) (fun _ => ?_)
  refine ite_post (fun _ => hk (convertRelationshipKind_mitre hS)) (fun _ => ?_)
  refine ite_post (fun _ => hk (convertDomainKind_mitre hS)) (fun _ => ?_)
  refine ite_post (fun _ => hk (convertMetaKind_mitre hS)) (fun _ => ?_)
  refine ite_post (fun _ => hk (convertObservableKind_mitre hS)) (fun _ => ?_)
  exact fun b h => absurd h (throw_ne_ok _ _)

/-! ## The extension mapping of the output -/

/-- The extension mapping of the output of a conversion and its platform
block, in terms of the object the projector built. -/
theorem convertStoreToStix_exts {S : Schema} {inst o out : Obj} (hS : S.ExtKeysDistinct)
    (hty : isEmptyField (getProp inst "entity_type") = false)
    (ho : convertToStix S inst = .ok o) (hc : cleanObject o = .ok out) :
    ∃ exts blk, extensionsOf o = exts ∧ ExtsOK S inst exts ∧
      getProp exts S.STIX_EXT_OCTI = .obj blk ∧ OctiBlock S inst blk ∧
      extensionsOf out = exts.filter (fun e => entriesLength e.2 != 1) ∧
      getProp (extensionsOf out) S.STIX_EXT_OCTI = .obj blk := by
  have hp := convertToStix_projected hS o ho
  obtain ⟨exts, hx, hE⟩ := hp.exts
  obtain ⟨blk, hg, hB⟩ := hE.octi
  obtain ⟨octi, hocti, hk⟩ := hB.base
  have htype : getProp blk "type" = getProp inst "entity_type" := by
    rw [hk "type" (by simp [octiKeys])]
    exact buildOCTIExtensions_type hocti hty
  have hkeyO : S.STIX_EXT_OCTI ∈ keys exts :=
    mem_keys_of_getProp_ne _ _ (by rw [hg]; exact fun e => JValue.noConfusion e)
  have hne : isEmptyField (getProp o "extensions") = false := by
    rw [hx]
    cases exts with
    | nil => simp [keys] at hkeyO
    | cons _ _ => rfl
  have hpr := cleanObject_getProp_ext o out hc hne
  rw [hx, pruneExtensions_obj exts (fun e he => (hE.blocks e he).imp fun b hb => hb.1)] at hpr
  injection hpr with hpr
  have hlen : 2 ≤ blk.length := by
    refine two_le_length blk "extension_type" "type" ?_ ?_ (by decide)
    · apply mem_keys_of_getProp_ne
      rcases hB.extType with e | e <;> rw [e] <;> exact fun e => JValue.noConfusion e
    · apply mem_keys_of_getProp_ne
      rw [htype]
      intro e
      rw [e] at hty
      simp [isEmptyField] at hty
  have hout : extensionsOf out = exts.filter (fun e => entriesLength e.2 != 1) := by
    unfold extensionsOf
    rw [← hpr]
    rfl
  refine ⟨exts, blk, by unfold extensionsOf; rw [hx]; rfl, hE, hg, hB, hout, ?_⟩
  rw [hout, getProp_filter_of_pos exts _ _ hkeyO, hg]
  rw [hg]
  simp only [entriesLength, bne_iff_ne, ne_eq]
  omega

theorem hasProp_filter_iff (o : Obj) (hn : NoDupKeys o) (p : String × JValue → Bool)
    (k : String) :
    hasProp (o.filter p) k = true ↔ k ∈ keys o ∧ p (k, getProp o k) = true := by
  induction o with
  | nil => simp [hasProp, keys]
  | cons kv rest ih =>
    obtain ⟨k', v⟩ := kv
    simp only [NoDupKeys, keys, List.map_cons, List.nodup_cons] at hn
    have ih := ih hn.2
    by_cases e : k' = k
    · subst e
      have hnot : hasProp (rest.filter p) k' = false := by
        cases hh : hasProp (rest.filter p) k'
        · rfl
        · exact absurd (ih.1 hh).1 hn.1
      cases hp : p (k', v) <;> simp [List.filter, hp, hasProp, getProp, keys, hnot]
    · have e' : ¬ k = k' := fun x => e x.symm
      cases hp : p (k', v) <;>
        simp [List.filter, hp, hasProp, getProp, keys, e, e', ih]

theorem getProp_filter_of_hasProp (o : Obj) (hn : NoDupKeys o) (p : String × JValue → Bool)
    (k : String) (h : hasProp (o.filter p) k = true) :
    getProp (o.filter p) k = getProp o k :=
  getProp_filter_of_pos o p k ((hasProp_filter_iff o hn p k).1 h).1
    ((hasProp_filter_iff o hn p k).1 h).2

theorem buildMITREExtensions_eq {inst mitre : Obj} (h : buildMITREExtensions inst = .ok mitre) :
    mitre = ("extension_type", .str "property-extension") ::
      nonEmptyEntries (mitreAttributes inst) := by
  rw [cleanObject_eq_of_noext h (by simp [hasProp])]
  rfl

theorem nonEmptyEntries_ne_nil (o : Obj) :
    nonEmptyEntries o ≠ [] ↔ ∃ kv ∈ o, isEmptyField kv.2 = false := by
  unfold nonEmptyEntries
  rw [Ne, List.filter_eq_nil_iff]
  simp

/-! ## C17 -/

/-- C17: under a well-formed schema, on every successful conversion the output
holds the MITRE extension block if and only if the entity type is
attack-pattern, course-of-action or indicator and at least one of `x_mitre_id`,
`x_mitre_detection`, `x_mitre_permissions_required`, `x_mitre_platforms` is
non-empty; when present, the block is the "property-extension" marker followed
by the non-empty ones of these attributes under the keys `id`, `detection`,
`permissions_required`, `platforms`. -/
theorem C17_mitre_block (S : Schema) (hW : S.WellFormed) (inst out : Obj) (t : String)
    (h : convertStoreToStix S inst = .ok out)
    (ht : getProp inst "entity_type" = .str t) :
    (hasProp (extensionsOf out) S.STIX_EXT_MITRE = true ↔
      (t ∈ mitreTypes S ∧ ∃ kv ∈ mitreAttributes inst, isEmptyField kv.2 = false)) ∧
    (hasProp (extensionsOf out) S.STIX_EXT_MITRE = true →
      getProp (extensionsOf out) S.STIX_EXT_MITRE =
        .obj (("extension_type", .str "property-extension") ::
          nonEmptyEntries (mitreAttributes inst))) := by
  obtain ⟨_, hty, o, ho, hc⟩ := convertStoreToStix_ok h
  obtain ⟨exts, blk, hx, hE, _, _, hout, _⟩ := convertStoreToStix_exts hW.extKeys hty ho hc
  have hlen : ∀ mitre, buildMITREExtensions inst = .ok mitre →
      ((entriesLength (.obj mitre) != 1) = true ↔
        ∃ kv ∈ mitreAttributes inst, isEmptyField kv.2 = false) := by
    intro mitre hm
    rw [buildMITREExtensions_eq hm, ← nonEmptyEntries_ne_nil]
    simp [entriesLength]
  have hfwd : hasProp (extensionsOf out) S.STIX_EXT_MITRE = true →
      (t ∈ mitreTypes S ∧ ∃ kv ∈ mitreAttributes inst, isEmptyField kv.2 = false) ∧
      getProp (extensionsOf out) S.STIX_EXT_MITRE =
        .obj (("extension_type", .str "property-extension") ::
          nonEmptyEntries (mitreAttributes inst)) := by
    intro hh
    rw [hout] at hh ⊢
    obtain ⟨hk, hp⟩ := (hasProp_filter_iff exts hE.nodup _ _).1 hh
    rcases convertToStix_mitre hW.extKeys o ho with hno | ⟨t', ht', hmem, mitre, hm, hg⟩
    · rw [hx, hasProp_eq_false_iff] at hno
      exact absurd hk hno
    · rw [ht] at ht'
      injection ht' with ht'
      subst ht'
      rw [hx] at hg
      rw [hg] at hp
      refine ⟨⟨hmem, (hlen mitre hm).1 hp⟩, ?_⟩
      rw [getProp_filter_of_hasProp exts hE.nodup _ _ hh, hg, buildMITREExtensions_eq hm]
  refine ⟨⟨fun hh => (hfwd hh).1, ?_⟩, fun hh => (hfwd hh).2⟩
  rintro ⟨hmem, hex⟩
  have key : ∀ mitre, buildMITREExtensions inst = .ok mitre →
      getProp (extensionsOf o) S.STIX_EXT_MITRE = .obj mitre →
      hasProp (extensionsOf out) S.STIX_EXT_MITRE = true := by
    intro mitre hm hg
    rw [hx] at hg
    rw [hout, hasProp_filter_iff exts hE.nodup]
    refine ⟨mem_keys_of_getProp_ne _ _ (by rw [hg]; exact fun e => JValue.noConfusion e), ?_⟩
    rw [hg]
    exact (hlen mitre hm).2 hex
  simp only [mitreTypes, List.mem_cons, List.mem_singleton, List.not_mem_nil, or_false] at hmem
  rcases hmem with e | e | e <;> subst e
  · rw [route_convertAttackPatternToStix hW ht] at ho
    obtain ⟨_, mitre, hm, hg⟩ := convertAttackPatternToStix_mitre o ho
    exact key mitre hm hg
  · rw [route_convertCourseOfActionToStix hW ht] at ho
    obtain ⟨_, mitre, hm, hg⟩ := convertCourseOfActionToStix_mitre o ho
    exact key mitre hm hg
  · rw [route_convertIndicatorToStix hW ht] at ho
    obtain ⟨_, mitre, hm, hg⟩ := convertIndicatorToStix_mitre o ho
    exact key mitre hm hg

/-- C17 on the sample attack pattern, whose MITRE block holds its identifier
and its platforms. -/
theorem C17_mitre_block_witness :
    opencti.WellFormed ∧
    ∃ out, convertStoreToStix opencti sampleAttackPattern = .ok out ∧
      getProp sampleAttackPattern "entity_type" = .str "Attack-Pattern" ∧
      (hasProp (extensionsOf out) opencti.STIX_EXT_MITRE = true ↔
        ("Attack-Pattern" ∈ mitreTypes opencti ∧
          ∃ kv ∈ mitreAttributes sampleAttackPattern, isEmptyField kv.2 = false)) ∧
      (hasProp (extensionsOf out) opencti.STIX_EXT_MITRE = true →
        getProp (extensionsOf out) opencti.STIX_EXT_MITRE =
          .obj (("extension_type", .str "property-extension") ::
            nonEmptyEntries (mitreAttributes sampleAttackPattern))) :=
  ⟨opencti_wellFormed, _, rfl, rfl,
    C17_mitre_block opencti opencti_wellFormed sampleAttackPattern _ "Attack-Pattern" rfl rfl⟩

/-! ## C18 -/

theorem prop_ok {v w : JValue} {k : String} (h : prop v k = .ok w) : w = optProp v k := by
  cases v <;> first
    | exact absurd h (throw_ne_ok _ _)
    | exact ((pure_eq_ok _ _).1 h).symm

theorem traverse_eq_map {f : JValue → Except Err JValue} {g : JValue → JValue}
    (hf : ∀ x y, f x = .ok y → y = g x) :
    ∀ (xs ys : List JValue), traverse f xs = .ok ys → ys = xs.map g := by
  intro xs
  induction xs with
  | nil =>
    intro ys h
    simp only [traverse, pure_eq_ok] at h
    subst h; rfl
  | cons x xs ih =>
    intro ys h
    simp only [traverse, bind_eq_ok, pure_eq_ok] at h
    obtain ⟨y, hy, ys', hys, rfl⟩ := h
    rw [hf x y hy, ih ys' hys]
    rfl

theorem mapArray_eq_map {f : JValue → Except Err JValue} {g : JValue → JValue}
    (hf : ∀ x y, f x = .ok y → y = g x) {v w : JValue} (h : mapArray f v = .ok w) :
    ∃ xs, v = .arr xs ∧ w = .arr (xs.map g) := by
  unfold mapArray at h
  split at h
  · rename_i xs
    simp only [bind_eq_ok, pure_eq_ok] at h
    obtain ⟨ys, hys, rfl⟩ := h
    exact ⟨xs, rfl, by rw [traverse_eq_map hf xs ys hys]⟩
  · exact absurd h (throw_ne_ok _ _)

theorem buildKillChainPhases_eq {S : Schema} {inst : Obj} {kcp : JValue}
    (h : buildKillChainPhases S inst = .ok kcp) :
    ∃ phases, nullish (getProp inst S.INPUT_KILLCHAIN) (.arr []) = .arr phases ∧
      kcp = .arr (phases.map killChainEntry) := by
  refine mapArray_eq_map ?_ h
  intro k y hy
  simp only [bind_eq_ok, pure_eq_ok] at hy
  obtain ⟨n, hn, p, hp, data, hd, rfl⟩ := hy
  rw [cleanObject_eq_of_noext hd (by simp [hasProp]), prop_ok hn, prop_ok hp]
  rfl

theorem convertToolToStix_killChain {S : Schema} {inst : Obj} {t : String} :
    ∀ o, convertToolToStix S inst t = .ok o → ∃ kcp, buildKillChainPhases S inst = .ok kcp ∧
      getProp o "kill_chain_phases" = kcp ∧ hasProp o "kill_chain_phases" = true := by
  simp only [convertToolToStix]
  repeat (refine bind_post ?_; intro _ _)
  intro o h
  rw [pure_eq_ok] at h
  subst h
  exact ⟨_, (by assumption), by simp [getProp_assign, lookupLast],
    by simp [hasProp_assign, lookupLast]⟩

theorem convertInfrastructureToStix_killChain {S : Schema} {inst : Obj} {t : String} :
    ∀ o, convertInfrastructureToStix S inst t = .ok o → ∃ kcp, buildKillChainPhases S inst = .ok kcp ∧
      getProp o "kill_chain_phases" = kcp ∧ hasProp o "kill_chain_phases" = true := by
  simp only [convertInfrastructureToStix]
  repeat (refine bind_post ?_; intro _ _)
  intro o h
  rw [pure_eq_ok] at h
  subst h
  exact ⟨_, (by assumption), by simp [getProp_assign, lookupLast],
    by simp [hasProp_assign, lookupLast]⟩

theorem convertIndicatorToStix_killChain {S : Schema} {inst : Obj} {t : String} :
    ∀ o, convertIndicatorToStix S inst t = .ok o → ∃ kcp, buildKillChainPhases S inst = .ok kcp ∧
      getProp o "kill_chain_phases" = kcp ∧ hasProp o "kill_chain_phases" = true := by
  simp only [convertIndicatorToStix]
  repeat (refine bind_post ?_; intro _ _)
  intro o h
  rw [pure_eq_ok] at h
  subst h
  exact ⟨_, (by assumption), by simp [getProp_assign, lookupLast],
    by simp [hasProp_assign, lookupLast]⟩

theorem convertMalwareToStix_killChain {S : Schema} {inst : Obj} {t : String} :
    ∀ o, convertMalwareToStix S inst t = .ok o → ∃ kcp, buildKillChainPhases S inst = .ok kcp ∧
      getProp o "kill_chain_phases" = kcp ∧ hasProp o "kill_chain_phases" = true := by
  simp only [convertMalwareToStix]
  repeat (refine bind_post ?_; intro _ _)
  intro o h
  rw [pure_eq_ok] at h
  subst h
  exact ⟨_, (by assumption), by simp [getProp_assign, lookupLast],
    by simp [hasProp_assign, lookupLast]⟩

theorem convertAttackPatternToStix_killChain {S : Schema} {inst : Obj} {t : String} :
    ∀ o, convertAttackPatternToStix S inst t = .ok o → ∃ kcp, buildKillChainPhases S inst = .ok kcp ∧
      getProp o "kill_chain_phases" = kcp ∧ hasProp o "kill_chain_phases" = true := by
  simp only [convertAttackPatternToStix]
  repeat (refine bind_post ?_; intro _ _)
  intro o h
  rw [pure_eq_ok] at h
  subst h
  exact ⟨_, (by assumption), by simp [getProp_assign, lookupLast],
    by simp [hasProp_assign, lookupLast]⟩

/-- C18, counterexample: the sample tool is attached to one kill-chain phase
whose `phase_name` is the empty string; the entry of the output for that phase
holds the `kill_chain_name` of the phase and no `phase_name`. -/
theorem C18_entry_without_phase_name :
    ∃ phase entry out,
      nullish (getProp sampleToolEmptyPhase opencti.INPUT_KILLCHAIN) (.arr []) = .arr [phase] ∧
      optProp phase "kill_chain_name" = .str "mitre-attack" ∧
      optProp phase "phase_name" = .str "" ∧
      convertStoreToStix opencti sampleToolEmptyPhase = .ok out ∧
      getProp out "kill_chain_phases" = .arr [.obj entry] ∧
      getProp entry "kill_chain_name" = .str "mitre-attack" ∧
      hasProp entry "phase_name" = false :=
  ⟨_, _, _, rfl, rfl, rfl, rfl, rfl, rfl, rfl⟩

/-- C18, amended: under a well-formed schema, for every successfully converted
tool, infrastructure, indicator, malware or attack-pattern instance, the
kill-chain slot (an absent or null slot counts as the empty list) is a list of
phases; when it is not empty the `kill_chain_phases` field of the output is the
list holding, for each phase in slot order, the non-empty ones among its
`kill_chain_name` and `phase_name`; when it is empty the output has no
`kill_chain_phases` field. -/
theorem C18_kill_chain_phases (S : Schema) (hW : S.WellFormed) (inst out : Obj) (t : String)
    (h : convertStoreToStix S inst = .ok out)
    (ht : getProp inst "entity_type" = .str t)
    (hk : t ∈ killChainTypes S) :
    ∃ phases, nullish (getProp inst S.INPUT_KILLCHAIN) (.arr []) = .arr phases ∧
      (phases ≠ [] → getProp out "kill_chain_phases" = .arr (phases.map killChainEntry)) ∧
      (phases = [] → hasProp out "kill_chain_phases" = false) := by
  obtain ⟨_, _, o, ho, hc⟩ := convertStoreToStix_ok h
  have hp := convertToStix_envelope o ho
  have key : (∃ kcp, buildKillChainPhases S inst = .ok kcp ∧
      getProp o "kill_chain_phases" = kcp ∧ hasProp o "kill_chain_phases" = true) →
      ∃ phases, nullish (getProp inst S.INPUT_KILLCHAIN) (.arr []) = .arr phases ∧
        (phases ≠ [] → getProp out "kill_chain_phases" = .arr (phases.map killChainEntry)) ∧
        (phases = [] → hasProp out "kill_chain_phases" = false) := by
    rintro ⟨kcp, hb, hg, hh⟩
    obtain ⟨phases, hs, rfl⟩ := buildKillChainPhases_eq hb
    refine ⟨phases, hs, ?_, ?_⟩
    · intro hne
      rw [cleanObject_getProp o hp.nodup out hc "kill_chain_phases" (by decide), hg]
      cases phases with
      | nil => exact absurd rfl hne
      | cons _ _ => simp [isEmptyField]
    · intro he
      rw [cleanObject_hasProp o hp.nodup out hc "kill_chain_phases", hg, he]
      simp [isEmptyField]
  simp only [killChainTypes, List.mem_cons, List.mem_singleton, List.not_mem_nil, or_false] at hk
  rcases hk with e | e | e | e | e <;> subst e
  · rw [route_convertToolToStix hW ht] at ho
    exact key (convertToolToStix_killChain o ho)
  · rw [route_convertInfrastructureToStix hW ht] at ho
    exact key (convertInfrastructureToStix_killChain o ho)
  · rw [route_convertIndicatorToStix hW ht] at ho
    exact key (convertIndicatorToStix_killChain o ho)
  · rw [route_convertMalwareToStix hW ht] at ho
    exact key (convertMalwareToStix_killChain o ho)
  · rw [route_convertAttackPatternToStix hW ht] at ho
    exact key (convertAttackPatternToStix_killChain o ho)

/-- C18 (amended) on the sample tool attached to two kill-chain phases. -/
theorem C18_kill_chain_phases_witness :
    opencti.WellFormed ∧
    ∃ out, convertStoreToStix opencti sampleTool = .ok out ∧
      "Tool" ∈ killChainTypes opencti ∧
      ∃ phases, nullish (getProp sampleTool opencti.INPUT_KILLCHAIN) (.arr []) = .arr phases ∧
        (phases ≠ [] →
          getProp out "kill_chain_phases" = .arr (phases.map killChainEntry)) ∧
        (phases = [] → hasProp out "kill_chain_phases" = false) :=
  ⟨opencti_wellFormed, _, rfl, by decide,
    C18_kill_chain_phases opencti opencti_wellFormed sampleTool _ "Tool" rfl rfl (by decide)⟩

/-! ## C19 -/

theorem convertIndicatorToStix_fields {S : Schema} {inst : Obj} {t : String}
    (hS : S.ExtKeysDistinct) :
    ∀ o, convertIndicatorToStix S inst t = .ok o →
      getProp o "pattern_type" = getProp inst "pattern_type" ∧
      ∃ blk, getProp (extensionsOf o) S.STIX_EXT_OCTI = .obj blk ∧
        (isEmptyField (getProp inst "x_opencti_score") = false →
          getProp blk "score" = getProp inst "x_opencti_score") := by
  simp only [convertIndicatorToStix]
  repeat (refine bind_post ?_; intro _ _)
  intro o h
  rw [pure_eq_ok] at h
  subst h
  have hp := buildStixDomain_projected (by assumption)
  obtain ⟨exts, blk, he, hE, hg, hB⟩ := hp.block
  rename_i octi hocti _ _
  simp only [he, hg, spread] at hocti
  refine ⟨by simp [getProp_assign, lookupLast], octi, ?_, ?_⟩
  · rw [extensionsOf_assign]
    simp [lookupLast, spread, getProp_mkObj, Ne.symm hS.2.1]
  · intro hs
    rw [cleanObject_getProp _ (nodup_assign _ _ hB.nodup) octi hocti "score" (by decide)]
    simp [getProp_assign, lookupLast, hs]

/-- C19: under a well-formed schema, for every successfully converted
indicator instance, the `pattern_type` of the output equals the `pattern_type`
of the instance when that is non-empty, the `score` of the platform extension
block equals `x_opencti_score` when that is non-empty, and the platform
extension block has no `workflow_id` field when `x_opencti_workflow_id` is
unset (absent, null or otherwise empty). -/
theorem C19_indicator_fields (S : Schema) (hW : S.WellFormed) (inst out : Obj)
    (h : convertStoreToStix S inst = .ok out)
    (ht : getProp inst "entity_type" = .str S.ENTITY_TYPE_INDICATOR) :
    (isEmptyField (getProp inst "pattern_type") = false →
      getProp out "pattern_type" = getProp inst "pattern_type") ∧
    ∃ blk, getProp (extensionsOf out) S.STIX_EXT_OCTI = .obj blk ∧
      (isEmptyField (getProp inst "x_opencti_score") = false →
        getProp blk "score" = getProp inst "x_opencti_score") ∧
      (isEmptyField (getProp inst "x_opencti_workflow_id") = true →
        hasProp blk "workflow_id" = false) := by
  obtain ⟨_, hty, o, ho, hc⟩ := convertStoreToStix_ok h
  have hp := convertToStix_envelope o ho
  obtain ⟨exts, blk, hx, hE, hg, hB, hout, hgo⟩ := convertStoreToStix_exts hW.extKeys hty ho hc
  rw [route_convertIndicatorToStix hW ht] at ho
  obtain ⟨hpt, blk', hg', hscore⟩ := convertIndicatorToStix_fields hW.extKeys o ho
  rw [hx, hg] at hg'
  injection hg' with hg'
  subst hg'
  refine ⟨?_, blk, hgo, hscore, ?_⟩
  · intro hne
    rw [cleanObject_getProp o hp.nodup out hc "pattern_type" (by decide), hpt, hne]
    simp
  · intro hw
    obtain ⟨octi, hocti, hk⟩ := hB.base
    apply hasProp_false_of_getProp_undefined blk hB.nonEmpty
    rw [hk "workflow_id" (by simp [octiKeys])]
    obtain ⟨files, ids, flag, _, _, rfl⟩ := buildOCTIExtensions_eq hocti
    rw [getProp_nonEmptyEntries _ (by simp [NoDupKeys, keys])]
    simp [getProp, hw]

/-- C19 on the sample indicator: pattern type "stix", score 50, no workflow
status. -/
theorem C19_indicator_fields_witness :
    opencti.WellFormed ∧
    getProp sampleIndicator "pattern_type" = .str "stix" ∧
    getProp sampleIndicator "x_opencti_score" = .num 50 ∧
    ∃ out, convertStoreToStix opencti sampleIndicator = .ok out ∧
      (isEmptyField (getProp sampleIndicator "pattern_type") = false →
        getProp out "pattern_type" = getProp sampleIndicator "pattern_type") ∧
      ∃ blk, getProp (extensionsOf out) opencti.STIX_EXT_OCTI = .obj blk ∧
        (isEmptyField (getProp sampleIndicator "x_opencti_score") = false →
          getProp blk "score" = getProp sampleIndicator "x_opencti_score") ∧
        (isEmptyField (getProp sampleIndicator "x_opencti_workflow_id") = true →
          hasProp blk "workflow_id" = false) :=
  ⟨opencti_wellFormed, rfl, rfl, _, rfl,
    C19_indicator_fields opencti opencti_wellFormed sampleIndicator _ rfl rfl⟩

/-! ## The cyber-observable extension block of a projected observable -/

theorem buildStixCyberObservable_sco {S : Schema} {inst o : Obj}
    (h : buildStixCyberObservable S inst = .ok o) :
    ∃ blk, getProp (extensionsOf o) S.STIX_EXT_OCTI_SCO = .obj blk ∧ ScoBlock S inst blk := by
  simp only [buildStixCyberObservable, bind_eq_ok, pure_eq_ok] at h
  obtain ⟨base, hb, marks, _, labels, hl, linked, hk, refs, hr, sco, hsco, rfl⟩ := h
  refine ⟨sco, ?_, ?_⟩
  · rw [extensionsOf_assign]
    simp [lookupLast, spread, getProp_mkObj]
  · have hn : NoDupKeys [
        ("extension_type", JValue.str "property-extension"),
        ("labels", labels),
        ("description", getProp inst "x_opencti_description"),
        ("score", getProp inst "x_opencti_score"),
        ("created_by_ref", optProp (getProp inst S.INPUT_CREATED_BY) "standard_id"),
        ("linked_to_refs", linked),
        ("external_references", refs)] := by simp [NoDupKeys, keys]
    refine ⟨cleanObject_nodup _ _ hn hsco, ?_, labels, linked, refs, hl, hk, hr, ?_⟩
    · rw [cleanObject_getProp _ hn sco hsco "extension_type" (by decide)]
      simp [getProp, isEmptyField]
    · intro kv hkv hne
      simp only [scoAttributes, List.mem_cons, List.mem_singleton, List.not_mem_nil,
        or_false] at hkv
      rcases hkv with e | e | e | e | e | e <;> subst e <;>
        simp only at hne ⊢ <;>
        rw [cleanObject_getProp _ hn sco hsco _ (by decide)] <;>
        simp [getProp, hne]

theorem ScoBlock.cleanObject_additional {S : Schema} {inst blk out : Obj} {v : JValue}
    (hB : ScoBlock S inst blk)
    (h : cleanObject (assign blk [("additional_names", v)]) = .ok out) :
    ScoBlock S inst out := by
  have hn := nodup_assign [("additional_names", v)] blk hB.nodup
  obtain ⟨labels, linked, refs, hl, hk, hr, hc⟩ := hB.carried
  refine ⟨cleanObject_nodup _ _ hn h, ?_, labels, linked, refs, hl, hk, hr, ?_⟩
  · rw [cleanObject_getProp _ hn out h "extension_type" (by decide)]
    simp [getProp_assign, lookupLast, hB.extType, isEmptyField]
  · intro kv hkv hne
    have hg := hc kv hkv hne
    simp only [scoAttributes, List.mem_cons, List.mem_singleton, List.not_mem_nil,
      or_false] at hkv
    rcases hkv with e | e | e | e | e | e <;> subst e <;>
      simp only at hne hg ⊢ <;>
      rw [cleanObject_getProp _ hn out h _ (by decide)] <;>
      simp [getProp_assign, lookupLast, hg, hne]

theorem convertArtifactToStix_sco {S : Schema} {inst : Obj} {t : String} :
    ∀ o, convertArtifactToStix S inst t = .ok o →
      ∃ blk, getProp (extensionsOf o) S.STIX_EXT_OCTI_SCO = .obj blk ∧ ScoBlock S inst blk := by
  simp only [convertArtifactToStix]
  repeat (refine bind_post ?_; intro _ _)
  intro o h
  rw [pure_eq_ok] at h
  subst h
  obtain ⟨blk, hg, hB⟩ := buildStixCyberObservable_sco (by assumption)
  rename_i sco hsco
  simp only [hg, spread] at hsco
  refine ⟨sco, ?_, hB.cleanObject_additional hsco⟩
  rw [extensionsOf_assign]
  simp [lookupLast, spread, getProp_assign]

theorem convertAutonomousSystemToStix_sco {S : Schema} {inst : Obj} {t : String} :
    ∀ o, convertAutonomousSystemToStix S inst t = .ok o →
      ∃ blk, getProp (extensionsOf o) S.STIX_EXT_OCTI_SCO = .obj blk ∧ ScoBlock S inst blk := by
  simp only [convertAutonomousSystemToStix]
  repeat (refine bind_post ?_; intro _ _)
  intro o h
  rw [pure_eq_ok] at h
  subst h
  have hb := buildStixCyberObservable_sco (by assumption)
  rw [extensionsOf_assign]
  simpa [lookupLast] using hb

theorem convertDirectoryToStix_sco {S : Schema} {inst : Obj} {t : String} :
    ∀ o, convertDirectoryToStix S inst t = .ok o →
      ∃ blk, getProp (extensionsOf o) S.STIX_EXT_OCTI_SCO = .obj blk ∧ ScoBlock S inst blk := by
  simp only [convertDirectoryToStix]
  repeat (refine bind_post ?_; intro _ _)
  intro o h
  rw [pure_eq_ok] at h
  subst h
  have hb := buildStixCyberObservable_sco (by assumption)
  rw [extensionsOf_assign]
  simpa [lookupLast] using hb

theorem convertDomainNameToStix_sco {S : Schema} {inst : Obj} {t : String} :
    ∀ o, convertDomainNameToStix S inst t = .ok o →
      ∃ blk, getProp (extensionsOf o) S.STIX_EXT_OCTI_SCO = .obj blk ∧ ScoBlock S inst blk := by
  simp only [convertDomainNameToStix]
  repeat (refine bind_post ?_; intro _ _)
  intro o h
  rw [pure_eq_ok] at h
  subst h
  have hb := buildStixCyberObservable_sco (by assumption)
  rw [extensionsOf_assign]
  simpa [lookupLast] using hb

theorem convertEmailAddressToStix_sco {S : Schema} {inst : Obj} {t : String} :
    ∀ o, convertEmailAddressToStix S inst t = .ok o →
      ∃ blk, getProp (extensionsOf o) S.STIX_EXT_OCTI_SCO = .obj blk ∧ ScoBlock S inst blk := by
  simp only [convertEmailAddressToStix]
  repeat (refine bind_post ?_; intro _ _)
  intro o h
  rw [pure_eq_ok] at h
  subst h
  have hb := buildStixCyberObservable_sco (by assumption)
  rw [extensionsOf_assign]
  simpa [lookupLast] using hb

theorem convertEmailMessageToStix_sco {S : Schema} {inst : Obj} {t : String} :
    ∀ o, convertEmailMessageToStix S inst t = .ok o →
      ∃ blk, getProp (extensionsOf o) S.STIX_EXT_OCTI_SCO = .obj blk ∧ ScoBlock S inst blk := by
  simp only [convertEmailMessageToStix]
  repeat (refine bind_post ?_; intro _ _)
  intro o h
  rw [pure_eq_ok] at h
  subst h
  have hb := buildStixCyberObservable_sco (by assumption)
  rw [extensionsOf_assign]
  simpa [lookupLast] using hb

theorem convertFileToStix_sco {S : Schema} {inst : Obj} {t : String} :
    ∀ o, convertFileToStix S inst t = .ok o →
      ∃ blk, getProp (extensionsOf o) S.STIX_EXT_OCTI_SCO = .obj blk ∧ ScoBlock S inst blk := by
  simp only [convertFileToStix]
  repeat (refine bind_post ?_; intro _ _)
  intro o h
  rw [pure_eq_ok] at h
  subst h
  obtain ⟨blk, hg, hB⟩ := buildStixCyberObservable_sco (by assumption)
  rename_i sco hsco
  simp only [hg, spread] at hsco
  refine ⟨sco, ?_, hB.cleanObject_additional hsco⟩
  rw [extensionsOf_assign]
  simp [lookupLast, spread, getProp_assign]

theorem convertIPv4AddressToStix_sco {S : Schema} {inst : Obj} {t : String} :
    ∀ o, convertIPv4AddressToStix S inst t = .ok o →
      ∃ blk, getProp (extensionsOf o) S.STIX_EXT_OCTI_SCO = .obj blk ∧ ScoBlock S inst blk := by
  simp only [convertIPv4AddressToStix]
  repeat (refine bind_post ?_; intro _ _)
  intro o h
  rw [pure_eq_ok] at h
  subst h
  have hb := buildStixCyberObservable_sco (by assumption)
  rw [extensionsOf_assign]
  simpa [lookupLast] using hb

theorem convertIPv6AddressToStix_sco {S : Schema} {inst : Obj} {t : String} :
    ∀ o, convertIPv6AddressToStix S inst t = .ok o →
      ∃ blk, getProp (extensionsOf o) S.STIX_EXT_OCTI_SCO = .obj blk ∧ ScoBlock S inst blk := by
  simp only [convertIPv6AddressToStix]
  repeat (refine bind_post ?_; intro _ _)
  intro o h
  rw [pure_eq_ok] at h
  subst h
  have hb := buildStixCyberObservable_sco (by assumption)
  rw [extensionsOf_assign]
  simpa [lookupLast] using hb

theorem convertMacAddressToStix_sco {S : Schema} {inst : Obj} {t : String} :
    ∀ o, convertMacAddressToStix S inst t = .ok o →
      ∃ blk, getProp (extensionsOf o) S.STIX_EXT_OCTI_SCO = .obj blk ∧ ScoBlock S inst blk := by
  simp only [convertMacAddressToStix]
  repeat (refine bind_post ?_; intro _ _)
  intro o h
  rw [pure_eq_ok] at h
  subst h
  have hb := buildStixCyberObservable_sco (by assumption)
  rw [extensionsOf_assign]
  simpa [lookupLast] using hb

theorem convertMutexToStix_sco {S : Schema} {inst : Obj} {t : String} :
    ∀ o, convertMutexToStix S inst t = .ok o →
      ∃ blk, getProp (extensionsOf o) S.STIX_EXT_OCTI_SCO = .obj blk ∧ ScoBlock S inst blk := by
  simp only [convertMutexToStix]
  repeat (refine bind_post ?_; intro _ _)
  intro o h
  rw [pure_eq_ok] at h
  subst h
  have hb := buildStixCyberObservable_sco (by assumption)
  rw [extensionsOf_assign]
  simpa [lookupLast] using hb

theorem convertNetworkTrafficToStix_sco {S : Schema} {inst : Obj} {t : String} :
    ∀ o, convertNetworkTrafficToStix S inst t = .ok o →
      ∃ blk, getProp (extensionsOf o) S.STIX_EXT_OCTI_SCO = .obj blk ∧ ScoBlock S inst blk := by
  simp only [convertNetworkTrafficToStix]
  repeat (refine bind_post ?_; intro _ _)
  intro o h
  rw [pure_eq_ok] at h
  subst h
  have hb := buildStixCyberObservable_sco (by assumption)
  rw [extensionsOf_assign]
  simpa [lookupLast] using hb

theorem convertProcessToStix_sco {S : Schema} {inst : Obj} {t : String} :
    ∀ o, convertProcessToStix S inst t = .ok o →
      ∃ blk, getProp (extensionsOf o) S.STIX_EXT_OCTI_SCO = .obj blk ∧ ScoBlock S inst blk := by
  simp only [convertProcessToStix]
  repeat (refine bind_post ?_; intro _ _)
  intro o h
  rw [pure_eq_ok] at h
  subst h
  have hb := buildStixCyberObservable_sco (by assumption)
  rw [extensionsOf_assign]
  simpa [lookupLast] using hb

theorem convertSoftwareToStix_sco {S : Schema} {inst : Obj} {t : String} :
    ∀ o, convertSoftwareToStix S inst t = .ok o →
      ∃ blk, getProp (extensionsOf o) S.STIX_EXT_OCTI_SCO = .obj blk ∧ ScoBlock S inst blk := by
  simp only [convertSoftwareToStix]
  repeat (refine bind_post ?_; intro _ _)
  intro o h
  rw [pure_eq_ok] at h
  subst h
  have hb := buildStixCyberObservable_sco (by assumption)
  rw [extensionsOf_assign]
  simpa [lookupLast] using hb

theorem convertURLToStix_sco {S : Schema} {inst : Obj} {t : String} :
    ∀ o, convertURLToStix S inst t = .ok o →
      ∃ blk, getProp (extensionsOf o) S.STIX_EXT_OCTI_SCO = .obj blk ∧ ScoBlock S inst blk := by
  simp only [convertURLToStix]
  repeat (refine bind_post ?_; intro _ _)
  intro o h
  rw [pure_eq_ok] at h
  subst h
  have hb := buildStixCyberObservable_sco (by assumption)
  rw [extensionsOf_assign]
  simpa [lookupLast] using hb

theorem convertUserAccountToStix_sco {S : Schema} {inst : Obj} {t : String} :
    ∀ o, convertUserAccountToStix S inst t = .ok o →
      ∃ blk, getProp (extensionsOf o) S.STIX_EXT_OCTI_SCO = .obj blk ∧ ScoBlock S inst blk := by
  simp only [convertUserAccountToStix]
  repeat (refine bind_post ?_; intro _ _)
  intro o h
  rw [pure_eq_ok] at h
  subst h
  have hb := buildStixCyberObservable_sco (by assumption)
  rw [extensionsOf_assign]
  simpa [lookupLast] using hb

theorem convertWindowsRegistryKeyToStix_sco {S : Schema} {inst : Obj} {t : String} :
    ∀ o, convertWindowsRegistryKeyToStix S inst t = .ok o →
      ∃ blk, getProp (extensionsOf o) S.STIX_EXT_OCTI_SCO = .obj blk ∧ ScoBlock S inst blk := by
  simp only [convertWindowsRegistryKeyToStix]
  repeat (refine bind_post ?_; intro _ _)
  intro o h
  rw [pure_eq_ok] at h
  subst h
  have hb := buildStixCyberObservable_sco (by assumption)
  rw [extensionsOf_assign]
  simpa [lookupLast] using hb

theorem convertX509CertificateToStix_sco {S : Schema} {inst : Obj} {t : String} :
    ∀ o, convertX509CertificateToStix S inst t = .ok o →
      ∃ blk, getProp (extensionsOf o) S.STIX_EXT_OCTI_SCO = .obj blk ∧ ScoBlock S inst blk := by
  simp only [convertX509CertificateToStix]
  repeat (refine bind_post ?_; intro _ _)
  intro o h
  rw [pure_eq_ok] at h
  subst h
  have hb := buildStixCyberObservable_sco (by assumption)
  rw [extensionsOf_assign]
  simpa [lookupLast] using hb

/-! ## C20 -/

/-- C20, counterexample: the sample hostname has a description and a score,
and its output holds no cyber-observable extension block at all; the projector
of hostnames replaces the block by a bare "new-sco" marker, which normalisation
deletes, and writes the description and the score at the top level. -/
theorem C20_hostname_without_sco_block :
    isEmptyField (getProp sampleHostname "x_opencti_description") = false ∧
    isEmptyField (getProp sampleHostname "x_opencti_score") = false ∧
    opencti.ENTITY_HOSTNAME ∈ observableProjectorTypes opencti ∧
    ∃ out, convertStoreToStix opencti sampleHostname = .ok out ∧
      hasProp (extensionsOf out) opencti.STIX_EXT_OCTI_SCO = false ∧
      getProp out "description" = .str "Edge gateway" ∧
      getProp out "score" = .num 70 :=
  ⟨rfl, rfl, by decide, _, rfl, rfl, rfl, rfl⟩

/-- C20, amended: under a well-formed schema, for every successfully converted
instance of an observable type other than hostname, text, cryptocurrency
wallet, cryptographic key, registry value and MIME part (the eighteen types of
`scoExtensionTypes`), the label values, the linked-to references and the
external references are computed, and each of the label values,
`x_opencti_description`, `x_opencti_score`, the created-by reference, the
linked-to references and the external references that is non-empty is held,
under its key, by the cyber-observable extension block of the output. -/
theorem C20_sco_block_carries (S : Schema) (hW : S.WellFormed) (inst out : Obj) (t : String)
    (h : convertStoreToStix S inst = .ok out)
    (ht : getProp inst "entity_type" = .str t)
    (hk : t ∈ scoExtensionTypes S) :
    ∃ labels linked refs, labelValues S inst = .ok labels ∧
      standardIds inst S.INPUT_LINKED = .ok linked ∧
      buildExternalReferences S inst = .ok refs ∧
      ∀ kv ∈ scoAttributes S inst labels linked refs, isEmptyField kv.2 = false →
        ∃ blk, getProp (extensionsOf out) S.STIX_EXT_OCTI_SCO = .obj blk ∧
          getProp blk kv.1 = kv.2 := by
  obtain ⟨_, hty, o, ho, hc⟩ := convertStoreToStix_ok h
  obtain ⟨exts, _, hx, hE, _, _, hout, _⟩ := convertStoreToStix_exts hW.extKeys hty ho hc
  have key : (∃ blk, getProp (extensionsOf o) S.STIX_EXT_OCTI_SCO = .obj blk ∧
      ScoBlock S inst blk) →
      ∃ labels linked refs, labelValues S inst = .ok labels ∧
        standardIds inst S.INPUT_LINKED = .ok linked ∧
        buildExternalReferences S inst = .ok refs ∧
        ∀ kv ∈ scoAttributes S inst labels linked refs, isEmptyField kv.2 = false →
          ∃ blk, getProp (extensionsOf out) S.STIX_EXT_OCTI_SCO = .obj blk ∧
            getProp blk kv.1 = kv.2 := by
    rintro ⟨blk, hg, hB⟩
    obtain ⟨labels, linked, refs, hl, hk, hr, hcar⟩ := hB.carried
    refine ⟨labels, linked, refs, hl, hk, hr, fun kv hkv hne => ⟨blk, ?_, hcar kv hkv hne⟩⟩
    rw [hx] at hg
    have hkey : S.STIX_EXT_OCTI_SCO ∈ keys exts :=
      mem_keys_of_getProp_ne _ _ (by rw [hg]; exact fun e => JValue.noConfusion e)
    have hk1 : "extension_type" ∈ keys blk :=
      mem_keys_of_getProp_ne _ _ (by rw [hB.extType]; exact fun e => JValue.noConfusion e)
    have hk2 : kv.1 ∈ keys blk := by
      apply mem_keys_of_getProp_ne
      rw [hcar kv hkv hne]
      intro e
      rw [e] at hne
      simp [isEmptyField] at hne
    have hd : "extension_type" ≠ kv.1 := by
      simp only [scoAttributes, List.mem_cons, List.mem_singleton, List.not_mem_nil,
        or_false] at hkv
      rcases hkv with e | e | e | e | e | e <;> subst e <;> simp
    have hlen := two_le_length blk "extension_type" kv.1 hk1 hk2 hd
    rw [hout, getProp_filter_of_pos exts _ _ hkey, hg]
    rw [hg]
    simp only [entriesLength, bne_iff_ne, ne_eq]
    omega
  simp only [scoExtensionTypes, List.mem_cons, List.mem_singleton, List.not_mem_nil,
    or_false] at hk
  rcases hk with e | e | e | e | e | e | e | e | e | e | e | e | e | e | e | e | e | e <;> subst e
  · rw [route_convertArtifactToStix hW ht] at ho
    exact key (convertArtifactToStix_sco o ho)
  · rw [route_convertAutonomousSystemToStix hW ht] at ho
    exact key (convertAutonomousSystemToStix_sco o ho)
  · rw [route_convertDirectoryToStix hW ht] at ho
    exact key (convertDirectoryToStix_sco o ho)
  · rw [route_convertDomainNameToStix hW ht] at ho
    exact key (convertDomainNameToStix_sco o ho)
  · rw [route_convertEmailAddressToStix hW ht] at ho
    exact key (convertEmailAddressToStix_sco o ho)
  · rw [route_convertEmailMessageToStix hW ht] at ho
    exact key (convertEmailMessageToStix_sco o ho)
  · rw [route_convertFileToStix hW ht] at ho
    exact key (convertFileToStix_sco o ho)
  · rw [route_convertIPv4AddressToStix hW ht] at ho
    exact key (convertIPv4AddressToStix_sco o ho)
  · rw [route_convertIPv6AddressToStix hW ht] at ho
    exact key (convertIPv6AddressToStix_sco o ho)
  · rw [route_convertMacAddressToStix hW ht] at ho
    exact key (convertMacAddressToStix_sco o ho)
  · rw [route_convertMutexToStix hW ht] at ho
    exact key (convertMutexToStix_sco o ho)
  · rw [route_convertNetworkTrafficToStix hW ht] at ho
    exact key (convertNetworkTrafficToStix_sco o ho)
  · rw [route_convertProcessToStix hW ht] at ho
    exact key (convertProcessToStix_sco o ho)
  · rw [route_convertSoftwareToStix hW ht] at ho
    exact key (convertSoftwareToStix_sco o ho)
  · rw [route_convertURLToStix hW ht] at ho
    exact key (convertURLToStix_sco o ho)
  · rw [route_convertUserAccountToStix hW ht] at ho
    exact key (convertUserAccountToStix_sco o ho)
  · rw [route_convertWindowsRegistryKeyToStix hW ht] at ho
    exact key (convertWindowsRegistryKeyToStix_sco o ho)
  · rw [route_convertX509CertificateToStix hW ht] at ho
    exact key (convertX509CertificateToStix_sco o ho)

/-- C20 (amended) on the sample domain name, whose description and score are
held by the cyber-observable extension block of the output. -/
theorem C20_sco_block_carries_witness :
    opencti.WellFormed ∧
    isEmptyField (getProp sampleDomainName "x_opencti_description") = false ∧
    ∃ out, convertStoreToStix opencti sampleDomainName = .ok out ∧
      "Domain-Name" ∈ scoExtensionTypes opencti ∧
      ∃ labels linked refs, labelValues opencti sampleDomainName = .ok labels ∧
        standardIds sampleDomainName opencti.INPUT_LINKED = .ok linked ∧
        buildExternalReferences opencti sampleDomainName = .ok refs ∧
        ∀ kv ∈ scoAttributes opencti sampleDomainName labels linked refs,
          isEmptyField kv.2 = false →
          ∃ blk, getProp (extensionsOf out) opencti.STIX_EXT_OCTI_SCO = .obj blk ∧
            getProp blk kv.1 = kv.2 :=
  ⟨opencti_wellFormed, rfl, _, rfl, by decide,
    C20_sco_block_carries opencti opencti_wellFormed sampleDomainName _ "Domain-Name" rfl rfl
      (by decide)⟩

/-! ## Fields carried through normalisation -/

theorem carries_of_clean {data out : Obj} {k : String} {v : JValue} (hn : NoDupKeys data)
    (hc : cleanObject data = .ok out) (hk : k ≠ "extensions") (hg : getProp data k = v) :
    Carries out k v := by
  constructor
  · intro hne
    rw [cleanObject_getProp data hn out hc k hk, hg, hne]
    simp
  · intro he
    rw [cleanObject_hasProp data hn out hc k, hg, he]
    simp

theorem carriesOne_of_carries {o : Obj} {k : String} {v : JValue}
    (h : Carries o k (singletonIfTruthy v)) : CarriesOne o k v := by
  unfold singletonIfTruthy at h
  constructor
  · intro ht
    rw [ht] at h
    exact h.1 rfl
  · intro hf
    rw [hf] at h
    exact h.2 rfl

/-- A top-level field of the output of a conversion, in terms of the object the
projector built. -/
theorem convertStoreToStix_carries {S : Schema} {inst o out : Obj} {k : String}
    (ho : convertToStix S inst = .ok o) (hc : cleanObject o = .ok out)
    (hk : k ≠ "extensions") : Carries out k (getProp o k) :=
  carries_of_clean (convertToStix_envelope o ho).nodup hc hk rfl

/-- The platform block of the output is the platform block the projector built. -/
theorem convertStoreToStix_octi {S : Schema} {inst o out blk : Obj} (hS : S.ExtKeysDistinct)
    (hty : isEmptyField (getProp inst "entity_type") = false)
    (ho : convertToStix S inst = .ok o) (hc : cleanObject o = .ok out)
    (hb : getProp (extensionsOf o) S.STIX_EXT_OCTI = .obj blk) :
    getProp (extensionsOf out) S.STIX_EXT_OCTI = .obj blk := by
  obtain ⟨exts, blk', hx, _, hg, _, _, hgo⟩ := convertStoreToStix_exts hS hty ho hc
  rw [hx, hg] at hb
  rw [hgo, hb]

theorem convertToStix_relation {S : Schema} {inst : Obj} {t : String}
    (ht : getProp inst "entity_type" = .str t) (hr : S.isStixRelationship t = true)
    (hk : routedToRelation S t = true) :
    convertToStix S inst = convertRelationToStix S inst := by
  rw [convertToStix_relationship S inst t ht hr]
  unfold convertRelationshipKind
  unfold routedToRelation at hk
  cases h1 : S.isStixCoreRelationship t <;> cases h2 : S.isStixCyberObservableRelationship t <;>
    cases h3 : S.isStixSightingRelationship t <;> cases h4 : S.isStixMetaRelationship t <;>
    simp_all

theorem convertToStix_sighting {S : Schema} {inst : Obj} {t : String}
    (ht : getProp inst "entity_type" = .str t) (hr : S.isStixRelationship t = true)
    (hk : routedToSighting S t = true) :
    convertToStix S inst = convertSightingToStix S inst := by
  rw [convertToStix_relationship S inst t ht hr]
  unfold convertRelationshipKind
  unfold routedToSighting at hk
  cases h1 : S.isStixCoreRelationship t <;> cases h2 : S.isStixCyberObservableRelationship t <;>
    cases h3 : S.isStixSightingRelationship t <;> simp_all

/-! ## C21 -/

theorem convertRelationToStix_endpoints {S : Schema} {inst o : Obj}
    (h : convertRelationToStix S inst = .ok o) :
    getProp o "source_ref" = optProp (getProp inst "from") "standard_id" ∧
    getProp o "target_ref" = optProp (getProp inst "to") "standard_id" ∧
    ∃ blk, getProp (extensionsOf o) S.STIX_EXT_OCTI = .obj blk ∧
      Carries blk "source_ref" (optProp (getProp inst "from") "internal_id") ∧
      Carries blk "source_type" (optProp (getProp inst "from") "entity_type") ∧
      Carries blk "target_ref" (optProp (getProp inst "to") "internal_id") ∧
      Carries blk "target_type" (optProp (getProp inst "to") "entity_type") := by
  simp only [convertRelationToStix, bind_eq_ok, pure_eq_ok] at h
  obtain ⟨_, _, rel, hrel, refs, _, kcp, _, octi, hocti, rfl⟩ := h
  have hp := buildStixDomain_projected hrel
  obtain ⟨exts, blk, he, hE, hg, hB⟩ := hp.block
  simp only [he, hg, spread] at hocti
  have hn := nodup_assign [
    ("source_ref", optProp (getProp inst "from") "internal_id"),
    ("source_type", optProp (getProp inst "from") "entity_type"),
    ("target_ref", optProp (getProp inst "to") "internal_id"),
    ("target_type", optProp (getProp inst "to") "entity_type"),
    ("kill_chain_phases", kcp)] blk hB.nodup
  refine ⟨by simp [getProp_assign, lookupLast], by simp [getProp_assign, lookupLast],
    octi, ?_, ?_, ?_, ?_, ?_⟩
  · rw [extensionsOf_assign]
    simp [lookupLast, spread, getProp_mkObj]
  all_goals
    exact carries_of_clean hn hocti (by decide) (by simp [getProp_assign, lookupLast])

/-- C21, counterexample: the sample relationship is converted, its resolved
`from` endpoint has the empty string as standard id, and the output has no
`source_ref` field. -/
theorem C21_source_ref_absent :
    ∃ out, convertStoreToStix opencti sampleRelationEmptyId = .ok out ∧
      opencti.isStixCoreRelationship "uses" = true ∧
      getProp sampleRelationEmptyId "entity_type" = .str "uses" ∧
      optProp (getProp sampleRelationEmptyId "from") "standard_id" = .str "" ∧
      hasProp out "source_ref" = false ∧
      getProp out "source_ref" = .undefined :=
  ⟨_, rfl, rfl, rfl, rfl, rfl, rfl⟩

/-- C21, amended: for every successfully converted instance of a relationship
type handed to the relation projector (core, cyber-observable or meta
relationship), the output carries under `source_ref` and `target_ref` the
standard ids of the `from` and `to` endpoints, and the platform extension block
carries under `source_ref`, `source_type`, `target_ref` and `target_type` the
internal id and entity type of `from` and of `to`; a carried value is held when
it is non-empty and the field is absent when it is empty. -/
theorem C21_relation_endpoints (S : Schema) (hS : S.ExtKeysDistinct) (inst out : Obj)
    (t : String) (h : convertStoreToStix S inst = .ok out)
    (ht : getProp inst "entity_type" = .str t)
    (hr : S.isStixRelationship t = true) (hk : routedToRelation S t = true) :
    Carries out "source_ref" (optProp (getProp inst "from") "standard_id") ∧
    Carries out "target_ref" (optProp (getProp inst "to") "standard_id") ∧
    ∃ blk, getProp (extensionsOf out) S.STIX_EXT_OCTI = .obj blk ∧
      Carries blk "source_ref" (optProp (getProp inst "from") "internal_id") ∧
      Carries blk "source_type" (optProp (getProp inst "from") "entity_type") ∧
      Carries blk "target_ref" (optProp (getProp inst "to") "internal_id") ∧
      Carries blk "target_type" (optProp (getProp inst "to") "entity_type") := by
  obtain ⟨_, hty, o, ho, hc⟩ := convertStoreToStix_ok h
  have h1 := convertStoreToStix_carries (k := "source_ref") ho hc (by decide)
  have h2 := convertStoreToStix_carries (k := "target_ref") ho hc (by decide)
  have ho' := ho
  rw [convertToStix_relation ht hr hk] at ho'
  obtain ⟨e1, e2, blk, hb, hrest⟩ := convertRelationToStix_endpoints ho'
  rw [e1] at h1
  rw [e2] at h2
  exact ⟨h1, h2, blk, convertStoreToStix_octi hS hty ho hc hb, hrest⟩

/-- C21 (amended) on the sample relationship, whose endpoints have non-empty
identifiers: the six fields are held. -/
theorem C21_relation_endpoints_witness :
    opencti.ExtKeysDistinct ∧
    ∃ out, convertStoreToStix opencti sampleRelation = .ok out ∧
      Carries out "source_ref" (.str "malware--2f7c1c6b-8a56-5c0e-9d2c-1c3d0a6e8f11") ∧
      Carries out "target_ref" (.str "tool--3b7a6f2d-9c1e-4e58-9a10-5d2c7e8b1f33") ∧
      ∃ blk, getProp (extensionsOf out) opencti.STIX_EXT_OCTI = .obj blk ∧
        Carries blk "source_ref" (.str "4a1f") ∧
        Carries blk "source_type" (.str "Malware") ∧
        Carries blk "target_ref" (.str "62c7") ∧
        Carries blk "target_type" (.str "Tool") :=
  ⟨opencti_extKeysDistinct, _, rfl,
    C21_relation_endpoints opencti opencti_extKeysDistinct sampleRelation _ "uses" rfl rfl rfl rfl⟩

/-! ## C22 -/

theorem convertSightingToStix_endpoints {S : Schema} {inst o : Obj}
    (h : convertSightingToStix S inst = .ok o) :
    getProp o "sighting_of_ref" = optProp (getProp inst "from") "standard_id" ∧
    getProp o "where_sighted_refs" =
      singletonIfTruthy (optProp (getProp inst "to") "standard_id") ∧
    ∃ blk, getProp (extensionsOf o) S.STIX_EXT_OCTI = .obj blk ∧
      Carries blk "sighting_of_ref" (optProp (getProp inst "from") "internal_id") ∧
      Carries blk "sighting_of_type" (optProp (getProp inst "from") "entity_type") ∧
      CarriesOne blk "where_sighted_refs" (optProp (getProp inst "to") "internal_id") ∧
      CarriesOne blk "where_sighted_types" (optProp (getProp inst "to") "entity_type") := by
  simp only [convertSightingToStix, bind_eq_ok, pure_eq_ok] at h
  obtain ⟨_, _, rel, hrel, octi, hocti, rfl⟩ := h
  have hp := buildStixDomain_projected hrel
  obtain ⟨exts, blk, he, hE, hg, hB⟩ := hp.block
  simp only [he, hg, spread] at hocti
  have hn := nodup_assign [
    ("sighting_of_ref", optProp (getProp inst "from") "internal_id"),
    ("sighting_of_type", optProp (getProp inst "from") "entity_type"),
    ("where_sighted_refs", singletonIfTruthy (optProp (getProp inst "to") "internal_id")),
    ("where_sighted_types", singletonIfTruthy (optProp (getProp inst "to") "entity_type")),
    ("negative", getProp inst "x_opencti_negative")] blk hB.nodup
  refine ⟨by simp [getProp_assign, lookupLast], by simp [getProp_assign, lookupLast],
    octi, ?_, ?_, ?_, ?_, ?_⟩
  · rw [extensionsOf_assign]
    simp [lookupLast, spread, getProp_mkObj]
  · exact carries_of_clean hn hocti (by decide) (by simp [getProp_assign, lookupLast])
  · exact carries_of_clean hn hocti (by decide) (by simp [getProp_assign, lookupLast])
  · exact carriesOne_of_carries
      (carries_of_clean hn hocti (by decide) (by simp [getProp_assign, lookupLast]))
  · exact carriesOne_of_carries
      (carries_of_clean hn hocti (by decide) (by simp [getProp_assign, lookupLast]))

/-- C22, counterexample: the sample sighting is converted, its resolved `to`
endpoint has the empty string as standard id, and the output has no
`where_sighted_refs` field instead of a one-element list. -/
theorem C22_where_sighted_refs_absent :
    ∃ out, convertStoreToStix opencti sampleSightingEmptyId = .ok out ∧
      opencti.isStixSightingRelationship "stix-sighting-relationship" = true ∧
      getProp sampleSightingEmptyId "entity_type" = .str "stix-sighting-relationship" ∧
      optProp (getProp sampleSightingEmptyId "to") "standard_id" = .str "" ∧
      hasProp out "where_sighted_refs" = false ∧
      getProp out "where_sighted_refs" = .undefined :=
  ⟨_, rfl, rfl, rfl, rfl, rfl, rfl⟩

/-- C22, amended: for every successfully converted instance of a relationship
type handed to the sighting projector, the output carries under
`sighting_of_ref` the standard id of `from` (held when non-empty, absent when
empty) and under `where_sighted_refs` the one-element list of the standard id
of `to` (held when that id is truthy, absent otherwise); the platform extension
block carries under `sighting_of_ref` and `sighting_of_type` the internal id
and entity type of `from`, and under `where_sighted_refs` and
`where_sighted_types` the one-element lists of the internal id and of the
entity type of `to`, in the same way. -/
theorem C22_sighting_endpoints (S : Schema) (hS : S.ExtKeysDistinct) (inst out : Obj)
    (t : String) (h : convertStoreToStix S inst = .ok out)
    (ht : getProp inst "entity_type" = .str t)
    (hr : S.isStixRelationship t = true) (hk : routedToSighting S t = true) :
    Carries out "sighting_of_ref" (optProp (getProp inst "from") "standard_id") ∧
    CarriesOne out "where_sighted_refs" (optProp (getProp inst "to") "standard_id") ∧
    ∃ blk, getProp (extensionsOf out) S.STIX_EXT_OCTI = .obj blk ∧
      Carries blk "sighting_of_ref" (optProp (getProp inst "from") "internal_id") ∧
      Carries blk "sighting_of_type" (optProp (getProp inst "from") "entity_type") ∧
      CarriesOne blk "where_sighted_refs" (optProp (getProp inst "to") "internal_id") ∧
      CarriesOne blk "where_sighted_types" (optProp (getProp inst "to") "entity_type") := by
  obtain ⟨_, hty, o, ho, hc⟩ := convertStoreToStix_ok h
  have h1 := convertStoreToStix_carries (k := "sighting_of_ref") ho hc (by decide)
  have h2 := convertStoreToStix_carries (k := "where_sighted_refs") ho hc (by decide)
  have ho' := ho
  rw [convertToStix_sighting ht hr hk] at ho'
  obtain ⟨e1, e2, blk, hb, hrest⟩ := convertSightingToStix_endpoints ho'
  rw [e1] at h1
  rw [e2] at h2
  exact ⟨h1, carriesOne_of_carries h2, blk, convertStoreToStix_octi hS hty ho hc hb, hrest⟩

/-- C22 (amended) on the sample sighting, whose endpoints have non-empty
identifiers. -/
theorem C22_sighting_endpoints_witness :
    opencti.ExtKeysDistinct ∧
    ∃ out, convertStoreToStix opencti sampleSightingFull = .ok out ∧
      Carries out "sighting_of_ref" (.str "indicator--8a56c0e2-2f7c-5c6b-9d2c-1c3d0a6e8f11") ∧
      CarriesOne out "where_sighted_refs"
        (.str "identity--c0e28a56-2f7c-5c6b-9d2c-1c3d0a6e8f11") ∧
      ∃ blk, getProp (extensionsOf out) opencti.STIX_EXT_OCTI = .obj blk ∧
        Carries blk "sighting_of_ref" (.str "7b3e") ∧
        Carries blk "sighting_of_type" (.str "Indicator") ∧
        CarriesOne blk "where_sighted_refs" (.str "51aa") ∧
        CarriesOne blk "where_sighted_types" (.str "Organization") :=
  ⟨opencti_extKeysDistinct, _, rfl,
    C22_sighting_endpoints opencti opencti_extKeysDistinct sampleSightingFull _
      "stix-sighting-relationship" rfl rfl rfl rfl⟩

/-! ## The fields common to domain objects and relationships -/

theorem lookupLast_of_not_mem (fs : Obj) (k : String) (h : k ∉ keys fs) :
    lookupLast fs k = none := by
  induction fs with
  | nil => rfl
  | cons kv rest ih =>
    obtain ⟨k', v⟩ := kv
    simp only [keys, List.map_cons, List.mem_cons, not_or] at h
    have h1 : ¬ k' = k := fun e => h.1 e.symm
    simp only [lookupLast, ih h.2, h1, if_false]

theorem getProp_assign_of_not_mem (fs base : Obj) (k : String) (h : k ∉ keys fs) :
    getProp (assign base fs) k = getProp base k := by
  rw [getProp_assign, lookupLast_of_not_mem fs k h]
  rfl

theorem standardIds_eq {inst : Obj} {slot : String} {v : JValue}
    (h : standardIds inst slot = .ok v) :
    ∃ xs, nullish (getProp inst slot) (.arr []) = .arr xs ∧
      v = .arr (xs.map fun m => optProp m "standard_id") :=
  mapArray_eq_map (fun _ _ hy => prop_ok hy) h

theorem labelValues_eq {S : Schema} {inst : Obj} {v : JValue}
    (h : labelValues S inst = .ok v) :
    ∃ xs, nullish (getProp inst S.INPUT_LABELS) (.arr []) = .arr xs ∧
      v = .arr (xs.map fun m => optProp m "value") :=
  mapArray_eq_map (fun _ _ hy => prop_ok hy) h

theorem buildStixDomain_common {S : Schema} {inst d : Obj}
    (h : buildStixDomain S inst = .ok d) :
    ∃ ls ms, nullish (getProp inst S.INPUT_LABELS) (.arr []) = .arr ls ∧
      nullish (getProp inst S.INPUT_MARKINGS) (.arr []) = .arr ms ∧
      ∀ kv ∈ domainCommonAttributes S inst ls ms, getProp d kv.1 = kv.2 := by
  simp only [buildStixDomain, bind_eq_ok, pure_eq_ok] at h
  obtain ⟨base, _, labels, hl, marks, hm, refs, _, rfl⟩ := h
  obtain ⟨ls, hls, rfl⟩ := labelValues_eq hl
  obtain ⟨ms, hms, rfl⟩ := standardIds_eq hm
  refine ⟨ls, ms, hls, hms, fun kv hkv => ?_⟩
  simp only [domainCommonAttributes, List.mem_cons, List.mem_singleton, List.not_mem_nil,
    or_false] at hkv
  rcases hkv with e | e | e | e | e | e | e | e <;> subst e <;>
    simp [getProp_assign, lookupLast]

theorem convertIdentityToStix_common {S : Schema} {inst : Obj} {t : String} :
    ∀ o, convertIdentityToStix S inst t = .ok o → ∃ d, buildStixDomain S inst = .ok d ∧
      ∀ k ∈ domainCommonKeys, getProp o k = getProp d k := by
  simp only [convertIdentityToStix]
  refine ite_post (fun _ => throw_bind_post) (fun _ => ?_)
  repeat (refine bind_post ?_; intro _ _)
  intro o h
  rw [pure_eq_ok] at h
  subst h
  refine ⟨_, (by assumption), fun k hk => getProp_assign_of_not_mem _ _ _ ?_⟩
  revert k
  simp [keys, domainCommonKeys]

theorem convertLocationToStix_common {S : Schema} {inst : Obj} {t : String} :
    ∀ o, convertLocationToStix S inst t = .ok o → ∃ d, buildStixDomain S inst = .ok d ∧
      ∀ k ∈ domainCommonKeys, getProp o k = getProp d k := by
  simp only [convertLocationToStix]
  refine ite_post (fun _ => throw_bind_post) (fun _ => ?_)
  repeat (refine bind_post ?_; intro _ _)
  intro o h
  rw [pure_eq_ok] at h
  subst h
  refine ⟨_, (by assumption), fun k hk => getProp_assign_of_not_mem _ _ _ ?_⟩
  revert k
  simp [keys, domainCommonKeys]

theorem convertReportToStix_common {S : Schema} {inst : Obj} {t : String} :
    ∀ o, convertReportToStix S inst t = .ok o → ∃ d, buildStixDomain S inst = .ok d ∧
      ∀ k ∈ domainCommonKeys, getProp o k = getProp d k := by
  simp only [convertReportToStix]
  repeat (refine bind_post ?_; intro _ _)
  intro o h
  rw [pure_eq_ok] at h
  subst h
  refine ⟨_, (by assumption), fun k hk => getProp_assign_of_not_mem _ _ _ ?_⟩
  revert k
  simp [keys, domainCommonKeys]

theorem convertMalwareToStix_common {S : Schema} {inst : Obj} {t : String} :
    ∀ o, convertMalwareToStix S inst t = .ok o → ∃ d, buildStixDomain S inst = .ok d ∧
      ∀ k ∈ domainCommonKeys, getProp o k = getProp d k := by
  simp only [convertMalwareToStix]
  repeat (refine bind_post ?_; intro _ _)
  intro o h
  rw [pure_eq_ok] at h
  subst h
  refine ⟨_, (by assumption), fun k hk => getProp_assign_of_not_mem _ _ _ ?_⟩
  revert k
  simp [keys, domainCommonKeys]

theorem convertInfrastructureToStix_common {S : Schema} {inst : Obj} {t : String} :
    ∀ o, convertInfrastructureToStix S inst t = .ok o → ∃ d, buildStixDomain S inst = .ok d ∧
      ∀ k ∈ domainCommonKeys, getProp o k = getProp d k := by
  simp only [convertInfrastructureToStix]
  repeat (refine bind_post ?_; intro _ _)
  intro o h
  rw [pure_eq_ok] at h
  subst h
  refine ⟨_, (by assumption), fun k hk => getProp_assign_of_not_mem _ _ _ ?_⟩
  revert k
  simp [keys, domainCommonKeys]

theorem convertAttackPatternToStix_common {S : Schema} {inst : Obj} {t : String} :
    ∀ o, convertAttackPatternToStix S inst t = .ok o → ∃ d, buildStixDomain S inst = .ok d ∧
      ∀ k ∈ domainCommonKeys, getProp o k = getProp d k := by
  simp only [convertAttackPatternToStix]
  repeat (refine bind_post ?_; intro _ _)
  intro o h
  rw [pure_eq_ok] at h
  subst h
  refine ⟨_, (by assumption), fun k hk => getProp_assign_of_not_mem _ _ _ ?_⟩
  revert k
  simp [keys, domainCommonKeys]

theorem convertCampaignToStix_common {S : Schema} {inst : Obj} {t : String} :
    ∀ o, convertCampaignToStix S inst t = .ok o → ∃ d, buildStixDomain S inst = .ok d ∧
      ∀ k ∈ domainCommonKeys, getProp o k = getProp d k := by
  simp only [convertCampaignToStix]
  repeat (refine bind_post ?_; intro _ _)
  intro o h
  rw [pure_eq_ok] at h
  subst h
  refine ⟨_, (by assumption), fun k hk => getProp_assign_of_not_mem _ _ _ ?_⟩
  revert k
  simp [keys, domainCommonKeys]

theorem convertThreatActorToStix_common {S : Schema} {inst : Obj} {t : String} :
    ∀ o, convertThreatActorToStix S inst t = .ok o → ∃ d, buildStixDomain S inst = .ok d ∧
      ∀ k ∈ domainCommonKeys, getProp o k = getProp d k := by
  simp only [convertThreatActorToStix]
  repeat (refine bind_post ?_; intro _ _)
  intro o h
  rw [pure_eq_ok] at h
  subst h
  refine ⟨_, (by assumption), fun k hk => getProp_assign_of_not_mem _ _ _ ?_⟩
  revert k
  simp [keys, domainCommonKeys]

theorem convertNoteToStix_common {S : Schema} {inst : Obj} {t : String} :
    ∀ o, convertNoteToStix S inst t = .ok o → ∃ d, buildStixDomain S inst = .ok d ∧
      ∀ k ∈ domainCommonKeys, getProp o k = getProp d k := by
  simp only [convertNoteToStix]
  repeat (refine bind_post ?_; intro _ _)
  intro o h
  rw [pure_eq_ok] at h
  subst h
  refine ⟨_, (by assumption), fun k hk => getProp_assign_of_not_mem _ _ _ ?_⟩
  revert k
  simp [keys, domainCommonKeys]

theorem convertOpinionToStix_common {S : Schema} {inst : Obj} {t : String} :
    ∀ o, convertOpinionToStix S inst t = .ok o → ∃ d, buildStixDomain S inst = .ok d ∧
      ∀ k ∈ domainCommonKeys, getProp o k = getProp d k := by
  simp only [convertOpinionToStix]
  repeat (refine bind_post ?_; intro _ _)
  intro o h
  rw [pure_eq_ok] at h
  subst h
  refine ⟨_, (by assumption), fun k hk => getProp_assign_of_not_mem _ _ _ ?_⟩
  revert k
  simp [keys, domainCommonKeys]

theorem convertObservedDateToStix_common {S : Schema} {inst : Obj} {t : String} :
    ∀ o, convertObservedDateToStix S inst t = .ok o → ∃ d, buildStixDomain S inst = .ok d ∧
      ∀ k ∈ domainCommonKeys, getProp o k = getProp d k := by
  simp only [convertObservedDateToStix]
  repeat (refine bind_post ?_; intro _ _)
  intro o h
  rw [pure_eq_ok] at h
  subst h
  refine ⟨_, (by assumption), fun k hk => getProp_assign_of_not_mem _ _ _ ?_⟩
  revert k
  simp [keys, domainCommonKeys]

theorem convertCourseOfActionToStix_common {S : Schema} {inst : Obj} {t : String} :
    ∀ o, convertCourseOfActionToStix S inst t = .ok o → ∃ d, buildStixDomain S inst = .ok d ∧
      ∀ k ∈ domainCommonKeys, getProp o k = getProp d k := by
  simp only [convertCourseOfActionToStix]
  repeat (refine bind_post ?_; intro _ _)
  intro o h
  rw [pure_eq_ok] at h
  subst h
  refine ⟨_, (by assumption), fun k hk => getProp_assign_of_not_mem _ _ _ ?_⟩
  revert k
  simp [keys, domainCommonKeys]

theorem convertIncidentToStix_common {S : Schema} {inst : Obj} {t : String} :
    ∀ o, convertIncidentToStix S inst t = .ok o → ∃ d, buildStixDomain S inst = .ok d ∧
      ∀ k ∈ domainCommonKeys, getProp o k = getProp d k := by
  simp only [convertIncidentToStix]
  repeat (refine bind_post ?_; intro _ _)
  intro o h
  rw [pure_eq_ok] at h
  subst h
  refine ⟨_, (by assumption), fun k hk => getProp_assign_of_not_mem _ _ _ ?_⟩
  revert k
  simp [keys, domainCommonKeys]

theorem convertIndicatorToStix_common {S : Schema} {inst : Obj} {t : String} :
    ∀ o, convertIndicatorToStix S inst t = .ok o → ∃ d, buildStixDomain S inst = .ok d ∧
      ∀ k ∈ domainCommonKeys, getProp o k = getProp d k := by
  simp only [convertIndicatorToStix]
  repeat (refine bind_post ?_; intro _ _)
  intro o h
  rw [pure_eq_ok] at h
  subst h
  refine ⟨_, (by assumption), fun k hk => getProp_assign_of_not_mem _ _ _ ?_⟩
  revert k
  simp [keys, domainCommonKeys]

theorem convertIntrusionSetToStix_common {S : Schema} {inst : Obj} {t : String} :
    ∀ o, convertIntrusionSetToStix S inst t = .ok o → ∃ d, buildStixDomain S inst = .ok d ∧
      ∀ k ∈ domainCommonKeys, getProp o k = getProp d k := by
  simp only [convertIntrusionSetToStix]
  repeat (refine bind_post ?_; intro _ _)
  intro o h
  rw [pure_eq_ok] at h
  subst h
  refine ⟨_, (by assumption), fun k hk => getProp_assign_of_not_mem _ _ _ ?_⟩
  revert k
  simp [keys, domainCommonKeys]

theorem convertToolToStix_common {S : Schema} {inst : Obj} {t : String} :
    ∀ o, convertToolToStix S inst t = .ok o → ∃ d, buildStixDomain S inst = .ok d ∧
      ∀ k ∈ domainCommonKeys, getProp o k = getProp d k := by
  simp only [convertToolToStix]
  repeat (refine bind_post ?_; intro _ _)
  intro o h
  rw [pure_eq_ok] at h
  subst h
  refine ⟨_, (by assumption), fun k hk => getProp_assign_of_not_mem _ _ _ ?_⟩
  revert k
  simp [keys, domainCommonKeys]

theorem convertVulnerabilityToStix_common {S : Schema} {inst : Obj} {t : String} :
    ∀ o, convertVulnerabilityToStix S inst t = .ok o → ∃ d, buildStixDomain S inst = .ok d ∧
      ∀ k ∈ domainCommonKeys, getProp o k = getProp d k := by
  simp only [convertVulnerabilityToStix]
  repeat (refine bind_post ?_; intro _ _)
  intro o h
  rw [pure_eq_ok] at h
  subst h
  refine ⟨_, (by assumption), fun k hk => getProp_assign_of_not_mem _ _ _ ?_⟩
  revert k
  simp [keys, domainCommonKeys]

theorem convertRelationToStix_common {S : Schema} {inst : Obj} :
    ∀ o, convertRelationToStix S inst = .ok o → ∃ d, buildStixDomain S inst = .ok d ∧
      ∀ k ∈ domainCommonKeys, getProp o k = getProp d k := by
  simp only [convertRelationToStix]
  repeat (refine bind_post ?_; intro _ _)
  intro o h
  rw [pure_eq_ok] at h
  subst h
  refine ⟨_, (by assumption), fun k hk => getProp_assign_of_not_mem _ _ _ ?_⟩
  revert k
  simp [keys, domainCommonKeys]

theorem convertSightingToStix_common {S : Schema} {inst : Obj} :
    ∀ o, convertSightingToStix S inst = .ok o → ∃ d, buildStixDomain S inst = .ok d ∧
      ∀ k ∈ domainCommonKeys, getProp o k = getProp d k := by
  simp only [convertSightingToStix]
  repeat (refine bind_post ?_; intro _ _)
  intro o h
  rw [pure_eq_ok] at h
  subst h
  refine ⟨_, (by assumption), fun k hk => getProp_assign_of_not_mem _ _ _ ?_⟩
  revert k
  simp [keys, domainCommonKeys]

theorem convertRelationshipKind_common {S : Schema} {inst : Obj} {t : String} :
    ∀ o, convertRelationshipKind S inst t = .ok o → ∃ d, buildStixDomain S inst = .ok d ∧
      ∀ k ∈ domainCommonKeys, getProp o k = getProp d k := by
  unfold convertRelationshipKind
  refine ite_post (fun _ => convertRelationToStix_common) (fun _ => ?_)
  refine ite_post (fun _ => convertRelationToStix_common) (fun _ => ?_)
  refine ite_post (fun _ => convertSightingToStix_common) (fun _ => ?_)
  refine ite_post (fun _ => convertRelationToStix_common) (fun _ => ?_)
  exact fun b h => absurd h (throw_ne_ok _ _)

theorem convertDomainKind_common {S : Schema} {inst : Obj} {t : String} :
    ∀ o, convertDomainKind S inst t = .ok o → ∃ d, buildStixDomain S inst = .ok d ∧
      ∀ k ∈ domainCommonKeys, getProp o k = getProp d k := by
  unfold convertDomainKind
  refine ite_post (fun _ => convertIdentityToStix_common) (fun _ => ?_)
  refine ite_post (fun _ => convertLocationToStix_common) (fun _ => ?_)
  refine ite_post (fun _ => convertReportToStix_common) (fun _ => ?_)
  refine ite_post (fun _ => convertMalwareToStix_common) (fun _ => ?_)
  refine ite_post (fun _ => convertInfrastructureToStix_common) (fun _ => ?_)
  refine ite_post (fun _ => convertAttackPatternToStix_common) (fun _ => ?_)
  refine ite_post (fun _ => convertCampaignToStix_common) (fun _ => ?_)
  refine ite_post (fun _ => convertThreatActorToStix_common) (fun _ => ?_)
  refine ite_post (fun _ => convertNoteToStix_common) (fun _ => ?_)
  refine ite_post (fun _ => convertOpinionToStix_common) (fun _ => ?_)
  refine ite_post (fun _ => convertObservedDateToStix_common) (fun _ => ?_)
  refine ite_post (fun _ => convertCourseOfActionToStix_common) (fun _ => ?_)
  refine ite_post (fun _ => convertIncidentToStix_common) (fun _ => ?_)
  refine ite_post (fun _ => convertIndicatorToStix_common) (fun _ => ?_)
  refine ite_post (fun _ => convertIntrusionSetToStix_common) (fun _ => ?_)
  refine ite_post (fun _ => convertToolToStix_common) (fun _ => ?_)
  refine ite_post (fun _ => convertVulnerabilityToStix_common) (fun _ => ?_)
  exact fun b h => absurd h (throw_ne_ok _ _)

theorem convertToStix_common {S : Schema} {inst o : Obj} {t : String}
    (ht : getProp inst "entity_type" = .str t)
    (hk : (S.isStixRelationship t || S.isStixDomainObject t) = true)
    (ho : convertToStix S inst = .ok o) :
    ∃ d, buildStixDomain S inst = .ok d ∧ ∀ k ∈ domainCommonKeys, getProp o k = getProp d k := by
  unfold convertToStix at ho
  rw [entityType_of_str ht, ok_bind] at ho
  split at ho
  · exact absurd ho (throw_ne_ok _ _)
  · cases hr : S.isStixRelationship t
    · rw [hr] at hk ho
      simp only [Bool.false_or] at hk
      simp only [hk, Bool.false_eq_true, if_false, if_true] at ho
      exact convertDomainKind_common o ho
    · simp only [hr, if_true] at ho
      exact convertRelationshipKind_common o ho

/-! ## C23 -/

/-- C23: for every successfully converted instance of a relationship type or a
domain-object type, the attached labels and the attached markings (an absent
slot counts as the empty list) are lists, and the output carries `created`,
`modified`, `revoked`, `confidence` and `lang` of the instance, under `labels`
the values of the labels in slot order, under `object_marking_refs` the
standard ids of the markings in slot order and under `created_by_ref` the
standard id of the created-by entity: each field holds its value when the value
is non-empty and is absent when it is empty. -/
theorem C23_domain_common_fields (S : Schema) (inst out : Obj) (t : String)
    (h : convertStoreToStix S inst = .ok out)
    (ht : getProp inst "entity_type" = .str t)
    (hk : (S.isStixRelationship t || S.isStixDomainObject t) = true) :
    ∃ ls ms, nullish (getProp inst S.INPUT_LABELS) (.arr []) = .arr ls ∧
      nullish (getProp inst S.INPUT_MARKINGS) (.arr []) = .arr ms ∧
      ∀ kv ∈ domainCommonAttributes S inst ls ms, Carries out kv.1 kv.2 := by
  obtain ⟨_, _, o, ho, hc⟩ := convertStoreToStix_ok h
  obtain ⟨d, hd, hkeys⟩ := convertToStix_common ht hk ho
  obtain ⟨ls, ms, hls, hms, hattr⟩ := buildStixDomain_common hd
  refine ⟨ls, ms, hls, hms, fun kv hkv => ?_⟩
  have hmem : kv.1 ∈ domainCommonKeys := by
    simp only [domainCommonAttributes, List.mem_cons, List.mem_singleton, List.not_mem_nil,
      or_false] at hkv
    rcases hkv with e | e | e | e | e | e | e | e <;> subst e <;> simp [domainCommonKeys]
  have hne : kv.1 ≠ "extensions" := by
    intro e
    rw [e] at hmem
    simp [domainCommonKeys] at hmem
  have := convertStoreToStix_carries (k := kv.1) ho hc hne
  rw [hkeys kv.1 hmem, hattr kv hkv] at this
  exact this

/-- C23 on the sample campaign. -/
theorem C23_domain_common_fields_witness :
    ∃ out, convertStoreToStix opencti sampleCampaign = .ok out ∧
      ∃ ls ms, nullish (getProp sampleCampaign opencti.INPUT_LABELS) (.arr []) = .arr ls ∧
        nullish (getProp sampleCampaign opencti.INPUT_MARKINGS) (.arr []) = .arr ms ∧
        ∀ kv ∈ domainCommonAttributes opencti sampleCampaign ls ms, Carries out kv.1 kv.2 :=
  ⟨_, rfl, C23_domain_common_fields opencti sampleCampaign _ "Campaign" rfl rfl rfl⟩

/-! ## The `defanged` flag of cyber observables -/

theorem buildStixCyberObservable_defanged {S : Schema} {inst o : Obj}
    (h : buildStixCyberObservable S inst = .ok o) :
    getProp o "defanged" = getProp inst "defanged" := by
  simp only [buildStixCyberObservable, bind_eq_ok, pure_eq_ok] at h
  obtain ⟨base, _, _, _, _, _, _, _, _, _, sco, _, rfl⟩ := h
  simp [getProp_assign, lookupLast]

theorem convertWindowsRegistryValueToStix_defanged {S : Schema} {inst : Obj} :
    ∀ o, convertWindowsRegistryValueToStix S inst = .ok o → getProp o "defanged" = getProp inst "defanged" := by
  simp only [convertWindowsRegistryValueToStix]
  repeat (refine bind_post ?_; intro _ _)
  intro o h
  rw [pure_eq_ok] at h
  subst h
  have hb := buildStixCyberObservable_defanged (by assumption)
  rw [← hb]
  exact getProp_assign_of_not_mem _ _ _ (by simp [keys])

theorem convertEmailMimePartToStix_defanged {S : Schema} {inst : Obj} :
    ∀ o, convertEmailMimePartToStix S inst = .ok o → getProp o "defanged" = getProp inst "defanged" := by
  simp only [convertEmailMimePartToStix]
  repeat (refine bind_post ?_; intro _ _)
  intro o h
  rw [pure_eq_ok] at h
  subst h
  have hb := buildStixCyberObservable_defanged (by assumption)
  rw [← hb]
  exact getProp_assign_of_not_mem _ _ _ (by simp [keys])

theorem convertArtifactToStix_defanged {S : Schema} {inst : Obj} {t : String} :
    ∀ o, convertArtifactToStix S inst t = .ok o → getProp o "defanged" = getProp inst "defanged" := by
  simp only [convertArtifactToStix]
  repeat (refine bind_post ?_; intro _ _)
  intro o h
  rw [pure_eq_ok] at h
  subst h
  have hb := buildStixCyberObservable_defanged (by assumption)
  rw [← hb]
  exact getProp_assign_of_not_mem _ _ _ (by simp [keys])

theorem convertAutonomousSystemToStix_defanged {S : Schema} {inst : Obj} {t : String} :
    ∀ o, convertAutonomousSystemToStix S inst t = .ok o → getProp o "defanged" = getProp inst "defanged" := by
  simp only [convertAutonomousSystemToStix]
  repeat (refine bind_post ?_; intro _ _)
  intro o h
  rw [pure_eq_ok] at h
  subst h
  have hb := buildStixCyberObservable_defanged (by assumption)
  rw [← hb]
  exact getProp_assign_of_not_mem _ _ _ (by simp [keys])

theorem convertCryptocurrencyWalletToStix_defanged {S : Schema} {inst : Obj} {t : String} :
    ∀ o, convertCryptocurrencyWalletToStix S inst t = .ok o → getProp o "defanged" = getProp inst "defanged" := by
  simp only [convertCryptocurrencyWalletToStix]
  repeat (refine bind_post ?_; intro _ _)
  intro o h
  rw [pure_eq_ok] at h
  subst h
  have hb := buildStixCyberObservable_defanged (by assumption)
  rw [← hb]
  exact getProp_assign_of_not_mem _ _ _ (by simp [keys])

theorem convertCryptographicKeyToStix_defanged {S : Schema} {inst : Obj} {t : String} :
    ∀ o, convertCryptographicKeyToStix S inst t = .ok o → getProp o "defanged" = getProp inst "defanged" := by
  simp only [convertCryptographicKeyToStix]
  repeat (refine bind_post ?_; intro _ _)
  intro o h
  rw [pure_eq_ok] at h
  subst h
  have hb := buildStixCyberObservable_defanged (by assumption)
  rw [← hb]
  exact getProp_assign_of_not_mem _ _ _ (by simp [keys])

theorem convertDirectoryToStix_defanged {S : Schema} {inst : Obj} {t : String} :
    ∀ o, convertDirectoryToStix S inst t = .ok o → getProp o "defanged" = getProp inst "defanged" := by
  simp only [convertDirectoryToStix]
  repeat (refine bind_post ?_; intro _ _)
  intro o h
  rw [pure_eq_ok] at h
  subst h
  have hb := buildStixCyberObservable_defanged (by assumption)
  rw [← hb]
  exact getProp_assign_of_not_mem _ _ _ (by simp [keys])

theorem convertDomainNameToStix_defanged {S : Schema} {inst : Obj} {t : String} :
    ∀ o, convertDomainNameToStix S inst t = .ok o → getProp o "defanged" = getProp inst "defanged" := by
  simp only [convertDomainNameToStix]
  repeat (refine bind_post ?_; intro _ _)
  intro o h
  rw [pure_eq_ok] at h
  subst h
  have hb := buildStixCyberObservable_defanged (by assumption)
  rw [← hb]
  exact getProp_assign_of_not_mem _ _ _ (by simp [keys])

theorem convertEmailAddressToStix_defanged {S : Schema} {inst : Obj} {t : String} :
    ∀ o, convertEmailAddressToStix S inst t = .ok o → getProp o "defanged" = getProp inst "defanged" := by
  simp only [convertEmailAddressToStix]
  repeat (refine bind_post ?_; intro _ _)
  intro o h
  rw [pure_eq_ok] at h
  subst h
  have hb := buildStixCyberObservable_defanged (by assumption)
  rw [← hb]
  exact getProp_assign_of_not_mem _ _ _ (by simp [keys])

theorem convertEmailMessageToStix_defanged {S : Schema} {inst : Obj} {t : String} :
    ∀ o, convertEmailMessageToStix S inst t = .ok o → getProp o "defanged" = getProp inst "defanged" := by
  simp only [convertEmailMessageToStix]
  repeat (refine bind_post ?_; intro _ _)
  intro o h
  rw [pure_eq_ok] at h
  subst h
  have hb := buildStixCyberObservable_defanged (by assumption)
  rw [← hb]
  exact getProp_assign_of_not_mem _ _ _ (by simp [keys])

theorem convertFileToStix_defanged {S : Schema} {inst : Obj} {t : String} :
    ∀ o, convertFileToStix S inst t = .ok o → getProp o "defanged" = getProp inst "defanged" := by
  simp only [convertFileToStix]
  repeat (refine bind_post ?_; intro _ _)
  intro o h
  rw [pure_eq_ok] at h
  subst h
  have hb := buildStixCyberObservable_defanged (by assumption)
  rw [← hb]
  exact getProp_assign_of_not_mem _ _ _ (by simp [keys])

theorem convertHostnameToStix_defanged {S : Schema} {inst : Obj} {t : String} :
    ∀ o, convertHostnameToStix S inst t = .ok o → getProp o "defanged" = getProp inst "defanged" := by
  simp only [convertHostnameToStix]
  repeat (refine bind_post ?_; intro _ _)
  intro o h
  rw [pure_eq_ok] at h
  subst h
  have hb := buildStixCyberObservable_defanged (by assumption)
  rw [← hb]
  exact getProp_assign_of_not_mem _ _ _ (by simp [keys])

theorem convertIPv4AddressToStix_defanged {S : Schema} {inst : Obj} {t : String} :
    ∀ o, convertIPv4AddressToStix S inst t = .ok o → getProp o "defanged" = getProp inst "defanged" := by
  simp only [convertIPv4AddressToStix]
  repeat (refine bind_post ?_; intro _ _)
  intro o h
  rw [pure_eq_ok] at h
  subst h
  have hb := buildStixCyberObservable_defanged (by assumption)
  rw [← hb]
  exact getProp_assign_of_not_mem _ _ _ (by simp [keys])

theorem convertIPv6AddressToStix_defanged {S : Schema} {inst : Obj} {t : String} :
    ∀ o, convertIPv6AddressToStix S inst t = .ok o → getProp o "defanged" = getProp inst "defanged" := by
  simp only [convertIPv6AddressToStix]
  repeat (refine bind_post ?_; intro _ _)
  intro o h
  rw [pure_eq_ok] at h
  subst h
  have hb := buildStixCyberObservable_defanged (by assumption)
  rw [← hb]
  exact getProp_assign_of_not_mem _ _ _ (by simp [keys])

theorem convertMacAddressToStix_defanged {S : Schema} {inst : Obj} {t : String} :
    ∀ o, convertMacAddressToStix S inst t = .ok o → getProp o "defanged" = getProp inst "defanged" := by
  simp only [convertMacAddressToStix]
  repeat (refine bind_post ?_; intro _ _)
  intro o h
  rw [pure_eq_ok] at h
  subst h
  have hb := buildStixCyberObservable_defanged (by assumption)
  rw [← hb]
  exact getProp_assign_of_not_mem _ _ _ (by simp [keys])

theorem convertMutexToStix_defanged {S : Schema} {inst : Obj} {t : String} :
    ∀ o, convertMutexToStix S inst t = .ok o → getProp o "defanged" = getProp inst "defanged" := by
  simp only [convertMutexToStix]
  repeat (refine bind_post ?_; intro _ _)
  intro o h
  rw [pure_eq_ok] at h
  subst h
  have hb := buildStixCyberObservable_defanged (by assumption)
  rw [← hb]
  exact getProp_assign_of_not_mem _ _ _ (by simp [keys])

theorem convertNetworkTrafficToStix_defanged {S : Schema} {inst : Obj} {t : String} :
    ∀ o, convertNetworkTrafficToStix S inst t = .ok o → getProp o "defanged" = getProp inst "defanged" := by
  simp only [convertNetworkTrafficToStix]
  repeat (refine bind_post ?_; intro _ _)
  intro o h
  rw [pure_eq_ok] at h
  subst h
  have hb := buildStixCyberObservable_defanged (by assumption)
  rw [← hb]
  exact getProp_assign_of_not_mem _ _ _ (by simp [keys])

theorem convertProcessToStix_defanged {S : Schema} {inst : Obj} {t : String} :
    ∀ o, convertProcessToStix S inst t = .ok o → getProp o "defanged" = getProp inst "defanged" := by
  simp only [convertProcessToStix]
  repeat (refine bind_post ?_; intro _ _)
  intro o h
  rw [pure_eq_ok] at h
  subst h
  have hb := buildStixCyberObservable_defanged (by assumption)
  rw [← hb]
  exact getProp_assign_of_not_mem _ _ _ (by simp [keys])

theorem convertSoftwareToStix_defanged {S : Schema} {inst : Obj} {t : String} :
    ∀ o, convertSoftwareToStix S inst t = .ok o → getProp o "defanged" = getProp inst "defanged" := by
  simp only [convertSoftwareToStix]
  repeat (refine bind_post ?_; intro _ _)
  intro o h
  rw [pure_eq_ok] at h
  subst h
  have hb := buildStixCyberObservable_defanged (by assumption)
  rw [← hb]
  exact getProp_assign_of_not_mem _ _ _ (by simp [keys])

theorem convertTextToStix_defanged {S : Schema} {inst : Obj} {t : String} :
    ∀ o, convertTextToStix S inst t = .ok o → getProp o "defanged" = getProp inst "defanged" := by
  simp only [convertTextToStix]
  repeat (refine bind_post ?_; intro _ _)
  intro o h
  rw [pure_eq_ok] at h
  subst h
  have hb := buildStixCyberObservable_defanged (by assumption)
  rw [← hb]
  exact getProp_assign_of_not_mem _ _ _ (by simp [keys])

theorem convertURLToStix_defanged {S : Schema} {inst : Obj} {t : String} :
    ∀ o, convertURLToStix S inst t = .ok o → getProp o "defanged" = getProp inst "defanged" := by
  simp only [convertURLToStix]
  repeat (refine bind_post ?_; intro _ _)
  intro o h
  rw [pure_eq_ok] at h
  subst h
  have hb := buildStixCyberObservable_defanged (by assumption)
  rw [← hb]
  exact getProp_assign_of_not_mem _ _ _ (by simp [keys])

theorem convertUserAccountToStix_defanged {S : Schema} {inst : Obj} {t : String} :
    ∀ o, convertUserAccountToStix S inst t = .ok o → getProp o "defanged" = getProp inst "defanged" := by
  simp only [convertUserAccountToStix]
  repeat (refine bind_post ?_; intro _ _)
  intro o h
  rw [pure_eq_ok] at h
  subst h
  have hb := buildStixCyberObservable_defanged (by assumption)
  rw [← hb]
  exact getProp_assign_of_not_mem _ _ _ (by simp [keys])

theorem convertWindowsRegistryKeyToStix_defanged {S : Schema} {inst : Obj} {t : String} :
    ∀ o, convertWindowsRegistryKeyToStix S inst t = .ok o → getProp o "defanged" = getProp inst "defanged" := by
  simp only [convertWindowsRegistryKeyToStix]
  repeat (refine bind_post ?_; intro _ _)
  intro o h
  rw [pure_eq_ok] at h
  subst h
  have hb := buildStixCyberObservable_defanged (by assumption)
  rw [← hb]
  exact getProp_assign_of_not_mem _ _ _ (by simp [keys])

theorem convertX509CertificateToStix_defanged {S : Schema} {inst : Obj} {t : String} :
    ∀ o, convertX509CertificateToStix S inst t = .ok o → getProp o "defanged" = getProp inst "defanged" := by
  simp only [convertX509CertificateToStix]
  repeat (refine bind_post ?_; intro _ _)
  intro o h
  rw [pure_eq_ok] at h
  subst h
  have hb := buildStixCyberObservable_defanged (by assumption)
  rw [← hb]
  exact getProp_assign_of_not_mem _ _ _ (by simp [keys])

theorem convertObservableKind_defanged {S : Schema} {inst : Obj} {t : String} :
    ∀ o, convertObservableKind S inst t = .ok o → getProp o "defanged" = getProp inst "defanged" := by
  unfold convertObservableKind
  refine ite_post (fun _ => convertWindowsRegistryValueToStix_defanged) (fun _ => ?_)
  refine ite_post (fun _ => convertEmailMimePartToStix_defanged) (fun _ => ?_)
  refine ite_post (fun _ => convertArtifactToStix_defanged) (fun _ => ?_)
  refine ite_post (fun _ => convertAutonomousSystemToStix_defanged) (fun _ => ?_)
  refine ite_post (fun _ => convertCryptocurrencyWalletToStix_defanged) (fun _ => ?_)
  refine ite_post (fun _ => convertCryptographicKeyToStix_defanged) (fun _ => ?_)
  refine ite_post (fun _ => convertDirectoryToStix_defanged) (fun _ => ?_)
  refine ite_post (fun _ => convertDomainNameToStix_defanged) (fun _ => ?_)
  refine ite_post (fun _ => convertEmailAddressToStix_defanged) (fun _ => ?_)
  refine ite_post (fun _ => convertEmailMessageToStix_defanged) (fun _ => ?_)
  refine ite_post (fun _ => convertFileToStix_defanged) (fun _ => ?_)
  refine ite_post (fun _ => convertHostnameToStix_defanged) (fun _ => ?_)
  refine ite_post (fun _ => convertIPv4AddressToStix_defanged) (fun _ => ?_)
  refine ite_post (fun _ => convertIPv6AddressToStix_defanged) (fun _ => ?_)
  refine ite_post (fun _ => convertMacAddressToStix_defanged) (fun _ => ?_)
  refine ite_post (fun _ => convertMutexToStix_defanged) (fun _ => ?_)
  refine ite_post (fun _ => convertNetworkTrafficToStix_defanged) (fun _ => ?_)
  refine ite_post (fun _ => convertProcessToStix_defanged) (fun _ => ?_)
  refine ite_post (fun _ => convertSoftwareToStix_defanged) (fun _ => ?_)
  refine ite_post (fun _ => convertTextToStix_defanged) (fun _ => ?_)
  refine ite_post (fun _ => convertURLToStix_defanged) (fun _ => ?_)
  refine ite_post (fun _ => convertUserAccountToStix_defanged) (fun _ => ?_)
  refine ite_post (fun _ => convertWindowsRegistryKeyToStix_defanged) (fun _ => ?_)
  refine ite_post (fun _ => convertX509CertificateToStix_defanged) (fun _ => ?_)
  exact fun b h => absurd h (throw_ne_ok _ _)

theorem convertToStix_domainKind {S : Schema} {inst : Obj} {t : String}
    (ht : getProp inst "entity_type" = .str t)
    (hr : S.isStixRelationship t = false) (hd : S.isStixDomainObject t = true) {o : Obj}
    (ho : convertToStix S inst = .ok o) : convertDomainKind S inst t = .ok o := by
  unfold convertToStix at ho
  rw [entityType_of_str ht, ok_bind] at ho
  split at ho
  · exact absurd ho (throw_ne_ok _ _)
  · simpa [hr, hd] using ho

theorem convertToStix_observableKind {S : Schema} {inst : Obj} {t : String}
    (ht : getProp inst "entity_type" = .str t)
    (hr : S.isStixRelationship t = false) (hd : S.isStixDomainObject t = false)
    (hm : S.isStixMetaObject t = false) (hc : S.isStixCyberObservable t = true) {o : Obj}
    (ho : convertToStix S inst = .ok o) : convertObservableKind S inst t = .ok o := by
  unfold convertToStix at ho
  rw [entityType_of_str ht, ok_bind] at ho
  split at ho
  · exact absurd ho (throw_ne_ok _ _)
  · simpa [hr, hd, hm, hc] using ho

/-! ## C26 -/

/-- C26: for every successfully converted instance, a boolean `revoked` and a
numeric `confidence` of a domain object, and a boolean `defanged` of a cyber
observable, are in the output with the same value; in particular `false` and
`0` are kept (they are not empty values). -/
theorem C26_booleans_and_numbers_kept (S : Schema) (inst out : Obj) (t : String)
    (h : convertStoreToStix S inst = .ok out)
    (ht : getProp inst "entity_type" = .str t) :
    (S.isStixRelationship t = false → S.isStixDomainObject t = true →
      (∀ b, getProp inst "revoked" = .bool b → getProp out "revoked" = .bool b) ∧
      (∀ n, getProp inst "confidence" = .num n → getProp out "confidence" = .num n)) ∧
    (S.isStixRelationship t = false → S.isStixDomainObject t = false →
      S.isStixMetaObject t = false → S.isStixCyberObservable t = true →
      ∀ b, getProp inst "defanged" = .bool b → getProp out "defanged" = .bool b) := by
  obtain ⟨_, _, o, ho, hc⟩ := convertStoreToStix_ok h
  refine ⟨fun hr hd => ?_, fun hr hd hm hcy b hb => ?_⟩
  · obtain ⟨d, hbd, hkeys⟩ := convertDomainKind_common o (convertToStix_domainKind ht hr hd ho)
    obtain ⟨ls, ms, _, _, hattr⟩ := buildStixDomain_common hbd
    have h1 := convertStoreToStix_carries (k := "revoked") ho hc (by decide)
    have h2 := convertStoreToStix_carries (k := "confidence") ho hc (by decide)
    rw [hkeys "revoked" (by simp [domainCommonKeys]),
      hattr ("revoked", getProp inst "revoked") (by simp [domainCommonAttributes])] at h1
    rw [hkeys "confidence" (by simp [domainCommonKeys]),
      hattr ("confidence", getProp inst "confidence") (by simp [domainCommonAttributes])] at h2
    refine ⟨fun b hb => ?_, fun n hn => ?_⟩
    · rw [← hb]
      exact h1.1 (by rw [hb]; rfl)
    · rw [← hn]
      exact h2.1 (by rw [hn]; rfl)
  · have h1 := convertStoreToStix_carries (k := "defanged") ho hc (by decide)
    rw [convertObservableKind_defanged o (convertToStix_observableKind ht hr hd hm hcy ho)] at h1
    rw [← hb]
    exact h1.1 (by rw [hb]; rfl)

/-- C26 on the sample campaign (`revoked` false, `confidence` 0) and on the
sample mutex (`defanged` false). -/
theorem C26_booleans_and_numbers_kept_witness :
    (∃ out, convertStoreToStix opencti sampleCampaign = .ok out ∧
      getProp out "revoked" = .bool false ∧ getProp out "confidence" = .num 0) ∧
    (∃ out, convertStoreToStix opencti sampleMutex = .ok out ∧
      getProp out "defanged" = .bool false) :=
  ⟨⟨_, rfl,
      ((C26_booleans_and_numbers_kept opencti sampleCampaign _ "Campaign" rfl rfl).1 rfl rfl).1
        false rfl,
      ((C26_booleans_and_numbers_kept opencti sampleCampaign _ "Campaign" rfl rfl).1 rfl rfl).2
        0 rfl⟩,
    ⟨_, rfl,
      (C26_booleans_and_numbers_kept opencti sampleMutex _ "Mutex" rfl rfl).2 rfl rfl rfl rfl
        false rfl⟩⟩

/-! ## C24 -/

theorem convertReportToStix_objectRefs {S : Schema} {inst : Obj} {t : String} :
    ∀ o, convertReportToStix S inst t = .ok o →
      ∃ refs, standardIds inst S.INPUT_OBJECTS = .ok refs ∧ getProp o "object_refs" = refs := by
  simp only [convertReportToStix]
  repeat (refine bind_post ?_; intro _ _)
  intro o h
  rw [pure_eq_ok] at h
  subst h
  exact ⟨_, (by assumption), by simp [getProp_assign, lookupLast]⟩

theorem convertNoteToStix_objectRefs {S : Schema} {inst : Obj} {t : String} :
    ∀ o, convertNoteToStix S inst t = .ok o →
      ∃ refs, standardIds inst S.INPUT_OBJECTS = .ok refs ∧ getProp o "object_refs" = refs := by
  simp only [convertNoteToStix]
  repeat (refine bind_post ?_; intro _ _)
  intro o h
  rw [pure_eq_ok] at h
  subst h
  exact ⟨_, (by assumption), by simp [getProp_assign, lookupLast]⟩

/-- C24: under a well-formed schema, for every successfully converted report or
note instance, the objects slot (an absent slot counts as the empty list) is a
list; when it is not empty the `object_refs` field of the output is the list of
the standard ids of its elements, in slot order; when it is empty the output
has no `object_refs` field. -/
theorem C24_object_refs (S : Schema) (hW : S.WellFormed) (inst out : Obj) (t : String)
    (h : convertStoreToStix S inst = .ok out)
    (ht : getProp inst "entity_type" = .str t)
    (hk : t = S.ENTITY_TYPE_CONTAINER_REPORT ∨ t = S.ENTITY_TYPE_CONTAINER_NOTE) :
    ∃ objs, nullish (getProp inst S.INPUT_OBJECTS) (.arr []) = .arr objs ∧
      (objs ≠ [] →
        getProp out "object_refs" = .arr (objs.map fun m => optProp m "standard_id")) ∧
      (objs = [] → hasProp out "object_refs" = false) := by
  obtain ⟨_, _, o, ho, hc⟩ := convertStoreToStix_ok h
  have hcar := convertStoreToStix_carries (k := "object_refs") ho hc (by decide)
  have key : (∃ refs, standardIds inst S.INPUT_OBJECTS = .ok refs ∧
      getProp o "object_refs" = refs) →
      ∃ objs, nullish (getProp inst S.INPUT_OBJECTS) (.arr []) = .arr objs ∧
        (objs ≠ [] →
          getProp out "object_refs" = .arr (objs.map fun m => optProp m "standard_id")) ∧
        (objs = [] → hasProp out "object_refs" = false) := by
    rintro ⟨refs, hr, hg⟩
    obtain ⟨objs, hs, rfl⟩ := standardIds_eq hr
    rw [hg] at hcar
    refine ⟨objs, hs, fun hne => hcar.1 ?_, fun he => hcar.2 ?_⟩
    · cases objs with
      | nil => exact absurd rfl hne
      | cons _ _ => rfl
    · rw [he]
      rfl
  rcases hk with e | e <;> subst e
  · rw [route_convertReportToStix hW ht] at ho
    exact key (convertReportToStix_objectRefs o ho)
  · rw [route_convertNoteToStix hW ht] at ho
    exact key (convertNoteToStix_objectRefs o ho)

/-- C24 on the sample report, which refers to two objects. -/
theorem C24_object_refs_witness :
    opencti.WellFormed ∧
    ∃ out, convertStoreToStix opencti sampleReport = .ok out ∧
      ∃ objs, nullish (getProp sampleReport opencti.INPUT_OBJECTS) (.arr []) = .arr objs ∧
        (objs ≠ [] →
          getProp out "object_refs" = .arr (objs.map fun m => optProp m "standard_id")) ∧
        (objs = [] → hasProp out "object_refs" = false) :=
  ⟨opencti_wellFormed, _, rfl,
    C24_object_refs opencti opencti_wellFormed sampleReport _ "Report" rfl rfl (Or.inl rfl)⟩

/-! ## C27 -/

theorem buildOCTIExtensions_files {S : Schema} {inst octi : Obj}
    (h : buildOCTIExtensions S inst = .ok octi) :
    ∃ fs, nullish (getProp inst "x_opencti_files") (.arr []) = .arr fs ∧
      Carries octi "files" (.arr (fs.map fileDescriptor)) := by
  simp only [buildOCTIExtensions, bind_eq_ok] at h
  obtain ⟨files, hfm, ids, _, flag, _, hc⟩ := h
  have hmap : ∃ fs, nullish (getProp inst "x_opencti_files") (.arr []) = .arr fs ∧
      files = .arr (fs.map fileDescriptor) := by
    refine mapArray_eq_map ?_ hfm
    intro f y hy
    simp only [bind_eq_ok, pure_eq_ok] at hy
    obtain ⟨n, hn, i, hi, v, hv, m, hm, rfl⟩ := hy
    rw [prop_ok hn, prop_ok hi, prop_ok hv, prop_ok hm]
    rfl
  obtain ⟨fs, hs, rfl⟩ := hmap
  exact ⟨fs, hs, carries_of_clean (by simp [NoDupKeys, keys]) hc (by decide) (by simp [getProp])⟩

/-- C27: on every successful conversion of an instance whose `x_opencti_files`
is non-empty, `x_opencti_files` is a list and the `files` field of the platform
extension block is the list of the descriptors of its elements, in the same
order: each descriptor holds the `name`, `version` and `mime_type` of the file
and a `uri` equal to "/storage/get/" followed by the `id` of the file. -/
theorem C27_platform_files (S : Schema) (hS : S.ExtKeysDistinct) (inst out : Obj)
    (h : convertStoreToStix S inst = .ok out)
    (hf : isEmptyField (getProp inst "x_opencti_files") = false) :
    ∃ fs blk, getProp inst "x_opencti_files" = .arr fs ∧
      getProp (extensionsOf out) S.STIX_EXT_OCTI = .obj blk ∧
      getProp blk "files" = .arr (fs.map fileDescriptor) ∧
      ∀ f ∈ fs, fileDescriptor f = .obj [("name", optProp f "name"),
        ("uri", .str ("/storage/get/" ++ toJsString (optProp f "id"))),
        ("version", optProp f "version"), ("mime_type", optProp f "mime_type")] := by
  obtain ⟨_, hty, o, ho, hc⟩ := convertStoreToStix_ok h
  obtain ⟨exts, blk, _, _, _, hB, _, hgo⟩ := convertStoreToStix_exts hS hty ho hc
  obtain ⟨octi, hocti, hk⟩ := hB.base
  obtain ⟨fs, hs, hcar⟩ := buildOCTIExtensions_files hocti
  have hv : getProp inst "x_opencti_files" = .arr fs := by
    rw [← hs]
    cases hx : getProp inst "x_opencti_files" <;> first
      | rfl
      | (rw [hx] at hf; simp [isEmptyField] at hf)
  have hne : isEmptyField (JValue.arr (fs.map fileDescriptor)) = false := by
    rw [hv] at hf
    cases fs with
    | nil => simp [isEmptyField] at hf
    | cons _ _ => rfl
  refine ⟨fs, blk, hv, hgo, ?_, fun _ _ => rfl⟩
  rw [hk "files" (by simp [octiKeys])]
  exact hcar.1 hne

/-- C27 on the sample malware with two files. -/
theorem C27_platform_files_witness :
    opencti.ExtKeysDistinct ∧
    ∃ out, convertStoreToStix opencti sampleInferredMalware = .ok out ∧
      ∃ fs blk, getProp sampleInferredMalware "x_opencti_files" = .arr fs ∧
        getProp (extensionsOf out) opencti.STIX_EXT_OCTI = .obj blk ∧
        getProp blk "files" = .arr (fs.map fileDescriptor) ∧
        ∀ f ∈ fs, fileDescriptor f = .obj [("name", optProp f "name"),
          ("uri", .str ("/storage/get/" ++ toJsString (optProp f "id"))),
          ("version", optProp f "version"), ("mime_type", optProp f "mime_type")] :=
  ⟨opencti_extKeysDistinct, _, rfl,
    C27_platform_files opencti opencti_extKeysDistinct sampleInferredMalware _ rfl rfl⟩

/-! ## C28 -/

theorem buildOCTIExtensions_inferred {S : Schema} {inst octi : Obj} {s : String}
    (h : buildOCTIExtensions S inst = .ok octi)
    (hi : getProp inst "_index" = .str s) (hs : s ≠ "") :
    getProp octi "is_inferred" = .bool (S.isInferredIndex s) := by
  obtain ⟨files, ids, flag, _, hf, rfl⟩ := buildOCTIExtensions_eq h
  have hflag : flag = .bool (S.isInferredIndex s) := by
    rw [hi] at hf
    simp only [inferredFlag, truthy, bne_iff_ne, ne_eq, hs, not_false_eq_true, if_true,
      decide_True, pure_eq_ok] at hf
    exact hf.symm
  subst hflag
  rw [getProp_nonEmptyEntries _ (by simp [NoDupKeys, keys])]
  simp [getProp, isEmptyField]

/-- C28: on every successful conversion of an instance whose `_index` is a
string (its declared type), the platform extension block holds an `is_inferred`
field equal to `isInferredIndex` of that index; the field is present whether
the flag is true or false. -/
theorem C28_is_inferred (S : Schema) (hS : S.ExtKeysDistinct) (inst out : Obj) (s : String)
    (h : convertStoreToStix S inst = .ok out)
    (hi : getProp inst "_index" = .str s) :
    ∃ blk, getProp (extensionsOf out) S.STIX_EXT_OCTI = .obj blk ∧
      hasProp blk "is_inferred" = true ∧
      getProp blk "is_inferred" = .bool (S.isInferredIndex s) := by
  obtain ⟨hidx, hty, o, ho, hc⟩ := convertStoreToStix_ok h
  obtain ⟨exts, blk, _, _, _, hB, _, hgo⟩ := convertStoreToStix_exts hS hty ho hc
  obtain ⟨octi, hocti, hk⟩ := hB.base
  have hs : s ≠ "" := by
    intro e
    rw [hi, e] at hidx
    simp [isEmptyField] at hidx
  have hv : getProp blk "is_inferred" = .bool (S.isInferredIndex s) := by
    rw [hk "is_inferred" (by simp [octiKeys])]
    exact buildOCTIExtensions_inferred hocti hi hs
  refine ⟨blk, hgo, ?_, hv⟩
  apply hasProp_of_getProp_ne
  rw [hv]
  exact fun e => JValue.noConfusion e

/-- C28 on the sample malware, stored in a regular index (flag false), and on
the sample malware stored in an inferred index (flag true). -/
theorem C28_is_inferred_witness :
    opencti.ExtKeysDistinct ∧
    (∃ out, convertStoreToStix opencti sampleMalware = .ok out ∧
      ∃ blk, getProp (extensionsOf out) opencti.STIX_EXT_OCTI = .obj blk ∧
        hasProp blk "is_inferred" = true ∧
        getProp blk "is_inferred" = .bool false) ∧
    (∃ out, convertStoreToStix opencti sampleInferredMalware = .ok out ∧
      ∃ blk, getProp (extensionsOf out) opencti.STIX_EXT_OCTI = .obj blk ∧
        hasProp blk "is_inferred" = true ∧
        getProp blk "is_inferred" = .bool true) :=
  ⟨opencti_extKeysDistinct,
    ⟨_, rfl, C28_is_inferred opencti opencti_extKeysDistinct sampleMalware _
      "opencti_stix_domain_objects" rfl rfl⟩,
    ⟨_, rfl, C28_is_inferred opencti opencti_extKeysDistinct sampleInferredMalware _
      "opencti_inferred_entities" rfl rfl⟩⟩

/-! ## C30 -/

theorem convertEmailMessageToStix_headers {S : Schema} {inst : Obj} {t : String} :
    ∀ o, convertEmailMessageToStix S inst t = .ok o →
      getProp o "additional_header_fields" = .obj [] := by
  simp only [convertEmailMessageToStix]
  repeat (refine bind_post ?_; intro _ _)
  intro o h
  rw [pure_eq_ok] at h
  subst h
  simp [getProp_assign, lookupLast]

/-- C30: under a well-formed schema, for every successfully converted
email-message instance, whatever its attributes, the output has no
`additional_header_fields` field: the projector sets it to the empty mapping
and the final normalisation removes it. -/
theorem C30_no_additional_header_fields (S : Schema) (hW : S.WellFormed) (inst out : Obj)
    (h : convertStoreToStix S inst = .ok out)
    (ht : getProp inst "entity_type" = .str S.ENTITY_EMAIL_MESSAGE) :
    hasProp out "additional_header_fields" = false := by
  obtain ⟨_, _, o, ho, hc⟩ := convertStoreToStix_ok h
  have hcar := convertStoreToStix_carries (k := "additional_header_fields") ho hc (by decide)
  rw [route_convertEmailMessageToStix hW ht] at ho
  rw [convertEmailMessageToStix_headers o ho] at hcar
  exact hcar.2 rfl

/-- C30 on the sample email message, whose own `additional_header_fields`
attribute is not empty. -/
theorem C30_no_additional_header_fields_witness :
    opencti.WellFormed ∧
    getProp sampleEmailMessage "additional_header_fields" = .obj [("X-Mailer", .str "mutt")] ∧
    ∃ out, convertStoreToStix opencti sampleEmailMessage = .ok out ∧
      hasProp out "additional_header_fields" = false :=
  ⟨opencti_wellFormed, rfl, _, rfl,
    C30_no_additional_header_fields opencti opencti_wellFormed sampleEmailMessage _ rfl rfl⟩

/-! ## Every extension block is typed -/

theorem blocksTyped_single (S : Schema) (v : JValue) :
    BlocksTyped S (mkObj [(S.STIX_EXT_OCTI, v)]) := by
  intro e he
  have := mem_mkObj _ _ he
  simp only [List.mem_singleton] at this
  exact Or.inl (by rw [this])

theorem blocksTyped_pair (S : Schema) (v : JValue) (k : String) {b : Obj} (hn : NoDupKeys b)
    (ht : hasProp b "extension_type" = true) :
    BlocksTyped S (mkObj [(S.STIX_EXT_OCTI, v), (k, .obj b)]) := by
  intro e he
  have := mem_mkObj _ _ he
  simp only [List.mem_cons, List.mem_singleton, List.not_mem_nil, or_false] at this
  rcases this with e1 | e1
  · exact Or.inl (by rw [e1])
  · exact Or.inr (by rw [e1]; exact ⟨hn, ht⟩)

theorem blocksTyped_assign {S : Schema} {base : Obj} (hb : BlocksTyped S base) (k : String)
    {b : Obj} (hn : NoDupKeys b) (ht : hasProp b "extension_type" = true) :
    BlocksTyped S (assign base [(k, .obj b)]) := by
  intro e he
  rcases mem_assign _ _ _ he with h1 | h1
  · simp only [List.mem_singleton] at h1
    exact Or.inr (by rw [h1]; exact ⟨hn, ht⟩)
  · exact hb e h1

theorem buildMITREExtensions_typed {inst mitre : Obj} (h : buildMITREExtensions inst = .ok mitre) :
    NoDupKeys mitre ∧ hasProp mitre "extension_type" = true := by
  refine ⟨cleanObject_nodup _ _ (by simp [NoDupKeys, keys]) h, ?_⟩
  rw [buildMITREExtensions_eq h]
  simp [hasProp]

theorem ScoBlock.typed {S : Schema} {inst blk : Obj} (hB : ScoBlock S inst blk) :
    NoDupKeys blk ∧ hasProp blk "extension_type" = true :=
  ⟨hB.nodup, hasProp_of_getProp_ne _ _ (by rw [hB.extType]; exact fun e => JValue.noConfusion e)⟩

theorem newsco_typed :
    NoDupKeys [("extension_type", JValue.str "new-sco")] ∧
      hasProp [("extension_type", JValue.str "new-sco")] "extension_type" = true :=
  ⟨by simp [NoDupKeys, keys], by simp [hasProp]⟩

theorem buildStixObject_typed {S : Schema} {inst o : Obj}
    (h : buildStixObject S inst = .ok o) : BlocksTyped S (extensionsOf o) := by
  simp only [buildStixObject, bind_eq_ok, pure_eq_ok] at h
  obtain ⟨t, _, octi, _, rfl⟩ := h
  simp only [extensionsOf, getProp, spread]
  simpa using blocksTyped_single S (.obj octi)

theorem buildStixDomain_typed {S : Schema} {inst o : Obj}
    (h : buildStixDomain S inst = .ok o) : BlocksTyped S (extensionsOf o) := by
  simp only [buildStixDomain, bind_eq_ok, pure_eq_ok] at h
  obtain ⟨base, hb, _, _, _, _, _, _, rfl⟩ := h
  rw [extensionsOf_assign]
  simpa [lookupLast] using buildStixObject_typed hb

theorem buildStixRelationship_typed {S : Schema} {inst o : Obj}
    (h : buildStixRelationship S inst = .ok o) : BlocksTyped S (extensionsOf o) :=
  buildStixDomain_typed h

theorem buildStixMarkings_typed {S : Schema} {inst o : Obj}
    (h : buildStixMarkings S inst = .ok o) : BlocksTyped S (extensionsOf o) := by
  simp only [buildStixMarkings, bind_eq_ok, pure_eq_ok] at h
  obtain ⟨base, hb, _, _, _, _, rfl⟩ := h
  rw [extensionsOf_assign]
  simpa [lookupLast] using buildStixObject_typed hb

theorem buildStixCyberObservable_typed {S : Schema} {inst o : Obj}
    (h : buildStixCyberObservable S inst = .ok o) : BlocksTyped S (extensionsOf o) := by
  obtain ⟨blk, _, hB⟩ := buildStixCyberObservable_sco h
  simp only [buildStixCyberObservable, bind_eq_ok, pure_eq_ok] at h
  obtain ⟨base, hb, _, _, _, _, _, _, _, _, sco, hsco, rfl⟩ := h
  have hn : NoDupKeys sco := cleanObject_nodup _ _ (by simp [NoDupKeys, keys]) hsco
  have ht : hasProp sco "extension_type" = true := by
    rw [cleanObject_hasProp _ (by simp [NoDupKeys, keys]) sco hsco]
    simp [hasProp, getProp, isEmptyField]
  rw [extensionsOf_assign]
  simpa [lookupLast, spread] using blocksTyped_pair S _ S.STIX_EXT_OCTI_SCO hn ht

theorem convertIdentityToStix_typed {S : Schema} {inst : Obj} {t : String} :
    ∀ o, convertIdentityToStix S inst t = .ok o → BlocksTyped S (extensionsOf o) := by
  simp only [convertIdentityToStix]
  refine ite_post (fun _ => throw_bind_post) (fun _ => ?_)
  repeat (refine bind_post ?_; intro _ _)
  intro o h
  rw [pure_eq_ok] at h
  subst h
  rw [extensionsOf_assign]
  simpa [lookupLast, spread] using blocksTyped_single S _

theorem convertLocationToStix_typed {S : Schema} {inst : Obj} {t : String} :
    ∀ o, convertLocationToStix S inst t = .ok o → BlocksTyped S (extensionsOf o) := by
  simp only [convertLocationToStix]
  refine ite_post (fun _ => throw_bind_post) (fun _ => ?_)
  repeat (refine bind_post ?_; intro _ _)
  intro o h
  rw [pure_eq_ok] at h
  subst h
  rw [extensionsOf_assign]
  simpa [lookupLast] using buildStixDomain_typed (by assumption)

theorem convertReportToStix_typed {S : Schema} {inst : Obj} {t : String} :
    ∀ o, convertReportToStix S inst t = .ok o → BlocksTyped S (extensionsOf o) := by
  simp only [convertReportToStix]
  repeat (refine bind_post ?_; intro _ _)
  intro o h
  rw [pure_eq_ok] at h
  subst h
  rw [extensionsOf_assign]
  simpa [lookupLast] using buildStixDomain_typed (by assumption)

theorem convertMalwareToStix_typed {S : Schema} {inst : Obj} {t : String} :
    ∀ o, convertMalwareToStix S inst t = .ok o → BlocksTyped S (extensionsOf o) := by
  simp only [convertMalwareToStix]
  repeat (refine bind_post ?_; intro _ _)
  intro o h
  rw [pure_eq_ok] at h
  subst h
  rw [extensionsOf_assign]
  simpa [lookupLast] using buildStixDomain_typed (by assumption)

theorem convertInfrastructureToStix_typed {S : Schema} {inst : Obj} {t : String} :
    ∀ o, convertInfrastructureToStix S inst t = .ok o → BlocksTyped S (extensionsOf o) := by
  simp only [convertInfrastructureToStix]
  repeat (refine bind_post ?_; intro _ _)
  intro o h
  rw [pure_eq_ok] at h
  subst h
  rw [extensionsOf_assign]
  simpa [lookupLast] using buildStixDomain_typed (by assumption)

theorem convertAttackPatternToStix_typed {S : Schema} {inst : Obj} {t : String} :
    ∀ o, convertAttackPatternToStix S inst t = .ok o → BlocksTyped S (extensionsOf o) := by
  simp only [convertAttackPatternToStix]
  repeat (refine bind_post ?_; intro _ _)
  intro o h
  rw [pure_eq_ok] at h
  subst h
  rw [extensionsOf_assign]
  have hm := buildMITREExtensions_typed (by assumption)
  simpa [lookupLast, spread] using blocksTyped_pair S _ S.STIX_EXT_MITRE hm.1 hm.2

theorem convertCampaignToStix_typed {S : Schema} {inst : Obj} {t : String} :
    ∀ o, convertCampaignToStix S inst t = .ok o → BlocksTyped S (extensionsOf o) := by
  simp only [convertCampaignToStix]
  repeat (refine bind_post ?_; intro _ _)
  intro o h
  rw [pure_eq_ok] at h
  subst h
  rw [extensionsOf_assign]
  simpa [lookupLast] using buildStixDomain_typed (by assumption)

theorem convertThreatActorToStix_typed {S : Schema} {inst : Obj} {t : String} :
    ∀ o, convertThreatActorToStix S inst t = .ok o → BlocksTyped S (extensionsOf o) := by
  simp only [convertThreatActorToStix]
  repeat (refine bind_post ?_; intro _ _)
  intro o h
  rw [pure_eq_ok] at h
  subst h
  rw [extensionsOf_assign]
  simpa [lookupLast] using buildStixDomain_typed (by assumption)

theorem convertNoteToStix_typed {S : Schema} {inst : Obj} {t : String} :
    ∀ o, convertNoteToStix S inst t = .ok o → BlocksTyped S (extensionsOf o) := by
  simp only [convertNoteToStix]
  repeat (refine bind_post ?_; intro _ _)
  intro o h
  rw [pure_eq_ok] at h
  subst h
  rw [extensionsOf_assign]
  simpa [lookupLast] using buildStixDomain_typed (by assumption)

theorem convertOpinionToStix_typed {S : Schema} {inst : Obj} {t : String} :
    ∀ o, convertOpinionToStix S inst t = .ok o → BlocksTyped S (extensionsOf o) := by
  simp only [convertOpinionToStix]
  repeat (refine bind_post ?_; intro _ _)
  intro o h
  rw [pure_eq_ok] at h
  subst h
  rw [extensionsOf_assign]
  simpa [lookupLast] using buildStixDomain_typed (by assumption)

theorem convertObservedDateToStix_typed {S : Schema} {inst : Obj} {t : String} :
    ∀ o, convertObservedDateToStix S inst t = .ok o → BlocksTyped S (extensionsOf o) := by
  simp only [convertObservedDateToStix]
  repeat (refine bind_post ?_; intro _ _)
  intro o h
  rw [pure_eq_ok] at h
  subst h
  rw [extensionsOf_assign]
  simpa [lookupLast] using buildStixDomain_typed (by assumption)

theorem convertCourseOfActionToStix_typed {S : Schema} {inst : Obj} {t : String} :
    ∀ o, convertCourseOfActionToStix S inst t = .ok o → BlocksTyped S (extensionsOf o) := by
  simp only [convertCourseOfActionToStix]
  repeat (refine bind_post ?_; intro _ _)
  intro o h
  rw [pure_eq_ok] at h
  subst h
  rw [extensionsOf_assign]
  have hm := buildMITREExtensions_typed (by assumption)
  simpa [lookupLast, spread] using blocksTyped_pair S _ S.STIX_EXT_MITRE hm.1 hm.2

theorem convertIncidentToStix_typed {S : Schema} {inst : Obj} {t : String} :
    ∀ o, convertIncidentToStix S inst t = .ok o → BlocksTyped S (extensionsOf o) := by
  simp only [convertIncidentToStix]
  repeat (refine bind_post ?_; intro _ _)
  intro o h
  rw [pure_eq_ok] at h
  subst h
  rw [extensionsOf_assign]
  simpa [lookupLast, spread] using blocksTyped_single S _

theorem convertIndicatorToStix_typed {S : Schema} {inst : Obj} {t : String} :
    ∀ o, convertIndicatorToStix S inst t = .ok o → BlocksTyped S (extensionsOf o) := by
  simp only [convertIndicatorToStix]
  repeat (refine bind_post ?_; intro _ _)
  intro o h
  rw [pure_eq_ok] at h
  subst h
  rw [extensionsOf_assign]
  have hm := buildMITREExtensions_typed (by assumption)
  simpa [lookupLast, spread] using blocksTyped_pair S _ S.STIX_EXT_MITRE hm.1 hm.2

theorem convertIntrusionSetToStix_typed {S : Schema} {inst : Obj} {t : String} :
    ∀ o, convertIntrusionSetToStix S inst t = .ok o → BlocksTyped S (extensionsOf o) := by
  simp only [convertIntrusionSetToStix]
  repeat (refine bind_post ?_; intro _ _)
  intro o h
  rw [pure_eq_ok] at h
  subst h
  rw [extensionsOf_assign]
  simpa [lookupLast] using buildStixDomain_typed (by assumption)

theorem convertToolToStix_typed {S : Schema} {inst : Obj} {t : String} :
    ∀ o, convertToolToStix S inst t = .ok o → BlocksTyped S (extensionsOf o) := by
  simp only [convertToolToStix]
  repeat (refine bind_post ?_; intro _ _)
  intro o h
  rw [pure_eq_ok] at h
  subst h
  rw [extensionsOf_assign]
  simpa [lookupLast] using buildStixDomain_typed (by assumption)

theorem convertVulnerabilityToStix_typed {S : Schema} {inst : Obj} {t : String} :
    ∀ o, convertVulnerabilityToStix S inst t = .ok o → BlocksTyped S (extensionsOf o) := by
  simp only [convertVulnerabilityToStix]
  repeat (refine bind_post ?_; intro _ _)
  intro o h
  rw [pure_eq_ok] at h
  subst h
  rw [extensionsOf_assign]
  simpa [lookupLast, spread] using blocksTyped_single S _

theorem convertMarkingToStix_typed {S : Schema} {inst : Obj} :
    ∀ o, convertMarkingToStix S inst = .ok o → BlocksTyped S (extensionsOf o) := by
  simp only [convertMarkingToStix]
  repeat (refine bind_post ?_; intro _ _)
  intro o h
  rw [pure_eq_ok] at h
  subst h
  rw [extensionsOf_assign]
  simpa [lookupLast, spread] using blocksTyped_single S _

theorem convertLabelToStix_typed {S : Schema} {inst : Obj} :
    ∀ o, convertLabelToStix S inst = .ok o → BlocksTyped S (extensionsOf o) := by
  simp only [convertLabelToStix]
  repeat (refine bind_post ?_; intro _ _)
  intro o h
  rw [pure_eq_ok] at h
  subst h
  rw [extensionsOf_assign]
  simpa [lookupLast, spread] using blocksTyped_single S _

theorem convertKillChainPhaseToStix_typed {S : Schema} {inst : Obj} :
    ∀ o, convertKillChainPhaseToStix S inst = .ok o → BlocksTyped S (extensionsOf o) := by
  simp only [convertKillChainPhaseToStix]
  repeat (refine bind_post ?_; intro _ _)
  intro o h
  rw [pure_eq_ok] at h
  subst h
  rw [extensionsOf_assign]
  simpa [lookupLast, spread] using blocksTyped_single S _

theorem convertExternalReferenceToStix_typed {S : Schema} {inst : Obj} :
    ∀ o, convertExternalReferenceToStix S inst = .ok o → BlocksTyped S (extensionsOf o) := by
  simp only [convertExternalReferenceToStix]
  repeat (refine bind_post ?_; intro _ _)
  intro o h
  rw [pure_eq_ok] at h
  subst h
  rw [extensionsOf_assign]
  simpa [lookupLast, spread] using blocksTyped_single S _

theorem convertWindowsRegistryValueToStix_typed {S : Schema} {inst : Obj} :
    ∀ o, convertWindowsRegistryValueToStix S inst = .ok o → BlocksTyped S (extensionsOf o) := by
  simp only [convertWindowsRegistryValueToStix]
  repeat (refine bind_post ?_; intro _ _)
  intro o h
  rw [pure_eq_ok] at h
  subst h
  rw [extensionsOf_assign]
  simpa [lookupLast, spread] using blocksTyped_pair S _ S.STIX_EXT_OCTI_SCO newsco_typed.1 newsco_typed.2

theorem convertEmailMimePartToStix_typed {S : Schema} {inst : Obj} :
    ∀ o, convertEmailMimePartToStix S inst = .ok o → BlocksTyped S (extensionsOf o) := by
  simp only [convertEmailMimePartToStix]
  repeat (refine bind_post ?_; intro _ _)
  intro o h
  rw [pure_eq_ok] at h
  subst h
  rw [extensionsOf_assign]
  simpa [lookupLast, spread] using blocksTyped_pair S _ S.STIX_EXT_OCTI_SCO newsco_typed.1 newsco_typed.2

theorem convertArtifactToStix_typed {S : Schema} {inst : Obj} {t : String} :
    ∀ o, convertArtifactToStix S inst t = .ok o → BlocksTyped S (extensionsOf o) := by
  simp only [convertArtifactToStix]
  repeat (refine bind_post ?_; intro _ _)
  intro o h
  rw [pure_eq_ok] at h
  subst h
  rw [extensionsOf_assign]
  have hb := buildStixCyberObservable_typed (by assumption)
  obtain ⟨blk, hg, hB⟩ := buildStixCyberObservable_sco (by assumption)
  rename_i sco hsco
  simp only [hg, spread] at hsco
  have hs := (hB.cleanObject_additional hsco).typed
  simpa [lookupLast, spread] using blocksTyped_assign hb S.STIX_EXT_OCTI_SCO hs.1 hs.2

theorem convertAutonomousSystemToStix_typed {S : Schema} {inst : Obj} {t : String} :
    ∀ o, convertAutonomousSystemToStix S inst t = .ok o → BlocksTyped S (extensionsOf o) := by
  simp only [convertAutonomousSystemToStix]
  repeat (refine bind_post ?_; intro _ _)
  intro o h
  rw [pure_eq_ok] at h
  subst h
  rw [extensionsOf_assign]
  simpa [lookupLast] using buildStixCyberObservable_typed (by assumption)

theorem convertCryptocurrencyWalletToStix_typed {S : Schema} {inst : Obj} {t : String} :
    ∀ o, convertCryptocurrencyWalletToStix S inst t = .ok o → BlocksTyped S (extensionsOf o) := by
  simp only [convertCryptocurrencyWalletToStix]
  repeat (refine bind_post ?_; intro _ _)
  intro o h
  rw [pure_eq_ok] at h
  subst h
  rw [extensionsOf_assign]
  have hb := buildStixCyberObservable_typed (by assumption)
  simpa [lookupLast, spread] using blocksTyped_assign hb S.STIX_EXT_OCTI_SCO newsco_typed.1 newsco_typed.2

theorem convertCryptographicKeyToStix_typed {S : Schema} {inst : Obj} {t : String} :
    ∀ o, convertCryptographicKeyToStix S inst t = .ok o → BlocksTyped S (extensionsOf o) := by
  simp only [convertCryptographicKeyToStix]
  repeat (refine bind_post ?_; intro _ _)
  intro o h
  rw [pure_eq_ok] at h
  subst h
  rw [extensionsOf_assign]
  have hb := buildStixCyberObservable_typed (by assumption)
  simpa [lookupLast, spread] using blocksTyped_assign hb S.STIX_EXT_OCTI_SCO newsco_typed.1 newsco_typed.2

theorem convertDirectoryToStix_typed {S : Schema} {inst : Obj} {t : String} :
    ∀ o, convertDirectoryToStix S inst t = .ok o → BlocksTyped S (extensionsOf o) := by
  simp only [convertDirectoryToStix]
  repeat (refine bind_post ?_; intro _ _)
  intro o h
  rw [pure_eq_ok] at h
  subst h
  rw [extensionsOf_assign]
  simpa [lookupLast] using buildStixCyberObservable_typed (by assumption)

theorem convertDomainNameToStix_typed {S : Schema} {inst : Obj} {t : String} :
    ∀ o, convertDomainNameToStix S inst t = .ok o → BlocksTyped S (extensionsOf o) := by
  simp only [convertDomainNameToStix]
  repeat (refine bind_post ?_; intro _ _)
  intro o h
  rw [pure_eq_ok] at h
  subst h
  rw [extensionsOf_assign]
  simpa [lookupLast] using buildStixCyberObservable_typed (by assumption)

theorem convertEmailAddressToStix_typed {S : Schema} {inst : Obj} {t : String} :
    ∀ o, convertEmailAddressToStix S inst t = .ok o → BlocksTyped S (extensionsOf o) := by
  simp only [convertEmailAddressToStix]
  repeat (refine bind_post ?_; intro _ _)
  intro o h
  rw [pure_eq_ok] at h
  subst h
  rw [extensionsOf_assign]
  simpa [lookupLast] using buildStixCyberObservable_typed (by assumption)

theorem convertEmailMessageToStix_typed {S : Schema} {inst : Obj} {t : String} :
    ∀ o, convertEmailMessageToStix S inst t = .ok o → BlocksTyped S (extensionsOf o) := by
  simp only [convertEmailMessageToStix]
  repeat (refine bind_post ?_; intro _ _)
  intro o h
  rw [pure_eq_ok] at h
  subst h
  rw [extensionsOf_assign]
  simpa [lookupLast] using buildStixCyberObservable_typed (by assumption)

theorem convertFileToStix_typed {S : Schema} {inst : Obj} {t : String} :
    ∀ o, convertFileToStix S inst t = .ok o → BlocksTyped S (extensionsOf o) := by
  simp only [convertFileToStix]
  repeat (refine bind_post ?_; intro _ _)
  intro o h
  rw [pure_eq_ok] at h
  subst h
  rw [extensionsOf_assign]
  have hb := buildStixCyberObservable_typed (by assumption)
  obtain ⟨blk, hg, hB⟩ := buildStixCyberObservable_sco (by assumption)
  rename_i sco hsco
  simp only [hg, spread] at hsco
  have hs := (hB.cleanObject_additional hsco).typed
  simpa [lookupLast, spread] using blocksTyped_assign hb S.STIX_EXT_OCTI_SCO hs.1 hs.2

theorem convertHostnameToStix_typed {S : Schema} {inst : Obj} {t : String} :
    ∀ o, convertHostnameToStix S inst t = .ok o → BlocksTyped S (extensionsOf o) := by
  simp only [convertHostnameToStix]
  repeat (refine bind_post ?_; intro _ _)
  intro o h
  rw [pure_eq_ok] at h
  subst h
  rw [extensionsOf_assign]
  have hb := buildStixCyberObservable_typed (by assumption)
  simpa [lookupLast, spread] using blocksTyped_assign hb S.STIX_EXT_OCTI_SCO newsco_typed.1 newsco_typed.2

theorem convertIPv4AddressToStix_typed {S : Schema} {inst : Obj} {t : String} :
    ∀ o, convertIPv4AddressToStix S inst t = .ok o → BlocksTyped S (extensionsOf o) := by
  simp only [convertIPv4AddressToStix]
  repeat (refine bind_post ?_; intro _ _)
  intro o h
  rw [pure_eq_ok] at h
  subst h
  rw [extensionsOf_assign]
  simpa [lookupLast] using buildStixCyberObservable_typed (by assumption)

theorem convertIPv6AddressToStix_typed {S : Schema} {inst : Obj} {t : String} :
    ∀ o, convertIPv6AddressToStix S inst t = .ok o → BlocksTyped S (extensionsOf o) := by
  simp only [convertIPv6AddressToStix]
  repeat (refine bind_post ?_; intro _ _)
  intro o h
  rw [pure_eq_ok] at h
  subst h
  rw [extensionsOf_assign]
  simpa [lookupLast] using buildStixCyberObservable_typed (by assumption)

theorem convertMacAddressToStix_typed {S : Schema} {inst : Obj} {t : String} :
    ∀ o, convertMacAddressToStix S inst t = .ok o → BlocksTyped S (extensionsOf o) := by
  simp only [convertMacAddressToStix]
  repeat (refine bind_post ?_; intro _ _)
  intro o h
  rw [pure_eq_ok] at h
  subst h
  rw [extensionsOf_assign]
  simpa [lookupLast] using buildStixCyberObservable_typed (by assumption)

theorem convertMutexToStix_typed {S : Schema} {inst : Obj} {t : String} :
    ∀ o, convertMutexToStix S inst t = .ok o → BlocksTyped S (extensionsOf o) := by
  simp only [convertMutexToStix]
  repeat (refine bind_post ?_; intro _ _)
  intro o h
  rw [pure_eq_ok] at h
  subst h
  rw [extensionsOf_assign]
  simpa [lookupLast] using buildStixCyberObservable_typed (by assumption)

theorem convertNetworkTrafficToStix_typed {S : Schema} {inst : Obj} {t : String} :
    ∀ o, convertNetworkTrafficToStix S inst t = .ok o → BlocksTyped S (extensionsOf o) := by
  simp only [convertNetworkTrafficToStix]
  repeat (refine bind_post ?_; intro _ _)
  intro o h
  rw [pure_eq_ok] at h
  subst h
  rw [extensionsOf_assign]
  simpa [lookupLast] using buildStixCyberObservable_typed (by assumption)

theorem convertProcessToStix_typed {S : Schema} {inst : Obj} {t : String} :
    ∀ o, convertProcessToStix S inst t = .ok o → BlocksTyped S (extensionsOf o) := by
  simp only [convertProcessToStix]
  repeat (refine bind_post ?_; intro _ _)
  intro o h
  rw [pure_eq_ok] at h
  subst h
  rw [extensionsOf_assign]
  simpa [lookupLast] using buildStixCyberObservable_typed (by assumption)

theorem convertSoftwareToStix_typed {S : Schema} {inst : Obj} {t : String} :
    ∀ o, convertSoftwareToStix S inst t = .ok o → BlocksTyped S (extensionsOf o) := by
  simp only [convertSoftwareToStix]
  repeat (refine bind_post ?_; intro _ _)
  intro o h
  rw [pure_eq_ok] at h
  subst h
  rw [extensionsOf_assign]
  simpa [lookupLast] using buildStixCyberObservable_typed (by assumption)

theorem convertTextToStix_typed {S : Schema} {inst : Obj} {t : String} :
    ∀ o, convertTextToStix S inst t = .ok o → BlocksTyped S (extensionsOf o) := by
  simp only [convertTextToStix]
  repeat (refine bind_post ?_; intro _ _)
  intro o h
  rw [pure_eq_ok] at h
  subst h
  rw [extensionsOf_assign]
  have hb := buildStixCyberObservable_typed (by assumption)
  simpa [lookupLast, spread] using blocksTyped_assign hb S.STIX_EXT_OCTI_SCO newsco_typed.1 newsco_typed.2

theorem convertURLToStix_typed {S : Schema} {inst : Obj} {t : String} :
    ∀ o, convertURLToStix S inst t = .ok o → BlocksTyped S (extensionsOf o) := by
  simp only [convertURLToStix]
  repeat (refine bind_post ?_; intro _ _)
  intro o h
  rw [pure_eq_ok] at h
  subst h
  rw [extensionsOf_assign]
  simpa [lookupLast] using buildStixCyberObservable_typed (by assumption)

theorem convertUserAccountToStix_typed {S : Schema} {inst : Obj} {t : String} :
    ∀ o, convertUserAccountToStix S inst t = .ok o → BlocksTyped S (extensionsOf o) := by
  simp only [convertUserAccountToStix]
  repeat (refine bind_post ?_; intro _ _)
  intro o h
  rw [pure_eq_ok] at h
  subst h
  rw [extensionsOf_assign]
  simpa [lookupLast] using buildStixCyberObservable_typed (by assumption)

theorem convertWindowsRegistryKeyToStix_typed {S : Schema} {inst : Obj} {t : String} :
    ∀ o, convertWindowsRegistryKeyToStix S inst t = .ok o → BlocksTyped S (extensionsOf o) := by
  simp only [convertWindowsRegistryKeyToStix]
  repeat (refine bind_post ?_; intro _ _)
  intro o h
  rw [pure_eq_ok] at h
  subst h
  rw [extensionsOf_assign]
  simpa [lookupLast] using buildStixCyberObservable_typed (by assumption)

theorem convertX509CertificateToStix_typed {S : Schema} {inst : Obj} {t : String} :
    ∀ o, convertX509CertificateToStix S inst t = .ok o → BlocksTyped S (extensionsOf o) := by
  simp only [convertX509CertificateToStix]
  repeat (refine bind_post ?_; intro _ _)
  intro o h
  rw [pure_eq_ok] at h
  subst h
  rw [extensionsOf_assign]
  simpa [lookupLast] using buildStixCyberObservable_typed (by assumption)

theorem convertRelationToStix_typed {S : Schema} {inst : Obj} :
    ∀ o, convertRelationToStix S inst = .ok o → BlocksTyped S (extensionsOf o) := by
  simp only [convertRelationToStix]
  repeat (refine bind_post ?_; intro _ _)
  intro o h
  rw [pure_eq_ok] at h
  subst h
  rw [extensionsOf_assign]
  simpa [lookupLast, spread] using blocksTyped_single S _

theorem convertSightingToStix_typed {S : Schema} {inst : Obj} :
    ∀ o, convertSightingToStix S inst = .ok o → BlocksTyped S (extensionsOf o) := by
  simp only [convertSightingToStix]
  repeat (refine bind_post ?_; intro _ _)
  intro o h
  rw [pure_eq_ok] at h
  subst h
  rw [extensionsOf_assign]
  simpa [lookupLast, spread] using blocksTyped_single S _

theorem convertRelationshipKind_typed {S : Schema} {inst : Obj} {t : String} :
    ∀ o, convertRelationshipKind S inst t = .ok o → BlocksTyped S (extensionsOf o) := by
  unfold convertRelationshipKind
  refine ite_post (fun _ => convertRelationToStix_typed) (fun _ => ?_)
  refine ite_post (fun _ => convertRelationToStix_typed) (fun _ => ?_)
  refine ite_post (fun _ => convertSightingToStix_typed) (fun _ => ?_)
  refine ite_post (fun _ => convertRelationToStix_typed) (fun _ => ?_)
  exact fun b h => absurd h (throw_ne_ok _ _)

theorem convertDomainKind_typed {S : Schema} {inst : Obj} {t : String} :
    ∀ o, convertDomainKind S inst t = .ok o → BlocksTyped S (extensionsOf o) := by
  unfold convertDomainKind
  refine ite_post (fun _ => convertIdentityToStix_typed) (fun _ => ?_)
  refine ite_post (fun _ => convertLocationToStix_typed) (fun _ => ?_)
  refine ite_post (fun _ => convertReportToStix_typed) (fun _ => ?_)
  refine ite_post (fun _ => convertMalwareToStix_typed) (fun _ => ?_)
  refine ite_post (fun _ => convertInfrastructureToStix_typed) (fun _ => ?_)
  refine ite_post (fun _ => convertAttackPatternToStix_typed) (fun _ => ?_)
  refine ite_post (fun _ => convertCampaignToStix_typed) (fun _ => ?_)
  refine ite_post (fun _ => convertThreatActorToStix_typed) (fun _ => ?_)
  refine ite_post (fun _ => convertNoteToStix_typed) (fun _ => ?_)
  refine ite_post (fun _ => convertOpinionToStix_typed) (fun _ => ?_)
  refine ite_post (fun _ => convertObservedDateToStix_typed) (fun _ => ?_)
  refine ite_post (fun _ => convertCourseOfActionToStix_typed) (fun _ => ?_)
  refine ite_post (fun _ => convertIncidentToStix_typed) (fun _ => ?_)
  refine ite_post (fun _ => convertIndicatorToStix_typed) (fun _ => ?_)
  refine ite_post (fun _ => convertIntrusionSetToStix_typed) (fun _ => ?_)
  refine ite_post (fun _ => convertToolToStix_typed) (fun _ => ?_)
  refine ite_post (fun _ => convertVulnerabilityToStix_typed) (fun _ => ?_)
  exact fun b h => absurd h (throw_ne_ok _ _)

theorem convertMetaKind_typed {S : Schema} {inst : Obj} {t : String} :
    ∀ o, convertMetaKind S inst t = .ok o → BlocksTyped S (extensionsOf o) := by
  unfold convertMetaKind
  refine ite_post (fun _ => convertMarkingToStix_typed) (fun _ => ?_)
  refine ite_post (fun _ => convertLabelToStix_typed) (fun _ => ?_)
  refine ite_post (fun _ => convertKillChainPhaseToStix_typed) (fun _ => ?_)
  refine ite_post (fun _ => convertExternalReferenceToStix_typed) (fun _ => ?_)
  exact fun b h => absurd h (throw_ne_ok _ _)

theorem convertObservableKind_typed {S : Schema} {inst : Obj} {t : String} :
    ∀ o, convertObservableKind S inst t = .ok o → BlocksTyped S (extensionsOf o) := by
  unfold convertObservableKind
  refine ite_post (fun _ => convertWindowsRegistryValueToStix_typed) (fun _ => ?_)
  refine ite_post (fun _ => convertEmailMimePartToStix_typed) (fun _ => ?_)
  refine ite_post (fun _ => convertArtifactToStix_typed) (fun _ => ?_)
  refine ite_post (fun _ => convertAutonomousSystemToStix_typed) (fun _ => ?_)
  refine ite_post (fun _ => convertCryptocurrencyWalletToStix_typed) (fun _ => ?_)
  refine ite_post (fun _ => convertCryptographicKeyToStix_typed) (fun _ => ?_)
  refine ite_post (fun _ => convertDirectoryToStix_typed) (fun _ => ?_)
  refine ite_post (fun _ => convertDomainNameToStix_typed) (fun _ => ?_)
  refine ite_post (fun _ => convertEmailAddressToStix_typed) (fun _ => ?_)
  refine ite_post (fun _ => convertEmailMessageToStix_typed) (fun _ => ?_)
  refine ite_post (fun _ => convertFileToStix_typed) (fun _ => ?_)
  refine ite_post (fun _ => convertHostnameToStix_typed) (fun _ => ?_)
  refine ite_post (fun _ => convertIPv4AddressToStix_typed) (fun _ => ?_)
  refine ite_post (fun _ => convertIPv6AddressToStix_typed) (fun _ => ?_)
  refine ite_post (fun _ => convertMacAddressToStix_typed) (fun _ => ?_)
  refine ite_post (fun _ => convertMutexToStix_typed) (fun _ => ?_)
  refine ite_post (fun _ => convertNetworkTrafficToStix_typed) (fun _ => ?_)
  refine ite_post (fun _ => convertProcessToStix_typed) (fun _ => ?_)
  refine ite_post (fun _ => convertSoftwareToStix_typed) (fun _ => ?_)
  refine ite_post (fun _ => convertTextToStix_typed) (fun _ => ?_)
  refine ite_post (fun _ => convertURLToStix_typed) (fun _ => ?_)
  refine ite_post (fun _ => convertUserAccountToStix_typed) (fun _ => ?_)
  refine ite_post (fun _ => convertWindowsRegistryKeyToStix_typed) (fun _ => ?_)
  refine ite_post (fun _ => convertX509CertificateToStix_typed) (fun _ => ?_)
  exact fun b h => absurd h (throw_ne_ok _ _)

theorem convertToStix_typed {S : Schema} {inst : Obj} :
    ∀ o, convertToStix S inst = .ok o → BlocksTyped S (extensionsOf o) := by
  unfold convertToStix
  refine bind_post ?_
  intro t _
  refine ite_post (fun _ b h => absurd h (throw_ne_ok _ _)) (fun _ => ?_)
  refine ite_post (fun _ => convertRelationshipKind_typed) (fun _ => ?_)
  refine ite_post (fun _ => convertDomainKind_typed) (fun _ => ?_)
  refine ite_post (fun _ => convertMetaKind_typed) (fun _ => ?_)
  refine ite_post (fun _ => convertObservableKind_typed) (fun _ => ?_)
  exact fun b h => absurd h (throw_ne_ok _ _)

theorem exists_other_key (b : Obj) (hn : NoDupKeys b) (k : String) (hk : hasProp b k = true)
    (hl : b.length ≠ 1) : ∃ k', k' ≠ k ∧ hasProp b k' = true := by
  match b, hn, hk, hl with
  | [], _, hk, _ => simp [hasProp] at hk
  | [_], _, _, hl => simp at hl
  | (k1, v1) :: (k2, v2) :: rest, hn, _, _ =>
    simp only [NoDupKeys, keys, List.map_cons, List.nodup_cons, List.mem_cons, not_or] at hn
    by_cases e : k1 = k
    · refine ⟨k2, fun e2 => hn.1.1 (e.trans e2.symm), ?_⟩
      by_cases e3 : k1 = k2 <;> simp [hasProp, e3]
    · exact ⟨k1, e, by simp [hasProp]⟩

theorem convertStoreToStix_allNonEmpty {S : Schema} {inst out : Obj} (hS : S.ExtKeysDistinct)
    (h : convertStoreToStix S inst = .ok out) : AllNonEmpty out := by
  obtain ⟨o, exts, blk, hp, hc, hx, hE, hg, hB, _, hout, hkeep⟩ := convertStoreToStix_shape hS h
  intro kv hkv
  rcases cleanObject_mem o out hc kv hkv with ⟨_, _, hne⟩ | ⟨hk, v, hv, _, _⟩
  · exact hne
  · have hnd := cleanObject_nodup o out hp.env.nodup hc
    have h1 : getProp out kv.1 = kv.2 := getProp_eq_of_mem out hnd kv.1 kv.2 hkv
    rw [hk, hout] at h1
    rw [← h1]
    cases hf : exts.filter (fun e => entriesLength e.2 != 1) with
    | nil => rw [hf] at hkeep; simp [getProp] at hkeep
    | cons _ _ => rfl

/-! ## C25 -/

/-- C25: on every successful conversion, every top-level field present in the
output has a non-empty value, and every sub-block present in the `extensions`
mapping of the output is an object that holds its `extension_type` and at least
one field besides it. -/
theorem C25_present_fields_nonEmpty (S : Schema) (hS : S.ExtKeysDistinct) (inst out : Obj)
    (h : convertStoreToStix S inst = .ok out) :
    (∀ kv ∈ out, isEmptyField kv.2 = false) ∧
    (∀ e ∈ extensionsOf out, ∃ b, e.2 = .obj b ∧ hasProp b "extension_type" = true ∧
      ∃ k, k ≠ "extension_type" ∧ hasProp b k = true) := by
  refine ⟨convertStoreToStix_allNonEmpty hS h, ?_⟩
  obtain ⟨_, hty, o, ho, hc⟩ := convertStoreToStix_ok h
  obtain ⟨exts, blk, hx, hE, hg, hB, hout, _⟩ := convertStoreToStix_exts hS hty ho hc
  have hT := convertToStix_typed o ho
  rw [hx] at hT
  intro e he
  rw [hout, List.mem_filter] at he
  obtain ⟨hmem, hlen⟩ := he
  obtain ⟨b, hb, _⟩ := hE.blocks e hmem
  have hfacts : NoDupKeys b ∧ hasProp b "extension_type" = true := by
    rcases hT e hmem with h1 | h1
    · have h2 : getProp exts e.1 = e.2 := getProp_eq_of_mem exts hE.nodup e.1 e.2 hmem
      rw [h1, hg, hb] at h2
      injection h2 with h2
      subst h2
      refine ⟨hB.nodup, hasProp_of_getProp_ne _ _ ?_⟩
      rcases hB.extType with e' | e' <;> rw [e'] <;> exact fun e => JValue.noConfusion e
    · rw [hb] at h1
      exact h1
  rw [hb] at hlen
  simp only [entriesLength, bne_iff_ne, ne_eq] at hlen
  exact ⟨b, hb, hfacts.2, exists_other_key b hfacts.1 "extension_type" hfacts.2 hlen⟩

/-- C25 on the sample attack pattern, whose output holds the platform block and
the MITRE block. -/
theorem C25_present_fields_nonEmpty_witness :
    opencti.ExtKeysDistinct ∧
    ∃ out, convertStoreToStix opencti sampleAttackPattern = .ok out ∧
      (∀ kv ∈ out, isEmptyField kv.2 = false) ∧
      (∀ e ∈ extensionsOf out, ∃ b, e.2 = .obj b ∧ hasProp b "extension_type" = true ∧
        ∃ k, k ≠ "extension_type" ∧ hasProp b k = true) :=
  ⟨opencti_extKeysDistinct, _, rfl,
    C25_present_fields_nonEmpty opencti opencti_extKeysDistinct sampleAttackPattern _ rfl⟩

/-! ## The converter writes to no object of the instance -/

theorem Run.bind_apply {α β : Type} (x : Run α) (f : α → Run β) (j : Journal) :
    (x >>= f) j = match x j with
      | (.ok a, j') => f a j'
      | (.error e, j') => (.error e, j') := rfl

theorem Run.pure_apply {α : Type} (a : α) (j : Journal) : (pure a : Run α) j = (.ok a, j) := rfl

theorem quiet_pure {α : Type} {Q : α → Prop} (a : α) (h : Q a) : Quiet (pure a : Run α) Q := by
  intro j
  refine ⟨rfl, fun b hb => ?_⟩
  rw [Run.pure_apply] at hb
  injection hb with hb
  exact hb ▸ h

theorem quiet_fail {α : Type} {Q : α → Prop} (e : Err) : Quiet (Run.fail e : Run α) Q := by
  intro j
  exact ⟨rfl, fun b hb => by simp [Run.fail] at hb⟩

theorem quiet_lift {α : Type} (x : Except Err α) : Quiet (Run.lift x) (fun _ => True) := by
  intro j
  exact ⟨rfl, fun _ _ => trivial⟩

theorem quiet_bind {α β : Type} {x : Run α} {f : α → Run β} {P : α → Prop} {Q : β → Prop}
    (hx : Quiet x P) (hf : ∀ a, P a → Quiet (f a) Q) : Quiet (x >>= f) Q := by
  intro j
  rw [Run.bind_apply]
  obtain ⟨h1, h2⟩ := hx j
  cases hr : x j with
  | mk r j' =>
    rw [hr] at h1 h2
    simp only at h1 h2
    subst h1
    cases r with
    | error e => exact ⟨rfl, fun b hb => by simp at hb⟩
    | ok a => exact hf a (h2 a rfl) j'

theorem quiet_ite {α : Type} {c : Prop} [Decidable c] {x y : Run α} {Q : α → Prop}
    (h1 : c → Quiet x Q) (h2 : ¬ c → Quiet y Q) : Quiet (if c then x else y) Q := by
  split
  · exact h1 ‹_›
  · exact h2 ‹_›

theorem Quiet.mono {α : Type} {m : Run α} {P Q : α → Prop} (h : Quiet m P)
    (hpq : ∀ a, P a → Q a) : Quiet m Q :=
  fun j => ⟨(h j).1, fun a ha => hpq a ((h j).2 a ha)⟩

theorem quiet_traverseT {f : JValue → Run TValue} (hf : ∀ x, Quiet (f x) (fun _ => True)) :
    ∀ xs, Quiet (traverseT f xs) (fun _ => True) := by
  intro xs
  induction xs with
  | nil => exact quiet_pure _ trivial
  | cons x xs ih =>
    unfold traverseT
    exact quiet_bind (hf x) fun _ _ => quiet_bind ih fun _ _ => quiet_pure _ trivial

theorem quiet_mapArrayT {f : JValue → Run TValue} (hf : ∀ x, Quiet (f x) (fun _ => True))
    (v : JValue) : Quiet (mapArrayT f v) (fun _ => True) := by
  unfold mapArrayT
  split
  · exact quiet_bind (quiet_traverseT hf _) fun _ _ => quiet_pure _ trivial
  · exact quiet_fail _

/-! ### Objects created by the converter -/

theorem hasPropT_eq_false_iff (o : TObj) (k : String) :
    hasPropT o k = false ↔ ∀ kv ∈ o, kv.1 ≠ k := by
  induction o with
  | nil => simp [hasPropT]
  | cons kv rest ih =>
    obtain ⟨k', v⟩ := kv
    by_cases h : k' = k
    · simp [hasPropT, h]
    · simp [hasPropT, h, ih]

theorem mem_setPropT (o : TObj) (k : String) (v : TValue) (kv : String × TValue)
    (h : kv ∈ setPropT o k v) : kv = (k, v) ∨ kv ∈ o := by
  induction o with
  | nil =>
    simp only [setPropT, List.mem_singleton] at h
    exact Or.inl h
  | cons e rest ih =>
    obtain ⟨k', v'⟩ := e
    unfold setPropT at h
    split at h
    · rename_i hk
      simp only [List.mem_cons] at h ⊢
      rcases h with h | h
      · exact Or.inl (by rw [h, hk])
      · exact Or.inr (Or.inr h)
    · simp only [List.mem_cons] at h ⊢
      rcases h with h | h
      · exact Or.inr (Or.inl h)
      · rcases ih h with h | h
        · exact Or.inl h
        · exact Or.inr (Or.inr h)

theorem mem_assignT (fs : TObj) : ∀ (base : TObj) (kv : String × TValue),
    kv ∈ assignT base fs → kv ∈ fs ∨ kv ∈ base := by
  induction fs with
  | nil => intro base kv h; exact Or.inr h
  | cons e rest ih =>
    intro base kv h
    have h' : kv ∈ assignT (setPropT base e.1 e.2) rest := h
    rcases ih _ kv h' with h1 | h1
    · exact Or.inl (List.mem_cons_of_mem _ h1)
    · rcases mem_setPropT _ _ _ _ h1 with h2 | h2
      · exact Or.inl (by rw [h2]; exact List.mem_cons_self _ _)
      · exact Or.inr h2

theorem mem_mkObjT (fs : TObj) (kv : String × TValue) (h : kv ∈ mkObjT fs) : kv ∈ fs := by
  rcases mem_assignT fs [] kv h with h | h
  · exact h
  · simp at h

theorem getPropT_mem (o : TObj) (k : String) :
    getPropT o k = .old .undefined ∨ (k, getPropT o k) ∈ o := by
  induction o with
  | nil => exact Or.inl rfl
  | cons kv rest ih =>
    obtain ⟨k', v⟩ := kv
    by_cases h : k' = k
    · subst h
      simp [getPropT]
    · simp only [getPropT, h, if_false]
      rcases ih with h1 | h1
      · exact Or.inl h1
      · exact Or.inr (List.mem_cons_of_mem _ h1)

theorem noExtField_iff (fs : TObj) : noExtField fs = true ↔ ∀ kv ∈ fs, kv.1 ≠ "extensions" := by
  simp [noExtField]

theorem mem_extFields {fs : TObj} {kv : String × TValue} (h : kv ∈ fs)
    (hk : kv.1 = "extensions") : kv.2 ∈ extFields fs := by
  unfold extFields
  rw [List.mem_map]
  exact ⟨kv, List.mem_filter.2 ⟨h, by simp [hk]⟩, rfl⟩

theorem extFields_of_noExtField {fs : TObj} (h : noExtField fs = true) : extFields fs = [] := by
  unfold extFields
  rw [List.map_eq_nil_iff, List.filter_eq_nil_iff]
  intro kv hkv
  have := (noExtField_iff fs).1 h kv hkv
  simp [this]

/-! ### Invariants of the objects the converter builds -/

theorem noExtKey_nil : NoExtKey [] := rfl

theorem noExtKey_assignT {base fields : TObj} (hb : NoExtKey base)
    (hf : noExtField fields = true) : NoExtKey (assignT base fields) := by
  unfold NoExtKey at *
  rw [hasPropT_eq_false_iff] at hb ⊢
  intro kv hkv
  rcases mem_assignT _ _ _ hkv with h | h
  · exact (noExtField_iff fields).1 hf kv h
  · exact hb kv h

theorem noExtKey_literal {fields : TObj} (hf : noExtField fields = true) : NoExtKey fields := by
  unfold NoExtKey
  rw [hasPropT_eq_false_iff]
  exact (noExtField_iff fields).1 hf

theorem noExtKey_spread_undefined : NoExtKey (spreadT (.old .undefined)) := rfl

theorem blocksOK_getPropT {exts : TObj} (h : BlocksOK exts) (k : String) :
    NoExtKey (spreadT (getPropT exts k)) := by
  rcases getPropT_mem exts k with h1 | h1
  · rw [h1]
    rfl
  · exact h _ h1

theorem freshExt_blocks {o : TObj} (h : FreshExt o) : BlocksOK (extensionsOfT o) := by
  unfold extensionsOfT
  rcases getPropT_mem o "extensions" with h1 | h1
  · rw [h1]
    intro e he
    simp [spreadT] at he
  · obtain ⟨exts, he, hb⟩ := h _ h1 rfl
    simp only at he
    rw [he]
    exact hb

theorem freshExt_block {o : TObj} (h : FreshExt o) (k : String) :
    NoExtKey (spreadT (getPropT (extensionsOfT o) k)) :=
  blocksOK_getPropT (freshExt_blocks h) k

theorem freshExt_assignT {base fields : TObj} (hb : FreshExt base)
    (hf : ∀ v ∈ extFields fields, FreshMapping v) : FreshExt (assignT base fields) := by
  intro kv hkv hk
  rcases mem_assignT _ _ _ hkv with h | h
  · exact hf _ (mem_extFields h hk)
  · exact hb kv h hk

theorem freshExt_literal {fields : TObj} (hf : ∀ v ∈ extFields fields, FreshMapping v) :
    FreshExt fields :=
  fun _ hkv hk => hf _ (mem_extFields hkv hk)

theorem blocksOK_single {k : String} {b : TObj} (h : NoExtKey b) :
    BlocksOK (mkObjT [(k, .newObj b)]) := by
  intro e he
  have := mem_mkObjT _ _ he
  simp only [List.mem_singleton] at this
  rw [this]
  exact h

theorem blocksOK_pair {k1 k2 : String} {b1 b2 : TObj} (h1 : NoExtKey b1) (h2 : NoExtKey b2) :
    BlocksOK (mkObjT [(k1, .newObj b1), (k2, .newObj b2)]) := by
  intro e he
  have := mem_mkObjT _ _ he
  simp only [List.mem_cons, List.mem_singleton, List.not_mem_nil, or_false] at this
  rcases this with e1 | e1 <;> rw [e1]
  · exact h1
  · exact h2

theorem blocksOK_pair_get {k1 k2 : String} {v : TValue} {b : TObj}
    (h1 : NoExtKey (spreadT v)) (h2 : NoExtKey b) :
    BlocksOK (mkObjT [(k1, v), (k2, .newObj b)]) := by
  intro e he
  have := mem_mkObjT _ _ he
  simp only [List.mem_cons, List.mem_singleton, List.not_mem_nil, or_false] at this
  rcases this with e1 | e1 <;> rw [e1]
  · exact h1
  · exact h2

theorem blocksOK_assignT {base : TObj} {k : String} {b : TObj} (hb : BlocksOK base)
    (h : NoExtKey b) : BlocksOK (assignT base [(k, .newObj b)]) := by
  intro e he
  rcases mem_assignT _ _ _ he with h1 | h1
  · simp only [List.mem_singleton] at h1
    rw [h1]
    exact h
  · exact hb e h1

theorem freshExt_assignT_noExt {base fields : TObj} (hb : FreshExt base)
    (hf : noExtField fields = true) : FreshExt (assignT base fields) :=
  freshExt_assignT hb (by rw [extFields_of_noExtField hf]; simp)

theorem freshExt_assignT_ext {base fields : TObj} {v : TValue} (hb : FreshExt base)
    (hf : extFields fields = [v]) (hv : FreshMapping v) : FreshExt (assignT base fields) :=
  freshExt_assignT hb (by rw [hf]; simpa using hv)

theorem freshExt_literal_ext {fields : TObj} {v : TValue}
    (hf : extFields fields = [v]) (hv : FreshMapping v) : FreshExt fields :=
  freshExt_literal (by rw [hf]; simpa using hv)

/-! ### Normalisation -/

theorem quiet_cleanObjectT_noExt : ∀ (data : TObj), NoExtKey data →
    Quiet (cleanObjectT data) NoExtKey := by
  intro data
  induction data with
  | nil => intro _; exact quiet_pure _ rfl
  | cons kv rest ih =>
    intro h
    obtain ⟨k, v⟩ := kv
    have hk : ¬ k = "extensions" := by
      intro e
      simp [NoExtKey, hasPropT, e] at h
    have hr : NoExtKey rest := by
      simpa [NoExtKey, hasPropT, hk] using h
    unfold cleanObjectT
    refine quiet_ite (fun _ => ih hr) (fun _ => ?_)
    rw [if_neg hk]
    refine quiet_bind (ih hr) (fun rest' hrest => quiet_pure _ ?_)
    simpa [NoExtKey, hasPropT, hk] using hrest

theorem quiet_pruneExtensionsT_fresh {v : TValue} (h : FreshMapping v) :
    Quiet (pruneExtensionsT v) (fun _ => True) := by
  obtain ⟨exts, rfl, _⟩ := h
  unfold pruneExtensionsT
  exact quiet_ite (fun _ => quiet_fail _) (fun _ => quiet_pure _ trivial)

theorem quiet_cleanObjectT_fresh : ∀ (data : TObj), FreshExt data →
    Quiet (cleanObjectT data) (fun _ => True) := by
  intro data
  induction data with
  | nil => intro _; exact quiet_pure _ trivial
  | cons kv rest ih =>
    intro h
    obtain ⟨k, v⟩ := kv
    have hr : FreshExt rest := fun e he => h e (List.mem_cons_of_mem _ he)
    unfold cleanObjectT
    refine quiet_ite (fun _ => ih hr) (fun _ => ?_)
    refine quiet_ite (fun hk => ?_) (fun _ => ?_)
    · exact quiet_bind (quiet_pruneExtensionsT_fresh (h (k, v) (List.mem_cons_self _ _) hk))
        fun _ _ => quiet_bind (ih hr) fun _ _ => quiet_pure _ trivial
    · exact quiet_bind (ih hr) fun _ _ => quiet_pure _ trivial

/-- The journal is not a formality: normalising an object whose `extensions`
is an object of the instance records the deletion of its single-entry block. -/
theorem cleanObjectT_records_shared :
    (cleanObjectT sampleSharedExtensions []).2 =
      [(.obj [("ext-a", .obj [("extension_type", .str "property-extension")])], "ext-a")] :=
  rfl

/-! ### Builders and projectors -/

theorem quiet_standardIdsT (inst : Obj) (slot : String) :
    Quiet (standardIdsT inst slot) (fun _ => True) := by
  unfold standardIdsT
  refine quiet_mapArrayT (fun _ => ?_) _
  exact quiet_bind (quiet_lift _) fun _ _ => quiet_pure _ trivial

theorem quiet_labelValuesT (S : Schema) (inst : Obj) :
    Quiet (labelValuesT S inst) (fun _ => True) := by
  unfold labelValuesT
  refine quiet_mapArrayT (fun _ => ?_) _
  exact quiet_bind (quiet_lift _) fun _ _ => quiet_pure _ trivial

theorem quiet_buildOCTIExtensionsT (S : Schema) (inst : Obj) :
    Quiet (buildOCTIExtensionsT S inst) NoExtKey := by
  unfold buildOCTIExtensionsT
  refine quiet_bind (quiet_mapArrayT (fun _ => ?_) _) (fun _ _ => ?_)
  · repeat refine quiet_bind (quiet_lift _) (fun _ _ => ?_)
    exact quiet_pure _ trivial
  · refine quiet_bind (quiet_lift _) (fun _ _ => ?_)
    refine quiet_bind (quiet_lift _) (fun _ _ => ?_)
    exact quiet_cleanObjectT_noExt _ (noExtKey_literal (by rfl))

theorem quiet_buildMITREExtensionsT (inst : Obj) :
    Quiet (buildMITREExtensionsT inst) NoExtKey := by
  unfold buildMITREExtensionsT
  exact quiet_cleanObjectT_noExt _ (noExtKey_literal (by rfl))

theorem quiet_buildStixObjectT (S : Schema) (inst : Obj) :
    Quiet (buildStixObjectT S inst) FreshExt := by
  unfold buildStixObjectT
  refine quiet_bind (quiet_lift _) (fun _ _ => ?_)
  refine quiet_bind (quiet_buildOCTIExtensionsT S inst) (fun octi h_octi => ?_)
  exact quiet_pure _ (freshExt_literal_ext (by rfl) ⟨_, rfl, blocksOK_single h_octi⟩)

theorem quiet_buildKillChainPhasesT (S : Schema) (inst : Obj) :
    Quiet (buildKillChainPhasesT S inst) (fun _ => True) := by
  unfold buildKillChainPhasesT
  refine quiet_mapArrayT (fun _ => ?_) _
  repeat refine quiet_bind (quiet_lift _) (fun _ _ => ?_)
  exact quiet_bind (quiet_cleanObjectT_noExt _ (noExtKey_literal (by rfl))) fun _ _ => quiet_pure _ trivial

theorem quiet_buildExternalReferencesT (S : Schema) (inst : Obj) :
    Quiet (buildExternalReferencesT S inst) (fun _ => True) := by
  unfold buildExternalReferencesT
  refine quiet_mapArrayT (fun _ => ?_) _
  repeat refine quiet_bind (quiet_lift _) (fun _ _ => ?_)
  exact quiet_bind (quiet_cleanObjectT_noExt _ (noExtKey_literal (by rfl))) fun _ _ => quiet_pure _ trivial

theorem quiet_buildWindowsRegistryValueTypeT (S : Schema) (inst : Obj) :
    Quiet (buildWindowsRegistryValueTypeT S inst) (fun _ => True) := by
  unfold buildWindowsRegistryValueTypeT
  refine quiet_mapArrayT (fun _ => ?_) _
  repeat refine quiet_bind (quiet_lift _) (fun _ _ => ?_)
  exact quiet_bind (quiet_cleanObjectT_noExt _ (noExtKey_literal (by rfl))) fun _ _ => quiet_pure _ trivial

theorem quiet_buildEmailBodyMultipartT (S : Schema) (inst : Obj) :
    Quiet (buildEmailBodyMultipartT S inst) (fun _ => True) := by
  unfold buildEmailBodyMultipartT
  refine quiet_mapArrayT (fun _ => ?_) _
  repeat refine quiet_bind (quiet_lift _) (fun _ _ => ?_)
  exact quiet_bind (quiet_cleanObjectT_noExt _ (noExtKey_literal (by rfl))) fun _ _ => quiet_pure _ trivial

theorem quiet_buildStixDomainT (S : Schema) (inst : Obj) :
    Quiet (buildStixDomainT S inst) FreshExt := by
  unfold buildStixDomainT
  refine quiet_bind (quiet_buildStixObjectT S inst) (fun base h_base => ?_)
  refine quiet_bind (quiet_labelValuesT S inst) (fun _ _ => ?_)
  refine quiet_bind (quiet_standardIdsT inst S.INPUT_MARKINGS) (fun _ _ => ?_)
  refine quiet_bind (quiet_buildExternalReferencesT S inst) (fun _ _ => ?_)
  exact quiet_pure _ (freshExt_assignT_noExt h_base (by rfl))

theorem quiet_buildStixRelationshipT (S : Schema) (inst : Obj) :
    Quiet (buildStixRelationshipT S inst) FreshExt := by
  exact quiet_buildStixDomainT S inst

theorem quiet_buildStixMarkingsT (S : Schema) (inst : Obj) :
    Quiet (buildStixMarkingsT S inst) FreshExt := by
  unfold buildStixMarkingsT
  refine quiet_bind (quiet_buildStixObjectT S inst) (fun base h_base => ?_)
  refine quiet_bind (quiet_buildExternalReferencesT S inst) (fun _ _ => ?_)
  refine quiet_bind (quiet_standardIdsT inst S.INPUT_MARKINGS) (fun _ _ => ?_)
  exact quiet_pure _ (freshExt_assignT_noExt h_base (by rfl))

theorem quiet_buildStixCyberObservableT (S : Schema) (inst : Obj) :
    Quiet (buildStixCyberObservableT S inst) FreshExt := by
  unfold buildStixCyberObservableT
  refine quiet_bind (quiet_buildStixObjectT S inst) (fun stixObject h_stixObject => ?_)
  refine quiet_bind (quiet_standardIdsT inst S.INPUT_MARKINGS) (fun _ _ => ?_)
  refine quiet_bind (quiet_labelValuesT S inst) (fun _ _ => ?_)
  refine quiet_bind (quiet_standardIdsT inst S.INPUT_LINKED) (fun _ _ => ?_)
  refine quiet_bind (quiet_buildExternalReferencesT S inst) (fun _ _ => ?_)
  refine quiet_bind (quiet_cleanObjectT_noExt _ (noExtKey_literal (by rfl))) (fun sco h_sco => ?_)
  exact quiet_pure _ (freshExt_assignT_ext h_stixObject (by rfl) ⟨_, rfl, blocksOK_pair_get (freshExt_block h_stixObject _) h_sco⟩)

theorem quiet_convertIdentityToStixT (S : Schema) (inst : Obj) (type : String) :
    Quiet (convertIdentityToStixT S inst type) FreshExt := by
  unfold convertIdentityToStixT
  dsimp only
  refine quiet_ite (fun _ => quiet_bind (P := fun _ => False) (quiet_fail _) (fun _ h => h.elim))
    (fun _ => quiet_bind (P := fun _ => True) (quiet_pure _ trivial) (fun _ _ => ?_))
  refine quiet_bind (quiet_buildStixDomainT S inst) (fun identity h_identity => ?_)
  refine quiet_bind (quiet_cleanObjectT_noExt _ (noExtKey_assignT (freshExt_block h_identity _) (by rfl)))
    (fun octi h_octi => ?_)
  exact quiet_pure _ (freshExt_assignT_ext h_identity (by rfl) ⟨_, rfl, blocksOK_single h_octi⟩)

theorem quiet_convertLocationToStixT (S : Schema) (inst : Obj) (type : String) :
    Quiet (convertLocationToStixT S inst type) FreshExt := by
  unfold convertLocationToStixT
  dsimp only
  refine quiet_ite (fun _ => quiet_bind (P := fun _ => False) (quiet_fail _) (fun _ h => h.elim))
    (fun _ => quiet_bind (P := fun _ => True) (quiet_pure _ trivial) (fun _ _ => ?_))
  refine quiet_bind (quiet_buildStixDomainT S inst) (fun domain h_domain => ?_)
  exact quiet_pure _ (freshExt_assignT_noExt h_domain (by rfl))

theorem quiet_convertIncidentToStixT (S : Schema) (inst : Obj) (type : String) :
    Quiet (convertIncidentToStixT S inst type) FreshExt := by
  unfold convertIncidentToStixT
  refine quiet_bind (quiet_lift _) (fun _ _ => ?_)
  refine quiet_bind (quiet_buildStixDomainT S inst) (fun incident h_incident => ?_)
  exact quiet_pure _ (freshExt_assignT_ext h_incident (by rfl) ⟨_, rfl, blocksOK_single (noExtKey_assignT (freshExt_block h_incident _) (by rfl))⟩)

theorem quiet_convertCampaignToStixT (S : Schema) (inst : Obj) (type : String) :
    Quiet (convertCampaignToStixT S inst type) FreshExt := by
  unfold convertCampaignToStixT
  refine quiet_bind (quiet_lift _) (fun _ _ => ?_)
  refine quiet_bind (quiet_buildStixDomainT S inst) (fun domain h_domain => ?_)
  exact quiet_pure _ (freshExt_assignT_noExt h_domain (by rfl))

theorem quiet_convertToolToStixT (S : Schema) (inst : Obj) (type : String) :
    Quiet (convertToolToStixT S inst type) FreshExt := by
  unfold convertToolToStixT
  refine quiet_bind (quiet_lift _) (fun _ _ => ?_)
  refine quiet_bind (quiet_buildStixDomainT S inst) (fun domain h_domain => ?_)
  refine quiet_bind (quiet_buildKillChainPhasesT S inst) (fun _ _ => ?_)
  exact quiet_pure _ (freshExt_assignT_noExt h_domain (by rfl))

theorem quiet_convertVulnerabilityToStixT (S : Schema) (inst : Obj) (type : String) :
    Quiet (convertVulnerabilityToStixT S inst type) FreshExt := by
  unfold convertVulnerabilityToStixT
  refine quiet_bind (quiet_lift _) (fun _ _ => ?_)
  refine quiet_bind (quiet_buildStixDomainT S inst) (fun vulnerability h_vulnerability => ?_)
  refine quiet_bind (quiet_cleanObjectT_noExt _ (noExtKey_assignT (freshExt_block h_vulnerability _) (by rfl)))
    (fun octi h_octi => ?_)
  exact quiet_pure _ (freshExt_assignT_ext h_vulnerability (by rfl) ⟨_, rfl, blocksOK_single h_octi⟩)

theorem quiet_convertThreatActorToStixT (S : Schema) (inst : Obj) (type : String) :
    Quiet (convertThreatActorToStixT S inst type) FreshExt := by
  unfold convertThreatActorToStixT
  refine quiet_bind (quiet_lift _) (fun _ _ => ?_)
  refine quiet_bind (quiet_buildStixDomainT S inst) (fun domain h_domain => ?_)
  exact quiet_pure _ (freshExt_assignT_noExt h_domain (by rfl))

theorem quiet_convertInfrastructureToStixT (S : Schema) (inst : Obj) (type : String) :
    Quiet (convertInfrastructureToStixT S inst type) FreshExt := by
  unfold convertInfrastructureToStixT
  refine quiet_bind (quiet_lift _) (fun _ _ => ?_)
  refine quiet_bind (quiet_buildStixDomainT S inst) (fun domain h_domain => ?_)
  refine quiet_bind (quiet_buildKillChainPhasesT S inst) (fun _ _ => ?_)
  exact quiet_pure _ (freshExt_assignT_noExt h_domain (by rfl))

theorem quiet_convertIntrusionSetToStixT (S : Schema) (inst : Obj) (type : String) :
    Quiet (convertIntrusionSetToStixT S inst type) FreshExt := by
  unfold convertIntrusionSetToStixT
  refine quiet_bind (quiet_lift _) (fun _ _ => ?_)
  refine quiet_bind (quiet_buildStixDomainT S inst) (fun domain h_domain => ?_)
  exact quiet_pure _ (freshExt_assignT_noExt h_domain (by rfl))

theorem quiet_convertIndicatorToStixT (S : Schema) (inst : Obj) (type : String) :
    Quiet (convertIndicatorToStixT S inst type) FreshExt := by
  unfold convertIndicatorToStixT
  refine quiet_bind (quiet_lift _) (fun _ _ => ?_)
  refine quiet_bind (quiet_buildStixDomainT S inst) (fun indicator h_indicator => ?_)
  refine quiet_bind (quiet_buildKillChainPhasesT S inst) (fun _ _ => ?_)
  refine quiet_bind (quiet_cleanObjectT_noExt _ (noExtKey_assignT (freshExt_block h_indicator _) (by rfl)))
    (fun octi h_octi => ?_)
  refine quiet_bind (quiet_buildMITREExtensionsT inst) (fun mitre h_mitre => ?_)
  exact quiet_pure _ (freshExt_assignT_ext h_indicator (by rfl) ⟨_, rfl, blocksOK_pair h_octi h_mitre⟩)

theorem quiet_convertCourseOfActionToStixT (S : Schema) (inst : Obj) (type : String) :
    Quiet (convertCourseOfActionToStixT S inst type) FreshExt := by
  unfold convertCourseOfActionToStixT
  refine quiet_bind (quiet_lift _) (fun _ _ => ?_)
  refine quiet_bind (quiet_buildStixDomainT S inst) (fun domain h_domain => ?_)
  refine quiet_bind (quiet_buildOCTIExtensionsT S inst) (fun octi h_octi => ?_)
  refine quiet_bind (quiet_buildMITREExtensionsT inst) (fun mitre h_mitre => ?_)
  exact quiet_pure _ (freshExt_assignT_ext h_domain (by rfl) ⟨_, rfl, blocksOK_pair h_octi h_mitre⟩)

theorem quiet_convertMalwareToStixT (S : Schema) (inst : Obj) (type : String) :
    Quiet (convertMalwareToStixT S inst type) FreshExt := by
  unfold convertMalwareToStixT
  refine quiet_bind (quiet_lift _) (fun _ _ => ?_)
  refine quiet_bind (quiet_buildStixDomainT S inst) (fun domain h_domain => ?_)
  refine quiet_bind (quiet_buildKillChainPhasesT S inst) (fun _ _ => ?_)
  refine quiet_bind (quiet_standardIdsT inst S.INPUT_OPERATING_SYSTEM) (fun _ _ => ?_)
  refine quiet_bind (quiet_standardIdsT inst S.INPUT_SAMPLE) (fun _ _ => ?_)
  exact quiet_pure _ (freshExt_assignT_noExt h_domain (by rfl))

theorem quiet_convertAttackPatternToStixT (S : Schema) (inst : Obj) (type : String) :
    Quiet (convertAttackPatternToStixT S inst type) FreshExt := by
  unfold convertAttackPatternToStixT
  refine quiet_bind (quiet_lift _) (fun _ _ => ?_)
  refine quiet_bind (quiet_buildStixDomainT S inst) (fun stixDomainObject h_stixDomainObject => ?_)
  refine quiet_bind (quiet_buildKillChainPhasesT S inst) (fun _ _ => ?_)
  refine quiet_bind (quiet_buildOCTIExtensionsT S inst) (fun octi h_octi => ?_)
  refine quiet_bind (quiet_buildMITREExtensionsT inst) (fun mitre h_mitre => ?_)
  exact quiet_pure _ (freshExt_assignT_ext h_stixDomainObject (by rfl) ⟨_, rfl, blocksOK_pair h_octi h_mitre⟩)

theorem quiet_convertReportToStixT (S : Schema) (inst : Obj) (type : String) :
    Quiet (convertReportToStixT S inst type) FreshExt := by
  unfold convertReportToStixT
  refine quiet_bind (quiet_lift _) (fun _ _ => ?_)
  refine quiet_bind (quiet_buildStixDomainT S inst) (fun domain h_domain => ?_)
  refine quiet_bind (quiet_standardIdsT inst S.INPUT_OBJECTS) (fun _ _ => ?_)
  exact quiet_pure _ (freshExt_assignT_noExt h_domain (by rfl))

theorem quiet_convertNoteToStixT (S : Schema) (inst : Obj) (type : String) :
    Quiet (convertNoteToStixT S inst type) FreshExt := by
  unfold convertNoteToStixT
  refine quiet_bind (quiet_lift _) (fun _ _ => ?_)
  refine quiet_bind (quiet_buildStixDomainT S inst) (fun domain h_domain => ?_)
  refine quiet_bind (quiet_standardIdsT inst S.INPUT_OBJECTS) (fun _ _ => ?_)
  exact quiet_pure _ (freshExt_assignT_noExt h_domain (by rfl))

theorem quiet_convertObservedDateToStixT (S : Schema) (inst : Obj) (type : String) :
    Quiet (convertObservedDateToStixT S inst type) FreshExt := by
  unfold convertObservedDateToStixT
  refine quiet_bind (quiet_lift _) (fun _ _ => ?_)
  refine quiet_bind (quiet_buildStixDomainT S inst) (fun domain h_domain => ?_)
  refine quiet_bind (quiet_standardIdsT inst "objects") (fun _ _ => ?_)
  exact quiet_pure _ (freshExt_assignT_noExt h_domain (by rfl))

theorem quiet_convertOpinionToStixT (S : Schema) (inst : Obj) (type : String) :
    Quiet (convertOpinionToStixT S inst type) FreshExt := by
  unfold convertOpinionToStixT
  refine quiet_bind (quiet_lift _) (fun _ _ => ?_)
  refine quiet_bind (quiet_buildStixDomainT S inst) (fun domain h_domain => ?_)
  refine quiet_bind (quiet_standardIdsT inst "objects") (fun _ _ => ?_)
  exact quiet_pure _ (freshExt_assignT_noExt h_domain (by rfl))

theorem quiet_convertArtifactToStixT (S : Schema) (inst : Obj) (type : String) :
    Quiet (convertArtifactToStixT S inst type) FreshExt := by
  unfold convertArtifactToStixT
  refine quiet_bind (quiet_lift _) (fun _ _ => ?_)
  refine quiet_bind (quiet_buildStixCyberObservableT S inst) (fun stixCyberObject h_stixCyberObject => ?_)
  refine quiet_bind (quiet_cleanObjectT_noExt _ (noExtKey_assignT (freshExt_block h_stixCyberObject _) (by rfl)))
    (fun sco h_sco => ?_)
  exact quiet_pure _ (freshExt_assignT_ext h_stixCyberObject (by rfl) ⟨_, rfl, blocksOK_assignT (freshExt_blocks h_stixCyberObject) h_sco⟩)

theorem quiet_convertAutonomousSystemToStixT (S : Schema) (inst : Obj) (type : String) :
    Quiet (convertAutonomousSystemToStixT S inst type) FreshExt := by
  unfold convertAutonomousSystemToStixT
  refine quiet_bind (quiet_lift _) (fun _ _ => ?_)
  refine quiet_bind (quiet_buildStixCyberObservableT S inst) (fun cyber h_cyber => ?_)
  exact quiet_pure _ (freshExt_assignT_noExt h_cyber (by rfl))

theorem quiet_convertCryptocurrencyWalletToStixT (S : Schema) (inst : Obj) (type : String) :
    Quiet (convertCryptocurrencyWalletToStixT S inst type) FreshExt := by
  unfold convertCryptocurrencyWalletToStixT
  refine quiet_bind (quiet_lift _) (fun _ _ => ?_)
  refine quiet_bind (quiet_buildStixCyberObservableT S inst) (fun stixCyberObject h_stixCyberObject => ?_)
  refine quiet_bind (quiet_labelValuesT S inst) (fun _ _ => ?_)
  refine quiet_bind (quiet_buildExternalReferencesT S inst) (fun _ _ => ?_)
  exact quiet_pure _ (freshExt_assignT_ext h_stixCyberObject (by rfl) ⟨_, rfl, blocksOK_assignT (freshExt_blocks h_stixCyberObject) (noExtKey_literal (by rfl))⟩)

theorem quiet_convertCryptographicKeyToStixT (S : Schema) (inst : Obj) (type : String) :
    Quiet (convertCryptographicKeyToStixT S inst type) FreshExt := by
  unfold convertCryptographicKeyToStixT
  refine quiet_bind (quiet_lift _) (fun _ _ => ?_)
  refine quiet_bind (quiet_buildStixCyberObservableT S inst) (fun stixCyberObject h_stixCyberObject => ?_)
  refine quiet_bind (quiet_labelValuesT S inst) (fun _ _ => ?_)
  refine quiet_bind (quiet_buildExternalReferencesT S inst) (fun _ _ => ?_)
  exact quiet_pure _ (freshExt_assignT_ext h_stixCyberObject (by rfl) ⟨_, rfl, blocksOK_assignT (freshExt_blocks h_stixCyberObject) (noExtKey_literal (by rfl))⟩)

theorem quiet_convertDirectoryToStixT (S : Schema) (inst : Obj) (type : String) :
    Quiet (convertDirectoryToStixT S inst type) FreshExt := by
  unfold convertDirectoryToStixT
  refine quiet_bind (quiet_lift _) (fun _ _ => ?_)
  refine quiet_bind (quiet_buildStixCyberObservableT S inst) (fun cyber h_cyber => ?_)
  refine quiet_bind (quiet_standardIdsT inst S.INPUT_CONTAINS) (fun _ _ => ?_)
  exact quiet_pure _ (freshExt_assignT_noExt h_cyber (by rfl))

theorem quiet_convertDomainNameToStixT (S : Schema) (inst : Obj) (type : String) :
    Quiet (convertDomainNameToStixT S inst type) FreshExt := by
  unfold convertDomainNameToStixT
  refine quiet_bind (quiet_lift _) (fun _ _ => ?_)
  refine quiet_bind (quiet_buildStixCyberObservableT S inst) (fun cyber h_cyber => ?_)
  refine quiet_bind (quiet_standardIdsT inst S.INPUT_RESOLVES_TO) (fun _ _ => ?_)
  exact quiet_pure _ (freshExt_assignT_noExt h_cyber (by rfl))

theorem quiet_convertEmailAddressToStixT (S : Schema) (inst : Obj) (type : String) :
    Quiet (convertEmailAddressToStixT S inst type) FreshExt := by
  unfold convertEmailAddressToStixT
  refine quiet_bind (quiet_lift _) (fun _ _ => ?_)
  refine quiet_bind (quiet_buildStixCyberObservableT S inst) (fun cyber h_cyber => ?_)
  exact quiet_pure _ (freshExt_assignT_noExt h_cyber (by rfl))

theorem quiet_convertEmailMessageToStixT (S : Schema) (inst : Obj) (type : String) :
    Quiet (convertEmailMessageToStixT S inst type) FreshExt := by
  unfold convertEmailMessageToStixT
  refine quiet_bind (quiet_lift _) (fun _ _ => ?_)
  refine quiet_bind (quiet_buildStixCyberObservableT S inst) (fun cyber h_cyber => ?_)
  refine quiet_bind (quiet_standardIdsT inst S.INPUT_TO) (fun _ _ => ?_)
  refine quiet_bind (quiet_standardIdsT inst S.INPUT_CC) (fun _ _ => ?_)
  refine quiet_bind (quiet_standardIdsT inst S.INPUT_BCC) (fun _ _ => ?_)
  refine quiet_bind (quiet_buildEmailBodyMultipartT S inst) (fun _ _ => ?_)
  exact quiet_pure _ (freshExt_assignT_noExt h_cyber (by rfl))

theorem quiet_convertFileToStixT (S : Schema) (inst : Obj) (type : String) :
    Quiet (convertFileToStixT S inst type) FreshExt := by
  unfold convertFileToStixT
  refine quiet_bind (quiet_lift _) (fun _ _ => ?_)
  refine quiet_bind (quiet_buildStixCyberObservableT S inst) (fun stixCyberObject h_stixCyberObject => ?_)
  refine quiet_bind (quiet_standardIdsT inst S.INPUT_CONTAINS) (fun _ _ => ?_)
  refine quiet_bind (quiet_cleanObjectT_noExt _ (noExtKey_assignT (freshExt_block h_stixCyberObject _) (by rfl)))
    (fun sco h_sco => ?_)
  exact quiet_pure _ (freshExt_assignT_ext h_stixCyberObject (by rfl) ⟨_, rfl, blocksOK_assignT (freshExt_blocks h_stixCyberObject) h_sco⟩)

theorem quiet_convertHostnameToStixT (S : Schema) (inst : Obj) (type : String) :
    Quiet (convertHostnameToStixT S inst type) FreshExt := by
  unfold convertHostnameToStixT
  refine quiet_bind (quiet_lift _) (fun _ _ => ?_)
  refine quiet_bind (quiet_buildStixCyberObservableT S inst) (fun stixCyberObject h_stixCyberObject => ?_)
  refine quiet_bind (quiet_labelValuesT S inst) (fun _ _ => ?_)
  refine quiet_bind (quiet_buildExternalReferencesT S inst) (fun _ _ => ?_)
  exact quiet_pure _ (freshExt_assignT_ext h_stixCyberObject (by rfl) ⟨_, rfl, blocksOK_assignT (freshExt_blocks h_stixCyberObject) (noExtKey_literal (by rfl))⟩)

theorem quiet_convertIPv4AddressToStixT (S : Schema) (inst : Obj) (type : String) :
    Quiet (convertIPv4AddressToStixT S inst type) FreshExt := by
  unfold convertIPv4AddressToStixT
  refine quiet_bind (quiet_lift _) (fun _ _ => ?_)
  refine quiet_bind (quiet_buildStixCyberObservableT S inst) (fun cyber h_cyber => ?_)
  refine quiet_bind (quiet_standardIdsT inst S.INPUT_RESOLVES_TO) (fun _ _ => ?_)
  refine quiet_bind (quiet_standardIdsT inst S.INPUT_BELONGS_TO) (fun _ _ => ?_)
  exact quiet_pure _ (freshExt_assignT_noExt h_cyber (by rfl))

theorem quiet_convertIPv6AddressToStixT (S : Schema) (inst : Obj) (type : String) :
    Quiet (convertIPv6AddressToStixT S inst type) FreshExt := by
  unfold convertIPv6AddressToStixT
  refine quiet_bind (quiet_lift _) (fun _ _ => ?_)
  refine quiet_bind (quiet_buildStixCyberObservableT S inst) (fun cyber h_cyber => ?_)
  refine quiet_bind (quiet_standardIdsT inst S.INPUT_RESOLVES_TO) (fun _ _ => ?_)
  refine quiet_bind (quiet_standardIdsT inst S.INPUT_BELONGS_TO) (fun _ _ => ?_)
  exact quiet_pure _ (freshExt_assignT_noExt h_cyber (by rfl))

theorem quiet_convertMacAddressToStixT (S : Schema) (inst : Obj) (type : String) :
    Quiet (convertMacAddressToStixT S inst type) FreshExt := by
  unfold convertMacAddressToStixT
  refine quiet_bind (quiet_lift _) (fun _ _ => ?_)
  refine quiet_bind (quiet_buildStixCyberObservableT S inst) (fun cyber h_cyber => ?_)
  exact quiet_pure _ (freshExt_assignT_noExt h_cyber (by rfl))

theorem quiet_convertMutexToStixT (S : Schema) (inst : Obj) (type : String) :
    Quiet (convertMutexToStixT S inst type) FreshExt := by
  unfold convertMutexToStixT
  refine quiet_bind (quiet_lift _) (fun _ _ => ?_)
  refine quiet_bind (quiet_buildStixCyberObservableT S inst) (fun cyber h_cyber => ?_)
  exact quiet_pure _ (freshExt_assignT_noExt h_cyber (by rfl))

theorem quiet_convertNetworkTrafficToStixT (S : Schema) (inst : Obj) (type : String) :
    Quiet (convertNetworkTrafficToStixT S inst type) FreshExt := by
  unfold convertNetworkTrafficToStixT
  refine quiet_bind (quiet_lift _) (fun _ _ => ?_)
  refine quiet_bind (quiet_buildStixCyberObservableT S inst) (fun cyber h_cyber => ?_)
  refine quiet_bind (quiet_standardIdsT inst S.INPUT_ENCAPSULATES) (fun _ _ => ?_)
  exact quiet_pure _ (freshExt_assignT_noExt h_cyber (by rfl))

theorem quiet_convertProcessToStixT (S : Schema) (inst : Obj) (type : String) :
    Quiet (convertProcessToStixT S inst type) FreshExt := by
  unfold convertProcessToStixT
  refine quiet_bind (quiet_lift _) (fun _ _ => ?_)
  refine quiet_bind (quiet_buildStixCyberObservableT S inst) (fun cyber h_cyber => ?_)
  refine quiet_bind (quiet_standardIdsT inst S.INPUT_OPENED_CONNECTION) (fun _ _ => ?_)
  refine quiet_bind (quiet_standardIdsT inst S.INPUT_CHILD) (fun _ _ => ?_)
  exact quiet_pure _ (freshExt_assignT_noExt h_cyber (by rfl))

theorem quiet_convertSoftwareToStixT (S : Schema) (inst : Obj) (type : String) :
    Quiet (convertSoftwareToStixT S inst type) FreshExt := by
  unfold convertSoftwareToStixT
  refine quiet_bind (quiet_lift _) (fun _ _ => ?_)
  refine quiet_bind (quiet_buildStixCyberObservableT S inst) (fun cyber h_cyber => ?_)
  exact quiet_pure _ (freshExt_assignT_noExt h_cyber (by rfl))

theorem quiet_convertTextToStixT (S : Schema) (inst : Obj) (type : String) :
    Quiet (convertTextToStixT S inst type) FreshExt := by
  unfold convertTextToStixT
  refine quiet_bind (quiet_lift _) (fun _ _ => ?_)
  refine quiet_bind (quiet_buildStixCyberObservableT S inst) (fun stixCyberObject h_stixCyberObject => ?_)
  refine quiet_bind (quiet_labelValuesT S inst) (fun _ _ => ?_)
  refine quiet_bind (quiet_buildExternalReferencesT S inst) (fun _ _ => ?_)
  exact quiet_pure _ (freshExt_assignT_ext h_stixCyberObject (by rfl) ⟨_, rfl, blocksOK_assignT (freshExt_blocks h_stixCyberObject) (noExtKey_literal (by rfl))⟩)

theorem quiet_convertURLToStixT (S : Schema) (inst : Obj) (type : String) :
    Quiet (convertURLToStixT S inst type) FreshExt := by
  unfold convertURLToStixT
  refine quiet_bind (quiet_lift _) (fun _ _ => ?_)
  refine quiet_bind (quiet_buildStixCyberObservableT S inst) (fun cyber h_cyber => ?_)
  exact quiet_pure _ (freshExt_assignT_noExt h_cyber (by rfl))

theorem quiet_convertUserAccountToStixT (S : Schema) (inst : Obj) (type : String) :
    Quiet (convertUserAccountToStixT S inst type) FreshExt := by
  unfold convertUserAccountToStixT
  refine quiet_bind (quiet_lift _) (fun _ _ => ?_)
  refine quiet_bind (quiet_buildStixCyberObservableT S inst) (fun cyber h_cyber => ?_)
  exact quiet_pure _ (freshExt_assignT_noExt h_cyber (by rfl))

theorem quiet_convertWindowsRegistryKeyToStixT (S : Schema) (inst : Obj) (type : String) :
    Quiet (convertWindowsRegistryKeyToStixT S inst type) FreshExt := by
  unfold convertWindowsRegistryKeyToStixT
  refine quiet_bind (quiet_lift _) (fun _ _ => ?_)
  refine quiet_bind (quiet_buildStixCyberObservableT S inst) (fun cyber h_cyber => ?_)
  refine quiet_bind (quiet_buildWindowsRegistryValueTypeT S inst) (fun _ _ => ?_)
  exact quiet_pure _ (freshExt_assignT_noExt h_cyber (by rfl))

theorem quiet_convertX509CertificateToStixT (S : Schema) (inst : Obj) (type : String) :
    Quiet (convertX509CertificateToStixT S inst type) FreshExt := by
  unfold convertX509CertificateToStixT
  refine quiet_bind (quiet_lift _) (fun _ _ => ?_)
  refine quiet_bind (quiet_buildStixCyberObservableT S inst) (fun cyber h_cyber => ?_)
  refine quiet_bind (quiet_cleanObjectT_noExt _ (noExtKey_literal (by rfl))) (fun x509_v3_extensions h_x509_v3_extensions => ?_)
  exact quiet_pure _ (freshExt_assignT_noExt h_cyber (by rfl))

theorem quiet_convertRelationToStixT (S : Schema) (inst : Obj) :
    Quiet (convertRelationToStixT S inst) FreshExt := by
  unfold convertRelationToStixT
  refine quiet_bind (quiet_lift _) (fun _ _ => ?_)
  refine quiet_bind (quiet_buildStixRelationshipT S inst) (fun stixRelationship h_stixRelationship => ?_)
  refine quiet_bind (quiet_buildExternalReferencesT S inst) (fun _ _ => ?_)
  refine quiet_bind (quiet_buildKillChainPhasesT S inst) (fun _ _ => ?_)
  refine quiet_bind (quiet_cleanObjectT_noExt _ (noExtKey_assignT (freshExt_block h_stixRelationship _) (by rfl)))
    (fun octi h_octi => ?_)
  exact quiet_pure _ (freshExt_assignT_ext h_stixRelationship (by rfl) ⟨_, rfl, blocksOK_single h_octi⟩)

theorem quiet_convertSightingToStixT (S : Schema) (inst : Obj) :
    Quiet (convertSightingToStixT S inst) FreshExt := by
  unfold convertSightingToStixT
  refine quiet_bind (quiet_lift _) (fun _ _ => ?_)
  refine quiet_bind (quiet_buildStixRelationshipT S inst) (fun stixRelationship h_stixRelationship => ?_)
  refine quiet_bind (quiet_cleanObjectT_noExt _ (noExtKey_assignT (freshExt_block h_stixRelationship _) (by rfl)))
    (fun octi h_octi => ?_)
  exact quiet_pure _ (freshExt_assignT_ext h_stixRelationship (by rfl) ⟨_, rfl, blocksOK_single h_octi⟩)

theorem quiet_convertMarkingToStixT (S : Schema) (inst : Obj) :
    Quiet (convertMarkingToStixT S inst) FreshExt := by
  unfold convertMarkingToStixT
  refine quiet_bind (quiet_buildStixMarkingsT S inst) (fun marking h_marking => ?_)
  refine quiet_bind (quiet_cleanObjectT_noExt _ (noExtKey_assignT (freshExt_block h_marking _) (by rfl)))
    (fun octi h_octi => ?_)
  exact quiet_pure _ (freshExt_assignT_ext h_marking (by rfl) ⟨_, rfl, blocksOK_single h_octi⟩)

theorem quiet_convertLabelToStixT (S : Schema) (inst : Obj) :
    Quiet (convertLabelToStixT S inst) FreshExt := by
  unfold convertLabelToStixT
  refine quiet_bind (quiet_buildStixObjectT S inst) (fun label h_label => ?_)
  refine quiet_bind (quiet_cleanObjectT_noExt _ (noExtKey_assignT (freshExt_block h_label _) (by rfl)))
    (fun octi h_octi => ?_)
  exact quiet_pure _ (freshExt_assignT_ext h_label (by rfl) ⟨_, rfl, blocksOK_single h_octi⟩)

theorem quiet_convertKillChainPhaseToStixT (S : Schema) (inst : Obj) :
    Quiet (convertKillChainPhaseToStixT S inst) FreshExt := by
  unfold convertKillChainPhaseToStixT
  refine quiet_bind (quiet_buildStixObjectT S inst) (fun killChain h_killChain => ?_)
  refine quiet_bind (quiet_cleanObjectT_noExt _ (noExtKey_assignT (freshExt_block h_killChain _) (by rfl)))
    (fun octi h_octi => ?_)
  exact quiet_pure _ (freshExt_assignT_ext h_killChain (by rfl) ⟨_, rfl, blocksOK_single h_octi⟩)

theorem quiet_convertExternalReferenceToStixT (S : Schema) (inst : Obj) :
    Quiet (convertExternalReferenceToStixT S inst) FreshExt := by
  unfold convertExternalReferenceToStixT
  refine quiet_bind (quiet_buildStixObjectT S inst) (fun reference h_reference => ?_)
  refine quiet_bind (quiet_cleanObjectT_noExt _ (noExtKey_assignT (freshExt_block h_reference _) (by rfl)))
    (fun octi h_octi => ?_)
  exact quiet_pure _ (freshExt_assignT_ext h_reference (by rfl) ⟨_, rfl, blocksOK_single h_octi⟩)

theorem quiet_convertWindowsRegistryValueToStixT (S : Schema) (inst : Obj) :
    Quiet (convertWindowsRegistryValueToStixT S inst) FreshExt := by
  unfold convertWindowsRegistryValueToStixT
  refine quiet_bind (quiet_buildStixCyberObservableT S inst) (fun stixCyberObject h_stixCyberObject => ?_)
  refine quiet_bind (quiet_labelValuesT S inst) (fun _ _ => ?_)
  refine quiet_bind (quiet_buildExternalReferencesT S inst) (fun _ _ => ?_)
  exact quiet_pure _ (freshExt_assignT_ext h_stixCyberObject (by rfl) ⟨_, rfl, blocksOK_pair_get (freshExt_block h_stixCyberObject _) (noExtKey_literal (by rfl))⟩)

theorem quiet_convertEmailMimePartToStixT (S : Schema) (inst : Obj) :
    Quiet (convertEmailMimePartToStixT S inst) FreshExt := by
  unfold convertEmailMimePartToStixT
  refine quiet_bind (quiet_buildStixCyberObservableT S inst) (fun stixCyberObject h_stixCyberObject => ?_)
  refine quiet_bind (quiet_labelValuesT S inst) (fun _ _ => ?_)
  refine quiet_bind (quiet_buildExternalReferencesT S inst) (fun _ _ => ?_)
  exact quiet_pure _ (freshExt_assignT_ext h_stixCyberObject (by rfl) ⟨_, rfl, blocksOK_pair_get (freshExt_block h_stixCyberObject _) (noExtKey_literal (by rfl))⟩)

theorem quiet_convertRelationshipKindT (S : Schema) (inst : Obj) (type : String) :
    Quiet (convertRelationshipKindT S inst type) FreshExt := by
  unfold convertRelationshipKindT
  refine quiet_ite (fun _ => quiet_convertRelationToStixT S inst) (fun _ => ?_)
  refine quiet_ite (fun _ => quiet_convertRelationToStixT S inst) (fun _ => ?_)
  refine quiet_ite (fun _ => quiet_convertSightingToStixT S inst) (fun _ => ?_)
  refine quiet_ite (fun _ => quiet_convertRelationToStixT S inst) (fun _ => ?_)
  exact quiet_fail _

theorem quiet_convertDomainKindT (S : Schema) (inst : Obj) (type : String) :
    Quiet (convertDomainKindT S inst type) FreshExt := by
  unfold convertDomainKindT
  refine quiet_ite (fun _ => quiet_convertIdentityToStixT S inst type) (fun _ => ?_)
  refine quiet_ite (fun _ => quiet_convertLocationToStixT S inst type) (fun _ => ?_)
  refine quiet_ite (fun _ => quiet_convertReportToStixT S inst type) (fun _ => ?_)
  refine quiet_ite (fun _ => quiet_convertMalwareToStixT S inst type) (fun _ => ?_)
  refine quiet_ite (fun _ => quiet_convertInfrastructureToStixT S inst type) (fun _ => ?_)
  refine quiet_ite (fun _ => quiet_convertAttackPatternToStixT S inst type) (fun _ => ?_)
  refine quiet_ite (fun _ => quiet_convertCampaignToStixT S inst type) (fun _ => ?_)
  refine quiet_ite (fun _ => quiet_convertThreatActorToStixT S inst type) (fun _ => ?_)
  refine quiet_ite (fun _ => quiet_convertNoteToStixT S inst type) (fun _ => ?_)
  refine quiet_ite (fun _ => quiet_convertOpinionToStixT S inst type) (fun _ => ?_)
  refine quiet_ite (fun _ => quiet_convertObservedDateToStixT S inst type) (fun _ => ?_)
  refine quiet_ite (fun _ => quiet_convertCourseOfActionToStixT S inst type) (fun _ => ?_)
  refine quiet_ite (fun _ => quiet_convertIncidentToStixT S inst type) (fun _ => ?_)
  refine quiet_ite (fun _ => quiet_convertIndicatorToStixT S inst type) (fun _ => ?_)
  refine quiet_ite (fun _ => quiet_convertIntrusionSetToStixT S inst type) (fun _ => ?_)
  refine quiet_ite (fun _ => quiet_convertToolToStixT S inst type) (fun _ => ?_)
  refine quiet_ite (fun _ => quiet_convertVulnerabilityToStixT S inst type) (fun _ => ?_)
  exact quiet_fail _

theorem quiet_convertMetaKindT (S : Schema) (inst : Obj) (type : String) :
    Quiet (convertMetaKindT S inst type) FreshExt := by
  unfold convertMetaKindT
  refine quiet_ite (fun _ => quiet_convertMarkingToStixT S inst) (fun _ => ?_)
  refine quiet_ite (fun _ => quiet_convertLabelToStixT S inst) (fun _ => ?_)
  refine quiet_ite (fun _ => quiet_convertKillChainPhaseToStixT S inst) (fun _ => ?_)
  refine quiet_ite (fun _ => quiet_convertExternalReferenceToStixT S inst) (fun _ => ?_)
  exact quiet_fail _

theorem quiet_convertObservableKindT (S : Schema) (inst : Obj) (type : String) :
    Quiet (convertObservableKindT S inst type) FreshExt := by
  unfold convertObservableKindT
  refine quiet_ite (fun _ => quiet_convertWindowsRegistryValueToStixT S inst) (fun _ => ?_)
  refine quiet_ite (fun _ => quiet_convertEmailMimePartToStixT S inst) (fun _ => ?_)
  refine quiet_ite (fun _ => quiet_convertArtifactToStixT S inst type) (fun _ => ?_)
  refine quiet_ite (fun _ => quiet_convertAutonomousSystemToStixT S inst type) (fun _ => ?_)
  refine quiet_ite (fun _ => quiet_convertCryptocurrencyWalletToStixT S inst type) (fun _ => ?_)
  refine quiet_ite (fun _ => quiet_convertCryptographicKeyToStixT S inst type) (fun _ => ?_)
  refine quiet_ite (fun _ => quiet_convertDirectoryToStixT S inst type) (fun _ => ?_)
  refine quiet_ite (fun _ => quiet_convertDomainNameToStixT S inst type) (fun _ => ?_)
  refine quiet_ite (fun _ => quiet_convertEmailAddressToStixT S inst type) (fun _ => ?_)
  refine quiet_ite (fun _ => quiet_convertEmailMessageToStixT S inst type) (fun _ => ?_)
  refine quiet_ite (fun _ => quiet_convertFileToStixT S inst type) (fun _ => ?_)
  refine quiet_ite (fun _ => quiet_convertHostnameToStixT S inst type) (fun _ => ?_)
  refine quiet_ite (fun _ => quiet_convertIPv4AddressToStixT S inst type) (fun _ => ?_)
  refine quiet_ite (fun _ => quiet_convertIPv6AddressToStixT S inst type) (fun _ => ?_)
  refine quiet_ite (fun _ => quiet_convertMacAddressToStixT S inst type) (fun _ => ?_)
  refine quiet_ite (fun _ => quiet_convertMutexToStixT S inst type) (fun _ => ?_)
  refine quiet_ite (fun _ => quiet_convertNetworkTrafficToStixT S inst type) (fun _ => ?_)
  refine quiet_ite (fun _ => quiet_convertProcessToStixT S inst type) (fun _ => ?_)
  refine quiet_ite (fun _ => quiet_convertSoftwareToStixT S inst type) (fun _ => ?_)
  refine quiet_ite (fun _ => quiet_convertTextToStixT S inst type) (fun _ => ?_)
  refine quiet_ite (fun _ => quiet_convertURLToStixT S inst type) (fun _ => ?_)
  refine quiet_ite (fun _ => quiet_convertUserAccountToStixT S inst type) (fun _ => ?_)
  refine quiet_ite (fun _ => quiet_convertWindowsRegistryKeyToStixT S inst type) (fun _ => ?_)
  refine quiet_ite (fun _ => quiet_convertX509CertificateToStixT S inst type) (fun _ => ?_)
  exact quiet_fail _

theorem quiet_convertToStixT (S : Schema) (inst : Obj) :
    Quiet (convertToStixT S inst) FreshExt := by
  unfold convertToStixT
  refine quiet_bind (quiet_lift _) (fun type _ => ?_)
  refine quiet_ite (fun _ => quiet_fail _) (fun _ => ?_)
  refine quiet_ite (fun _ => quiet_convertRelationshipKindT S inst type) (fun _ => ?_)
  refine quiet_ite (fun _ => quiet_convertDomainKindT S inst type) (fun _ => ?_)
  refine quiet_ite (fun _ => quiet_convertMetaKindT S inst type) (fun _ => ?_)
  refine quiet_ite (fun _ => quiet_convertObservableKindT S inst type) (fun _ => ?_)
  exact quiet_fail _

theorem quiet_convertStoreToStixT (S : Schema) (inst : Obj) :
    Quiet (convertStoreToStixT S inst) (fun _ => True) := by
  unfold convertStoreToStixT
  refine quiet_ite (fun _ => quiet_fail _) (fun _ => ?_)
  refine quiet_bind (quiet_convertToStixT S inst) (fun converted h_converted => ?_)
  refine quiet_bind (quiet_cleanObjectT_fresh converted h_converted) (fun _ _ => ?_)
  exact quiet_ite (fun _ => quiet_fail _) (fun _ => quiet_pure _ trivial)

/-! ## The run with ownership marks computes what the converter computes -/

theorem agrees_pure {α β : Type} {e : α → β} {a : α} {b : β} (h : e a = b) :
    Agrees e (pure a : Run α) (pure b) := by
  intro j
  rw [Run.pure_apply, ← h]
  rfl

theorem agrees_fail {α β : Type} {e : α → β} (err : Err) :
    Agrees e (Run.fail err : Run α) (throw err) :=
  fun _ => rfl

theorem agrees_lift {α : Type} (x : Except Err α) : Agrees id (Run.lift x) x := by
  intro j
  cases x <;> rfl

theorem agrees_bind {α α' β β' : Type} {e : α → α'} {d : β → β'} {m : Run α}
    {x : Except Err α'} {f : α → Run β} {g : α' → Except Err β'}
    (h1 : Agrees e m x) (h2 : ∀ a, Agrees d (f a) (g (e a))) :
    Agrees d (m >>= f) (x >>= g) := by
  intro j
  rw [Run.bind_apply]
  have h := h1 j
  cases hr : m j with
  | mk r j' =>
    rw [hr] at h
    cases r with
    | error err =>
      rw [← h]
      rfl
    | ok a =>
      rw [← h]
      exact h2 a j'

theorem agrees_fail_bind {α α' β β' : Type} {d : β → β'} (err : Err) (f : α → Run β)
    (g : α' → Except Err β') :
    Agrees d ((Run.fail err : Run α) >>= f) ((throw err : Except Err α') >>= g) :=
  fun _ => rfl

theorem agrees_ite {α β : Type} {e : α → β} {c : Prop} [Decidable c] {m n : Run α}
    {x y : Except Err β} (h1 : c → Agrees e m x) (h2 : ¬ c → Agrees e n y) :
    Agrees e (if c then m else n) (if c then x else y) := by
  split
  · exact h1 ‹_›
  · exact h2 ‹_›

/-! ### Erasure of the ownership marks -/

theorem erase_getPropT (o : TObj) (k : String) :
    (getPropT o k).erase = getProp (eraseObj o) k := by
  induction o with
  | nil => rfl
  | cons kv rest ih =>
    obtain ⟨k', v⟩ := kv
    by_cases h : k' = k <;> simp [getPropT, getProp, eraseObj, h, ih]

theorem eraseObj_setPropT (o : TObj) (k : String) (v : TValue) :
    eraseObj (setPropT o k v) = setProp (eraseObj o) k v.erase := by
  induction o with
  | nil => rfl
  | cons kv rest ih =>
    obtain ⟨k', v'⟩ := kv
    by_cases h : k' = k <;> simp [setPropT, setProp, eraseObj, h, ih]

theorem eraseObj_assignT (fs : TObj) : ∀ (base : TObj),
    eraseObj (assignT base fs) = assign (eraseObj base) (eraseObj fs) := by
  induction fs with
  | nil => intro base; rfl
  | cons kv rest ih =>
    intro base
    obtain ⟨k, v⟩ := kv
    have h1 : assignT base ((k, v) :: rest) = assignT (setPropT base k v) rest := rfl
    rw [h1, ih, eraseObj_setPropT]
    rfl

theorem eraseObj_mkObjT (fs : TObj) : eraseObj (mkObjT fs) = mkObj (eraseObj fs) :=
  eraseObj_assignT fs []

theorem eraseObj_map_old (kvs : Obj) :
    eraseObj (kvs.map fun kv => (kv.1, TValue.old kv.2)) = kvs := by
  induction kvs with
  | nil => rfl
  | cons kv rest ih =>
    obtain ⟨k, v⟩ := kv
    simp [eraseObj, TValue.erase, ih]

theorem eraseList_map_old (xs : List JValue) : eraseList (xs.map TValue.old) = xs := by
  induction xs with
  | nil => rfl
  | cons x rest ih => simp [eraseList, TValue.erase, ih]

theorem eraseObj_spreadT (v : TValue) : eraseObj (spreadT v) = spread v.erase := by
  cases v with
  | old w => cases w <;> simp [spreadT, spread, TValue.erase, eraseObj, eraseObj_map_old]
  | newArr xs => rfl
  | newObj kvs => rfl

theorem eraseObj_extensionsOfT (o : TObj) :
    eraseObj (extensionsOfT o) = extensionsOf (eraseObj o) := by
  unfold extensionsOfT extensionsOf
  rw [eraseObj_spreadT, erase_getPropT]

theorem erase_nullishT_obj (v : JValue) : (nullishT v (.newObj [])).erase = nullish v (.obj []) := by
  cases v <;> rfl

theorem erase_nullishT_arr (v : JValue) : (nullishT v (.newArr [])).erase = nullish v (.arr []) := by
  cases v <;> rfl

theorem erase_singletonIfTruthyT (x : JValue) :
    (singletonIfTruthyT x).erase = singletonIfTruthy x := by
  unfold singletonIfTruthyT singletonIfTruthy
  split <;> rfl

theorem erase_freshArray (v : JValue) : (freshArray v).erase = v := by
  cases v <;> simp [freshArray, TValue.erase, eraseList_map_old]

theorem isEmptyFieldT_eq (v : TValue) : isEmptyFieldT v = isEmptyField v.erase := by
  cases v with
  | old w => rfl
  | newArr xs => cases xs <;> rfl
  | newObj kvs =>
    cases kvs with
    | nil => rfl
    | cons kv rest => obtain ⟨k, w⟩ := kv; rfl

theorem eraseList_length (xs : List TValue) : (eraseList xs).length = xs.length := by
  induction xs with
  | nil => rfl
  | cons x rest ih => simp [eraseList, ih]

theorem eraseObj_length (o : TObj) : (eraseObj o).length = o.length := by
  induction o with
  | nil => rfl
  | cons kv rest ih => obtain ⟨k, v⟩ := kv; simp [eraseObj, ih]

theorem entriesLengthT_eq (v : TValue) : entriesLengthT v = entriesLength v.erase := by
  cases v with
  | old w => rfl
  | newArr xs => simp [entriesLengthT, TValue.erase, entriesLength, eraseList_length]
  | newObj kvs => simp [entriesLengthT, TValue.erase, entriesLength, eraseObj_length]

theorem isValidStixT_eq (o : TObj) : isValidStixT o = isValidStix (eraseObj o) := by
  cases o with
  | nil => rfl
  | cons kv rest => obtain ⟨k, v⟩ := kv; rfl

theorem eraseObj_filter (p : String × TValue → Bool) (q : String × JValue → Bool)
    (h : ∀ kv, p kv = q (kv.1, kv.2.erase)) (o : TObj) :
    eraseObj (o.filter p) = (eraseObj o).filter q := by
  induction o with
  | nil => rfl
  | cons kv rest ih =>
    obtain ⟨k, v⟩ := kv
    have := h (k, v)
    simp only at this
    cases hp : p (k, v) <;> simp [List.filter, hp, ← this, eraseObj, ih]

theorem eraseObj_any (p : String × TValue → Bool) (q : String × JValue → Bool)
    (h : ∀ kv, p kv = q (kv.1, kv.2.erase)) (o : TObj) :
    o.any p = (eraseObj o).any q := by
  induction o with
  | nil => rfl
  | cons kv rest ih =>
    obtain ⟨k, v⟩ := kv
    have := h (k, v)
    simp only at this
    simp [List.any, this, eraseObj, ih]

theorem eraseList_any (p : TValue → Bool) (q : JValue → Bool)
    (h : ∀ v, p v = q v.erase) (xs : List TValue) :
    xs.any p = (eraseList xs).any q := by
  induction xs with
  | nil => rfl
  | cons x rest ih => simp [List.any, h x, eraseList, ih]

/-! ### Normalisation and traversals agree -/

theorem record_step {c : Prop} [Decidable c] (target : JValue) (k : String) (m : Run Unit)
    (h : ∀ j, (m j).1 = .ok ()) (j : Journal) :
    ((if c then (Run.record target k >>= fun _ => m)
      else ((pure PUnit.unit : Run PUnit) >>= fun _ => m)) j).1 = .ok () := by
  split
  · exact h _
  · exact h _

theorem recordDeletions_ok (target : JValue) : ∀ (exts : List (String × JValue)) (j : Journal),
    (recordDeletions target exts j).1 = .ok () := by
  intro exts
  induction exts with
  | nil => intro j; rfl
  | cons kv rest ih =>
    intro j
    obtain ⟨k, v⟩ := kv
    cases v <;> first
      | rfl
      | exact record_step target k _ ih j

theorem recordDeletionsArr_ok (target : JValue) : ∀ (xs : List JValue) (i : Nat) (j : Journal),
    (recordDeletionsArr target i xs j).1 = .ok () := by
  intro xs
  induction xs with
  | nil => intro i j; rfl
  | cons v rest ih =>
    intro i j
    cases v <;> first
      | rfl
      | exact record_step target _ _ (ih _) j

theorem agrees_after_ok {m : Run Unit} (h : ∀ j, (m j).1 = .ok ())
    (x : Except Err JValue) :
    Agrees TValue.erase (m >>= fun _ => Run.lift x >>= fun v => pure (TValue.old v)) x := by
  intro j
  rw [Run.bind_apply]
  have := h j
  cases hr : m j with
  | mk r j' =>
    rw [hr] at this
    simp only at this
    subst this
    cases x <;> rfl

theorem agrees_pruneExtensionsT (v : TValue) :
    Agrees TValue.erase (pruneExtensionsT v) (pruneExtensions v.erase) := by
  cases v with
  | newObj exts =>
    simp only [pruneExtensionsT, TValue.erase, pruneExtensions]
    rw [eraseObj_any _ (fun e => match e.2 with
      | .undefined => true
      | .null => true
      | _ => false) (fun kv => by
        obtain ⟨k, w⟩ := kv
        cases w with
        | old u => cases u <;> rfl
        | newArr _ => rfl
        | newObj _ => rfl) exts]
    refine agrees_ite (fun _ => agrees_fail _) (fun _ => agrees_pure ?_)
    simp only [TValue.erase]
    rw [eraseObj_filter _ (fun e => entriesLength e.2 != 1)
      (fun kv => by simp [entriesLengthT_eq]) exts]
  | newArr xs =>
    simp only [pruneExtensionsT, TValue.erase, pruneExtensions]
    rw [eraseList_any _ (fun x => match x with
      | .undefined => true
      | .null => true
      | y => entriesLength y == 1) (fun w => by
        cases w with
        | old u => cases u <;> rfl
        | newArr ys => simp [entriesLengthT_eq, TValue.erase]
        | newObj kvs => simp [entriesLengthT_eq, TValue.erase]) xs]
    exact agrees_ite (fun _ => agrees_fail _) (fun _ => agrees_pure rfl)
  | old w =>
    unfold pruneExtensionsT
    refine agrees_after_ok (fun j => ?_) _
    cases w with
    | obj exts => exact recordDeletions_ok _ exts j
    | arr xs => exact recordDeletionsArr_ok _ xs 0 j
    | undefined => rfl
    | null => rfl
    | bool _ => rfl
    | num _ => rfl
    | str _ => rfl

theorem agrees_cleanObjectT : ∀ (data : TObj),
    Agrees eraseObj (cleanObjectT data) (cleanObject (eraseObj data)) := by
  intro data
  induction data with
  | nil => exact agrees_pure rfl
  | cons kv rest ih =>
    obtain ⟨k, v⟩ := kv
    simp only [cleanObjectT, eraseObj, cleanObject, isEmptyFieldT_eq]
    refine agrees_ite (fun _ => ih) (fun _ => ?_)
    refine agrees_ite (fun _ => ?_) (fun _ => ?_)
    · exact agrees_bind (agrees_pruneExtensionsT v) fun _ =>
        agrees_bind ih fun _ => agrees_pure rfl
    · exact agrees_bind ih fun _ => agrees_pure rfl

theorem agrees_cleanObjectT_of {data : TObj} {data' : Obj} (h : eraseObj data = data') :
    Agrees eraseObj (cleanObjectT data) (cleanObject data') :=
  h ▸ agrees_cleanObjectT data

theorem agrees_traverseT {f : JValue → Run TValue} {g : JValue → Except Err JValue}
    (h : ∀ x, Agrees TValue.erase (f x) (g x)) :
    ∀ xs, Agrees eraseList (traverseT f xs) (traverse g xs) := by
  intro xs
  induction xs with
  | nil => exact agrees_pure rfl
  | cons x rest ih =>
    unfold traverseT traverse
    exact agrees_bind (h x) fun _ => agrees_bind ih fun _ => agrees_pure rfl

theorem agrees_mapArrayT {f : JValue → Run TValue} {g : JValue → Except Err JValue}
    (h : ∀ x, Agrees TValue.erase (f x) (g x)) (v : JValue) :
    Agrees TValue.erase (mapArrayT f v) (mapArray g v) := by
  cases v with
  | arr xs =>
    simp only [mapArrayT, mapArray]
    exact agrees_bind (agrees_traverseT h _) fun _ => agrees_pure rfl
  | undefined => exact agrees_fail _
  | null => exact agrees_fail _
  | bool _ => exact agrees_fail _
  | num _ => exact agrees_fail _
  | str _ => exact agrees_fail _
  | obj _ => exact agrees_fail _

theorem agrees_lift_old (x : Except Err JValue) :
    Agrees TValue.erase (Run.lift x >>= fun v => pure (TValue.old v)) x := by
  intro j
  cases x <;> rfl

/-! ### Builders and projectors compute what the converter computes -/

theorem agrees_standardIdsT (inst : Obj) (slot : String) :
    Agrees TValue.erase (standardIdsT inst slot) (standardIds inst slot) := by
  unfold standardIdsT standardIds
  refine agrees_mapArrayT (fun _ => ?_) _
  exact agrees_lift_old _

theorem agrees_labelValuesT (S : Schema) (inst : Obj) :
    Agrees TValue.erase (labelValuesT S inst) (labelValues S inst) := by
  unfold labelValuesT labelValues
  refine agrees_mapArrayT (fun _ => ?_) _
  exact agrees_lift_old _

theorem agrees_buildOCTIExtensionsT (S : Schema) (inst : Obj) :
    Agrees eraseObj (buildOCTIExtensionsT S inst) (buildOCTIExtensions S inst) := by
  unfold buildOCTIExtensionsT buildOCTIExtensions
  refine agrees_bind (agrees_mapArrayT (fun _ => ?_) _) (fun _ => ?_)
  · repeat refine agrees_bind (agrees_lift _) (fun _ => ?_)
    exact agrees_pure rfl
  · refine agrees_bind (agrees_lift _) (fun _ => ?_)
    refine agrees_bind (agrees_lift _) (fun _ => ?_)
    exact agrees_cleanObjectT_of (by (simp only [eraseObj_assignT, eraseObj_mkObjT, eraseObj_spreadT, erase_getPropT, eraseObj_extensionsOfT, erase_nullishT_obj, erase_nullishT_arr, erase_singletonIfTruthyT, erase_freshArray, eraseObj, eraseList, TValue.erase]); rfl)

theorem agrees_buildMITREExtensionsT (inst : Obj) :
    Agrees eraseObj (buildMITREExtensionsT inst) (buildMITREExtensions inst) := by
  unfold buildMITREExtensionsT buildMITREExtensions
  exact agrees_cleanObjectT_of (by simp only [eraseObj_assignT, eraseObj_mkObjT, eraseObj_spreadT, erase_getPropT, eraseObj_extensionsOfT, erase_nullishT_obj, erase_nullishT_arr, erase_singletonIfTruthyT, erase_freshArray, eraseObj, eraseList, TValue.erase])

theorem agrees_buildStixObjectT (S : Schema) (inst : Obj) :
    Agrees eraseObj (buildStixObjectT S inst) (buildStixObject S inst) := by
  unfold buildStixObjectT buildStixObject
  refine agrees_bind (agrees_lift _) (fun type => ?_)
  refine agrees_bind (agrees_buildOCTIExtensionsT S inst) (fun octi => ?_)
  exact agrees_pure (by (simp only [eraseObj_assignT, eraseObj_mkObjT, eraseObj_spreadT, erase_getPropT, eraseObj_extensionsOfT, erase_nullishT_obj, erase_nullishT_arr, erase_singletonIfTruthyT, erase_freshArray, eraseObj, eraseList, TValue.erase]); rfl)

theorem agrees_buildKillChainPhasesT (S : Schema) (inst : Obj) :
    Agrees TValue.erase (buildKillChainPhasesT S inst) (buildKillChainPhases S inst) := by
  unfold buildKillChainPhasesT buildKillChainPhases
  refine agrees_mapArrayT (fun _ => ?_) _
  repeat refine agrees_bind (agrees_lift _) (fun _ => ?_)
  exact agrees_bind (agrees_cleanObjectT_of (by (simp only [eraseObj_assignT, eraseObj_mkObjT, eraseObj_spreadT, erase_getPropT, eraseObj_extensionsOfT, erase_nullishT_obj, erase_nullishT_arr, erase_singletonIfTruthyT, erase_freshArray, eraseObj, eraseList, TValue.erase]); rfl)) fun _ => agrees_pure rfl

theorem agrees_buildExternalReferencesT (S : Schema) (inst : Obj) :
    Agrees TValue.erase (buildExternalReferencesT S inst) (buildExternalReferences S inst) := by
  unfold buildExternalReferencesT buildExternalReferences
  refine agrees_mapArrayT (fun _ => ?_) _
  repeat refine agrees_bind (agrees_lift _) (fun _ => ?_)
  exact agrees_bind (agrees_cleanObjectT_of (by (simp only [eraseObj_assignT, eraseObj_mkObjT, eraseObj_spreadT, erase_getPropT, eraseObj_extensionsOfT, erase_nullishT_obj, erase_nullishT_arr, erase_singletonIfTruthyT, erase_freshArray, eraseObj, eraseList, TValue.erase]); rfl)) fun _ => agrees_pure rfl

theorem agrees_buildWindowsRegistryValueTypeT (S : Schema) (inst : Obj) :
    Agrees TValue.erase (buildWindowsRegistryValueTypeT S inst) (buildWindowsRegistryValueType S inst) := by
  unfold buildWindowsRegistryValueTypeT buildWindowsRegistryValueType
  refine agrees_mapArrayT (fun _ => ?_) _
  repeat refine agrees_bind (agrees_lift _) (fun _ => ?_)
  exact agrees_bind (agrees_cleanObjectT_of (by (simp only [eraseObj_assignT, eraseObj_mkObjT, eraseObj_spreadT, erase_getPropT, eraseObj_extensionsOfT, erase_nullishT_obj, erase_nullishT_arr, erase_singletonIfTruthyT, erase_freshArray, eraseObj, eraseList, TValue.erase]); rfl)) fun _ => agrees_pure rfl

theorem agrees_buildEmailBodyMultipartT (S : Schema) (inst : Obj) :
    Agrees TValue.erase (buildEmailBodyMultipartT S inst) (buildEmailBodyMultipart S inst) := by
  unfold buildEmailBodyMultipartT buildEmailBodyMultipart
  refine agrees_mapArrayT (fun _ => ?_) _
  repeat refine agrees_bind (agrees_lift _) (fun _ => ?_)
  exact agrees_bind (agrees_cleanObjectT_of (by (simp only [eraseObj_assignT, eraseObj_mkObjT, eraseObj_spreadT, erase_getPropT, eraseObj_extensionsOfT, erase_nullishT_obj, erase_nullishT_arr, erase_singletonIfTruthyT, erase_freshArray, eraseObj, eraseList, TValue.erase]); rfl)) fun _ => agrees_pure rfl

theorem agrees_buildStixDomainT (S : Schema) (inst : Obj) :
    Agrees eraseObj (buildStixDomainT S inst) (buildStixDomain S inst) := by
  unfold buildStixDomainT buildStixDomain
  refine agrees_bind (agrees_buildStixObjectT S inst) (fun base => ?_)
  refine agrees_bind (agrees_labelValuesT S inst) (fun labels => ?_)
  refine agrees_bind (agrees_standardIdsT inst S.INPUT_MARKINGS) (fun object_marking_refs => ?_)
  refine agrees_bind (agrees_buildExternalReferencesT S inst) (fun external_references => ?_)
  exact agrees_pure (by simp only [eraseObj_assignT, eraseObj_mkObjT, eraseObj_spreadT, erase_getPropT, eraseObj_extensionsOfT, erase_nullishT_obj, erase_nullishT_arr, erase_singletonIfTruthyT, erase_freshArray, eraseObj, eraseList, TValue.erase])

theorem agrees_buildStixRelationshipT (S : Schema) (inst : Obj) :
    Agrees eraseObj (buildStixRelationshipT S inst) (buildStixRelationship S inst) := by
  exact agrees_buildStixDomainT S inst

theorem agrees_buildStixMarkingsT (S : Schema) (inst : Obj) :
    Agrees eraseObj (buildStixMarkingsT S inst) (buildStixMarkings S inst) := by
  unfold buildStixMarkingsT buildStixMarkings
  refine agrees_bind (agrees_buildStixObjectT S inst) (fun base => ?_)
  refine agrees_bind (agrees_buildExternalReferencesT S inst) (fun external_references => ?_)
  refine agrees_bind (agrees_standardIdsT inst S.INPUT_MARKINGS) (fun object_marking_refs => ?_)
  exact agrees_pure (by simp only [eraseObj_assignT, eraseObj_mkObjT, eraseObj_spreadT, erase_getPropT, eraseObj_extensionsOfT, erase_nullishT_obj, erase_nullishT_arr, erase_singletonIfTruthyT, erase_freshArray, eraseObj, eraseList, TValue.erase])

theorem agrees_buildStixCyberObservableT (S : Schema) (inst : Obj) :
    Agrees eraseObj (buildStixCyberObservableT S inst) (buildStixCyberObservable S inst) := by
  unfold buildStixCyberObservableT buildStixCyberObservable
  refine agrees_bind (agrees_buildStixObjectT S inst) (fun stixObject => ?_)
  refine agrees_bind (agrees_standardIdsT inst S.INPUT_MARKINGS) (fun object_marking_refs => ?_)
  refine agrees_bind (agrees_labelValuesT S inst) (fun labels => ?_)
  refine agrees_bind (agrees_standardIdsT inst S.INPUT_LINKED) (fun linked_to_refs => ?_)
  refine agrees_bind (agrees_buildExternalReferencesT S inst) (fun external_references => ?_)
  refine agrees_bind (agrees_cleanObjectT_of (by simp only [eraseObj_assignT, eraseObj_mkObjT, eraseObj_spreadT, erase_getPropT, eraseObj_extensionsOfT, erase_nullishT_obj, erase_nullishT_arr, erase_singletonIfTruthyT, erase_freshArray, eraseObj, eraseList, TValue.erase])) (fun sco => ?_)
  exact agrees_pure (by simp only [eraseObj_assignT, eraseObj_mkObjT, eraseObj_spreadT, erase_getPropT, eraseObj_extensionsOfT, erase_nullishT_obj, erase_nullishT_arr, erase_singletonIfTruthyT, erase_freshArray, eraseObj, eraseList, TValue.erase])

theorem agrees_convertIdentityToStixT (S : Schema) (inst : Obj) (type : String) :
    Agrees eraseObj (convertIdentityToStixT S inst type) (convertIdentityToStix S inst type) := by
  unfold convertIdentityToStixT convertIdentityToStix
  dsimp only
  refine agrees_ite (fun _ => agrees_fail_bind _ _ _)
    (fun _ => agrees_bind (agrees_lift (pure PUnit.unit)) (fun _ => ?_))
  refine agrees_bind (agrees_buildStixDomainT S inst) (fun identity => ?_)
  refine agrees_bind (agrees_cleanObjectT_of (by simp only [eraseObj_assignT, eraseObj_mkObjT, eraseObj_spreadT, erase_getPropT, eraseObj_extensionsOfT, erase_nullishT_obj, erase_nullishT_arr, erase_singletonIfTruthyT, erase_freshArray, eraseObj, eraseList, TValue.erase])) (fun octi => ?_)
  exact agrees_pure (by (simp only [eraseObj_assignT, eraseObj_mkObjT, eraseObj_spreadT, erase_getPropT, eraseObj_extensionsOfT, erase_nullishT_obj, erase_nullishT_arr, erase_singletonIfTruthyT, erase_freshArray, eraseObj, eraseList, TValue.erase]); rfl)

theorem agrees_convertLocationToStixT (S : Schema) (inst : Obj) (type : String) :
    Agrees eraseObj (convertLocationToStixT S inst type) (convertLocationToStix S inst type) := by
  unfold convertLocationToStixT convertLocationToStix
  dsimp only
  refine agrees_ite (fun _ => agrees_fail_bind _ _ _)
    (fun _ => agrees_bind (agrees_lift (pure PUnit.unit)) (fun _ => ?_))
  refine agrees_bind (agrees_buildStixDomainT S inst) (fun domain => ?_)
  exact agrees_pure (by simp only [eraseObj_assignT, eraseObj_mkObjT, eraseObj_spreadT, erase_getPropT, eraseObj_extensionsOfT, erase_nullishT_obj, erase_nullishT_arr, erase_singletonIfTruthyT, erase_freshArray, eraseObj, eraseList, TValue.erase])

theorem agrees_convertIncidentToStixT (S : Schema) (inst : Obj) (type : String) :
    Agrees eraseObj (convertIncidentToStixT S inst type) (convertIncidentToStix S inst type) := by
  unfold convertIncidentToStixT convertIncidentToStix
  refine agrees_bind (agrees_lift _) (fun _ => ?_)
  refine agrees_bind (agrees_buildStixDomainT S inst) (fun incident => ?_)
  exact agrees_pure (by (simp only [eraseObj_assignT, eraseObj_mkObjT, eraseObj_spreadT, erase_getPropT, eraseObj_extensionsOfT, erase_nullishT_obj, erase_nullishT_arr, erase_singletonIfTruthyT, erase_freshArray, eraseObj, eraseList, TValue.erase]); rfl)

theorem agrees_convertCampaignToStixT (S : Schema) (inst : Obj) (type : String) :
    Agrees eraseObj (convertCampaignToStixT S inst type) (convertCampaignToStix S inst type) := by
  unfold convertCampaignToStixT convertCampaignToStix
  refine agrees_bind (agrees_lift _) (fun _ => ?_)
  refine agrees_bind (agrees_buildStixDomainT S inst) (fun domain => ?_)
  exact agrees_pure (by simp only [eraseObj_assignT, eraseObj_mkObjT, eraseObj_spreadT, erase_getPropT, eraseObj_extensionsOfT, erase_nullishT_obj, erase_nullishT_arr, erase_singletonIfTruthyT, erase_freshArray, eraseObj, eraseList, TValue.erase])

theorem agrees_convertToolToStixT (S : Schema) (inst : Obj) (type : String) :
    Agrees eraseObj (convertToolToStixT S inst type) (convertToolToStix S inst type) := by
  unfold convertToolToStixT convertToolToStix
  refine agrees_bind (agrees_lift _) (fun _ => ?_)
  refine agrees_bind (agrees_buildStixDomainT S inst) (fun domain => ?_)
  refine agrees_bind (agrees_buildKillChainPhasesT S inst) (fun kill_chain_phases => ?_)
  exact agrees_pure (by simp only [eraseObj_assignT, eraseObj_mkObjT, eraseObj_spreadT, erase_getPropT, eraseObj_extensionsOfT, erase_nullishT_obj, erase_nullishT_arr, erase_singletonIfTruthyT, erase_freshArray, eraseObj, eraseList, TValue.erase])

theorem agrees_convertVulnerabilityToStixT (S : Schema) (inst : Obj) (type : String) :
    Agrees eraseObj (convertVulnerabilityToStixT S inst type) (convertVulnerabilityToStix S inst type) := by
  unfold convertVulnerabilityToStixT convertVulnerabilityToStix
  refine agrees_bind (agrees_lift _) (fun _ => ?_)
  refine agrees_bind (agrees_buildStixDomainT S inst) (fun vulnerability => ?_)
  refine agrees_bind (agrees_cleanObjectT_of (by simp only [eraseObj_assignT, eraseObj_mkObjT, eraseObj_spreadT, erase_getPropT, eraseObj_extensionsOfT, erase_nullishT_obj, erase_nullishT_arr, erase_singletonIfTruthyT, erase_freshArray, eraseObj, eraseList, TValue.erase])) (fun octi => ?_)
  exact agrees_pure (by (simp only [eraseObj_assignT, eraseObj_mkObjT, eraseObj_spreadT, erase_getPropT, eraseObj_extensionsOfT, erase_nullishT_obj, erase_nullishT_arr, erase_singletonIfTruthyT, erase_freshArray, eraseObj, eraseList, TValue.erase]); rfl)

theorem agrees_convertThreatActorToStixT (S : Schema) (inst : Obj) (type : String) :
    Agrees eraseObj (convertThreatActorToStixT S inst type) (convertThreatActorToStix S inst type) := by
  unfold convertThreatActorToStixT convertThreatActorToStix
  refine agrees_bind (agrees_lift _) (fun _ => ?_)
  refine agrees_bind (agrees_buildStixDomainT S inst) (fun domain => ?_)
  exact agrees_pure (by simp only [eraseObj_assignT, eraseObj_mkObjT, eraseObj_spreadT, erase_getPropT, eraseObj_extensionsOfT, erase_nullishT_obj, erase_nullishT_arr, erase_singletonIfTruthyT, erase_freshArray, eraseObj, eraseList, TValue.erase])

theorem agrees_convertInfrastructureToStixT (S : Schema) (inst : Obj) (type : String) :
    Agrees eraseObj (convertInfrastructureToStixT S inst type) (convertInfrastructureToStix S inst type) := by
  unfold convertInfrastructureToStixT convertInfrastructureToStix
  refine agrees_bind (agrees_lift _) (fun _ => ?_)
  refine agrees_bind (agrees_buildStixDomainT S inst) (fun domain => ?_)
  refine agrees_bind (agrees_buildKillChainPhasesT S inst) (fun kill_chain_phases => ?_)
  exact agrees_pure (by simp only [eraseObj_assignT, eraseObj_mkObjT, eraseObj_spreadT, erase_getPropT, eraseObj_extensionsOfT, erase_nullishT_obj, erase_nullishT_arr, erase_singletonIfTruthyT, erase_freshArray, eraseObj, eraseList, TValue.erase])

theorem agrees_convertIntrusionSetToStixT (S : Schema) (inst : Obj) (type : String) :
    Agrees eraseObj (convertIntrusionSetToStixT S inst type) (convertIntrusionSetToStix S inst type) := by
  unfold convertIntrusionSetToStixT convertIntrusionSetToStix
  refine agrees_bind (agrees_lift _) (fun _ => ?_)
  refine agrees_bind (agrees_buildStixDomainT S inst) (fun domain => ?_)
  exact agrees_pure (by simp only [eraseObj_assignT, eraseObj_mkObjT, eraseObj_spreadT, erase_getPropT, eraseObj_extensionsOfT, erase_nullishT_obj, erase_nullishT_arr, erase_singletonIfTruthyT, erase_freshArray, eraseObj, eraseList, TValue.erase])

theorem agrees_convertIndicatorToStixT (S : Schema) (inst : Obj) (type : String) :
    Agrees eraseObj (convertIndicatorToStixT S inst type) (convertIndicatorToStix S inst type) := by
  unfold convertIndicatorToStixT convertIndicatorToStix
  refine agrees_bind (agrees_lift _) (fun _ => ?_)
  refine agrees_bind (agrees_buildStixDomainT S inst) (fun indicator => ?_)
  refine agrees_bind (agrees_buildKillChainPhasesT S inst) (fun kill_chain_phases => ?_)
  refine agrees_bind (agrees_cleanObjectT_of (by simp only [eraseObj_assignT, eraseObj_mkObjT, eraseObj_spreadT, erase_getPropT, eraseObj_extensionsOfT, erase_nullishT_obj, erase_nullishT_arr, erase_singletonIfTruthyT, erase_freshArray, eraseObj, eraseList, TValue.erase])) (fun octi => ?_)
  refine agrees_bind (agrees_buildMITREExtensionsT inst) (fun mitre => ?_)
  exact agrees_pure (by simp only [eraseObj_assignT, eraseObj_mkObjT, eraseObj_spreadT, erase_getPropT, eraseObj_extensionsOfT, erase_nullishT_obj, erase_nullishT_arr, erase_singletonIfTruthyT, erase_freshArray, eraseObj, eraseList, TValue.erase])

theorem agrees_convertCourseOfActionToStixT (S : Schema) (inst : Obj) (type : String) :
    Agrees eraseObj (convertCourseOfActionToStixT S inst type) (convertCourseOfActionToStix S inst type) := by
  unfold convertCourseOfActionToStixT convertCourseOfActionToStix
  refine agrees_bind (agrees_lift _) (fun _ => ?_)
  refine agrees_bind (agrees_buildStixDomainT S inst) (fun domain => ?_)
  refine agrees_bind (agrees_buildOCTIExtensionsT S inst) (fun octi => ?_)
  refine agrees_bind (agrees_buildMITREExtensionsT inst) (fun mitre => ?_)
  exact agrees_pure (by simp only [eraseObj_assignT, eraseObj_mkObjT, eraseObj_spreadT, erase_getPropT, eraseObj_extensionsOfT, erase_nullishT_obj, erase_nullishT_arr, erase_singletonIfTruthyT, erase_freshArray, eraseObj, eraseList, TValue.erase])

theorem agrees_convertMalwareToStixT (S : Schema) (inst : Obj) (type : String) :
    Agrees eraseObj (convertMalwareToStixT S inst type) (convertMalwareToStix S inst type) := by
  unfold convertMalwareToStixT convertMalwareToStix
  refine agrees_bind (agrees_lift _) (fun _ => ?_)
  refine agrees_bind (agrees_buildStixDomainT S inst) (fun domain => ?_)
  refine agrees_bind (agrees_buildKillChainPhasesT S inst) (fun kill_chain_phases => ?_)
  refine agrees_bind (agrees_standardIdsT inst S.INPUT_OPERATING_SYSTEM) (fun operating_system_refs => ?_)
  refine agrees_bind (agrees_standardIdsT inst S.INPUT_SAMPLE) (fun sample_refs => ?_)
  exact agrees_pure (by simp only [eraseObj_assignT, eraseObj_mkObjT, eraseObj_spreadT, erase_getPropT, eraseObj_extensionsOfT, erase_nullishT_obj, erase_nullishT_arr, erase_singletonIfTruthyT, erase_freshArray, eraseObj, eraseList, TValue.erase])

theorem agrees_convertAttackPatternToStixT (S : Schema) (inst : Obj) (type : String) :
    Agrees eraseObj (convertAttackPatternToStixT S inst type) (convertAttackPatternToStix S inst type) := by
  unfold convertAttackPatternToStixT convertAttackPatternToStix
  refine agrees_bind (agrees_lift _) (fun _ => ?_)
  refine agrees_bind (agrees_buildStixDomainT S inst) (fun stixDomainObject => ?_)
  refine agrees_bind (agrees_buildKillChainPhasesT S inst) (fun kill_chain_phases => ?_)
  refine agrees_bind (agrees_buildOCTIExtensionsT S inst) (fun octi => ?_)
  refine agrees_bind (agrees_buildMITREExtensionsT inst) (fun mitre => ?_)
  exact agrees_pure (by simp only [eraseObj_assignT, eraseObj_mkObjT, eraseObj_spreadT, erase_getPropT, eraseObj_extensionsOfT, erase_nullishT_obj, erase_nullishT_arr, erase_singletonIfTruthyT, erase_freshArray, eraseObj, eraseList, TValue.erase])

theorem agrees_convertReportToStixT (S : Schema) (inst : Obj) (type : String) :
    Agrees eraseObj (convertReportToStixT S inst type) (convertReportToStix S inst type) := by
  unfold convertReportToStixT convertReportToStix
  refine agrees_bind (agrees_lift _) (fun _ => ?_)
  refine agrees_bind (agrees_buildStixDomainT S inst) (fun domain => ?_)
  refine agrees_bind (agrees_standardIdsT inst S.INPUT_OBJECTS) (fun object_refs => ?_)
  exact agrees_pure (by simp only [eraseObj_assignT, eraseObj_mkObjT, eraseObj_spreadT, erase_getPropT, eraseObj_extensionsOfT, erase_nullishT_obj, erase_nullishT_arr, erase_singletonIfTruthyT, erase_freshArray, eraseObj, eraseList, TValue.erase])

theorem agrees_convertNoteToStixT (S : Schema) (inst : Obj) (type : String) :
    Agrees eraseObj (convertNoteToStixT S inst type) (convertNoteToStix S inst type) := by
  unfold convertNoteToStixT convertNoteToStix
  refine agrees_bind (agrees_lift _) (fun _ => ?_)
  refine agrees_bind (agrees_buildStixDomainT S inst) (fun domain => ?_)
  refine agrees_bind (agrees_standardIdsT inst S.INPUT_OBJECTS) (fun object_refs => ?_)
  exact agrees_pure (by simp only [eraseObj_assignT, eraseObj_mkObjT, eraseObj_spreadT, erase_getPropT, eraseObj_extensionsOfT, erase_nullishT_obj, erase_nullishT_arr, erase_singletonIfTruthyT, erase_freshArray, eraseObj, eraseList, TValue.erase])

theorem agrees_convertObservedDateToStixT (S : Schema) (inst : Obj) (type : String) :
    Agrees eraseObj (convertObservedDateToStixT S inst type) (convertObservedDateToStix S inst type) := by
  unfold convertObservedDateToStixT convertObservedDateToStix
  refine agrees_bind (agrees_lift _) (fun _ => ?_)
  refine agrees_bind (agrees_buildStixDomainT S inst) (fun domain => ?_)
  refine agrees_bind (agrees_standardIdsT inst "objects") (fun object_refs => ?_)
  exact agrees_pure (by simp only [eraseObj_assignT, eraseObj_mkObjT, eraseObj_spreadT, erase_getPropT, eraseObj_extensionsOfT, erase_nullishT_obj, erase_nullishT_arr, erase_singletonIfTruthyT, erase_freshArray, eraseObj, eraseList, TValue.erase])

theorem agrees_convertOpinionToStixT (S : Schema) (inst : Obj) (type : String) :
    Agrees eraseObj (convertOpinionToStixT S inst type) (convertOpinionToStix S inst type) := by
  unfold convertOpinionToStixT convertOpinionToStix
  refine agrees_bind (agrees_lift _) (fun _ => ?_)
  refine agrees_bind (agrees_buildStixDomainT S inst) (fun domain => ?_)
  refine agrees_bind (agrees_standardIdsT inst "objects") (fun object_refs => ?_)
  exact agrees_pure (by simp only [eraseObj_assignT, eraseObj_mkObjT, eraseObj_spreadT, erase_getPropT, eraseObj_extensionsOfT, erase_nullishT_obj, erase_nullishT_arr, erase_singletonIfTruthyT, erase_freshArray, eraseObj, eraseList, TValue.erase])

theorem agrees_convertArtifactToStixT (S : Schema) (inst : Obj) (type : String) :
    Agrees eraseObj (convertArtifactToStixT S inst type) (convertArtifactToStix S inst type) := by
  unfold convertArtifactToStixT convertArtifactToStix
  refine agrees_bind (agrees_lift _) (fun _ => ?_)
  refine agrees_bind (agrees_buildStixCyberObservableT S inst) (fun stixCyberObject => ?_)
  refine agrees_bind (agrees_cleanObjectT_of (by simp only [eraseObj_assignT, eraseObj_mkObjT, eraseObj_spreadT, erase_getPropT, eraseObj_extensionsOfT, erase_nullishT_obj, erase_nullishT_arr, erase_singletonIfTruthyT, erase_freshArray, eraseObj, eraseList, TValue.erase])) (fun sco => ?_)
  exact agrees_pure (by simp only [eraseObj_assignT, eraseObj_mkObjT, eraseObj_spreadT, erase_getPropT, eraseObj_extensionsOfT, erase_nullishT_obj, erase_nullishT_arr, erase_singletonIfTruthyT, erase_freshArray, eraseObj, eraseList, TValue.erase])

theorem agrees_convertAutonomousSystemToStixT (S : Schema) (inst : Obj) (type : String) :
    Agrees eraseObj (convertAutonomousSystemToStixT S inst type) (convertAutonomousSystemToStix S inst type) := by
  unfold convertAutonomousSystemToStixT convertAutonomousSystemToStix
  refine agrees_bind (agrees_lift _) (fun _ => ?_)
  refine agrees_bind (agrees_buildStixCyberObservableT S inst) (fun cyber => ?_)
  exact agrees_pure (by simp only [eraseObj_assignT, eraseObj_mkObjT, eraseObj_spreadT, erase_getPropT, eraseObj_extensionsOfT, erase_nullishT_obj, erase_nullishT_arr, erase_singletonIfTruthyT, erase_freshArray, eraseObj, eraseList, TValue.erase])

theorem agrees_convertCryptocurrencyWalletToStixT (S : Schema) (inst : Obj) (type : String) :
    Agrees eraseObj (convertCryptocurrencyWalletToStixT S inst type) (convertCryptocurrencyWalletToStix S inst type) := by
  unfold convertCryptocurrencyWalletToStixT convertCryptocurrencyWalletToStix
  refine agrees_bind (agrees_lift _) (fun _ => ?_)
  refine agrees_bind (agrees_buildStixCyberObservableT S inst) (fun stixCyberObject => ?_)
  refine agrees_bind (agrees_labelValuesT S inst) (fun labels => ?_)
  refine agrees_bind (agrees_buildExternalReferencesT S inst) (fun external_references => ?_)
  exact agrees_pure (by simp only [eraseObj_assignT, eraseObj_mkObjT, eraseObj_spreadT, erase_getPropT, eraseObj_extensionsOfT, erase_nullishT_obj, erase_nullishT_arr, erase_singletonIfTruthyT, erase_freshArray, eraseObj, eraseList, TValue.erase])

theorem agrees_convertCryptographicKeyToStixT (S : Schema) (inst : Obj) (type : String) :
    Agrees eraseObj (convertCryptographicKeyToStixT S inst type) (convertCryptographicKeyToStix S inst type) := by
  unfold convertCryptographicKeyToStixT convertCryptographicKeyToStix
  refine agrees_bind (agrees_lift _) (fun _ => ?_)
  refine agrees_bind (agrees_buildStixCyberObservableT S inst) (fun stixCyberObject => ?_)
  refine agrees_bind (agrees_labelValuesT S inst) (fun labels => ?_)
  refine agrees_bind (agrees_buildExternalReferencesT S inst) (fun external_references => ?_)
  exact agrees_pure (by simp only [eraseObj_assignT, eraseObj_mkObjT, eraseObj_spreadT, erase_getPropT, eraseObj_extensionsOfT, erase_nullishT_obj, erase_nullishT_arr, erase_singletonIfTruthyT, erase_freshArray, eraseObj, eraseList, TValue.erase])

theorem agrees_convertDirectoryToStixT (S : Schema) (inst : Obj) (type : String) :
    Agrees eraseObj (convertDirectoryToStixT S inst type) (convertDirectoryToStix S inst type) := by
  unfold convertDirectoryToStixT convertDirectoryToStix
  refine agrees_bind (agrees_lift _) (fun _ => ?_)
  refine agrees_bind (agrees_buildStixCyberObservableT S inst) (fun cyber => ?_)
  refine agrees_bind (agrees_standardIdsT inst S.INPUT_CONTAINS) (fun contains_refs => ?_)
  exact agrees_pure (by simp only [eraseObj_assignT, eraseObj_mkObjT, eraseObj_spreadT, erase_getPropT, eraseObj_extensionsOfT, erase_nullishT_obj, erase_nullishT_arr, erase_singletonIfTruthyT, erase_freshArray, eraseObj, eraseList, TValue.erase])

theorem agrees_convertDomainNameToStixT (S : Schema) (inst : Obj) (type : String) :
    Agrees eraseObj (convertDomainNameToStixT S inst type) (convertDomainNameToStix S inst type) := by
  unfold convertDomainNameToStixT convertDomainNameToStix
  refine agrees_bind (agrees_lift _) (fun _ => ?_)
  refine agrees_bind (agrees_buildStixCyberObservableT S inst) (fun cyber => ?_)
  refine agrees_bind (agrees_standardIdsT inst S.INPUT_RESOLVES_TO) (fun resolves_to_refs => ?_)
  exact agrees_pure (by simp only [eraseObj_assignT, eraseObj_mkObjT, eraseObj_spreadT, erase_getPropT, eraseObj_extensionsOfT, erase_nullishT_obj, erase_nullishT_arr, erase_singletonIfTruthyT, erase_freshArray, eraseObj, eraseList, TValue.erase])

theorem agrees_convertEmailAddressToStixT (S : Schema) (inst : Obj) (type : String) :
    Agrees eraseObj (convertEmailAddressToStixT S inst type) (convertEmailAddressToStix S inst type) := by
  unfold convertEmailAddressToStixT convertEmailAddressToStix
  refine agrees_bind (agrees_lift _) (fun _ => ?_)
  refine agrees_bind (agrees_buildStixCyberObservableT S inst) (fun cyber => ?_)
  exact agrees_pure (by simp only [eraseObj_assignT, eraseObj_mkObjT, eraseObj_spreadT, erase_getPropT, eraseObj_extensionsOfT, erase_nullishT_obj, erase_nullishT_arr, erase_singletonIfTruthyT, erase_freshArray, eraseObj, eraseList, TValue.erase])

theorem agrees_convertEmailMessageToStixT (S : Schema) (inst : Obj) (type : String) :
    Agrees eraseObj (convertEmailMessageToStixT S inst type) (convertEmailMessageToStix S inst type) := by
  unfold convertEmailMessageToStixT convertEmailMessageToStix
  refine agrees_bind (agrees_lift _) (fun _ => ?_)
  refine agrees_bind (agrees_buildStixCyberObservableT S inst) (fun cyber => ?_)
  refine agrees_bind (agrees_standardIdsT inst S.INPUT_TO) (fun to_refs => ?_)
  refine agrees_bind (agrees_standardIdsT inst S.INPUT_CC) (fun cc_refs => ?_)
  refine agrees_bind (agrees_standardIdsT inst S.INPUT_BCC) (fun bcc_refs => ?_)
  refine agrees_bind (agrees_buildEmailBodyMultipartT S inst) (fun body_multipart => ?_)
  exact agrees_pure (by simp only [eraseObj_assignT, eraseObj_mkObjT, eraseObj_spreadT, erase_getPropT, eraseObj_extensionsOfT, erase_nullishT_obj, erase_nullishT_arr, erase_singletonIfTruthyT, erase_freshArray, eraseObj, eraseList, TValue.erase])

theorem agrees_convertFileToStixT (S : Schema) (inst : Obj) (type : String) :
    Agrees eraseObj (convertFileToStixT S inst type) (convertFileToStix S inst type) := by
  unfold convertFileToStixT convertFileToStix
  refine agrees_bind (agrees_lift _) (fun _ => ?_)
  refine agrees_bind (agrees_buildStixCyberObservableT S inst) (fun stixCyberObject => ?_)
  refine agrees_bind (agrees_standardIdsT inst S.INPUT_CONTAINS) (fun contains_refs => ?_)
  refine agrees_bind (agrees_cleanObjectT_of (by simp only [eraseObj_assignT, eraseObj_mkObjT, eraseObj_spreadT, erase_getPropT, eraseObj_extensionsOfT, erase_nullishT_obj, erase_nullishT_arr, erase_singletonIfTruthyT, erase_freshArray, eraseObj, eraseList, TValue.erase])) (fun sco => ?_)
  exact agrees_pure (by simp only [eraseObj_assignT, eraseObj_mkObjT, eraseObj_spreadT, erase_getPropT, eraseObj_extensionsOfT, erase_nullishT_obj, erase_nullishT_arr, erase_singletonIfTruthyT, erase_freshArray, eraseObj, eraseList, TValue.erase])

theorem agrees_convertHostnameToStixT (S : Schema) (inst : Obj) (type : String) :
    Agrees eraseObj (convertHostnameToStixT S inst type) (convertHostnameToStix S inst type) := by
  unfold convertHostnameToStixT convertHostnameToStix
  refine agrees_bind (agrees_lift _) (fun _ => ?_)
  refine agrees_bind (agrees_buildStixCyberObservableT S inst) (fun stixCyberObject => ?_)
  refine agrees_bind (agrees_labelValuesT S inst) (fun labels => ?_)
  refine agrees_bind (agrees_buildExternalReferencesT S inst) (fun external_references => ?_)
  exact agrees_pure (by simp only [eraseObj_assignT, eraseObj_mkObjT, eraseObj_spreadT, erase_getPropT, eraseObj_extensionsOfT, erase_nullishT_obj, erase_nullishT_arr, erase_singletonIfTruthyT, erase_freshArray, eraseObj, eraseList, TValue.erase])

theorem agrees_convertIPv4AddressToStixT (S : Schema) (inst : Obj) (type : String) :
    Agrees eraseObj (convertIPv4AddressToStixT S inst type) (convertIPv4AddressToStix S inst type) := by
  unfold convertIPv4AddressToStixT convertIPv4AddressToStix
  refine agrees_bind (agrees_lift _) (fun _ => ?_)
  refine agrees_bind (agrees_buildStixCyberObservableT S inst) (fun cyber => ?_)
  refine agrees_bind (agrees_standardIdsT inst S.INPUT_RESOLVES_TO) (fun resolves_to_refs => ?_)
  refine agrees_bind (agrees_standardIdsT inst S.INPUT_BELONGS_TO) (fun belongs_to_refs => ?_)
  exact agrees_pure (by simp only [eraseObj_assignT, eraseObj_mkObjT, eraseObj_spreadT, erase_getPropT, eraseObj_extensionsOfT, erase_nullishT_obj, erase_nullishT_arr, erase_singletonIfTruthyT, erase_freshArray, eraseObj, eraseList, TValue.erase])

theorem agrees_convertIPv6AddressToStixT (S : Schema) (inst : Obj) (type : String) :
    Agrees eraseObj (convertIPv6AddressToStixT S inst type) (convertIPv6AddressToStix S inst type) := by
  unfold convertIPv6AddressToStixT convertIPv6AddressToStix
  refine agrees_bind (agrees_lift _) (fun _ => ?_)
  refine agrees_bind (agrees_buildStixCyberObservableT S inst) (fun cyber => ?_)
  refine agrees_bind (agrees_standardIdsT inst S.INPUT_RESOLVES_TO) (fun resolves_to_refs => ?_)
  refine agrees_bind (agrees_standardIdsT inst S.INPUT_BELONGS_TO) (fun belongs_to_refs => ?_)
  exact agrees_pure (by simp only [eraseObj_assignT, eraseObj_mkObjT, eraseObj_spreadT, erase_getPropT, eraseObj_extensionsOfT, erase_nullishT_obj, erase_nullishT_arr, erase_singletonIfTruthyT, erase_freshArray, eraseObj, eraseList, TValue.erase])

theorem agrees_convertMacAddressToStixT (S : Schema) (inst : Obj) (type : String) :
    Agrees eraseObj (convertMacAddressToStixT S inst type) (convertMacAddressToStix S inst type) := by
  unfold convertMacAddressToStixT convertMacAddressToStix
  refine agrees_bind (agrees_lift _) (fun _ => ?_)
  refine agrees_bind (agrees_buildStixCyberObservableT S inst) (fun cyber => ?_)
  exact agrees_pure (by simp only [eraseObj_assignT, eraseObj_mkObjT, eraseObj_spreadT, erase_getPropT, eraseObj_extensionsOfT, erase_nullishT_obj, erase_nullishT_arr, erase_singletonIfTruthyT, erase_freshArray, eraseObj, eraseList, TValue.erase])

theorem agrees_convertMutexToStixT (S : Schema) (inst : Obj) (type : String) :
    Agrees eraseObj (convertMutexToStixT S inst type) (convertMutexToStix S inst type) := by
  unfold convertMutexToStixT convertMutexToStix
  refine agrees_bind (agrees_lift _) (fun _ => ?_)
  refine agrees_bind (agrees_buildStixCyberObservableT S inst) (fun cyber => ?_)
  exact agrees_pure (by simp only [eraseObj_assignT, eraseObj_mkObjT, eraseObj_spreadT, erase_getPropT, eraseObj_extensionsOfT, erase_nullishT_obj, erase_nullishT_arr, erase_singletonIfTruthyT, erase_freshArray, eraseObj, eraseList, TValue.erase])

theorem agrees_convertNetworkTrafficToStixT (S : Schema) (inst : Obj) (type : String) :
    Agrees eraseObj (convertNetworkTrafficToStixT S inst type) (convertNetworkTrafficToStix S inst type) := by
  unfold convertNetworkTrafficToStixT convertNetworkTrafficToStix
  refine agrees_bind (agrees_lift _) (fun _ => ?_)
  refine agrees_bind (agrees_buildStixCyberObservableT S inst) (fun cyber => ?_)
  refine agrees_bind (agrees_standardIdsT inst S.INPUT_ENCAPSULATES) (fun encapsulates_refs => ?_)
  exact agrees_pure (by simp only [eraseObj_assignT, eraseObj_mkObjT, eraseObj_spreadT, erase_getPropT, eraseObj_extensionsOfT, erase_nullishT_obj, erase_nullishT_arr, erase_singletonIfTruthyT, erase_freshArray, eraseObj, eraseList, TValue.erase])

theorem agrees_convertProcessToStixT (S : Schema) (inst : Obj) (type : String) :
    Agrees eraseObj (convertProcessToStixT S inst type) (convertProcessToStix S inst type) := by
  unfold convertProcessToStixT convertProcessToStix
  refine agrees_bind (agrees_lift _) (fun _ => ?_)
  refine agrees_bind (agrees_buildStixCyberObservableT S inst) (fun cyber => ?_)
  refine agrees_bind (agrees_standardIdsT inst S.INPUT_OPENED_CONNECTION) (fun opened_connection_refs => ?_)
  refine agrees_bind (agrees_standardIdsT inst S.INPUT_CHILD) (fun child_refs => ?_)
  exact agrees_pure (by simp only [eraseObj_assignT, eraseObj_mkObjT, eraseObj_spreadT, erase_getPropT, eraseObj_extensionsOfT, erase_nullishT_obj, erase_nullishT_arr, erase_singletonIfTruthyT, erase_freshArray, eraseObj, eraseList, TValue.erase])

theorem agrees_convertSoftwareToStixT (S : Schema) (inst : Obj) (type : String) :
    Agrees eraseObj (convertSoftwareToStixT S inst type) (convertSoftwareToStix S inst type) := by
  unfold convertSoftwareToStixT convertSoftwareToStix
  refine agrees_bind (agrees_lift _) (fun _ => ?_)
  refine agrees_bind (agrees_buildStixCyberObservableT S inst) (fun cyber => ?_)
  exact agrees_pure (by simp only [eraseObj_assignT, eraseObj_mkObjT, eraseObj_spreadT, erase_getPropT, eraseObj_extensionsOfT, erase_nullishT_obj, erase_nullishT_arr, erase_singletonIfTruthyT, erase_freshArray, eraseObj, eraseList, TValue.erase])

theorem agrees_convertTextToStixT (S : Schema) (inst : Obj) (type : String) :
    Agrees eraseObj (convertTextToStixT S inst type) (convertTextToStix S inst type) := by
  unfold convertTextToStixT convertTextToStix
  refine agrees_bind (agrees_lift _) (fun _ => ?_)
  refine agrees_bind (agrees_buildStixCyberObservableT S inst) (fun stixCyberObject => ?_)
  refine agrees_bind (agrees_labelValuesT S inst) (fun labels => ?_)
  refine agrees_bind (agrees_buildExternalReferencesT S inst) (fun external_references => ?_)
  exact agrees_pure (by simp only [eraseObj_assignT, eraseObj_mkObjT, eraseObj_spreadT, erase_getPropT, eraseObj_extensionsOfT, erase_nullishT_obj, erase_nullishT_arr, erase_singletonIfTruthyT, erase_freshArray, eraseObj, eraseList, TValue.erase])

theorem agrees_convertURLToStixT (S : Schema) (inst : Obj) (type : String) :
    Agrees eraseObj (convertURLToStixT S inst type) (convertURLToStix S inst type) := by
  unfold convertURLToStixT convertURLToStix
  refine agrees_bind (agrees_lift _) (fun _ => ?_)
  refine agrees_bind (agrees_buildStixCyberObservableT S inst) (fun cyber => ?_)
  exact agrees_pure (by simp only [eraseObj_assignT, eraseObj_mkObjT, eraseObj_spreadT, erase_getPropT, eraseObj_extensionsOfT, erase_nullishT_obj, erase_nullishT_arr, erase_singletonIfTruthyT, erase_freshArray, eraseObj, eraseList, TValue.erase])

theorem agrees_convertUserAccountToStixT (S : Schema) (inst : Obj) (type : String) :
    Agrees eraseObj (convertUserAccountToStixT S inst type) (convertUserAccountToStix S inst type) := by
  unfold convertUserAccountToStixT convertUserAccountToStix
  refine agrees_bind (agrees_lift _) (fun _ => ?_)
  refine agrees_bind (agrees_buildStixCyberObservableT S inst) (fun cyber => ?_)
  exact agrees_pure (by simp only [eraseObj_assignT, eraseObj_mkObjT, eraseObj_spreadT, erase_getPropT, eraseObj_extensionsOfT, erase_nullishT_obj, erase_nullishT_arr, erase_singletonIfTruthyT, erase_freshArray, eraseObj, eraseList, TValue.erase])

theorem agrees_convertWindowsRegistryKeyToStixT (S : Schema) (inst : Obj) (type : String) :
    Agrees eraseObj (convertWindowsRegistryKeyToStixT S inst type) (convertWindowsRegistryKeyToStix S inst type) := by
  unfold convertWindowsRegistryKeyToStixT convertWindowsRegistryKeyToStix
  refine agrees_bind (agrees_lift _) (fun _ => ?_)
  refine agrees_bind (agrees_buildStixCyberObservableT S inst) (fun cyber => ?_)
  refine agrees_bind (agrees_buildWindowsRegistryValueTypeT S inst) (fun values => ?_)
  exact agrees_pure (by simp only [eraseObj_assignT, eraseObj_mkObjT, eraseObj_spreadT, erase_getPropT, eraseObj_extensionsOfT, erase_nullishT_obj, erase_nullishT_arr, erase_singletonIfTruthyT, erase_freshArray, eraseObj, eraseList, TValue.erase])

theorem agrees_convertX509CertificateToStixT (S : Schema) (inst : Obj) (type : String) :
    Agrees eraseObj (convertX509CertificateToStixT S inst type) (convertX509CertificateToStix S inst type) := by
  unfold convertX509CertificateToStixT convertX509CertificateToStix
  refine agrees_bind (agrees_lift _) (fun _ => ?_)
  refine agrees_bind (agrees_buildStixCyberObservableT S inst) (fun cyber => ?_)
  refine agrees_bind (agrees_cleanObjectT_of (by simp only [eraseObj_assignT, eraseObj_mkObjT, eraseObj_spreadT, erase_getPropT, eraseObj_extensionsOfT, erase_nullishT_obj, erase_nullishT_arr, erase_singletonIfTruthyT, erase_freshArray, eraseObj, eraseList, TValue.erase])) (fun x509_v3_extensions => ?_)
  exact agrees_pure (by simp only [eraseObj_assignT, eraseObj_mkObjT, eraseObj_spreadT, erase_getPropT, eraseObj_extensionsOfT, erase_nullishT_obj, erase_nullishT_arr, erase_singletonIfTruthyT, erase_freshArray, eraseObj, eraseList, TValue.erase])

theorem agrees_convertRelationToStixT (S : Schema) (inst : Obj) :
    Agrees eraseObj (convertRelationToStixT S inst) (convertRelationToStix S inst) := by
  unfold convertRelationToStixT convertRelationToStix
  refine agrees_bind (agrees_lift _) (fun _ => ?_)
  refine agrees_bind (agrees_buildStixRelationshipT S inst) (fun stixRelationship => ?_)
  refine agrees_bind (agrees_buildExternalReferencesT S inst) (fun external_references => ?_)
  refine agrees_bind (agrees_buildKillChainPhasesT S inst) (fun kill_chain_phases => ?_)
  refine agrees_bind (agrees_cleanObjectT_of (by simp only [eraseObj_assignT, eraseObj_mkObjT, eraseObj_spreadT, erase_getPropT, eraseObj_extensionsOfT, erase_nullishT_obj, erase_nullishT_arr, erase_singletonIfTruthyT, erase_freshArray, eraseObj, eraseList, TValue.erase])) (fun octi => ?_)
  exact agrees_pure (by (simp only [eraseObj_assignT, eraseObj_mkObjT, eraseObj_spreadT, erase_getPropT, eraseObj_extensionsOfT, erase_nullishT_obj, erase_nullishT_arr, erase_singletonIfTruthyT, erase_freshArray, eraseObj, eraseList, TValue.erase]); rfl)

theorem agrees_convertSightingToStixT (S : Schema) (inst : Obj) :
    Agrees eraseObj (convertSightingToStixT S inst) (convertSightingToStix S inst) := by
  unfold convertSightingToStixT convertSightingToStix
  refine agrees_bind (agrees_lift _) (fun _ => ?_)
  refine agrees_bind (agrees_buildStixRelationshipT S inst) (fun stixRelationship => ?_)
  refine agrees_bind (agrees_cleanObjectT_of (by simp only [eraseObj_assignT, eraseObj_mkObjT, eraseObj_spreadT, erase_getPropT, eraseObj_extensionsOfT, erase_nullishT_obj, erase_nullishT_arr, erase_singletonIfTruthyT, erase_freshArray, eraseObj, eraseList, TValue.erase])) (fun octi => ?_)
  exact agrees_pure (by (simp only [eraseObj_assignT, eraseObj_mkObjT, eraseObj_spreadT, erase_getPropT, eraseObj_extensionsOfT, erase_nullishT_obj, erase_nullishT_arr, erase_singletonIfTruthyT, erase_freshArray, eraseObj, eraseList, TValue.erase]); rfl)

theorem agrees_convertMarkingToStixT (S : Schema) (inst : Obj) :
    Agrees eraseObj (convertMarkingToStixT S inst) (convertMarkingToStix S inst) := by
  unfold convertMarkingToStixT convertMarkingToStix
  refine agrees_bind (agrees_buildStixMarkingsT S inst) (fun marking => ?_)
  refine agrees_bind (agrees_cleanObjectT_of (by simp only [eraseObj_assignT, eraseObj_mkObjT, eraseObj_spreadT, erase_getPropT, eraseObj_extensionsOfT, erase_nullishT_obj, erase_nullishT_arr, erase_singletonIfTruthyT, erase_freshArray, eraseObj, eraseList, TValue.erase])) (fun octi => ?_)
  exact agrees_pure (by (simp only [eraseObj_assignT, eraseObj_mkObjT, eraseObj_spreadT, erase_getPropT, eraseObj_extensionsOfT, erase_nullishT_obj, erase_nullishT_arr, erase_singletonIfTruthyT, erase_freshArray, eraseObj, eraseList, TValue.erase]); rfl)

theorem agrees_convertLabelToStixT (S : Schema) (inst : Obj) :
    Agrees eraseObj (convertLabelToStixT S inst) (convertLabelToStix S inst) := by
  unfold convertLabelToStixT convertLabelToStix
  refine agrees_bind (agrees_buildStixObjectT S inst) (fun label => ?_)
  refine agrees_bind (agrees_cleanObjectT_of (by simp only [eraseObj_assignT, eraseObj_mkObjT, eraseObj_spreadT, erase_getPropT, eraseObj_extensionsOfT, erase_nullishT_obj, erase_nullishT_arr, erase_singletonIfTruthyT, erase_freshArray, eraseObj, eraseList, TValue.erase])) (fun octi => ?_)
  exact agrees_pure (by (simp only [eraseObj_assignT, eraseObj_mkObjT, eraseObj_spreadT, erase_getPropT, eraseObj_extensionsOfT, erase_nullishT_obj, erase_nullishT_arr, erase_singletonIfTruthyT, erase_freshArray, eraseObj, eraseList, TValue.erase]); rfl)

theorem agrees_convertKillChainPhaseToStixT (S : Schema) (inst : Obj) :
    Agrees eraseObj (convertKillChainPhaseToStixT S inst) (convertKillChainPhaseToStix S inst) := by
  unfold convertKillChainPhaseToStixT convertKillChainPhaseToStix
  refine agrees_bind (agrees_buildStixObjectT S inst) (fun killChain => ?_)
  refine agrees_bind (agrees_cleanObjectT_of (by simp only [eraseObj_assignT, eraseObj_mkObjT, eraseObj_spreadT, erase_getPropT, eraseObj_extensionsOfT, erase_nullishT_obj, erase_nullishT_arr, erase_singletonIfTruthyT, erase_freshArray, eraseObj, eraseList, TValue.erase])) (fun octi => ?_)
  exact agrees_pure (by (simp only [eraseObj_assignT, eraseObj_mkObjT, eraseObj_spreadT, erase_getPropT, eraseObj_extensionsOfT, erase_nullishT_obj, erase_nullishT_arr, erase_singletonIfTruthyT, erase_freshArray, eraseObj, eraseList, TValue.erase]); rfl)

theorem agrees_convertExternalReferenceToStixT (S : Schema) (inst : Obj) :
    Agrees eraseObj (convertExternalReferenceToStixT S inst) (convertExternalReferenceToStix S inst) := by
  unfold convertExternalReferenceToStixT convertExternalReferenceToStix
  refine agrees_bind (agrees_buildStixObjectT S inst) (fun reference => ?_)
  refine agrees_bind (agrees_cleanObjectT_of (by simp only [eraseObj_assignT, eraseObj_mkObjT, eraseObj_spreadT, erase_getPropT, eraseObj_extensionsOfT, erase_nullishT_obj, erase_nullishT_arr, erase_singletonIfTruthyT, erase_freshArray, eraseObj, eraseList, TValue.erase])) (fun octi => ?_)
  exact agrees_pure (by (simp only [eraseObj_assignT, eraseObj_mkObjT, eraseObj_spreadT, erase_getPropT, eraseObj_extensionsOfT, erase_nullishT_obj, erase_nullishT_arr, erase_singletonIfTruthyT, erase_freshArray, eraseObj, eraseList, TValue.erase]); rfl)

theorem agrees_convertWindowsRegistryValueToStixT (S : Schema) (inst : Obj) :
    Agrees eraseObj (convertWindowsRegistryValueToStixT S inst) (convertWindowsRegistryValueToStix S inst) := by
  unfold convertWindowsRegistryValueToStixT convertWindowsRegistryValueToStix
  refine agrees_bind (agrees_buildStixCyberObservableT S inst) (fun stixCyberObject => ?_)
  refine agrees_bind (agrees_labelValuesT S inst) (fun labels => ?_)
  refine agrees_bind (agrees_buildExternalReferencesT S inst) (fun external_references => ?_)
  exact agrees_pure (by simp only [eraseObj_assignT, eraseObj_mkObjT, eraseObj_spreadT, erase_getPropT, eraseObj_extensionsOfT, erase_nullishT_obj, erase_nullishT_arr, erase_singletonIfTruthyT, erase_freshArray, eraseObj, eraseList, TValue.erase])

theorem agrees_convertEmailMimePartToStixT (S : Schema) (inst : Obj) :
    Agrees eraseObj (convertEmailMimePartToStixT S inst) (convertEmailMimePartToStix S inst) := by
  unfold convertEmailMimePartToStixT convertEmailMimePartToStix
  refine agrees_bind (agrees_buildStixCyberObservableT S inst) (fun stixCyberObject => ?_)
  refine agrees_bind (agrees_labelValuesT S inst) (fun labels => ?_)
  refine agrees_bind (agrees_buildExternalReferencesT S inst) (fun external_references => ?_)
  exact agrees_pure (by simp only [eraseObj_assignT, eraseObj_mkObjT, eraseObj_spreadT, erase_getPropT, eraseObj_extensionsOfT, erase_nullishT_obj, erase_nullishT_arr, erase_singletonIfTruthyT, erase_freshArray, eraseObj, eraseList, TValue.erase])

theorem agrees_convertRelationshipKindT (S : Schema) (inst : Obj) (type : String) :
    Agrees eraseObj (convertRelationshipKindT S inst type) (convertRelationshipKind S inst type) := by
  unfold convertRelationshipKindT convertRelationshipKind
  refine agrees_ite (fun _ => agrees_convertRelationToStixT S inst) (fun _ => ?_)
  refine agrees_ite (fun _ => agrees_convertRelationToStixT S inst) (fun _ => ?_)
  refine agrees_ite (fun _ => agrees_convertSightingToStixT S inst) (fun _ => ?_)
  refine agrees_ite (fun _ => agrees_convertRelationToStixT S inst) (fun _ => ?_)
  exact agrees_fail _

theorem agrees_convertDomainKindT (S : Schema) (inst : Obj) (type : String) :
    Agrees eraseObj (convertDomainKindT S inst type) (convertDomainKind S inst type) := by
  unfold convertDomainKindT convertDomainKind
  refine agrees_ite (fun _ => agrees_convertIdentityToStixT S inst type) (fun _ => ?_)
  refine agrees_ite (fun _ => agrees_convertLocationToStixT S inst type) (fun _ => ?_)
  refine agrees_ite (fun _ => agrees_convertReportToStixT S inst type) (fun _ => ?_)
  refine agrees_ite (fun _ => agrees_convertMalwareToStixT S inst type) (fun _ => ?_)
  refine agrees_ite (fun _ => agrees_convertInfrastructureToStixT S inst type) (fun _ => ?_)
  refine agrees_ite (fun _ => agrees_convertAttackPatternToStixT S inst type) (fun _ => ?_)
  refine agrees_ite (fun _ => agrees_convertCampaignToStixT S inst type) (fun _ => ?_)
  refine agrees_ite (fun _ => agrees_convertThreatActorToStixT S inst type) (fun _ => ?_)
  refine agrees_ite (fun _ => agrees_convertNoteToStixT S inst type) (fun _ => ?_)
  refine agrees_ite (fun _ => agrees_convertOpinionToStixT S inst type) (fun _ => ?_)
  refine agrees_ite (fun _ => agrees_convertObservedDateToStixT S inst type) (fun _ => ?_)
  refine agrees_ite (fun _ => agrees_convertCourseOfActionToStixT S inst type) (fun _ => ?_)
  refine agrees_ite (fun _ => agrees_convertIncidentToStixT S inst type) (fun _ => ?_)
  refine agrees_ite (fun _ => agrees_convertIndicatorToStixT S inst type) (fun _ => ?_)
  refine agrees_ite (fun _ => agrees_convertIntrusionSetToStixT S inst type) (fun _ => ?_)
  refine agrees_ite (fun _ => agrees_convertToolToStixT S inst type) (fun _ => ?_)
  refine agrees_ite (fun _ => agrees_convertVulnerabilityToStixT S inst type) (fun _ => ?_)
  exact agrees_fail _

theorem agrees_convertMetaKindT (S : Schema) (inst : Obj) (type : String) :
    Agrees eraseObj (convertMetaKindT S inst type) (convertMetaKind S inst type) := by
  unfold convertMetaKindT convertMetaKind
  refine agrees_ite (fun _ => agrees_convertMarkingToStixT S inst) (fun _ => ?_)
  refine agrees_ite (fun _ => agrees_convertLabelToStixT S inst) (fun _ => ?_)
  refine agrees_ite (fun _ => agrees_convertKillChainPhaseToStixT S inst) (fun _ => ?_)
  refine agrees_ite (fun _ => agrees_convertExternalReferenceToStixT S inst) (fun _ => ?_)
  exact agrees_fail _

theorem agrees_convertObservableKindT (S : Schema) (inst : Obj) (type : String) :
    Agrees eraseObj (convertObservableKindT S inst type) (convertObservableKind S inst type) := by
  unfold convertObservableKindT convertObservableKind
  refine agrees_ite (fun _ => agrees_convertWindowsRegistryValueToStixT S inst) (fun _ => ?_)
  refine agrees_ite (fun _ => agrees_convertEmailMimePartToStixT S inst) (fun _ => ?_)
  refine agrees_ite (fun _ => agrees_convertArtifactToStixT S inst type) (fun _ => ?_)
  refine agrees_ite (fun _ => agrees_convertAutonomousSystemToStixT S inst type) (fun _ => ?_)
  refine agrees_ite (fun _ => agrees_convertCryptocurrencyWalletToStixT S inst type) (fun _ => ?_)
  refine agrees_ite (fun _ => agrees_convertCryptographicKeyToStixT S inst type) (fun _ => ?_)
  refine agrees_ite (fun _ => agrees_convertDirectoryToStixT S inst type) (fun _ => ?_)
  refine agrees_ite (fun _ => agrees_convertDomainNameToStixT S inst type) (fun _ => ?_)
  refine agrees_ite (fun _ => agrees_convertEmailAddressToStixT S inst type) (fun _ => ?_)
  refine agrees_ite (fun _ => agrees_convertEmailMessageToStixT S inst type) (fun _ => ?_)
  refine agrees_ite (fun _ => agrees_convertFileToStixT S inst type) (fun _ => ?_)
  refine agrees_ite (fun _ => agrees_convertHostnameToStixT S inst type) (fun _ => ?_)
  refine agrees_ite (fun _ => agrees_convertIPv4AddressToStixT S inst type) (fun _ => ?_)
  refine agrees_ite (fun _ => agrees_convertIPv6AddressToStixT S inst type) (fun _ => ?_)
  refine agrees_ite (fun _ => agrees_convertMacAddressToStixT S inst type) (fun _ => ?_)
  refine agrees_ite (fun _ => agrees_convertMutexToStixT S inst type) (fun _ => ?_)
  refine agrees_ite (fun _ => agrees_convertNetworkTrafficToStixT S inst type) (fun _ => ?_)
  refine agrees_ite (fun _ => agrees_convertProcessToStixT S inst type) (fun _ => ?_)
  refine agrees_ite (fun _ => agrees_convertSoftwareToStixT S inst type) (fun _ => ?_)
  refine agrees_ite (fun _ => agrees_convertTextToStixT S inst type) (fun _ => ?_)
  refine agrees_ite (fun _ => agrees_convertURLToStixT S inst type) (fun _ => ?_)
  refine agrees_ite (fun _ => agrees_convertUserAccountToStixT S inst type) (fun _ => ?_)
  refine agrees_ite (fun _ => agrees_convertWindowsRegistryKeyToStixT S inst type) (fun _ => ?_)
  refine agrees_ite (fun _ => agrees_convertX509CertificateToStixT S inst type) (fun _ => ?_)
  exact agrees_fail _

theorem agrees_convertToStixT (S : Schema) (inst : Obj) :
    Agrees eraseObj (convertToStixT S inst) (convertToStix S inst) := by
  unfold convertToStixT convertToStix
  refine agrees_bind (agrees_lift _) (fun type => ?_)
  refine agrees_ite (fun _ => agrees_fail _) (fun _ => ?_)
  refine agrees_ite (fun _ => agrees_convertRelationshipKindT S inst type) (fun _ => ?_)
  refine agrees_ite (fun _ => agrees_convertDomainKindT S inst type) (fun _ => ?_)
  refine agrees_ite (fun _ => agrees_convertMetaKindT S inst type) (fun _ => ?_)
  refine agrees_ite (fun _ => agrees_convertObservableKindT S inst type) (fun _ => ?_)
  exact agrees_fail _

theorem agrees_convertStoreToStixT (S : Schema) (inst : Obj) :
    Agrees eraseObj (convertStoreToStixT S inst) (convertStoreToStix S inst) := by
  unfold convertStoreToStixT convertStoreToStix
  refine agrees_ite (fun _ => agrees_fail _) (fun _ => ?_)
  refine agrees_bind (agrees_convertToStixT S inst) (fun converted => ?_)
  refine agrees_bind (agrees_cleanObjectT converted) (fun stix => ?_)
  rw [isValidStixT_eq]
  exact agrees_ite (fun _ => agrees_fail _) (fun _ => agrees_pure rfl)

/-- C29: `convertStoreToStix` does not modify its input.  Run on values that
remember whether an object belongs to the instance or was created by the
converter, the conversion of any instance, started after any earlier writes,
records no in-place deletion on an object of the instance, whether it returns or
throws; and what this run returns or throws is what `convertStoreToStix`
computes.  The deletions of `cleanObject` therefore only touch objects created
by the converter. -/
theorem C29_input_not_modified (S : Schema) (inst : Obj) (j : Journal) :
    (convertStoreToStixT S inst j).2 = j ∧
    Except.map eraseObj (convertStoreToStixT S inst j).1 = convertStoreToStix S inst :=
  ⟨(quiet_convertStoreToStixT S inst j).1, agrees_convertStoreToStixT S inst j⟩

/-! ## C32 -/

theorem pruneExtensions_eq_spec {v w : JValue} (h : pruneExtensions v = .ok w) :
    w = withoutSingleEntryBlocks v := by
  cases v with
  | obj exts => exact pruneExtensions_obj_ok exts w h
  | arr xs =>
    unfold pruneExtensions at h
    simp only at h
    split at h
    · exact absurd h (throw_ne_ok _ _)
    · rw [pure_eq_ok] at h
      exact h.symm
  | str s => exact absurd h (throw_ne_ok _ _)
  | undefined => exact ((pure_eq_ok _ _).1 h).symm
  | null => exact ((pure_eq_ok _ _).1 h).symm
  | bool b => exact ((pure_eq_ok _ _).1 h).symm
  | num n => exact ((pure_eq_ok _ _).1 h).symm

theorem cleanObject_eq_spec (data : Obj) :
    ∀ out, cleanObject data = .ok out → out = cleanObjectSpec data := by
  induction data with
  | nil =>
    intro out h
    simp only [cleanObject, pure_eq_ok] at h
    subst h
    rfl
  | cons e rest ih =>
    intro out h
    obtain ⟨k, v⟩ := e
    cases hv : isEmptyField v
    · by_cases hk : k = "extensions"
      · simp only [cleanObject, hv, hk, if_true, bind_eq_ok, pure_eq_ok, Bool.false_eq_true,
          if_false] at h
        obtain ⟨v', hv', rest', hrest, rfl⟩ := h
        rw [ih rest' hrest, pruneExtensions_eq_spec hv']
        simp [cleanObjectSpec, hv, hk]
      · simp only [cleanObject, hv, hk, if_false, bind_eq_ok, pure_eq_ok, Bool.false_eq_true] at h
        obtain ⟨rest', hrest, rfl⟩ := h
        rw [ih rest' hrest]
        simp [cleanObjectSpec, hv, hk]
    · simp only [cleanObject, hv, if_true] at h
      rw [ih out h]
      simp [cleanObjectSpec, hv]

theorem keys_cleanObjectSpec (data : Obj) :
    keys (cleanObjectSpec data) = keys (nonEmptyEntries data) := by
  unfold cleanObjectSpec nonEmptyEntries keys
  rw [List.map_map]
  apply List.map_congr_left
  intro kv _
  by_cases h : kv.1 = "extensions" <;> simp [h]

theorem pruneExtensions_total (exts : Obj) (h : ∀ e ∈ exts, ∃ b, e.2 = .obj b) :
    ∃ w, pruneExtensions (.obj exts) = .ok w := by
  unfold pruneExtensions
  simp only
  split
  · rename_i hany
    rw [List.any_eq_true] at hany
    obtain ⟨e, he, hm⟩ := hany
    obtain ⟨b, hb⟩ := h e he
    rw [hb] at hm
    simp at hm
  · exact ⟨_, rfl⟩

/-- C32: when `cleanObject` returns, its result holds exactly the entries of
`data` whose value is non-empty, in their order (so its keys are the keys with
a non-empty value and no key is added); each kept entry other than `extensions`
has its original value; under a kept `extensions` key the sub-blocks with
exactly one entry are removed and the others are unchanged.  It does return
whenever the non-empty value under `extensions` is a mapping whose sub-blocks
are objects. -/
theorem C32_cleanObject_keeps_nonEmpty (data : Obj) :
    (∀ out, cleanObject data = .ok out →
      out = cleanObjectSpec data ∧ keys out = keys (nonEmptyEntries data)) ∧
    ((∀ kv ∈ data, kv.1 = "extensions" → isEmptyField kv.2 = false →
        ∃ exts, kv.2 = .obj exts ∧ ∀ e ∈ exts, ∃ b, e.2 = .obj b) →
      ∃ out, cleanObject data = .ok out) := by
  refine ⟨fun out h => ?_, fun h => ?_⟩
  · have e := cleanObject_eq_spec data out h
    exact ⟨e, by rw [e, keys_cleanObjectSpec]⟩
  · refine cleanObject_total data (fun kv hkv hk hne => ?_)
    obtain ⟨exts, he, hb⟩ := h kv hkv hk hne
    rw [he]
    exact pruneExtensions_total exts hb

/-- C32 on a sample: the empty `description` and `labels` are dropped, the
falsy `revoked` is kept, and the single-entry sub-block `ext-a` is removed. -/
theorem C32_cleanObject_keeps_nonEmpty_witness :
    cleanObject sampleToClean = .ok [
      ("id", .str "url--7c1c6b2f-8a56-5c0e-9d2c-1c3d0a6e8f11"),
      ("revoked", .bool false),
      ("extensions", .obj [
        ("ext-b", .obj [("extension_type", .str "property-extension"), ("score", .num 10)])])] ∧
    keys (nonEmptyEntries sampleToClean) = ["id", "revoked", "extensions"] ∧
    (∀ out, cleanObject sampleToClean = .ok out →
      out = cleanObjectSpec sampleToClean ∧ keys out = keys (nonEmptyEntries sampleToClean)) ∧
    ∃ out, cleanObject sampleToClean = .ok out :=
  ⟨rfl, rfl, (C32_cleanObject_keeps_nonEmpty sampleToClean).1,
    (C32_cleanObject_keeps_nonEmpty sampleToClean).2 (by
      intro kv hkv hk _
      simp only [sampleToClean, List.mem_cons, List.mem_singleton, List.not_mem_nil,
        or_false] at hkv
      rcases hkv with e | e | e | e | e <;> subst e <;> simp at hk
      refine ⟨_, rfl, ?_⟩
      intro e he
      simp only [List.mem_cons, List.mem_singleton, List.not_mem_nil, or_false] at he
      rcases he with e' | e' <;> subst e' <;> exact ⟨_, rfl⟩)⟩

/-! ## C33 -/

theorem prop_total {v : JValue} (k : String) (h1 : v ≠ .undefined) (h2 : v ≠ .null) :
    prop v k = .ok (optProp v k) := by
  cases v with
  | undefined => exact absurd rfl h1
  | null => exact absurd rfl h2
  | obj kvs => rfl
  | bool _ => rfl
  | num _ => rfl
  | str _ => rfl
  | arr _ => rfl

theorem traverse_total {f : JValue → Except Err JValue} {g : JValue → JValue} :
    ∀ (xs : List JValue), (∀ x ∈ xs, f x = .ok (g x)) → traverse f xs = .ok (xs.map g) := by
  intro xs
  induction xs with
  | nil => intro _; rfl
  | cons x rest ih =>
    intro h
    unfold traverse
    rw [h x (List.mem_cons_self _ _), ok_bind,
      ih (fun y hy => h y (List.mem_cons_of_mem _ hy)), ok_bind]
    rfl

theorem mapArray_total {f : JValue → Except Err JValue} {g : JValue → JValue}
    {v : JValue} {xs : List JValue} (hv : v = .arr xs) (h : ∀ x ∈ xs, f x = .ok (g x)) :
    mapArray f v = .ok (.arr (xs.map g)) := by
  subst hv
  unfold mapArray
  simp only
  rw [traverse_total xs h, ok_bind]
  rfl

theorem externalReference_ok (e : JValue) (h1 : e ≠ .undefined) (h2 : e ≠ .null) :
    (do
      let source_name ← prop e "source_name"
      let description ← prop e "description"
      let url ← prop e "url"
      let hashes ← prop e "hashes"
      let external_id ← prop e "external_id"
      let data ← cleanObject [("source_name", source_name), ("description", description),
        ("url", url), ("hashes", hashes), ("external_id", external_id)]
      pure (JValue.obj data)) = .ok (externalReferenceEntry e) := by
  simp only [prop_total _ h1 h2, ok_bind]
  rw [cleanObject_noext _ (by simp [hasProp]), ok_bind]
  rfl

theorem buildExternalReferences_total {S : Schema} {inst : Obj} {refs : List JValue}
    (hs : nullish (getProp inst S.INPUT_EXTERNAL_REFS) (.arr []) = .arr refs)
    (hr : ∀ e ∈ refs, e ≠ .undefined ∧ e ≠ .null) :
    buildExternalReferences S inst = .ok (.arr (refs.map externalReferenceEntry)) := by
  unfold buildExternalReferences
  exact mapArray_total hs (fun e he => externalReference_ok e (hr e he).1 (hr e he).2)

theorem externalReferenceEntry_carries (e : JValue) :
    ∃ o, externalReferenceEntry e = .obj o ∧
      (∀ kv ∈ o, kv.1 ∈ externalReferenceKeys) ∧
      ∀ k ∈ externalReferenceKeys, Carries o k (optProp e k) := by
  have hn : NoDupKeys (externalReferenceKeys.map fun k => (k, optProp e k)) := by
    simp [NoDupKeys, keys, externalReferenceKeys]
  have hc := cleanObject_noext (externalReferenceKeys.map fun k => (k, optProp e k))
    (by simp [externalReferenceKeys, hasProp])
  refine ⟨_, rfl, ?_, ?_⟩
  · intro kv hkv
    have hm := (List.mem_filter.1 hkv).1
    simp only [List.mem_map] at hm
    obtain ⟨k, hk, rfl⟩ := hm
    exact hk
  · intro k hk
    refine carries_of_clean hn hc ?_ ?_
    · intro e'
      subst e'
      simp [externalReferenceKeys] at hk
    · simp only [externalReferenceKeys, List.mem_cons, List.mem_singleton, List.not_mem_nil,
        or_false] at hk
      rcases hk with rfl | rfl | rfl | rfl | rfl <;> simp [externalReferenceKeys, getProp]

/-- C33: for every instance whose external-references slot is absent, `null`
or a list of attached references, `buildExternalReferences` returns one entry
per reference, in slot order; each entry holds exactly the non-empty ones among
`source_name`, `description`, `url`, `hashes` and `external_id` of its
reference; an absent slot yields the empty list. -/
theorem C33_external_references (S : Schema) (inst : Obj) :
    (∀ refs, nullish (getProp inst S.INPUT_EXTERNAL_REFS) (.arr []) = .arr refs →
      (∀ e ∈ refs, e ≠ .undefined ∧ e ≠ .null) →
      buildExternalReferences S inst = .ok (.arr (refs.map externalReferenceEntry))) ∧
    (getProp inst S.INPUT_EXTERNAL_REFS = .undefined →
      buildExternalReferences S inst = .ok (.arr [])) ∧
    ∀ e, ∃ o, externalReferenceEntry e = .obj o ∧
      (∀ kv ∈ o, kv.1 ∈ externalReferenceKeys) ∧
      ∀ k ∈ externalReferenceKeys, Carries o k (optProp e k) := by
  refine ⟨fun refs hs hr => buildExternalReferences_total hs hr, fun h => ?_,
    externalReferenceEntry_carries⟩
  have hs : nullish (getProp inst S.INPUT_EXTERNAL_REFS) (.arr []) = .arr [] := by
    rw [h]
    rfl
  exact buildExternalReferences_total hs (by simp)

/-- C33 on a report with two references: the second entry has neither the
empty `url` nor the missing `description`. -/
theorem C33_external_references_witness :
    buildExternalReferences opencti sampleReportWithReferences = .ok (.arr [
      .obj [("source_name", .str "mitre-attack"), ("description", .str "Technique page"),
        ("url", .str "https://attack.mitre.org/techniques/T1059"),
        ("external_id", .str "T1059")],
      .obj [("source_name", .str "vendor-blog"),
        ("hashes", .obj [("MD5", .str "9e107d9d372bb6826bd81d3542a419d6")])]]) ∧
    (getProp sampleMalware opencti.INPUT_EXTERNAL_REFS = .undefined ∧
      buildExternalReferences opencti sampleMalware = .ok (.arr [])) :=
  ⟨(C33_external_references opencti sampleReportWithReferences).1 _ rfl (by
      intro e he
      simp only [List.mem_cons, List.mem_singleton, List.not_mem_nil, or_false] at he
      rcases he with e' | e' <;> subst e' <;> exact ⟨fun h => JValue.noConfusion h, fun h => JValue.noConfusion h⟩),
    rfl, (C33_external_references opencti sampleMalware).2.1 rfl⟩

/-! ## C34 -/

theorem convertX509CertificateToStix_v3 {S : Schema} {inst : Obj} {t : String} :
    ∀ o, convertX509CertificateToStix S inst t = .ok o →
      getProp o "x509_v3_extensions" = .obj (x509V3Block inst) := by
  simp only [convertX509CertificateToStix]
  repeat (refine bind_post ?_; intro _ _)
  intro o h
  rw [pure_eq_ok] at h
  subst h
  rename_i v3 hv3
  rw [cleanObject_eq_of_noext hv3 (by simp [hasProp])]
  simp [getProp_assign, lookupLast, x509V3Block, x509V3Keys]

theorem x509V3Block_carries (inst : Obj) :
    (∀ kv ∈ x509V3Block inst, kv.1 ∈ x509V3Keys) ∧
    ∀ k ∈ x509V3Keys, Carries (x509V3Block inst) k (getProp inst k) := by
  have hn : NoDupKeys (x509V3Keys.map fun k => (k, getProp inst k)) := by
    simp [NoDupKeys, keys, x509V3Keys]
  have hc := cleanObject_noext (x509V3Keys.map fun k => (k, getProp inst k))
    (by simp [x509V3Keys, hasProp])
  refine ⟨?_, ?_⟩
  · intro kv hkv
    have hm := (List.mem_filter.1 hkv).1
    simp only [List.mem_map] at hm
    obtain ⟨k, hk, rfl⟩ := hm
    exact hk
  · intro k hk
    refine carries_of_clean hn hc ?_ ?_
    · intro e'
      subst e'
      simp [x509V3Keys] at hk
    · simp only [x509V3Keys, List.mem_cons, List.mem_singleton, List.not_mem_nil,
        or_false] at hk
      rcases hk with rfl | rfl | rfl | rfl | rfl | rfl | rfl | rfl | rfl | rfl | rfl | rfl |
        rfl | rfl | rfl | rfl <;> simp [x509V3Keys, getProp]

theorem x509V3Block_eq_nil (inst : Obj)
    (h : ∀ k ∈ x509V3Keys, isEmptyField (getProp inst k) = true) : x509V3Block inst = [] := by
  unfold x509V3Block nonEmptyEntries
  rw [List.filter_eq_nil_iff]
  intro kv hkv
  simp only [List.mem_map] at hkv
  obtain ⟨k, hk, rfl⟩ := hkv
  simp [h k hk]

/-- C34: under a well-formed schema, for every successfully converted X.509
certificate, the `x509_v3_extensions` block of the output holds exactly the
non-empty ones among the sixteen v3 attributes of the instance, with their
values, and the output has no `x509_v3_extensions` field when none of them is
non-empty, in particular when all sixteen are empty. -/
theorem C34_x509_v3_extensions (S : Schema) (hW : S.WellFormed) (inst out : Obj)
    (h : convertStoreToStix S inst = .ok out)
    (ht : getProp inst "entity_type" = .str S.ENTITY_HASHED_OBSERVABLE_X509_CERTIFICATE) :
    (x509V3Block inst ≠ [] → getProp out "x509_v3_extensions" = .obj (x509V3Block inst)) ∧
    (x509V3Block inst = [] → hasProp out "x509_v3_extensions" = false) ∧
    ((∀ k ∈ x509V3Keys, isEmptyField (getProp inst k) = true) →
      hasProp out "x509_v3_extensions" = false) ∧
    (∀ kv ∈ x509V3Block inst, kv.1 ∈ x509V3Keys) ∧
    ∀ k ∈ x509V3Keys, Carries (x509V3Block inst) k (getProp inst k) := by
  obtain ⟨_, _, o, ho, hc⟩ := convertStoreToStix_ok h
  have hcar := convertStoreToStix_carries (k := "x509_v3_extensions") ho hc (by decide)
  rw [route_convertX509CertificateToStix hW ht] at ho
  rw [convertX509CertificateToStix_v3 o ho] at hcar
  have hnil : x509V3Block inst = [] → hasProp out "x509_v3_extensions" = false := by
    intro e
    rw [e] at hcar
    exact hcar.2 rfl
  refine ⟨fun hne => hcar.1 ?_, hnil, fun hall => hnil (x509V3Block_eq_nil inst hall),
    (x509V3Block_carries inst).1, (x509V3Block_carries inst).2⟩
  cases hb : x509V3Block inst with
  | nil => exact absurd hb hne
  | cons _ _ => rfl

/-- C34 on a certificate with two non-empty v3 attributes and an empty one, and
on a certificate without v3 attributes. -/
theorem C34_x509_v3_extensions_witness :
    opencti.WellFormed ∧
    (∃ out, convertStoreToStix opencti sampleCertificate = .ok out ∧
      getProp out "x509_v3_extensions" = .obj [
        ("basic_constraints", .str "critical,CA:TRUE"),
        ("subject_key_identifier", .str "a8:4a:6a:63:04:7d:dd:ba")]) ∧
    ∃ out, convertStoreToStix opencti sampleCertificateNoV3 = .ok out ∧
      hasProp out "x509_v3_extensions" = false :=
  ⟨opencti_wellFormed,
    ⟨_, rfl, (C34_x509_v3_extensions opencti opencti_wellFormed sampleCertificate _ rfl rfl).1
      (fun e => List.noConfusion e)⟩,
    _, rfl, (C34_x509_v3_extensions opencti opencti_wellFormed sampleCertificateNoV3 _ rfl
      rfl).2.1 rfl⟩

/-! ## C35 -/

theorem buildEmailBodyMultipart_eq {S : Schema} {inst : Obj} {v : JValue}
    (h : buildEmailBodyMultipart S inst = .ok v) :
    ∃ parts, nullish (getProp inst S.INPUT_BODY_MULTIPART) (.arr []) = .arr parts ∧
      v = .arr (parts.map (emailBodyPart S inst)) := by
  refine mapArray_eq_map ?_ h
  intro k y hy
  simp only [bind_eq_ok, pure_eq_ok] at hy
  obtain ⟨c, hc, d, hd, b, hb, data, hdata, rfl⟩ := hy
  rw [cleanObject_eq_of_noext hdata (by simp [hasProp]), prop_ok hc, prop_ok hd, prop_ok hb]
  rfl

theorem convertEmailMessageToStix_multipart {S : Schema} {inst : Obj} {t : String} :
    ∀ o, convertEmailMessageToStix S inst t = .ok o →
      ∃ v, buildEmailBodyMultipart S inst = .ok v ∧ getProp o "body_multipart" = v := by
  simp only [convertEmailMessageToStix]
  repeat (refine bind_post ?_; intro _ _)
  intro o h
  rw [pure_eq_ok] at h
  subst h
  exact ⟨_, (by assumption), by simp [getProp_assign, lookupLast]⟩

theorem emailBodyPart_carries (S : Schema) (inst : Obj) (part : JValue) :
    ∃ o, emailBodyPart S inst part = .obj o ∧
      Carries o "content_type" (optProp part "content_type") ∧
      Carries o "content_disposition" (optProp part "content_disposition") ∧
      Carries o "body" (optProp part "body") ∧
      Carries o "body_raw_ref" (optProp (getProp inst S.INPUT_BODY_RAW) "standard_id") := by
  have hn : NoDupKeys [
      ("content_type", optProp part "content_type"),
      ("content_disposition", optProp part "content_disposition"),
      ("body", optProp part "body"),
      ("body_raw_ref", optProp (getProp inst S.INPUT_BODY_RAW) "standard_id")] := by
    simp [NoDupKeys, keys]
  have hc := cleanObject_noext [
      ("content_type", optProp part "content_type"),
      ("content_disposition", optProp part "content_disposition"),
      ("body", optProp part "body"),
      ("body_raw_ref", optProp (getProp inst S.INPUT_BODY_RAW) "standard_id")]
    (by simp [hasProp])
  exact ⟨_, rfl, carries_of_clean hn hc (by decide) (by simp [getProp]),
    carries_of_clean hn hc (by decide) (by simp [getProp]),
    carries_of_clean hn hc (by decide) (by simp [getProp]),
    carries_of_clean hn hc (by decide) (by simp [getProp])⟩

/-- C35 fails as stated: the second multipart part of the sample email message
has the `body` `""`, and its entry in the output has no `body` field. -/
theorem C35_part_with_empty_body :
    ∃ part1 part2 entry1 entry2 out,
      getProp sampleEmailMultipart opencti.INPUT_BODY_MULTIPART = .arr [part1, part2] ∧
      optProp part2 "content_type" = .str "application/pdf" ∧
      optProp part2 "body" = .str "" ∧
      convertStoreToStix opencti sampleEmailMultipart = .ok out ∧
      getProp out "body_multipart" = .arr [.obj entry1, .obj entry2] ∧
      getProp entry2 "content_type" = .str "application/pdf" ∧
      hasProp entry2 "body" = false :=
  ⟨_, _, _, _, _, rfl, rfl, rfl, rfl, rfl, rfl, rfl⟩

/-- C35, amended: under a well-formed schema, for every successfully converted
email message, `body_multipart` has one entry per attached multipart part, in
slot order; an entry holds the part's `content_type`, `content_disposition`
and `body` and, as `body_raw_ref`, the `standard_id` of the raw-body slot of
the message itself, each whenever that value is non-empty, and lacks a field
whose value is empty; the output has no `body_multipart` when there is no
part. -/
theorem C35_body_multipart (S : Schema) (hW : S.WellFormed) (inst out : Obj)
    (h : convertStoreToStix S inst = .ok out)
    (ht : getProp inst "entity_type" = .str S.ENTITY_EMAIL_MESSAGE) :
    ∃ parts, nullish (getProp inst S.INPUT_BODY_MULTIPART) (.arr []) = .arr parts ∧
      (parts ≠ [] → getProp out "body_multipart" = .arr (parts.map (emailBodyPart S inst))) ∧
      (parts = [] → hasProp out "body_multipart" = false) ∧
      ∀ part ∈ parts, ∃ o, emailBodyPart S inst part = .obj o ∧
        Carries o "content_type" (optProp part "content_type") ∧
        Carries o "content_disposition" (optProp part "content_disposition") ∧
        Carries o "body" (optProp part "body") ∧
        Carries o "body_raw_ref" (optProp (getProp inst S.INPUT_BODY_RAW) "standard_id") := by
  obtain ⟨_, _, o, ho, hc⟩ := convertStoreToStix_ok h
  have hcar := convertStoreToStix_carries (k := "body_multipart") ho hc (by decide)
  rw [route_convertEmailMessageToStix hW ht] at ho
  obtain ⟨v, hv, hg⟩ := convertEmailMessageToStix_multipart o ho
  obtain ⟨parts, hs, rfl⟩ := buildEmailBodyMultipart_eq hv
  rw [hg] at hcar
  refine ⟨parts, hs, fun hne => hcar.1 ?_, fun e => hcar.2 (by rw [e]; rfl),
    fun part _ => emailBodyPart_carries S inst part⟩
  cases parts with
  | nil => exact absurd rfl hne
  | cons _ _ => rfl

/-- C35, amended, on the sample email message with two parts. -/
theorem C35_body_multipart_witness :
    opencti.WellFormed ∧
    ∃ out, convertStoreToStix opencti sampleEmailMultipart = .ok out ∧
      getProp out "body_multipart" = .arr [
        .obj [("content_type", .str "text/plain"), ("content_disposition", .str "inline"),
          ("body", .str "Please find the invoice attached."),
          ("body_raw_ref", .str "artifact--4e8f11c0-0a6e-5f7c-9d2c-1c3d6b8a565c")],
        .obj [("content_type", .str "application/pdf"),
          ("content_disposition", .str "attachment"),
          ("body_raw_ref", .str "artifact--4e8f11c0-0a6e-5f7c-9d2c-1c3d6b8a565c")]] ∧
      ∃ parts, nullish (getProp sampleEmailMultipart opencti.INPUT_BODY_MULTIPART) (.arr []) =
          .arr parts ∧
        (parts ≠ [] →
          getProp out "body_multipart" = .arr (parts.map (emailBodyPart opencti sampleEmailMultipart))) ∧
        (parts = [] → hasProp out "body_multipart" = false) ∧
        ∀ part ∈ parts, ∃ o, emailBodyPart opencti sampleEmailMultipart part = .obj o ∧
          Carries o "content_type" (optProp part "content_type") ∧
          Carries o "content_disposition" (optProp part "content_disposition") ∧
          Carries o "body" (optProp part "body") ∧
          Carries o "body_raw_ref"
            (optProp (getProp sampleEmailMultipart opencti.INPUT_BODY_RAW) "standard_id") :=
  ⟨opencti_wellFormed, _, rfl, rfl,
    C35_body_multipart opencti opencti_wellFormed sampleEmailMultipart _ rfl rfl⟩

/-! ## C37 -/

theorem buildExternalReferences_eq {S : Schema} {inst : Obj} {v : JValue}
    (h : buildExternalReferences S inst = .ok v) :
    ∃ refs, nullish (getProp inst S.INPUT_EXTERNAL_REFS) (.arr []) = .arr refs ∧
      v = .arr (refs.map externalReferenceEntry) := by
  refine mapArray_eq_map ?_ h
  intro e y hy
  simp only [bind_eq_ok, pure_eq_ok] at hy
  obtain ⟨a, ha, b, hb, c, hc, d, hd, f, hf, data, hdata, rfl⟩ := hy
  rw [cleanObject_eq_of_noext hdata (by simp [hasProp]), prop_ok ha, prop_ok hb, prop_ok hc,
    prop_ok hd, prop_ok hf]
  rfl

theorem convertHostnameToStix_topLevel {S : Schema} {inst : Obj} {t : String} :
    ∀ o, convertHostnameToStix S inst t = .ok o →
      ∃ cyber labels refs, buildStixCyberObservable S inst = .ok cyber ∧
        labelValues S inst = .ok labels ∧ buildExternalReferences S inst = .ok refs ∧
        getProp o "labels" = labels ∧
        getProp o "description" = getProp inst "x_opencti_description" ∧
        getProp o "score" = getProp inst "x_opencti_score" ∧
        getProp o "created_by_ref" = optProp (getProp inst S.INPUT_CREATED_BY) "standard_id" ∧
        getProp o "external_references" = refs ∧
        extensionsOf o = assign (extensionsOf cyber)
          [(S.STIX_EXT_OCTI_SCO, .obj [("extension_type", .str "new-sco")])] := by
  simp only [convertHostnameToStix]
  repeat (refine bind_post ?_; intro _ _)
  intro o h
  rw [pure_eq_ok] at h
  subst h
  refine ⟨_, _, _, (by assumption), (by assumption), (by assumption), ?_, ?_, ?_, ?_, ?_, ?_⟩
  · simp [getProp_assign, lookupLast]
  · simp [getProp_assign, lookupLast]
  · simp [getProp_assign, lookupLast]
  · simp [getProp_assign, lookupLast]
  · simp [getProp_assign, lookupLast]
  · rw [extensionsOf_assign]
    simp [lookupLast, spread]

theorem convertTextToStix_topLevel {S : Schema} {inst : Obj} {t : String} :
    ∀ o, convertTextToStix S inst t = .ok o →
      ∃ cyber labels refs, buildStixCyberObservable S inst = .ok cyber ∧
        labelValues S inst = .ok labels ∧ buildExternalReferences S inst = .ok refs ∧
        getProp o "labels" = labels ∧
        getProp o "description" = getProp inst "x_opencti_description" ∧
        getProp o "score" = getProp inst "x_opencti_score" ∧
        getProp o "created_by_ref" = optProp (getProp inst S.INPUT_CREATED_BY) "standard_id" ∧
        getProp o "external_references" = refs ∧
        extensionsOf o = assign (extensionsOf cyber)
          [(S.STIX_EXT_OCTI_SCO, .obj [("extension_type", .str "new-sco")])] := by
  simp only [convertTextToStix]
  repeat (refine bind_post ?_; intro _ _)
  intro o h
  rw [pure_eq_ok] at h
  subst h
  refine ⟨_, _, _, (by assumption), (by assumption), (by assumption), ?_, ?_, ?_, ?_, ?_, ?_⟩
  · simp [getProp_assign, lookupLast]
  · simp [getProp_assign, lookupLast]
  · simp [getProp_assign, lookupLast]
  · simp [getProp_assign, lookupLast]
  · simp [getProp_assign, lookupLast]
  · rw [extensionsOf_assign]
    simp [lookupLast, spread]

theorem convertCryptocurrencyWalletToStix_topLevel {S : Schema} {inst : Obj} {t : String} :
    ∀ o, convertCryptocurrencyWalletToStix S inst t = .ok o →
      ∃ cyber labels refs, buildStixCyberObservable S inst = .ok cyber ∧
        labelValues S inst = .ok labels ∧ buildExternalReferences S inst = .ok refs ∧
        getProp o "labels" = labels ∧
        getProp o "description" = getProp inst "x_opencti_description" ∧
        getProp o "score" = getProp inst "x_opencti_score" ∧
        getProp o "created_by_ref" = optProp (getProp inst S.INPUT_CREATED_BY) "standard_id" ∧
        getProp o "external_references" = refs ∧
        extensionsOf o = assign (extensionsOf cyber)
          [(S.STIX_EXT_OCTI_SCO, .obj [("extension_type", .str "new-sco")])] := by
  simp only [convertCryptocurrencyWalletToStix]
  repeat (refine bind_post ?_; intro _ _)
  intro o h
  rw [pure_eq_ok] at h
  subst h
  refine ⟨_, _, _, (by assumption), (by assumption), (by assumption), ?_, ?_, ?_, ?_, ?_, ?_⟩
  · simp [getProp_assign, lookupLast]
  · simp [getProp_assign, lookupLast]
  · simp [getProp_assign, lookupLast]
  · simp [getProp_assign, lookupLast]
  · simp [getProp_assign, lookupLast]
  · rw [extensionsOf_assign]
    simp [lookupLast, spread]

theorem convertCryptographicKeyToStix_topLevel {S : Schema} {inst : Obj} {t : String} :
    ∀ o, convertCryptographicKeyToStix S inst t = .ok o →
      ∃ cyber labels refs, buildStixCyberObservable S inst = .ok cyber ∧
        labelValues S inst = .ok labels ∧ buildExternalReferences S inst = .ok refs ∧
        getProp o "labels" = labels ∧
        getProp o "description" = getProp inst "x_opencti_description" ∧
        getProp o "score" = getProp inst "x_opencti_score" ∧
        getProp o "created_by_ref" = optProp (getProp inst S.INPUT_CREATED_BY) "standard_id" ∧
        getProp o "external_references" = refs ∧
        extensionsOf o = assign (extensionsOf cyber)
          [(S.STIX_EXT_OCTI_SCO, .obj [("extension_type", .str "new-sco")])] := by
  simp only [convertCryptographicKeyToStix]
  repeat (refine bind_post ?_; intro _ _)
  intro o h
  rw [pure_eq_ok] at h
  subst h
  refine ⟨_, _, _, (by assumption), (by assumption), (by assumption), ?_, ?_, ?_, ?_, ?_, ?_⟩
  · simp [getProp_assign, lookupLast]
  · simp [getProp_assign, lookupLast]
  · simp [getProp_assign, lookupLast]
  · simp [getProp_assign, lookupLast]
  · simp [getProp_assign, lookupLast]
  · rw [extensionsOf_assign]
    simp [lookupLast, spread]

theorem convertToStix_topLevel {S : Schema} (hW : S.WellFormed) {inst o : Obj} {t : String}
    (ht : getProp inst "entity_type" = .str t) (hk : t ∈ topLevelObservableTypes S)
    (ho : convertToStix S inst = .ok o) :
    ∃ cyber labels refs, buildStixCyberObservable S inst = .ok cyber ∧
      labelValues S inst = .ok labels ∧ buildExternalReferences S inst = .ok refs ∧
      getProp o "labels" = labels ∧
      getProp o "description" = getProp inst "x_opencti_description" ∧
      getProp o "score" = getProp inst "x_opencti_score" ∧
      getProp o "created_by_ref" = optProp (getProp inst S.INPUT_CREATED_BY) "standard_id" ∧
      getProp o "external_references" = refs ∧
      extensionsOf o = assign (extensionsOf cyber)
        [(S.STIX_EXT_OCTI_SCO, .obj [("extension_type", .str "new-sco")])] := by
  simp only [topLevelObservableTypes, List.mem_cons, List.mem_singleton, List.not_mem_nil,
    or_false] at hk
  rcases hk with e | e | e | e <;> subst e
  · rw [route_convertHostnameToStix hW ht] at ho
    exact convertHostnameToStix_topLevel o ho
  · rw [route_convertTextToStix hW ht] at ho
    exact convertTextToStix_topLevel o ho
  · rw [route_convertCryptocurrencyWalletToStix hW ht] at ho
    exact convertCryptocurrencyWalletToStix_topLevel o ho
  · rw [route_convertCryptographicKeyToStix hW ht] at ho
    exact convertCryptographicKeyToStix_topLevel o ho

/-- C37 fails as stated: the sample hostname has the description `""`, and its
output has no `description` field. -/
theorem C37_empty_description_absent :
    getProp sampleHostnameEmptyDescription "entity_type" = .str opencti.ENTITY_HOSTNAME ∧
    getProp sampleHostnameEmptyDescription "x_opencti_description" = .str "" ∧
    ∃ out, convertStoreToStix opencti sampleHostnameEmptyDescription = .ok out ∧
      hasProp out "description" = false ∧ getProp out "score" = .num 15 :=
  ⟨rfl, rfl, _, rfl, rfl, rfl⟩

/-- C37, amended: under a well-formed schema, for every successfully converted
hostname, text, cryptocurrency-wallet or cryptographic-key instance, the output
has no cyber-observable extension block, and the label values,
`x_opencti_description`, `x_opencti_score`, the created-by reference and the
external references are the top-level fields `labels`, `description`, `score`,
`created_by_ref` and `external_references`, each whenever it is non-empty; a
field whose value is empty is absent. -/
theorem C37_top_level_observable_fields (S : Schema) (hW : S.WellFormed) (inst out : Obj)
    (t : String) (h : convertStoreToStix S inst = .ok out)
    (ht : getProp inst "entity_type" = .str t) (hk : t ∈ topLevelObservableTypes S) :
    hasProp (extensionsOf out) S.STIX_EXT_OCTI_SCO = false ∧
    ∃ ls refs, nullish (getProp inst S.INPUT_LABELS) (.arr []) = .arr ls ∧
      nullish (getProp inst S.INPUT_EXTERNAL_REFS) (.arr []) = .arr refs ∧
      Carries out "labels" (.arr (ls.map fun m => optProp m "value")) ∧
      Carries out "description" (getProp inst "x_opencti_description") ∧
      Carries out "score" (getProp inst "x_opencti_score") ∧
      Carries out "created_by_ref" (optProp (getProp inst S.INPUT_CREATED_BY) "standard_id") ∧
      Carries out "external_references" (.arr (refs.map externalReferenceEntry)) := by
  obtain ⟨_, hty, o, ho, hc⟩ := convertStoreToStix_ok h
  obtain ⟨cyber, labels, refs, _, hl, hr, g1, g2, g3, g4, g5, hx⟩ :=
    convertToStix_topLevel hW ht hk ho
  obtain ⟨ls, hls, rfl⟩ := labelValues_eq hl
  obtain ⟨rs, hrs, rfl⟩ := buildExternalReferences_eq hr
  obtain ⟨exts, blk, hxo, hE, _, _, hout, _⟩ := convertStoreToStix_exts hW.extKeys hty ho hc
  refine ⟨?_, ls, rs, hls, hrs, ?_, ?_, ?_, ?_, ?_⟩
  · rw [hout]
    cases hh : hasProp (exts.filter fun e => entriesLength e.2 != 1) S.STIX_EXT_OCTI_SCO
    · rfl
    · have hp := ((hasProp_filter_iff exts hE.nodup _ S.STIX_EXT_OCTI_SCO).1 hh).2
      have hg : getProp exts S.STIX_EXT_OCTI_SCO =
          .obj [("extension_type", .str "new-sco")] := by
        rw [← hxo, hx, getProp_assign]
        simp [lookupLast]
      rw [hg] at hp
      simp [entriesLength] at hp
  · exact g1 ▸ convertStoreToStix_carries ho hc (by decide)
  · exact g2 ▸ convertStoreToStix_carries ho hc (by decide)
  · exact g3 ▸ convertStoreToStix_carries ho hc (by decide)
  · exact g4 ▸ convertStoreToStix_carries ho hc (by decide)
  · exact g5 ▸ convertStoreToStix_carries ho hc (by decide)

/-- C37, amended, on the sample text observable. -/
theorem C37_top_level_observable_fields_witness :
    opencti.WellFormed ∧
    ∃ out, convertStoreToStix opencti sampleText = .ok out ∧
      getProp out "labels" = .arr [.str "phishing"] ∧
      getProp out "description" = .str "Subject line of the campaign" ∧
      getProp out "score" = .num 40 ∧
      getProp out "created_by_ref" = .str "identity--0a6e8f11-1c3d-5f7c-9d2c-565c6b8ac0e5" ∧
      getProp out "external_references" = .arr [
        .obj [("source_name", .str "vendor-blog"), ("url", .str "https://blog.example/post")]] ∧
      hasProp (extensionsOf out) opencti.STIX_EXT_OCTI_SCO = false ∧
      ∃ ls refs, nullish (getProp sampleText opencti.INPUT_LABELS) (.arr []) = .arr ls ∧
        nullish (getProp sampleText opencti.INPUT_EXTERNAL_REFS) (.arr []) = .arr refs ∧
        Carries out "labels" (.arr (ls.map fun m => optProp m "value")) ∧
        Carries out "description" (getProp sampleText "x_opencti_description") ∧
        Carries out "score" (getProp sampleText "x_opencti_score") ∧
        Carries out "created_by_ref"
          (optProp (getProp sampleText opencti.INPUT_CREATED_BY) "standard_id") ∧
        Carries out "external_references" (.arr (refs.map externalReferenceEntry)) :=
  ⟨opencti_wellFormed, _, rfl, rfl, rfl, rfl, rfl, rfl,
    C37_top_level_observable_fields opencti opencti_wellFormed sampleText _ "X-OpenCTI-Text"
      rfl rfl (by decide)⟩

/-! ## C38 -/

theorem convertEmailAddressToStix_belongsTo {S : Schema} {inst : Obj} {t : String} :
    ∀ o, convertEmailAddressToStix S inst t = .ok o →
      getProp o "belongs_to_ref" =
        firstOptProp (nullish (getProp inst S.INPUT_BELONGS_TO) (.arr [])) "standard_id" := by
  simp only [convertEmailAddressToStix]
  repeat (refine bind_post ?_; intro _ _)
  intro o h
  rw [pure_eq_ok] at h
  subst h
  simp [getProp_assign, lookupLast]

/-- C38 fails as stated: the first entity of the belongs-to slot of the sample
email address has the `standard_id` `""`, and the output has no
`belongs_to_ref`, although the slot is neither absent nor empty. -/
theorem C38_belongs_to_ref_absent :
    ∃ first second out,
      getProp sampleEmailAddressEmptyId opencti.INPUT_BELONGS_TO = .arr [first, second] ∧
      optProp first "standard_id" = .str "" ∧
      convertStoreToStix opencti sampleEmailAddressEmptyId = .ok out ∧
      hasProp out "belongs_to_ref" = false :=
  ⟨_, _, _, rfl, rfl, rfl, rfl⟩

/-- C38, amended: under a well-formed schema, for every successfully converted
email address, `belongs_to_ref` is the `standard_id` of the first entity of the
belongs-to slot, whatever the further entries, whenever that `standard_id` is
non-empty; the field is absent when that `standard_id` is empty and when the
slot is absent, `null` or empty. -/
theorem C38_belongs_to_ref (S : Schema) (hW : S.WellFormed) (inst out : Obj)
    (h : convertStoreToStix S inst = .ok out)
    (ht : getProp inst "entity_type" = .str S.ENTITY_EMAIL_ADDR) :
    (∀ first rest, getProp inst S.INPUT_BELONGS_TO = .arr (first :: rest) →
      Carries out "belongs_to_ref" (optProp first "standard_id")) ∧
    (getProp inst S.INPUT_BELONGS_TO = .undefined ∨ getProp inst S.INPUT_BELONGS_TO = .null ∨
      getProp inst S.INPUT_BELONGS_TO = .arr [] → hasProp out "belongs_to_ref" = false) := by
  obtain ⟨_, _, o, ho, hc⟩ := convertStoreToStix_ok h
  have hcar := convertStoreToStix_carries (k := "belongs_to_ref") ho hc (by decide)
  rw [route_convertEmailAddressToStix hW ht] at ho
  rw [convertEmailAddressToStix_belongsTo o ho] at hcar
  refine ⟨fun first rest hs => ?_, fun hs => ?_⟩
  · rw [hs] at hcar
    exact hcar
  · rcases hs with e | e | e <;> rw [e] at hcar <;> exact hcar.2 rfl

/-- C38, amended, on the sample email address that belongs to two accounts. -/
theorem C38_belongs_to_ref_witness :
    opencti.WellFormed ∧
    ∃ out, convertStoreToStix opencti sampleEmailAddress = .ok out ∧
      getProp out "belongs_to_ref" =
        .str "user-account--1c3d565c-6b8a-5f7c-9d2c-0a6e8f11c0e7" ∧
      (∀ first rest, getProp sampleEmailAddress opencti.INPUT_BELONGS_TO = .arr (first :: rest) →
        Carries out "belongs_to_ref" (optProp first "standard_id")) ∧
      (getProp sampleEmailAddress opencti.INPUT_BELONGS_TO = .undefined ∨
        getProp sampleEmailAddress opencti.INPUT_BELONGS_TO = .null ∨
        getProp sampleEmailAddress opencti.INPUT_BELONGS_TO = .arr [] →
        hasProp out "belongs_to_ref" = false) :=
  ⟨opencti_wellFormed, _, rfl, rfl,
    C38_belongs_to_ref opencti opencti_wellFormed sampleEmailAddress _ rfl rfl⟩

/-! ## C39 -/

theorem strictEq_str (a b : String) : strictEq (.str a) (.str b) = decide (a = b) := rfl

theorem filter_ids (ids : List String) (sid s : String) :
    (ids.map JValue.str).filter (fun n => !strictEq n (.str sid) && !strictEq n (.str s)) =
      (ids.filter fun n => decide (n ≠ sid ∧ n ≠ s)).map JValue.str := by
  induction ids with
  | nil => rfl
  | cons x rest ih =>
    simp only [List.map_cons, List.filter_cons, strictEq_str, ih]
    by_cases h1 : x = sid <;> by_cases h2 : x = s <;> simp [h1, h2]

theorem deleteStixId_list (o : Obj) (stixId : JValue) (ids : List JValue)
    (h : orElse (getProp o "x_opencti_stix_ids") (.arr []) = .arr ids) :
    deleteStixId o stixId = .ok [
      ("id", getProp o "id"),
      ("input", .obj [("key", .str "x_opencti_stix_ids"),
        ("value", .arr (ids.filter fun n =>
          !strictEq n (getProp o "standard_id") && !strictEq n stixId))])] := by
  unfold deleteStixId
  rw [h]
  rfl

/-- C39: for a domain object whose `standard_id` is the string `sid`, the call
`deleteStixId(s)` submits, under the key `x_opencti_stix_ids`, the current list
of ids without every occurrence of `s` and of `sid`, the other ids being kept
in their original order; when the attribute is unset (absent or `null`) the
submitted list is empty. -/
theorem C39_deleteStixId (o : Obj) (sid s : String)
    (hsid : getProp o "standard_id" = .str sid) :
    (∀ ids : List String, getProp o "x_opencti_stix_ids" = .arr (ids.map JValue.str) →
      ∃ vars input, deleteStixId o (.str s) = .ok vars ∧
        getProp vars "input" = .obj input ∧
        getProp input "key" = .str "x_opencti_stix_ids" ∧
        getProp input "value" =
          .arr ((ids.filter fun n => decide (n ≠ sid ∧ n ≠ s)).map JValue.str)) ∧
    (getProp o "x_opencti_stix_ids" = .undefined ∨ getProp o "x_opencti_stix_ids" = .null →
      ∃ vars input, deleteStixId o (.str s) = .ok vars ∧
        getProp vars "input" = .obj input ∧
        getProp input "key" = .str "x_opencti_stix_ids" ∧
        getProp input "value" = .arr []) := by
  refine ⟨fun ids h => ?_, fun h => ?_⟩
  · have hl : orElse (getProp o "x_opencti_stix_ids") (.arr []) = .arr (ids.map JValue.str) := by
      rw [h]
      rfl
    refine ⟨_, _, deleteStixId_list o _ _ hl, rfl, rfl, ?_⟩
    rw [hsid]
    exact congrArg JValue.arr (filter_ids ids sid s)
  · have hl : orElse (getProp o "x_opencti_stix_ids") (.arr []) = .arr [] := by
      rcases h with e | e <;> rw [e] <;> rfl
    exact ⟨_, _, deleteStixId_list o _ _ hl, rfl, rfl, rfl⟩

/-- C39 on the sample props: deleting the id that occurs twice removes both
occurrences and the standard id of the object, and keeps the two other ids in
order. -/
theorem C39_deleteStixId_witness :
    ∃ vars input,
      deleteStixId sampleOverviewProps (.str "malware--aaaaaaaa-0000-4000-8000-000000000001") =
        .ok vars ∧
      getProp vars "input" = .obj input ∧
      getProp input "key" = .str "x_opencti_stix_ids" ∧
      getProp input "value" = .arr [
        .str "malware--bbbbbbbb-0000-4000-8000-000000000002",
        .str "malware--cccccccc-0000-4000-8000-000000000003"] :=
  (C39_deleteStixId sampleOverviewProps "malware--6f2d9c1e-3b7a-4e58-9a10-5d2c7e8b1f33"
    "malware--aaaaaaaa-0000-4000-8000-000000000001" rfl).1
    ["malware--aaaaaaaa-0000-4000-8000-000000000001",
      "malware--bbbbbbbb-0000-4000-8000-000000000002",
      "malware--6f2d9c1e-3b7a-4e58-9a10-5d2c7e8b1f33",
      "malware--aaaaaaaa-0000-4000-8000-000000000001",
      "malware--cccccccc-0000-4000-8000-000000000003"] rfl

/-! ## The discriminator of the platform block -/

theorem platformExtType_assign {S : Schema} {base : Obj} {v : String}
    (hb : PlatformExtType S base v) (fields : Obj)
    (hf : lookupLast fields "extensions" = none) : PlatformExtType S (assign base fields) v := by
  unfold PlatformExtType
  rw [extensionsOf_assign, hf]
  exact hb

theorem platformExtType_single {S : Schema} {base blk : Obj} {v : String} (fields : Obj)
    (hf : lookupLast fields "extensions" = some (.obj (mkObj [(S.STIX_EXT_OCTI, .obj blk)])))
    (hn : NoDupKeys blk) (hx : hasProp blk "extensions" = false)
    (hv : getProp blk "extension_type" = .str v) :
    PlatformExtType S (assign base fields) v := by
  refine ⟨blk, ?_, hn, hx, hv⟩
  rw [extensionsOf_assign, hf]
  simp [spread, getProp_mkObj, lookupLast]

theorem platformExtType_rebuilt {S : Schema} {base octi extra exts : Obj} {v w : String}
    (hb : PlatformExtType S base v) (fields : Obj)
    (hc : cleanObject (assign (spread (getProp (extensionsOf base) S.STIX_EXT_OCTI)) extra) =
      .ok octi)
    (h2 : lookupLast extra "extensions" = none)
    (h3 : (lookupLast extra "extension_type").getD (.str v) = .str w) (hw : w ≠ "")
    (hf : lookupLast fields "extensions" = some (.obj exts))
    (hg : getProp exts S.STIX_EXT_OCTI = .obj octi) :
    PlatformExtType S (assign base fields) w := by
  obtain ⟨blk, hgb, hn, hx, hv⟩ := hb
  rw [hgb] at hc
  simp only [spread] at hc
  have hna := nodup_assign extra blk hn
  have hxa : hasProp (assign blk extra) "extensions" = false := by
    rw [hasProp_assign, hx, h2]
    rfl
  refine ⟨octi, ?_, cleanObject_nodup _ _ hna hc, ?_, ?_⟩
  · rw [extensionsOf_assign, hf]
    exact hg
  · rw [cleanObject_hasProp _ hna octi hc, hxa]
    rfl
  · rw [cleanObject_getProp _ hna octi hc "extension_type" (by decide), getProp_assign, hv, h3]
    simp [isEmptyField, hw]

theorem platformExtType_retyped {S : Schema} {base : Obj} {v w : String}
    (hb : PlatformExtType S base v) (fields : Obj)
    (hf : lookupLast fields "extensions" = some (.obj (mkObj [(S.STIX_EXT_OCTI,
      .obj (assign (spread (getProp (extensionsOf base) S.STIX_EXT_OCTI))
        [("extension_type", .str w)]))]))) :
    PlatformExtType S (assign base fields) w := by
  obtain ⟨blk, hg, hn, hx, _⟩ := hb
  rw [hg] at hf
  simp only [spread] at hf
  refine platformExtType_single fields hf (nodup_assign _ blk hn) ?_ ?_
  · rw [hasProp_assign, hx]
    simp [lookupLast]
  · rw [getProp_assign]
    simp [lookupLast]

theorem buildOCTIExtensions_extType {S : Schema} {inst octi : Obj}
    (h : buildOCTIExtensions S inst = .ok octi) :
    NoDupKeys octi ∧ hasProp octi "extensions" = false ∧
      getProp octi "extension_type" = .str "property-extension" := by
  have hB := buildOCTIExtensions_block h
  refine ⟨hB.nodup, hB.noExt, ?_⟩
  simp only [buildOCTIExtensions, bind_eq_ok] at h
  obtain ⟨files, _, ids, _, flag, _, hc⟩ := h
  rw [cleanObject_getProp _ (by simp [NoDupKeys, keys]) octi hc "extension_type" (by decide)]
  simp [getProp, isEmptyField]

theorem platformExtType_mitre {S : Schema} (hS : S.ExtKeysDistinct) {inst base octi mitre : Obj}
    (fields : Obj) (ho : buildOCTIExtensions S inst = .ok octi)
    (hf : lookupLast fields "extensions" =
      some (.obj (mkObj [(S.STIX_EXT_OCTI, .obj octi), (S.STIX_EXT_MITRE, .obj mitre)]))) :
    PlatformExtType S (assign base fields) "property-extension" := by
  obtain ⟨hn, hx, hv⟩ := buildOCTIExtensions_extType ho
  refine ⟨octi, ?_, hn, hx, hv⟩
  rw [extensionsOf_assign, hf]
  simp [spread, getProp_mkObj, lookupLast, Ne.symm hS.2.1]

theorem platformExtType_sco {S : Schema} (hS : S.ExtKeysDistinct) {base : Obj} {v : String}
    {w : JValue} (hb : PlatformExtType S base v) (fields : Obj)
    (hf : lookupLast fields "extensions" =
      some (.obj (assign (extensionsOf base) [(S.STIX_EXT_OCTI_SCO, w)]))) :
    PlatformExtType S (assign base fields) v := by
  obtain ⟨blk, hg, hn, hx, hv⟩ := hb
  refine ⟨blk, ?_, hn, hx, hv⟩
  rw [extensionsOf_assign, hf]
  simp [spread, getProp_assign, lookupLast, Ne.symm hS.1, hg]

theorem platformExtType_pair {S : Schema} (hS : S.ExtKeysDistinct) {base other : Obj}
    {v : String} {w : JValue} (hb : PlatformExtType S other v) (fields : Obj)
    (hf : lookupLast fields "extensions" = some (.obj (mkObj [
      (S.STIX_EXT_OCTI, getProp (extensionsOf other) S.STIX_EXT_OCTI),
      (S.STIX_EXT_OCTI_SCO, w)]))) :
    PlatformExtType S (assign base fields) v := by
  obtain ⟨blk, hg, hn, hx, hv⟩ := hb
  refine ⟨blk, ?_, hn, hx, hv⟩
  rw [extensionsOf_assign, hf]
  simp [spread, getProp_mkObj, lookupLast, Ne.symm hS.1, hg]

theorem buildStixObject_extType {S : Schema} {inst o : Obj}
    (h : buildStixObject S inst = .ok o) : PlatformExtType S o "property-extension" := by
  simp only [buildStixObject, bind_eq_ok, pure_eq_ok] at h
  obtain ⟨t, _, octi, ho, rfl⟩ := h
  obtain ⟨hn, hx, hv⟩ := buildOCTIExtensions_extType ho
  refine ⟨octi, ?_, hn, hx, hv⟩
  simp [extensionsOf, getProp, spread, getProp_mkObj, lookupLast]

theorem buildStixDomain_extType {S : Schema} {inst o : Obj}
    (h : buildStixDomain S inst = .ok o) : PlatformExtType S o "property-extension" := by
  simp only [buildStixDomain, bind_eq_ok, pure_eq_ok] at h
  obtain ⟨base, hb, _, _, _, _, _, _, rfl⟩ := h
  exact platformExtType_assign (buildStixObject_extType hb) _ (by simp [lookupLast])

theorem buildStixRelationship_extType {S : Schema} {inst o : Obj}
    (h : buildStixRelationship S inst = .ok o) : PlatformExtType S o "property-extension" :=
  buildStixDomain_extType h

theorem buildStixMarkings_extType {S : Schema} {inst o : Obj}
    (h : buildStixMarkings S inst = .ok o) : PlatformExtType S o "property-extension" := by
  simp only [buildStixMarkings, bind_eq_ok, pure_eq_ok] at h
  obtain ⟨base, hb, _, _, _, _, rfl⟩ := h
  exact platformExtType_assign (buildStixObject_extType hb) _ (by simp [lookupLast])

theorem buildStixCyberObservable_extType {S : Schema} (hS : S.ExtKeysDistinct) {inst o : Obj}
    (h : buildStixCyberObservable S inst = .ok o) :
    PlatformExtType S o "property-extension" := by
  simp only [buildStixCyberObservable, bind_eq_ok, pure_eq_ok] at h
  obtain ⟨base, hb, _, _, _, _, _, _, _, _, sco, _, rfl⟩ := h
  exact platformExtType_pair hS (buildStixObject_extType hb) _ (by rfl)

theorem convertIdentityToStix_extType {S : Schema} (hS : S.ExtKeysDistinct) {inst : Obj} {t : String} :
    ∀ o, convertIdentityToStix S inst t = .ok o → PlatformExtType S o "property-extension" := by
  simp only [convertIdentityToStix]
  refine ite_post (fun _ => throw_bind_post) (fun _ => ?_)
  repeat (refine bind_post ?_; intro _ _)
  intro o h
  rw [pure_eq_ok] at h
  subst h
  exact platformExtType_rebuilt (buildStixDomain_extType (by assumption)) _ (by assumption) (by simp [lookupLast])
    (by simp [lookupLast]) (by decide) (by rfl) (by simp [getProp_mkObj, lookupLast])

theorem convertLocationToStix_extType {S : Schema} (hS : S.ExtKeysDistinct) {inst : Obj} {t : String} :
    ∀ o, convertLocationToStix S inst t = .ok o → PlatformExtType S o "property-extension" := by
  simp only [convertLocationToStix]
  refine ite_post (fun _ => throw_bind_post) (fun _ => ?_)
  repeat (refine bind_post ?_; intro _ _)
  intro o h
  rw [pure_eq_ok] at h
  subst h
  exact platformExtType_assign (buildStixDomain_extType (by assumption)) _ (by simp [lookupLast])

theorem convertReportToStix_extType {S : Schema} (hS : S.ExtKeysDistinct) {inst : Obj} {t : String} :
    ∀ o, convertReportToStix S inst t = .ok o → PlatformExtType S o "property-extension" := by
  simp only [convertReportToStix]
  repeat (refine bind_post ?_; intro _ _)
  intro o h
  rw [pure_eq_ok] at h
  subst h
  exact platformExtType_assign (buildStixDomain_extType (by assumption)) _ (by simp [lookupLast])

theorem convertMalwareToStix_extType {S : Schema} (hS : S.ExtKeysDistinct) {inst : Obj} {t : String} :
    ∀ o, convertMalwareToStix S inst t = .ok o → PlatformExtType S o "property-extension" := by
  simp only [convertMalwareToStix]
  repeat (refine bind_post ?_; intro _ _)
  intro o h
  rw [pure_eq_ok] at h
  subst h
  exact platformExtType_assign (buildStixDomain_extType (by assumption)) _ (by simp [lookupLast])

theorem convertInfrastructureToStix_extType {S : Schema} (hS : S.ExtKeysDistinct) {inst : Obj} {t : String} :
    ∀ o, convertInfrastructureToStix S inst t = .ok o → PlatformExtType S o "property-extension" := by
  simp only [convertInfrastructureToStix]
  repeat (refine bind_post ?_; intro _ _)
  intro o h
  rw [pure_eq_ok] at h
  subst h
  exact platformExtType_assign (buildStixDomain_extType (by assumption)) _ (by simp [lookupLast])

theorem convertAttackPatternToStix_extType {S : Schema} (hS : S.ExtKeysDistinct) {inst : Obj} {t : String} :
    ∀ o, convertAttackPatternToStix S inst t = .ok o → PlatformExtType S o "property-extension" := by
  simp only [convertAttackPatternToStix]
  repeat (refine bind_post ?_; intro _ _)
  intro o h
  rw [pure_eq_ok] at h
  subst h
  exact platformExtType_mitre hS _ (by assumption) (by rfl)

theorem convertCampaignToStix_extType {S : Schema} (hS : S.ExtKeysDistinct) {inst : Obj} {t : String} :
    ∀ o, convertCampaignToStix S inst t = .ok o → PlatformExtType S o "property-extension" := by
  simp only [convertCampaignToStix]
  repeat (refine bind_post ?_; intro _ _)
  intro o h
  rw [pure_eq_ok] at h
  subst h
  exact platformExtType_assign (buildStixDomain_extType (by assumption)) _ (by simp [lookupLast])

theorem convertThreatActorToStix_extType {S : Schema} (hS : S.ExtKeysDistinct) {inst : Obj} {t : String} :
    ∀ o, convertThreatActorToStix S inst t = .ok o → PlatformExtType S o "property-extension" := by
  simp only [convertThreatActorToStix]
  repeat (refine bind_post ?_; intro _ _)
  intro o h
  rw [pure_eq_ok] at h
  subst h
  exact platformExtType_assign (buildStixDomain_extType (by assumption)) _ (by simp [lookupLast])

theorem convertNoteToStix_extType {S : Schema} (hS : S.ExtKeysDistinct) {inst : Obj} {t : String} :
    ∀ o, convertNoteToStix S inst t = .ok o → PlatformExtType S o "property-extension" := by
  simp only [convertNoteToStix]
  repeat (refine bind_post ?_; intro _ _)
  intro o h
  rw [pure_eq_ok] at h
  subst h
  exact platformExtType_assign (buildStixDomain_extType (by assumption)) _ (by simp [lookupLast])

theorem convertOpinionToStix_extType {S : Schema} (hS : S.ExtKeysDistinct) {inst : Obj} {t : String} :
    ∀ o, convertOpinionToStix S inst t = .ok o → PlatformExtType S o "property-extension" := by
  simp only [convertOpinionToStix]
  repeat (refine bind_post ?_; intro _ _)
  intro o h
  rw [pure_eq_ok] at h
  subst h
  exact platformExtType_assign (buildStixDomain_extType (by assumption)) _ (by simp [lookupLast])

theorem convertObservedDateToStix_extType {S : Schema} (hS : S.ExtKeysDistinct) {inst : Obj} {t : String} :
    ∀ o, convertObservedDateToStix S inst t = .ok o → PlatformExtType S o "property-extension" := by
  simp only [convertObservedDateToStix]
  repeat (refine bind_post ?_; intro _ _)
  intro o h
  rw [pure_eq_ok] at h
  subst h
  exact platformExtType_assign (buildStixDomain_extType (by assumption)) _ (by simp [lookupLast])

theorem convertCourseOfActionToStix_extType {S : Schema} (hS : S.ExtKeysDistinct) {inst : Obj} {t : String} :
    ∀ o, convertCourseOfActionToStix S inst t = .ok o → PlatformExtType S o "property-extension" := by
  simp only [convertCourseOfActionToStix]
  repeat (refine bind_post ?_; intro _ _)
  intro o h
  rw [pure_eq_ok] at h
  subst h
  exact platformExtType_mitre hS _ (by assumption) (by rfl)

theorem convertIncidentToStix_extType {S : Schema} (hS : S.ExtKeysDistinct) {inst : Obj} {t : String} :
    ∀ o, convertIncidentToStix S inst t = .ok o → PlatformExtType S o "new-sdo" := by
  simp only [convertIncidentToStix]
  repeat (refine bind_post ?_; intro _ _)
  intro o h
  rw [pure_eq_ok] at h
  subst h
  exact platformExtType_retyped (buildStixDomain_extType (by assumption)) _ (by rfl)

theorem convertIndicatorToStix_extType {S : Schema} (hS : S.ExtKeysDistinct) {inst : Obj} {t : String} :
    ∀ o, convertIndicatorToStix S inst t = .ok o → PlatformExtType S o "property-extension" := by
  simp only [convertIndicatorToStix]
  repeat (refine bind_post ?_; intro _ _)
  intro o h
  rw [pure_eq_ok] at h
  subst h
  exact platformExtType_rebuilt (buildStixDomain_extType (by assumption)) _ (by assumption) (by simp [lookupLast])
    (by simp [lookupLast]) (by decide) (by rfl)
    (by simp [getProp_mkObj, lookupLast, Ne.symm hS.2.1])

theorem convertIntrusionSetToStix_extType {S : Schema} (hS : S.ExtKeysDistinct) {inst : Obj} {t : String} :
    ∀ o, convertIntrusionSetToStix S inst t = .ok o → PlatformExtType S o "property-extension" := by
  simp only [convertIntrusionSetToStix]
  repeat (refine bind_post ?_; intro _ _)
  intro o h
  rw [pure_eq_ok] at h
  subst h
  exact platformExtType_assign (buildStixDomain_extType (by assumption)) _ (by simp [lookupLast])

theorem convertToolToStix_extType {S : Schema} (hS : S.ExtKeysDistinct) {inst : Obj} {t : String} :
    ∀ o, convertToolToStix S inst t = .ok o → PlatformExtType S o "property-extension" := by
  simp only [convertToolToStix]
  repeat (refine bind_post ?_; intro _ _)
  intro o h
  rw [pure_eq_ok] at h
  subst h
  exact platformExtType_assign (buildStixDomain_extType (by assumption)) _ (by simp [lookupLast])

theorem convertVulnerabilityToStix_extType {S : Schema} (hS : S.ExtKeysDistinct) {inst : Obj} {t : String} :
    ∀ o, convertVulnerabilityToStix S inst t = .ok o → PlatformExtType S o "property-extension" := by
  simp only [convertVulnerabilityToStix]
  repeat (refine bind_post ?_; intro _ _)
  intro o h
  rw [pure_eq_ok] at h
  subst h
  exact platformExtType_rebuilt (buildStixDomain_extType (by assumption)) _ (by assumption) (by simp [lookupLast])
    (by simp [lookupLast]) (by decide) (by rfl) (by simp [getProp_mkObj, lookupLast])

theorem convertMarkingToStix_extType {S : Schema} (hS : S.ExtKeysDistinct) {inst : Obj} :
    ∀ o, convertMarkingToStix S inst = .ok o → PlatformExtType S o "property-extension" := by
  simp only [convertMarkingToStix]
  repeat (refine bind_post ?_; intro _ _)
  intro o h
  rw [pure_eq_ok] at h
  subst h
  exact platformExtType_rebuilt (buildStixMarkings_extType (by assumption)) _ (by assumption) (by simp [lookupLast])
    (by simp [lookupLast]) (by decide) (by rfl) (by simp [getProp_mkObj, lookupLast])

theorem convertLabelToStix_extType {S : Schema} (hS : S.ExtKeysDistinct) {inst : Obj} :
    ∀ o, convertLabelToStix S inst = .ok o → PlatformExtType S o "new-sdo" := by
  simp only [convertLabelToStix]
  repeat (refine bind_post ?_; intro _ _)
  intro o h
  rw [pure_eq_ok] at h
  subst h
  exact platformExtType_rebuilt (buildStixObject_extType (by assumption)) _ (by assumption) (by simp [lookupLast])
    (by simp [lookupLast]) (by decide) (by rfl) (by simp [getProp_mkObj, lookupLast])

theorem convertKillChainPhaseToStix_extType {S : Schema} (hS : S.ExtKeysDistinct) {inst : Obj} :
    ∀ o, convertKillChainPhaseToStix S inst = .ok o → PlatformExtType S o "new-sdo" := by
  simp only [convertKillChainPhaseToStix]
  repeat (refine bind_post ?_; intro _ _)
  intro o h
  rw [pure_eq_ok] at h
  subst h
  exact platformExtType_rebuilt (buildStixObject_extType (by assumption)) _ (by assumption) (by simp [lookupLast])
    (by simp [lookupLast]) (by decide) (by rfl) (by simp [getProp_mkObj, lookupLast])

theorem convertExternalReferenceToStix_extType {S : Schema} (hS : S.ExtKeysDistinct) {inst : Obj} :
    ∀ o, convertExternalReferenceToStix S inst = .ok o → PlatformExtType S o "new-sdo" := by
  simp only [convertExternalReferenceToStix]
  repeat (refine bind_post ?_; intro _ _)
  intro o h
  rw [pure_eq_ok] at h
  subst h
  exact platformExtType_rebuilt (buildStixObject_extType (by assumption)) _ (by assumption) (by simp [lookupLast])
    (by simp [lookupLast]) (by decide) (by rfl) (by simp [getProp_mkObj, lookupLast])

theorem convertWindowsRegistryValueToStix_extType {S : Schema} (hS : S.ExtKeysDistinct) {inst : Obj} :
    ∀ o, convertWindowsRegistryValueToStix S inst = .ok o → PlatformExtType S o "property-extension" := by
  simp only [convertWindowsRegistryValueToStix]
  repeat (refine bind_post ?_; intro _ _)
  intro o h
  rw [pure_eq_ok] at h
  subst h
  exact platformExtType_pair hS (buildStixCyberObservable_extType hS (by assumption)) _ (by rfl)

theorem convertEmailMimePartToStix_extType {S : Schema} (hS : S.ExtKeysDistinct) {inst : Obj} :
    ∀ o, convertEmailMimePartToStix S inst = .ok o → PlatformExtType S o "property-extension" := by
  simp only [convertEmailMimePartToStix]
  repeat (refine bind_post ?_; intro _ _)
  intro o h
  rw [pure_eq_ok] at h
  subst h
  exact platformExtType_pair hS (buildStixCyberObservable_extType hS (by assumption)) _ (by rfl)

theorem convertArtifactToStix_extType {S : Schema} (hS : S.ExtKeysDistinct) {inst : Obj} {t : String} :
    ∀ o, convertArtifactToStix S inst t = .ok o → PlatformExtType S o "property-extension" := by
  simp only [convertArtifactToStix]
  repeat (refine bind_post ?_; intro _ _)
  intro o h
  rw [pure_eq_ok] at h
  subst h
  exact platformExtType_sco hS (buildStixCyberObservable_extType hS (by assumption)) _ (by rfl)

theorem convertAutonomousSystemToStix_extType {S : Schema} (hS : S.ExtKeysDistinct) {inst : Obj} {t : String} :
    ∀ o, convertAutonomousSystemToStix S inst t = .ok o → PlatformExtType S o "property-extension" := by
  simp only [convertAutonomousSystemToStix]
  repeat (refine bind_post ?_; intro _ _)
  intro o h
  rw [pure_eq_ok] at h
  subst h
  exact platformExtType_assign (buildStixCyberObservable_extType hS (by assumption)) _ (by simp [lookupLast])

theorem convertCryptocurrencyWalletToStix_extType {S : Schema} (hS : S.ExtKeysDistinct) {inst : Obj} {t : String} :
    ∀ o, convertCryptocurrencyWalletToStix S inst t = .ok o → PlatformExtType S o "property-extension" := by
  simp only [convertCryptocurrencyWalletToStix]
  repeat (refine bind_post ?_; intro _ _)
  intro o h
  rw [pure_eq_ok] at h
  subst h
  exact platformExtType_sco hS (buildStixCyberObservable_extType hS (by assumption)) _ (by rfl)

theorem convertCryptographicKeyToStix_extType {S : Schema} (hS : S.ExtKeysDistinct) {inst : Obj} {t : String} :
    ∀ o, convertCryptographicKeyToStix S inst t = .ok o → PlatformExtType S o "property-extension" := by
  simp only [convertCryptographicKeyToStix]
  repeat (refine bind_post ?_; intro _ _)
  intro o h
  rw [pure_eq_ok] at h
  subst h
  exact platformExtType_sco hS (buildStixCyberObservable_extType hS (by assumption)) _ (by rfl)

theorem convertDirectoryToStix_extType {S : Schema} (hS : S.ExtKeysDistinct) {inst : Obj} {t : String} :
    ∀ o, convertDirectoryToStix S inst t = .ok o → PlatformExtType S o "property-extension" := by
  simp only [convertDirectoryToStix]
  repeat (refine bind_post ?_; intro _ _)
  intro o h
  rw [pure_eq_ok] at h
  subst h
  exact platformExtType_assign (buildStixCyberObservable_extType hS (by assumption)) _ (by simp [lookupLast])

theorem convertDomainNameToStix_extType {S : Schema} (hS : S.ExtKeysDistinct) {inst : Obj} {t : String} :
    ∀ o, convertDomainNameToStix S inst t = .ok o → PlatformExtType S o "property-extension" := by
  simp only [convertDomainNameToStix]
  repeat (refine bind_post ?_; intro _ _)
  intro o h
  rw [pure_eq_ok] at h
  subst h
  exact platformExtType_assign (buildStixCyberObservable_extType hS (by assumption)) _ (by simp [lookupLast])

theorem convertEmailAddressToStix_extType {S : Schema} (hS : S.ExtKeysDistinct) {inst : Obj} {t : String} :
    ∀ o, convertEmailAddressToStix S inst t = .ok o → PlatformExtType S o "property-extension" := by
  simp only [convertEmailAddressToStix]
  repeat (refine bind_post ?_; intro _ _)
  intro o h
  rw [pure_eq_ok] at h
  subst h
  exact platformExtType_assign (buildStixCyberObservable_extType hS (by assumption)) _ (by simp [lookupLast])

theorem convertEmailMessageToStix_extType {S : Schema} (hS : S.ExtKeysDistinct) {inst : Obj} {t : String} :
    ∀ o, convertEmailMessageToStix S inst t = .ok o → PlatformExtType S o "property-extension" := by
  simp only [convertEmailMessageToStix]
  repeat (refine bind_post ?_; intro _ _)
  intro o h
  rw [pure_eq_ok] at h
  subst h
  exact platformExtType_assign (buildStixCyberObservable_extType hS (by assumption)) _ (by simp [lookupLast])

theorem convertFileToStix_extType {S : Schema} (hS : S.ExtKeysDistinct) {inst : Obj} {t : String} :
    ∀ o, convertFileToStix S inst t = .ok o → PlatformExtType S o "property-extension" := by
  simp only [convertFileToStix]
  repeat (refine bind_post ?_; intro _ _)
  intro o h
  rw [pure_eq_ok] at h
  subst h
  exact platformExtType_sco hS (buildStixCyberObservable_extType hS (by assumption)) _ (by rfl)

theorem convertHostnameToStix_extType {S : Schema} (hS : S.ExtKeysDistinct) {inst : Obj} {t : String} :
    ∀ o, convertHostnameToStix S inst t = .ok o → PlatformExtType S o "property-extension" := by
  simp only [convertHostnameToStix]
  repeat (refine bind_post ?_; intro _ _)
  intro o h
  rw [pure_eq_ok] at h
  subst h
  exact platformExtType_sco hS (buildStixCyberObservable_extType hS (by assumption)) _ (by rfl)

theorem convertIPv4AddressToStix_extType {S : Schema} (hS : S.ExtKeysDistinct) {inst : Obj} {t : String} :
    ∀ o, convertIPv4AddressToStix S inst t = .ok o → PlatformExtType S o "property-extension" := by
  simp only [convertIPv4AddressToStix]
  repeat (refine bind_post ?_; intro _ _)
  intro o h
  rw [pure_eq_ok] at h
  subst h
  exact platformExtType_assign (buildStixCyberObservable_extType hS (by assumption)) _ (by simp [lookupLast])

theorem convertIPv6AddressToStix_extType {S : Schema} (hS : S.ExtKeysDistinct) {inst : Obj} {t : String} :
    ∀ o, convertIPv6AddressToStix S inst t = .ok o → PlatformExtType S o "property-extension" := by
  simp only [convertIPv6AddressToStix]
  repeat (refine bind_post ?_; intro _ _)
  intro o h
  rw [pure_eq_ok] at h
  subst h
  exact platformExtType_assign (buildStixCyberObservable_extType hS (by assumption)) _ (by simp [lookupLast])

theorem convertMacAddressToStix_extType {S : Schema} (hS : S.ExtKeysDistinct) {inst : Obj} {t : String} :
    ∀ o, convertMacAddressToStix S inst t = .ok o → PlatformExtType S o "property-extension" := by
  simp only [convertMacAddressToStix]
  repeat (refine bind_post ?_; intro _ _)
  intro o h
  rw [pure_eq_ok] at h
  subst h
  exact platformExtType_assign (buildStixCyberObservable_extType hS (by assumption)) _ (by simp [lookupLast])

theorem convertMutexToStix_extType {S : Schema} (hS : S.ExtKeysDistinct) {inst : Obj} {t : String} :
    ∀ o, convertMutexToStix S inst t = .ok o → PlatformExtType S o "property-extension" := by
  simp only [convertMutexToStix]
  repeat (refine bind_post ?_; intro _ _)
  intro o h
  rw [pure_eq_ok] at h
  subst h
  exact platformExtType_assign (buildStixCyberObservable_extType hS (by assumption)) _ (by simp [lookupLast])

theorem convertNetworkTrafficToStix_extType {S : Schema} (hS : S.ExtKeysDistinct) {inst : Obj} {t : String} :
    ∀ o, convertNetworkTrafficToStix S inst t = .ok o → PlatformExtType S o "property-extension" := by
  simp only [convertNetworkTrafficToStix]
  repeat (refine bind_post ?_; intro _ _)
  intro o h
  rw [pure_eq_ok] at h
  subst h
  exact platformExtType_assign (buildStixCyberObservable_extType hS (by assumption)) _ (by simp [lookupLast])

theorem convertProcessToStix_extType {S : Schema} (hS : S.ExtKeysDistinct) {inst : Obj} {t : String} :
    ∀ o, convertProcessToStix S inst t = .ok o → PlatformExtType S o "property-extension" := by
  simp only [convertProcessToStix]
  repeat (refine bind_post ?_; intro _ _)
  intro o h
  rw [pure_eq_ok] at h
  subst h
  exact platformExtType_assign (buildStixCyberObservable_extType hS (by assumption)) _ (by simp [lookupLast])

theorem convertSoftwareToStix_extType {S : Schema} (hS : S.ExtKeysDistinct) {inst : Obj} {t : String} :
    ∀ o, convertSoftwareToStix S inst t = .ok o → PlatformExtType S o "property-extension" := by
  simp only [convertSoftwareToStix]
  repeat (refine bind_post ?_; intro _ _)
  intro o h
  rw [pure_eq_ok] at h
  subst h
  exact platformExtType_assign (buildStixCyberObservable_extType hS (by assumption)) _ (by simp [lookupLast])

theorem convertTextToStix_extType {S : Schema} (hS : S.ExtKeysDistinct) {inst : Obj} {t : String} :
    ∀ o, convertTextToStix S inst t = .ok o → PlatformExtType S o "property-extension" := by
  simp only [convertTextToStix]
  repeat (refine bind_post ?_; intro _ _)
  intro o h
  rw [pure_eq_ok] at h
  subst h
  exact platformExtType_sco hS (buildStixCyberObservable_extType hS (by assumption)) _ (by rfl)

theorem convertURLToStix_extType {S : Schema} (hS : S.ExtKeysDistinct) {inst : Obj} {t : String} :
    ∀ o, convertURLToStix S inst t = .ok o → PlatformExtType S o "property-extension" := by
  simp only [convertURLToStix]
  repeat (refine bind_post ?_; intro _ _)
  intro o h
  rw [pure_eq_ok] at h
  subst h
  exact platformExtType_assign (buildStixCyberObservable_extType hS (by assumption)) _ (by simp [lookupLast])

theorem convertUserAccountToStix_extType {S : Schema} (hS : S.ExtKeysDistinct) {inst : Obj} {t : String} :
    ∀ o, convertUserAccountToStix S inst t = .ok o → PlatformExtType S o "property-extension" := by
  simp only [convertUserAccountToStix]
  repeat (refine bind_post ?_; intro _ _)
  intro o h
  rw [pure_eq_ok] at h
  subst h
  exact platformExtType_assign (buildStixCyberObservable_extType hS (by assumption)) _ (by simp [lookupLast])

theorem convertWindowsRegistryKeyToStix_extType {S : Schema} (hS : S.ExtKeysDistinct) {inst : Obj} {t : String} :
    ∀ o, convertWindowsRegistryKeyToStix S inst t = .ok o → PlatformExtType S o "property-extension" := by
  simp only [convertWindowsRegistryKeyToStix]
  repeat (refine bind_post ?_; intro _ _)
  intro o h
  rw [pure_eq_ok] at h
  subst h
  exact platformExtType_assign (buildStixCyberObservable_extType hS (by assumption)) _ (by simp [lookupLast])

theorem convertX509CertificateToStix_extType {S : Schema} (hS : S.ExtKeysDistinct) {inst : Obj} {t : String} :
    ∀ o, convertX509CertificateToStix S inst t = .ok o → PlatformExtType S o "property-extension" := by
  simp only [convertX509CertificateToStix]
  repeat (refine bind_post ?_; intro _ _)
  intro o h
  rw [pure_eq_ok] at h
  subst h
  exact platformExtType_assign (buildStixCyberObservable_extType hS (by assumption)) _ (by simp [lookupLast])

theorem convertRelationToStix_extType {S : Schema} (hS : S.ExtKeysDistinct) {inst : Obj} :
    ∀ o, convertRelationToStix S inst = .ok o → PlatformExtType S o "property-extension" := by
  simp only [convertRelationToStix]
  repeat (refine bind_post ?_; intro _ _)
  intro o h
  rw [pure_eq_ok] at h
  subst h
  exact platformExtType_rebuilt (buildStixRelationship_extType (by assumption)) _ (by assumption) (by simp [lookupLast])
    (by simp [lookupLast]) (by decide) (by rfl) (by simp [getProp_mkObj, lookupLast])

theorem convertSightingToStix_extType {S : Schema} (hS : S.ExtKeysDistinct) {inst : Obj} :
    ∀ o, convertSightingToStix S inst = .ok o → PlatformExtType S o "property-extension" := by
  simp only [convertSightingToStix]
  repeat (refine bind_post ?_; intro _ _)
  intro o h
  rw [pure_eq_ok] at h
  subst h
  exact platformExtType_rebuilt (buildStixRelationship_extType (by assumption)) _ (by assumption) (by simp [lookupLast])
    (by simp [lookupLast]) (by decide) (by rfl) (by simp [getProp_mkObj, lookupLast])

theorem convertRelationshipKind_extType {S : Schema} (hS : S.ExtKeysDistinct) {inst : Obj} {t : String}
    (hn : t ∉ newSdoTypes S) :
    ∀ o, convertRelationshipKind S inst t = .ok o → PlatformExtType S o "property-extension" := by
  unfold convertRelationshipKind
  refine ite_post (fun _ => convertRelationToStix_extType hS) (fun _ => ?_)
  refine ite_post (fun _ => convertRelationToStix_extType hS) (fun _ => ?_)
  refine ite_post (fun _ => convertSightingToStix_extType hS) (fun _ => ?_)
  refine ite_post (fun _ => convertRelationToStix_extType hS) (fun _ => ?_)
  exact fun b h => absurd h (throw_ne_ok _ _)

theorem convertDomainKind_extType {S : Schema} (hS : S.ExtKeysDistinct) {inst : Obj} {t : String}
    (hn : t ∉ newSdoTypes S) :
    ∀ o, convertDomainKind S inst t = .ok o → PlatformExtType S o "property-extension" := by
  unfold convertDomainKind
  refine ite_post (fun _ => convertIdentityToStix_extType hS) (fun _ => ?_)
  refine ite_post (fun _ => convertLocationToStix_extType hS) (fun _ => ?_)
  refine ite_post (fun _ => convertReportToStix_extType hS) (fun _ => ?_)
  refine ite_post (fun _ => convertMalwareToStix_extType hS) (fun _ => ?_)
  refine ite_post (fun _ => convertInfrastructureToStix_extType hS) (fun _ => ?_)
  refine ite_post (fun _ => convertAttackPatternToStix_extType hS) (fun _ => ?_)
  refine ite_post (fun _ => convertCampaignToStix_extType hS) (fun _ => ?_)
  refine ite_post (fun _ => convertThreatActorToStix_extType hS) (fun _ => ?_)
  refine ite_post (fun _ => convertNoteToStix_extType hS) (fun _ => ?_)
  refine ite_post (fun _ => convertOpinionToStix_extType hS) (fun _ => ?_)
  refine ite_post (fun _ => convertObservedDateToStix_extType hS) (fun _ => ?_)
  refine ite_post (fun _ => convertCourseOfActionToStix_extType hS) (fun _ => ?_)
  refine ite_post (fun e _ _ => absurd (by simp [newSdoTypes, e]) hn) (fun _ => ?_)
  refine ite_post (fun _ => convertIndicatorToStix_extType hS) (fun _ => ?_)
  refine ite_post (fun _ => convertIntrusionSetToStix_extType hS) (fun _ => ?_)
  refine ite_post (fun _ => convertToolToStix_extType hS) (fun _ => ?_)
  refine ite_post (fun _ => convertVulnerabilityToStix_extType hS) (fun _ => ?_)
  exact fun b h => absurd h (throw_ne_ok _ _)

theorem convertMetaKind_extType {S : Schema} (hS : S.ExtKeysDistinct) {inst : Obj} {t : String}
    (hn : t ∉ newSdoTypes S) :
    ∀ o, convertMetaKind S inst t = .ok o → PlatformExtType S o "property-extension" := by
  unfold convertMetaKind
  refine ite_post (fun _ => convertMarkingToStix_extType hS) (fun _ => ?_)
  refine ite_post (fun e _ _ => absurd (by simp [newSdoTypes, e]) hn) (fun _ => ?_)
  refine ite_post (fun e _ _ => absurd (by simp [newSdoTypes, e]) hn) (fun _ => ?_)
  refine ite_post (fun e _ _ => absurd (by simp [newSdoTypes, e]) hn) (fun _ => ?_)
  exact fun b h => absurd h (throw_ne_ok _ _)

theorem convertObservableKind_extType {S : Schema} (hS : S.ExtKeysDistinct) {inst : Obj} {t : String}
    (hn : t ∉ newSdoTypes S) :
    ∀ o, convertObservableKind S inst t = .ok o → PlatformExtType S o "property-extension" := by
  unfold convertObservableKind
  refine ite_post (fun _ => convertWindowsRegistryValueToStix_extType hS) (fun _ => ?_)
  refine ite_post (fun _ => convertEmailMimePartToStix_extType hS) (fun _ => ?_)
  refine ite_post (fun _ => convertArtifactToStix_extType hS) (fun _ => ?_)
  refine ite_post (fun _ => convertAutonomousSystemToStix_extType hS) (fun _ => ?_)
  refine ite_post (fun _ => convertCryptocurrencyWalletToStix_extType hS) (fun _ => ?_)
  refine ite_post (fun _ => convertCryptographicKeyToStix_extType hS) (fun _ => ?_)
  refine ite_post (fun _ => convertDirectoryToStix_extType hS) (fun _ => ?_)
  refine ite_post (fun _ => convertDomainNameToStix_extType hS) (fun _ => ?_)
  refine ite_post (fun _ => convertEmailAddressToStix_extType hS) (fun _ => ?_)
  refine ite_post (fun _ => convertEmailMessageToStix_extType hS) (fun _ => ?_)
  refine ite_post (fun _ => convertFileToStix_extType hS) (fun _ => ?_)
  refine ite_post (fun _ => convertHostnameToStix_extType hS) (fun _ => ?_)
  refine ite_post (fun _ => convertIPv4AddressToStix_extType hS) (fun _ => ?_)
  refine ite_post (fun _ => convertIPv6AddressToStix_extType hS) (fun _ => ?_)
  refine ite_post (fun _ => convertMacAddressToStix_extType hS) (fun _ => ?_)
  refine ite_post (fun _ => convertMutexToStix_extType hS) (fun _ => ?_)
  refine ite_post (fun _ => convertNetworkTrafficToStix_extType hS) (fun _ => ?_)
  refine ite_post (fun _ => convertProcessToStix_extType hS) (fun _ => ?_)
  refine ite_post (fun _ => convertSoftwareToStix_extType hS) (fun _ => ?_)
  refine ite_post (fun _ => convertTextToStix_extType hS) (fun _ => ?_)
  refine ite_post (fun _ => convertURLToStix_extType hS) (fun _ => ?_)
  refine ite_post (fun _ => convertUserAccountToStix_extType hS) (fun _ => ?_)
  refine ite_post (fun _ => convertWindowsRegistryKeyToStix_extType hS) (fun _ => ?_)
  refine ite_post (fun _ => convertX509CertificateToStix_extType hS) (fun _ => ?_)
  exact fun b h => absurd h (throw_ne_ok _ _)

theorem convertToStix_extType {S : Schema} (hS : S.ExtKeysDistinct) {inst : Obj} {t : String}
    (ht : getProp inst "entity_type" = .str t) (hn : t ∉ newSdoTypes S) :
    ∀ o, convertToStix S inst = .ok o → PlatformExtType S o "property-extension" := by
  unfold convertToStix
  rw [entityType_of_str ht, ok_bind]
  refine ite_post (fun _ b h => absurd h (throw_ne_ok _ _)) (fun _ => ?_)
  refine ite_post (fun _ => convertRelationshipKind_extType hS hn) (fun _ => ?_)
  refine ite_post (fun _ => convertDomainKind_extType hS hn) (fun _ => ?_)
  refine ite_post (fun _ => convertMetaKind_extType hS hn) (fun _ => ?_)
  refine ite_post (fun _ => convertObservableKind_extType hS hn) (fun _ => ?_)
  exact fun b h => absurd h (throw_ne_ok _ _)

theorem convertToStix_newSdo {S : Schema} (hW : S.WellFormed) {inst : Obj} {t : String}
    (ht : getProp inst "entity_type" = .str t) (hk : t ∈ newSdoTypes S) :
    ∀ o, convertToStix S inst = .ok o → PlatformExtType S o "new-sdo" := by
  intro o ho
  simp only [newSdoTypes, List.mem_cons, List.mem_singleton, List.not_mem_nil,
    or_false] at hk
  rcases hk with e | e | e | e <;> subst e
  · rw [route_convertIncidentToStix hW ht] at ho
    exact convertIncidentToStix_extType hW.extKeys o ho
  · rw [route_convertLabelToStix hW ht] at ho
    exact convertLabelToStix_extType hW.extKeys o ho
  · rw [route_convertKillChainPhaseToStix hW ht] at ho
    exact convertKillChainPhaseToStix_extType hW.extKeys o ho
  · rw [route_convertExternalReferenceToStix hW ht] at ho
    exact convertExternalReferenceToStix_extType hW.extKeys o ho

/-! ## C36 -/

/-- C36: under a well-formed schema, on every successful conversion the
`extension_type` of the platform block of the output is `"new-sdo"` when the
entity type is incident, label, kill-chain phase or external reference, and
`"property-extension"` for every other type. -/
theorem C36_platform_extension_type (S : Schema) (hW : S.WellFormed) (inst out : Obj)
    (t : String) (h : convertStoreToStix S inst = .ok out)
    (ht : getProp inst "entity_type" = .str t) :
    ∃ blk, getProp (extensionsOf out) S.STIX_EXT_OCTI = .obj blk ∧
      (t ∈ newSdoTypes S → getProp blk "extension_type" = .str "new-sdo") ∧
      (t ∉ newSdoTypes S → getProp blk "extension_type" = .str "property-extension") := by
  obtain ⟨_, hty, o, ho, hc⟩ := convertStoreToStix_ok h
  by_cases hk : t ∈ newSdoTypes S
  · obtain ⟨blk, hg, _, _, hv⟩ := convertToStix_newSdo hW ht hk o ho
    exact ⟨blk, convertStoreToStix_octi hW.extKeys hty ho hc hg, fun _ => hv,
      fun hn => absurd hk hn⟩
  · obtain ⟨blk, hg, _, _, hv⟩ := convertToStix_extType hW.extKeys ht hk o ho
    exact ⟨blk, convertStoreToStix_octi hW.extKeys hty ho hc hg, fun hn => absurd hn hk,
      fun _ => hv⟩

/-- C36 on the sample incident and on the sample malware. -/
theorem C36_platform_extension_type_witness :
    opencti.WellFormed ∧
    (∃ out, convertStoreToStix opencti sampleIncident = .ok out ∧
      "Incident" ∈ newSdoTypes opencti ∧
      ∃ blk, getProp (extensionsOf out) opencti.STIX_EXT_OCTI = .obj blk ∧
        getProp blk "extension_type" = .str "new-sdo") ∧
    ∃ out, convertStoreToStix opencti sampleMalware = .ok out ∧
      "Malware" ∉ newSdoTypes opencti ∧
      ∃ blk, getProp (extensionsOf out) opencti.STIX_EXT_OCTI = .obj blk ∧
        getProp blk "extension_type" = .str "property-extension" :=
  ⟨opencti_wellFormed,
    ⟨_, rfl, by decide,
      (C36_platform_extension_type opencti opencti_wellFormed sampleIncident _ "Incident" rfl
        rfl).imp fun _ hb => ⟨hb.1, hb.2.1 (by decide)⟩⟩,
    _, rfl, by decide,
    (C36_platform_extension_type opencti opencti_wellFormed sampleMalware _ "Malware" rfl
      rfl).imp fun _ hb => ⟨hb.1, hb.2.2 (by decide)⟩⟩

/-! ## Totality of the conversion -/

theorem bind_total {α β : Type} {x : Except Err α} {f : α → Except Err β}
    (hx : ∃ a, x = .ok a) (hf : ∀ a, x = .ok a → ∃ b, f a = .ok b) :
    ∃ b, (x >>= f) = .ok b := by
  obtain ⟨a, ha⟩ := hx
  obtain ⟨b, hb⟩ := hf a ha
  exact ⟨b, by rw [ha, ok_bind, hb]⟩

theorem ite_total {β : Type} {c : Prop} [Decidable c] {x y : Except Err β}
    (h1 : c → ∃ b, x = .ok b) (h2 : ¬ c → ∃ b, y = .ok b) :
    ∃ b, (if c then x else y) = .ok b := by
  split
  · exact h1 ‹_›
  · exact h2 ‹_›

theorem assertType_total {a b : String} (h : a = b) : ∃ u, assertType a b = .ok u := by
  subst h
  exact ⟨(), by unfold assertType; rw [if_neg (fun h => h rfl)]; rfl⟩

theorem isObjectList_nullish {v : JValue} (h : isObjectList v = true) :
    ∃ xs, nullish v (.arr []) = .arr xs ∧ ∀ x ∈ xs, x ≠ .undefined ∧ x ≠ .null := by
  cases v with
  | undefined => exact ⟨[], rfl, by simp⟩
  | null => exact ⟨[], rfl, by simp⟩
  | arr xs =>
    refine ⟨xs, rfl, fun x hx => ?_⟩
    simp only [isObjectList, List.all_eq_true] at h
    have := h x hx
    cases x <;> simp at this ⊢
  | bool _ => simp [isObjectList] at h
  | num _ => simp [isObjectList] at h
  | str _ => simp [isObjectList] at h
  | obj _ => simp [isObjectList] at h

theorem standardIds_total {inst : Obj} {slot : String}
    (h : isObjectList (getProp inst slot) = true) : ∃ v, standardIds inst slot = .ok v := by
  obtain ⟨xs, hs, hx⟩ := isObjectList_nullish h
  exact ⟨_, mapArray_total hs (fun x hm => prop_total "standard_id" (hx x hm).1 (hx x hm).2)⟩

theorem labelValues_total {S : Schema} {inst : Obj} {t : String} (hC : Convertible S inst t) :
    ∃ v, labelValues S inst = .ok v := by
  obtain ⟨xs, hs, hx⟩ := isObjectList_nullish (hC.common S.INPUT_LABELS (by simp [commonSlots]))
  exact ⟨_, mapArray_total hs (fun x hm => prop_total "value" (hx x hm).1 (hx x hm).2)⟩

theorem buildExternalReferences_ok {S : Schema} {inst : Obj} {t : String} (hC : Convertible S inst t) :
    ∃ v, buildExternalReferences S inst = .ok v := by
  obtain ⟨xs, hs, hx⟩ :=
    isObjectList_nullish (hC.common S.INPUT_EXTERNAL_REFS (by simp [commonSlots]))
  exact ⟨_, buildExternalReferences_total hs hx⟩

theorem buildKillChainPhases_total {S : Schema} {inst : Obj} {t : String} (hC : Convertible S inst t) :
    ∃ v, buildKillChainPhases S inst = .ok v := by
  obtain ⟨xs, hs, hx⟩ := isObjectList_nullish (hC.common S.INPUT_KILLCHAIN (by simp [commonSlots]))
  refine ⟨_, mapArray_total (g := killChainEntry) hs (fun x hm => ?_)⟩
  simp only [prop_total _ (hx x hm).1 (hx x hm).2, ok_bind]
  rw [cleanObject_noext _ (by simp [hasProp]), ok_bind]
  rfl

theorem buildWindowsRegistryValueType_total {S : Schema} {inst : Obj}
    (h : isObjectList (getProp inst S.INPUT_VALUES) = true) :
    ∃ v, buildWindowsRegistryValueType S inst = .ok v := by
  obtain ⟨xs, hs, hx⟩ := isObjectList_nullish h
  refine ⟨_, mapArray_total (g := fun k => .obj (nonEmptyEntries [("name", optProp k "name"),
    ("data", optProp k "data"), ("data_type", optProp k "data_type")])) hs (fun x hm => ?_)⟩
  simp only [prop_total _ (hx x hm).1 (hx x hm).2, ok_bind]
  rw [cleanObject_noext _ (by simp [hasProp]), ok_bind]
  rfl

theorem buildEmailBodyMultipart_total {S : Schema} {inst : Obj}
    (h : isObjectList (getProp inst S.INPUT_BODY_MULTIPART) = true) :
    ∃ v, buildEmailBodyMultipart S inst = .ok v := by
  obtain ⟨xs, hs, hx⟩ := isObjectList_nullish h
  refine ⟨_, mapArray_total (g := emailBodyPart S inst) hs (fun x hm => ?_)⟩
  simp only [prop_total _ (hx x hm).1 (hx x hm).2, ok_bind]
  rw [cleanObject_noext _ (by simp [hasProp]), ok_bind]
  rfl

theorem filterM_total {p : JValue → Except Err Bool} :
    ∀ (xs : List JValue), (∀ x ∈ xs, ∃ b, p x = .ok b) → ∃ ys, filterM p xs = .ok ys := by
  intro xs
  induction xs with
  | nil => intro _; exact ⟨[], rfl⟩
  | cons x rest ih =>
    intro h
    obtain ⟨b, hb⟩ := h x (List.mem_cons_self _ _)
    obtain ⟨ys, hys⟩ := ih (fun y hy => h y (List.mem_cons_of_mem _ hy))
    exact ⟨_, by unfold filterM; rw [hb, ok_bind, hys, ok_bind]; rfl⟩

theorem isTrustedStixId_total {S : Schema} {id : JValue}
    (h : (uuidVersionOf S id).isSome = true) : ∃ b, isTrustedStixId S id = .ok b := by
  unfold isTrustedStixId
  cases hv : uuidVersionOf S id with
  | none => rw [hv] at h; simp at h
  | some v => exact ⟨_, rfl⟩

theorem buildOCTIExtensions_total {S : Schema} {inst : Obj} {t : String} (hC : Convertible S inst t) :
    ∃ o, buildOCTIExtensions S inst = .ok o := by
  obtain ⟨fs, hfs, hfx⟩ := isObjectList_nullish (hC.common "x_opencti_files" (by simp [commonSlots]))
  obtain ⟨ids, hids, hver⟩ := hC.stixIds
  obtain ⟨s, hs⟩ := hC.index
  obtain ⟨ys, hys⟩ := filterM_total (p := isTrustedStixId S) ids
    (fun id hid => isTrustedStixId_total (hver id hid))
  unfold buildOCTIExtensions
  refine bind_total ⟨_, mapArray_total (g := fileDescriptor) hfs (fun x hm => ?_)⟩ (fun _ _ => ?_)
  · simp only [prop_total _ (hfx x hm).1 (hfx x hm).2, ok_bind]
    rfl
  · refine bind_total ⟨.arr ys, ?_⟩ (fun _ _ => ?_)
    · rw [hids]
      unfold filterArray
      simp only
      rw [hys, ok_bind]
      rfl
    · refine bind_total ?_ (fun _ _ => ⟨_, cleanObject_noext _ (by simp [hasProp])⟩)
      rw [hs]
      unfold inferredFlag
      split
      · exact ⟨_, rfl⟩
      · exact ⟨_, rfl⟩

theorem buildMITREExtensions_total (inst : Obj) : ∃ o, buildMITREExtensions inst = .ok o :=
  ⟨_, cleanObject_noext _ (by simp [hasProp])⟩

theorem buildStixObject_total {S : Schema} {inst : Obj} {t : String}
    (ht : getProp inst "entity_type" = .str t) (hC : Convertible S inst t) :
    ∃ o, buildStixObject S inst = .ok o := by
  unfold buildStixObject
  rw [entityType_of_str ht, ok_bind]
  exact bind_total (buildOCTIExtensions_total hC) (fun _ _ => ⟨_, rfl⟩)

theorem buildStixDomain_total {S : Schema} {inst : Obj} {t : String}
    (ht : getProp inst "entity_type" = .str t) (hC : Convertible S inst t) :
    ∃ o, buildStixDomain S inst = .ok o := by
  unfold buildStixDomain
  refine bind_total (buildStixObject_total ht hC) (fun _ _ => ?_)
  refine bind_total (labelValues_total hC) (fun _ _ => ?_)
  refine bind_total (standardIds_total (hC.common _ (by simp [commonSlots]))) (fun _ _ => ?_)
  exact bind_total (buildExternalReferences_ok hC) (fun _ _ => ⟨_, rfl⟩)

theorem buildStixRelationship_total {S : Schema} {inst : Obj} {t : String}
    (ht : getProp inst "entity_type" = .str t) (hC : Convertible S inst t) :
    ∃ o, buildStixRelationship S inst = .ok o :=
  buildStixDomain_total ht hC

theorem buildStixMarkings_total {S : Schema} {inst : Obj} {t : String}
    (ht : getProp inst "entity_type" = .str t) (hC : Convertible S inst t) :
    ∃ o, buildStixMarkings S inst = .ok o := by
  unfold buildStixMarkings
  refine bind_total (buildStixObject_total ht hC) (fun _ _ => ?_)
  refine bind_total (buildExternalReferences_ok hC) (fun _ _ => ?_)
  exact bind_total (standardIds_total (hC.common _ (by simp [commonSlots])))
    (fun _ _ => ⟨_, rfl⟩)

theorem buildStixCyberObservable_total {S : Schema} {inst : Obj} {t : String}
    (ht : getProp inst "entity_type" = .str t) (hC : Convertible S inst t) :
    ∃ o, buildStixCyberObservable S inst = .ok o := by
  unfold buildStixCyberObservable
  refine bind_total (buildStixObject_total ht hC) (fun _ _ => ?_)
  refine bind_total (standardIds_total (hC.common _ (by simp [commonSlots]))) (fun _ _ => ?_)
  refine bind_total (labelValues_total hC) (fun _ _ => ?_)
  refine bind_total (standardIds_total (hC.common _ (by simp [commonSlots]))) (fun _ _ => ?_)
  refine bind_total (buildExternalReferences_ok hC) (fun _ _ => ?_)
  exact bind_total ⟨_, cleanObject_noext _ (by simp [hasProp])⟩ (fun _ _ => ⟨_, rfl⟩)

theorem blocks_noExt {S : Schema} {inst o : Obj} (hp : Projected S inst o) (k : String) :
    hasProp (spread (getProp (extensionsOf o) k)) "extensions" = false := by
  obtain ⟨exts, hg, hE⟩ := hp.exts
  have he : extensionsOf o = exts := by simp [extensionsOf, hg, spread]
  rw [he]
  by_cases hk : k ∈ keys exts
  · obtain ⟨b, hb, hc⟩ := hE.blocks _ (getProp_mem exts k hk)
    simp only at hb
    rw [hb]
    exact hc.2
  · rw [getProp_of_not_mem exts k hk]
    rfl

theorem cleanObject_block_total {S : Schema} {inst o : Obj} (hp : Projected S inst o)
    (k : String) (extra : Obj) (h : lookupLast extra "extensions" = none) :
    ∃ out, cleanObject (assign (spread (getProp (extensionsOf o) k)) extra) = .ok out :=
  ⟨_, cleanObject_noext _ (by rw [hasProp_assign, blocks_noExt hp k, h]; rfl)⟩

theorem checkInstanceCompletion_total {inst : Obj}
    (hf : isEmptyField (getProp inst "from") = false)
    (ht : isEmptyField (getProp inst "to") = false) :
    ∃ u, checkInstanceCompletion inst = .ok u := by
  unfold checkInstanceCompletion
  refine ite_total (fun h => ?_) (fun _ => ite_total (fun h => ?_) (fun _ => ⟨(), rfl⟩))
  · exfalso
    revert h hf
    generalize getProp inst "from" = v
    intro hf h
    cases v <;> simp_all [isEmptyField]
  · exfalso
    revert h ht
    generalize getProp inst "to" = v
    intro ht h
    cases v <;> simp_all [isEmptyField]

theorem cleanObject_projected_total {S : Schema} {inst o : Obj} (hp : Projected S inst o) :
    ∃ out, cleanObject o = .ok out := by
  obtain ⟨exts, hg, hE⟩ := hp.exts
  refine cleanObject_total o (fun kv hkv hk _ => ?_)
  have hv : getProp o kv.1 = kv.2 := getProp_eq_of_mem o hp.env.nodup kv.1 kv.2 hkv
  rw [hk, hg] at hv
  rw [← hv]
  exact pruneExtensions_total exts (fun e he => (hE.blocks e he).imp fun _ hb => hb.1)

/-! ### Every projector returns on a well-typed instance of its type -/

theorem convertIdentityToStix_total {S : Schema} (hS : S.ExtKeysDistinct) {inst : Obj} {t : String}
    (ht : getProp inst "entity_type" = .str t) (hC : Convertible S inst t)
    (he : S.isStixDomainObjectIdentity t = true) :
    ∃ o, convertIdentityToStix S inst t = .ok o := by
  simp only [convertIdentityToStix]
  refine ite_total (fun hc => absurd hc (by simp [he])) (fun _ => ?_)
  refine bind_total ⟨_, rfl⟩ (fun _ _ => ?_)
  refine bind_total (buildStixDomain_total ht hC) (fun identity h_identity => ?_)
  refine bind_total (cleanObject_block_total (buildStixDomain_projected h_identity) _ _ (by rfl))
    (fun _ _ => ?_)
  exact ⟨_, rfl⟩

theorem convertLocationToStix_total {S : Schema} (hS : S.ExtKeysDistinct) {inst : Obj} {t : String}
    (ht : getProp inst "entity_type" = .str t) (hC : Convertible S inst t)
    (he : S.isStixDomainObjectLocation t = true) :
    ∃ o, convertLocationToStix S inst t = .ok o := by
  simp only [convertLocationToStix]
  refine ite_total (fun hc => absurd hc (by simp [he])) (fun _ => ?_)
  refine bind_total ⟨_, rfl⟩ (fun _ _ => ?_)
  refine bind_total (buildStixDomain_total ht hC) (fun domain h_domain => ?_)
  exact ⟨_, rfl⟩

theorem convertReportToStix_total {S : Schema} (hS : S.ExtKeysDistinct) {inst : Obj} {t : String}
    (ht : getProp inst "entity_type" = .str t) (hC : Convertible S inst t)
    (he : S.ENTITY_TYPE_CONTAINER_REPORT = t) :
    ∃ o, convertReportToStix S inst t = .ok o := by
  simp only [convertReportToStix]
  refine bind_total (assertType_total he) (fun _ _ => ?_)
  refine bind_total (buildStixDomain_total ht hC) (fun domain h_domain => ?_)
  refine bind_total (standardIds_total (hC.slots (S.ENTITY_TYPE_CONTAINER_REPORT, S.INPUT_OBJECTS) (by simp [projectorSlots]) he))
    (fun _ _ => ?_)
  exact ⟨_, rfl⟩

theorem convertMalwareToStix_total {S : Schema} (hS : S.ExtKeysDistinct) {inst : Obj} {t : String}
    (ht : getProp inst "entity_type" = .str t) (hC : Convertible S inst t)
    (he : S.ENTITY_TYPE_MALWARE = t) :
    ∃ o, convertMalwareToStix S inst t = .ok o := by
  simp only [convertMalwareToStix]
  refine bind_total (assertType_total he) (fun _ _ => ?_)
  refine bind_total (buildStixDomain_total ht hC) (fun domain h_domain => ?_)
  refine bind_total (buildKillChainPhases_total hC) (fun _ _ => ?_)
  refine bind_total (standardIds_total (hC.slots (S.ENTITY_TYPE_MALWARE, S.INPUT_OPERATING_SYSTEM) (by simp [projectorSlots]) he))
    (fun _ _ => ?_)
  refine bind_total (standardIds_total (hC.slots (S.ENTITY_TYPE_MALWARE, S.INPUT_SAMPLE) (by simp [projectorSlots]) he))
    (fun _ _ => ?_)
  exact ⟨_, rfl⟩

theorem convertInfrastructureToStix_total {S : Schema} (hS : S.ExtKeysDistinct) {inst : Obj} {t : String}
    (ht : getProp inst "entity_type" = .str t) (hC : Convertible S inst t)
    (he : S.ENTITY_TYPE_INFRASTRUCTURE = t) :
    ∃ o, convertInfrastructureToStix S inst t = .ok o := by
  simp only [convertInfrastructureToStix]
  refine bind_total (assertType_total he) (fun _ _ => ?_)
  refine bind_total (buildStixDomain_total ht hC) (fun domain h_domain => ?_)
  refine bind_total (buildKillChainPhases_total hC) (fun _ _ => ?_)
  exact ⟨_, rfl⟩

theorem convertAttackPatternToStix_total {S : Schema} (hS : S.ExtKeysDistinct) {inst : Obj} {t : String}
    (ht : getProp inst "entity_type" = .str t) (hC : Convertible S inst t)
    (he : S.ENTITY_TYPE_ATTACK_PATTERN = t) :
    ∃ o, convertAttackPatternToStix S inst t = .ok o := by
  simp only [convertAttackPatternToStix]
  refine bind_total (assertType_total he) (fun _ _ => ?_)
  refine bind_total (buildStixDomain_total ht hC) (fun stixDomainObject h_stixDomainObject => ?_)
  refine bind_total (buildKillChainPhases_total hC) (fun _ _ => ?_)
  refine bind_total (buildOCTIExtensions_total hC) (fun _ _ => ?_)
  refine bind_total (buildMITREExtensions_total inst) (fun _ _ => ?_)
  exact ⟨_, rfl⟩

theorem convertCampaignToStix_total {S : Schema} (hS : S.ExtKeysDistinct) {inst : Obj} {t : String}
    (ht : getProp inst "entity_type" = .str t) (hC : Convertible S inst t)
    (he : S.ENTITY_TYPE_CAMPAIGN = t) :
    ∃ o, convertCampaignToStix S inst t = .ok o := by
  simp only [convertCampaignToStix]
  refine bind_total (assertType_total he) (fun _ _ => ?_)
  refine bind_total (buildStixDomain_total ht hC) (fun domain h_domain => ?_)
  exact ⟨_, rfl⟩

theorem convertThreatActorToStix_total {S : Schema} (hS : S.ExtKeysDistinct) {inst : Obj} {t : String}
    (ht : getProp inst "entity_type" = .str t) (hC : Convertible S inst t)
    (he : S.ENTITY_TYPE_THREAT_ACTOR = t) :
    ∃ o, convertThreatActorToStix S inst t = .ok o := by
  simp only [convertThreatActorToStix]
  refine bind_total (assertType_total he) (fun _ _ => ?_)
  refine bind_total (buildStixDomain_total ht hC) (fun domain h_domain => ?_)
  exact ⟨_, rfl⟩

theorem convertNoteToStix_total {S : Schema} (hS : S.ExtKeysDistinct) {inst : Obj} {t : String}
    (ht : getProp inst "entity_type" = .str t) (hC : Convertible S inst t)
    (he : S.ENTITY_TYPE_CONTAINER_NOTE = t) :
    ∃ o, convertNoteToStix S inst t = .ok o := by
  simp only [convertNoteToStix]
  refine bind_total (assertType_total he) (fun _ _ => ?_)
  refine bind_total (buildStixDomain_total ht hC) (fun domain h_domain => ?_)
  refine bind_total (standardIds_total (hC.slots (S.ENTITY_TYPE_CONTAINER_NOTE, S.INPUT_OBJECTS) (by simp [projectorSlots]) he))
    (fun _ _ => ?_)
  exact ⟨_, rfl⟩

theorem convertOpinionToStix_total {S : Schema} (hS : S.ExtKeysDistinct) {inst : Obj} {t : String}
    (ht : getProp inst "entity_type" = .str t) (hC : Convertible S inst t)
    (he : S.ENTITY_TYPE_CONTAINER_OPINION = t) :
    ∃ o, convertOpinionToStix S inst t = .ok o := by
  simp only [convertOpinionToStix]
  refine bind_total (assertType_total he) (fun _ _ => ?_)
  refine bind_total (buildStixDomain_total ht hC) (fun domain h_domain => ?_)
  refine bind_total (standardIds_total (hC.slots (S.ENTITY_TYPE_CONTAINER_OPINION, "objects") (by simp [projectorSlots]) he))
    (fun _ _ => ?_)
  exact ⟨_, rfl⟩

theorem convertObservedDateToStix_total {S : Schema} (hS : S.ExtKeysDistinct) {inst : Obj} {t : String}
    (ht : getProp inst "entity_type" = .str t) (hC : Convertible S inst t)
    (he : S.ENTITY_TYPE_CONTAINER_OBSERVED_DATA = t) :
    ∃ o, convertObservedDateToStix S inst t = .ok o := by
  simp only [convertObservedDateToStix]
  refine bind_total (assertType_total he) (fun _ _ => ?_)
  refine bind_total (buildStixDomain_total ht hC) (fun domain h_domain => ?_)
  refine bind_total (standardIds_total (hC.slots (S.ENTITY_TYPE_CONTAINER_OBSERVED_DATA, "objects") (by simp [projectorSlots]) he))
    (fun _ _ => ?_)
  exact ⟨_, rfl⟩

theorem convertCourseOfActionToStix_total {S : Schema} (hS : S.ExtKeysDistinct) {inst : Obj} {t : String}
    (ht : getProp inst "entity_type" = .str t) (hC : Convertible S inst t)
    (he : S.ENTITY_TYPE_COURSE_OF_ACTION = t) :
    ∃ o, convertCourseOfActionToStix S inst t = .ok o := by
  simp only [convertCourseOfActionToStix]
  refine bind_total (assertType_total he) (fun _ _ => ?_)
  refine bind_total (buildStixDomain_total ht hC) (fun domain h_domain => ?_)
  refine bind_total (buildOCTIExtensions_total hC) (fun _ _ => ?_)
  refine bind_total (buildMITREExtensions_total inst) (fun _ _ => ?_)
  exact ⟨_, rfl⟩

theorem convertIncidentToStix_total {S : Schema} (hS : S.ExtKeysDistinct) {inst : Obj} {t : String}
    (ht : getProp inst "entity_type" = .str t) (hC : Convertible S inst t)
    (he : S.ENTITY_TYPE_INCIDENT = t) :
    ∃ o, convertIncidentToStix S inst t = .ok o := by
  simp only [convertIncidentToStix]
  refine bind_total (assertType_total he) (fun _ _ => ?_)
  refine bind_total (buildStixDomain_total ht hC) (fun incident h_incident => ?_)
  exact ⟨_, rfl⟩

theorem convertIndicatorToStix_total {S : Schema} (hS : S.ExtKeysDistinct) {inst : Obj} {t : String}
    (ht : getProp inst "entity_type" = .str t) (hC : Convertible S inst t)
    (he : S.ENTITY_TYPE_INDICATOR = t) :
    ∃ o, convertIndicatorToStix S inst t = .ok o := by
  simp only [convertIndicatorToStix]
  refine bind_total (assertType_total he) (fun _ _ => ?_)
  refine bind_total (buildStixDomain_total ht hC) (fun indicator h_indicator => ?_)
  refine bind_total (buildKillChainPhases_total hC) (fun _ _ => ?_)
  refine bind_total (cleanObject_block_total (buildStixDomain_projected h_indicator) _ _ (by rfl))
    (fun _ _ => ?_)
  refine bind_total (buildMITREExtensions_total inst) (fun _ _ => ?_)
  exact ⟨_, rfl⟩

theorem convertIntrusionSetToStix_total {S : Schema} (hS : S.ExtKeysDistinct) {inst : Obj} {t : String}
    (ht : getProp inst "entity_type" = .str t) (hC : Convertible S inst t)
    (he : S.ENTITY_TYPE_INTRUSION_SET = t) :
    ∃ o, convertIntrusionSetToStix S inst t = .ok o := by
  simp only [convertIntrusionSetToStix]
  refine bind_total (assertType_total he) (fun _ _ => ?_)
  refine bind_total (buildStixDomain_total ht hC) (fun domain h_domain => ?_)
  exact ⟨_, rfl⟩

theorem convertToolToStix_total {S : Schema} (hS : S.ExtKeysDistinct) {inst : Obj} {t : String}
    (ht : getProp inst "entity_type" = .str t) (hC : Convertible S inst t)
    (he : S.ENTITY_TYPE_TOOL = t) :
    ∃ o, convertToolToStix S inst t = .ok o := by
  simp only [convertToolToStix]
  refine bind_total (assertType_total he) (fun _ _ => ?_)
  refine bind_total (buildStixDomain_total ht hC) (fun domain h_domain => ?_)
  refine bind_total (buildKillChainPhases_total hC) (fun _ _ => ?_)
  exact ⟨_, rfl⟩

theorem convertVulnerabilityToStix_total {S : Schema} (hS : S.ExtKeysDistinct) {inst : Obj} {t : String}
    (ht : getProp inst "entity_type" = .str t) (hC : Convertible S inst t)
    (he : S.ENTITY_TYPE_VULNERABILITY = t) :
    ∃ o, convertVulnerabilityToStix S inst t = .ok o := by
  simp only [convertVulnerabilityToStix]
  refine bind_total (assertType_total he) (fun _ _ => ?_)
  refine bind_total (buildStixDomain_total ht hC) (fun vulnerability h_vulnerability => ?_)
  refine bind_total (cleanObject_block_total (buildStixDomain_projected h_vulnerability) _ _ (by rfl))
    (fun _ _ => ?_)
  exact ⟨_, rfl⟩

theorem convertMarkingToStix_total {S : Schema} (hS : S.ExtKeysDistinct) {inst : Obj} {t : String}
    (ht : getProp inst "entity_type" = .str t) (hC : Convertible S inst t) :
    ∃ o, convertMarkingToStix S inst = .ok o := by
  simp only [convertMarkingToStix]
  refine bind_total (buildStixMarkings_total ht hC) (fun marking h_marking => ?_)
  refine bind_total (cleanObject_block_total (buildStixMarkings_projected h_marking) _ _ (by rfl))
    (fun _ _ => ?_)
  exact ⟨_, rfl⟩

theorem convertLabelToStix_total {S : Schema} (hS : S.ExtKeysDistinct) {inst : Obj} {t : String}
    (ht : getProp inst "entity_type" = .str t) (hC : Convertible S inst t) :
    ∃ o, convertLabelToStix S inst = .ok o := by
  simp only [convertLabelToStix]
  refine bind_total (buildStixObject_total ht hC) (fun label h_label => ?_)
  refine bind_total (cleanObject_block_total (buildStixObject_projected h_label) _ _ (by rfl))
    (fun _ _ => ?_)
  exact ⟨_, rfl⟩

theorem convertKillChainPhaseToStix_total {S : Schema} (hS : S.ExtKeysDistinct) {inst : Obj} {t : String}
    (ht : getProp inst "entity_type" = .str t) (hC : Convertible S inst t) :
    ∃ o, convertKillChainPhaseToStix S inst = .ok o := by
  simp only [convertKillChainPhaseToStix]
  refine bind_total (buildStixObject_total ht hC) (fun killChain h_killChain => ?_)
  refine bind_total (cleanObject_block_total (buildStixObject_projected h_killChain) _ _ (by rfl))
    (fun _ _ => ?_)
  exact ⟨_, rfl⟩

theorem convertExternalReferenceToStix_total {S : Schema} (hS : S.ExtKeysDistinct) {inst : Obj} {t : String}
    (ht : getProp inst "entity_type" = .str t) (hC : Convertible S inst t) :
    ∃ o, convertExternalReferenceToStix S inst = .ok o := by
  simp only [convertExternalReferenceToStix]
  refine bind_total (buildStixObject_total ht hC) (fun reference h_reference => ?_)
  refine bind_total (cleanObject_block_total (buildStixObject_projected h_reference) _ _ (by rfl))
    (fun _ _ => ?_)
  exact ⟨_, rfl⟩

theorem convertWindowsRegistryValueToStix_total {S : Schema} (hS : S.ExtKeysDistinct) {inst : Obj} {t : String}
    (ht : getProp inst "entity_type" = .str t) (hC : Convertible S inst t) :
    ∃ o, convertWindowsRegistryValueToStix S inst = .ok o := by
  simp only [convertWindowsRegistryValueToStix]
  refine bind_total (buildStixCyberObservable_total ht hC) (fun stixCyberObject h_stixCyberObject => ?_)
  refine bind_total (labelValues_total hC) (fun _ _ => ?_)
  refine bind_total (buildExternalReferences_ok hC) (fun _ _ => ?_)
  exact ⟨_, rfl⟩

theorem convertEmailMimePartToStix_total {S : Schema} (hS : S.ExtKeysDistinct) {inst : Obj} {t : String}
    (ht : getProp inst "entity_type" = .str t) (hC : Convertible S inst t) :
    ∃ o, convertEmailMimePartToStix S inst = .ok o := by
  simp only [convertEmailMimePartToStix]
  refine bind_total (buildStixCyberObservable_total ht hC) (fun stixCyberObject h_stixCyberObject => ?_)
  refine bind_total (labelValues_total hC) (fun _ _ => ?_)
  refine bind_total (buildExternalReferences_ok hC) (fun _ _ => ?_)
  exact ⟨_, rfl⟩

theorem convertArtifactToStix_total {S : Schema} (hS : S.ExtKeysDistinct) {inst : Obj} {t : String}
    (ht : getProp inst "entity_type" = .str t) (hC : Convertible S inst t)
    (he : S.ENTITY_HASHED_OBSERVABLE_ARTIFACT = t) :
    ∃ o, convertArtifactToStix S inst t = .ok o := by
  simp only [convertArtifactToStix]
  refine bind_total (assertType_total he) (fun _ _ => ?_)
  refine bind_total (buildStixCyberObservable_total ht hC) (fun stixCyberObject h_stixCyberObject => ?_)
  refine bind_total (cleanObject_block_total (buildStixCyberObservable_projected hS h_stixCyberObject) _ _ (by rfl))
    (fun _ _ => ?_)
  exact ⟨_, rfl⟩

theorem convertAutonomousSystemToStix_total {S : Schema} (hS : S.ExtKeysDistinct) {inst : Obj} {t : String}
    (ht : getProp inst "entity_type" = .str t) (hC : Convertible S inst t)
    (he : S.ENTITY_AUTONOMOUS_SYSTEM = t) :
    ∃ o, convertAutonomousSystemToStix S inst t = .ok o := by
  simp only [convertAutonomousSystemToStix]
  refine bind_total (assertType_total he) (fun _ _ => ?_)
  refine bind_total (buildStixCyberObservable_total ht hC) (fun cyber h_cyber => ?_)
  exact ⟨_, rfl⟩

theorem convertCryptocurrencyWalletToStix_total {S : Schema} (hS : S.ExtKeysDistinct) {inst : Obj} {t : String}
    (ht : getProp inst "entity_type" = .str t) (hC : Convertible S inst t)
    (he : S.ENTITY_CRYPTOGRAPHIC_WALLET = t) :
    ∃ o, convertCryptocurrencyWalletToStix S inst t = .ok o := by
  simp only [convertCryptocurrencyWalletToStix]
  refine bind_total (assertType_total he) (fun _ _ => ?_)
  refine bind_total (buildStixCyberObservable_total ht hC) (fun stixCyberObject h_stixCyberObject => ?_)
  refine bind_total (labelValues_total hC) (fun _ _ => ?_)
  refine bind_total (buildExternalReferences_ok hC) (fun _ _ => ?_)
  exact ⟨_, rfl⟩

theorem convertCryptographicKeyToStix_total {S : Schema} (hS : S.ExtKeysDistinct) {inst : Obj} {t : String}
    (ht : getProp inst "entity_type" = .str t) (hC : Convertible S inst t)
    (he : S.ENTITY_CRYPTOGRAPHIC_KEY = t) :
    ∃ o, convertCryptographicKeyToStix S inst t = .ok o := by
  simp only [convertCryptographicKeyToStix]
  refine bind_total (assertType_total he) (fun _ _ => ?_)
  refine bind_total (buildStixCyberObservable_total ht hC) (fun stixCyberObject h_stixCyberObject => ?_)
  refine bind_total (labelValues_total hC) (fun _ _ => ?_)
  refine bind_total (buildExternalReferences_ok hC) (fun _ _ => ?_)
  exact ⟨_, rfl⟩

theorem convertDirectoryToStix_total {S : Schema} (hS : S.ExtKeysDistinct) {inst : Obj} {t : String}
    (ht : getProp inst "entity_type" = .str t) (hC : Convertible S inst t)
    (he : S.ENTITY_DIRECTORY = t) :
    ∃ o, convertDirectoryToStix S inst t = .ok o := by
  simp only [convertDirectoryToStix]
  refine bind_total (assertType_total he) (fun _ _ => ?_)
  refine bind_total (buildStixCyberObservable_total ht hC) (fun cyber h_cyber => ?_)
  refine bind_total (standardIds_total (hC.slots (S.ENTITY_DIRECTORY, S.INPUT_CONTAINS) (by simp [projectorSlots]) he))
    (fun _ _ => ?_)
  exact ⟨_, rfl⟩

theorem convertDomainNameToStix_total {S : Schema} (hS : S.ExtKeysDistinct) {inst : Obj} {t : String}
    (ht : getProp inst "entity_type" = .str t) (hC : Convertible S inst t)
    (he : S.ENTITY_DOMAIN_NAME = t) :
    ∃ o, convertDomainNameToStix S inst t = .ok o := by
  simp only [convertDomainNameToStix]
  refine bind_total (assertType_total he) (fun _ _ => ?_)
  refine bind_total (buildStixCyberObservable_total ht hC) (fun cyber h_cyber => ?_)
  refine bind_total (standardIds_total (hC.slots (S.ENTITY_DOMAIN_NAME, S.INPUT_RESOLVES_TO) (by simp [projectorSlots]) he))
    (fun _ _ => ?_)
  exact ⟨_, rfl⟩

theorem convertEmailAddressToStix_total {S : Schema} (hS : S.ExtKeysDistinct) {inst : Obj} {t : String}
    (ht : getProp inst "entity_type" = .str t) (hC : Convertible S inst t)
    (he : S.ENTITY_EMAIL_ADDR = t) :
    ∃ o, convertEmailAddressToStix S inst t = .ok o := by
  simp only [convertEmailAddressToStix]
  refine bind_total (assertType_total he) (fun _ _ => ?_)
  refine bind_total (buildStixCyberObservable_total ht hC) (fun cyber h_cyber => ?_)
  exact ⟨_, rfl⟩

theorem convertEmailMessageToStix_total {S : Schema} (hS : S.ExtKeysDistinct) {inst : Obj} {t : String}
    (ht : getProp inst "entity_type" = .str t) (hC : Convertible S inst t)
    (he : S.ENTITY_EMAIL_MESSAGE = t) :
    ∃ o, convertEmailMessageToStix S inst t = .ok o := by
  simp only [convertEmailMessageToStix]
  refine bind_total (assertType_total he) (fun _ _ => ?_)
  refine bind_total (buildStixCyberObservable_total ht hC) (fun cyber h_cyber => ?_)
  refine bind_total (standardIds_total (hC.slots (S.ENTITY_EMAIL_MESSAGE, S.INPUT_TO) (by simp [projectorSlots]) he))
    (fun _ _ => ?_)
  refine bind_total (standardIds_total (hC.slots (S.ENTITY_EMAIL_MESSAGE, S.INPUT_CC) (by simp [projectorSlots]) he))
    (fun _ _ => ?_)
  refine bind_total (standardIds_total (hC.slots (S.ENTITY_EMAIL_MESSAGE, S.INPUT_BCC) (by simp [projectorSlots]) he))
    (fun _ _ => ?_)
  refine bind_total (buildEmailBodyMultipart_total (hC.slots (S.ENTITY_EMAIL_MESSAGE, S.INPUT_BODY_MULTIPART) (by simp [projectorSlots]) he)) (fun _ _ => ?_)
  exact ⟨_, rfl⟩

theorem convertFileToStix_total {S : Schema} (hS : S.ExtKeysDistinct) {inst : Obj} {t : String}
    (ht : getProp inst "entity_type" = .str t) (hC : Convertible S inst t)
    (he : S.ENTITY_HASHED_OBSERVABLE_STIX_FILE = t) :
    ∃ o, convertFileToStix S inst t = .ok o := by
  simp only [convertFileToStix]
  refine bind_total (assertType_total he) (fun _ _ => ?_)
  refine bind_total (buildStixCyberObservable_total ht hC) (fun stixCyberObject h_stixCyberObject => ?_)
  refine bind_total (standardIds_total (hC.slots (S.ENTITY_HASHED_OBSERVABLE_STIX_FILE, S.INPUT_CONTAINS) (by simp [projectorSlots]) he))
    (fun _ _ => ?_)
  refine bind_total (cleanObject_block_total (buildStixCyberObservable_projected hS h_stixCyberObject) _ _ (by rfl))
    (fun _ _ => ?_)
  exact ⟨_, rfl⟩

theorem convertHostnameToStix_total {S : Schema} (hS : S.ExtKeysDistinct) {inst : Obj} {t : String}
    (ht : getProp inst "entity_type" = .str t) (hC : Convertible S inst t)
    (he : S.ENTITY_HOSTNAME = t) :
    ∃ o, convertHostnameToStix S inst t = .ok o := by
  simp only [convertHostnameToStix]
  refine bind_total (assertType_total he) (fun _ _ => ?_)
  refine bind_total (buildStixCyberObservable_total ht hC) (fun stixCyberObject h_stixCyberObject => ?_)
  refine bind_total (labelValues_total hC) (fun _ _ => ?_)
  refine bind_total (buildExternalReferences_ok hC) (fun _ _ => ?_)
  exact ⟨_, rfl⟩

theorem convertIPv4AddressToStix_total {S : Schema} (hS : S.ExtKeysDistinct) {inst : Obj} {t : String}
    (ht : getProp inst "entity_type" = .str t) (hC : Convertible S inst t)
    (he : S.ENTITY_IPV4_ADDR = t) :
    ∃ o, convertIPv4AddressToStix S inst t = .ok o := by
  simp only [convertIPv4AddressToStix]
  refine bind_total (assertType_total he) (fun _ _ => ?_)
  refine bind_total (buildStixCyberObservable_total ht hC) (fun cyber h_cyber => ?_)
  refine bind_total (standardIds_total (hC.slots (S.ENTITY_IPV4_ADDR, S.INPUT_RESOLVES_TO) (by simp [projectorSlots]) he))
    (fun _ _ => ?_)
  refine bind_total (standardIds_total (hC.slots (S.ENTITY_IPV4_ADDR, S.INPUT_BELONGS_TO) (by simp [projectorSlots]) he))
    (fun _ _ => ?_)
  exact ⟨_, rfl⟩

theorem convertIPv6AddressToStix_total {S : Schema} (hS : S.ExtKeysDistinct) {inst : Obj} {t : String}
    (ht : getProp inst "entity_type" = .str t) (hC : Convertible S inst t)
    (he : S.ENTITY_IPV6_ADDR = t) :
    ∃ o, convertIPv6AddressToStix S inst t = .ok o := by
  simp only [convertIPv6AddressToStix]
  refine bind_total (assertType_total he) (fun _ _ => ?_)
  refine bind_total (buildStixCyberObservable_total ht hC) (fun cyber h_cyber => ?_)
  refine bind_total (standardIds_total (hC.slots (S.ENTITY_IPV6_ADDR, S.INPUT_RESOLVES_TO) (by simp [projectorSlots]) he))
    (fun _ _ => ?_)
  refine bind_total (standardIds_total (hC.slots (S.ENTITY_IPV6_ADDR, S.INPUT_BELONGS_TO) (by simp [projectorSlots]) he))
    (fun _ _ => ?_)
  exact ⟨_, rfl⟩

theorem convertMacAddressToStix_total {S : Schema} (hS : S.ExtKeysDistinct) {inst : Obj} {t : String}
    (ht : getProp inst "entity_type" = .str t) (hC : Convertible S inst t)
    (he : S.ENTITY_MAC_ADDR = t) :
    ∃ o, convertMacAddressToStix S inst t = .ok o := by
  simp only [convertMacAddressToStix]
  refine bind_total (assertType_total he) (fun _ _ => ?_)
  refine bind_total (buildStixCyberObservable_total ht hC) (fun cyber h_cyber => ?_)
  exact ⟨_, rfl⟩

theorem convertMutexToStix_total {S : Schema} (hS : S.ExtKeysDistinct) {inst : Obj} {t : String}
    (ht : getProp inst "entity_type" = .str t) (hC : Convertible S inst t)
    (he : S.ENTITY_MUTEX = t) :
    ∃ o, convertMutexToStix S inst t = .ok o := by
  simp only [convertMutexToStix]
  refine bind_total (assertType_total he) (fun _ _ => ?_)
  refine bind_total (buildStixCyberObservable_total ht hC) (fun cyber h_cyber => ?_)
  exact ⟨_, rfl⟩

theorem convertNetworkTrafficToStix_total {S : Schema} (hS : S.ExtKeysDistinct) {inst : Obj} {t : String}
    (ht : getProp inst "entity_type" = .str t) (hC : Convertible S inst t)
    (he : S.ENTITY_NETWORK_TRAFFIC = t) :
    ∃ o, convertNetworkTrafficToStix S inst t = .ok o := by
  simp only [convertNetworkTrafficToStix]
  refine bind_total (assertType_total he) (fun _ _ => ?_)
  refine bind_total (buildStixCyberObservable_total ht hC) (fun cyber h_cyber => ?_)
  refine bind_total (standardIds_total (hC.slots (S.ENTITY_NETWORK_TRAFFIC, S.INPUT_ENCAPSULATES) (by simp [projectorSlots]) he))
    (fun _ _ => ?_)
  exact ⟨_, rfl⟩

theorem convertProcessToStix_total {S : Schema} (hS : S.ExtKeysDistinct) {inst : Obj} {t : String}
    (ht : getProp inst "entity_type" = .str t) (hC : Convertible S inst t)
    (he : S.ENTITY_PROCESS = t) :
    ∃ o, convertProcessToStix S inst t = .ok o := by
  simp only [convertProcessToStix]
  refine bind_total (assertType_total he) (fun _ _ => ?_)
  refine bind_total (buildStixCyberObservable_total ht hC) (fun cyber h_cyber => ?_)
  refine bind_total (standardIds_total (hC.slots (S.ENTITY_PROCESS, S.INPUT_OPENED_CONNECTION) (by simp [projectorSlots]) he))
    (fun _ _ => ?_)
  refine bind_total (standardIds_total (hC.slots (S.ENTITY_PROCESS, S.INPUT_CHILD) (by simp [projectorSlots]) he))
    (fun _ _ => ?_)
  exact ⟨_, rfl⟩

theorem convertSoftwareToStix_total {S : Schema} (hS : S.ExtKeysDistinct) {inst : Obj} {t : String}
    (ht : getProp inst "entity_type" = .str t) (hC : Convertible S inst t)
    (he : S.ENTITY_SOFTWARE = t) :
    ∃ o, convertSoftwareToStix S inst t = .ok o := by
  simp only [convertSoftwareToStix]
  refine bind_total (assertType_total he) (fun _ _ => ?_)
  refine bind_total (buildStixCyberObservable_total ht hC) (fun cyber h_cyber => ?_)
  exact ⟨_, rfl⟩

theorem convertTextToStix_total {S : Schema} (hS : S.ExtKeysDistinct) {inst : Obj} {t : String}
    (ht : getProp inst "entity_type" = .str t) (hC : Convertible S inst t)
    (he : S.ENTITY_TEXT = t) :
    ∃ o, convertTextToStix S inst t = .ok o := by
  simp only [convertTextToStix]
  refine bind_total (assertType_total he) (fun _ _ => ?_)
  refine bind_total (buildStixCyberObservable_total ht hC) (fun stixCyberObject h_stixCyberObject => ?_)
  refine bind_total (labelValues_total hC) (fun _ _ => ?_)
  refine bind_total (buildExternalReferences_ok hC) (fun _ _ => ?_)
  exact ⟨_, rfl⟩

theorem convertURLToStix_total {S : Schema} (hS : S.ExtKeysDistinct) {inst : Obj} {t : String}
    (ht : getProp inst "entity_type" = .str t) (hC : Convertible S inst t)
    (he : S.ENTITY_URL = t) :
    ∃ o, convertURLToStix S inst t = .ok o := by
  simp only [convertURLToStix]
  refine bind_total (assertType_total he) (fun _ _ => ?_)
  refine bind_total (buildStixCyberObservable_total ht hC) (fun cyber h_cyber => ?_)
  exact ⟨_, rfl⟩

theorem convertUserAccountToStix_total {S : Schema} (hS : S.ExtKeysDistinct) {inst : Obj} {t : String}
    (ht : getProp inst "entity_type" = .str t) (hC : Convertible S inst t)
    (he : S.ENTITY_USER_ACCOUNT = t) :
    ∃ o, convertUserAccountToStix S inst t = .ok o := by
  simp only [convertUserAccountToStix]
  refine bind_total (assertType_total he) (fun _ _ => ?_)
  refine bind_total (buildStixCyberObservable_total ht hC) (fun cyber h_cyber => ?_)
  exact ⟨_, rfl⟩

theorem convertWindowsRegistryKeyToStix_total {S : Schema} (hS : S.ExtKeysDistinct) {inst : Obj} {t : String}
    (ht : getProp inst "entity_type" = .str t) (hC : Convertible S inst t)
    (he : S.ENTITY_WINDOWS_REGISTRY_KEY = t) :
    ∃ o, convertWindowsRegistryKeyToStix S inst t = .ok o := by
  simp only [convertWindowsRegistryKeyToStix]
  refine bind_total (assertType_total he) (fun _ _ => ?_)
  refine bind_total (buildStixCyberObservable_total ht hC) (fun cyber h_cyber => ?_)
  refine bind_total (buildWindowsRegistryValueType_total (hC.slots (S.ENTITY_WINDOWS_REGISTRY_KEY, S.INPUT_VALUES) (by simp [projectorSlots]) he)) (fun _ _ => ?_)
  exact ⟨_, rfl⟩

theorem convertX509CertificateToStix_total {S : Schema} (hS : S.ExtKeysDistinct) {inst : Obj} {t : String}
    (ht : getProp inst "entity_type" = .str t) (hC : Convertible S inst t)
    (he : S.ENTITY_HASHED_OBSERVABLE_X509_CERTIFICATE = t) :
    ∃ o, convertX509CertificateToStix S inst t = .ok o := by
  simp only [convertX509CertificateToStix]
  refine bind_total (assertType_total he) (fun _ _ => ?_)
  refine bind_total (buildStixCyberObservable_total ht hC) (fun cyber h_cyber => ?_)
  refine bind_total ⟨_, cleanObject_noext _ (by rfl)⟩ (fun _ _ => ?_)
  exact ⟨_, rfl⟩

theorem convertRelationToStix_total {S : Schema} (hS : S.ExtKeysDistinct) {inst : Obj} {t : String}
    (ht : getProp inst "entity_type" = .str t) (hC : Convertible S inst t)
    (hfrom : isEmptyField (getProp inst "from") = false)
    (hto : isEmptyField (getProp inst "to") = false) :
    ∃ o, convertRelationToStix S inst = .ok o := by
  simp only [convertRelationToStix]
  refine bind_total (checkInstanceCompletion_total hfrom hto) (fun _ _ => ?_)
  refine bind_total (buildStixRelationship_total ht hC) (fun stixRelationship h_stixRelationship => ?_)
  refine bind_total (buildExternalReferences_ok hC) (fun _ _ => ?_)
  refine bind_total (buildKillChainPhases_total hC) (fun _ _ => ?_)
  refine bind_total (cleanObject_block_total (buildStixDomain_projected h_stixRelationship) _ _ (by rfl))
    (fun _ _ => ?_)
  exact ⟨_, rfl⟩

theorem convertSightingToStix_total {S : Schema} (hS : S.ExtKeysDistinct) {inst : Obj} {t : String}
    (ht : getProp inst "entity_type" = .str t) (hC : Convertible S inst t)
    (hfrom : isEmptyField (getProp inst "from") = false)
    (hto : isEmptyField (getProp inst "to") = false) :
    ∃ o, convertSightingToStix S inst = .ok o := by
  simp only [convertSightingToStix]
  refine bind_total (checkInstanceCompletion_total hfrom hto) (fun _ _ => ?_)
  refine bind_total (buildStixRelationship_total ht hC) (fun stixRelationship h_stixRelationship => ?_)
  refine bind_total (cleanObject_block_total (buildStixDomain_projected h_stixRelationship) _ _ (by rfl))
    (fun _ _ => ?_)
  exact ⟨_, rfl⟩

theorem convertDomainKind_total {S : Schema} (hS : S.ExtKeysDistinct) {inst : Obj} {t : String}
    (ht : getProp inst "entity_type" = .str t) (hC : Convertible S inst t)
    (hp : (S.isStixDomainObjectIdentity t || S.isStixDomainObjectLocation t || (domainProjectorTypes S).contains t) = true) :
    ∃ o, convertDomainKind S inst t = .ok o := by
  unfold convertDomainKind
  refine ite_total (fun he => convertIdentityToStix_total hS ht hC he) (fun h0 => ?_)
  refine ite_total (fun he => convertLocationToStix_total hS ht hC he) (fun h1 => ?_)
  refine ite_total (fun he => convertReportToStix_total hS ht hC he) (fun h2 => ?_)
  refine ite_total (fun he => convertMalwareToStix_total hS ht hC he) (fun h3 => ?_)
  refine ite_total (fun he => convertInfrastructureToStix_total hS ht hC he) (fun h4 => ?_)
  refine ite_total (fun he => convertAttackPatternToStix_total hS ht hC he) (fun h5 => ?_)
  refine ite_total (fun he => convertCampaignToStix_total hS ht hC he) (fun h6 => ?_)
  refine ite_total (fun he => convertThreatActorToStix_total hS ht hC he) (fun h7 => ?_)
  refine ite_total (fun he => convertNoteToStix_total hS ht hC he) (fun h8 => ?_)
  refine ite_total (fun he => convertOpinionToStix_total hS ht hC he) (fun h9 => ?_)
  refine ite_total (fun he => convertObservedDateToStix_total hS ht hC he) (fun h10 => ?_)
  refine ite_total (fun he => convertCourseOfActionToStix_total hS ht hC he) (fun h11 => ?_)
  refine ite_total (fun he => convertIncidentToStix_total hS ht hC he) (fun h12 => ?_)
  refine ite_total (fun he => convertIndicatorToStix_total hS ht hC he) (fun h13 => ?_)
  refine ite_total (fun he => convertIntrusionSetToStix_total hS ht hC he) (fun h14 => ?_)
  refine ite_total (fun he => convertToolToStix_total hS ht hC he) (fun h15 => ?_)
  refine ite_total (fun he => convertVulnerabilityToStix_total hS ht hC he) (fun h16 => ?_)
  exfalso
  simp only [domainProjectorTypes, List.contains_cons, List.contains_nil, Bool.or_false, Bool.or_eq_true,
    beq_iff_eq] at hp
  rcases hp with (e | e) | e | e | e | e | e | e | e | e | e | e | e | e | e | e | e
  all_goals first
    | exact h0 e
    | exact h1 e
    | exact h2 e.symm
    | exact h3 e.symm
    | exact h4 e.symm
    | exact h5 e.symm
    | exact h6 e.symm
    | exact h7 e.symm
    | exact h8 e.symm
    | exact h9 e.symm
    | exact h10 e.symm
    | exact h11 e.symm
    | exact h12 e.symm
    | exact h13 e.symm
    | exact h14 e.symm
    | exact h15 e.symm
    | exact h16 e.symm

theorem convertMetaKind_total {S : Schema} (hS : S.ExtKeysDistinct) {inst : Obj} {t : String}
    (ht : getProp inst "entity_type" = .str t) (hC : Convertible S inst t)
    (hp : ((metaProjectorTypes S).contains t) = true) :
    ∃ o, convertMetaKind S inst t = .ok o := by
  unfold convertMetaKind
  refine ite_total (fun _ => convertMarkingToStix_total hS ht hC) (fun h0 => ?_)
  refine ite_total (fun _ => convertLabelToStix_total hS ht hC) (fun h1 => ?_)
  refine ite_total (fun _ => convertKillChainPhaseToStix_total hS ht hC) (fun h2 => ?_)
  refine ite_total (fun _ => convertExternalReferenceToStix_total hS ht hC) (fun h3 => ?_)
  exfalso
  simp only [metaProjectorTypes, List.contains_cons, List.contains_nil, Bool.or_false, Bool.or_eq_true,
    beq_iff_eq] at hp
  rcases hp with e | e | e | e
  all_goals first
    | exact h0 e.symm
    | exact h1 e.symm
    | exact h2 e.symm
    | exact h3 e.symm

theorem convertObservableKind_total {S : Schema} (hS : S.ExtKeysDistinct) {inst : Obj} {t : String}
    (ht : getProp inst "entity_type" = .str t) (hC : Convertible S inst t)
    (hp : ((observableProjectorTypes S).contains t) = true) :
    ∃ o, convertObservableKind S inst t = .ok o := by
  unfold convertObservableKind
  refine ite_total (fun _ => convertWindowsRegistryValueToStix_total hS ht hC) (fun h0 => ?_)
  refine ite_total (fun _ => convertEmailMimePartToStix_total hS ht hC) (fun h1 => ?_)
  refine ite_total (fun he => convertArtifactToStix_total hS ht hC he) (fun h2 => ?_)
  refine ite_total (fun he => convertAutonomousSystemToStix_total hS ht hC he) (fun h3 => ?_)
  refine ite_total (fun he => convertCryptocurrencyWalletToStix_total hS ht hC he) (fun h4 => ?_)
  refine ite_total (fun he => convertCryptographicKeyToStix_total hS ht hC he) (fun h5 => ?_)
  refine ite_total (fun he => convertDirectoryToStix_total hS ht hC he) (fun h6 => ?_)
  refine ite_total (fun he => convertDomainNameToStix_total hS ht hC he) (fun h7 => ?_)
  refine ite_total (fun he => convertEmailAddressToStix_total hS ht hC he) (fun h8 => ?_)
  refine ite_total (fun he => convertEmailMessageToStix_total hS ht hC he) (fun h9 => ?_)
  refine ite_total (fun he => convertFileToStix_total hS ht hC he) (fun h10 => ?_)
  refine ite_total (fun he => convertHostnameToStix_total hS ht hC he) (fun h11 => ?_)
  refine ite_total (fun he => convertIPv4AddressToStix_total hS ht hC he) (fun h12 => ?_)
  refine ite_total (fun he => convertIPv6AddressToStix_total hS ht hC he) (fun h13 => ?_)
  refine ite_total (fun he => convertMacAddressToStix_total hS ht hC he) (fun h14 => ?_)
  refine ite_total (fun he => convertMutexToStix_total hS ht hC he) (fun h15 => ?_)
  refine ite_total (fun he => convertNetworkTrafficToStix_total hS ht hC he) (fun h16 => ?_)
  refine ite_total (fun he => convertProcessToStix_total hS ht hC he) (fun h17 => ?_)
  refine ite_total (fun he => convertSoftwareToStix_total hS ht hC he) (fun h18 => ?_)
  refine ite_total (fun he => convertTextToStix_total hS ht hC he) (fun h19 => ?_)
  refine ite_total (fun he => convertURLToStix_total hS ht hC he) (fun h20 => ?_)
  refine ite_total (fun he => convertUserAccountToStix_total hS ht hC he) (fun h21 => ?_)
  refine ite_total (fun he => convertWindowsRegistryKeyToStix_total hS ht hC he) (fun h22 => ?_)
  refine ite_total (fun he => convertX509CertificateToStix_total hS ht hC he) (fun h23 => ?_)
  exfalso
  simp only [observableProjectorTypes, List.contains_cons, List.contains_nil, Bool.or_false, Bool.or_eq_true,
    beq_iff_eq] at hp
  rcases hp with e | e | e | e | e | e | e | e | e | e | e | e | e | e | e | e | e | e | e | e | e | e | e | e
  all_goals first
    | exact h0 e.symm
    | exact h1 e.symm
    | exact h2 e.symm
    | exact h3 e.symm
    | exact h4 e.symm
    | exact h5 e.symm
    | exact h6 e.symm
    | exact h7 e.symm
    | exact h8 e.symm
    | exact h9 e.symm
    | exact h10 e.symm
    | exact h11 e.symm
    | exact h12 e.symm
    | exact h13 e.symm
    | exact h14 e.symm
    | exact h15 e.symm
    | exact h16 e.symm
    | exact h17 e.symm
    | exact h18 e.symm
    | exact h19 e.symm
    | exact h20 e.symm
    | exact h21 e.symm
    | exact h22 e.symm
    | exact h23 e.symm

theorem convertRelationshipKind_total {S : Schema} (hS : S.ExtKeysDistinct) {inst : Obj}
    {t : String} (ht : getProp inst "entity_type" = .str t) (hC : Convertible S inst t)
    (hfrom : isEmptyField (getProp inst "from") = false)
    (hto : isEmptyField (getProp inst "to") = false)
    (hp : (S.isStixCoreRelationship t || S.isStixCyberObservableRelationship t ||
      S.isStixSightingRelationship t || S.isStixMetaRelationship t) = true) :
    ∃ o, convertRelationshipKind S inst t = .ok o := by
  unfold convertRelationshipKind
  refine ite_total (fun _ => convertRelationToStix_total hS ht hC hfrom hto) (fun h0 => ?_)
  refine ite_total (fun _ => convertRelationToStix_total hS ht hC hfrom hto) (fun h1 => ?_)
  refine ite_total (fun _ => convertSightingToStix_total hS ht hC hfrom hto) (fun h2 => ?_)
  refine ite_total (fun _ => convertRelationToStix_total hS ht hC hfrom hto) (fun h3 => ?_)
  exfalso
  simp only [Bool.or_eq_true] at hp
  rcases hp with ((e | e) | e) | e
  · exact h0 e
  · exact h1 e
  · exact h2 e
  · exact h3 e

theorem convertToStix_total {S : Schema} (hS : S.ExtKeysDistinct) {inst : Obj} {t : String}
    (ht : getProp inst "entity_type" = .str t) (hC : Convertible S inst t)
    (hp : reachesProjector S t = true)
    (hrel : S.isStixRelationship t = true →
      isEmptyField (getProp inst "from") = false ∧ isEmptyField (getProp inst "to") = false) :
    ∃ o, convertToStix S inst = .ok o := by
  unfold reachesProjector at hp
  rw [Bool.and_eq_true] at hp
  obtain ⟨hsup, hproj⟩ := hp
  unfold hasProjector at hproj
  unfold convertToStix
  rw [entityType_of_str ht, ok_bind]
  refine ite_total (fun hc => ?_) (fun _ => ?_)
  · exfalso
    cases h1 : S.isStixObject t <;> cases h2 : S.isStixRelationship t <;> simp_all
  refine ite_total (fun hr => ?_) (fun hr => ?_)
  · rw [if_pos hr] at hproj
    exact convertRelationshipKind_total hS ht hC (hrel hr).1 (hrel hr).2 hproj
  rw [if_neg hr] at hproj
  refine ite_total (fun hd => ?_) (fun hd => ?_)
  · rw [if_pos hd] at hproj
    exact convertDomainKind_total hS ht hC hproj
  rw [if_neg hd] at hproj
  refine ite_total (fun hm => ?_) (fun hm => ?_)
  · rw [if_pos hm] at hproj
    exact convertMetaKind_total hS ht hC hproj
  rw [if_neg hm] at hproj
  refine ite_total (fun ho => ?_) (fun ho => ?_)
  · rw [if_pos ho] at hproj
    exact convertObservableKind_total hS ht hC hproj
  rw [if_neg ho] at hproj
  exact absurd hproj (by simp)

/-! ## C31 -/

/-- C31: for every instance whose `_index` is a non-empty string, whose
`entity_type` is a non-empty type that the dispatcher routes to a concrete
projector, whose `from` and `to` are non-empty when the type is a relationship
or sighting type, on every entry of whose `x_opencti_stix_ids` the UUID version
is defined, and whose multi-valued slots (those the builders map over and those
the projector of its type maps over) have their declared type (absent, `null`
or a list of objects), `convertStoreToStix` returns an object: no guard, type
assertion or kind check raises. -/
theorem C31_conversion_returns (S : Schema) (hS : S.ExtKeysDistinct) (inst : Obj)
    (idx t : String) (ids : List JValue)
    (hi : getProp inst "_index" = .str idx) (hine : idx ≠ "")
    (ht : getProp inst "entity_type" = .str t) (htne : t ≠ "")
    (hp : reachesProjector S t = true)
    (hrel : S.isStixRelationship t = true →
      isEmptyField (getProp inst "from") = false ∧ isEmptyField (getProp inst "to") = false)
    (hids : nullish (getProp inst "x_opencti_stix_ids") (.arr []) = .arr ids)
    (hver : ∀ id ∈ ids, (uuidVersionOf S id).isSome = true)
    (hcommon : ∀ k ∈ commonSlots S, isObjectList (getProp inst k) = true)
    (hslots : ∀ p ∈ projectorSlots S, p.1 = t → isObjectList (getProp inst p.2) = true) :
    ∃ out, convertStoreToStix S inst = .ok out := by
  have hC : Convertible S inst t := ⟨⟨idx, hi⟩, ⟨ids, hids, hver⟩, hcommon, hslots⟩
  have h1 : isEmptyField (getProp inst "_index") = false := by
    rw [hi]
    simp [isEmptyField, hine]
  have h2 : isEmptyField (getProp inst "entity_type") = false := by
    rw [ht]
    simp [isEmptyField, htne]
  rw [convertStoreToStix_of_loaded S inst h1 h2]
  refine bind_total (convertToStix_total hS ht hC hp hrel) (fun o ho => ?_)
  refine bind_total (cleanObject_projected_total (convertToStix_projected hS o ho))
    (fun stix hc => ?_)
  rw [isValidStix_of_cleaned ho hc]
  exact ⟨stix, rfl⟩

/-- C31 on the sample malware and on the sample relationship. -/
theorem C31_conversion_returns_witness :
    opencti.ExtKeysDistinct ∧ reachesProjector opencti "Malware" = true ∧
    (∃ out, convertStoreToStix opencti sampleMalware = .ok out) ∧
    ∃ out, convertStoreToStix opencti sampleRelation = .ok out :=
  ⟨opencti_extKeysDistinct, by decide,
    C31_conversion_returns opencti opencti_extKeysDistinct sampleMalware
      "opencti_stix_domain_objects" "Malware" _ rfl (by decide) rfl (by decide) (by decide)
      (fun h => absurd h (by decide)) rfl (by decide) (by decide) (by decide),
    C31_conversion_returns opencti opencti_extKeysDistinct sampleRelation
      _ _ _ rfl (by decide) rfl (by decide) (by decide)
      (fun _ => ⟨rfl, rfl⟩) rfl (by decide) (by decide) (by decide)⟩

end StixConverter
